import Mathlib

/-!
# 2048 terminal: move tables, bitboard codec and expectimax search

A shallow embedding of `AIEvaluator` and of the move logic of `Game2048`
(`src/2048.cpp`, `src/2048src.h`).

* A `uint64_t` board and a `uint16_t` row are natural numbers; a left shift
  of a 64-bit word is `shl64`, which drops the bits pushed past bit 63.
* `std::array` tables are functions from the index to the entry, written
  entry by entry by `initTables` exactly as the source loop does.
* `vector<vector<int>>` is `List (List Int)`, read with a default of `0`.
-/

namespace AIEvaluator

/-! ## Bit helpers -/

/-- Left shift of a `uint64_t`: bits shifted past bit 63 are lost. -/
def shl64 (x n : Nat) : Nat := (x <<< n) % 2 ^ 64

/-- The 4-bit cell number `n` of a packed word: `(x >> 4n) & 0xf`. -/
def cell (x n : Nat) : Nat := (x >>> (4 * n)) &&& 0xf

/-- Source `AIEvaluator::reverseRow`; the `uint16_t` return type truncates. -/
def reverseRow (row : Nat) : Nat :=
  ((row >>> 12) ||| ((row >>> 4) &&& 0x00F0) ||| ((row <<< 4) &&& 0x0F00) ||| (row <<< 12)) % 2 ^ 16

/-- Source `AIEvaluator::unpackCol`. -/
def unpackCol (row : Nat) : Nat :=
  let tmp := row
  (tmp ||| shl64 tmp 12 ||| shl64 tmp 24 ||| shl64 tmp 36) &&& 0x000F000F000F000F

/-- Source `AIEvaluator::transpose`. -/
def transpose (x : Nat) : Nat :=
  let a1 := x &&& 0xF0F00F0FF0F00F0F
  let a2 := x &&& 0x0000F0F00000F0F0
  let a3 := x &&& 0x0F0F00000F0F0000
  let a := a1 ||| shl64 a2 12 ||| (a3 >>> 12)
  let b1 := a &&& 0xFF00FF0000FF00FF
  let b2 := a &&& 0x00FF00FF00000000
  let b3 := a &&& 0x00000000FF00FF00
  b1 ||| (b2 >>> 24) ||| shl64 b3 24

/-- Source `AIEvaluator::extractRow`. -/
def extractRow (board row : Nat) : Nat := (board >>> (row * 16)) &&& 0xFFFF

/-! ## The left-move simulation of `initTables` -/

/-- The four cells `line[0..3]` decoded from a row pattern in `initTables`. -/
def rowCells (row : Nat) : List Nat :=
  [(row >>> 0) &&& 0xf, (row >>> 4) &&& 0xf, (row >>> 8) &&& 0xf, (row >>> 12) &&& 0xf]

/-- The `uint16_t` pattern packed from `new_line[0..3]` in `initTables`. -/
def packCells (line : List Nat) : Nat :=
  ((line.getD 0 0 <<< 0) ||| (line.getD 1 0 <<< 4) ||| (line.getD 2 0 <<< 8) |||
    (line.getD 3 0 <<< 12)) % 2 ^ 16

/-- Inner loop `for (j = i + 1; j < 4; ++j) if (new_line[j] != 0) break;`:
the value of `j` when the loop is left, started at `j`. -/
def nextNonzero (line : List Nat) : Nat → Nat → Nat
  | 0, j => j
  | fuel + 1, j =>
    if j < 4 then
      if line.getD j 0 ≠ 0 then j else nextNonzero line fuel (j + 1)
    else j

/-- Outer loop `for (int i = 0; i < 3; ++i)` of the left move in
`initTables`, from loop variable `i` on. The branch that executes `i--` is
followed by the loop's own `++i`, so it continues with the same `i`. `none`
means that the iteration budget `fuel` ran out before the loop was left. -/
def slideLoop : Nat → Nat → List Nat → Option (List Nat)
  | 0, _, _ => none
  | fuel + 1, i, new_line =>
    if i < 3 then
      let j := nextNonzero new_line 4 (i + 1)
      if j = 4 then some new_line
      else if new_line.getD i 0 = 0 then
        slideLoop fuel i ((new_line.set i (new_line.getD j 0)).set j 0)
      else if new_line.getD i 0 = new_line.getD j 0 then
        slideLoop fuel (i + 1)
          ((if new_line.getD i 0 ≠ 0xf then new_line.set i (new_line.getD i 0 + 1)
            else new_line).set j 0)
      else slideLoop fuel (i + 1) new_line
    else some new_line

/-- The left move on one line: the loop run from `i = 0`. Six iterations
always suffice (`slideLoop_terminates`), so the default is never used. -/
def moveLineLeft (line : List Nat) : List Nat := (slideLoop 6 0 line).getD line

/-- The `result` pattern computed for `row` by `initTables`. -/
def rowResult (row : Nat) : Nat := packCells (moveLineLeft (rowCells row))

/-! ## The move tables -/

/-- The four static move tables of `AIEvaluator`. -/
structure MoveTables where
  rowLeftTable : Nat → Nat
  rowRightTable : Nat → Nat
  colUpTable : Nat → Nat
  colDownTable : Nat → Nat

/-- Static arrays are zero-initialised. -/
def zeroTables : MoveTables :=
  { rowLeftTable := fun _ => 0, rowRightTable := fun _ => 0,
    colUpTable := fun _ => 0, colDownTable := fun _ => 0 }

/-- One iteration of `for (unsigned row = 0; row < 65536; ++row)` in
`initTables` (the move-table part). All stored values are below `2 ^ 16`
resp. `2 ^ 64`, so the stores do not truncate. -/
def initTablesStep (t : MoveTables) (row : Nat) : MoveTables :=
  let result := rowResult row
  let rev_result := reverseRow result
  let rev_row := reverseRow row
  { rowLeftTable := Function.update t.rowLeftTable row (row ^^^ result)
    rowRightTable := Function.update t.rowRightTable rev_row (rev_row ^^^ rev_result)
    colUpTable := Function.update t.colUpTable row (unpackCol row ^^^ unpackCol result)
    colDownTable :=
      Function.update t.colDownTable rev_row (unpackCol rev_row ^^^ unpackCol rev_result) }

/-- The tables after the iterations `row = 0, ..., n - 1` of the loop in
`initTables`. -/
def buildTables (n : Nat) : MoveTables := (List.range n).foldl initTablesStep zeroTables

/-- Source `AIEvaluator::initTables`: the tables after the loop over all
65536 row patterns. (Marked irreducible so that proofs use the closed form
of the entries instead of unfolding the 65536 iterations.) -/
@[irreducible]
def initTables : MoveTables := buildTables 65536

/-- Source `AIEvaluator::executeMove`, reading the tables built by
`initTables`. -/
def executeMove (move : Int) (board : Nat) : Nat :=
  if move = 0 then
    let ret := board
    let t := transpose board
    let ret := ret ^^^ shl64 (initTables.colUpTable ((t >>> 0) &&& 0xFFFF)) 0
    let ret := ret ^^^ shl64 (initTables.colUpTable ((t >>> 16) &&& 0xFFFF)) 4
    let ret := ret ^^^ shl64 (initTables.colUpTable ((t >>> 32) &&& 0xFFFF)) 8
    let ret := ret ^^^ shl64 (initTables.colUpTable ((t >>> 48) &&& 0xFFFF)) 12
    ret
  else if move = 1 then
    let ret := board
    let t := transpose board
    let ret := ret ^^^ shl64 (initTables.colDownTable ((t >>> 0) &&& 0xFFFF)) 0
    let ret := ret ^^^ shl64 (initTables.colDownTable ((t >>> 16) &&& 0xFFFF)) 4
    let ret := ret ^^^ shl64 (initTables.colDownTable ((t >>> 32) &&& 0xFFFF)) 8
    let ret := ret ^^^ shl64 (initTables.colDownTable ((t >>> 48) &&& 0xFFFF)) 12
    ret
  else if move = 2 then
    let ret := board
    let ret := ret ^^^ shl64 (initTables.rowLeftTable ((board >>> 0) &&& 0xFFFF)) 0
    let ret := ret ^^^ shl64 (initTables.rowLeftTable ((board >>> 16) &&& 0xFFFF)) 16
    let ret := ret ^^^ shl64 (initTables.rowLeftTable ((board >>> 32) &&& 0xFFFF)) 32
    let ret := ret ^^^ shl64 (initTables.rowLeftTable ((board >>> 48) &&& 0xFFFF)) 48
    ret
  else if move = 3 then
    let ret := board
    let ret := ret ^^^ shl64 (initTables.rowRightTable ((board >>> 0) &&& 0xFFFF)) 0
    let ret := ret ^^^ shl64 (initTables.rowRightTable ((board >>> 16) &&& 0xFFFF)) 16
    let ret := ret ^^^ shl64 (initTables.rowRightTable ((board >>> 32) &&& 0xFFFF)) 32
    let ret := ret ^^^ shl64 (initTables.rowRightTable ((board >>> 48) &&& 0xFFFF)) 48
    ret
  else 2 ^ 64 - 1

/-! ## Reference rule of the specification -/

/-- Scan from cell 0 and merge each pair of equal neighbours once into a
cell of rank `min (r + 1) 15`; a merged cell is not merged again. -/
def mergePairs : List Nat → List Nat
  | x :: y :: rest =>
    if x = y then min (x + 1) 15 :: mergePairs rest else x :: mergePairs (y :: rest)
  | l => l

/-- The reference rule `slideLeft`: keep the non-empty cells in order, pack
them toward cell 0, merge equal neighbours once, fill the freed cells
with 0. -/
def slideLeft (cells : List Nat) : List Nat :=
  let packed := mergePairs (cells.filter (fun c => c ≠ 0))
  packed ++ List.replicate (cells.length - packed.length) 0

/-! ## Lines of a board -/

/-- Row `i` of a board as its four cells, from column 0 to column 3. -/
def boardRow (b i : Nat) : List Nat :=
  [cell b (4 * i), cell b (4 * i + 1), cell b (4 * i + 2), cell b (4 * i + 3)]

/-- Column `j` of a board as its four cells, from row 0 to row 3. -/
def boardCol (b j : Nat) : List Nat :=
  [cell b j, cell b (4 + j), cell b (8 + j), cell b (12 + j)]

/-! ## Legality of a move, in the words of the specification -/

/-- The non-empty cells of a line are packed against its head: no empty cell
lies between a tile and the edge the line starts at. -/
def packedLine : List Nat → Prop
  | [] => True
  | x :: rest => (x = 0 → ∀ y ∈ rest, y = 0) ∧ packedLine rest

/-- No two neighbouring cells of the line hold the same non-zero rank. -/
def noEqualNeighbours : List Nat → Prop
  | x :: y :: rest => ¬ (x ≠ 0 ∧ x = y) ∧ noEqualNeighbours (y :: rest)
  | _ => True

/-- Line `k` along direction `d`, listed from the edge the move pushes
toward: 0 = up (columns from row 0), 1 = down (columns from row 3),
2 = left (rows from column 0), 3 = right (rows from column 3). -/
def moveLine (d : Int) (b k : Nat) : List Nat :=
  if d = 0 then boardCol b k
  else if d = 1 then (boardCol b k).reverse
  else if d = 2 then boardRow b k
  else (boardRow b k).reverse

/-- The move in direction `d` is illegal: every line along `d` is already
packed against the target edge and has no two equal neighbouring tiles. -/
def moveIllegal (d : Int) (b : Nat) : Prop :=
  ∀ k, k < 4 → packedLine (moveLine d b k) ∧ noEqualNeighbours (moveLine d b k)

/-- The mirror image `M` of a board: `reverseRow` applied to each of the
four 16-bit rows. -/
def mirror (b : Nat) : Nat :=
  shl64 (reverseRow (extractRow b 0)) 0 ||| shl64 (reverseRow (extractRow b 1)) 16 |||
    shl64 (reverseRow (extractRow b 2)) 32 ||| shl64 (reverseRow (extractRow b 3)) 48

end AIEvaluator

/-! ## Bitboard codec -/

/-- Source global `_2logMap`: tile value to rank. -/
def _2logMap : List (Int × Int) :=
  [(2, 1), (4, 2), (8, 3), (16, 4), (32, 5), (64, 6), (128, 7), (256, 8),
   (512, 9), (1024, 10), (2048, 11), (4096, 12), (8192, 13), (16384, 14),
   (32768, 15), (65536, 16)]

/-- The read `_2logMap[value]`: `std::map::operator[]` returns the stored
rank, or the value-initialised `0` for a key that is not in the map. -/
def logMapAt (value : Int) : Int := (_2logMap.lookup value).getD 0

namespace AIEvaluator

/-- The `tile` computed for one grid cell in `convertToBitboard`, after the
cast to `uint64_t` (the tile is never negative). -/
def convertCell (value : Int) : Nat :=
  let tile : Int := 0
  let tile : Int :=
    if value > 0 then
      let tile := logMapAt value
      if tile > 15 then 15 else tile
    else tile
  tile.toNat

/-- Source `AIEvaluator::convertToBitboard`. -/
def convertToBitboard (board : List (List Int)) : Nat :=
  (List.range 4).foldl (fun bitboard i =>
    (List.range 4).foldl (fun bitboard j =>
      let value := (board.getD i []).getD j 0
      let shift := (i * 4 + j) * 4
      bitboard ||| shl64 (convertCell value) shift) bitboard) 0

end AIEvaluator

namespace Game2048

/-! ## Move execution of the game -/

/-- Source constant `BOARD_SIZE`. -/
def BOARD_SIZE : Nat := 4

/-- Source `Game2048::rotateBoard`: `rotated[j][BOARD_SIZE - 1 - i] =
board[i][j]` for all `i`, `j`, starting from a zero-filled board. -/
def rotateBoard (board : List (List Int)) : List (List Int) :=
  (List.range BOARD_SIZE).foldl (fun rotated i =>
    (List.range BOARD_SIZE).foldl (fun rotated j =>
      rotated.set j
        ((rotated.getD j []).set (BOARD_SIZE - 1 - i) ((board.getD i []).getD j 0)))
      rotated)
    (List.replicate BOARD_SIZE (List.replicate BOARD_SIZE 0))

/-- The local variables `newRow`, `idx`, `merged` of `moveRowLeft`. -/
structure RowState where
  newRow : List Int
  idx : Nat
  merged : Bool

/-- One iteration of `for (int num : row)` in `moveRowLeft`. -/
def moveRowStep (s : RowState) (num : Int) : RowState :=
  if num = 0 then s
  else if s.newRow.getD s.idx 0 = 0 then
    { s with newRow := s.newRow.set s.idx num }
  else if s.newRow.getD s.idx 0 = num then
    { newRow := s.newRow.set s.idx (s.newRow.getD s.idx 0 * 2), idx := s.idx + 1,
      merged := true }
  else
    { s with newRow := s.newRow.set (s.idx + 1) num, idx := s.idx + 1 }

/-- Source `Game2048::moveRowLeft`: the row after the call and the returned
flag. The score bookkeeping of the merge branch does not influence either
and is left out. -/
def moveRowLeft (row : List Int) : List Int × Bool :=
  let s := row.foldl moveRowStep
    { newRow := List.replicate BOARD_SIZE 0, idx := 0, merged := false }
  if row ≠ s.newRow then (s.newRow, true) else (row, s.merged)

/-- Source `Game2048::moveLeft`: the board after the call and the returned
flag `ok`. -/
def moveLeft (board : List (List Int)) : List (List Int) × Bool :=
  (board.map fun r => (moveRowLeft r).1, board.any fun r => (moveRowLeft r).2)

/-- Source `Game2048::moveRight`. -/
def moveRight (board : List (List Int)) : List (List Int) × Bool :=
  let r := moveLeft (rotateBoard (rotateBoard board))
  (rotateBoard (rotateBoard r.1), r.2)

/-- Source `Game2048::moveUp`. -/
def moveUp (board : List (List Int)) : List (List Int) × Bool :=
  let r := moveLeft (rotateBoard (rotateBoard (rotateBoard board)))
  (rotateBoard r.1, r.2)

/-- Source `Game2048::moveDown`. -/
def moveDown (board : List (List Int)) : List (List Int) × Bool :=
  let r := moveLeft (rotateBoard board)
  (rotateBoard (rotateBoard (rotateBoard r.1)), r.2)

/-- The dispatch `switch (aiBestMove)` of `Game2048::play`: 0 is `moveUp`,
1 is `moveDown`, 2 is `moveLeft`, 3 is `moveRight`; any other index moves
nothing. -/
def playMove (aiBestMove : Int) (board : List (List Int)) : List (List Int) × Bool :=
  if aiBestMove = 0 then moveUp board
  else if aiBestMove = 1 then moveDown board
  else if aiBestMove = 2 then moveLeft board
  else if aiBestMove = 3 then moveRight board
  else (board, false)

/-- The merge rule of the game on the non-empty tiles of a row: equal
neighbours are replaced by one tile of twice the value, once. -/
def mergeDouble : List Int → List Int
  | x :: y :: rest =>
    if x = y then (x * 2) :: mergeDouble rest else x :: mergeDouble (y :: rest)
  | l => l

/-- The row produced by the game's left move, as a list function: drop the
empty cells, merge, pad with empty cells. -/
def gameSlide (row : List Int) : List Int :=
  let packed := mergeDouble (row.filter (fun c => c ≠ 0))
  packed ++ List.replicate (row.length - packed.length) 0

/-- The tile values that a cell holds in a grid with cells 0 or a power of
two in `[2, 32768]`. -/
def tileValues : List Int :=
  [2, 4, 8, 16, 32, 64, 128, 256, 512, 1024, 2048, 4096, 8192, 16384, 32768]

/-- Row `i` of a grid as its four cells `grid[i][0..3]`. -/
def gridRow (grid : List (List Int)) (i : Nat) : List Int :=
  [(grid.getD i []).getD 0 0, (grid.getD i []).getD 1 0, (grid.getD i []).getD 2 0,
    (grid.getD i []).getD 3 0]

/-- Column `j` of a grid as its four cells `grid[0..3][j]`. -/
def gridCol (grid : List (List Int)) (j : Nat) : List Int :=
  [(grid.getD 0 []).getD j 0, (grid.getD 1 []).getD j 0, (grid.getD 2 []).getD j 0,
    (grid.getD 3 []).getD j 0]

/-- A 4x4 grid whose cells are each 0 or a power of two `2 ^ k` with
`1 ≤ k ≤ top`. -/
def IsGrid (top : Nat) (grid : List (List Int)) : Prop :=
  grid.length = 4 ∧ ∀ row ∈ grid, row.length = 4 ∧
    ∀ v ∈ row, v = 0 ∨ ∃ k : Nat, 1 ≤ k ∧ k ≤ top ∧ v = 2 ^ k

end Game2048

/-! ## Floating point -/

/-- The floating-point environment of the search. A `float` or `double`
value is the rational number it denotes (all values that occur are finite);
an arithmetic operation is the exact operation followed by the rounding of
its format. The roundings are not fixed bit by bit: the search is verified
for every pair of roundings with the properties listed here, which IEEE 754
round-to-nearest has. `heurScoreTable` is the table of that name filled by
`initTables` with `pow` in `float`; its entries are arbitrary here. -/
structure FloatEnv where
  /-- Rounding to `float`. -/
  rnd32 : ℚ → ℚ
  /-- Rounding to `double`. -/
  rnd64 : ℚ → ℚ
  /-- The static table `heurScoreTable`. -/
  heurScoreTable : Nat → ℚ
  /-- Rounding to `float` is monotone. -/
  rnd32_mono : ∀ a b : ℚ, a ≤ b → rnd32 a ≤ rnd32 b
  /-- Rounding to `double` is monotone. -/
  rnd64_mono : ∀ a b : ℚ, a ≤ b → rnd64 a ≤ rnd64 b
  /-- A `double` is rounded to itself. -/
  rnd64_idem : ∀ a : ℚ, rnd64 (rnd64 a) = rnd64 a
  /-- Zero is a `float`. -/
  rnd32_zero : rnd32 0 = 0
  /-- One is a `float`. -/
  rnd32_one : rnd32 1 = 1
  /-- The literal `1e-6` does not underflow when it is converted to `float`. -/
  eps_pos : 0 < rnd32 (rnd64 (1 / 1000000))

/-- Exact arithmetic: nothing is rounded, the heuristic table is zero. -/
def exactEnv : FloatEnv :=
  { rnd32 := fun a => a
    rnd64 := fun a => a
    heurScoreTable := fun _ => 0
    rnd32_mono := fun _ _ h => h
    rnd64_mono := fun _ _ h => h
    rnd64_idem := fun _ => rfl
    rnd32_zero := rfl
    rnd32_one := rfl
    eps_pos := by norm_num }

namespace FloatEnv

/-- `float` addition. -/
def fadd (F : FloatEnv) (a b : ℚ) : ℚ := F.rnd32 (a + b)

/-- `float` multiplication. -/
def fmul (F : FloatEnv) (a b : ℚ) : ℚ := F.rnd32 (a * b)

/-- `float` division. -/
def fdiv (F : FloatEnv) (a b : ℚ) : ℚ := F.rnd32 (a / b)

end FloatEnv

namespace AIEvaluator

/-! ## Search -/

/-- Source constant `CPROB_THRESH_BASE = 0.0001f`. -/
def CPROB_THRESH_BASE (F : FloatEnv) : ℚ := F.rnd32 (1 / 10000)

/-- Source constant `CACHE_DEPTH_LIMIT`. -/
def CACHE_DEPTH_LIMIT : Int := 15

/-- Source `AIEvaluator::countEmpty`; `~x` is the 64-bit complement and the
additions wrap at 64 bits. -/
def countEmpty (x : Nat) : Nat :=
  let x := x ||| ((x >>> 2) &&& 0x3333333333333333)
  let x := x ||| (x >>> 1)
  let x := (x ^^^ (2 ^ 64 - 1)) &&& 0x1111111111111111
  let x := (x + (x >>> 32)) % 2 ^ 64
  let x := (x + (x >>> 16)) % 2 ^ 64
  let x := (x + (x >>> 8)) % 2 ^ 64
  let x := (x + (x >>> 4)) % 2 ^ 64
  x &&& 0xf

/-- First loop of `countDistinctTiles`: `while (board) { bitset |= 1 <<
(board & 0xf); board >>= 4; }` on the `uint16_t` `bitset`. `none` means
that `fuel` iterations did not reach `board == 0`. -/
def distinctLoop : Nat → Nat → Nat → Option Nat
  | 0, _, _ => none
  | fuel + 1, board, bitset =>
    if board ≠ 0 then
      distinctLoop fuel (board >>> 4) ((bitset ||| (1 <<< (board &&& 0xf))) % 2 ^ 16)
    else some bitset

/-- Second loop of `countDistinctTiles`: `while (bitset) { bitset &= bitset
- 1; count++; }`. `none` means that `fuel` iterations did not reach
`bitset == 0`. -/
def popLoop : Nat → Nat → Int → Option Int
  | 0, _, _ => none
  | fuel + 1, bitset, count =>
    if bitset ≠ 0 then popLoop fuel (bitset &&& (bitset - 1)) (count + 1) else some count

/-- Source `AIEvaluator::countDistinctTiles`. A 64-bit board is exhausted
after 16 shifts, and each iteration of the second loop decreases the 16-bit
`bitset`, so the iteration budgets are never used up
(`countDistinctTiles_isSome`). -/
def countDistinctTiles (board : Nat) : Option Int :=
  match distinctLoop 17 board 0 with
  | none => none
  | some bitset => popLoop 65536 (bitset >>> 1) 0

/-- Source `AIEvaluator::scoreHelper`, with the table of the environment. -/
def scoreHelper (F : FloatEnv) (board : Nat) : ℚ :=
  F.fadd (F.fadd (F.fadd (F.heurScoreTable ((board >>> 0) &&& 0xFFFF))
    (F.heurScoreTable ((board >>> 16) &&& 0xFFFF)))
    (F.heurScoreTable ((board >>> 32) &&& 0xFFFF)))
    (F.heurScoreTable ((board >>> 48) &&& 0xFFFF))

/-- Source `AIEvaluator::scoreHeurBoard`. -/
def scoreHeurBoard (F : FloatEnv) (board : Nat) : ℚ :=
  F.fadd (scoreHelper F board) (scoreHelper F (transpose board))

/-- Source `AIEvaluator::EvalState`; `transTable` is the
`unordered_map<uint64_t, pair<int, float>>` the state refers to. -/
structure EvalState where
  transTable : Nat → Option (Int × ℚ)
  maxdepth : Int
  curdepth : Int
  cachehits : Int
  moves_evaled : Nat
  depth_limit : Int

/-- The loop `while (tile_2 && count < num_open)` of `scoreTileChooseNode`,
with the local variables `res`, `tmp`, `tile_2`, `count`; `moveNode` is
`scoreMoveNode`. `none` means that `fuel` iterations did not leave the loop
or that a call of `moveNode` gave no result. -/
def tileLoop (F : FloatEnv) (moveNode : EvalState → Nat → ℚ → Option (ℚ × EvalState))
    (board : Nat) (cprob : ℚ) (num_open : Nat) :
    Nat → EvalState → ℚ → Nat → Nat → Nat → Option (ℚ × EvalState)
  | 0, _, _, _, _, _ => none
  | fuel + 1, state, res, tmp, tile_2, count =>
    if tile_2 ≠ 0 ∧ count < num_open then
      if tmp &&& 0xf = 0 then
        match moveNode state (board ||| tile_2) (F.fmul cprob (F.rnd32 (9 / 10))) with
        | none => none
        | some (v2, state) =>
          let res := F.fadd res (F.fmul v2 (F.rnd32 (9 / 10)))
          match moveNode state (board ||| shl64 tile_2 1) (F.fmul cprob (F.rnd32 (1 / 10))) with
          | none => none
          | some (v4, state) =>
            let res := F.fadd res (F.fmul v4 (F.rnd32 (1 / 10)))
            tileLoop F moveNode board cprob num_open fuel state res (tmp >>> 4)
              (shl64 tile_2 4) (count + 1)
      else
        tileLoop F moveNode board cprob num_open fuel state res (tmp >>> 4) (shl64 tile_2 4)
          count
    else some (res, state)

/-- One iteration of `for (int move = 0; move < 4; ++move)` in
`scoreMoveNode`; `std::max(best, v)` is `v` if `best < v` and `best`
otherwise. -/
def moveNodeStep (tileNode : EvalState → Nat → ℚ → Option (ℚ × EvalState)) (board : Nat)
    (cprob : ℚ) (acc : Option (ℚ × EvalState)) (move : Int) : Option (ℚ × EvalState) :=
  match acc with
  | none => none
  | some (best, state) =>
    let newboard := executeMove move board
    let state := { state with moves_evaled := (state.moves_evaled + 1) % 2 ^ 64 }
    if board ≠ newboard then
      match tileNode state newboard cprob with
      | none => none
      | some (v, state) => some (if best < v then v else best, state)
    else some (best, state)

/-- Source `AIEvaluator::scoreMoveNode`; `tileNode` is
`scoreTileChooseNode`. -/
def scoreMoveNodeWith (tileNode : EvalState → Nat → ℚ → Option (ℚ × EvalState))
    (state : EvalState) (board : Nat) (cprob : ℚ) : Option (ℚ × EvalState) :=
  let best : ℚ := 0
  let state := { state with curdepth := state.curdepth + 1 }
  match [0, 1, 2, 3].foldl (moveNodeStep tileNode board cprob) (some (best, state)) with
  | none => none
  | some (best, state) => some (best, { state with curdepth := state.curdepth - 1 })

/-- The cache lookup at the start of `scoreTileChooseNode`: the value of the
entry stored for `board` if the current depth is below `CACHE_DEPTH_LIMIT`
and the entry was recorded at a depth `<=` the current depth. -/
def cacheLookup (state : EvalState) (board : Nat) : Option ℚ :=
  if state.curdepth < CACHE_DEPTH_LIMIT then
    match state.transTable board with
    | some entry => if entry.1 ≤ state.curdepth then some entry.2 else none
    | none => none
  else none

/-- The cache store at the end of `scoreTileChooseNode`:
`state.transTable[board] = { state.curdepth, res }` below
`CACHE_DEPTH_LIMIT`. -/
def cacheStore (state : EvalState) (board : Nat) (res : ℚ) : EvalState :=
  if state.curdepth < CACHE_DEPTH_LIMIT then
    { state with
      transTable := Function.update state.transTable board (some (state.curdepth, res)) }
  else state

/-- Source `AIEvaluator::scoreTileChooseNode`. The recursion through
`scoreMoveNode` is counted by `fuel`; `none` means that the budget of nested
calls ran out. -/
def scoreTileChooseNode (F : FloatEnv) :
    Nat → EvalState → Nat → ℚ → Option (ℚ × EvalState)
  | 0, _, _, _ => none
  | fuel + 1, state, board, cprob =>
    if cprob < CPROB_THRESH_BASE F ∨ state.curdepth ≥ state.depth_limit then
      some (scoreHeurBoard F board,
        { state with maxdepth := max state.curdepth state.maxdepth })
    else
      match cacheLookup state board with
      | some v => some (v, { state with cachehits := state.cachehits + 1 })
      | none =>
        let num_open := countEmpty board
        if num_open = 0 then some (0, state)
        else
          let cprob := F.fdiv cprob num_open
          match tileLoop F (scoreMoveNodeWith (scoreTileChooseNode F fuel)) board cprob num_open
              17 state 0 board 1 0 with
          | none => none
          | some (res, state) =>
            let res := F.fdiv res num_open
            some (res, cacheStore state board res)

/-- Source `AIEvaluator::scoreMoveNode`. -/
def scoreMoveNode (F : FloatEnv) (fuel : Nat) (state : EvalState) (board : Nat) (cprob : ℚ) :
    Option (ℚ × EvalState) :=
  scoreMoveNodeWith (scoreTileChooseNode F fuel) state board cprob

/-- Source `AIEvaluator::scoreTopLevelMove`: the score and the member
`transTable` after the call. The result `float + 1e-6` is computed in
`double` and converted to the `float` return type. The search gets a budget
of `depth_limit + 1` nested chance nodes. -/
def scoreTopLevelMove (F : FloatEnv) (transTable : Nat → Option (Int × ℚ)) (board : Nat)
    (move : Int) : Option (ℚ × (Nat → Option (Int × ℚ))) :=
  let newboard := executeMove move board
  if board = newboard then some (0, transTable)
  else
    match countDistinctTiles board with
    | none => none
    | some distinct =>
      let state : EvalState :=
        { transTable := transTable, maxdepth := 0, curdepth := 0, cachehits := 0,
          moves_evaled := 0, depth_limit := max 3 (distinct - 2) }
      match scoreTileChooseNode F (state.depth_limit.toNat + 1) state newboard 1 with
      | none => none
      | some (v, state) =>
        some (F.rnd32 (F.rnd64 (v + F.rnd64 (1 / 1000000))), state.transTable)

/-- One iteration of `for (int move = 0; move < 4; move++)` in
`evaluateAllMoves`: `scores[move] = scoreTopLevelMove(bitboard, move)`. -/
def evaluateStep (F : FloatEnv) (bitboard : Nat)
    (acc : Option (List ℚ × (Nat → Option (Int × ℚ)))) (move : Nat) :
    Option (List ℚ × (Nat → Option (Int × ℚ))) :=
  match acc with
  | none => none
  | some (scores, transTable) =>
    match scoreTopLevelMove F transTable bitboard move with
    | none => none
    | some (s, transTable) => some (scores.set move s, transTable)

/-- Source `AIEvaluator::evaluateAllMoves`: `transTable.clear()`, then the
four top-level scores. -/
def evaluateAllMoves (F : FloatEnv) (board : List (List Int)) : Option (List ℚ) :=
  let transTable : Nat → Option (Int × ℚ) := fun _ => none
  let bitboard := convertToBitboard board
  let scores : List ℚ := List.replicate 4 0
  match [0, 1, 2, 3].foldl (evaluateStep F bitboard) (some (scores, transTable)) with
  | none => none
  | some (scores, _) => some scores

/-- One iteration of `for (int i = 0; i < 4; i++)` in `getBestMove`, on
`(bestMove, bestScore)`. -/
def bestMoveStep (scores : List ℚ) (acc : Int × ℚ) (i : Nat) : Int × ℚ :=
  if scores.getD i 0 > acc.2 then (i, scores.getD i 0) else acc

/-- Source `AIEvaluator::getBestMove`. -/
def getBestMove (F : FloatEnv) (board : List (List Int)) : Option (Int × List ℚ) :=
  match evaluateAllMoves F board with
  | none => none
  | some scores =>
    let bestMove : Int := -1
    let bestScore : ℚ := -1
    let r := [0, 1, 2, 3].foldl (bestMoveStep scores) (bestMove, bestScore)
    some (r.1, scores)

/-- Every value stored in the transposition table is non-negative. -/
def TableNonneg (t : Nat → Option (Int × ℚ)) : Prop := ∀ b e, t b = some e → 0 ≤ e.2

/-- The part of an `EvalState` that a search call leaves as it found it, and
the invariant of its table: the depth is `c`, the limit is `D`. -/
def StateAt (c D : Int) (state : EvalState) : Prop :=
  state.curdepth = c ∧ state.depth_limit = D ∧ TableNonneg state.transTable

/-! ## The evaluator object across calls -/

/-- The call `transTable.clear()`: whatever the table held, it holds nothing
afterwards. -/
def clear (_transTable : Nat → Option (Int × ℚ)) : Nat → Option (Int × ℚ) := fun _ => none

/-- Source `AIEvaluator::evaluateAllMoves` as a method of an evaluator whose
member `transTable` holds `prior` when the call starts: the four scores and
the member `transTable` when the call returns. -/
def evaluateAllMovesOn (F : FloatEnv) (prior : Nat → Option (Int × ℚ))
    (board : List (List Int)) : Option (List ℚ × (Nat → Option (Int × ℚ))) :=
  let transTable := clear prior
  let bitboard := convertToBitboard board
  let scores : List ℚ := List.replicate 4 0
  [0, 1, 2, 3].foldl (evaluateStep F bitboard) (some (scores, transTable))

/-! ## Specifications of the supporting queries -/

/-- Specification: the number of the sixteen 4-bit cells of `x` that are 0. -/
def zeroCellCount (x : Nat) : Nat := (List.range 16).countP (fun n => decide (cell x n = 0))

/-- Specification: the number of values `v` in `1..15` that occur in at
least one of the sixteen 4-bit cells of `board`. -/
def distinctValueCount (board : Nat) : Nat :=
  (List.range 15).countP (fun i => (List.range 16).any (fun n => cell board n == i + 1))

/-! ## The heuristic part of `initTables` -/

/-- The local variables `sum`, `empty`, `merges`, `prev`, `counter` of the
heuristic part of `initTables`. -/
structure HeurAcc where
  sum : ℚ
  empty : Int
  merges : Int
  prev : Int
  counter : Int

/-- One iteration of the loop over `line[0..3]` that fills `sum`, `empty`
and `merges`; `sumPower rank` is `pow(rank, SCORE_SUM_POWER)`. -/
def heurStep (sumPower : Nat → ℚ) (acc : HeurAcc) (rank : Nat) : HeurAcc :=
  let acc := { acc with sum := acc.sum + sumPower rank }
  if rank = 0 then { acc with empty := acc.empty + 1 }
  else
    let acc :=
      if acc.prev = (rank : Int) then { acc with counter := acc.counter + 1 }
      else if acc.counter > 0 then
        { acc with merges := acc.merges + (1 + acc.counter), counter := 0 }
      else acc
    { acc with prev := (rank : Int) }

/-- One iteration of `for (int i = 1; i < 4; ++i)` on the accumulators
`(monotonicity_left, monotonicity_right)`. `pow(rank, 4.0f)` is the integer
`rank ^ 4`, at most `50625`, and the accumulators stay below `2 ^ 24`, so
every floating-point operation of the loop is exact and the accumulators
are integers. -/
def monotonicityStep (line : List Nat) (acc : Int × Int) (i : Nat) : Int × Int :=
  if line.getD (i - 1) 0 > line.getD i 0 then
    (acc.1 + ((line.getD (i - 1) 0 : Int) ^ 4 - (line.getD i 0 : Int) ^ 4), acc.2)
  else
    (acc.1, acc.2 + ((line.getD i 0 : Int) ^ 4 - (line.getD (i - 1) 0 : Int) ^ 4))

/-- The pair `(monotonicity_left, monotonicity_right)` that `initTables`
computes for the cells `line[0..3]`. -/
def monotonicity (line : List Nat) : Int × Int :=
  [1, 2, 3].foldl (monotonicityStep line) (0, 0)

/-- The entry `heurScoreTable[row]` as `initTables` computes it, in exact
arithmetic: `SCORE_LOST_PENALTY + SCORE_EMPTY_WEIGHT * empty +
SCORE_MERGES_WEIGHT * merges - SCORE_MONOTONICITY_WEIGHT *
min(monotonicity_left, monotonicity_right) - SCORE_SUM_WEIGHT * sum`. The
table of the program holds this value rounded to `float`; where every
intermediate value is an integer below `2 ^ 24` nothing is rounded. -/
def heurRowScore (sumPower : Nat → ℚ) (row : Nat) : ℚ :=
  let line := rowCells row
  let acc := line.foldl (heurStep sumPower) ⟨0, 0, 0, 0, 0⟩
  let merges := if acc.counter > 0 then acc.merges + (1 + acc.counter) else acc.merges
  let m := monotonicity line
  200000 + 270 * acc.empty + 700 * merges - 47 * min m.1 m.2 - 11 * acc.sum

end AIEvaluator

namespace Game2048

/-! ## Polling the background evaluation -/

/-- What `aiFuture` holds: no shared state (`valid()` is false), a task that
has not finished, a finished task with its result, or a finished task whose
`get()` throws. -/
inductive FutureStatus where
  | invalid
  | pending
  | ready (result : Int × List ℚ)
  | failed

/-- The members of `Game2048` that `checkAIAnalysisResult` reads or
writes. -/
structure AIState where
  aiEvaluating : Bool
  aiCancelFlag : Bool
  aiBestMove : Int
  moveScores : List ℚ
  aiFuture : FutureStatus

/-- Source `Game2048::checkAIAnalysisResult`: the returned flag and the
members after the call. `aiFuture.get()` leaves the future without shared
state. -/
def checkAIAnalysisResult (s : AIState) : Bool × AIState :=
  match s.aiEvaluating, s.aiFuture with
  | false, _ => (false, s)
  | true, FutureStatus.invalid => (false, s)
  | true, FutureStatus.pending => (false, s)
  | true, FutureStatus.ready result =>
    let s := { s with aiFuture := FutureStatus.invalid }
    let s :=
      if !s.aiCancelFlag then { s with aiBestMove := result.1, moveScores := result.2 }
      else s
    (true, { s with aiEvaluating := false })
  | true, FutureStatus.failed =>
    (false, { s with aiFuture := FutureStatus.invalid, aiEvaluating := false })

end Game2048

namespace AIEvaluator

/-! ## A concrete floating-point environment -/

/-- The values `pow(rank, SCORE_SUM_POWER)` for the sixteen ranks: the
`double` nearest to `rank ^ 3.5`. For the perfect squares 0, 1, 4 and 9 the
power is the integer `(√rank) ^ 7`. -/
def sumPower (rank : Nat) : ℚ :=
  ([0, 1, 6369051672525773 / 562949953421312, 411352560609291 / 8796093022208, 128,
    1229291370879291 / 4398046511104, 4653922961044479 / 8796093022208,
    7982390203493249 / 8796093022208, 6369051672525773 / 4398046511104, 2187,
    6953922115222831 / 2199023255552, 4853714471736613 / 1099511627776,
    411352560609291 / 68719476736, 8709667177557791 / 1099511627776,
    5644402242967141 / 549755813888, 7186033501882633 / 549755813888] : List ℚ).getD rank 0

/-- Exact arithmetic with the heuristic table of `initTables`: no operation
is rounded, and `heurScoreTable[row]` is `heurRowScore sumPower row`. On a
row whose ranks are perfect squares every value of the computation in
`initTables` is an integer below `2 ^ 24`, so the entry is the `float` the
program stores. -/
def tableEnv : FloatEnv :=
  { rnd32 := fun a => a
    rnd64 := fun a => a
    heurScoreTable := heurRowScore sumPower
    rnd32_mono := fun _ _ h => h
    rnd64_mono := fun _ _ h => h
    rnd64_idem := fun _ => rfl
    rnd32_zero := rfl
    rnd32_one := rfl
    eps_pos := by norm_num }

/-! ## The search with the cache as a switch -/

/-- The cache lookup behind the switch `cache`: switched off, it never
hits. -/
def lookupIf (cache : Bool) (state : EvalState) (board : Nat) : Option ℚ :=
  if cache then cacheLookup state board else none

/-- The cache store behind the switch `cache`: switched off, nothing is
stored. -/
def storeIf (cache : Bool) (state : EvalState) (board : Nat) (res : ℚ) : EvalState :=
  if cache then cacheStore state board res else state

/-- The chance node `scoreTileChooseNode` with the cache behind the switch
`cache`. With `cache = true` it is `scoreTileChooseNode`; with
`cache = false` the transposition cache is bypassed: the lookup never hits
and nothing is stored. -/
def tileNodeOn (cache : Bool) (F : FloatEnv) :
    Nat → EvalState → Nat → ℚ → Option (ℚ × EvalState)
  | 0, _, _, _ => none
  | fuel + 1, state, board, cprob =>
    if cprob < CPROB_THRESH_BASE F ∨ state.curdepth ≥ state.depth_limit then
      some (scoreHeurBoard F board,
        { state with maxdepth := max state.curdepth state.maxdepth })
    else
      match lookupIf cache state board with
      | some v => some (v, { state with cachehits := state.cachehits + 1 })
      | none =>
        let num_open := countEmpty board
        if num_open = 0 then some (0, state)
        else
          let cprob := F.fdiv cprob num_open
          match tileLoop F (scoreMoveNodeWith (tileNodeOn cache F fuel)) board cprob num_open
              17 state 0 board 1 0 with
          | none => none
          | some (res, state) =>
            let res := F.fdiv res num_open
            some (res, storeIf cache state board res)

/-- The top-level move `scoreTopLevelMove` with the cache switch: the score,
the table after the call, and the number of cache hits that the search
counted in `state.cachehits`. -/
def topLevelOn (cache : Bool) (F : FloatEnv) (transTable : Nat → Option (Int × ℚ))
    (board : Nat) (move : Int) : Option (ℚ × (Nat → Option (Int × ℚ)) × Int) :=
  let newboard := executeMove move board
  if board = newboard then some (0, transTable, 0)
  else
    match countDistinctTiles board with
    | none => none
    | some distinct =>
      let state : EvalState :=
        { transTable := transTable, maxdepth := 0, curdepth := 0, cachehits := 0,
          moves_evaled := 0, depth_limit := max 3 (distinct - 2) }
      match tileNodeOn cache F (state.depth_limit.toNat + 1) state newboard 1 with
      | none => none
      | some (v, state) =>
        some (F.rnd32 (F.rnd64 (v + F.rnd64 (1 / 1000000))), state.transTable,
          state.cachehits)

/-- One iteration of the loop of `evaluateAllMoves` over `topLevelOn`; the
cache hits of the four searches are added up. -/
def allMovesStepOn (cache : Bool) (F : FloatEnv) (bitboard : Nat)
    (acc : Option (List ℚ × (Nat → Option (Int × ℚ)) × Int)) (move : Nat) :
    Option (List ℚ × (Nat → Option (Int × ℚ)) × Int) :=
  match acc with
  | none => none
  | some (scores, transTable, hits) =>
    match topLevelOn cache F transTable bitboard move with
    | none => none
    | some (s, transTable, h) => some (scores.set move s, transTable, hits + h)

/-- The evaluation `evaluateAllMoves` with the cache switch: the four scores
and the number of cache hits counted. With `cache = true` the scores are
those of `evaluateAllMoves`; with `cache = false` they are the scores of the
run with the cache bypassed. -/
def allMovesOn (cache : Bool) (F : FloatEnv) (board : List (List Int)) :
    Option (List ℚ × Int) :=
  let transTable : Nat → Option (Int × ℚ) := fun _ => none
  let bitboard := convertToBitboard board
  let scores : List ℚ := List.replicate 4 0
  match [0, 1, 2, 3].foldl (allMovesStepOn cache F bitboard)
      (some (scores, transTable, 0)) with
  | none => none
  | some (scores, _, hits) => some (scores, hits)

/-- Two states agree in every field but the table. -/
def SameButTable (s1 s2 : EvalState) : Prop :=
  s1.maxdepth = s2.maxdepth ∧ s1.curdepth = s2.curdepth ∧ s1.cachehits = s2.cachehits ∧
    s1.moves_evaled = s2.moves_evaled ∧ s1.depth_limit = s2.depth_limit

/-! ## Evaluating the search on a concrete board -/

/-- One empty cell of the loop `tileLoop`: the two spawns at cell `k`, added
to `res`. -/
def spawnStep (F : FloatEnv) (moveNode : EvalState → Nat → ℚ → Option (ℚ × EvalState))
    (board : Nat) (cprob : ℚ) (acc : Option (ℚ × EvalState)) (k : Nat) :
    Option (ℚ × EvalState) :=
  match acc with
  | none => none
  | some (res, state) =>
    match moveNode state (board ||| 2 ^ (4 * k) % 2 ^ 64)
        (F.fmul cprob (F.rnd32 (9 / 10))) with
    | none => none
    | some (v2, state) =>
      match moveNode state (board ||| shl64 (2 ^ (4 * k) % 2 ^ 64) 1)
          (F.fmul cprob (F.rnd32 (1 / 10))) with
      | none => none
      | some (v4, state) =>
        some (F.fadd (F.fadd res (F.fmul v2 (F.rnd32 (9 / 10))))
          (F.fmul v4 (F.rnd32 (1 / 10))), state)

/-- The state is at depth `d` with depth limit `D`, and its table holds
exactly the entries of the list `E` (the first entry for a board counts). -/
def At (d D : Int) (E : List (Nat × (Int × ℚ))) (state : EvalState) : Prop :=
  state.curdepth = d ∧ state.depth_limit = D ∧ ∀ x, state.transTable x = E.lookup x

/-- From every state at depth `d` with table `E`, the node function `f`
returns `v` on `board` and leaves the table `E2`. -/
def NodeRes (f : EvalState → Nat → ℚ → Option (ℚ × EvalState)) (d D : Int)
    (E : List (Nat × (Int × ℚ))) (board : Nat) (cprob v : ℚ)
    (E2 : List (Nat × (Int × ℚ))) : Prop :=
  ∀ st, At d D E st → ∃ st2, f st board cprob = some (v, st2) ∧ At d D E2 st2

/-- From every state at depth `d` with table `E`, the iteration of the move
node for direction `move` takes `best` to `best2` and leaves the table
`E2`. -/
def StepRes (f : EvalState → Nat → ℚ → Option (ℚ × EvalState)) (d D : Int) (board : Nat)
    (cprob : ℚ) (move : Int) (best : ℚ) (E : List (Nat × (Int × ℚ))) (best2 : ℚ)
    (E2 : List (Nat × (Int × ℚ))) : Prop :=
  ∀ st, At d D E st →
    ∃ st2, moveNodeStep f board cprob (some (best, st)) move = some (best2, st2) ∧ At d D E2 st2

/-- From every state at depth `d` with table `E`, the spawns at the cells
`cells` take `res` to `r` and leave the table `E2`. -/
def FoldRes (F : FloatEnv) (g : EvalState → Nat → ℚ → Option (ℚ × EvalState)) (d D : Int)
    (board : Nat) (cprob : ℚ) (cells : List Nat) (res : ℚ) (E : List (Nat × (Int × ℚ)))
    (r : ℚ) (E2 : List (Nat × (Int × ℚ))) : Prop :=
  ∀ st, At d D E st →
    ∃ st2, cells.foldl (spawnStep F g board cprob) (some (res, st)) = some (r, st2) ∧
      At d D E2 st2

end AIEvaluator
namespace AIEvaluator

/-! ## The depth limit of a top-level search -/

/-- The value that `scoreTopLevelMove` assigns to `state.depth_limit`:
`max(3, countDistinctTiles(board) - 2)`, computed from the board before the
move. -/
def topLevelDepthLimit (board : Nat) : Option Int :=
  match countDistinctTiles board with
  | none => none
  | some distinct => some (max 3 (distinct - 2))

/-- The state `EvalState state(transTable)` with which `scoreTopLevelMove`
starts its search, after `state.depth_limit` was assigned. -/
def topLevelState (transTable : Nat → Option (Int × ℚ)) (depth_limit : Int) : EvalState :=
  { transTable := transTable, maxdepth := 0, curdepth := 0, cachehits := 0, moves_evaled := 0,
    depth_limit := depth_limit }

/-! ## Specifications for the chance node and the moves -/

/-- Specification: the empty cells of a board, in ascending order of the
cell number. -/
def emptyCells (board : Nat) : List Nat :=
  (List.range 16).filter (fun i => decide (cell board i = 0))

/-- Specification: the sum that the loop of a chance node accumulates in
`res` from the pairs `(v2, v4)` of values that the two spawns at each empty
cell returned: `res += v2 * 0.9f; res += v4 * 0.1f`, cell after cell,
starting at `0.0f`. -/
def spawnSum (F : FloatEnv) (values : List (ℚ × ℚ)) : ℚ :=
  values.foldl (fun res v =>
    F.fadd (F.fadd res (F.fmul v.1 (F.rnd32 (9 / 10)))) (F.fmul v.2 (F.rnd32 (1 / 10)))) 0

/-- Specification: the spawns at the cells `cells` of `board`, called one
after the other from the state `state`, return the pairs `values` and leave
the state `final`. -/
def SpawnTrace (F : FloatEnv) (moveNode : EvalState → Nat → ℚ → Option (ℚ × EvalState))
    (board : Nat) (cprob : ℚ) : List Nat → EvalState → List (ℚ × ℚ) → EvalState → Prop
  | [], state, values, final => values = [] ∧ final = state
  | k :: cells, state, values, final =>
    ∃ v2 v4 s2 s4 rest, values = (v2, v4) :: rest ∧
      moveNode state (board ||| 2 ^ (4 * k) % 2 ^ 64) (F.fmul cprob (F.rnd32 (9 / 10))) =
        some (v2, s2) ∧
      moveNode s2 (board ||| shl64 (2 ^ (4 * k) % 2 ^ 64) 1) (F.fmul cprob (F.rnd32 (1 / 10))) =
        some (v4, s4) ∧
      SpawnTrace F moveNode board cprob cells s4 rest final

/-- Specification: the total tile value of a line, the sum of `2 ^ rank`
over its non-empty cells. -/
def lineSum (line : List Nat) : Nat := (line.map (fun r => if r = 0 then 0 else 2 ^ r)).sum

/-- Specification: the total tile value of a board, the sum of `2 ^ rank`
over its non-empty cells. -/
def tileSum (board : Nat) : Nat :=
  ((List.range 16).map (fun n => if cell board n = 0 then 0 else 2 ^ cell board n)).sum

/-! ## The search with a check at every chance node -/

/-- The chance node `scoreTileChooseNode` with a check at its entry: a call
whose state and board fail `ok` gives no result, every other call runs the
body of `scoreTileChooseNode`. A search that returns a result has therefore
passed `ok` at every call of the chance node. -/
def tileNodeChecked (ok : EvalState → Nat → Bool) (F : FloatEnv) :
    Nat → EvalState → Nat → ℚ → Option (ℚ × EvalState)
  | 0, _, _, _ => none
  | fuel + 1, state, board, cprob =>
    if ok state board = true then
      if cprob < CPROB_THRESH_BASE F ∨ state.curdepth ≥ state.depth_limit then
        some (scoreHeurBoard F board,
          { state with maxdepth := max state.curdepth state.maxdepth })
      else
        match cacheLookup state board with
        | some v => some (v, { state with cachehits := state.cachehits + 1 })
        | none =>
          let num_open := countEmpty board
          if num_open = 0 then some (0, state)
          else
            let cprob := F.fdiv cprob num_open
            match tileLoop F (scoreMoveNodeWith (tileNodeChecked ok F fuel)) board cprob
                num_open 17 state 0 board 1 0 with
            | none => none
            | some (res, state) =>
              let res := F.fdiv res num_open
              some (res, cacheStore state board res)
    else none

/-- The top-level move `scoreTopLevelMove` over the checked chance node. -/
def topLevelChecked (ok : EvalState → Nat → Bool) (F : FloatEnv)
    (transTable : Nat → Option (Int × ℚ)) (board : Nat) (move : Int) :
    Option (ℚ × (Nat → Option (Int × ℚ))) :=
  let newboard := executeMove move board
  if board = newboard then some (0, transTable)
  else
    match countDistinctTiles board with
    | none => none
    | some distinct =>
      let state : EvalState :=
        { transTable := transTable, maxdepth := 0, curdepth := 0, cachehits := 0,
          moves_evaled := 0, depth_limit := max 3 (distinct - 2) }
      match tileNodeChecked ok F (state.depth_limit.toNat + 1) state newboard 1 with
      | none => none
      | some (v, state) =>
        some (F.rnd32 (F.rnd64 (v + F.rnd64 (1 / 1000000))), state.transTable)

/-- One iteration of the loop of `evaluateAllMoves` over `topLevelChecked`. -/
def evaluateStepChecked (ok : EvalState → Nat → Bool) (F : FloatEnv) (bitboard : Nat)
    (acc : Option (List ℚ × (Nat → Option (Int × ℚ)))) (move : Nat) :
    Option (List ℚ × (Nat → Option (Int × ℚ))) :=
  match acc with
  | none => none
  | some (scores, transTable) =>
    match topLevelChecked ok F transTable bitboard move with
    | none => none
    | some (s, transTable) => some (scores.set move s, transTable)

/-- The evaluation `evaluateAllMoves` over the checked chance node: it
returns the scores of `evaluateAllMoves` if every call of the chance node in
the four searches passes `ok`, and no result otherwise. -/
def evaluateAllMovesChecked (ok : EvalState → Nat → Bool) (F : FloatEnv)
    (board : List (List Int)) : Option (List ℚ) :=
  let transTable : Nat → Option (Int × ℚ) := fun _ => none
  let bitboard := convertToBitboard board
  let scores : List ℚ := List.replicate 4 0
  match [0, 1, 2, 3].foldl (evaluateStepChecked ok F bitboard) (some (scores, transTable)) with
  | none => none
  | some (scores, _) => some scores

end AIEvaluator

/-- Source constant `TARGET`. -/
def TARGET : Int := 2048

namespace Game2048

/-! ## The game-over test and the win test -/

/-- Source `Game2048::canMove`: the first pair of loops returns `true` at
the first empty cell, the second at the first cell that equals its right or
its lower neighbour. -/
def canMove (board : List (List Int)) : Bool :=
  if (List.range BOARD_SIZE).any (fun i =>
      (List.range BOARD_SIZE).any (fun j => decide ((board.getD i []).getD j 0 = 0))) then true
  else if (List.range BOARD_SIZE).any (fun i =>
      (List.range BOARD_SIZE).any (fun j =>
        (decide (j < BOARD_SIZE - 1) &&
            decide ((board.getD i []).getD j 0 = (board.getD i []).getD (j + 1) 0)) ||
          (decide (i < BOARD_SIZE - 1) &&
            decide ((board.getD i []).getD j 0 = (board.getD (i + 1) []).getD j 0)))) then true
  else false

/-- The members of `Game2048` that `hasWon` reads or writes. -/
structure WinState where
  board : List (List Int)
  haveWonFlag : Bool

/-- Source `Game2048::hasWon`: the returned flag and the members after the
call. -/
def hasWon (s : WinState) : Bool × WinState :=
  if s.haveWonFlag then (false, s)
  else
    let s := { s with haveWonFlag := true }
    (s.board.any (fun r => r.any (fun num => decide (num = TARGET))), s)

/-- What happens to the members between two calls of `hasWon`: `reset` is
the constructor, `restartGame` or a successful `loadGame`, which set
`haveWonFlag = false` and install the board `b`; `change` is anything else
that replaces the board by `b` (a move, a spawned tile, an undo) and leaves
`haveWonFlag` as it is; `call` is a call of `hasWon`. -/
inductive WinEvent where
  | reset (b : List (List Int))
  | change (b : List (List Int))
  | call

/-- The event is a call of `hasWon`. -/
def isCall : WinEvent → Bool
  | WinEvent.call => true
  | _ => false

/-- One event: the members after it and, for a call of `hasWon`, the value
returned. -/
def winStep (s : WinState) : WinEvent → Option Bool × WinState
  | WinEvent.reset b => (none, { board := b, haveWonFlag := false })
  | WinEvent.change b => (none, { s with board := b })
  | WinEvent.call => ((hasWon s).1, (hasWon s).2)

/-- A sequence of events: the values returned by the calls of `hasWon`, in
order, and the members at the end. -/
def winRun : WinState → List WinEvent → List Bool × WinState
  | s, [] => ([], s)
  | s, e :: es =>
    let r := winStep s e
    let rest := winRun r.2 es
    (match r.1 with
      | some b => b :: rest.1
      | none => rest.1, rest.2)

end Game2048
namespace FloatEnv

/-- A `float` division by an `int` as a checked operation: a division
whose divisor is 0 gives no result. -/
def fdivChecked (F : FloatEnv) (a : ℚ) (n : Nat) : Option ℚ :=
  if n = 0 then none else some (F.fdiv a n)

end FloatEnv

namespace AIEvaluator

/-! ## The chance node with checked divisions -/

/-- The chance node `scoreTileChooseNode` with its two divisions,
`cprob /= num_open` and `res / num_open`, as checked operations: the node
gives no result if one of them is executed with `num_open = 0`. Everything
else is the body of `scoreTileChooseNode`. -/
def tileNodeDivChecked (F : FloatEnv) : Nat → EvalState → Nat → ℚ → Option (ℚ × EvalState)
  | 0, _, _, _ => none
  | fuel + 1, state, board, cprob =>
    if cprob < CPROB_THRESH_BASE F ∨ state.curdepth ≥ state.depth_limit then
      some (scoreHeurBoard F board,
        { state with maxdepth := max state.curdepth state.maxdepth })
    else
      match cacheLookup state board with
      | some v => some (v, { state with cachehits := state.cachehits + 1 })
      | none =>
        let num_open := countEmpty board
        if num_open = 0 then some (0, state)
        else
          match F.fdivChecked cprob num_open with
          | none => none
          | some cprob =>
            match tileLoop F (scoreMoveNodeWith (tileNodeDivChecked F fuel)) board cprob
                num_open 17 state 0 board 1 0 with
            | none => none
            | some (res, state) =>
              match F.fdivChecked res num_open with
              | none => none
              | some res => some (res, cacheStore state board res)

end AIEvaluator
namespace AIEvaluator

/-! ## The search with an audit of the cache hits -/

/-- The key under which the audited search records, next to the entry for
`board`, the `cprob` that the entry was computed with. It is not a 64-bit
board, so the program never reads or writes it. -/
def auditKey (board : Nat) : Nat := 2 ^ 64 + board

/-- The store of the audited search: the store of the program,
`state.transTable[board] = { state.curdepth, res }`, and next to it the
record `(state.curdepth, cprob)` under the audit key, where `cprob` is the
probability with which the chance node was called. -/
def auditStore (state : EvalState) (board : Nat) (res cprob : ℚ) : EvalState :=
  let state := cacheStore state board res
  if state.curdepth < CACHE_DEPTH_LIMIT then
    { state with
      transTable :=
        Function.update state.transTable (auditKey board) (some (state.curdepth, cprob)) }
  else state

/-- The entry stored for `board` is exact for a chance node called in
`state` with `cprob`: it was recorded at the current depth, by a chance node
that was called with the same `cprob`. -/
def ExactEntry (state : EvalState) (board : Nat) (cprob : ℚ) : Prop :=
  (state.transTable board).map Prod.fst = some state.curdepth ∧
    state.transTable (auditKey board) = some (state.curdepth, cprob)

instance (state : EvalState) (board : Nat) (cprob : ℚ) :
    Decidable (ExactEntry state board cprob) := by
  unfold ExactEntry
  infer_instance

/-- The chance node `scoreTileChooseNode`, cache enabled, with an audit of
the hits: every store also records the `cprob` of the node (`auditStore`),
and a hit on an entry that is not exact (recorded at a smaller depth, or by
a node with another `cprob`) gives no result. Everything else is the body of
`scoreTileChooseNode`; a search that returns a result has made only exact
hits. -/
def tileNodeAudit (F : FloatEnv) : Nat → EvalState → Nat → ℚ → Option (ℚ × EvalState)
  | 0, _, _, _ => none
  | fuel + 1, state, board, cprob =>
    if cprob < CPROB_THRESH_BASE F ∨ state.curdepth ≥ state.depth_limit then
      some (scoreHeurBoard F board,
        { state with maxdepth := max state.curdepth state.maxdepth })
    else
      match cacheLookup state board with
      | some v =>
        if ExactEntry state board cprob then
          some (v, { state with cachehits := state.cachehits + 1 })
        else none
      | none =>
        let num_open := countEmpty board
        if num_open = 0 then some (0, state)
        else
          let cprob_open := F.fdiv cprob num_open
          match tileLoop F (scoreMoveNodeWith (tileNodeAudit F fuel)) board cprob_open num_open
              17 state 0 board 1 0 with
          | none => none
          | some (res, state) =>
            let res := F.fdiv res num_open
            some (res, auditStore state board res cprob)

/-- The top-level move `scoreTopLevelMove` over the audited chance node: the
score, the table after the call, and the number of cache hits counted. -/
def topLevelAudit (F : FloatEnv) (transTable : Nat → Option (Int × ℚ)) (board : Nat)
    (move : Int) : Option (ℚ × (Nat → Option (Int × ℚ)) × Int) :=
  let newboard := executeMove move board
  if board = newboard then some (0, transTable, 0)
  else
    match countDistinctTiles board with
    | none => none
    | some distinct =>
      let state : EvalState :=
        { transTable := transTable, maxdepth := 0, curdepth := 0, cachehits := 0,
          moves_evaled := 0, depth_limit := max 3 (distinct - 2) }
      match tileNodeAudit F (state.depth_limit.toNat + 1) state newboard 1 with
      | none => none
      | some (v, state) =>
        some (F.rnd32 (F.rnd64 (v + F.rnd64 (1 / 1000000))), state.transTable,
          state.cachehits)

/-- One iteration of the loop of `evaluateAllMoves` over `topLevelAudit`;
the cache hits of the four searches are added up. -/
def allMovesStepAudit (F : FloatEnv) (bitboard : Nat)
    (acc : Option (List ℚ × (Nat → Option (Int × ℚ)) × Int)) (move : Nat) :
    Option (List ℚ × (Nat → Option (Int × ℚ)) × Int) :=
  match acc with
  | none => none
  | some (scores, transTable, hits) =>
    match topLevelAudit F transTable bitboard move with
    | none => none
    | some (s, transTable, h) => some (scores.set move s, transTable, hits + h)

/-- The evaluation `evaluateAllMoves`, cache enabled, over the audited
chance node: the four scores and the number of cache hits if every hit of
the four searches is exact, and no result otherwise. -/
def allMovesAudit (F : FloatEnv) (board : List (List Int)) : Option (List ℚ × Int) :=
  let transTable : Nat → Option (Int × ℚ) := fun _ => none
  let bitboard := convertToBitboard board
  let scores : List ℚ := List.replicate 4 0
  match [0, 1, 2, 3].foldl (allMovesStepAudit F bitboard) (some (scores, transTable, 0)) with
  | none => none
  | some (scores, _, hits) => some (scores, hits)

/-- The cached run in state `s` follows the audited run in state `sa`: same
depth, depth limit and hit count, and the same table entry for every 64-bit
board. -/
def Agree (sa s : EvalState) : Prop :=
  s.curdepth = sa.curdepth ∧ s.depth_limit = sa.depth_limit ∧ s.cachehits = sa.cachehits ∧
    ∀ k, k < 2 ^ 64 → s.transTable k = sa.transTable k

/-- Every entry of the table whose audit record carries the depth of the
entry holds the value that the search with the cache bypassed computes for
that board at that depth with the recorded `cprob`, from every state; `K` is
the depth plus the budget of nested calls, `D` the depth limit. -/
def SoundTable (F : FloatEnv) (K D : Int) (t : Nat → Option (Int × ℚ)) : Prop :=
  ∀ (b : Nat) (d : Int) (v cp : ℚ), b < 2 ^ 64 → t b = some (d, v) →
    t (auditKey b) = some (d, cp) →
    ∀ (fuel : Nat) (su : EvalState), (fuel : Int) + d = K → su.curdepth = d →
      su.depth_limit = D →
      ∃ su2, tileNodeOn false F fuel su b cp = some (v, su2) ∧ su2.curdepth = d ∧
        su2.depth_limit = D

/-- A step of the audited run from `sa` to `sa2` with value `v` is followed
by the cached run (`gc`) and by the bypassed run (`gu`): at depth `c` the
audited table stays sound, the cached run returns `v` from every state that
agrees with `sa` and agrees with `sa2` afterwards, and the bypassed run
returns `v` from every state at depth `c`. -/
def Tracks (F : FloatEnv) (K D c : Int) (sa sa2 : EvalState) (v : ℚ)
    (gc gu : EvalState → Option (ℚ × EvalState)) : Prop :=
  sa2.curdepth = c ∧ sa2.depth_limit = D ∧ SoundTable F K D sa2.transTable ∧
    (∀ s, Agree sa s → ∃ s2, gc s = some (v, s2) ∧ Agree sa2 s2) ∧
    ∀ su, su.curdepth = c → su.depth_limit = D →
      ∃ su2, gu su = some (v, su2) ∧ su2.curdepth = c ∧ su2.depth_limit = D

/-! ## Evaluating the audited search on a concrete board -/

/-- The state is at depth `d` with depth limit `D`, its table holds exactly
the entries of the list `E`, and it has counted `h` cache hits. -/
def AtHits (d D : Int) (E : List (Nat × (Int × ℚ))) (h : Int) (state : EvalState) : Prop :=
  At d D E state ∧ state.cachehits = h

/-- From every state at depth `d` with table `E` and `h` hits, the node
function `f` returns `v` on `board` and leaves the table `E2` and `h2`
hits. -/
def NodeHits (f : EvalState → Nat → ℚ → Option (ℚ × EvalState)) (d D : Int)
    (E : List (Nat × (Int × ℚ))) (h : Int) (board : Nat) (cprob v : ℚ)
    (E2 : List (Nat × (Int × ℚ))) (h2 : Int) : Prop :=
  ∀ st, AtHits d D E h st → ∃ st2, f st board cprob = some (v, st2) ∧ AtHits d D E2 h2 st2

/-- From every state at depth `d` with table `E` and `h` hits, the
iteration of the move node for direction `move` takes `best` to `best2` and
leaves the table `E2` and `h2` hits. -/
def StepHits (f : EvalState → Nat → ℚ → Option (ℚ × EvalState)) (d D : Int) (board : Nat)
    (cprob : ℚ) (move : Int) (best : ℚ) (E : List (Nat × (Int × ℚ))) (h : Int) (best2 : ℚ)
    (E2 : List (Nat × (Int × ℚ))) (h2 : Int) : Prop :=
  ∀ st, AtHits d D E h st →
    ∃ st2, moveNodeStep f board cprob (some (best, st)) move = some (best2, st2) ∧
      AtHits d D E2 h2 st2

/-- From every state at depth `d` with table `E` and `h` hits, the spawns at
the cells `cells` take `res` to `r` and leave the table `E2` and `h2`
hits. -/
def FoldHits (F : FloatEnv) (g : EvalState → Nat → ℚ → Option (ℚ × EvalState)) (d D : Int)
    (board : Nat) (cprob : ℚ) (cells : List Nat) (res : ℚ) (E : List (Nat × (Int × ℚ)))
    (h : Int) (r : ℚ) (E2 : List (Nat × (Int × ℚ))) (h2 : Int) : Prop :=
  ∀ st, AtHits d D E h st →
    ∃ st2, cells.foldl (spawnStep F g board cprob) (some (res, st)) = some (r, st2) ∧
      AtHits d D E2 h2 st2

/-! ## Bit-level lemmas -/

theorem shl64_testBit (x n k : Nat) :
    (shl64 x n).testBit k = (decide (k < 64) && (decide (n ≤ k) && x.testBit (k - n))) := by
  unfold shl64
  rw [Nat.testBit_mod_two_pow, Nat.testBit_shiftLeft]

theorem shl64_lt (x n : Nat) : shl64 x n < 2 ^ 64 := Nat.mod_lt _ (by norm_num)

theorem cell_testBit (x n k : Nat) :
    (cell x n).testBit k = (decide (k < 4) && x.testBit (4 * n + k)) := by
  unfold cell
  rw [show (0xf : Nat) = 2 ^ 4 - 1 by norm_num, Nat.testBit_and, Nat.testBit_shiftRight,
    Nat.testBit_two_pow_sub_one, Bool.and_comm]

theorem cell_lt (x n : Nat) : cell x n < 16 := by
  unfold cell
  exact Nat.lt_of_le_of_lt Nat.and_le_right (by norm_num)

theorem testBit_of_cell (x m : Nat) : x.testBit m = (cell x (m / 4)).testBit (m % 4) := by
  rw [cell_testBit, Nat.div_add_mod]
  simp [Nat.mod_lt]

/-- A word below `2 ^ (4 n)` is determined by its first `n` cells. -/
theorem eq_of_cells (n x y : Nat) (hx : x < 2 ^ (4 * n)) (hy : y < 2 ^ (4 * n))
    (h : ∀ k, k < n → cell x k = cell y k) : x = y := by
  apply Nat.eq_of_testBit_eq
  intro m
  by_cases hm : m / 4 < n
  · rw [testBit_of_cell x, testBit_of_cell y, h _ hm]
  · have h4 : 4 * n ≤ m := by omega
    rw [Nat.testBit_lt_two_pow (lt_of_lt_of_le hx (Nat.pow_le_pow_right (by norm_num) h4)),
      Nat.testBit_lt_two_pow (lt_of_lt_of_le hy (Nat.pow_le_pow_right (by norm_num) h4))]

theorem cell_xor (x y n : Nat) : cell (x ^^^ y) n = cell x n ^^^ cell y n := by
  apply Nat.eq_of_testBit_eq
  intro k
  simp only [cell_testBit, Nat.testBit_xor]
  by_cases h : k < 4 <;> simp [h]

theorem cell_eq_zero_of_lt (x n : Nat) (h : x < 2 ^ (4 * n)) : cell x n = 0 := by
  apply Nat.eq_of_testBit_eq
  intro k
  rw [cell_testBit, Nat.zero_testBit,
    Nat.testBit_lt_two_pow (lt_of_lt_of_le h (Nat.pow_le_pow_right (by norm_num) (by omega)))]
  simp

theorem cell_of_lt_16 (a : Nat) (h : a < 16) : cell a 0 = a := by
  unfold cell
  rw [show (0xf : Nat) = 2 ^ 4 - 1 by norm_num, Nat.and_pow_two_sub_one_eq_mod]
  simp
  omega

theorem cell_shl64 (x m n : Nat) (hn : n < 16) :
    cell (shl64 x (4 * m)) n = if m ≤ n then cell x (n - m) else 0 := by
  apply Nat.eq_of_testBit_eq
  intro k
  rw [cell_testBit, shl64_testBit]
  by_cases hk : k < 4
  · by_cases hmn : m ≤ n
    · have h1 : 4 * n + k < 64 := by omega
      have h2 : 4 * m ≤ 4 * n + k := by omega
      have h3 : 4 * n + k - 4 * m = 4 * (n - m) + k := by omega
      simp [hk, hmn, h1, h2, h3, cell_testBit]
    · have h2 : ¬ 4 * m ≤ 4 * n + k := by omega
      simp [hmn, h2]
  · split_ifs <;> simp [hk, cell_testBit]

theorem extractRow_lt (b i : Nat) : extractRow b i < 2 ^ 16 := by
  unfold extractRow
  exact Nat.lt_of_le_of_lt Nat.and_le_right (by norm_num)

theorem cell_extractRow (b i j : Nat) (hj : j < 4) :
    cell (extractRow b i) j = cell b (4 * i + j) := by
  apply Nat.eq_of_testBit_eq
  intro k
  rw [cell_testBit, cell_testBit]
  unfold extractRow
  rw [show (0xFFFF : Nat) = 2 ^ 16 - 1 by norm_num, Nat.testBit_and, Nat.testBit_shiftRight,
    Nat.testBit_two_pow_sub_one]
  by_cases hk : k < 4
  · have h1 : 4 * j + k < 16 := by omega
    have h2 : i * 16 + (4 * j + k) = 4 * (4 * i + j) + k := by omega
    simp [hk, h1, h2]
  · simp [hk]

theorem transpose_testBit (x i j k : Nat) (hi : i < 4) (hj : j < 4) (hk : k < 4) :
    (transpose x).testBit (4 * (4 * i + j) + k) = x.testBit (4 * (4 * j + i) + k) := by
  unfold transpose
  simp only [Nat.testBit_and, Nat.testBit_or, Nat.testBit_shiftRight, shl64_testBit]
  generalize Nat.testBit x = f
  interval_cases i <;> interval_cases j <;> interval_cases k <;>
    simp [Nat.testBit_to_div_mod]

theorem cell_transpose (x i j : Nat) (hi : i < 4) (hj : j < 4) :
    cell (transpose x) (4 * i + j) = cell x (4 * j + i) := by
  apply Nat.eq_of_testBit_eq
  intro k
  rw [cell_testBit, cell_testBit]
  by_cases hk : k < 4
  · simp [hk, transpose_testBit x i j k hi hj hk]
  · simp [hk]

theorem transpose_lt (x : Nat) : transpose x < 2 ^ 64 := by
  unfold transpose
  simp only
  generalize (x &&& 0xF0F00F0FF0F00F0F ||| shl64 (x &&& 0x0000F0F00000F0F0) 12 |||
    (x &&& 0x0F0F00000F0F0000) >>> 12) = a
  apply Nat.or_lt_two_pow
  · apply Nat.or_lt_two_pow
    · exact Nat.lt_of_le_of_lt Nat.and_le_right (by norm_num)
    · have h1 : (a &&& 0x00FF00FF00000000) >>> 24 ≤ a &&& 0x00FF00FF00000000 := by
        rw [Nat.shiftRight_eq_div_pow]
        exact Nat.div_le_self _ _
      have h2 : a &&& 0x00FF00FF00000000 ≤ 0x00FF00FF00000000 := Nat.and_le_right
      omega
  · exact shl64_lt _ _

theorem reverseRow_lt (r : Nat) : reverseRow r < 2 ^ 16 := Nat.mod_lt _ (by norm_num)

theorem reverseRow_testBit (r j k : Nat) (hr : r < 2 ^ 16) (hj : j < 4) (hk : k < 4) :
    (reverseRow r).testBit (4 * j + k) = r.testBit (4 * (3 - j) + k) := by
  have hbig : ∀ m, 16 ≤ m → r.testBit m = false := fun m hm =>
    Nat.testBit_lt_two_pow (lt_of_lt_of_le hr (Nat.pow_le_pow_right (by norm_num) hm))
  unfold reverseRow
  simp only [Nat.testBit_mod_two_pow, Nat.testBit_and, Nat.testBit_or, Nat.testBit_shiftRight,
    Nat.testBit_shiftLeft]
  generalize Nat.testBit r = f at *
  interval_cases j <;> interval_cases k <;>
    simp [Nat.testBit_to_div_mod, hbig]

theorem cell_reverseRow (r j : Nat) (hr : r < 2 ^ 16) (hj : j < 4) :
    cell (reverseRow r) j = cell r (3 - j) := by
  apply Nat.eq_of_testBit_eq
  intro k
  rw [cell_testBit, cell_testBit]
  by_cases hk : k < 4
  · simp [hk, reverseRow_testBit r j k hr hj hk]
  · simp [hk]

theorem reverseRow_reverseRow (r : Nat) (hr : r < 2 ^ 16) : reverseRow (reverseRow r) = r := by
  apply eq_of_cells 4 _ _ (reverseRow_lt _) hr
  intro k hk
  rw [cell_reverseRow _ _ (reverseRow_lt _) hk, cell_reverseRow _ _ hr (by omega)]
  congr 1
  omega

theorem unpackCol_lt (r : Nat) : unpackCol r < 2 ^ 64 := by
  unfold unpackCol
  exact Nat.lt_of_le_of_lt Nat.and_le_right (by norm_num)

theorem unpackCol_testBit (r i j k : Nat) (hr : r < 2 ^ 16) (hi : i < 4) (hj : j < 4)
    (hk : k < 4) :
    (unpackCol r).testBit (4 * (4 * i + j) + k) = (decide (j = 0) && r.testBit (4 * i + k)) := by
  have hbig : ∀ m, 16 ≤ m → r.testBit m = false := fun m hm =>
    Nat.testBit_lt_two_pow (lt_of_lt_of_le hr (Nat.pow_le_pow_right (by norm_num) hm))
  unfold unpackCol
  simp only [Nat.testBit_and, Nat.testBit_or, shl64_testBit]
  generalize Nat.testBit r = f at *
  interval_cases i <;> interval_cases j <;> interval_cases k <;>
    simp [Nat.testBit_to_div_mod, hbig]

theorem cell_unpackCol (r i j : Nat) (hr : r < 2 ^ 16) (hi : i < 4) (hj : j < 4) :
    cell (unpackCol r) (4 * i + j) = if j = 0 then cell r i else 0 := by
  apply Nat.eq_of_testBit_eq
  intro k
  rw [cell_testBit]
  by_cases hk : k < 4
  · rw [unpackCol_testBit r i j k hr hi hj hk]
    split_ifs with h0 <;> simp [hk, h0, cell_testBit]
  · split_ifs <;> simp [hk, cell_testBit]

theorem testBit_nibble (x m : Nat) (hx : x < 16) (hm : 4 ≤ m) : x.testBit m = false := by
  have h4 : x < 2 ^ 4 := by norm_num; exact hx
  exact Nat.testBit_lt_two_pow (lt_of_lt_of_le h4 (Nat.pow_le_pow_right (by norm_num) hm))

theorem rowCells_eq (r : Nat) : rowCells r = [cell r 0, cell r 1, cell r 2, cell r 3] := rfl

theorem packCells_lt (l : List Nat) : packCells l < 2 ^ 16 := Nat.mod_lt _ (by norm_num)

theorem packCells_testBit (a b c d j k : Nat) (ha : a < 16) (hb : b < 16) (hc : c < 16)
    (hd : d < 16) (hj : j < 4) (hk : k < 4) :
    (packCells [a, b, c, d]).testBit (4 * j + k) = ([a, b, c, d].getD j 0).testBit k := by
  have ha4 : ∀ m, 4 ≤ m → a.testBit m = false := fun m hm => testBit_nibble a m ha hm
  have hb4 : ∀ m, 4 ≤ m → b.testBit m = false := fun m hm => testBit_nibble b m hb hm
  have hc4 : ∀ m, 4 ≤ m → c.testBit m = false := fun m hm => testBit_nibble c m hc hm
  have hd4 : ∀ m, 4 ≤ m → d.testBit m = false := fun m hm => testBit_nibble d m hd hm
  unfold packCells
  simp only [Nat.testBit_mod_two_pow, Nat.testBit_or, Nat.testBit_shiftLeft]
  interval_cases j <;> interval_cases k <;> simp [ha4, hb4, hc4, hd4]

theorem cell_packCells (a b c d j : Nat) (ha : a < 16) (hb : b < 16) (hc : c < 16)
    (hd : d < 16) (hj : j < 4) :
    cell (packCells [a, b, c, d]) j = [a, b, c, d].getD j 0 := by
  have hlt : [a, b, c, d].getD j 0 < 16 := by
    interval_cases j <;> simpa
  apply Nat.eq_of_testBit_eq
  intro k
  rw [cell_testBit]
  by_cases hk : k < 4
  · simp only [hk, decide_True, Bool.true_and]
    exact packCells_testBit a b c d j k ha hb hc hd hj hk
  · have : ([a, b, c, d].getD j 0).testBit k = false :=
      testBit_nibble _ k hlt (by omega)
    rw [this]
    simp [hk]

theorem slideLoop_oooo :
    slideLoop 6 0 [0, 0, 0, 0] = some (slideLeft [0, 0, 0, 0]) := by
  simp [slideLoop, nextNonzero, slideLeft, mergePairs]

theorem slideLoop_ooox (d : Nat) (hd0 : d ≠ 0) :
    slideLoop 6 0 [0, 0, 0, d] = some (slideLeft [0, 0, 0, d]) := by
  simp [slideLoop, nextNonzero, slideLeft, mergePairs, *]

theorem slideLoop_ooxo (c : Nat) (hc0 : c ≠ 0) :
    slideLoop 6 0 [0, 0, c, 0] = some (slideLeft [0, 0, c, 0]) := by
  simp [slideLoop, nextNonzero, slideLeft, mergePairs, *]

theorem slideLoop_ooxx (c d : Nat) (hc : c < 16) (hc0 : c ≠ 0) (hd0 : d ≠ 0) :
    slideLoop 6 0 [0, 0, c, d] = some (slideLeft [0, 0, c, d]) := by
  rcases eq_or_ne c d with rfl | hcd
  · rcases eq_or_ne c 15 with rfl | hcf
    · simp [slideLoop, nextNonzero, slideLeft, mergePairs, *]
    · simp [slideLoop, nextNonzero, slideLeft, mergePairs, *]
      omega
  · simp [slideLoop, nextNonzero, slideLeft, mergePairs, *]

theorem slideLoop_oxoo (b : Nat) (hb0 : b ≠ 0) :
    slideLoop 6 0 [0, b, 0, 0] = some (slideLeft [0, b, 0, 0]) := by
  simp [slideLoop, nextNonzero, slideLeft, mergePairs, *]

theorem slideLoop_oxox (b d : Nat) (hb : b < 16) (hb0 : b ≠ 0) (hd0 : d ≠ 0) :
    slideLoop 6 0 [0, b, 0, d] = some (slideLeft [0, b, 0, d]) := by
  rcases eq_or_ne b d with rfl | hbd
  · rcases eq_or_ne b 15 with rfl | hbf
    · simp [slideLoop, nextNonzero, slideLeft, mergePairs, *]
    · simp [slideLoop, nextNonzero, slideLeft, mergePairs, *]
      omega
  · simp [slideLoop, nextNonzero, slideLeft, mergePairs, *]

theorem slideLoop_oxxo (b c : Nat) (hb : b < 16) (hb0 : b ≠ 0) (hc0 : c ≠ 0) :
    slideLoop 6 0 [0, b, c, 0] = some (slideLeft [0, b, c, 0]) := by
  rcases eq_or_ne b c with rfl | hbc
  · rcases eq_or_ne b 15 with rfl | hbf
    · simp [slideLoop, nextNonzero, slideLeft, mergePairs, *]
    · simp [slideLoop, nextNonzero, slideLeft, mergePairs, *]
      omega
  · simp [slideLoop, nextNonzero, slideLeft, mergePairs, *]

theorem slideLoop_oxxx (b c d : Nat) (hb : b < 16) (hc : c < 16) (hb0 : b ≠ 0) (hc0 : c ≠ 0) (hd0 : d ≠ 0) :
    slideLoop 6 0 [0, b, c, d] = some (slideLeft [0, b, c, d]) := by
  rcases eq_or_ne b c with rfl | hbc
  · rcases eq_or_ne b 15 with rfl | hbf
    · simp [slideLoop, nextNonzero, slideLeft, mergePairs, *]
    · simp [slideLoop, nextNonzero, slideLeft, mergePairs, *]
      omega
  · rcases eq_or_ne c d with rfl | hcd
    · rcases eq_or_ne c 15 with rfl | hcf
      · simp [slideLoop, nextNonzero, slideLeft, mergePairs, *]
      · simp [slideLoop, nextNonzero, slideLeft, mergePairs, *]
        omega
    · simp [slideLoop, nextNonzero, slideLeft, mergePairs, *]

theorem slideLoop_xooo (a : Nat) (ha0 : a ≠ 0) :
    slideLoop 6 0 [a, 0, 0, 0] = some (slideLeft [a, 0, 0, 0]) := by
  simp [slideLoop, nextNonzero, slideLeft, mergePairs, *]

theorem slideLoop_xoox (a d : Nat) (ha : a < 16) (ha0 : a ≠ 0) (hd0 : d ≠ 0) :
    slideLoop 6 0 [a, 0, 0, d] = some (slideLeft [a, 0, 0, d]) := by
  rcases eq_or_ne a d with rfl | had
  · rcases eq_or_ne a 15 with rfl | haf
    · simp [slideLoop, nextNonzero, slideLeft, mergePairs, *]
    · simp [slideLoop, nextNonzero, slideLeft, mergePairs, *]
      omega
  · simp [slideLoop, nextNonzero, slideLeft, mergePairs, *]

theorem slideLoop_xoxo (a c : Nat) (ha : a < 16) (ha0 : a ≠ 0) (hc0 : c ≠ 0) :
    slideLoop 6 0 [a, 0, c, 0] = some (slideLeft [a, 0, c, 0]) := by
  rcases eq_or_ne a c with rfl | hac
  · rcases eq_or_ne a 15 with rfl | haf
    · simp [slideLoop, nextNonzero, slideLeft, mergePairs, *]
    · simp [slideLoop, nextNonzero, slideLeft, mergePairs, *]
      omega
  · simp [slideLoop, nextNonzero, slideLeft, mergePairs, *]

theorem slideLoop_xoxx (a c d : Nat) (ha : a < 16) (hc : c < 16) (ha0 : a ≠ 0) (hc0 : c ≠ 0) (hd0 : d ≠ 0) :
    slideLoop 6 0 [a, 0, c, d] = some (slideLeft [a, 0, c, d]) := by
  rcases eq_or_ne a c with rfl | hac
  · rcases eq_or_ne a 15 with rfl | haf
    · simp [slideLoop, nextNonzero, slideLeft, mergePairs, *]
    · simp [slideLoop, nextNonzero, slideLeft, mergePairs, *]
      omega
  · rcases eq_or_ne c d with rfl | hcd
    · rcases eq_or_ne c 15 with rfl | hcf
      · simp [slideLoop, nextNonzero, slideLeft, mergePairs, *]
      · simp [slideLoop, nextNonzero, slideLeft, mergePairs, *]
        omega
    · simp [slideLoop, nextNonzero, slideLeft, mergePairs, *]

theorem slideLoop_xxoo (a b : Nat) (ha : a < 16) (ha0 : a ≠ 0) (hb0 : b ≠ 0) :
    slideLoop 6 0 [a, b, 0, 0] = some (slideLeft [a, b, 0, 0]) := by
  rcases eq_or_ne a b with rfl | hab
  · rcases eq_or_ne a 15 with rfl | haf
    · simp [slideLoop, nextNonzero, slideLeft, mergePairs, *]
    · simp [slideLoop, nextNonzero, slideLeft, mergePairs, *]
      omega
  · simp [slideLoop, nextNonzero, slideLeft, mergePairs, *]

theorem slideLoop_xxox (a b d : Nat) (ha : a < 16) (hb : b < 16) (ha0 : a ≠ 0) (hb0 : b ≠ 0) (hd0 : d ≠ 0) :
    slideLoop 6 0 [a, b, 0, d] = some (slideLeft [a, b, 0, d]) := by
  rcases eq_or_ne a b with rfl | hab
  · rcases eq_or_ne a 15 with rfl | haf
    · simp [slideLoop, nextNonzero, slideLeft, mergePairs, *]
    · simp [slideLoop, nextNonzero, slideLeft, mergePairs, *]
      omega
  · rcases eq_or_ne b d with rfl | hbd
    · rcases eq_or_ne b 15 with rfl | hbf
      · simp [slideLoop, nextNonzero, slideLeft, mergePairs, *]
      · simp [slideLoop, nextNonzero, slideLeft, mergePairs, *]
        omega
    · simp [slideLoop, nextNonzero, slideLeft, mergePairs, *]

theorem slideLoop_xxxo (a b c : Nat) (ha : a < 16) (hb : b < 16) (ha0 : a ≠ 0) (hb0 : b ≠ 0) (hc0 : c ≠ 0) :
    slideLoop 6 0 [a, b, c, 0] = some (slideLeft [a, b, c, 0]) := by
  rcases eq_or_ne a b with rfl | hab
  · rcases eq_or_ne a 15 with rfl | haf
    · simp [slideLoop, nextNonzero, slideLeft, mergePairs, *]
    · simp [slideLoop, nextNonzero, slideLeft, mergePairs, *]
      omega
  · rcases eq_or_ne b c with rfl | hbc
    · rcases eq_or_ne b 15 with rfl | hbf
      · simp [slideLoop, nextNonzero, slideLeft, mergePairs, *]
      · simp [slideLoop, nextNonzero, slideLeft, mergePairs, *]
        omega
    · simp [slideLoop, nextNonzero, slideLeft, mergePairs, *]

theorem slideLoop_xxxx (a b c d : Nat) (ha : a < 16) (hb : b < 16) (hc : c < 16) (ha0 : a ≠ 0) (hb0 : b ≠ 0) (hc0 : c ≠ 0) (hd0 : d ≠ 0) :
    slideLoop 6 0 [a, b, c, d] = some (slideLeft [a, b, c, d]) := by
  rcases eq_or_ne a b with rfl | hab
  · rcases eq_or_ne a 15 with rfl | haf
    · rcases eq_or_ne c d with rfl | hcd
      · rcases eq_or_ne c 15 with rfl | hcf
        · simp [slideLoop, nextNonzero, slideLeft, mergePairs, *]
        · simp [slideLoop, nextNonzero, slideLeft, mergePairs, *]
          omega
      · simp [slideLoop, nextNonzero, slideLeft, mergePairs, *]
    · rcases eq_or_ne c d with rfl | hcd
      · rcases eq_or_ne c 15 with rfl | hcf
        · simp [slideLoop, nextNonzero, slideLeft, mergePairs, *]
          omega
        · simp [slideLoop, nextNonzero, slideLeft, mergePairs, *]
          omega
      · simp [slideLoop, nextNonzero, slideLeft, mergePairs, *]
        omega
  · rcases eq_or_ne b c with rfl | hbc
    · rcases eq_or_ne b 15 with rfl | hbf
      · simp [slideLoop, nextNonzero, slideLeft, mergePairs, *]
      · simp [slideLoop, nextNonzero, slideLeft, mergePairs, *]
        omega
    · rcases eq_or_ne c d with rfl | hcd
      · rcases eq_or_ne c 15 with rfl | hcf
        · simp [slideLoop, nextNonzero, slideLeft, mergePairs, *]
        · simp [slideLoop, nextNonzero, slideLeft, mergePairs, *]
          omega
      · simp [slideLoop, nextNonzero, slideLeft, mergePairs, *]

/-- The loop of `initTables` computes the reference rule on every line of four cells. -/
theorem slideLoop_eq_slideLeft (a b c d : Nat) (ha : a < 16) (hb : b < 16) (hc : c < 16)
    (_hd : d < 16) : slideLoop 6 0 [a, b, c, d] = some (slideLeft [a, b, c, d]) := by
  rcases eq_or_ne a 0 with rfl | ha0 <;> rcases eq_or_ne b 0 with rfl | hb0 <;>
    rcases eq_or_ne c 0 with rfl | hc0 <;> rcases eq_or_ne d 0 with rfl | hd0
  · exact slideLoop_oooo
  · exact slideLoop_ooox d  hd0
  · exact slideLoop_ooxo c  hc0
  · exact slideLoop_ooxx c d hc hc0 hd0
  · exact slideLoop_oxoo b  hb0
  · exact slideLoop_oxox b d hb hb0 hd0
  · exact slideLoop_oxxo b c hb hb0 hc0
  · exact slideLoop_oxxx b c d hb hc hb0 hc0 hd0
  · exact slideLoop_xooo a  ha0
  · exact slideLoop_xoox a d ha ha0 hd0
  · exact slideLoop_xoxo a c ha ha0 hc0
  · exact slideLoop_xoxx a c d ha hc ha0 hc0 hd0
  · exact slideLoop_xxoo a b ha ha0 hb0
  · exact slideLoop_xxox a b d ha hb ha0 hb0 hd0
  · exact slideLoop_xxxo a b c ha hb ha0 hb0 hc0
  · exact slideLoop_xxxx a b c d ha hb hc ha0 hb0 hc0 hd0

/-! ## The reference rule and the table entries -/

theorem slideLoop_terminates (a b c d : Nat) (ha : a < 16) (hb : b < 16) (hc : c < 16)
    (hd : d < 16) : (slideLoop 6 0 [a, b, c, d]).isSome = true := by
  rw [slideLoop_eq_slideLeft a b c d ha hb hc hd]
  rfl

theorem moveLineLeft_eq_slideLeft (a b c d : Nat) (ha : a < 16) (hb : b < 16) (hc : c < 16)
    (hd : d < 16) : moveLineLeft [a, b, c, d] = slideLeft [a, b, c, d] := by
  unfold moveLineLeft
  rw [slideLoop_eq_slideLeft a b c d ha hb hc hd]
  rfl

theorem mergePairs_length_le (l : List Nat) : (mergePairs l).length ≤ l.length := by
  induction l using mergePairs.induct with
  | case1 x rest ih => simp only [mergePairs, if_true, List.length_cons]; omega
  | case2 x y rest hxy ih =>
    simp only [mergePairs, hxy, if_false, List.length_cons] at ih ⊢
    omega
  | case3 l h => 
    unfold mergePairs
    split
    · exact absurd rfl (h _ _ _)
    · exact le_refl _

theorem mergePairs_lt (l : List Nat) (h : ∀ x ∈ l, x < 16) : ∀ x ∈ mergePairs l, x < 16 := by
  induction l using mergePairs.induct with
  | case1 x rest ih =>
    intro z hz
    simp only [mergePairs, if_true, List.mem_cons] at hz
    rcases hz with rfl | hz
    · omega
    · exact ih (fun w hw => h w (by simp [hw])) z hz
  | case2 x y rest hxy ih =>
    intro z hz
    simp only [mergePairs, hxy, if_false, List.mem_cons] at hz
    rcases hz with rfl | hz
    · exact h _ (by simp)
    · exact ih (fun w hw => h w (List.mem_cons_of_mem _ hw)) z hz
  | case3 l hl =>
    unfold mergePairs
    split
    · exact absurd rfl (hl _ _ _)
    · exact h

theorem slideLeft_length (l : List Nat) : (slideLeft l).length = l.length := by
  unfold slideLeft
  have h1 := mergePairs_length_le (l.filter (fun c => c ≠ 0))
  have h2 := List.length_filter_le (fun c => decide (c ≠ 0)) l
  simp only [List.length_append, List.length_replicate]
  omega

theorem slideLeft_lt (l : List Nat) (h : ∀ x ∈ l, x < 16) : ∀ x ∈ slideLeft l, x < 16 := by
  intro x hx
  unfold slideLeft at hx
  simp only [List.mem_append, List.mem_replicate] at hx
  rcases hx with hx | ⟨_, rfl⟩
  · exact mergePairs_lt _ (fun w hw => h w (List.mem_of_mem_filter hw)) x hx
  · norm_num

theorem slideLeft_four (a b c d : Nat) (ha : a < 16) (hb : b < 16) (hc : c < 16)
    (hd : d < 16) : ∃ a1 b1 c1 d1, slideLeft [a, b, c, d] = [a1, b1, c1, d1] ∧
      a1 < 16 ∧ b1 < 16 ∧ c1 < 16 ∧ d1 < 16 := by
  have hlen := slideLeft_length [a, b, c, d]
  have hlt := slideLeft_lt [a, b, c, d] (by simp [ha, hb, hc, hd])
  match hs : slideLeft [a, b, c, d], hlen, hlt with
  | [a1, b1, c1, d1], _, hlt =>
    exact ⟨a1, b1, c1, d1, rfl, hlt a1 (by simp), hlt b1 (by simp), hlt c1 (by simp),
      hlt d1 (by simp)⟩

theorem rowResult_lt (r : Nat) : rowResult r < 2 ^ 16 := packCells_lt _

theorem cell_rowResult (r j : Nat) (hj : j < 4) :
    cell (rowResult r) j = (slideLeft (rowCells r)).getD j 0 := by
  unfold rowResult
  rw [rowCells_eq, moveLineLeft_eq_slideLeft _ _ _ _ (cell_lt _ _) (cell_lt _ _) (cell_lt _ _)
    (cell_lt _ _)]
  obtain ⟨a1, b1, c1, d1, hs, h1, h2, h3, h4⟩ :=
    slideLeft_four (cell r 0) (cell r 1) (cell r 2) (cell r 3) (cell_lt _ _) (cell_lt _ _)
      (cell_lt _ _) (cell_lt _ _)
  rw [hs]
  exact cell_packCells a1 b1 c1 d1 j h1 h2 h3 h4 hj

/-! ## Closed form of the tables built by `initTables` -/

theorem foldl_update_apply (k v g : Nat → Nat) (l : List Nat)
    (hv : ∀ r ∈ l, v r = g (k r)) (f0 : Nat → Nat) (p : Nat) (hp : p ∈ l.map k) :
    (l.foldl (fun f r => Function.update f (k r) (v r)) f0) p = g p := by
  induction l generalizing f0 with
  | nil => simp at hp
  | cons r l ih =>
    rw [List.foldl_cons]
    by_cases hpl : p ∈ l.map k
    · exact ih (fun w hw => hv w (List.mem_cons_of_mem _ hw)) _ hpl
    · have hpr : p = k r := by
        rw [List.map_cons, List.mem_cons] at hp
        exact hp.resolve_right hpl
      have hkeep : ∀ (m : List Nat) (f : Nat → Nat), p ∉ m.map k →
          (m.foldl (fun f r => Function.update f (k r) (v r)) f) p = f p := by
        intro m
        induction m with
        | nil => intro f _; rfl
        | cons w m ihm =>
          intro f hm
          rw [List.map_cons, List.mem_cons, not_or] at hm
          rw [List.foldl_cons, ihm _ hm.2, Function.update_noteq hm.1]
      rw [hkeep l _ hpl, hpr, Function.update_same, hv r (List.mem_cons_self _ _)]

theorem foldl_initTablesStep (l : List Nat) (t : MoveTables) :
    l.foldl initTablesStep t =
      { rowLeftTable :=
          l.foldl (fun f r => Function.update f r (r ^^^ rowResult r)) t.rowLeftTable
        rowRightTable :=
          l.foldl (fun f r => Function.update f (reverseRow r)
            (reverseRow r ^^^ reverseRow (rowResult r))) t.rowRightTable
        colUpTable :=
          l.foldl (fun f r => Function.update f r (unpackCol r ^^^ unpackCol (rowResult r)))
            t.colUpTable
        colDownTable :=
          l.foldl (fun f r => Function.update f (reverseRow r)
            (unpackCol (reverseRow r) ^^^ unpackCol (reverseRow (rowResult r))))
            t.colDownTable } := by
  induction l generalizing t with
  | nil => rfl
  | cons r l ih => rw [List.foldl_cons, ih]; rfl

theorem buildTables_rowLeft (n p : Nat) (hp : p < n) :
    (buildTables n).rowLeftTable p = p ^^^ rowResult p := by
  unfold buildTables
  rw [foldl_initTablesStep]
  exact foldl_update_apply (fun r => r) (fun r => r ^^^ rowResult r)
    (fun r => r ^^^ rowResult r) (List.range n) (fun _ _ => rfl) zeroTables.rowLeftTable p
    (by rw [List.map_id']; exact List.mem_range.mpr hp)

theorem buildTables_colUp (n p : Nat) (hp : p < n) :
    (buildTables n).colUpTable p = unpackCol p ^^^ unpackCol (rowResult p) := by
  unfold buildTables
  rw [foldl_initTablesStep]
  exact foldl_update_apply (fun r => r) (fun r => unpackCol r ^^^ unpackCol (rowResult r))
    (fun r => unpackCol r ^^^ unpackCol (rowResult r)) (List.range n) (fun _ _ => rfl)
    zeroTables.colUpTable p (by rw [List.map_id']; exact List.mem_range.mpr hp)

theorem buildTables_rowRight (n p : Nat) (hn : ∀ r, r < n → reverseRow (reverseRow r) = r)
    (hp : p < n) (hrp : reverseRow p < n) :
    (buildTables n).rowRightTable p = p ^^^ reverseRow (rowResult (reverseRow p)) := by
  unfold buildTables
  rw [foldl_initTablesStep]
  exact foldl_update_apply reverseRow
    (fun r => reverseRow r ^^^ reverseRow (rowResult r))
    (fun q => q ^^^ reverseRow (rowResult (reverseRow q))) (List.range n)
    (fun r hr => by simp only [hn r (List.mem_range.mp hr)])
    zeroTables.rowRightTable p
    (List.mem_map.mpr ⟨reverseRow p, List.mem_range.mpr hrp, hn p hp⟩)

theorem buildTables_colDown (n p : Nat) (hn : ∀ r, r < n → reverseRow (reverseRow r) = r)
    (hp : p < n) (hrp : reverseRow p < n) :
    (buildTables n).colDownTable p =
      unpackCol p ^^^ unpackCol (reverseRow (rowResult (reverseRow p))) := by
  unfold buildTables
  rw [foldl_initTablesStep]
  exact foldl_update_apply reverseRow
    (fun r => unpackCol (reverseRow r) ^^^ unpackCol (reverseRow (rowResult r)))
    (fun q => unpackCol q ^^^ unpackCol (reverseRow (rowResult (reverseRow q))))
    (List.range n)
    (fun r hr => by simp only [hn r (List.mem_range.mp hr)])
    zeroTables.colDownTable p
    (List.mem_map.mpr ⟨reverseRow p, List.mem_range.mpr hrp, hn p hp⟩)

theorem initTables_def : initTables = buildTables 65536 := by
  unfold initTables
  rfl

theorem rowLeftTable_eq (p : Nat) (hp : p < 2 ^ 16) :
    initTables.rowLeftTable p = p ^^^ rowResult p :=
  (congrArg (fun t => t.rowLeftTable p) initTables_def).trans (buildTables_rowLeft 65536 p hp)

theorem colUpTable_eq (p : Nat) (hp : p < 2 ^ 16) :
    initTables.colUpTable p = unpackCol p ^^^ unpackCol (rowResult p) :=
  (congrArg (fun t => t.colUpTable p) initTables_def).trans (buildTables_colUp 65536 p hp)

theorem rowRightTable_eq (p : Nat) (hp : p < 2 ^ 16) :
    initTables.rowRightTable p = p ^^^ reverseRow (rowResult (reverseRow p)) :=
  (congrArg (fun t => t.rowRightTable p) initTables_def).trans
    (buildTables_rowRight 65536 p (fun r hr => reverseRow_reverseRow r hr) hp (reverseRow_lt p))

theorem colDownTable_eq (p : Nat) (hp : p < 2 ^ 16) :
    initTables.colDownTable p =
      unpackCol p ^^^ unpackCol (reverseRow (rowResult (reverseRow p))) :=
  (congrArg (fun t => t.colDownTable p) initTables_def).trans
    (buildTables_colDown 65536 p (fun r hr => reverseRow_reverseRow r hr) hp (reverseRow_lt p))

/-! ## Cells of a moved board -/

theorem cell_eq_zero_of_lt_row (t q : Nat) (ht : t < 2 ^ 16) (hq : 4 ≤ q) : cell t q = 0 :=
  cell_eq_zero_of_lt t q (lt_of_lt_of_le ht (Nat.pow_le_pow_right (by norm_num) (by omega)))

theorem cell_xor_rows (b t0 t1 t2 t3 i j : Nat) (h0 : t0 < 2 ^ 16) (h1 : t1 < 2 ^ 16)
    (h2 : t2 < 2 ^ 16) (h3 : t3 < 2 ^ 16) (hi : i < 4) (hj : j < 4) :
    cell (b ^^^ shl64 t0 0 ^^^ shl64 t1 16 ^^^ shl64 t2 32 ^^^ shl64 t3 48) (4 * i + j) =
      cell b (4 * i + j) ^^^ cell ([t0, t1, t2, t3].getD i 0) j := by
  have z0 : ∀ q, 4 ≤ q → cell t0 q = 0 := fun q hq => cell_eq_zero_of_lt_row t0 q h0 hq
  have z1 : ∀ q, 4 ≤ q → cell t1 q = 0 := fun q hq => cell_eq_zero_of_lt_row t1 q h1 hq
  have z2 : ∀ q, 4 ≤ q → cell t2 q = 0 := fun q hq => cell_eq_zero_of_lt_row t2 q h2 hq
  have z3 : ∀ q, 4 ≤ q → cell t3 q = 0 := fun q hq => cell_eq_zero_of_lt_row t3 q h3 hq
  have e0 : shl64 t0 0 = shl64 t0 (4 * 0) := rfl
  have e1 : shl64 t1 16 = shl64 t1 (4 * 4) := rfl
  have e2 : shl64 t2 32 = shl64 t2 (4 * 8) := rfl
  have e3 : shl64 t3 48 = shl64 t3 (4 * 12) := rfl
  have hn : 4 * i + j < 16 := by omega
  rw [e0, e1, e2, e3, cell_xor, cell_xor, cell_xor, cell_xor, cell_shl64 _ _ _ hn,
    cell_shl64 _ _ _ hn, cell_shl64 _ _ _ hn, cell_shl64 _ _ _ hn]
  interval_cases i <;> interval_cases j <;> simp [z0, z1, z2, z3]

theorem cell_xor_cols (b c0 c1 c2 c3 i j : Nat) (h0 : ∀ n, n % 4 ≠ 0 → cell c0 n = 0)
    (h1 : ∀ n, n % 4 ≠ 0 → cell c1 n = 0) (h2 : ∀ n, n % 4 ≠ 0 → cell c2 n = 0)
    (h3 : ∀ n, n % 4 ≠ 0 → cell c3 n = 0) (hi : i < 4) (hj : j < 4) :
    cell (b ^^^ shl64 c0 0 ^^^ shl64 c1 4 ^^^ shl64 c2 8 ^^^ shl64 c3 12) (4 * i + j) =
      cell b (4 * i + j) ^^^ cell ([c0, c1, c2, c3].getD j 0) (4 * i) := by
  have e0 : shl64 c0 0 = shl64 c0 (4 * 0) := rfl
  have e1 : shl64 c1 4 = shl64 c1 (4 * 1) := rfl
  have e2 : shl64 c2 8 = shl64 c2 (4 * 2) := rfl
  have e3 : shl64 c3 12 = shl64 c3 (4 * 3) := rfl
  have hn : 4 * i + j < 16 := by omega
  rw [e0, e1, e2, e3, cell_xor, cell_xor, cell_xor, cell_xor, cell_shl64 _ _ _ hn,
    cell_shl64 _ _ _ hn, cell_shl64 _ _ _ hn, cell_shl64 _ _ _ hn]
  interval_cases i <;> interval_cases j <;> simp [h0, h1, h2, h3]

theorem shift_mask_eq_extractRow (x : Nat) :
    (x >>> 0) &&& 0xFFFF = extractRow x 0 ∧ (x >>> 16) &&& 0xFFFF = extractRow x 1 ∧
      (x >>> 32) &&& 0xFFFF = extractRow x 2 ∧ (x >>> 48) &&& 0xFFFF = extractRow x 3 :=
  ⟨rfl, rfl, rfl, rfl⟩

theorem executeMove_left_eq (b : Nat) :
    executeMove 2 b =
      b ^^^ shl64 (initTables.rowLeftTable (extractRow b 0)) 0 ^^^
        shl64 (initTables.rowLeftTable (extractRow b 1)) 16 ^^^
        shl64 (initTables.rowLeftTable (extractRow b 2)) 32 ^^^
        shl64 (initTables.rowLeftTable (extractRow b 3)) 48 := by
  obtain ⟨e0, e1, e2, e3⟩ := shift_mask_eq_extractRow b
  unfold executeMove
  rw [if_neg (by decide), if_neg (by decide), if_pos rfl]
  simp only [e0, e1, e2, e3]

theorem executeMove_right_eq (b : Nat) :
    executeMove 3 b =
      b ^^^ shl64 (initTables.rowRightTable (extractRow b 0)) 0 ^^^
        shl64 (initTables.rowRightTable (extractRow b 1)) 16 ^^^
        shl64 (initTables.rowRightTable (extractRow b 2)) 32 ^^^
        shl64 (initTables.rowRightTable (extractRow b 3)) 48 := by
  obtain ⟨e0, e1, e2, e3⟩ := shift_mask_eq_extractRow b
  unfold executeMove
  rw [if_neg (by decide), if_neg (by decide), if_neg (by decide), if_pos rfl]
  simp only [e0, e1, e2, e3]

theorem executeMove_up_eq (b : Nat) :
    executeMove 0 b =
      b ^^^ shl64 (initTables.colUpTable (extractRow (transpose b) 0)) 0 ^^^
        shl64 (initTables.colUpTable (extractRow (transpose b) 1)) 4 ^^^
        shl64 (initTables.colUpTable (extractRow (transpose b) 2)) 8 ^^^
        shl64 (initTables.colUpTable (extractRow (transpose b) 3)) 12 := by
  obtain ⟨e0, e1, e2, e3⟩ := shift_mask_eq_extractRow (transpose b)
  unfold executeMove
  rw [if_pos rfl]
  simp only [e0, e1, e2, e3]

theorem executeMove_down_eq (b : Nat) :
    executeMove 1 b =
      b ^^^ shl64 (initTables.colDownTable (extractRow (transpose b) 0)) 0 ^^^
        shl64 (initTables.colDownTable (extractRow (transpose b) 1)) 4 ^^^
        shl64 (initTables.colDownTable (extractRow (transpose b) 2)) 8 ^^^
        shl64 (initTables.colDownTable (extractRow (transpose b) 3)) 12 := by
  obtain ⟨e0, e1, e2, e3⟩ := shift_mask_eq_extractRow (transpose b)
  unfold executeMove
  rw [if_neg (by decide), if_pos rfl]
  simp only [e0, e1, e2, e3]

theorem xor_cancel_left (x y : Nat) : x ^^^ (x ^^^ y) = y := by
  rw [← Nat.xor_assoc, Nat.xor_self, Nat.zero_xor]

theorem getD_four (t0 t1 t2 t3 : Nat) (f : Nat → Nat) (i : Nat) (hi : i < 4) :
    [f t0, f t1, f t2, f t3].getD i 0 = f ([t0, t1, t2, t3].getD i 0) := by
  interval_cases i <;> rfl

/-- Row `i` of a board to which the four row deltas `r ^^^ R r` are applied. -/
theorem extractRow_rowMove (b : Nat) (R : Nat → Nat) (hR : ∀ t, R t < 2 ^ 16) (i : Nat)
    (hi : i < 4) :
    extractRow (b ^^^ shl64 (extractRow b 0 ^^^ R (extractRow b 0)) 0 ^^^
      shl64 (extractRow b 1 ^^^ R (extractRow b 1)) 16 ^^^
      shl64 (extractRow b 2 ^^^ R (extractRow b 2)) 32 ^^^
      shl64 (extractRow b 3 ^^^ R (extractRow b 3)) 48) i = R (extractRow b i) := by
  have hx : ∀ k, extractRow b k ^^^ R (extractRow b k) < 2 ^ 16 := fun k =>
    Nat.xor_lt_two_pow (extractRow_lt b k) (hR _)
  apply eq_of_cells 4 _ _ (extractRow_lt _ _) (hR _)
  intro j hj
  rw [cell_extractRow _ _ _ hj, cell_xor_rows b _ _ _ _ i j (hx 0) (hx 1) (hx 2) (hx 3) hi hj,
    getD_four _ _ _ _ (fun k => extractRow b k ^^^ R (extractRow b k)) i hi]
  have hk : [0, 1, 2, 3].getD i 0 = i := by interval_cases i <;> rfl
  simp only [hk]
  rw [cell_xor, ← cell_extractRow b i j hj, xor_cancel_left]

theorem extractRow_executeMove_left (b i : Nat) (hi : i < 4) :
    extractRow (executeMove 2 b) i = rowResult (extractRow b i) := by
  rw [executeMove_left_eq, rowLeftTable_eq _ (extractRow_lt b 0),
    rowLeftTable_eq _ (extractRow_lt b 1), rowLeftTable_eq _ (extractRow_lt b 2),
    rowLeftTable_eq _ (extractRow_lt b 3)]
  exact extractRow_rowMove b rowResult rowResult_lt i hi

theorem extractRow_executeMove_right (b i : Nat) (hi : i < 4) :
    extractRow (executeMove 3 b) i = reverseRow (rowResult (reverseRow (extractRow b i))) := by
  rw [executeMove_right_eq, rowRightTable_eq _ (extractRow_lt b 0),
    rowRightTable_eq _ (extractRow_lt b 1), rowRightTable_eq _ (extractRow_lt b 2),
    rowRightTable_eq _ (extractRow_lt b 3)]
  exact extractRow_rowMove b (fun r => reverseRow (rowResult (reverseRow r)))
    (fun _ => reverseRow_lt _) i hi

theorem unpackCol_xor_column (x y n : Nat) (hx : x < 2 ^ 16) (hy : y < 2 ^ 16)
    (hn : n % 4 ≠ 0) : cell (unpackCol x ^^^ unpackCol y) n = 0 := by
  by_cases h16 : n < 16
  · have e : n = 4 * (n / 4) + n % 4 := by omega
    rw [e, cell_xor, cell_unpackCol x _ _ hx (by omega) (Nat.mod_lt _ (by norm_num)),
      cell_unpackCol y _ _ hy (by omega) (Nat.mod_lt _ (by norm_num)), if_neg hn, if_neg hn]
    rfl
  · apply cell_eq_zero_of_lt
    have h1 := Nat.xor_lt_two_pow (unpackCol_lt x) (unpackCol_lt y)
    exact lt_of_lt_of_le h1 (Nat.pow_le_pow_right (by norm_num) (by omega))

/-- The cell at row `i`, column `j` of a board to which the four column
deltas are applied. -/
theorem cell_colMove (b : Nat) (R : Nat → Nat) (hR : ∀ t, R t < 2 ^ 16) (i j : Nat)
    (hi : i < 4) (hj : j < 4) :
    cell (b ^^^
      shl64 (unpackCol (extractRow (transpose b) 0) ^^^
        unpackCol (R (extractRow (transpose b) 0))) 0 ^^^
      shl64 (unpackCol (extractRow (transpose b) 1) ^^^
        unpackCol (R (extractRow (transpose b) 1))) 4 ^^^
      shl64 (unpackCol (extractRow (transpose b) 2) ^^^
        unpackCol (R (extractRow (transpose b) 2))) 8 ^^^
      shl64 (unpackCol (extractRow (transpose b) 3) ^^^
        unpackCol (R (extractRow (transpose b) 3))) 12) (4 * i + j) =
      cell (R (extractRow (transpose b) j)) i := by
  have hc : ∀ k n, n % 4 ≠ 0 → cell (unpackCol (extractRow (transpose b) k) ^^^
      unpackCol (R (extractRow (transpose b) k))) n = 0 := fun k n hn =>
    unpackCol_xor_column _ _ n (extractRow_lt _ _) (hR _) hn
  rw [cell_xor_cols b _ _ _ _ i j (hc 0) (hc 1) (hc 2) (hc 3) hi hj,
    getD_four _ _ _ _ (fun k => unpackCol (extractRow (transpose b) k) ^^^
      unpackCol (R (extractRow (transpose b) k))) j hj]
  have hk : [0, 1, 2, 3].getD j 0 = j := by interval_cases j <;> rfl
  simp only [hk]
  have u : ∀ x, x < 2 ^ 16 → cell (unpackCol x) (4 * i) = cell x i := fun x hx => by
    have h := cell_unpackCol x i 0 hx hi (by norm_num)
    rwa [if_pos rfl] at h
  rw [cell_xor, u _ (extractRow_lt _ _), u _ (hR _), cell_extractRow _ _ _ hi,
    cell_transpose b j i hj hi, xor_cancel_left]

theorem cell_executeMove_up (b i j : Nat) (hi : i < 4) (hj : j < 4) :
    cell (executeMove 0 b) (4 * i + j) = cell (rowResult (extractRow (transpose b) j)) i := by
  rw [executeMove_up_eq, colUpTable_eq _ (extractRow_lt _ 0), colUpTable_eq _ (extractRow_lt _ 1),
    colUpTable_eq _ (extractRow_lt _ 2), colUpTable_eq _ (extractRow_lt _ 3)]
  exact cell_colMove b rowResult rowResult_lt i j hi hj

theorem cell_executeMove_down (b i j : Nat) (hi : i < 4) (hj : j < 4) :
    cell (executeMove 1 b) (4 * i + j) =
      cell (reverseRow (rowResult (reverseRow (extractRow (transpose b) j)))) i := by
  rw [executeMove_down_eq, colDownTable_eq _ (extractRow_lt _ 0),
    colDownTable_eq _ (extractRow_lt _ 1), colDownTable_eq _ (extractRow_lt _ 2),
    colDownTable_eq _ (extractRow_lt _ 3)]
  exact cell_colMove b (fun r => reverseRow (rowResult (reverseRow r)))
    (fun _ => reverseRow_lt _) i j hi hj

/-! ## Lines of a moved board -/

theorem boardRow_eq_rowCells (b i : Nat) : boardRow b i = rowCells (extractRow b i) := by
  rw [rowCells_eq, cell_extractRow b i 0 (by norm_num), cell_extractRow b i 1 (by norm_num),
    cell_extractRow b i 2 (by norm_num), cell_extractRow b i 3 (by norm_num)]
  rfl

theorem boardCol_eq_rowCells (b j : Nat) (hj : j < 4) :
    boardCol b j = rowCells (extractRow (transpose b) j) := by
  rw [rowCells_eq, cell_extractRow _ j 0 (by norm_num), cell_extractRow _ j 1 (by norm_num),
    cell_extractRow _ j 2 (by norm_num), cell_extractRow _ j 3 (by norm_num),
    cell_transpose b j 0 hj (by norm_num), cell_transpose b j 1 hj (by norm_num),
    cell_transpose b j 2 hj (by norm_num), cell_transpose b j 3 hj (by norm_num)]
  simp [boardCol]

theorem rowCells_rowResult (r : Nat) : rowCells (rowResult r) = slideLeft (rowCells r) := by
  obtain ⟨a1, b1, c1, d1, hs, -, -, -, -⟩ :=
    slideLeft_four (cell r 0) (cell r 1) (cell r 2) (cell r 3) (cell_lt _ _) (cell_lt _ _)
      (cell_lt _ _) (cell_lt _ _)
  have h := fun j hj => cell_rowResult r j hj
  rw [rowCells_eq r, hs] at h
  rw [rowCells_eq (rowResult r), rowCells_eq r, hs, h 0 (by norm_num), h 1 (by norm_num),
    h 2 (by norm_num), h 3 (by norm_num)]
  rfl

theorem rowResult_eq_packCells (r : Nat) :
    rowResult r = packCells (slideLeft (rowCells r)) := by
  unfold rowResult
  rw [rowCells_eq, moveLineLeft_eq_slideLeft _ _ _ _ (cell_lt _ _) (cell_lt _ _) (cell_lt _ _)
    (cell_lt _ _)]

theorem rowCells_reverseRow (r : Nat) (hr : r < 2 ^ 16) :
    rowCells (reverseRow r) = (rowCells r).reverse := by
  rw [rowCells_eq, rowCells_eq, cell_reverseRow r 0 hr (by norm_num),
    cell_reverseRow r 1 hr (by norm_num), cell_reverseRow r 2 hr (by norm_num),
    cell_reverseRow r 3 hr (by norm_num)]
  rfl

theorem boardRow_executeMove_left (b i : Nat) (hi : i < 4) :
    boardRow (executeMove 2 b) i = slideLeft (boardRow b i) := by
  rw [boardRow_eq_rowCells, extractRow_executeMove_left b i hi, rowCells_rowResult,
    ← boardRow_eq_rowCells]

theorem boardRow_executeMove_right (b i : Nat) (hi : i < 4) :
    boardRow (executeMove 3 b) i = (slideLeft (boardRow b i).reverse).reverse := by
  rw [boardRow_eq_rowCells, extractRow_executeMove_right b i hi,
    rowCells_reverseRow _ (rowResult_lt _), rowCells_rowResult,
    rowCells_reverseRow _ (extractRow_lt _ _), ← boardRow_eq_rowCells]

theorem boardCol_of_cells (x j r : Nat) (h : ∀ i, i < 4 → cell x (4 * i + j) = cell r i) :
    boardCol x j = rowCells r := by
  have h0 := h 0 (by norm_num)
  have h1 := h 1 (by norm_num)
  have h2 := h 2 (by norm_num)
  have h3 := h 3 (by norm_num)
  simp only [Nat.mul_zero, Nat.zero_add, Nat.mul_one] at h0 h1 h2 h3
  rw [rowCells_eq]
  unfold boardCol
  rw [h0, h1, h2, h3]

theorem boardCol_executeMove_up (b j : Nat) (hj : j < 4) :
    boardCol (executeMove 0 b) j = slideLeft (boardCol b j) := by
  rw [boardCol_of_cells _ j _ (fun i hi => cell_executeMove_up b i j hi hj), rowCells_rowResult,
    ← boardCol_eq_rowCells b j hj]

theorem boardCol_executeMove_down (b j : Nat) (hj : j < 4) :
    boardCol (executeMove 1 b) j = (slideLeft (boardCol b j).reverse).reverse := by
  rw [boardCol_of_cells _ j _ (fun i hi => cell_executeMove_down b i j hi hj),
    rowCells_reverseRow _ (rowResult_lt _), rowCells_rowResult,
    rowCells_reverseRow _ (extractRow_lt _ _), ← boardCol_eq_rowCells b j hj]

/-! ## Boards are determined by their lines -/

theorem executeMove_lt (d : Int) (b : Nat) (hb : b < 2 ^ 64) : executeMove d b < 2 ^ 64 := by
  unfold executeMove
  split_ifs
  · exact Nat.xor_lt_two_pow (Nat.xor_lt_two_pow (Nat.xor_lt_two_pow (Nat.xor_lt_two_pow hb
      (shl64_lt _ _)) (shl64_lt _ _)) (shl64_lt _ _)) (shl64_lt _ _)
  · exact Nat.xor_lt_two_pow (Nat.xor_lt_two_pow (Nat.xor_lt_two_pow (Nat.xor_lt_two_pow hb
      (shl64_lt _ _)) (shl64_lt _ _)) (shl64_lt _ _)) (shl64_lt _ _)
  · exact Nat.xor_lt_two_pow (Nat.xor_lt_two_pow (Nat.xor_lt_two_pow (Nat.xor_lt_two_pow hb
      (shl64_lt _ _)) (shl64_lt _ _)) (shl64_lt _ _)) (shl64_lt _ _)
  · exact Nat.xor_lt_two_pow (Nat.xor_lt_two_pow (Nat.xor_lt_two_pow (Nat.xor_lt_two_pow hb
      (shl64_lt _ _)) (shl64_lt _ _)) (shl64_lt _ _)) (shl64_lt _ _)
  · norm_num

theorem cell_of_boardRow_eq (x y i j : Nat) (h : boardRow x i = boardRow y i) (hj : j < 4) :
    cell x (4 * i + j) = cell y (4 * i + j) := by
  unfold boardRow at h
  simp only [List.cons.injEq, and_true] at h
  obtain ⟨h0, h1, h2, h3⟩ := h
  interval_cases j
  · exact h0
  · exact h1
  · exact h2
  · exact h3

theorem cell_of_boardCol_eq (x y i j : Nat) (h : boardCol x j = boardCol y j) (hi : i < 4) :
    cell x (4 * i + j) = cell y (4 * i + j) := by
  unfold boardCol at h
  simp only [List.cons.injEq, and_true] at h
  obtain ⟨h0, h1, h2, h3⟩ := h
  interval_cases i
  · simpa using h0
  · exact h1
  · exact h2
  · exact h3

theorem board_eq_of_rows (x y : Nat) (hx : x < 2 ^ 64) (hy : y < 2 ^ 64)
    (h : ∀ i, i < 4 → boardRow x i = boardRow y i) : x = y := by
  apply eq_of_cells 16 x y hx hy
  intro k hk
  have e : k = 4 * (k / 4) + k % 4 := by omega
  rw [e]
  exact cell_of_boardRow_eq x y _ _ (h _ (by omega)) (Nat.mod_lt _ (by norm_num))

theorem board_eq_of_cols (x y : Nat) (hx : x < 2 ^ 64) (hy : y < 2 ^ 64)
    (h : ∀ j, j < 4 → boardCol x j = boardCol y j) : x = y := by
  apply eq_of_cells 16 x y hx hy
  intro k hk
  have e : k = 4 * (k / 4) + k % 4 := by omega
  rw [e]
  exact cell_of_boardCol_eq x y _ _ (h _ (Nat.mod_lt _ (by norm_num))) (by omega)

theorem slideLeft_fixed_oooo :
    slideLeft [0, 0, 0, 0] = [0, 0, 0, 0] ↔
      packedLine [0, 0, 0, 0] ∧ noEqualNeighbours [0, 0, 0, 0] := by
  simp [slideLeft, mergePairs, packedLine, noEqualNeighbours, *]

theorem slideLeft_fixed_ooox (d : Nat) (hd0 : d ≠ 0) :
    slideLeft [0, 0, 0, d] = [0, 0, 0, d] ↔
      packedLine [0, 0, 0, d] ∧ noEqualNeighbours [0, 0, 0, d] := by
  simp [slideLeft, mergePairs, packedLine, noEqualNeighbours, *]

theorem slideLeft_fixed_ooxo (c : Nat) (hc0 : c ≠ 0) :
    slideLeft [0, 0, c, 0] = [0, 0, c, 0] ↔
      packedLine [0, 0, c, 0] ∧ noEqualNeighbours [0, 0, c, 0] := by
  simp [slideLeft, mergePairs, packedLine, noEqualNeighbours, *]

theorem slideLeft_fixed_ooxx (c d : Nat) (hc0 : c ≠ 0) (hd0 : d ≠ 0) :
    slideLeft [0, 0, c, d] = [0, 0, c, d] ↔
      packedLine [0, 0, c, d] ∧ noEqualNeighbours [0, 0, c, d] := by
  rcases eq_or_ne c d with rfl | hcd
  · simp [slideLeft, mergePairs, packedLine, noEqualNeighbours, *]
  · simp [slideLeft, mergePairs, packedLine, noEqualNeighbours, *]

theorem slideLeft_fixed_oxoo (b : Nat) (hb0 : b ≠ 0) :
    slideLeft [0, b, 0, 0] = [0, b, 0, 0] ↔
      packedLine [0, b, 0, 0] ∧ noEqualNeighbours [0, b, 0, 0] := by
  simp [slideLeft, mergePairs, packedLine, noEqualNeighbours, *]

theorem slideLeft_fixed_oxox (b d : Nat) (hb0 : b ≠ 0) (hd0 : d ≠ 0) :
    slideLeft [0, b, 0, d] = [0, b, 0, d] ↔
      packedLine [0, b, 0, d] ∧ noEqualNeighbours [0, b, 0, d] := by
  rcases eq_or_ne b d with rfl | hbd
  · simp [slideLeft, mergePairs, packedLine, noEqualNeighbours, *]
  · simp [slideLeft, mergePairs, packedLine, noEqualNeighbours, *]

theorem slideLeft_fixed_oxxo (b c : Nat) (hb0 : b ≠ 0) (hc0 : c ≠ 0) :
    slideLeft [0, b, c, 0] = [0, b, c, 0] ↔
      packedLine [0, b, c, 0] ∧ noEqualNeighbours [0, b, c, 0] := by
  rcases eq_or_ne b c with rfl | hbc
  · simp [slideLeft, mergePairs, packedLine, noEqualNeighbours, *]
  · simp [slideLeft, mergePairs, packedLine, noEqualNeighbours, *]

theorem slideLeft_fixed_oxxx (b c d : Nat) (hb0 : b ≠ 0) (hc0 : c ≠ 0) (hd0 : d ≠ 0) :
    slideLeft [0, b, c, d] = [0, b, c, d] ↔
      packedLine [0, b, c, d] ∧ noEqualNeighbours [0, b, c, d] := by
  rcases eq_or_ne b c with rfl | hbc
  · simp [slideLeft, mergePairs, packedLine, noEqualNeighbours, *]
  · rcases eq_or_ne c d with rfl | hcd
    · simp [slideLeft, mergePairs, packedLine, noEqualNeighbours, *]
    · simp [slideLeft, mergePairs, packedLine, noEqualNeighbours, *]

theorem slideLeft_fixed_xooo (a : Nat) (ha0 : a ≠ 0) :
    slideLeft [a, 0, 0, 0] = [a, 0, 0, 0] ↔
      packedLine [a, 0, 0, 0] ∧ noEqualNeighbours [a, 0, 0, 0] := by
  simp [slideLeft, mergePairs, packedLine, noEqualNeighbours, *]

theorem slideLeft_fixed_xoox (a d : Nat) (ha0 : a ≠ 0) (hd0 : d ≠ 0) :
    slideLeft [a, 0, 0, d] = [a, 0, 0, d] ↔
      packedLine [a, 0, 0, d] ∧ noEqualNeighbours [a, 0, 0, d] := by
  rcases eq_or_ne a d with rfl | had
  · simp [slideLeft, mergePairs, packedLine, noEqualNeighbours, *]
    omega
  · simp [slideLeft, mergePairs, packedLine, noEqualNeighbours, *]

theorem slideLeft_fixed_xoxo (a c : Nat) (ha0 : a ≠ 0) (hc0 : c ≠ 0) :
    slideLeft [a, 0, c, 0] = [a, 0, c, 0] ↔
      packedLine [a, 0, c, 0] ∧ noEqualNeighbours [a, 0, c, 0] := by
  rcases eq_or_ne a c with rfl | hac
  · simp [slideLeft, mergePairs, packedLine, noEqualNeighbours, *]
    omega
  · simp [slideLeft, mergePairs, packedLine, noEqualNeighbours, *]

theorem slideLeft_fixed_xoxx (a c d : Nat) (ha0 : a ≠ 0) (hc0 : c ≠ 0) (hd0 : d ≠ 0) :
    slideLeft [a, 0, c, d] = [a, 0, c, d] ↔
      packedLine [a, 0, c, d] ∧ noEqualNeighbours [a, 0, c, d] := by
  rcases eq_or_ne a c with rfl | hac
  · simp [slideLeft, mergePairs, packedLine, noEqualNeighbours, *]
  · rcases eq_or_ne c d with rfl | hcd
    · simp [slideLeft, mergePairs, packedLine, noEqualNeighbours, *]
    · simp [slideLeft, mergePairs, packedLine, noEqualNeighbours, *]

theorem slideLeft_fixed_xxoo (a b : Nat) (ha0 : a ≠ 0) (hb0 : b ≠ 0) :
    slideLeft [a, b, 0, 0] = [a, b, 0, 0] ↔
      packedLine [a, b, 0, 0] ∧ noEqualNeighbours [a, b, 0, 0] := by
  rcases eq_or_ne a b with rfl | hab
  · simp [slideLeft, mergePairs, packedLine, noEqualNeighbours, *]
    omega
  · simp [slideLeft, mergePairs, packedLine, noEqualNeighbours, *]

theorem slideLeft_fixed_xxox (a b d : Nat) (ha0 : a ≠ 0) (hb0 : b ≠ 0) (hd0 : d ≠ 0) :
    slideLeft [a, b, 0, d] = [a, b, 0, d] ↔
      packedLine [a, b, 0, d] ∧ noEqualNeighbours [a, b, 0, d] := by
  rcases eq_or_ne a b with rfl | hab
  · simp [slideLeft, mergePairs, packedLine, noEqualNeighbours, *]
    omega
  · rcases eq_or_ne b d with rfl | hbd
    · simp [slideLeft, mergePairs, packedLine, noEqualNeighbours, *]
      omega
    · simp [slideLeft, mergePairs, packedLine, noEqualNeighbours, *]

theorem slideLeft_fixed_xxxo (a b c : Nat) (ha0 : a ≠ 0) (hb0 : b ≠ 0) (hc0 : c ≠ 0) :
    slideLeft [a, b, c, 0] = [a, b, c, 0] ↔
      packedLine [a, b, c, 0] ∧ noEqualNeighbours [a, b, c, 0] := by
  rcases eq_or_ne a b with rfl | hab
  · simp [slideLeft, mergePairs, packedLine, noEqualNeighbours, *]
    omega
  · rcases eq_or_ne b c with rfl | hbc
    · simp [slideLeft, mergePairs, packedLine, noEqualNeighbours, *]
      omega
    · simp [slideLeft, mergePairs, packedLine, noEqualNeighbours, *]

theorem slideLeft_fixed_xxxx (a b c d : Nat) (ha0 : a ≠ 0) (hb0 : b ≠ 0) (hc0 : c ≠ 0) (hd0 : d ≠ 0) :
    slideLeft [a, b, c, d] = [a, b, c, d] ↔
      packedLine [a, b, c, d] ∧ noEqualNeighbours [a, b, c, d] := by
  rcases eq_or_ne a b with rfl | hab
  · rcases eq_or_ne c d with rfl | hcd
    · simp [slideLeft, mergePairs, packedLine, noEqualNeighbours, *]
      omega
    · simp [slideLeft, mergePairs, packedLine, noEqualNeighbours, *]
      omega
  · rcases eq_or_ne b c with rfl | hbc
    · simp [slideLeft, mergePairs, packedLine, noEqualNeighbours, *]
      omega
    · rcases eq_or_ne c d with rfl | hcd
      · simp [slideLeft, mergePairs, packedLine, noEqualNeighbours, *]
        omega
      · simp [slideLeft, mergePairs, packedLine, noEqualNeighbours, *]

/-- A line is a fixed point of the reference rule exactly when it is packed and has no
two equal neighbouring tiles. -/
theorem slideLeft_fixed_iff (a b c d : Nat) :
    slideLeft [a, b, c, d] = [a, b, c, d] ↔
      packedLine [a, b, c, d] ∧ noEqualNeighbours [a, b, c, d] := by
  rcases eq_or_ne a 0 with rfl | ha0 <;> rcases eq_or_ne b 0 with rfl | hb0 <;>
    rcases eq_or_ne c 0 with rfl | hc0 <;> rcases eq_or_ne d 0 with rfl | hd0
  · exact slideLeft_fixed_oooo
  · exact slideLeft_fixed_ooox d hd0
  · exact slideLeft_fixed_ooxo c hc0
  · exact slideLeft_fixed_ooxx c d hc0 hd0
  · exact slideLeft_fixed_oxoo b hb0
  · exact slideLeft_fixed_oxox b d hb0 hd0
  · exact slideLeft_fixed_oxxo b c hb0 hc0
  · exact slideLeft_fixed_oxxx b c d hb0 hc0 hd0
  · exact slideLeft_fixed_xooo a ha0
  · exact slideLeft_fixed_xoox a d ha0 hd0
  · exact slideLeft_fixed_xoxo a c ha0 hc0
  · exact slideLeft_fixed_xoxx a c d ha0 hc0 hd0
  · exact slideLeft_fixed_xxoo a b ha0 hb0
  · exact slideLeft_fixed_xxox a b d ha0 hb0 hd0
  · exact slideLeft_fixed_xxxo a b c ha0 hb0 hc0
  · exact slideLeft_fixed_xxxx a b c d ha0 hb0 hc0 hd0

/-! ## Legality, transposition and mirroring -/

theorem line_fixed_iff (l : List Nat) (hl : l.length = 4) :
    slideLeft l = l ↔ packedLine l ∧ noEqualNeighbours l := by
  match l, hl with
  | [a, b, c, d], _ => exact slideLeft_fixed_iff a b c d

theorem boardRow_length (b i : Nat) : (boardRow b i).length = 4 := rfl

theorem boardCol_length (b j : Nat) : (boardCol b j).length = 4 := rfl

theorem reverse_eq_iff_eq_reverse (l m : List Nat) : l.reverse = m ↔ l = m.reverse := by
  constructor
  · intro h; rw [← h, List.reverse_reverse]
  · intro h; rw [h, List.reverse_reverse]

theorem executeMove_left_eq_self_iff (b : Nat) (hb : b < 2 ^ 64) :
    executeMove 2 b = b ↔ ∀ i, i < 4 → slideLeft (boardRow b i) = boardRow b i := by
  constructor
  · intro h i hi
    rw [← boardRow_executeMove_left b i hi, h]
  · intro h
    apply board_eq_of_rows _ _ (executeMove_lt 2 b hb) hb
    intro i hi
    rw [boardRow_executeMove_left b i hi, h i hi]

theorem executeMove_right_eq_self_iff (b : Nat) (hb : b < 2 ^ 64) :
    executeMove 3 b = b ↔
      ∀ i, i < 4 → slideLeft (boardRow b i).reverse = (boardRow b i).reverse := by
  constructor
  · intro h i hi
    rw [← reverse_eq_iff_eq_reverse, ← boardRow_executeMove_right b i hi, h]
  · intro h
    apply board_eq_of_rows _ _ (executeMove_lt 3 b hb) hb
    intro i hi
    rw [boardRow_executeMove_right b i hi, h i hi, List.reverse_reverse]

theorem executeMove_up_eq_self_iff (b : Nat) (hb : b < 2 ^ 64) :
    executeMove 0 b = b ↔ ∀ j, j < 4 → slideLeft (boardCol b j) = boardCol b j := by
  constructor
  · intro h j hj
    rw [← boardCol_executeMove_up b j hj, h]
  · intro h
    apply board_eq_of_cols _ _ (executeMove_lt 0 b hb) hb
    intro j hj
    rw [boardCol_executeMove_up b j hj, h j hj]

theorem executeMove_down_eq_self_iff (b : Nat) (hb : b < 2 ^ 64) :
    executeMove 1 b = b ↔
      ∀ j, j < 4 → slideLeft (boardCol b j).reverse = (boardCol b j).reverse := by
  constructor
  · intro h j hj
    rw [← reverse_eq_iff_eq_reverse, ← boardCol_executeMove_down b j hj, h]
  · intro h
    apply board_eq_of_cols _ _ (executeMove_lt 1 b hb) hb
    intro j hj
    rw [boardCol_executeMove_down b j hj, h j hj, List.reverse_reverse]

theorem boardRow_transpose (b j : Nat) (hj : j < 4) :
    boardRow (transpose b) j = boardCol b j := by
  rw [boardRow_eq_rowCells, ← boardCol_eq_rowCells b j hj]

theorem boardCol_transpose (z j : Nat) (hj : j < 4) :
    boardCol (transpose z) j = boardRow z j := by
  have h0 := cell_transpose z 0 j (by norm_num) hj
  have h1 := cell_transpose z 1 j (by norm_num) hj
  have h2 := cell_transpose z 2 j (by norm_num) hj
  have h3 := cell_transpose z 3 j (by norm_num) hj
  simp only [Nat.mul_zero, Nat.zero_add, Nat.mul_one] at h0 h1 h2 h3
  unfold boardCol boardRow
  rw [h0, h1, h2, h3]
  rfl

theorem cell_or (x y n : Nat) : cell (x ||| y) n = cell x n ||| cell y n := by
  apply Nat.eq_of_testBit_eq
  intro k
  simp only [cell_testBit, Nat.testBit_or]
  by_cases h : k < 4 <;> simp [h]

theorem mirror_lt (b : Nat) : mirror b < 2 ^ 64 :=
  Nat.or_lt_two_pow (Nat.or_lt_two_pow (Nat.or_lt_two_pow (shl64_lt _ _) (shl64_lt _ _))
    (shl64_lt _ _)) (shl64_lt _ _)

theorem cell_mirror (b i j : Nat) (hi : i < 4) (hj : j < 4) :
    cell (mirror b) (4 * i + j) = cell b (4 * i + (3 - j)) := by
  have z : ∀ k q, 4 ≤ q → cell (reverseRow (extractRow b k)) q = 0 := fun k q hq =>
    cell_eq_zero_of_lt_row _ q (reverseRow_lt _) hq
  have r : ∀ k q, q < 4 → cell (reverseRow (extractRow b k)) q = cell b (4 * k + (3 - q)) :=
    fun k q hq => by
      rw [cell_reverseRow _ q (extractRow_lt _ _) hq, cell_extractRow b k (3 - q) (by omega)]
  have e0 : shl64 (reverseRow (extractRow b 0)) 0 = shl64 (reverseRow (extractRow b 0)) (4 * 0) :=
    rfl
  have e1 : shl64 (reverseRow (extractRow b 1)) 16 =
    shl64 (reverseRow (extractRow b 1)) (4 * 4) := rfl
  have e2 : shl64 (reverseRow (extractRow b 2)) 32 =
    shl64 (reverseRow (extractRow b 2)) (4 * 8) := rfl
  have e3 : shl64 (reverseRow (extractRow b 3)) 48 =
    shl64 (reverseRow (extractRow b 3)) (4 * 12) := rfl
  have hn : 4 * i + j < 16 := by omega
  unfold mirror
  rw [e0, e1, e2, e3, cell_or, cell_or, cell_or, cell_shl64 _ _ _ hn, cell_shl64 _ _ _ hn,
    cell_shl64 _ _ _ hn, cell_shl64 _ _ _ hn]
  interval_cases i <;> interval_cases j <;> simp [z, r]

theorem boardRow_mirror (b i : Nat) (hi : i < 4) :
    boardRow (mirror b) i = (boardRow b i).reverse := by
  have h0 := cell_mirror b i 0 hi (by norm_num)
  have h1 := cell_mirror b i 1 hi (by norm_num)
  have h2 := cell_mirror b i 2 hi (by norm_num)
  have h3 := cell_mirror b i 3 hi (by norm_num)
  simp only [Nat.add_zero, Nat.sub_zero, Nat.sub_self, Nat.reduceSub] at h0 h1 h2 h3
  unfold boardRow
  rw [h0, h1, h2, h3]
  rfl

/-! ## Moves with the table entries in closed form -/

theorem executeMove_left_closed (b : Nat) :
    executeMove 2 b =
      b ^^^ shl64 (extractRow b 0 ^^^ rowResult (extractRow b 0)) 0 ^^^
        shl64 (extractRow b 1 ^^^ rowResult (extractRow b 1)) 16 ^^^
        shl64 (extractRow b 2 ^^^ rowResult (extractRow b 2)) 32 ^^^
        shl64 (extractRow b 3 ^^^ rowResult (extractRow b 3)) 48 := by
  rw [executeMove_left_eq, rowLeftTable_eq _ (extractRow_lt b 0),
    rowLeftTable_eq _ (extractRow_lt b 1), rowLeftTable_eq _ (extractRow_lt b 2),
    rowLeftTable_eq _ (extractRow_lt b 3)]

theorem executeMove_right_closed (b : Nat) :
    executeMove 3 b =
      b ^^^ shl64 (extractRow b 0 ^^^ reverseRow (rowResult (reverseRow (extractRow b 0)))) 0 ^^^
        shl64 (extractRow b 1 ^^^ reverseRow (rowResult (reverseRow (extractRow b 1)))) 16 ^^^
        shl64 (extractRow b 2 ^^^ reverseRow (rowResult (reverseRow (extractRow b 2)))) 32 ^^^
        shl64 (extractRow b 3 ^^^ reverseRow (rowResult (reverseRow (extractRow b 3)))) 48 := by
  rw [executeMove_right_eq, rowRightTable_eq _ (extractRow_lt b 0),
    rowRightTable_eq _ (extractRow_lt b 1), rowRightTable_eq _ (extractRow_lt b 2),
    rowRightTable_eq _ (extractRow_lt b 3)]

theorem executeMove_up_closed (b : Nat) :
    executeMove 0 b =
      b ^^^ shl64 (unpackCol (extractRow (transpose b) 0) ^^^
          unpackCol (rowResult (extractRow (transpose b) 0))) 0 ^^^
        shl64 (unpackCol (extractRow (transpose b) 1) ^^^
          unpackCol (rowResult (extractRow (transpose b) 1))) 4 ^^^
        shl64 (unpackCol (extractRow (transpose b) 2) ^^^
          unpackCol (rowResult (extractRow (transpose b) 2))) 8 ^^^
        shl64 (unpackCol (extractRow (transpose b) 3) ^^^
          unpackCol (rowResult (extractRow (transpose b) 3))) 12 := by
  rw [executeMove_up_eq, colUpTable_eq _ (extractRow_lt _ 0), colUpTable_eq _ (extractRow_lt _ 1),
    colUpTable_eq _ (extractRow_lt _ 2), colUpTable_eq _ (extractRow_lt _ 3)]

theorem executeMove_down_closed (b : Nat) :
    executeMove 1 b =
      b ^^^ shl64 (unpackCol (extractRow (transpose b) 0) ^^^
          unpackCol (reverseRow (rowResult (reverseRow (extractRow (transpose b) 0))))) 0 ^^^
        shl64 (unpackCol (extractRow (transpose b) 1) ^^^
          unpackCol (reverseRow (rowResult (reverseRow (extractRow (transpose b) 1))))) 4 ^^^
        shl64 (unpackCol (extractRow (transpose b) 2) ^^^
          unpackCol (reverseRow (rowResult (reverseRow (extractRow (transpose b) 2))))) 8 ^^^
        shl64 (unpackCol (extractRow (transpose b) 3) ^^^
          unpackCol (reverseRow (rowResult (reverseRow (extractRow (transpose b) 3))))) 12 := by
  rw [executeMove_down_eq, colDownTable_eq _ (extractRow_lt _ 0),
    colDownTable_eq _ (extractRow_lt _ 1), colDownTable_eq _ (extractRow_lt _ 2),
    colDownTable_eq _ (extractRow_lt _ 3)]

/-! ## Claims on the move tables -/

/-- C1: after `initTables`, for every board `b` (in particular every 64-bit
board) and every row `i` in 0..3, row `i` of `executeMove 2 b` is the
reference rule `slideLeft` applied to row `i` of `b`, both as 16-bit
patterns and cell by cell; on ranks `[1,1,0,0]` the rule gives `[2,0,0,0]`
and on `[1,1,1,1]` it gives `[2,2,0,0]`. -/
theorem executeMove_left_is_slideLeft (b i : Nat) (hi : i < 4) :
    extractRow (executeMove 2 b) i = packCells (slideLeft (rowCells (extractRow b i))) ∧
      boardRow (executeMove 2 b) i = slideLeft (boardRow b i) ∧
      slideLeft [1, 1, 0, 0] = [2, 0, 0, 0] ∧ slideLeft [1, 1, 1, 1] = [2, 2, 0, 0] := by
  refine ⟨?_, boardRow_executeMove_left b i hi, by decide, by decide⟩
  rw [extractRow_executeMove_left b i hi, rowResult_eq_packCells]

/-- Witness for C1: the row `[2,2,2,2]` (ranks `[1,1,1,1]`, pattern `0x1111`)
moved left is `[4,4,0,0]` (pattern `0x0022`). -/
theorem executeMove_left_is_slideLeft_witness :
    (0 : Nat) < 4 ∧ extractRow (executeMove 2 0x1111) 0 = 0x0022 :=
  ⟨by decide, (executeMove_left_is_slideLeft 0x1111 0 (by decide)).1.trans (by decide)⟩

/-- C2: for every 64-bit board `b` and every direction `d` in 0..3,
`executeMove d b = b` if and only if the move is illegal in direction `d`:
every line along `d` is packed against the edge the move pushes toward and
has no two neighbouring cells with the same non-zero rank. -/
theorem executeMove_eq_self_iff_illegal (b : Nat) (hb : b < 2 ^ 64) (d : Int) (hd0 : 0 ≤ d)
    (hd3 : d ≤ 3) : executeMove d b = b ↔ moveIllegal d b := by
  have hd : d = 0 ∨ d = 1 ∨ d = 2 ∨ d = 3 := by omega
  unfold moveIllegal
  rcases hd with rfl | rfl | rfl | rfl
  · rw [executeMove_up_eq_self_iff b hb]
    refine forall_congr' fun k => forall_congr' fun _ => ?_
    simpa [moveLine] using line_fixed_iff (boardCol b k) rfl
  · rw [executeMove_down_eq_self_iff b hb]
    refine forall_congr' fun k => forall_congr' fun _ => ?_
    simpa [moveLine] using line_fixed_iff (boardCol b k).reverse rfl
  · rw [executeMove_left_eq_self_iff b hb]
    refine forall_congr' fun k => forall_congr' fun _ => ?_
    simpa [moveLine] using line_fixed_iff (boardRow b k) rfl
  · rw [executeMove_right_eq_self_iff b hb]
    refine forall_congr' fun k => forall_congr' fun _ => ?_
    simpa [moveLine] using line_fixed_iff (boardRow b k).reverse rfl

/-- Witness for C2: the board whose only tiles are a 2 and a 4 in row 0,
columns 0 and 1, and the move to the left. -/
theorem executeMove_eq_self_iff_illegal_witness :
    (0x21 : Nat) < 2 ^ 64 ∧ (executeMove 2 0x21 = 0x21 ↔ moveIllegal 2 0x21) :=
  ⟨by norm_num, executeMove_eq_self_iff_illegal 0x21 (by norm_num) 2 (by decide) (by decide)⟩

/-- C4: for every board `b` and column `j` in 0..3, column `j` of
`executeMove 0 b` read from row 0 to row 3 is `slideLeft` of column `j` of
`b` read the same way, and column `j` of `executeMove 1 b` read from row 3 to
row 0 is `slideLeft` of column `j` of `b` read from row 3 to row 0; for a
64-bit board, `executeMove 0 b = T (executeMove 2 (T b))` and
`executeMove 1 b = T (executeMove 3 (T b))`, where `T = transpose` swaps cell
`(i, j)` with cell `(j, i)`. -/
theorem executeMove_up_down_columns (b j : Nat) (hb : b < 2 ^ 64) (hj : j < 4) :
    boardCol (executeMove 0 b) j = slideLeft (boardCol b j) ∧
      (boardCol (executeMove 1 b) j).reverse = slideLeft (boardCol b j).reverse ∧
      executeMove 0 b = transpose (executeMove 2 (transpose b)) ∧
      executeMove 1 b = transpose (executeMove 3 (transpose b)) ∧
      ∀ i, i < 4 → cell (transpose b) (4 * i + j) = cell b (4 * j + i) := by
  refine ⟨boardCol_executeMove_up b j hj, ?_, ?_, ?_, fun i hi => cell_transpose b i j hi hj⟩
  · rw [boardCol_executeMove_down b j hj, List.reverse_reverse]
  · apply board_eq_of_cols _ _ (executeMove_lt 0 b hb) (transpose_lt _)
    intro k hk
    rw [boardCol_executeMove_up b k hk, boardCol_transpose _ k hk,
      boardRow_executeMove_left _ k hk, boardRow_transpose b k hk]
  · apply board_eq_of_cols _ _ (executeMove_lt 1 b hb) (transpose_lt _)
    intro k hk
    rw [boardCol_executeMove_down b k hk, boardCol_transpose _ k hk,
      boardRow_executeMove_right _ k hk, boardRow_transpose b k hk]

/-- Witness for C4: the board with a 2 at row 1, column 0 and a 2 at row 3,
column 0. -/
theorem executeMove_up_down_columns_witness :
    (0x0001000000010000 : Nat) < 2 ^ 64 ∧ (0 : Nat) < 4 ∧
      boardCol (executeMove 0 0x0001000000010000) 0 = [2, 0, 0, 0] :=
  ⟨by norm_num, by decide,
    (executeMove_up_down_columns 0x0001000000010000 0 (by norm_num) (by decide)).1.trans
      (by decide)⟩

/-- C5: the right move is the mirror image of the left move: for every
64-bit board `b`, `executeMove 3 b = M (executeMove 2 (M b))` where `M`
applies `reverseRow` to each row, i.e. reverses the four cells of each row;
`rowRightTable[p] = p XOR reverseRow (slideLeft (reverseRow p))` for every
one of the 65536 patterns `p`. -/
theorem executeMove_right_is_mirrored_left (b : Nat) (hb : b < 2 ^ 64) :
    executeMove 3 b = mirror (executeMove 2 (mirror b)) ∧
      (∀ i, i < 4 → boardRow (mirror b) i = (boardRow b i).reverse) ∧
      ∀ p, p < 65536 → initTables.rowRightTable p =
        p ^^^ reverseRow (packCells (slideLeft (rowCells (reverseRow p)))) := by
  refine ⟨?_, fun i hi => boardRow_mirror b i hi, fun p hp => ?_⟩
  · apply board_eq_of_rows _ _ (executeMove_lt 3 b hb) (mirror_lt _)
    intro i hi
    rw [boardRow_executeMove_right b i hi, boardRow_mirror _ i hi,
      boardRow_executeMove_left _ i hi, boardRow_mirror b i hi]
  · rw [rowRightTable_eq p hp, rowResult_eq_packCells]

/-- Witness for C5: the board whose only tile is a 2 at row 0, column 0
becomes, after the move to the right, the board whose only tile is a 2 at
row 0, column 3. -/
theorem executeMove_right_is_mirrored_left_witness :
    (0x1 : Nat) < 2 ^ 64 ∧ executeMove 3 0x1 = 0x1000 :=
  ⟨by norm_num, (executeMove_right_is_mirrored_left 0x1 (by norm_num)).1.trans (by
    rw [show mirror 0x1 = 0x1000 by decide, executeMove_left_eq,
      rowLeftTable_eq _ (extractRow_lt _ _), rowLeftTable_eq _ (extractRow_lt _ _),
      rowLeftTable_eq _ (extractRow_lt _ _), rowLeftTable_eq _ (extractRow_lt _ _)]
    decide)⟩

/-! ## The codec, cell by cell -/

theorem convertCell_lt (v : Int) : convertCell v < 16 := by
  unfold convertCell
  simp only
  split_ifs <;> omega

theorem cell_of_nibble (t q : Nat) (ht : t < 16) : cell t q = if q = 0 then t else 0 := by
  split_ifs with h
  · subst h
    exact cell_of_lt_16 t ht
  · apply cell_eq_zero_of_lt
    have h4 : t < 2 ^ 4 := by norm_num; exact ht
    exact lt_of_lt_of_le h4 (Nat.pow_le_pow_right (by norm_num) (by omega))

theorem cell_shl64_of_mod (x s n : Nat) (hs : s % 4 = 0) (hn : n < 16) :
    cell (shl64 x s) n = if s / 4 ≤ n then cell x (n - s / 4) else 0 := by
  have e : s = 4 * (s / 4) := by omega
  conv_lhs => rw [e]
  exact cell_shl64 x (s / 4) n hn

theorem convertToBitboard_eq (g : List (List Int)) :
    convertToBitboard g =
      0 ||| shl64 (convertCell ((g.getD 0 []).getD 0 0)) 0 |||
        shl64 (convertCell ((g.getD 0 []).getD 1 0)) 4 |||
        shl64 (convertCell ((g.getD 0 []).getD 2 0)) 8 |||
        shl64 (convertCell ((g.getD 0 []).getD 3 0)) 12 |||
        shl64 (convertCell ((g.getD 1 []).getD 0 0)) 16 |||
        shl64 (convertCell ((g.getD 1 []).getD 1 0)) 20 |||
        shl64 (convertCell ((g.getD 1 []).getD 2 0)) 24 |||
        shl64 (convertCell ((g.getD 1 []).getD 3 0)) 28 |||
        shl64 (convertCell ((g.getD 2 []).getD 0 0)) 32 |||
        shl64 (convertCell ((g.getD 2 []).getD 1 0)) 36 |||
        shl64 (convertCell ((g.getD 2 []).getD 2 0)) 40 |||
        shl64 (convertCell ((g.getD 2 []).getD 3 0)) 44 |||
        shl64 (convertCell ((g.getD 3 []).getD 0 0)) 48 |||
        shl64 (convertCell ((g.getD 3 []).getD 1 0)) 52 |||
        shl64 (convertCell ((g.getD 3 []).getD 2 0)) 56 |||
        shl64 (convertCell ((g.getD 3 []).getD 3 0)) 60 := rfl

theorem or_shl64_lt (a x s : Nat) (ha : a < 2 ^ 64) : a ||| shl64 x s < 2 ^ 64 :=
  Nat.or_lt_two_pow ha (shl64_lt x s)

theorem convertToBitboard_lt (g : List (List Int)) : convertToBitboard g < 2 ^ 64 := by
  rw [convertToBitboard_eq]
  repeat apply or_shl64_lt
  exact Nat.two_pow_pos 64

theorem cell_convertToBitboard (g : List (List Int)) (i j : Nat) (hi : i < 4) (hj : j < 4) :
    cell (convertToBitboard g) (4 * i + j) = convertCell ((g.getD i []).getD j 0) := by
  have hc : ∀ v q, cell (convertCell v) q = if q = 0 then convertCell v else 0 := fun v q =>
    cell_of_nibble _ q (convertCell_lt v)
  have z : ∀ q, cell 0 q = 0 := fun q => cell_of_nibble 0 q (by norm_num) ▸ by split_ifs <;> rfl
  rw [convertToBitboard_eq]
  simp only [cell_or]
  interval_cases i <;> interval_cases j <;>
    simp [cell_shl64_of_mod, hc, z]

theorem convertCell_pow (k : Nat) (h1 : 1 ≤ k) (h16 : k ≤ 16) :
    convertCell ((2 : Int) ^ k) = min k 15 := by
  interval_cases k <;> rfl

/-- C6: for every grid, row `i` and column `j` in 0..3, the 4-bit cell at
bit offset `4 * (4 * i + j)` of `convertToBitboard grid` is 0 when
`grid[i][j] = 0` and `min k 15` when `grid[i][j] = 2 ^ k` with
`1 ≤ k ≤ 16` (row-major packing), and no bit above bit 63 is set. -/
theorem convertToBitboard_row_major (grid : List (List Int)) (i j : Nat) (hi : i < 4)
    (hj : j < 4) :
    ((grid.getD i []).getD j 0 = 0 → cell (convertToBitboard grid) (4 * i + j) = 0) ∧
      (∀ k : Nat, 1 ≤ k → k ≤ 16 → (grid.getD i []).getD j 0 = 2 ^ k →
        cell (convertToBitboard grid) (4 * i + j) = min k 15) ∧
      convertToBitboard grid < 2 ^ 64 := by
  refine ⟨fun h => ?_, fun k h1 h16 h => ?_, convertToBitboard_lt grid⟩
  · rw [cell_convertToBitboard grid i j hi hj, h]
    rfl
  · rw [cell_convertToBitboard grid i j hi hj, h, convertCell_pow k h1 h16]

/-- Witness for C6: in the grid whose row 1 is `[0, 65536, 0, 8]` the cell
at row 1, column 1 is stored as rank 15. -/
theorem convertToBitboard_row_major_witness :
    (1 : Nat) < 4 ∧ cell (convertToBitboard [[2, 0, 0, 0], [0, 65536, 0, 8], [], []])
      (4 * 1 + 1) = min 16 15 :=
  ⟨by decide, (convertToBitboard_row_major [[2, 0, 0, 0], [0, 65536, 0, 8], [], []] 1 1
    (by decide) (by decide)).2.1 16 (by decide) (by decide) (by decide)⟩

/-- C7 fails on the code: a tile value above 65536 is not a key of
`_2logMap`, the lookup yields 0, and the cell is stored as empty (rank 0),
not as rank 15. -/
theorem convertToBitboard_above_range_is_empty :
    convertCell 131072 = 0 ∧
      cell (convertToBitboard [[131072, 0, 0, 0], [0, 0, 0, 0], [0, 0, 0, 0], [0, 0, 0, 0]]) 0
        = 0 := by
  decide

end AIEvaluator

namespace Game2048

theorem moveRowLeft_oooo :
    moveRowLeft [0, 0, 0, 0] =
      (gameSlide [0, 0, 0, 0], decide (gameSlide [0, 0, 0, 0] ≠ [0, 0, 0, 0])) := by
  simp [moveRowLeft, moveRowStep, BOARD_SIZE, gameSlide, mergeDouble, *]

theorem moveRowLeft_ooox (d : Int) (hd0 : d ≠ 0) :
    moveRowLeft [0, 0, 0, d] =
      (gameSlide [0, 0, 0, d], decide (gameSlide [0, 0, 0, d] ≠ [0, 0, 0, d])) := by
  simp [moveRowLeft, moveRowStep, BOARD_SIZE, gameSlide, mergeDouble, *]

theorem moveRowLeft_ooxo (c : Int) (hc0 : c ≠ 0) :
    moveRowLeft [0, 0, c, 0] =
      (gameSlide [0, 0, c, 0], decide (gameSlide [0, 0, c, 0] ≠ [0, 0, c, 0])) := by
  simp [moveRowLeft, moveRowStep, BOARD_SIZE, gameSlide, mergeDouble, *]

theorem moveRowLeft_ooxx (c d : Int) (hc0 : c ≠ 0) (hd0 : d ≠ 0) :
    moveRowLeft [0, 0, c, d] =
      (gameSlide [0, 0, c, d], decide (gameSlide [0, 0, c, d] ≠ [0, 0, c, d])) := by
  rcases eq_or_ne c d with rfl | hcd
  · simp [moveRowLeft, moveRowStep, BOARD_SIZE, gameSlide, mergeDouble, *]
  · simp [moveRowLeft, moveRowStep, BOARD_SIZE, gameSlide, mergeDouble, *]

theorem moveRowLeft_oxoo (b : Int) (hb0 : b ≠ 0) :
    moveRowLeft [0, b, 0, 0] =
      (gameSlide [0, b, 0, 0], decide (gameSlide [0, b, 0, 0] ≠ [0, b, 0, 0])) := by
  simp [moveRowLeft, moveRowStep, BOARD_SIZE, gameSlide, mergeDouble, *]

theorem moveRowLeft_oxox (b d : Int) (hb0 : b ≠ 0) (hd0 : d ≠ 0) :
    moveRowLeft [0, b, 0, d] =
      (gameSlide [0, b, 0, d], decide (gameSlide [0, b, 0, d] ≠ [0, b, 0, d])) := by
  rcases eq_or_ne b d with rfl | hbd
  · simp [moveRowLeft, moveRowStep, BOARD_SIZE, gameSlide, mergeDouble, *]
  · simp [moveRowLeft, moveRowStep, BOARD_SIZE, gameSlide, mergeDouble, *]

theorem moveRowLeft_oxxo (b c : Int) (hb0 : b ≠ 0) (hc0 : c ≠ 0) :
    moveRowLeft [0, b, c, 0] =
      (gameSlide [0, b, c, 0], decide (gameSlide [0, b, c, 0] ≠ [0, b, c, 0])) := by
  rcases eq_or_ne b c with rfl | hbc
  · simp [moveRowLeft, moveRowStep, BOARD_SIZE, gameSlide, mergeDouble, *]
  · simp [moveRowLeft, moveRowStep, BOARD_SIZE, gameSlide, mergeDouble, *]

theorem moveRowLeft_oxxx (b c d : Int) (hb0 : b ≠ 0) (hc0 : c ≠ 0) (hd0 : d ≠ 0) :
    moveRowLeft [0, b, c, d] =
      (gameSlide [0, b, c, d], decide (gameSlide [0, b, c, d] ≠ [0, b, c, d])) := by
  rcases eq_or_ne b c with rfl | hbc
  · simp [moveRowLeft, moveRowStep, BOARD_SIZE, gameSlide, mergeDouble, *]
  · rcases eq_or_ne c d with rfl | hcd
    · simp [moveRowLeft, moveRowStep, BOARD_SIZE, gameSlide, mergeDouble, *]
    · simp [moveRowLeft, moveRowStep, BOARD_SIZE, gameSlide, mergeDouble, *]

theorem moveRowLeft_xooo (a : Int) (ha0 : a ≠ 0) :
    moveRowLeft [a, 0, 0, 0] =
      (gameSlide [a, 0, 0, 0], decide (gameSlide [a, 0, 0, 0] ≠ [a, 0, 0, 0])) := by
  simp [moveRowLeft, moveRowStep, BOARD_SIZE, gameSlide, mergeDouble, *]

theorem moveRowLeft_xoox (a d : Int) (ha0 : a ≠ 0) (hd0 : d ≠ 0) :
    moveRowLeft [a, 0, 0, d] =
      (gameSlide [a, 0, 0, d], decide (gameSlide [a, 0, 0, d] ≠ [a, 0, 0, d])) := by
  rcases eq_or_ne a d with rfl | had
  · simp [moveRowLeft, moveRowStep, BOARD_SIZE, gameSlide, mergeDouble, *]
  · simp [moveRowLeft, moveRowStep, BOARD_SIZE, gameSlide, mergeDouble, *]

theorem moveRowLeft_xoxo (a c : Int) (ha0 : a ≠ 0) (hc0 : c ≠ 0) :
    moveRowLeft [a, 0, c, 0] =
      (gameSlide [a, 0, c, 0], decide (gameSlide [a, 0, c, 0] ≠ [a, 0, c, 0])) := by
  rcases eq_or_ne a c with rfl | hac
  · simp [moveRowLeft, moveRowStep, BOARD_SIZE, gameSlide, mergeDouble, *]
  · simp [moveRowLeft, moveRowStep, BOARD_SIZE, gameSlide, mergeDouble, *]

theorem moveRowLeft_xoxx (a c d : Int) (ha0 : a ≠ 0) (hc0 : c ≠ 0) (hd0 : d ≠ 0) :
    moveRowLeft [a, 0, c, d] =
      (gameSlide [a, 0, c, d], decide (gameSlide [a, 0, c, d] ≠ [a, 0, c, d])) := by
  rcases eq_or_ne a c with rfl | hac
  · simp [moveRowLeft, moveRowStep, BOARD_SIZE, gameSlide, mergeDouble, *]
  · rcases eq_or_ne c d with rfl | hcd
    · simp [moveRowLeft, moveRowStep, BOARD_SIZE, gameSlide, mergeDouble, *]
    · simp [moveRowLeft, moveRowStep, BOARD_SIZE, gameSlide, mergeDouble, *]

theorem moveRowLeft_xxoo (a b : Int) (ha0 : a ≠ 0) (hb0 : b ≠ 0) :
    moveRowLeft [a, b, 0, 0] =
      (gameSlide [a, b, 0, 0], decide (gameSlide [a, b, 0, 0] ≠ [a, b, 0, 0])) := by
  rcases eq_or_ne a b with rfl | hab
  · simp [moveRowLeft, moveRowStep, BOARD_SIZE, gameSlide, mergeDouble, *]
  · simp [moveRowLeft, moveRowStep, BOARD_SIZE, gameSlide, mergeDouble, *]

theorem moveRowLeft_xxox (a b d : Int) (ha0 : a ≠ 0) (hb0 : b ≠ 0) (hd0 : d ≠ 0) :
    moveRowLeft [a, b, 0, d] =
      (gameSlide [a, b, 0, d], decide (gameSlide [a, b, 0, d] ≠ [a, b, 0, d])) := by
  rcases eq_or_ne a b with rfl | hab
  · simp [moveRowLeft, moveRowStep, BOARD_SIZE, gameSlide, mergeDouble, *]
  · rcases eq_or_ne b d with rfl | hbd
    · simp [moveRowLeft, moveRowStep, BOARD_SIZE, gameSlide, mergeDouble, *]
    · simp [moveRowLeft, moveRowStep, BOARD_SIZE, gameSlide, mergeDouble, *]

theorem moveRowLeft_xxxo (a b c : Int) (ha0 : a ≠ 0) (hb0 : b ≠ 0) (hc0 : c ≠ 0) :
    moveRowLeft [a, b, c, 0] =
      (gameSlide [a, b, c, 0], decide (gameSlide [a, b, c, 0] ≠ [a, b, c, 0])) := by
  rcases eq_or_ne a b with rfl | hab
  · simp [moveRowLeft, moveRowStep, BOARD_SIZE, gameSlide, mergeDouble, *]
  · rcases eq_or_ne b c with rfl | hbc
    · simp [moveRowLeft, moveRowStep, BOARD_SIZE, gameSlide, mergeDouble, *]
    · simp [moveRowLeft, moveRowStep, BOARD_SIZE, gameSlide, mergeDouble, *]

theorem moveRowLeft_xxxx (a b c d : Int) (ha0 : a ≠ 0) (hb0 : b ≠ 0) (hc0 : c ≠ 0) (hd0 : d ≠ 0) :
    moveRowLeft [a, b, c, d] =
      (gameSlide [a, b, c, d], decide (gameSlide [a, b, c, d] ≠ [a, b, c, d])) := by
  rcases eq_or_ne a b with rfl | hab
  · rcases eq_or_ne c d with rfl | hcd
    · simp [moveRowLeft, moveRowStep, BOARD_SIZE, gameSlide, mergeDouble, *]
    · simp [moveRowLeft, moveRowStep, BOARD_SIZE, gameSlide, mergeDouble, *]
  · rcases eq_or_ne b c with rfl | hbc
    · simp [moveRowLeft, moveRowStep, BOARD_SIZE, gameSlide, mergeDouble, *]
    · rcases eq_or_ne c d with rfl | hcd
      · simp [moveRowLeft, moveRowStep, BOARD_SIZE, gameSlide, mergeDouble, *]
      · simp [moveRowLeft, moveRowStep, BOARD_SIZE, gameSlide, mergeDouble, *]

/-- The game's `moveRowLeft` on a row of four cells: the new row is `gameSlide` of the
row and the flag tells whether the row changed. -/
theorem moveRowLeft_eq_gameSlide (a b c d : Int) :
    moveRowLeft [a, b, c, d] =
      (gameSlide [a, b, c, d], decide (gameSlide [a, b, c, d] ≠ [a, b, c, d])) := by
  rcases eq_or_ne a 0 with rfl | ha0 <;> rcases eq_or_ne b 0 with rfl | hb0 <;>
    rcases eq_or_ne c 0 with rfl | hc0 <;> rcases eq_or_ne d 0 with rfl | hd0
  · exact moveRowLeft_oooo
  · exact moveRowLeft_ooox d hd0
  · exact moveRowLeft_ooxo c hc0
  · exact moveRowLeft_ooxx c d hc0 hd0
  · exact moveRowLeft_oxoo b hb0
  · exact moveRowLeft_oxox b d hb0 hd0
  · exact moveRowLeft_oxxo b c hb0 hc0
  · exact moveRowLeft_oxxx b c d hb0 hc0 hd0
  · exact moveRowLeft_xooo a ha0
  · exact moveRowLeft_xoox a d ha0 hd0
  · exact moveRowLeft_xoxo a c ha0 hc0
  · exact moveRowLeft_xoxx a c d ha0 hc0 hd0
  · exact moveRowLeft_xxoo a b ha0 hb0
  · exact moveRowLeft_xxox a b d ha0 hb0 hd0
  · exact moveRowLeft_xxxo a b c ha0 hb0 hc0
  · exact moveRowLeft_xxxx a b c d ha0 hb0 hc0 hd0

open AIEvaluator

/-! ## Tile values and ranks -/

theorem mem_tileValues_iff (v : Int) :
    v ∈ tileValues ↔ ∃ k : Nat, 1 ≤ k ∧ k ≤ 15 ∧ v = 2 ^ k := by
  constructor
  · intro h
    simp only [tileValues, List.mem_cons, List.mem_singleton, List.not_mem_nil, or_false] at h
    rcases h with h | h | h | h | h | h | h | h | h | h | h | h | h | h | h
    · exact ⟨1, by norm_num, by norm_num, by rw [h]; norm_num⟩
    · exact ⟨2, by norm_num, by norm_num, by rw [h]; norm_num⟩
    · exact ⟨3, by norm_num, by norm_num, by rw [h]; norm_num⟩
    · exact ⟨4, by norm_num, by norm_num, by rw [h]; norm_num⟩
    · exact ⟨5, by norm_num, by norm_num, by rw [h]; norm_num⟩
    · exact ⟨6, by norm_num, by norm_num, by rw [h]; norm_num⟩
    · exact ⟨7, by norm_num, by norm_num, by rw [h]; norm_num⟩
    · exact ⟨8, by norm_num, by norm_num, by rw [h]; norm_num⟩
    · exact ⟨9, by norm_num, by norm_num, by rw [h]; norm_num⟩
    · exact ⟨10, by norm_num, by norm_num, by rw [h]; norm_num⟩
    · exact ⟨11, by norm_num, by norm_num, by rw [h]; norm_num⟩
    · exact ⟨12, by norm_num, by norm_num, by rw [h]; norm_num⟩
    · exact ⟨13, by norm_num, by norm_num, by rw [h]; norm_num⟩
    · exact ⟨14, by norm_num, by norm_num, by rw [h]; norm_num⟩
    · exact ⟨15, by norm_num, by norm_num, by rw [h]; norm_num⟩
  · rintro ⟨k, h1, h15, rfl⟩
    interval_cases k <;> simp [tileValues]

theorem convertCell_zero : convertCell 0 = 0 := rfl

theorem convertCell_tile_ne_zero : ∀ v ∈ tileValues, convertCell v ≠ 0 := by decide

theorem tile_ne_zero : ∀ v ∈ tileValues, v ≠ 0 := by decide

theorem convertCell_tile_inj :
    ∀ x ∈ tileValues, ∀ y ∈ tileValues, convertCell x = convertCell y → x = y := by decide

theorem convertCell_tile_double :
    ∀ x ∈ tileValues, convertCell (x * 2) = min (convertCell x + 1) 15 := by decide

theorem convertCell_eq_zero_iff (v : Int) (hv : v = 0 ∨ v ∈ tileValues) :
    convertCell v = 0 ↔ v = 0 := by
  rcases hv with rfl | hv
  · simp [convertCell_zero]
  · simp [convertCell_tile_ne_zero v hv, tile_ne_zero v hv]

theorem convertCell_eq_iff (x y : Int) (hx : x = 0 ∨ x ∈ tileValues)
    (hy : y = 0 ∨ y ∈ tileValues) : convertCell x = convertCell y ↔ x = y := by
  constructor
  · intro h
    rcases hx with rfl | hx
    · rw [convertCell_zero] at h
      exact ((convertCell_eq_zero_iff y hy).mp h.symm).symm
    · rcases hy with rfl | hy
      · rw [convertCell_zero] at h
        exact absurd h (convertCell_tile_ne_zero x hx)
      · exact convertCell_tile_inj x hx y hy h
  · intro h
    rw [h]

/-! ## The game's row move and the reference rule -/

theorem map_mergeDouble (l : List Int) (hl : ∀ x ∈ l, x ∈ tileValues) :
    (mergeDouble l).map convertCell = mergePairs (l.map convertCell) := by
  induction l using mergeDouble.induct with
  | case1 x rest ih =>
    have hx : x ∈ tileValues := hl x (by simp)
    simp only [mergeDouble, if_true, List.map_cons, mergePairs]
    rw [ih (fun w hw => hl w (by simp [hw])), convertCell_tile_double x hx]
  | case2 x y rest hxy ih =>
    have hx : x ∈ tileValues := hl x (by simp)
    have hy : y ∈ tileValues := hl y (by simp)
    have hc : convertCell x ≠ convertCell y := fun h => hxy (convertCell_tile_inj x hx y hy h)
    have ih2 := ih (fun w hw => hl w (List.mem_cons_of_mem _ hw))
    simp only [List.map_cons] at ih2
    simp only [mergeDouble, hxy, if_false, List.map_cons, mergePairs, hc]
    rw [ih2]
  | case3 l h =>
    have e1 : mergeDouble l = l := by
      unfold mergeDouble
      split
      · exact absurd rfl (h _ _ _)
      · rfl
    rw [e1]
    match l, h with
    | [], _ => rfl
    | [x], _ => rfl
    | x :: y :: rest, h => exact absurd rfl (h x y rest)

theorem map_filter_ne_zero (row : List Int) (hrow : ∀ v ∈ row, v = 0 ∨ v ∈ tileValues) :
    (row.filter (fun c => c ≠ 0)).map convertCell =
      (row.map convertCell).filter (fun c => c ≠ 0) := by
  induction row with
  | nil => rfl
  | cons v row ih =>
    have hv := hrow v (by simp)
    have ih2 := ih (fun w hw => hrow w (List.mem_cons_of_mem _ hw))
    rcases eq_or_ne v 0 with rfl | hv0
    · simp only [List.filter_cons, List.map_cons, convertCell_zero, ne_eq, not_true_eq_false,
        decide_False, Bool.false_eq_true, if_false]
      exact ih2
    · have hc : convertCell v ≠ 0 := fun h => hv0 ((convertCell_eq_zero_iff v hv).mp h)
      simp only [List.filter_cons, List.map_cons, ne_eq, hv0, hc, not_false_eq_true, decide_True,
        if_true]
      rw [ih2]

theorem map_gameSlide (row : List Int) (hrow : ∀ v ∈ row, v = 0 ∨ v ∈ tileValues) :
    (gameSlide row).map convertCell = slideLeft (row.map convertCell) := by
  have hf : ∀ x ∈ row.filter (fun c => c ≠ 0), x ∈ tileValues := by
    intro x hx
    rw [List.mem_filter] at hx
    rcases hrow x hx.1 with h0 | ht
    · simp [h0] at hx
    · exact ht
  have h1 := map_mergeDouble _ hf
  rw [map_filter_ne_zero row hrow] at h1
  have hlen : (mergeDouble (row.filter (fun c => c ≠ 0))).length =
      (mergePairs ((row.map convertCell).filter (fun c => c ≠ 0))).length := by
    rw [← h1, List.length_map]
  unfold gameSlide slideLeft
  simp only [List.map_append, List.map_replicate, convertCell_zero, List.length_map]
  rw [h1, hlen]

theorem gameSlide_fixed_oooo :
    gameSlide [0, 0, 0, 0] = [0, 0, 0, 0] ↔
      (((0 : Int) = 0 → (0 : Int) = 0 ∧ (0 : Int) = 0 ∧ (0 : Int) = 0) ∧ ((0 : Int) = 0 → (0 : Int) = 0 ∧ (0 : Int) = 0) ∧
        ((0 : Int) = 0 → (0 : Int) = 0) ∧ ¬((0 : Int) ≠ 0 ∧ (0 : Int) = (0 : Int)) ∧ ¬((0 : Int) ≠ 0 ∧ (0 : Int) = (0 : Int)) ∧
        ¬((0 : Int) ≠ 0 ∧ (0 : Int) = (0 : Int))) := by
  simp [gameSlide, mergeDouble, *]

theorem gameSlide_fixed_ooox (d : Int) (hd0 : d ≠ 0) :
    gameSlide [0, 0, 0, d] = [0, 0, 0, d] ↔
      (((0 : Int) = 0 → (0 : Int) = 0 ∧ (0 : Int) = 0 ∧ d = 0) ∧ ((0 : Int) = 0 → (0 : Int) = 0 ∧ d = 0) ∧
        ((0 : Int) = 0 → d = 0) ∧ ¬((0 : Int) ≠ 0 ∧ (0 : Int) = (0 : Int)) ∧ ¬((0 : Int) ≠ 0 ∧ (0 : Int) = (0 : Int)) ∧
        ¬((0 : Int) ≠ 0 ∧ (0 : Int) = d)) := by
  simp [gameSlide, mergeDouble, *]

theorem gameSlide_fixed_ooxo (c : Int) (hc0 : c ≠ 0) :
    gameSlide [0, 0, c, 0] = [0, 0, c, 0] ↔
      (((0 : Int) = 0 → (0 : Int) = 0 ∧ c = 0 ∧ (0 : Int) = 0) ∧ ((0 : Int) = 0 → c = 0 ∧ (0 : Int) = 0) ∧
        (c = 0 → (0 : Int) = 0) ∧ ¬((0 : Int) ≠ 0 ∧ (0 : Int) = (0 : Int)) ∧ ¬((0 : Int) ≠ 0 ∧ (0 : Int) = c) ∧
        ¬(c ≠ 0 ∧ c = (0 : Int))) := by
  simp [gameSlide, mergeDouble, *]

theorem gameSlide_fixed_ooxx (c d : Int) (hc0 : c ≠ 0) (hd0 : d ≠ 0) :
    gameSlide [0, 0, c, d] = [0, 0, c, d] ↔
      (((0 : Int) = 0 → (0 : Int) = 0 ∧ c = 0 ∧ d = 0) ∧ ((0 : Int) = 0 → c = 0 ∧ d = 0) ∧
        (c = 0 → d = 0) ∧ ¬((0 : Int) ≠ 0 ∧ (0 : Int) = (0 : Int)) ∧ ¬((0 : Int) ≠ 0 ∧ (0 : Int) = c) ∧
        ¬(c ≠ 0 ∧ c = d)) := by
  rcases eq_or_ne c d with rfl | hcd
  · simp [gameSlide, mergeDouble, *]
  · simp [gameSlide, mergeDouble, *]

theorem gameSlide_fixed_oxoo (b : Int) (hb0 : b ≠ 0) :
    gameSlide [0, b, 0, 0] = [0, b, 0, 0] ↔
      (((0 : Int) = 0 → b = 0 ∧ (0 : Int) = 0 ∧ (0 : Int) = 0) ∧ (b = 0 → (0 : Int) = 0 ∧ (0 : Int) = 0) ∧
        ((0 : Int) = 0 → (0 : Int) = 0) ∧ ¬((0 : Int) ≠ 0 ∧ (0 : Int) = b) ∧ ¬(b ≠ 0 ∧ b = (0 : Int)) ∧
        ¬((0 : Int) ≠ 0 ∧ (0 : Int) = (0 : Int))) := by
  simp [gameSlide, mergeDouble, *]

theorem gameSlide_fixed_oxox (b d : Int) (hb0 : b ≠ 0) (hd0 : d ≠ 0) :
    gameSlide [0, b, 0, d] = [0, b, 0, d] ↔
      (((0 : Int) = 0 → b = 0 ∧ (0 : Int) = 0 ∧ d = 0) ∧ (b = 0 → (0 : Int) = 0 ∧ d = 0) ∧
        ((0 : Int) = 0 → d = 0) ∧ ¬((0 : Int) ≠ 0 ∧ (0 : Int) = b) ∧ ¬(b ≠ 0 ∧ b = (0 : Int)) ∧
        ¬((0 : Int) ≠ 0 ∧ (0 : Int) = d)) := by
  rcases eq_or_ne b d with rfl | hbd
  · simp [gameSlide, mergeDouble, *]
  · simp [gameSlide, mergeDouble, *]

theorem gameSlide_fixed_oxxo (b c : Int) (hb0 : b ≠ 0) (hc0 : c ≠ 0) :
    gameSlide [0, b, c, 0] = [0, b, c, 0] ↔
      (((0 : Int) = 0 → b = 0 ∧ c = 0 ∧ (0 : Int) = 0) ∧ (b = 0 → c = 0 ∧ (0 : Int) = 0) ∧
        (c = 0 → (0 : Int) = 0) ∧ ¬((0 : Int) ≠ 0 ∧ (0 : Int) = b) ∧ ¬(b ≠ 0 ∧ b = c) ∧
        ¬(c ≠ 0 ∧ c = (0 : Int))) := by
  rcases eq_or_ne b c with rfl | hbc
  · simp [gameSlide, mergeDouble, *]
  · simp [gameSlide, mergeDouble, *]

theorem gameSlide_fixed_oxxx (b c d : Int) (hb0 : b ≠ 0) (hc0 : c ≠ 0) (hd0 : d ≠ 0) :
    gameSlide [0, b, c, d] = [0, b, c, d] ↔
      (((0 : Int) = 0 → b = 0 ∧ c = 0 ∧ d = 0) ∧ (b = 0 → c = 0 ∧ d = 0) ∧
        (c = 0 → d = 0) ∧ ¬((0 : Int) ≠ 0 ∧ (0 : Int) = b) ∧ ¬(b ≠ 0 ∧ b = c) ∧
        ¬(c ≠ 0 ∧ c = d)) := by
  rcases eq_or_ne b c with rfl | hbc
  · simp [gameSlide, mergeDouble, *]
  · rcases eq_or_ne c d with rfl | hcd
    · simp [gameSlide, mergeDouble, *]
    · simp [gameSlide, mergeDouble, *]

theorem gameSlide_fixed_xooo (a : Int) (ha0 : a ≠ 0) :
    gameSlide [a, 0, 0, 0] = [a, 0, 0, 0] ↔
      ((a = 0 → (0 : Int) = 0 ∧ (0 : Int) = 0 ∧ (0 : Int) = 0) ∧ ((0 : Int) = 0 → (0 : Int) = 0 ∧ (0 : Int) = 0) ∧
        ((0 : Int) = 0 → (0 : Int) = 0) ∧ ¬(a ≠ 0 ∧ a = (0 : Int)) ∧ ¬((0 : Int) ≠ 0 ∧ (0 : Int) = (0 : Int)) ∧
        ¬((0 : Int) ≠ 0 ∧ (0 : Int) = (0 : Int))) := by
  simp [gameSlide, mergeDouble, *]

theorem gameSlide_fixed_xoox (a d : Int) (ha0 : a ≠ 0) (hd0 : d ≠ 0) :
    gameSlide [a, 0, 0, d] = [a, 0, 0, d] ↔
      ((a = 0 → (0 : Int) = 0 ∧ (0 : Int) = 0 ∧ d = 0) ∧ ((0 : Int) = 0 → (0 : Int) = 0 ∧ d = 0) ∧
        ((0 : Int) = 0 → d = 0) ∧ ¬(a ≠ 0 ∧ a = (0 : Int)) ∧ ¬((0 : Int) ≠ 0 ∧ (0 : Int) = (0 : Int)) ∧
        ¬((0 : Int) ≠ 0 ∧ (0 : Int) = d)) := by
  rcases eq_or_ne a d with rfl | had
  · simp [gameSlide, mergeDouble, *]
  · simp [gameSlide, mergeDouble, *]

theorem gameSlide_fixed_xoxo (a c : Int) (ha0 : a ≠ 0) (hc0 : c ≠ 0) :
    gameSlide [a, 0, c, 0] = [a, 0, c, 0] ↔
      ((a = 0 → (0 : Int) = 0 ∧ c = 0 ∧ (0 : Int) = 0) ∧ ((0 : Int) = 0 → c = 0 ∧ (0 : Int) = 0) ∧
        (c = 0 → (0 : Int) = 0) ∧ ¬(a ≠ 0 ∧ a = (0 : Int)) ∧ ¬((0 : Int) ≠ 0 ∧ (0 : Int) = c) ∧
        ¬(c ≠ 0 ∧ c = (0 : Int))) := by
  rcases eq_or_ne a c with rfl | hac
  · simp [gameSlide, mergeDouble, *]
  · simp [gameSlide, mergeDouble, *]

theorem gameSlide_fixed_xoxx (a c d : Int) (ha0 : a ≠ 0) (hc0 : c ≠ 0) (hd0 : d ≠ 0) :
    gameSlide [a, 0, c, d] = [a, 0, c, d] ↔
      ((a = 0 → (0 : Int) = 0 ∧ c = 0 ∧ d = 0) ∧ ((0 : Int) = 0 → c = 0 ∧ d = 0) ∧
        (c = 0 → d = 0) ∧ ¬(a ≠ 0 ∧ a = (0 : Int)) ∧ ¬((0 : Int) ≠ 0 ∧ (0 : Int) = c) ∧
        ¬(c ≠ 0 ∧ c = d)) := by
  rcases eq_or_ne a c with rfl | hac
  · simp [gameSlide, mergeDouble, *]
  · rcases eq_or_ne c d with rfl | hcd
    · simp [gameSlide, mergeDouble, *]
    · simp [gameSlide, mergeDouble, *]

theorem gameSlide_fixed_xxoo (a b : Int) (ha0 : a ≠ 0) (hb0 : b ≠ 0) :
    gameSlide [a, b, 0, 0] = [a, b, 0, 0] ↔
      ((a = 0 → b = 0 ∧ (0 : Int) = 0 ∧ (0 : Int) = 0) ∧ (b = 0 → (0 : Int) = 0 ∧ (0 : Int) = 0) ∧
        ((0 : Int) = 0 → (0 : Int) = 0) ∧ ¬(a ≠ 0 ∧ a = b) ∧ ¬(b ≠ 0 ∧ b = (0 : Int)) ∧
        ¬((0 : Int) ≠ 0 ∧ (0 : Int) = (0 : Int))) := by
  rcases eq_or_ne a b with rfl | hab
  · simp [gameSlide, mergeDouble, *]
  · simp [gameSlide, mergeDouble, *]

theorem gameSlide_fixed_xxox (a b d : Int) (ha0 : a ≠ 0) (hb0 : b ≠ 0) (hd0 : d ≠ 0) :
    gameSlide [a, b, 0, d] = [a, b, 0, d] ↔
      ((a = 0 → b = 0 ∧ (0 : Int) = 0 ∧ d = 0) ∧ (b = 0 → (0 : Int) = 0 ∧ d = 0) ∧
        ((0 : Int) = 0 → d = 0) ∧ ¬(a ≠ 0 ∧ a = b) ∧ ¬(b ≠ 0 ∧ b = (0 : Int)) ∧
        ¬((0 : Int) ≠ 0 ∧ (0 : Int) = d)) := by
  rcases eq_or_ne a b with rfl | hab
  · simp [gameSlide, mergeDouble, *]
  · rcases eq_or_ne b d with rfl | hbd
    · simp [gameSlide, mergeDouble, *]
    · simp [gameSlide, mergeDouble, *]

theorem gameSlide_fixed_xxxo (a b c : Int) (ha0 : a ≠ 0) (hb0 : b ≠ 0) (hc0 : c ≠ 0) :
    gameSlide [a, b, c, 0] = [a, b, c, 0] ↔
      ((a = 0 → b = 0 ∧ c = 0 ∧ (0 : Int) = 0) ∧ (b = 0 → c = 0 ∧ (0 : Int) = 0) ∧
        (c = 0 → (0 : Int) = 0) ∧ ¬(a ≠ 0 ∧ a = b) ∧ ¬(b ≠ 0 ∧ b = c) ∧
        ¬(c ≠ 0 ∧ c = (0 : Int))) := by
  rcases eq_or_ne a b with rfl | hab
  · simp [gameSlide, mergeDouble, *]
  · rcases eq_or_ne b c with rfl | hbc
    · simp [gameSlide, mergeDouble, *]
    · simp [gameSlide, mergeDouble, *]

theorem gameSlide_fixed_xxxx (a b c d : Int) (ha0 : a ≠ 0) (hb0 : b ≠ 0) (hc0 : c ≠ 0) (hd0 : d ≠ 0) :
    gameSlide [a, b, c, d] = [a, b, c, d] ↔
      ((a = 0 → b = 0 ∧ c = 0 ∧ d = 0) ∧ (b = 0 → c = 0 ∧ d = 0) ∧
        (c = 0 → d = 0) ∧ ¬(a ≠ 0 ∧ a = b) ∧ ¬(b ≠ 0 ∧ b = c) ∧
        ¬(c ≠ 0 ∧ c = d)) := by
  rcases eq_or_ne a b with rfl | hab
  · rcases eq_or_ne c d with rfl | hcd
    · simp [gameSlide, mergeDouble, *]
    · simp [gameSlide, mergeDouble, *]
  · rcases eq_or_ne b c with rfl | hbc
    · simp [gameSlide, mergeDouble, *]
    · rcases eq_or_ne c d with rfl | hcd
      · simp [gameSlide, mergeDouble, *]
      · simp [gameSlide, mergeDouble, *]

/-- A row is left unchanged by the game's row move exactly when it is packed and has no
two equal neighbouring tiles. -/
theorem gameSlide_fixed_iff (a b c d : Int) :
    gameSlide [a, b, c, d] = [a, b, c, d] ↔
      ((a = 0 → b = 0 ∧ c = 0 ∧ d = 0) ∧ (b = 0 → c = 0 ∧ d = 0) ∧
        (c = 0 → d = 0) ∧ ¬(a ≠ 0 ∧ a = b) ∧ ¬(b ≠ 0 ∧ b = c) ∧
        ¬(c ≠ 0 ∧ c = d)) := by
  rcases eq_or_ne a 0 with rfl | ha0 <;> rcases eq_or_ne b 0 with rfl | hb0 <;>
    rcases eq_or_ne c 0 with rfl | hc0 <;> rcases eq_or_ne d 0 with rfl | hd0
  · exact gameSlide_fixed_oooo
  · exact gameSlide_fixed_ooox d hd0
  · exact gameSlide_fixed_ooxo c hc0
  · exact gameSlide_fixed_ooxx c d hc0 hd0
  · exact gameSlide_fixed_oxoo b hb0
  · exact gameSlide_fixed_oxox b d hb0 hd0
  · exact gameSlide_fixed_oxxo b c hb0 hc0
  · exact gameSlide_fixed_oxxx b c d hb0 hc0 hd0
  · exact gameSlide_fixed_xooo a ha0
  · exact gameSlide_fixed_xoox a d ha0 hd0
  · exact gameSlide_fixed_xoxo a c ha0 hc0
  · exact gameSlide_fixed_xoxx a c d ha0 hc0 hd0
  · exact gameSlide_fixed_xxoo a b ha0 hb0
  · exact gameSlide_fixed_xxox a b d ha0 hb0 hd0
  · exact gameSlide_fixed_xxxo a b c ha0 hb0 hc0
  · exact gameSlide_fixed_xxxx a b c d ha0 hb0 hc0 hd0

theorem slideLeft_fixed_explicit (a b c d : Nat) :
    slideLeft [a, b, c, d] = [a, b, c, d] ↔
      ((a = 0 → b = 0 ∧ c = 0 ∧ d = 0) ∧ (b = 0 → c = 0 ∧ d = 0) ∧
        (c = 0 → d = 0) ∧ ¬(a ≠ 0 ∧ a = b) ∧ ¬(b ≠ 0 ∧ b = c) ∧
        ¬(c ≠ 0 ∧ c = d)) := by
  rw [slideLeft_fixed_iff]
  simp only [packedLine, noEqualNeighbours, List.mem_cons, List.mem_singleton,
    List.not_mem_nil, or_false, forall_eq_or_imp, forall_eq, and_true, IsEmpty.forall_iff,
    implies_true]
  tauto

/-- On a row of four valid cells the game's row move changes the row exactly
when the reference rule changes the row of ranks. -/
theorem gameSlide_ne_iff (a b c d : Int) (ha : a = 0 ∨ a ∈ tileValues)
    (hb : b = 0 ∨ b ∈ tileValues) (hc : c = 0 ∨ c ∈ tileValues)
    (hd : d = 0 ∨ d ∈ tileValues) :
    gameSlide [a, b, c, d] ≠ [a, b, c, d] ↔
      slideLeft ([a, b, c, d].map convertCell) ≠ [a, b, c, d].map convertCell := by
  rw [not_iff_not, gameSlide_fixed_iff]
  simp only [List.map_cons, List.map_nil]
  rw [slideLeft_fixed_explicit]
  simp only [ne_eq, convertCell_eq_zero_iff a ha, convertCell_eq_zero_iff b hb,
    convertCell_eq_zero_iff c hc, convertCell_eq_zero_iff d hd, convertCell_eq_iff a b ha hb,
    convertCell_eq_iff b c hb hc, convertCell_eq_iff c d hc hd]

theorem gameSlide_length (row : List Int) : (gameSlide row).length = row.length := by
  have hm : ∀ l : List Int, (mergeDouble l).length ≤ l.length := by
    intro l
    induction l using mergeDouble.induct with
    | case1 x rest ih => simp only [mergeDouble, if_true, List.length_cons]; omega
    | case2 x y rest hxy ih =>
      simp only [mergeDouble, hxy, if_false, List.length_cons] at ih ⊢
      omega
    | case3 l h =>
      unfold mergeDouble
      split
      · exact absurd rfl (h _ _ _)
      · exact le_refl _
  unfold gameSlide
  have h1 := hm (row.filter (fun c => c ≠ 0))
  have h2 := List.length_filter_le (fun c => decide (c ≠ 0)) row
  simp only [List.length_append, List.length_replicate]
  omega

theorem gameSlide_four (a b c d : Int) :
    ∃ x y z w, gameSlide [a, b, c, d] = [x, y, z, w] := by
  have hlen := gameSlide_length [a, b, c, d]
  match hs : gameSlide [a, b, c, d], hlen with
  | [x, y, z, w], _ => exact ⟨x, y, z, w, rfl⟩

/-! ## The game's moves, line by line -/

theorem rotateBoard_eq (G : List (List Int)) :
    rotateBoard G =
      [(gridCol G 0).reverse, (gridCol G 1).reverse, (gridCol G 2).reverse,
        (gridCol G 3).reverse] := by
  simp [rotateBoard, BOARD_SIZE, List.range_succ, List.replicate, gridCol]

theorem gridRow_rotateBoard (G : List (List Int)) (i : Nat) (hi : i < 4) :
    gridRow (rotateBoard G) i = (gridCol G i).reverse := by
  rw [rotateBoard_eq]
  interval_cases i <;> rfl

theorem gridCol_rotateBoard (G : List (List Int)) (j : Nat) (hj : j < 4) :
    gridCol (rotateBoard G) j = gridRow G (3 - j) := by
  rw [rotateBoard_eq]
  interval_cases j <;> rfl

theorem gridRow_of_getD (G : List (List Int)) (i : Nat) (a b c d : Int)
    (h : G.getD i [] = [a, b, c, d]) : gridRow G i = [a, b, c, d] := by
  unfold gridRow
  rw [h]
  rfl

theorem getD_eq_gridRow (G : List (List Int)) (i : Nat) (h : (G.getD i []).length = 4) :
    G.getD i [] = gridRow G i := by
  match hr : G.getD i [], h with
  | [a, b, c, d], _ => exact (gridRow_of_getD G i a b c d hr).symm

theorem getD_map (G : List (List Int)) (f : List Int → List Int) (i : Nat)
    (hi : i < G.length) : (G.map f).getD i [] = f (G.getD i []) := by
  induction G generalizing i with
  | nil => simp at hi
  | cons r G ih =>
    cases i with
    | zero => simp
    | succ i =>
      have hi2 : i < G.length := by simpa using hi
      simpa using ih i hi2

theorem lt_length_of_getD (G : List (List Int)) (i : Nat) (h : (G.getD i []).length = 4) :
    i < G.length := by
  by_contra hlt
  have e : G.getD i [] = [] := by
    rw [List.getD_eq_getElem?_getD, List.getElem?_eq_none (by omega)]
    rfl
  rw [e] at h
  simp at h

theorem gridRow_moveLeft (G : List (List Int)) (i : Nat)
    (h : (G.getD i []).length = 4) :
    gridRow (moveLeft G).1 i = gameSlide (gridRow G i) := by
  have e : (moveLeft G).1.getD i [] = gameSlide (gridRow G i) := by
    unfold moveLeft
    rw [getD_map G (fun r => (moveRowLeft r).1) i (lt_length_of_getD G i h),
      getD_eq_gridRow G i h]
    simp only [gridRow, moveRowLeft_eq_gameSlide]
  obtain ⟨x, y, z, w, hx⟩ : ∃ x y z w, gameSlide (gridRow G i) = [x, y, z, w] :=
    gameSlide_four _ _ _ _
  rw [hx] at e ⊢
  exact gridRow_of_getD _ i x y z w e

theorem getD_rotateBoard_length (G : List (List Int)) (i : Nat) (hi : i < 4) :
    ((rotateBoard G).getD i []).length = 4 := by
  rw [rotateBoard_eq]
  interval_cases i <;> rfl

theorem moveLeft_flag (r0 r1 r2 r3 : List Int) (h0 : r0.length = 4) (h1 : r1.length = 4)
    (h2 : r2.length = 4) (h3 : r3.length = 4) :
    (moveLeft [r0, r1, r2, r3]).2 = true ↔
      ∃ i, i < 4 ∧ gameSlide (gridRow [r0, r1, r2, r3] i) ≠ gridRow [r0, r1, r2, r3] i := by
  match r0, r1, r2, r3, h0, h1, h2, h3 with
  | [a0, a1, a2, a3], [b0, b1, b2, b3], [c0, c1, c2, c3], [d0, d1, d2, d3], _, _, _, _ =>
    simp only [moveLeft, List.any_cons, List.any_nil, moveRowLeft_eq_gameSlide, Bool.or_false,
      Bool.or_eq_true, decide_eq_true_eq]
    constructor
    · rintro (h | h | h | h)
      · exact ⟨0, by norm_num, h⟩
      · exact ⟨1, by norm_num, h⟩
      · exact ⟨2, by norm_num, h⟩
      · exact ⟨3, by norm_num, h⟩
    · rintro ⟨i, hi, h⟩
      interval_cases i
      · exact Or.inl h
      · exact Or.inr (Or.inl h)
      · exact Or.inr (Or.inr (Or.inl h))
      · exact Or.inr (Or.inr (Or.inr h))

theorem moveLeft_rotateBoard_flag (G : List (List Int)) :
    (moveLeft (rotateBoard G)).2 = true ↔
      ∃ i, i < 4 ∧ gameSlide (gridRow (rotateBoard G) i) ≠ gridRow (rotateBoard G) i := by
  have h := rotateBoard_eq G
  generalize rotateBoard G = R at h ⊢
  subst h
  exact moveLeft_flag _ _ _ _ rfl rfl rfl rfl

theorem three_sub_three_sub (i : Nat) (hi : i < 4) : 3 - (3 - i) = i := by omega

theorem gridRow_rotate_rotate (G : List (List Int)) (i : Nat) (hi : i < 4) :
    gridRow (rotateBoard (rotateBoard G)) i = (gridRow G (3 - i)).reverse := by
  rw [gridRow_rotateBoard _ i hi, gridCol_rotateBoard _ i hi]

theorem gridRow_rotate_rotate_rotate (G : List (List Int)) (i : Nat) (hi : i < 4) :
    gridRow (rotateBoard (rotateBoard (rotateBoard G))) i = gridCol G (3 - i) := by
  rw [gridRow_rotate_rotate _ i hi, gridRow_rotateBoard _ (3 - i) (by omega),
    List.reverse_reverse]

theorem gridRow_moveRight (G : List (List Int)) (i : Nat) (hi : i < 4) :
    gridRow (moveRight G).1 i = (gameSlide (gridRow G i).reverse).reverse := by
  unfold moveRight
  simp only
  rw [gridRow_rotate_rotate _ i hi,
    gridRow_moveLeft _ (3 - i) (getD_rotateBoard_length _ _ (by omega)),
    gridRow_rotate_rotate _ (3 - i) (by omega), three_sub_three_sub i hi]

theorem gridCol_moveUp (G : List (List Int)) (j : Nat) (hj : j < 4) :
    gridCol (moveUp G).1 j = gameSlide (gridCol G j) := by
  unfold moveUp
  simp only
  rw [gridCol_rotateBoard _ j hj,
    gridRow_moveLeft _ (3 - j) (getD_rotateBoard_length _ _ (by omega)),
    gridRow_rotate_rotate_rotate _ (3 - j) (by omega), three_sub_three_sub j hj]

theorem gridCol_moveDown (G : List (List Int)) (j : Nat) (hj : j < 4) :
    gridCol (moveDown G).1 j = (gameSlide (gridCol G j).reverse).reverse := by
  unfold moveDown
  simp only
  rw [gridCol_rotateBoard _ j hj, gridRow_rotate_rotate _ (3 - j) (by omega),
    three_sub_three_sub j hj, gridRow_moveLeft _ j (getD_rotateBoard_length _ _ hj),
    gridRow_rotateBoard _ j hj]

theorem exists_lt_four_reindex (P : Nat → Prop) :
    (∃ i, i < 4 ∧ P (3 - i)) ↔ ∃ i, i < 4 ∧ P i := by
  constructor
  · rintro ⟨i, hi, h⟩
    exact ⟨3 - i, by omega, h⟩
  · rintro ⟨i, hi, h⟩
    exact ⟨3 - i, by omega, by rwa [three_sub_three_sub i hi]⟩

theorem exists_lt_four_congr (P Q : Nat → Prop) (h : ∀ i, i < 4 → (P i ↔ Q i)) :
    (∃ i, i < 4 ∧ P i) ↔ ∃ i, i < 4 ∧ Q i := by
  constructor
  · rintro ⟨i, hi, hp⟩
    exact ⟨i, hi, (h i hi).mp hp⟩
  · rintro ⟨i, hi, hq⟩
    exact ⟨i, hi, (h i hi).mpr hq⟩

theorem moveRight_flag (G : List (List Int)) :
    (moveRight G).2 = true ↔
      ∃ i, i < 4 ∧ gameSlide (gridRow G i).reverse ≠ (gridRow G i).reverse := by
  unfold moveRight
  simp only
  rw [moveLeft_rotateBoard_flag,
    ← exists_lt_four_reindex (fun i => gameSlide (gridRow G i).reverse ≠ (gridRow G i).reverse)]
  exact exists_lt_four_congr _ _ fun i hi => by rw [gridRow_rotate_rotate _ i hi]

theorem moveUp_flag (G : List (List Int)) :
    (moveUp G).2 = true ↔ ∃ j, j < 4 ∧ gameSlide (gridCol G j) ≠ gridCol G j := by
  unfold moveUp
  simp only
  rw [moveLeft_rotateBoard_flag,
    ← exists_lt_four_reindex (fun j => gameSlide (gridCol G j) ≠ gridCol G j)]
  exact exists_lt_four_congr _ _ fun i hi => by rw [gridRow_rotate_rotate_rotate _ i hi]

theorem moveDown_flag (G : List (List Int)) :
    (moveDown G).2 = true ↔
      ∃ j, j < 4 ∧ gameSlide (gridCol G j).reverse ≠ (gridCol G j).reverse := by
  unfold moveDown
  simp only
  rw [moveLeft_rotateBoard_flag]
  exact exists_lt_four_congr _ _ fun i hi => by rw [gridRow_rotateBoard _ i hi]

/-! ## The codec, line by line -/

theorem boardRow_convertToBitboard (G : List (List Int)) (i : Nat) (hi : i < 4) :
    boardRow (convertToBitboard G) i = (gridRow G i).map convertCell := by
  have h0 := cell_convertToBitboard G i 0 hi (by norm_num)
  have h1 := cell_convertToBitboard G i 1 hi (by norm_num)
  have h2 := cell_convertToBitboard G i 2 hi (by norm_num)
  have h3 := cell_convertToBitboard G i 3 hi (by norm_num)
  rw [Nat.add_zero] at h0
  unfold boardRow gridRow
  rw [h0, h1, h2, h3]
  rfl

theorem boardCol_convertToBitboard (G : List (List Int)) (j : Nat) (hj : j < 4) :
    boardCol (convertToBitboard G) j = (gridCol G j).map convertCell := by
  have h0 := cell_convertToBitboard G 0 j (by norm_num) hj
  have h1 := cell_convertToBitboard G 1 j (by norm_num) hj
  have h2 := cell_convertToBitboard G 2 j (by norm_num) hj
  have h3 := cell_convertToBitboard G 3 j (by norm_num) hj
  simp only [Nat.mul_zero, Nat.zero_add, Nat.mul_one] at h0 h1 h2 h3
  unfold boardCol gridCol
  rw [h0, h1, h2, h3]
  rfl

/-! ## The game's moves against the engine's moves -/

theorem gameSlide_ne_iff_of_valid (l : List Int) (hlen : l.length = 4)
    (hv : ∀ v ∈ l, v = 0 ∨ v ∈ tileValues) :
    gameSlide l ≠ l ↔ slideLeft (l.map convertCell) ≠ l.map convertCell := by
  match l, hlen with
  | [a, b, c, d], _ =>
    exact gameSlide_ne_iff a b c d (hv a (by simp)) (hv b (by simp)) (hv c (by simp))
      (hv d (by simp))

/-- If the lines of the grid are valid and map to the lines of the board,
some line is changed by the game exactly when not every line of the board is
a fixed point of the reference rule. -/
theorem flag_transfer (L : Nat → List Int) (B : Nat → List Nat)
    (hB : ∀ i, i < 4 → B i = (L i).map convertCell) (hlen : ∀ i, i < 4 → (L i).length = 4)
    (hv : ∀ i, i < 4 → ∀ v ∈ L i, v = 0 ∨ v ∈ tileValues) :
    (∃ i, i < 4 ∧ gameSlide (L i) ≠ L i) ↔ ¬ ∀ i, i < 4 → slideLeft (B i) = B i := by
  rw [not_forall]
  constructor
  · rintro ⟨i, hi, h⟩
    refine ⟨i, fun hc => ?_⟩
    rw [gameSlide_ne_iff_of_valid (L i) (hlen i hi) (hv i hi), ← hB i hi] at h
    exact h (hc hi)
  · rintro ⟨i, h⟩
    rw [Classical.not_imp] at h
    refine ⟨i, h.1, ?_⟩
    rw [gameSlide_ne_iff_of_valid (L i) (hlen i h.1) (hv i h.1), ← hB i h.1]
    exact h.2

theorem IsGrid.cell_valid {grid : List (List Int)} (hg : IsGrid 15 grid) (i j : Nat)
    (hi : i < 4) (hj : j < 4) :
    (grid.getD i []).getD j 0 = 0 ∨ (grid.getD i []).getD j 0 ∈ tileValues := by
  obtain ⟨hlen, hrows⟩ := hg
  have hi2 : i < grid.length := by omega
  have hmem : grid.getD i [] ∈ grid := by
    rw [List.getD_eq_getElem _ _ hi2]
    exact List.getElem_mem _
  obtain ⟨hrl, hcells⟩ := hrows _ hmem
  have hj2 : j < (grid.getD i []).length := by omega
  have hmem2 : (grid.getD i []).getD j 0 ∈ grid.getD i [] := by
    rw [List.getD_eq_getElem _ _ hj2]
    exact List.getElem_mem _
  rcases hcells _ hmem2 with h0 | hk
  · exact Or.inl h0
  · exact Or.inr ((mem_tileValues_iff _).mpr hk)

theorem IsGrid.row_valid {grid : List (List Int)} (hg : IsGrid 15 grid) (i : Nat) (hi : i < 4) :
    ∀ v ∈ gridRow grid i, v = 0 ∨ v ∈ tileValues := by
  intro v hv
  simp only [gridRow, List.mem_cons, List.mem_singleton, List.not_mem_nil, or_false] at hv
  rcases hv with rfl | rfl | rfl | rfl
  · exact hg.cell_valid i 0 hi (by norm_num)
  · exact hg.cell_valid i 1 hi (by norm_num)
  · exact hg.cell_valid i 2 hi (by norm_num)
  · exact hg.cell_valid i 3 hi (by norm_num)

theorem IsGrid.col_valid {grid : List (List Int)} (hg : IsGrid 15 grid) (j : Nat) (hj : j < 4) :
    ∀ v ∈ gridCol grid j, v = 0 ∨ v ∈ tileValues := by
  intro v hv
  simp only [gridCol, List.mem_cons, List.mem_singleton, List.not_mem_nil, or_false] at hv
  rcases hv with rfl | rfl | rfl | rfl
  · exact hg.cell_valid 0 j (by norm_num) hj
  · exact hg.cell_valid 1 j (by norm_num) hj
  · exact hg.cell_valid 2 j (by norm_num) hj
  · exact hg.cell_valid 3 j (by norm_num) hj

theorem IsGrid.getD_length {top : Nat} {grid : List (List Int)} (hg : IsGrid top grid) (i : Nat)
    (hi : i < 4) : (grid.getD i []).length = 4 := by
  obtain ⟨hlen, hrows⟩ := hg
  have hi2 : i < grid.length := by omega
  have hmem : grid.getD i [] ∈ grid := by
    rw [List.getD_eq_getElem _ _ hi2]
    exact List.getElem_mem _
  exact (hrows _ hmem).1

theorem moveLeft_flag_of_grid {top : Nat} {grid : List (List Int)} (hg : IsGrid top grid) :
    (moveLeft grid).2 = true ↔ ∃ i, i < 4 ∧ gameSlide (gridRow grid i) ≠ gridRow grid i := by
  have h0 := hg.getD_length 0 (by norm_num)
  have h1 := hg.getD_length 1 (by norm_num)
  have h2 := hg.getD_length 2 (by norm_num)
  have h3 := hg.getD_length 3 (by norm_num)
  obtain ⟨hlen, -⟩ := hg
  match grid, hlen with
  | [r0, r1, r2, r3], _ => exact moveLeft_flag r0 r1 r2 r3 h0 h1 h2 h3

theorem mem_reverse_valid (l : List Int) (hv : ∀ v ∈ l, v = 0 ∨ v ∈ tileValues) :
    ∀ v ∈ l.reverse, v = 0 ∨ v ∈ tileValues := fun v h => hv v (List.mem_reverse.mp h)

theorem moveLeft_matches (grid : List (List Int)) (hg : IsGrid 15 grid) :
    convertToBitboard (moveLeft grid).1 = executeMove 2 (convertToBitboard grid) ∧
      ((moveLeft grid).2 = true ↔
        executeMove 2 (convertToBitboard grid) ≠ convertToBitboard grid) := by
  constructor
  · apply board_eq_of_rows _ _ (convertToBitboard_lt _) (executeMove_lt _ _ (convertToBitboard_lt _))
    intro i hi
    rw [boardRow_executeMove_left _ i hi, boardRow_convertToBitboard _ i hi,
      boardRow_convertToBitboard _ i hi, gridRow_moveLeft _ i (hg.getD_length i hi),
      map_gameSlide _ (hg.row_valid i hi)]
  · rw [moveLeft_flag_of_grid hg, Ne, executeMove_left_eq_self_iff _ (convertToBitboard_lt _)]
    exact flag_transfer (fun i => gridRow grid i) (fun i => boardRow (convertToBitboard grid) i)
      (fun i hi => boardRow_convertToBitboard grid i hi) (fun _ _ => rfl)
      (fun i hi => hg.row_valid i hi)

theorem moveRight_matches (grid : List (List Int)) (hg : IsGrid 15 grid) :
    convertToBitboard (moveRight grid).1 = executeMove 3 (convertToBitboard grid) ∧
      ((moveRight grid).2 = true ↔
        executeMove 3 (convertToBitboard grid) ≠ convertToBitboard grid) := by
  constructor
  · apply board_eq_of_rows _ _ (convertToBitboard_lt _) (executeMove_lt _ _ (convertToBitboard_lt _))
    intro i hi
    rw [boardRow_executeMove_right _ i hi, boardRow_convertToBitboard _ i hi,
      boardRow_convertToBitboard _ i hi, gridRow_moveRight _ i hi, List.map_reverse,
      map_gameSlide _ (mem_reverse_valid _ (hg.row_valid i hi)), List.map_reverse]
  · rw [moveRight_flag, Ne, executeMove_right_eq_self_iff _ (convertToBitboard_lt _)]
    exact flag_transfer (fun i => (gridRow grid i).reverse)
      (fun i => (boardRow (convertToBitboard grid) i).reverse)
      (fun i hi => by simp only [boardRow_convertToBitboard grid i hi, List.map_reverse])
      (fun _ _ => rfl) (fun i hi => mem_reverse_valid _ (hg.row_valid i hi))

theorem moveUp_matches (grid : List (List Int)) (hg : IsGrid 15 grid) :
    convertToBitboard (moveUp grid).1 = executeMove 0 (convertToBitboard grid) ∧
      ((moveUp grid).2 = true ↔
        executeMove 0 (convertToBitboard grid) ≠ convertToBitboard grid) := by
  constructor
  · apply board_eq_of_cols _ _ (convertToBitboard_lt _) (executeMove_lt _ _ (convertToBitboard_lt _))
    intro j hj
    rw [boardCol_executeMove_up _ j hj, boardCol_convertToBitboard _ j hj,
      boardCol_convertToBitboard _ j hj, gridCol_moveUp _ j hj,
      map_gameSlide _ (hg.col_valid j hj)]
  · rw [moveUp_flag, Ne, executeMove_up_eq_self_iff _ (convertToBitboard_lt _)]
    exact flag_transfer (fun j => gridCol grid j) (fun j => boardCol (convertToBitboard grid) j)
      (fun j hj => boardCol_convertToBitboard grid j hj) (fun _ _ => rfl)
      (fun j hj => hg.col_valid j hj)

theorem moveDown_matches (grid : List (List Int)) (hg : IsGrid 15 grid) :
    convertToBitboard (moveDown grid).1 = executeMove 1 (convertToBitboard grid) ∧
      ((moveDown grid).2 = true ↔
        executeMove 1 (convertToBitboard grid) ≠ convertToBitboard grid) := by
  constructor
  · apply board_eq_of_cols _ _ (convertToBitboard_lt _) (executeMove_lt _ _ (convertToBitboard_lt _))
    intro j hj
    rw [boardCol_executeMove_down _ j hj, boardCol_convertToBitboard _ j hj,
      boardCol_convertToBitboard _ j hj, gridCol_moveDown _ j hj, List.map_reverse,
      map_gameSlide _ (mem_reverse_valid _ (hg.col_valid j hj)), List.map_reverse]
  · rw [moveDown_flag, Ne, executeMove_down_eq_self_iff _ (convertToBitboard_lt _)]
    exact flag_transfer (fun j => (gridCol grid j).reverse)
      (fun j => (boardCol (convertToBitboard grid) j).reverse)
      (fun j hj => by simp only [boardCol_convertToBitboard grid j hj, List.map_reverse])
      (fun _ _ => rfl) (fun j hj => mem_reverse_valid _ (hg.col_valid j hj))

/-- C3 fails as stated: in the 4x4 grid whose row 0 is `[32768, 65536, 0, 0]`
(all cells 0 or a power of two in `[2, 65536]`) the game's `moveLeft` changes
nothing and returns false, while `executeMove 2` merges the two cells, which
both have rank 15. -/
theorem playMove_mismatch_at_65536 :
    IsGrid 16 [[32768, 65536, 0, 0], [0, 0, 0, 0], [0, 0, 0, 0], [0, 0, 0, 0]] ∧
      convertToBitboard
          (playMove 2 [[32768, 65536, 0, 0], [0, 0, 0, 0], [0, 0, 0, 0], [0, 0, 0, 0]]).1 ≠
        executeMove 2
          (convertToBitboard [[32768, 65536, 0, 0], [0, 0, 0, 0], [0, 0, 0, 0], [0, 0, 0, 0]]) ∧
      (playMove 2 [[32768, 65536, 0, 0], [0, 0, 0, 0], [0, 0, 0, 0], [0, 0, 0, 0]]).2 = false ∧
      executeMove 2
          (convertToBitboard [[32768, 65536, 0, 0], [0, 0, 0, 0], [0, 0, 0, 0], [0, 0, 0, 0]]) ≠
        convertToBitboard [[32768, 65536, 0, 0], [0, 0, 0, 0], [0, 0, 0, 0], [0, 0, 0, 0]] := by
  have hc : convertToBitboard [[32768, 65536, 0, 0], [0, 0, 0, 0], [0, 0, 0, 0], [0, 0, 0, 0]]
      = 0xFF := by decide
  have hp : playMove 2 [[32768, 65536, 0, 0], [0, 0, 0, 0], [0, 0, 0, 0], [0, 0, 0, 0]] =
      ([[32768, 65536, 0, 0], [0, 0, 0, 0], [0, 0, 0, 0], [0, 0, 0, 0]], false) := by decide
  have he : executeMove 2 0xFF = 0x0F := by
    rw [executeMove_left_closed]
    decide
  refine ⟨⟨rfl, ?_⟩, ?_, ?_, ?_⟩
  · intro row hrow
    simp only [List.mem_cons, List.mem_singleton, List.not_mem_nil, or_false] at hrow
    have hz : ∀ v ∈ ([0, 0, 0, 0] : List Int),
        v = 0 ∨ ∃ k : Nat, 1 ≤ k ∧ k ≤ 16 ∧ v = 2 ^ k := by
      intro v hv
      simp only [List.mem_cons, List.mem_singleton, List.not_mem_nil, or_false, or_self] at hv
      exact Or.inl hv
    rcases hrow with rfl | rfl | rfl | rfl
    · refine ⟨rfl, ?_⟩
      intro v hv
      simp only [List.mem_cons, List.mem_singleton, List.not_mem_nil, or_false, or_self] at hv
      rcases hv with rfl | rfl | rfl
      · exact Or.inr ⟨15, by norm_num, by norm_num, by norm_num⟩
      · exact Or.inr ⟨16, by norm_num, by norm_num, by norm_num⟩
      · exact Or.inl rfl
    · exact ⟨rfl, hz⟩
    · exact ⟨rfl, hz⟩
    · exact ⟨rfl, hz⟩
  · rw [hp, hc, he]
    decide
  · rw [hp]
  · rw [hc, he]
    decide

/-- C3 (amended): the engine's direction encoding matches the game's move
execution on every 4x4 grid whose cells are each 0 or a power of two in
`[2, 32768]`: for every index `d` (0 is `moveUp`, 1 is `moveDown`, 2 is
`moveLeft`, 3 is `moveRight`), `convertToBitboard` of the grid produced by
the game's move equals `executeMove d (convertToBitboard grid)`, and the
game's move returns true exactly when `executeMove d (convertToBitboard
grid)` differs from `convertToBitboard grid`. -/
theorem playMove_matches_executeMove (grid : List (List Int)) (hg : IsGrid 15 grid) (d : Int)
    (hd0 : 0 ≤ d) (hd3 : d ≤ 3) :
    convertToBitboard (playMove d grid).1 = executeMove d (convertToBitboard grid) ∧
      ((playMove d grid).2 = true ↔
        executeMove d (convertToBitboard grid) ≠ convertToBitboard grid) := by
  have hd : d = 0 ∨ d = 1 ∨ d = 2 ∨ d = 3 := by omega
  rcases hd with rfl | rfl | rfl | rfl
  · exact moveUp_matches grid hg
  · exact moveDown_matches grid hg
  · exact moveLeft_matches grid hg
  · exact moveRight_matches grid hg

/-- A grid with the tiles 2, 2, 4 in row 0 and 32768, 32768 in row 1. -/
theorem isGrid_example :
    IsGrid 15 [[2, 2, 4, 0], [32768, 32768, 0, 0], [0, 0, 0, 0], [0, 0, 0, 0]] := by
  refine ⟨rfl, ?_⟩
  intro row hrow
  simp only [List.mem_cons, List.mem_singleton, List.not_mem_nil, or_false] at hrow
  have hz : ∀ v ∈ ([0, 0, 0, 0] : List Int),
      v = 0 ∨ ∃ k : Nat, 1 ≤ k ∧ k ≤ 15 ∧ v = 2 ^ k := by
    intro v hv
    simp only [List.mem_cons, List.mem_singleton, List.not_mem_nil, or_false, or_self] at hv
    exact Or.inl hv
  rcases hrow with rfl | rfl | rfl | rfl
  · refine ⟨rfl, ?_⟩
    intro v hv
    simp only [List.mem_cons, List.mem_singleton, List.not_mem_nil, or_false] at hv
    rcases hv with rfl | rfl | rfl | rfl
    · exact Or.inr ⟨1, by norm_num, by norm_num, by norm_num⟩
    · exact Or.inr ⟨1, by norm_num, by norm_num, by norm_num⟩
    · exact Or.inr ⟨2, by norm_num, by norm_num, by norm_num⟩
    · exact Or.inl rfl
  · refine ⟨rfl, ?_⟩
    intro v hv
    simp only [List.mem_cons, List.mem_singleton, List.not_mem_nil, or_false, or_self] at hv
    rcases hv with rfl | rfl | rfl
    · exact Or.inr ⟨15, by norm_num, by norm_num, by norm_num⟩
    · exact Or.inr ⟨15, by norm_num, by norm_num, by norm_num⟩
    · exact Or.inl rfl
  · exact ⟨rfl, hz⟩
  · exact ⟨rfl, hz⟩

/-- Witness for C3 (amended): the move to the left on a grid with a merge in
row 0 and the merge of two 32768 tiles in row 1. -/
theorem playMove_matches_executeMove_witness :
    IsGrid 15 [[2, 2, 4, 0], [32768, 32768, 0, 0], [0, 0, 0, 0], [0, 0, 0, 0]] ∧
      convertToBitboard
          (playMove 2 [[2, 2, 4, 0], [32768, 32768, 0, 0], [0, 0, 0, 0], [0, 0, 0, 0]]).1 =
        executeMove 2
          (convertToBitboard [[2, 2, 4, 0], [32768, 32768, 0, 0], [0, 0, 0, 0], [0, 0, 0, 0]]) :=
  ⟨isGrid_example,
    (playMove_matches_executeMove _ isGrid_example 2 (by decide) (by decide)).1⟩

end Game2048

namespace FloatEnv

/-! ## Rounded arithmetic keeps signs -/

theorem rnd32_nonneg (F : FloatEnv) (a : ℚ) (h : 0 ≤ a) : 0 ≤ F.rnd32 a := by
  have := F.rnd32_mono 0 a h
  rwa [F.rnd32_zero] at this

theorem fadd_nonneg (F : FloatEnv) (a b : ℚ) (ha : 0 ≤ a) (hb : 0 ≤ b) : 0 ≤ F.fadd a b :=
  F.rnd32_nonneg _ (add_nonneg ha hb)

theorem fmul_nonneg (F : FloatEnv) (a b : ℚ) (ha : 0 ≤ a) (hb : 0 ≤ b) : 0 ≤ F.fmul a b :=
  F.rnd32_nonneg _ (mul_nonneg ha hb)

theorem fdiv_nonneg (F : FloatEnv) (a b : ℚ) (ha : 0 ≤ a) (hb : 0 ≤ b) : 0 ≤ F.fdiv a b :=
  F.rnd32_nonneg _ (div_nonneg ha hb)

theorem add_eps_pos (F : FloatEnv) (v : ℚ) (hv : 0 ≤ v) :
    0 < F.rnd32 (F.rnd64 (v + F.rnd64 (1 / 1000000))) := by
  have h1 : F.rnd64 (1 / 1000000) ≤ v + F.rnd64 (1 / 1000000) := le_add_of_nonneg_left hv
  have h2 := F.rnd64_mono _ _ h1
  rw [F.rnd64_idem] at h2
  exact lt_of_lt_of_le F.eps_pos (F.rnd32_mono _ _ h2)

theorem thresh_le_one (F : FloatEnv) : F.rnd32 (1 / 10000) ≤ 1 := by
  have := F.rnd32_mono (1 / 10000) 1 (by norm_num)
  rwa [F.rnd32_one] at this

end FloatEnv

namespace AIEvaluator

/-! ## `countDistinctTiles` returns -/

theorem distinctLoop_isSome (fuel : Nat) :
    ∀ board bitset, board < 2 ^ (4 * fuel) → bitset < 2 ^ 16 →
      ∃ r, distinctLoop (fuel + 1) board bitset = some r ∧ r < 2 ^ 16 := by
  induction fuel with
  | zero =>
    intro board bitset hb hbs
    have h0 : board = 0 := by simpa using hb
    subst h0
    exact ⟨bitset, by simp [distinctLoop], hbs⟩
  | succ fuel ih =>
    intro board bitset hb hbs
    by_cases h0 : board = 0
    · subst h0
      exact ⟨bitset, by simp [distinctLoop], hbs⟩
    · have hshift : board >>> 4 < 2 ^ (4 * fuel) := by
        rw [Nat.shiftRight_eq_div_pow, Nat.div_lt_iff_lt_mul (by norm_num)]
        calc board < 2 ^ (4 * (fuel + 1)) := hb
          _ = 2 ^ (4 * fuel) * 2 ^ 4 := by ring
      obtain ⟨r, hr, hr16⟩ := ih (board >>> 4)
        ((bitset ||| (1 <<< (board &&& 0xf))) % 2 ^ 16) hshift (Nat.mod_lt _ (by norm_num))
      refine ⟨r, ?_, hr16⟩
      rw [distinctLoop, if_pos h0]
      exact hr

theorem popLoop_isSome (fuel : Nat) :
    ∀ bitset count, bitset < fuel → ∃ r, popLoop fuel bitset count = some r := by
  induction fuel with
  | zero => intro bitset count h; omega
  | succ fuel ih =>
    intro bitset count h
    by_cases h0 : bitset = 0
    · subst h0
      exact ⟨count, by simp [popLoop]⟩
    · have hle : bitset &&& (bitset - 1) ≤ bitset - 1 := Nat.and_le_right
      obtain ⟨r, hr⟩ := ih (bitset &&& (bitset - 1)) (count + 1) (by omega)
      refine ⟨r, ?_⟩
      rw [popLoop, if_pos h0]
      exact hr

theorem countDistinctTiles_isSome (board : Nat) (hb : board < 2 ^ 64) :
    ∃ n, countDistinctTiles board = some n := by
  obtain ⟨bs, hbs, hlt⟩ := distinctLoop_isSome 16 board 0 hb (by norm_num)
  have hlt2 : bs >>> 1 < 65536 := by
    rw [Nat.shiftRight_eq_div_pow]
    have : bs / 2 ^ 1 ≤ bs := Nat.div_le_self _ _
    norm_num at hlt
    omega
  obtain ⟨n, hn⟩ := popLoop_isSome 65536 (bs >>> 1) 0 hlt2
  refine ⟨n, ?_⟩
  unfold countDistinctTiles
  rw [hbs]
  exact hn

/-! ## The search returns, keeps its depth and is non-negative above the leaves -/

theorem moveNodeStep_ok (f : EvalState → Nat → ℚ → Option (ℚ × EvalState)) (c D : Int)
    (hf : ∀ state board cprob, StateAt c D state →
      ∃ v st, f state board cprob = some (v, st) ∧ StateAt c D st)
    (board : Nat) (cprob best : ℚ) (state : EvalState) (move : Int) (hbest : 0 ≤ best)
    (hst : StateAt c D state) :
    ∃ best2 st, moveNodeStep f board cprob (some (best, state)) move = some (best2, st) ∧
      0 ≤ best2 ∧ StateAt c D st := by
  have hst2 : StateAt c D { state with moves_evaled := (state.moves_evaled + 1) % 2 ^ 64 } := hst
  unfold moveNodeStep
  simp only
  by_cases hne : board ≠ executeMove move board
  · obtain ⟨v, st, hv, hs⟩ := hf _ (executeMove move board) cprob hst2
    rw [if_pos hne, hv]
    refine ⟨_, st, rfl, ?_, hs⟩
    split_ifs with hlt
    · exact le_of_lt (lt_of_le_of_lt hbest hlt)
    · exact hbest
  · rw [if_neg hne]
    exact ⟨best, _, rfl, hbest, hst2⟩

theorem scoreMoveNodeWith_ok (f : EvalState → Nat → ℚ → Option (ℚ × EvalState)) (c D : Int)
    (hf : ∀ state board cprob, StateAt (c + 1) D state →
      ∃ v st, f state board cprob = some (v, st) ∧ StateAt (c + 1) D st)
    (state : EvalState) (board : Nat) (cprob : ℚ) (hst : StateAt c D state) :
    ∃ v st, scoreMoveNodeWith f state board cprob = some (v, st) ∧ 0 ≤ v ∧ StateAt c D st := by
  have hst1 : StateAt (c + 1) D { state with curdepth := state.curdepth + 1 } := by
    obtain ⟨h1, h2, h3⟩ := hst
    exact ⟨by simp [h1], h2, h3⟩
  obtain ⟨b0, s0, e0, hb0, hs0⟩ :=
    moveNodeStep_ok f (c + 1) D hf board cprob 0 _ 0 (le_refl 0) hst1
  obtain ⟨b1, s1, e1, hb1, hs1⟩ := moveNodeStep_ok f (c + 1) D hf board cprob b0 s0 1 hb0 hs0
  obtain ⟨b2, s2, e2, hb2, hs2⟩ := moveNodeStep_ok f (c + 1) D hf board cprob b1 s1 2 hb1 hs1
  obtain ⟨b3, s3, e3, hb3, hs3⟩ := moveNodeStep_ok f (c + 1) D hf board cprob b2 s2 3 hb2 hs2
  unfold scoreMoveNodeWith
  simp only [List.foldl_cons, List.foldl_nil, e0, e1, e2, e3]
  refine ⟨b3, _, rfl, hb3, ?_⟩
  obtain ⟨h1, h2, h3⟩ := hs3
  exact ⟨by simp [h1], h2, h3⟩

theorem shl64_pow (k : Nat) : shl64 (2 ^ (4 * k) % 2 ^ 64) 4 = 2 ^ (4 * (k + 1)) % 2 ^ 64 := by
  unfold shl64
  rw [Nat.shiftLeft_eq, Nat.mod_mul_mod, ← pow_add]
  rfl

theorem tileLoop_ok (F : FloatEnv) (g : EvalState → Nat → ℚ → Option (ℚ × EvalState))
    (c D : Int)
    (hg : ∀ state board cprob, StateAt c D state →
      ∃ v st, g state board cprob = some (v, st) ∧ 0 ≤ v ∧ StateAt c D st)
    (board : Nat) (cprob : ℚ) (num_open : Nat) (fuel : Nat) :
    ∀ k, k ≤ 16 → 17 - k ≤ fuel → ∀ state res tmp count, 0 ≤ res → StateAt c D state →
      ∃ r st, tileLoop F g board cprob num_open fuel state res tmp (2 ^ (4 * k) % 2 ^ 64) count =
        some (r, st) ∧ 0 ≤ r ∧ StateAt c D st := by
  have h09 : (0 : ℚ) ≤ F.rnd32 (9 / 10) := F.rnd32_nonneg _ (by norm_num)
  have h01 : (0 : ℚ) ≤ F.rnd32 (1 / 10) := F.rnd32_nonneg _ (by norm_num)
  induction fuel with
  | zero => intro k hk hf; omega
  | succ fuel ih =>
    intro k hk hfuel state res tmp count hres hst
    unfold tileLoop
    by_cases hcond : 2 ^ (4 * k) % 2 ^ 64 ≠ 0 ∧ count < num_open
    · have hk16 : k < 16 := by
        by_contra hge
        have : k = 16 := by omega
        subst this
        exact hcond.1 (by norm_num)
      rw [if_pos hcond, shl64_pow]
      by_cases hcell : tmp &&& 0xf = 0
      · rw [if_pos hcell]
        obtain ⟨v2, st2, e2, hv2, hs2⟩ := hg state (board ||| 2 ^ (4 * k) % 2 ^ 64)
          (F.fmul cprob (F.rnd32 (9 / 10))) hst
        obtain ⟨v4, st4, e4, hv4, hs4⟩ := hg st2 (board ||| shl64 (2 ^ (4 * k) % 2 ^ 64) 1)
          (F.fmul cprob (F.rnd32 (1 / 10))) hs2
        simp only [e2, e4]
        exact ih (k + 1) (by omega) (by omega) st4 _ _ _
          (F.fadd_nonneg _ _ (F.fadd_nonneg _ _ hres (F.fmul_nonneg _ _ hv2 h09))
            (F.fmul_nonneg _ _ hv4 h01)) hs4
      · rw [if_neg hcell]
        exact ih (k + 1) (by omega) (by omega) state res _ _ hres hst
    · rw [if_neg hcond]
      exact ⟨res, state, rfl, hres, hst⟩

theorem cacheLookup_nonneg (state : EvalState) (board : Nat) (v : ℚ)
    (ht : TableNonneg state.transTable) (h : cacheLookup state board = some v) : 0 ≤ v := by
  unfold cacheLookup at h
  split_ifs at h with h1
  split at h
  · rename_i entry he
    split_ifs at h with h2
    rw [Option.some.injEq] at h
    rw [← h]
    exact ht board entry he
  · exact absurd h (by simp)

theorem cacheStore_stateAt (c D : Int) (state : EvalState) (board : Nat) (res : ℚ)
    (hres : 0 ≤ res) (hst : StateAt c D state) : StateAt c D (cacheStore state board res) := by
  unfold cacheStore
  split_ifs
  · obtain ⟨h1, h2, h3⟩ := hst
    refine ⟨h1, h2, ?_⟩
    intro b e he
    by_cases hb : b = board
    · subst hb
      simp only [Function.update_same, Option.some.injEq] at he
      rw [← he]
      exact hres
    · simp only [Function.update_noteq hb] at he
      exact h3 b e he
  · exact hst

theorem scoreTileChooseNode_ok (F : FloatEnv) (fuel : Nat) :
    ∀ (c D : Int) (state : EvalState) (board : Nat) (cprob : ℚ), StateAt c D state →
      (D - c).toNat < fuel →
      ∃ v st, scoreTileChooseNode F fuel state board cprob = some (v, st) ∧ StateAt c D st ∧
        (¬ (cprob < CPROB_THRESH_BASE F ∨ c ≥ D) → 0 ≤ v) := by
  induction fuel with
  | zero => intro c D state board cprob _ h; omega
  | succ fuel ih =>
    intro c D state board cprob hst hfuel
    have hc : state.curdepth = c := hst.1
    have hD : state.depth_limit = D := hst.2.1
    unfold scoreTileChooseNode
    by_cases hleaf : cprob < CPROB_THRESH_BASE F ∨ state.curdepth ≥ state.depth_limit
    · rw [if_pos hleaf]
      refine ⟨_, _, rfl, hst, ?_⟩
      intro hn
      rw [hc, hD] at hleaf
      exact absurd hleaf hn
    · rw [if_neg hleaf]
      have hlt : c < D := by
        rw [hc, hD] at hleaf
        push_neg at hleaf
        exact hleaf.2
      cases hlook : cacheLookup state board with
      | some v =>
        simp only
        exact ⟨v, _, rfl, hst, fun _ => cacheLookup_nonneg state board v hst.2.2 hlook⟩
      | none =>
        simp only
        by_cases hopen : countEmpty board = 0
        · rw [if_pos hopen]
          exact ⟨0, state, rfl, hst, fun _ => le_refl 0⟩
        · rw [if_neg hopen]
          have hmove : ∀ st b cp, StateAt c D st →
              ∃ v st2, scoreMoveNodeWith (scoreTileChooseNode F fuel) st b cp = some (v, st2) ∧
                0 ≤ v ∧ StateAt c D st2 := by
            intro st b cp hs
            apply scoreMoveNodeWith_ok _ c D _ st b cp hs
            intro st1 b1 cp1 hs1
            obtain ⟨v, st2, e, hs2, -⟩ := ih (c + 1) D st1 b1 cp1 hs1 (by omega)
            exact ⟨v, st2, e, hs2⟩
          obtain ⟨r, st, e, hr, hs⟩ := tileLoop_ok F _ c D hmove board
            (F.fdiv cprob (countEmpty board)) (countEmpty board) 17 0 (by norm_num)
            (by norm_num) state 0 board 0 (le_refl 0) hst
          have e1 : (2 : Nat) ^ (4 * 0) % 2 ^ 64 = 1 := by norm_num
          rw [e1] at e
          rw [e]
          simp only
          have hres : 0 ≤ F.fdiv r (countEmpty board) :=
            F.fdiv_nonneg _ _ hr (Nat.cast_nonneg _)
          exact ⟨_, _, rfl, cacheStore_stateAt c D st board _ hres hs, fun _ => hres⟩

/-! ## Top-level scores -/

theorem scoreTopLevelMove_ok (F : FloatEnv) (t : Nat → Option (Int × ℚ)) (board : Nat)
    (move : Int) (hb : board < 2 ^ 64) (ht : TableNonneg t) :
    ∃ s t2, scoreTopLevelMove F t board move = some (s, t2) ∧ TableNonneg t2 ∧
      (executeMove move board = board → s = 0) ∧ (executeMove move board ≠ board → 0 < s) := by
  unfold scoreTopLevelMove
  simp only
  by_cases hsame : board = executeMove move board
  · rw [if_pos hsame]
    exact ⟨0, t, rfl, ht, fun _ => rfl, fun h => absurd hsame.symm h⟩
  · rw [if_neg hsame]
    obtain ⟨n, hn⟩ := countDistinctTiles_isSome board hb
    rw [hn]
    simp only
    have hD : (3 : Int) ≤ max 3 (n - 2) := le_max_left _ _
    obtain ⟨v, st, e, hs, hv⟩ := scoreTileChooseNode_ok F ((max 3 (n - 2)).toNat + 1) 0
      (max 3 (n - 2))
      { transTable := t, maxdepth := 0, curdepth := 0, cachehits := 0, moves_evaled := 0,
        depth_limit := max 3 (n - 2) } (executeMove move board) 1 ⟨rfl, rfl, ht⟩ (by omega)
    rw [e]
    simp only
    have hnl : ¬ ((1 : ℚ) < CPROB_THRESH_BASE F ∨ (0 : Int) ≥ max 3 (n - 2)) := by
      rintro (h | h)
      · exact absurd h (not_lt.mpr F.thresh_le_one)
      · omega
    exact ⟨_, _, rfl, hs.2.2, fun h => absurd h.symm hsame, fun _ => F.add_eps_pos v (hv hnl)⟩

/-- The four top-level scores of `evaluateAllMoves`: each is returned, is
exactly 0 for a direction that leaves the board unchanged and positive for a
direction that changes it. -/
theorem evaluateAllMoves_scores (F : FloatEnv) (grid : List (List Int)) :
    ∃ s0 s1 s2 s3 : ℚ, evaluateAllMoves F grid = some [s0, s1, s2, s3] ∧
      ∀ d : Nat, d < 4 →
        (executeMove d (convertToBitboard grid) = convertToBitboard grid →
          [s0, s1, s2, s3].getD d 0 = 0) ∧
        (executeMove d (convertToBitboard grid) ≠ convertToBitboard grid →
          0 < [s0, s1, s2, s3].getD d 0) := by
  have hb := convertToBitboard_lt grid
  have ht0 : TableNonneg (fun _ => none) := fun b e h => absurd h (by simp)
  obtain ⟨s0, t0, e0, ht1, hz0, hp0⟩ :=
    scoreTopLevelMove_ok F _ (convertToBitboard grid) ((0 : Nat) : Int) hb ht0
  obtain ⟨s1, t1, e1, ht2, hz1, hp1⟩ :=
    scoreTopLevelMove_ok F t0 (convertToBitboard grid) ((1 : Nat) : Int) hb ht1
  obtain ⟨s2, t2, e2, ht3, hz2, hp2⟩ :=
    scoreTopLevelMove_ok F t1 (convertToBitboard grid) ((2 : Nat) : Int) hb ht2
  obtain ⟨s3, t3, e3, -, hz3, hp3⟩ :=
    scoreTopLevelMove_ok F t2 (convertToBitboard grid) ((3 : Nat) : Int) hb ht3
  refine ⟨s0, s1, s2, s3, ?_, ?_⟩
  · unfold evaluateAllMoves
    simp only [List.foldl_cons, List.foldl_nil, evaluateStep, e0, e1, e2, e3]
    rfl
  · intro d hd
    interval_cases d
    · exact ⟨hz0, hp0⟩
    · exact ⟨hz1, hp1⟩
    · exact ⟨hz2, hp2⟩
    · exact ⟨hz3, hp3⟩

/-- The selection loop of `getBestMove` on four scores of which the first is
non-negative: the index found is the first maximum. -/
theorem bestMove_first_argmax (s0 s1 s2 s3 : ℚ) (h0 : 0 ≤ s0) :
    ∃ i : Nat, ([0, 1, 2, 3].foldl (bestMoveStep [s0, s1, s2, s3]) ((-1 : Int), (-1 : ℚ))).1
        = (i : Int) ∧ i < 4 ∧
      (∀ k, k < 4 → [s0, s1, s2, s3].getD k 0 ≤ [s0, s1, s2, s3].getD i 0) ∧
      ∀ k, k < i → [s0, s1, s2, s3].getD k 0 < [s0, s1, s2, s3].getD i 0 := by
  have hm1 : (-1 : ℚ) < s0 := by linarith
  simp only [List.foldl_cons, List.foldl_nil, bestMoveStep, List.getD_cons_zero,
    List.getD_cons_succ, gt_iff_lt, hm1, if_true]
  by_cases c1 : s0 < s1
  · by_cases c2 : s1 < s2
    · by_cases c3 : s2 < s3
      · refine ⟨3, by simp [c1, c2, c3], by norm_num, ?_, ?_⟩
        · intro k hk
          interval_cases k <;>
            (simp only [List.getD_cons_zero, List.getD_cons_succ]; linarith)
        · intro k hk
          interval_cases k <;>
            (simp only [List.getD_cons_zero, List.getD_cons_succ]; linarith)
      · refine ⟨2, by simp [c1, c2, c3], by norm_num, ?_, ?_⟩
        · intro k hk
          interval_cases k <;>
            (simp only [List.getD_cons_zero, List.getD_cons_succ]; linarith)
        · intro k hk
          interval_cases k <;>
            (simp only [List.getD_cons_zero, List.getD_cons_succ]; linarith)
    · by_cases c3 : s1 < s3
      · refine ⟨3, by simp [c1, c2, c3], by norm_num, ?_, ?_⟩
        · intro k hk
          interval_cases k <;>
            (simp only [List.getD_cons_zero, List.getD_cons_succ]; linarith)
        · intro k hk
          interval_cases k <;>
            (simp only [List.getD_cons_zero, List.getD_cons_succ]; linarith)
      · refine ⟨1, by simp [c1, c2, c3], by norm_num, ?_, ?_⟩
        · intro k hk
          interval_cases k <;>
            (simp only [List.getD_cons_zero, List.getD_cons_succ]; linarith)
        · intro k hk
          interval_cases k
          simp only [List.getD_cons_zero, List.getD_cons_succ]
          linarith
  · by_cases c2 : s0 < s2
    · by_cases c3 : s2 < s3
      · refine ⟨3, by simp [c1, c2, c3], by norm_num, ?_, ?_⟩
        · intro k hk
          interval_cases k <;>
            (simp only [List.getD_cons_zero, List.getD_cons_succ]; linarith)
        · intro k hk
          interval_cases k <;>
            (simp only [List.getD_cons_zero, List.getD_cons_succ]; linarith)
      · refine ⟨2, by simp [c1, c2, c3], by norm_num, ?_, ?_⟩
        · intro k hk
          interval_cases k <;>
            (simp only [List.getD_cons_zero, List.getD_cons_succ]; linarith)
        · intro k hk
          interval_cases k <;>
            (simp only [List.getD_cons_zero, List.getD_cons_succ]; linarith)
    · by_cases c3 : s0 < s3
      · refine ⟨3, by simp [c1, c2, c3], by norm_num, ?_, ?_⟩
        · intro k hk
          interval_cases k <;>
            (simp only [List.getD_cons_zero, List.getD_cons_succ]; linarith)
        · intro k hk
          interval_cases k <;>
            (simp only [List.getD_cons_zero, List.getD_cons_succ]; linarith)
      · refine ⟨0, by simp [c1, c2, c3], by norm_num, ?_, ?_⟩
        · intro k hk
          interval_cases k <;>
            (simp only [List.getD_cons_zero, List.getD_cons_succ]; linarith)
        · intro k hk
          omega

/-! ## Claims on the top-level scores -/

/-- The grid `[[0,2,4,2],[0,4,2,4],[0,2,4,2],[0,4,2,4]]`: only the move to
the left changes it. -/
theorem single_move_board :
    convertToBitboard [[0, 2, 4, 2], [0, 4, 2, 4], [0, 2, 4, 2], [0, 4, 2, 4]] =
        0x2120121021201210 ∧
      executeMove 0 0x2120121021201210 = 0x2120121021201210 ∧
      executeMove 1 0x2120121021201210 = 0x2120121021201210 ∧
      executeMove 2 0x2120121021201210 ≠ 0x2120121021201210 ∧
      executeMove 3 0x2120121021201210 = 0x2120121021201210 := by
  refine ⟨by decide, ?_, ?_, ?_, ?_⟩
  · rw [executeMove_up_closed]
    decide
  · rw [executeMove_down_closed]
    decide
  · rw [executeMove_left_closed]
    decide
  · rw [executeMove_right_closed]
    decide

/-- C8: for every grid and every direction `d` in 0..3, with
`b = convertToBitboard grid`: `evaluateAllMoves grid` returns four scores,
of which score `d` is exactly 0 when `executeMove d b = b` and strictly
greater than 0 when `executeMove d b ≠ b`. This holds for every rounding of
the `float` and `double` operations that is monotone, keeps 0 and 1 and does
not flush `1e-6` to zero. -/
theorem evaluateAllMoves_zero_iff_noop (F : FloatEnv) (grid : List (List Int)) (d : Nat)
    (hd : d < 4) :
    ∃ scores, evaluateAllMoves F grid = some scores ∧ scores.length = 4 ∧
      (executeMove d (convertToBitboard grid) = convertToBitboard grid →
        scores.getD d 0 = 0) ∧
      (executeMove d (convertToBitboard grid) ≠ convertToBitboard grid →
        0 < scores.getD d 0) := by
  obtain ⟨s0, s1, s2, s3, he, h⟩ := evaluateAllMoves_scores F grid
  exact ⟨[s0, s1, s2, s3], he, rfl, h d hd⟩

/-- Witness for C8: the grid on which only the move to the left is legal,
direction 2, in exact arithmetic. -/
theorem evaluateAllMoves_zero_iff_noop_witness :
    (2 : Nat) < 4 ∧
      ∃ scores, evaluateAllMoves exactEnv [[0, 2, 4, 2], [0, 4, 2, 4], [0, 2, 4, 2], [0, 4, 2, 4]]
          = some scores ∧ 0 < scores.getD 2 0 := by
  obtain ⟨scores, he, -, -, hp⟩ := evaluateAllMoves_zero_iff_noop exactEnv
    [[0, 2, 4, 2], [0, 4, 2, 4], [0, 2, 4, 2], [0, 4, 2, 4]] 2 (by decide)
  refine ⟨by decide, scores, he, hp ?_⟩
  rw [single_move_board.1]
  exact single_move_board.2.2.2.1

/-- C9: for every grid, `getBestMove grid` returns `(i, scores)` where
`scores = evaluateAllMoves grid` and `i` is an index in 0..3 that is the
arg-max of the four scores with ties broken by first occurrence:
`scores[k] ≤ scores[i]` for all `k` in 0..3 and `scores[k] < scores[i]` for
all `k < i`. -/
theorem getBestMove_first_argmax (F : FloatEnv) (grid : List (List Int)) :
    ∃ (i : Nat) (scores : List ℚ), getBestMove F grid = some ((i : Int), scores) ∧
      evaluateAllMoves F grid = some scores ∧ i < 4 ∧
      (∀ k, k < 4 → scores.getD k 0 ≤ scores.getD i 0) ∧
      ∀ k, k < i → scores.getD k 0 < scores.getD i 0 := by
  obtain ⟨s0, s1, s2, s3, he, h⟩ := evaluateAllMoves_scores F grid
  have h0 : 0 ≤ s0 := by
    by_cases hs : executeMove (0 : Nat) (convertToBitboard grid) = convertToBitboard grid
    · exact le_of_eq ((h 0 (by norm_num)).1 hs).symm
    · exact le_of_lt ((h 0 (by norm_num)).2 hs)
  obtain ⟨i, hi, hi4, hmax, hfirst⟩ := bestMove_first_argmax s0 s1 s2 s3 h0
  refine ⟨i, [s0, s1, s2, s3], ?_, he, hi4, hmax, hfirst⟩
  unfold getBestMove
  rw [he]
  simp only [hi]

/-- C10: for every grid for which exactly one direction `d` in 0..3 changes
the encoded board, `getBestMove grid` returns index `d`, and the other three
scores are exactly 0. -/
theorem getBestMove_single_legal_move (F : FloatEnv) (grid : List (List Int)) (d : Nat)
    (hd : d < 4)
    (hchange : executeMove d (convertToBitboard grid) ≠ convertToBitboard grid)
    (hothers : ∀ k : Nat, k < 4 → k ≠ d →
      executeMove k (convertToBitboard grid) = convertToBitboard grid) :
    ∃ scores, getBestMove F grid = some ((d : Int), scores) ∧
      ∀ k, k < 4 → k ≠ d → scores.getD k 0 = 0 := by
  obtain ⟨s0, s1, s2, s3, he, h⟩ := evaluateAllMoves_scores F grid
  have hpos : 0 < [s0, s1, s2, s3].getD d 0 := (h d hd).2 hchange
  have hzero : ∀ k, k < 4 → k ≠ d → [s0, s1, s2, s3].getD k 0 = 0 := fun k hk hkd =>
    (h k hk).1 (hothers k hk hkd)
  have h0 : 0 ≤ s0 := by
    by_cases hs : executeMove (0 : Nat) (convertToBitboard grid) = convertToBitboard grid
    · exact le_of_eq ((h 0 (by norm_num)).1 hs).symm
    · exact le_of_lt ((h 0 (by norm_num)).2 hs)
  obtain ⟨i, hi, hi4, hmax, -⟩ := bestMove_first_argmax s0 s1 s2 s3 h0
  have hid : i = d := by
    by_contra hne
    have hz := hzero i hi4 hne
    have hle := hmax d hd
    rw [hz] at hle
    exact absurd hpos (not_lt.mpr hle)
  subst hid
  refine ⟨[s0, s1, s2, s3], ?_, hzero⟩
  unfold getBestMove
  rw [he]
  simp only [hi]

/-- Witness for C10: on the grid `[[0,2,4,2],[0,4,2,4],[0,2,4,2],[0,4,2,4]]`
only the move to the left (index 2) changes the board. -/
theorem getBestMove_single_legal_move_witness :
    ∃ scores, getBestMove exactEnv [[0, 2, 4, 2], [0, 4, 2, 4], [0, 2, 4, 2], [0, 4, 2, 4]] =
        some (((2 : Nat) : Int), scores) ∧ ∀ k, k < 4 → k ≠ 2 → scores.getD k 0 = 0 := by
  apply getBestMove_single_legal_move exactEnv
    [[0, 2, 4, 2], [0, 4, 2, 4], [0, 2, 4, 2], [0, 4, 2, 4]] 2 (by decide)
  · rw [single_move_board.1]
    exact single_move_board.2.2.2.1
  · intro k hk hk2
    rw [single_move_board.1]
    interval_cases k
    · exact single_move_board.2.1
    · exact single_move_board.2.2.1
    · exact absurd rfl hk2
    · exact single_move_board.2.2.2.2

/-! ## A board without a legal move -/

/-- The full grid `[[2,4,2,4],[4,2,4,2],[2,4,2,4],[4,2,4,2]]`: no direction
changes it. -/
theorem dead_board :
    convertToBitboard [[2, 4, 2, 4], [4, 2, 4, 2], [2, 4, 2, 4], [4, 2, 4, 2]] =
        0x1212212112122121 ∧
      executeMove 0 0x1212212112122121 = 0x1212212112122121 ∧
      executeMove 1 0x1212212112122121 = 0x1212212112122121 ∧
      executeMove 2 0x1212212112122121 = 0x1212212112122121 ∧
      executeMove 3 0x1212212112122121 = 0x1212212112122121 := by
  refine ⟨by decide, ?_, ?_, ?_, ?_⟩
  · rw [executeMove_up_closed]
    decide
  · rw [executeMove_down_closed]
    decide
  · rw [executeMove_left_closed]
    decide
  · rw [executeMove_right_closed]
    decide

/-- On a grid that no direction changes, `getBestMove` returns the index 0
with four zero scores: the first score, 0, is greater than the initial
`bestScore = -1.0f`, and no later score is greater than 0. -/
theorem getBestMove_of_no_legal_move (F : FloatEnv) (grid : List (List Int))
    (hdead : ∀ d : Nat, d < 4 →
      executeMove d (convertToBitboard grid) = convertToBitboard grid) :
    getBestMove F grid = some (0, [0, 0, 0, 0]) := by
  obtain ⟨s0, s1, s2, s3, he, h⟩ := evaluateAllMoves_scores F grid
  have h0 : s0 = 0 := (h 0 (by norm_num)).1 (hdead 0 (by norm_num))
  have h1 : s1 = 0 := (h 1 (by norm_num)).1 (hdead 1 (by norm_num))
  have h2 : s2 = 0 := (h 2 (by norm_num)).1 (hdead 2 (by norm_num))
  have h3 : s3 = 0 := (h 3 (by norm_num)).1 (hdead 3 (by norm_num))
  subst h0 h1 h2 h3
  unfold getBestMove
  rw [he]
  simp [bestMoveStep]

/-- C11 fails on the code: on the grid `[[2,4,2,4],[4,2,4,2],[2,4,2,4],
[4,2,4,2]]`, which no direction changes, `getBestMove` returns the all-zero
score vector together with the best index 0, not -1, for every rounding of
the floating-point operations: `scores[0] = 0` is greater than the initial
`bestScore = -1.0f`. -/
theorem getBestMove_dead_board_index_zero (F : FloatEnv) :
    getBestMove F [[2, 4, 2, 4], [4, 2, 4, 2], [2, 4, 2, 4], [4, 2, 4, 2]] =
      some (0, [0, 0, 0, 0]) := by
  apply getBestMove_of_no_legal_move
  intro d hd
  rw [dead_board.1]
  interval_cases d
  · exact dead_board.2.1
  · exact dead_board.2.2.1
  · exact dead_board.2.2.2.1
  · exact dead_board.2.2.2.2

/-! ## The evaluator keeps no state between calls -/

/-- The scores of `evaluateAllMovesOn` are those of `evaluateAllMoves`,
whatever the table held before the call. -/
theorem evaluateAllMovesOn_scores (F : FloatEnv) (prior : Nat → Option (Int × ℚ))
    (grid : List (List Int)) :
    (evaluateAllMovesOn F prior grid).map Prod.fst = evaluateAllMoves F grid := by
  unfold evaluateAllMovesOn evaluateAllMoves clear
  dsimp only
  generalize [0, 1, 2, 3].foldl (evaluateStep F (convertToBitboard grid))
    (some (List.replicate 4 0, fun _ => none)) = r
  cases r with
  | none => rfl
  | some r => rfl

/-- C12: for every grid and any two prior contents `t1`, `t2` of the
transposition table, `evaluateAllMoves` returns the same four scores (and
leaves the same table); a second call on the evaluator as the first call
left it returns the same scores again. -/
theorem evaluateAllMoves_deterministic (F : FloatEnv) (grid : List (List Int))
    (t1 t2 : Nat → Option (Int × ℚ)) :
    ∃ (scores : List ℚ) (final : Nat → Option (Int × ℚ)),
      evaluateAllMovesOn F t1 grid = some (scores, final) ∧
      evaluateAllMovesOn F t2 grid = some (scores, final) ∧
      evaluateAllMovesOn F final grid = some (scores, final) ∧
      evaluateAllMoves F grid = some scores ∧ scores.length = 4 := by
  obtain ⟨s0, s1, s2, s3, he, -⟩ := evaluateAllMoves_scores F grid
  have h1 := evaluateAllMovesOn_scores F t1 grid
  rw [he] at h1
  obtain ⟨r, hr⟩ : ∃ r, evaluateAllMovesOn F t1 grid = some r := by
    cases hr : evaluateAllMovesOn F t1 grid with
    | none => rw [hr] at h1; exact absurd h1 (by simp)
    | some r => exact ⟨r, rfl⟩
  rw [hr] at h1
  have hs : r.1 = [s0, s1, s2, s3] := by simpa using h1
  have hfix : ∀ t, evaluateAllMovesOn F t grid = some ([s0, s1, s2, s3], r.2) := by
    intro t
    have : evaluateAllMovesOn F t grid = evaluateAllMovesOn F t1 grid := rfl
    rw [this, hr, ← hs]
  exact ⟨[s0, s1, s2, s3], r.2, hfix t1, hfix t2, hfix r.2, he, rfl⟩

/-! ## `countEmpty`: folding the emptiness mask -/

/-- The step `x += x >> 32` on a word whose halves are small. -/
theorem fold32 (L H : Nat) (hL : L < 2 ^ 32) (hH : H < 2 ^ 31) :
    ((L + 2 ^ 32 * H) + (L + 2 ^ 32 * H) / 2 ^ 32) % 2 ^ 64 = L + H + 2 ^ 32 * H := by
  omega

/-- The step `x += x >> 16`. -/
theorem fold16 (A0 A1 R : Nat) (h0 : A0 < 2 ^ 15) (h1 : A1 < 2 ^ 15) (hR : R < 2 ^ 31) :
    ((A0 + 2 ^ 16 * A1 + 2 ^ 32 * R) + (A0 + 2 ^ 16 * A1 + 2 ^ 32 * R) / 2 ^ 16) % 2 ^ 64 =
      A0 + A1 + 2 ^ 16 * (A1 + R + 2 ^ 16 * R) := by
  omega

/-- The step `x += x >> 8`. -/
theorem fold8 (B0 B1 R : Nat) (h0 : B0 < 2 ^ 7) (h1 : B1 < 2 ^ 7) (hR : R < 2 ^ 47) :
    ((B0 + 2 ^ 8 * B1 + 2 ^ 16 * R) + (B0 + 2 ^ 8 * B1 + 2 ^ 16 * R) / 2 ^ 8) % 2 ^ 64 =
      B0 + B1 + 2 ^ 8 * (B1 + R + 2 ^ 8 * R) := by
  omega

/-- The step `x += x >> 4` followed by `x & 0xf`. -/
theorem fold4 (c0 c1 R : Nat) (h0 : c0 < 2 ^ 4) :
    (((c0 + 2 ^ 4 * c1 + 2 ^ 8 * R) + (c0 + 2 ^ 4 * c1 + 2 ^ 8 * R) / 2 ^ 4) % 2 ^ 64) % 16 =
      (c0 + c1) % 16 := by
  omega

/-- Eight nibbles of at most 1 make a word below `2 ^ 31`. -/
theorem nibbles8_lt (a b c d e f g h : Nat) (ha : a ≤ 1) (hb : b ≤ 1) (hc : c ≤ 1)
    (hd : d ≤ 1) (he : e ≤ 1) (hf : f ≤ 1) (hg : g ≤ 1) (hh : h ≤ 1) :
    a + b * 16 + c * 16 ^ 2 + d * 16 ^ 3 + e * 16 ^ 4 + f * 16 ^ 5 + g * 16 ^ 6 + h * 16 ^ 7 <
      2 ^ 31 := by
  omega

/-- Four nibbles of at most 2 make a word below `2 ^ 15`. -/
theorem nibbles4_lt (a b c d : Nat) (ha : a ≤ 2) (hb : b ≤ 2) (hc : c ≤ 2) (hd : d ≤ 2) :
    a + b * 16 + c * 16 ^ 2 + d * 16 ^ 3 < 2 ^ 15 := by
  omega

/-- Two nibbles of at most 4 make a word below `2 ^ 7`. -/
theorem nibbles2_lt (a b : Nat) (ha : a ≤ 4) (hb : b ≤ 4) : a + b * 16 < 2 ^ 7 := by
  omega

/-- The four folding steps of `countEmpty` on a mask with nibbles `e0..e15`
of at most 1 leave the number of set nibbles modulo 16 in the low nibble. -/
theorem fold_nibbles (e0 e1 e2 e3 e4 e5 e6 e7 e8 e9 e10 e11 e12 e13 e14 e15 : Nat)
    (h0 : e0 ≤ 1) (h1 : e1 ≤ 1) (h2 : e2 ≤ 1) (h3 : e3 ≤ 1) (h4 : e4 ≤ 1) (h5 : e5 ≤ 1)
    (h6 : e6 ≤ 1) (h7 : e7 ≤ 1) (h8 : e8 ≤ 1) (h9 : e9 ≤ 1) (h10 : e10 ≤ 1) (h11 : e11 ≤ 1)
    (h12 : e12 ≤ 1) (h13 : e13 ≤ 1) (h14 : e14 ≤ 1) (h15 : e15 ≤ 1)
    (m x1 x2 x3 x4 : Nat)
    (hm : m = e0 + e1 * 16 + e2 * 16 ^ 2 + e3 * 16 ^ 3 + e4 * 16 ^ 4 + e5 * 16 ^ 5 +
      e6 * 16 ^ 6 + e7 * 16 ^ 7 + e8 * 16 ^ 8 + e9 * 16 ^ 9 + e10 * 16 ^ 10 + e11 * 16 ^ 11 +
      e12 * 16 ^ 12 + e13 * 16 ^ 13 + e14 * 16 ^ 14 + e15 * 16 ^ 15)
    (hx1 : x1 = (m + m / 2 ^ 32) % 2 ^ 64) (hx2 : x2 = (x1 + x1 / 2 ^ 16) % 2 ^ 64)
    (hx3 : x3 = (x2 + x2 / 2 ^ 8) % 2 ^ 64) (hx4 : x4 = (x3 + x3 / 2 ^ 4) % 2 ^ 64) :
    x4 % 16 =
      (e0 + e1 + e2 + e3 + e4 + e5 + e6 + e7 + e8 + e9 + e10 + e11 + e12 + e13 + e14 + e15) %
        16 := by
  have bL := nibbles8_lt e0 e1 e2 e3 e4 e5 e6 e7 h0 h1 h2 h3 h4 h5 h6 h7
  have bH := nibbles8_lt e8 e9 e10 e11 e12 e13 e14 e15 h8 h9 h10 h11 h12 h13 h14 h15
  have bA0 := nibbles4_lt (e0 + e8) (e1 + e9) (e2 + e10) (e3 + e11)
    (Nat.add_le_add h0 h8) (Nat.add_le_add h1 h9) (Nat.add_le_add h2 h10)
    (Nat.add_le_add h3 h11)
  have bA1 := nibbles4_lt (e4 + e12) (e5 + e13) (e6 + e14) (e7 + e15)
    (Nat.add_le_add h4 h12) (Nat.add_le_add h5 h13) (Nat.add_le_add h6 h14)
    (Nat.add_le_add h7 h15)
  have bB0 := nibbles2_lt (e0 + e8 + (e4 + e12)) (e1 + e9 + (e5 + e13))
    (Nat.add_le_add (Nat.add_le_add h0 h8) (Nat.add_le_add h4 h12))
    (Nat.add_le_add (Nat.add_le_add h1 h9) (Nat.add_le_add h5 h13))
  have bB1 := nibbles2_lt (e2 + e10 + (e6 + e14)) (e3 + e11 + (e7 + e15))
    (Nat.add_le_add (Nat.add_le_add h2 h10) (Nat.add_le_add h6 h14))
    (Nat.add_le_add (Nat.add_le_add h3 h11) (Nat.add_le_add h7 h15))
  have bC0 : e0 + e8 + (e4 + e12) + (e2 + e10 + (e6 + e14)) < 2 ^ 4 :=
    lt_of_le_of_lt (Nat.add_le_add (Nat.add_le_add (Nat.add_le_add h0 h8)
      (Nat.add_le_add h4 h12)) (Nat.add_le_add (Nat.add_le_add h2 h10)
      (Nat.add_le_add h6 h14))) (by norm_num)
  generalize hL : e0 + e1 * 16 + e2 * 16 ^ 2 + e3 * 16 ^ 3 + e4 * 16 ^ 4 + e5 * 16 ^ 5 +
      e6 * 16 ^ 6 + e7 * 16 ^ 7 = L at bL
  generalize hH : e8 + e9 * 16 + e10 * 16 ^ 2 + e11 * 16 ^ 3 + e12 * 16 ^ 4 + e13 * 16 ^ 5 +
      e14 * 16 ^ 6 + e15 * 16 ^ 7 = H at bH
  generalize hA0 : e0 + e8 + (e1 + e9) * 16 + (e2 + e10) * 16 ^ 2 + (e3 + e11) * 16 ^ 3 = A0
    at bA0
  generalize hA1 : e4 + e12 + (e5 + e13) * 16 + (e6 + e14) * 16 ^ 2 + (e7 + e15) * 16 ^ 3 = A1
    at bA1
  generalize hB0 : e0 + e8 + (e4 + e12) + (e1 + e9 + (e5 + e13)) * 16 = B0 at bB0
  generalize hB1 : e2 + e10 + (e6 + e14) + (e3 + e11 + (e7 + e15)) * 16 = B1 at bB1
  generalize hC0 : e0 + e8 + (e4 + e12) + (e2 + e10 + (e6 + e14)) = C0 at bC0
  generalize hC1 : e1 + e9 + (e5 + e13) + (e3 + e11 + (e7 + e15)) = C1
  have e1m : m = L + 2 ^ 32 * H := by rw [hm, ← hL, ← hH]; ring
  have eLH : L + H = A0 + 2 ^ 16 * A1 := by rw [← hL, ← hH, ← hA0, ← hA1]; ring
  have eA : A0 + A1 = B0 + 2 ^ 8 * B1 := by rw [← hA0, ← hA1, ← hB0, ← hB1]; ring
  have eB : B0 + B1 = C0 + 2 ^ 4 * C1 := by rw [← hB0, ← hB1, ← hC0, ← hC1]; ring
  have eC : C0 + C1 = e0 + e1 + e2 + e3 + e4 + e5 + e6 + e7 + e8 + e9 + e10 + e11 + e12 +
      e13 + e14 + e15 := by rw [← hC0, ← hC1]; ring
  rw [← eC]
  clear hL hH hA0 hA1 hB0 hB1 hC0 hC1 eC hm h0 h1 h2 h3 h4 h5 h6 h7 h8 h9 h10 h11 h12 h13 h14
    h15
  rw [e1m, fold32 _ _ (lt_trans bL (by norm_num)) bH,
    show L + H + 2 ^ 32 * H = A0 + 2 ^ 16 * A1 + 2 ^ 32 * H by rw [eLH]] at hx1
  rw [hx1, fold16 _ _ _ bA0 bA1 bH,
    show A0 + A1 + 2 ^ 16 * (A1 + H + 2 ^ 16 * H) =
      B0 + 2 ^ 8 * B1 + 2 ^ 16 * (A1 + H + 2 ^ 16 * H) by rw [eA]] at hx2
  rw [hx2, fold8 _ _ _ bB0 bB1 (by omega),
    show B0 + B1 + 2 ^ 8 * (B1 + (A1 + H + 2 ^ 16 * H) + 2 ^ 8 * (A1 + H + 2 ^ 16 * H)) =
      C0 + 2 ^ 4 * C1 + 2 ^ 8 * (B1 + (A1 + H + 2 ^ 16 * H) + 2 ^ 8 * (A1 + H + 2 ^ 16 * H))
      by rw [eB]] at hx3
  rw [hx4, hx3, fold4 _ _ _ bC0]

/-! ## `countEmpty`: the emptiness mask -/

theorem not_and_shuffle (a b c d : Bool) :
    (!a && !c && (!b && !d)) = (!a && !b && !c && !d) := by
  cases a <;> cases b <;> cases c <;> cases d <;> rfl

/-- Bit `4 n + k` of the mask that `countEmpty` builds in its first three
statements: set exactly for `k = 0` when the four bits of cell `n` are
clear. -/
theorem emptyMask_testBit (x n k : Nat) (hn : n < 16) (hk : k < 4) :
    ((((x ||| ((x >>> 2) &&& 0x3333333333333333)) |||
        ((x ||| ((x >>> 2) &&& 0x3333333333333333)) >>> 1)) ^^^ (2 ^ 64 - 1)) &&&
      0x1111111111111111).testBit (4 * n + k) =
      (decide (k = 0) && !(x.testBit (4 * n) || x.testBit (4 * n + 1) ||
        x.testBit (4 * n + 2) || x.testBit (4 * n + 3))) := by
  simp only [Nat.testBit_and, Nat.testBit_or, Nat.testBit_xor, Nat.testBit_shiftRight,
    Nat.testBit_two_pow_sub_one]
  generalize Nat.testBit x = f
  interval_cases n <;> interval_cases k <;> simp [Nat.testBit_to_div_mod] <;>
    exact not_and_shuffle _ _ _ _

/-- A cell is 0 exactly when its four bits are clear. -/
theorem cell_eq_zero_iff_bits (x n : Nat) :
    cell x n = 0 ↔ (x.testBit (4 * n) || x.testBit (4 * n + 1) || x.testBit (4 * n + 2) ||
      x.testBit (4 * n + 3)) = false := by
  constructor
  · intro h
    have b : ∀ k, k < 4 → x.testBit (4 * n + k) = false := by
      intro k hk
      have := cell_testBit x n k
      rw [h, Nat.zero_testBit] at this
      simpa [hk] using this.symm
    have b0 := b 0 (by norm_num)
    rw [Nat.add_zero] at b0
    rw [b0, b 1 (by norm_num), b 2 (by norm_num), b 3 (by norm_num)]
    rfl
  · intro h
    simp only [Bool.or_eq_false_iff] at h
    obtain ⟨⟨⟨h0, h1⟩, h2⟩, h3⟩ := h
    apply Nat.eq_of_testBit_eq
    intro k
    rw [cell_testBit, Nat.zero_testBit]
    by_cases hk : k < 4
    · interval_cases k <;> simp [h0, h1, h2, h3]
    · simp [hk]

/-- Cell `n` of the mask of `countEmpty` is 1 when cell `n` of `x` is 0, and
0 otherwise. -/
theorem cell_emptyMask (x n : Nat) (hn : n < 16) :
    cell ((((x ||| ((x >>> 2) &&& 0x3333333333333333)) |||
        ((x ||| ((x >>> 2) &&& 0x3333333333333333)) >>> 1)) ^^^ (2 ^ 64 - 1)) &&&
      0x1111111111111111) n = if cell x n = 0 then 1 else 0 := by
  apply Nat.eq_of_testBit_eq
  intro k
  rw [cell_testBit]
  by_cases hk : k < 4
  · rw [emptyMask_testBit x n k hn hk]
    by_cases hz : cell x n = 0
    · rw [if_pos hz, (cell_eq_zero_iff_bits x n).1 hz]
      interval_cases k <;> simp [Nat.testBit_to_div_mod]
    · rw [if_neg hz]
      have hb := mt (cell_eq_zero_iff_bits x n).2 hz
      simp only [Bool.not_eq_false] at hb
      rw [hb]
      simp
  · have h4 : 4 ≤ k := Nat.le_of_not_lt hk
    have e1 : (1 : Nat).testBit k = false := testBit_nibble 1 k (by norm_num) h4
    have e0 : (0 : Nat).testBit k = false := Nat.zero_testBit k
    split_ifs <;> simp [hk, e1, e0]

/-- A 64-bit word is the sum of its sixteen cells, weighted by powers of 16. -/
theorem eq_sum_cells (y : Nat) (hy : y < 2 ^ 64) :
    y = cell y 0 + cell y 1 * 16 + cell y 2 * 16 ^ 2 + cell y 3 * 16 ^ 3 + cell y 4 * 16 ^ 4 +
      cell y 5 * 16 ^ 5 + cell y 6 * 16 ^ 6 + cell y 7 * 16 ^ 7 + cell y 8 * 16 ^ 8 +
      cell y 9 * 16 ^ 9 + cell y 10 * 16 ^ 10 + cell y 11 * 16 ^ 11 + cell y 12 * 16 ^ 12 +
      cell y 13 * 16 ^ 13 + cell y 14 * 16 ^ 14 + cell y 15 * 16 ^ 15 := by
  have hc : ∀ n, cell y n = y / 2 ^ (4 * n) % 2 ^ 4 := by
    intro n
    unfold cell
    rw [show (0xf : Nat) = 2 ^ 4 - 1 by norm_num, Nat.and_pow_two_sub_one_eq_mod,
      Nat.shiftRight_eq_div_pow]
  simp only [hc]
  norm_num
  omega

/-! ## `countEmpty` against the number of zero cells -/

/-- The number of zero cells as a sum of sixteen indicators. -/
theorem zeroCellCount_eq (x : Nat) :
    zeroCellCount x =
      (if cell x 0 = 0 then 1 else 0) + (if cell x 1 = 0 then 1 else 0) +
      (if cell x 2 = 0 then 1 else 0) + (if cell x 3 = 0 then 1 else 0) +
      (if cell x 4 = 0 then 1 else 0) + (if cell x 5 = 0 then 1 else 0) +
      (if cell x 6 = 0 then 1 else 0) + (if cell x 7 = 0 then 1 else 0) +
      (if cell x 8 = 0 then 1 else 0) + (if cell x 9 = 0 then 1 else 0) +
      (if cell x 10 = 0 then 1 else 0) + (if cell x 11 = 0 then 1 else 0) +
      (if cell x 12 = 0 then 1 else 0) + (if cell x 13 = 0 then 1 else 0) +
      (if cell x 14 = 0 then 1 else 0) + (if cell x 15 = 0 then 1 else 0) := by
  unfold zeroCellCount
  simp only [show List.range 16 = [0, 1, 2, 3, 4, 5, 6, 7, 8, 9, 10, 11, 12, 13, 14, 15] from rfl,
    List.countP_cons, List.countP_nil, decide_eq_true_eq, Nat.zero_add]
  ring

theorem ite_le_one (p : Prop) [Decidable p] : (if p then 1 else 0) ≤ 1 := by
  split_ifs <;> norm_num

/-- The value of `countEmpty`: the number of zero cells among the sixteen
cells, modulo 16. -/
theorem countEmpty_eq_mod (x : Nat) : countEmpty x = zeroCellCount x % 16 := by
  have hM : (((x ||| ((x >>> 2) &&& 0x3333333333333333)) |||
        ((x ||| ((x >>> 2) &&& 0x3333333333333333)) >>> 1)) ^^^ (2 ^ 64 - 1)) &&&
      0x1111111111111111 < 2 ^ 64 := Nat.lt_of_le_of_lt Nat.and_le_right (by norm_num)
  have hs := eq_sum_cells _ hM
  simp only [cell_emptyMask x _ (by norm_num : (0 : Nat) < 16),
    cell_emptyMask x _ (by norm_num : (1 : Nat) < 16),
    cell_emptyMask x _ (by norm_num : (2 : Nat) < 16),
    cell_emptyMask x _ (by norm_num : (3 : Nat) < 16),
    cell_emptyMask x _ (by norm_num : (4 : Nat) < 16),
    cell_emptyMask x _ (by norm_num : (5 : Nat) < 16),
    cell_emptyMask x _ (by norm_num : (6 : Nat) < 16),
    cell_emptyMask x _ (by norm_num : (7 : Nat) < 16),
    cell_emptyMask x _ (by norm_num : (8 : Nat) < 16),
    cell_emptyMask x _ (by norm_num : (9 : Nat) < 16),
    cell_emptyMask x _ (by norm_num : (10 : Nat) < 16),
    cell_emptyMask x _ (by norm_num : (11 : Nat) < 16),
    cell_emptyMask x _ (by norm_num : (12 : Nat) < 16),
    cell_emptyMask x _ (by norm_num : (13 : Nat) < 16),
    cell_emptyMask x _ (by norm_num : (14 : Nat) < 16),
    cell_emptyMask x _ (by norm_num : (15 : Nat) < 16)] at hs
  have h15 : ∀ y : Nat, y &&& 0xf = y % 16 := fun y => Nat.and_pow_two_sub_one_eq_mod y 4
  unfold countEmpty
  simp only [h15]
  simp only [Nat.shiftRight_eq_div_pow] at hs ⊢
  rw [zeroCellCount_eq]
  exact fold_nibbles _ _ _ _ _ _ _ _ _ _ _ _ _ _ _ _ (ite_le_one _) (ite_le_one _)
    (ite_le_one _) (ite_le_one _) (ite_le_one _) (ite_le_one _) (ite_le_one _) (ite_le_one _)
    (ite_le_one _) (ite_le_one _) (ite_le_one _) (ite_le_one _) (ite_le_one _) (ite_le_one _)
    (ite_le_one _) (ite_le_one _) _ _ _ _ _ hs rfl rfl rfl rfl

/-- With a non-zero cell among the sixteen, fewer than 16 cells are zero. -/
theorem zeroCellCount_lt (x : Nat) (h : ∃ n, n < 16 ∧ cell x n ≠ 0) : zeroCellCount x < 16 := by
  obtain ⟨n, hn, hc⟩ := h
  unfold zeroCellCount
  refine lt_of_le_of_ne (le_of_le_of_eq (List.countP_le_length _) (List.length_range 16)) ?_
  intro he
  have hall := List.countP_eq_length.1 (he.trans (List.length_range 16).symm)
  have := hall n (List.mem_range.2 hn)
  exact hc (by simpa using this)

/-- C14 fails at the empty board: all sixteen cells of the board 0 are zero,
and `countEmpty` returns 0, because the count 16 does not fit the four bits
kept by the final `x & 0xf`. -/
theorem countEmpty_empty_board_wraps :
    zeroCellCount 0 = 16 ∧ countEmpty 0 = 0 ∧ countEmpty 0 ≠ zeroCellCount 0 := by
  decide

/-- C14, amended: for every board `x` with at least one non-zero cell among
its sixteen 4-bit cells, `countEmpty x` equals the number of the sixteen
cells that are 0. -/
theorem countEmpty_eq_zeroCellCount (x : Nat) (h : ∃ n, n < 16 ∧ cell x n ≠ 0) :
    countEmpty x = zeroCellCount x := by
  rw [countEmpty_eq_mod, Nat.mod_eq_of_lt (zeroCellCount_lt x h)]

/-- Witness for C14: the board `0x2001` has cells 1 and 2 in positions 0
and 3 and fourteen empty cells. -/
theorem countEmpty_eq_zeroCellCount_witness :
    countEmpty 0x2001 = zeroCellCount 0x2001 ∧ zeroCellCount 0x2001 = 14 :=
  ⟨countEmpty_eq_zeroCellCount 0x2001 ⟨0, by decide⟩, by decide⟩

/-! ## The chance node never divides by zero -/

/-- A board whose sixteen cells are all non-zero has no empty cell for
`countEmpty`. -/
theorem countEmpty_full_board (board : Nat) (hfull : ∀ n, n < 16 → cell board n ≠ 0) :
    countEmpty board = 0 := by
  rw [countEmpty_eq_mod, zeroCellCount_eq]
  simp [hfull]

/-- The four ways in which `scoreTileChooseNode` returns: the heuristic at a
leaf, a cached value, 0 when `countEmpty` is 0, and otherwise the average
over the spawns, in which `num_open = countEmpty board` is at least 1 at
both divisions. -/
theorem scoreTileChooseNode_cases (F : FloatEnv) (fuel : Nat) (state : EvalState)
    (board : Nat) (cprob : ℚ) :
    scoreTileChooseNode F (fuel + 1) state board cprob =
        some (scoreHeurBoard F board,
          { state with maxdepth := max state.curdepth state.maxdepth }) ∨
      (∃ v, cacheLookup state board = some v ∧
        scoreTileChooseNode F (fuel + 1) state board cprob =
          some (v, { state with cachehits := state.cachehits + 1 })) ∨
      (countEmpty board = 0 ∧
        scoreTileChooseNode F (fuel + 1) state board cprob = some (0, state)) ∨
      (1 ≤ countEmpty board ∧
        scoreTileChooseNode F (fuel + 1) state board cprob =
          match tileLoop F (scoreMoveNodeWith (scoreTileChooseNode F fuel)) board
              (F.fdiv cprob (countEmpty board)) (countEmpty board) 17 state 0 board 1 0 with
          | none => none
          | some (res, state) =>
            some (F.fdiv res (countEmpty board),
              cacheStore state board (F.fdiv res (countEmpty board)))) := by
  rw [scoreTileChooseNode]
  by_cases hleaf : cprob < CPROB_THRESH_BASE F ∨ state.curdepth ≥ state.depth_limit
  · left
    rw [if_pos hleaf]
  · rw [if_neg hleaf]
    cases hc : cacheLookup state board with
    | some v => exact Or.inr (Or.inl ⟨v, rfl, rfl⟩)
    | none =>
      by_cases hz : countEmpty board = 0
      · refine Or.inr (Or.inr (Or.inl ⟨hz, ?_⟩))
        simp only [hz, if_true]
      · refine Or.inr (Or.inr (Or.inr ⟨Nat.one_le_iff_ne_zero.2 hz, ?_⟩))
        simp only [hz, if_false]

/-! ## The board heuristic sums over rows and columns -/

/-- A 16-bit pattern is packed back from its four cells. -/
theorem packCells_rowCells (r : Nat) (hr : r < 2 ^ 16) : packCells (rowCells r) = r := by
  apply eq_of_cells 4 _ _ (packCells_lt _) hr
  intro k hk
  rw [rowCells_eq, cell_packCells _ _ _ _ k (cell_lt _ _) (cell_lt _ _) (cell_lt _ _)
    (cell_lt _ _) hk]
  interval_cases k <;> rfl

/-- The pattern of column `j`, cells read from row 0 to row 3, is row `j` of
the transposed board. -/
theorem packCells_boardCol (b j : Nat) (hj : j < 4) :
    packCells (boardCol b j) = extractRow (transpose b) j := by
  rw [boardCol_eq_rowCells b j hj, packCells_rowCells _ (extractRow_lt _ _)]

/-- The helper `scoreHelper` adds the table entries of the four rows. -/
theorem scoreHelper_rows (F : FloatEnv) (board : Nat) :
    scoreHelper F board =
      F.fadd (F.fadd (F.fadd (F.heurScoreTable (extractRow board 0))
        (F.heurScoreTable (extractRow board 1))) (F.heurScoreTable (extractRow board 2)))
        (F.heurScoreTable (extractRow board 3)) := rfl

/-- C18: for every board `b`, `scoreHeurBoard b` is the `float` sum of
`heurScoreTable[row_i(b)]` over the four rows `i`, plus the `float` sum of
`heurScoreTable[col_j(b)]` over the four columns `j`, where `row_i(b)` is
`extractRow b i` and `col_j(b)` is the 16-bit pattern packed from the cells
of column `j` read from row 0 (low nibble) to row 3: cell `k` of `col_j(b)`
is cell `4 k + j` of `b`. Every addition is a `float` addition, in the order
of the source. -/
theorem scoreHeurBoard_rows_and_columns (F : FloatEnv) (b : Nat) :
    scoreHeurBoard F b =
        F.fadd
          (F.fadd (F.fadd (F.fadd (F.heurScoreTable (extractRow b 0))
            (F.heurScoreTable (extractRow b 1))) (F.heurScoreTable (extractRow b 2)))
            (F.heurScoreTable (extractRow b 3)))
          (F.fadd (F.fadd (F.fadd (F.heurScoreTable (packCells (boardCol b 0)))
            (F.heurScoreTable (packCells (boardCol b 1))))
            (F.heurScoreTable (packCells (boardCol b 2))))
            (F.heurScoreTable (packCells (boardCol b 3)))) ∧
      (∀ i k, i < 4 → k < 4 → cell (extractRow b i) k = cell b (4 * i + k)) ∧
      ∀ j k, j < 4 → k < 4 → cell (packCells (boardCol b j)) k = cell b (4 * k + j) := by
  refine ⟨?_, fun i k _ hk => cell_extractRow b i k hk, ?_⟩
  · rw [packCells_boardCol b 0 (by norm_num), packCells_boardCol b 1 (by norm_num),
      packCells_boardCol b 2 (by norm_num), packCells_boardCol b 3 (by norm_num)]
    unfold scoreHeurBoard
    rw [scoreHelper_rows, scoreHelper_rows]
  · intro j k hj hk
    rw [packCells_boardCol b j hj, cell_extractRow _ j k hk, cell_transpose b j k hj hk]

end AIEvaluator

namespace Game2048

/-! ## Polling the background evaluation -/

/-- C19: `checkAIAnalysisResult` on the state `(aiEvaluating, aiCancelFlag,
aiBestMove, moveScores, aiFuture)`. If no evaluation is in progress, or the
future has no shared state or is not ready, the poll returns false and
changes no field. If an evaluation is in progress and the future is ready
with the result `(i, scores)`, the poll returns true and sets `aiEvaluating`
to false whatever `aiCancelFlag` is; it leaves `aiCancelFlag` as it was; with
`aiCancelFlag` false it assigns `aiBestMove := i` and `moveScores := scores`,
and with `aiCancelFlag` set it leaves `aiBestMove` and `moveScores`
unchanged. -/
theorem checkAIAnalysisResult_poll (s : AIState) :
    ((s.aiEvaluating = false ∨ s.aiFuture = FutureStatus.invalid ∨
        s.aiFuture = FutureStatus.pending) → checkAIAnalysisResult s = (false, s)) ∧
      ∀ (i : Int) (scores : List ℚ), s.aiEvaluating = true →
        s.aiFuture = FutureStatus.ready (i, scores) →
        (checkAIAnalysisResult s).1 = true ∧
        (checkAIAnalysisResult s).2.aiEvaluating = false ∧
        (checkAIAnalysisResult s).2.aiCancelFlag = s.aiCancelFlag ∧
        (s.aiCancelFlag = false →
          (checkAIAnalysisResult s).2.aiBestMove = i ∧
          (checkAIAnalysisResult s).2.moveScores = scores) ∧
        (s.aiCancelFlag = true →
          (checkAIAnalysisResult s).2.aiBestMove = s.aiBestMove ∧
          (checkAIAnalysisResult s).2.moveScores = s.moveScores) := by
  obtain ⟨ev, cf, bm, ms, fut⟩ := s
  constructor
  · rintro (h | h | h)
    · simp only at h
      subst h
      rfl
    · simp only at h
      subst h
      cases ev <;> rfl
    · simp only at h
      subst h
      cases ev <;> rfl
  · intro i scores he hf
    simp only at he hf
    subst he hf
    cases cf <;> simp [checkAIAnalysisResult]

/-- Witness for C19: a finished evaluation with result `(2, [0, 0, 5, 0])` is
published when the cancel flag is clear. -/
theorem checkAIAnalysisResult_poll_witness :
    (checkAIAnalysisResult
      { aiEvaluating := true, aiCancelFlag := false, aiBestMove := -1,
        moveScores := [0, 0, 0, 0],
        aiFuture := FutureStatus.ready (2, [0, 0, 5, 0]) }).2.aiBestMove = 2 :=
  ((((checkAIAnalysisResult_poll
      { aiEvaluating := true, aiCancelFlag := false, aiBestMove := -1,
        moveScores := [0, 0, 0, 0],
        aiFuture := FutureStatus.ready (2, [0, 0, 5, 0]) }).2 2 [0, 0, 5, 0] rfl rfl).2.2.2.1)
    rfl).1

end Game2048

namespace AIEvaluator

/-! ## The monotonicity penalty of `initTables` -/

/-- The accumulators after the three iterations, for the cells `a b c d`. -/
theorem monotonicity_four (a b c d : Nat) :
    monotonicity [a, b, c, d] =
      monotonicityStep [a, b, c, d] (monotonicityStep [a, b, c, d]
        (monotonicityStep [a, b, c, d] (0, 0) 1) 2) 3 := rfl

/-- A difference of fourth powers in the direction of the comparison is not
negative. -/
theorem pow4_sub_nonneg (a b : Nat) (h : a ≤ b) : (0 : Int) ≤ (b : Int) ^ 4 - (a : Int) ^ 4 := by
  have : (a : Int) ^ 4 ≤ (b : Int) ^ 4 :=
    pow_le_pow_left₀ (Int.ofNat_nonneg a) (Int.ofNat_le.2 h) 4
  omega

/-- One iteration keeps both accumulators non-negative. -/
theorem monotonicityStep_nonneg (line : List Nat) (acc : Int × Int) (i : Nat)
    (h : 0 ≤ acc.1 ∧ 0 ≤ acc.2) :
    0 ≤ (monotonicityStep line acc i).1 ∧ 0 ≤ (monotonicityStep line acc i).2 := by
  unfold monotonicityStep
  split_ifs with hc
  · exact ⟨add_nonneg h.1 (pow4_sub_nonneg _ _ (le_of_lt hc)), h.2⟩
  · exact ⟨h.1, add_nonneg h.2 (pow4_sub_nonneg _ _ (Nat.le_of_not_lt hc))⟩

/-- Both accumulators are non-negative. -/
theorem monotonicity_nonneg (a b c d : Nat) :
    0 ≤ (monotonicity [a, b, c, d]).1 ∧ 0 ≤ (monotonicity [a, b, c, d]).2 := by
  rw [monotonicity_four]
  exact monotonicityStep_nonneg _ _ _ (monotonicityStep_nonneg _ _ _
    (monotonicityStep_nonneg _ _ _ ⟨le_refl _, le_refl _⟩))

/-- An iteration at a descent or a plateau leaves `monotonicity_right`. -/
theorem monotonicityStep_right (line : List Nat) (acc : Int × Int) (i : Nat)
    (h : line.getD i 0 ≤ line.getD (i - 1) 0) : (monotonicityStep line acc i).2 = acc.2 := by
  unfold monotonicityStep
  split_ifs with hc
  · rfl
  · have he : line.getD i 0 = line.getD (i - 1) 0 := le_antisymm h (Nat.le_of_not_lt hc)
    rw [he, sub_self, add_zero]

/-- An iteration at an ascent or a plateau leaves `monotonicity_left`. -/
theorem monotonicityStep_left (line : List Nat) (acc : Int × Int) (i : Nat)
    (h : line.getD (i - 1) 0 ≤ line.getD i 0) : (monotonicityStep line acc i).1 = acc.1 := by
  unfold monotonicityStep
  rw [if_neg (Nat.not_lt.2 h)]

/-- On a non-increasing line nothing is added to `monotonicity_right`. -/
theorem monotonicity_right_zero (a b c d : Nat) (h1 : b ≤ a) (h2 : c ≤ b) (h3 : d ≤ c) :
    (monotonicity [a, b, c, d]).2 = 0 := by
  rw [monotonicity_four, monotonicityStep_right [a, b, c, d] _ 3 h3,
    monotonicityStep_right [a, b, c, d] _ 2 h2, monotonicityStep_right [a, b, c, d] _ 1 h1]

/-- On a non-decreasing line nothing is added to `monotonicity_left`. -/
theorem monotonicity_left_zero (a b c d : Nat) (h1 : a ≤ b) (h2 : b ≤ c) (h3 : c ≤ d) :
    (monotonicity [a, b, c, d]).1 = 0 := by
  rw [monotonicity_four, monotonicityStep_left [a, b, c, d] _ 3 h3,
    monotonicityStep_left [a, b, c, d] _ 2 h2, monotonicityStep_left [a, b, c, d] _ 1 h1]

/-- C17: for every row pattern, with `(left, right)` the accumulators
`(monotonicity_left, monotonicity_right)` that `initTables` computes from
its four ranks: if the ranks are non-increasing then `right = 0`, if they
are non-decreasing then `left = 0`, and in both cases the penalty term
`min(left, right)` is 0. The accumulators are sums of differences of fourth
powers of neighbouring ranks, in exact integer arithmetic. -/
theorem monotonicity_penalty_zero_of_monotone (row : Nat)
    (hmono : (cell row 1 ≤ cell row 0 ∧ cell row 2 ≤ cell row 1 ∧ cell row 3 ≤ cell row 2) ∨
      (cell row 0 ≤ cell row 1 ∧ cell row 1 ≤ cell row 2 ∧ cell row 2 ≤ cell row 3)) :
    min (monotonicity (rowCells row)).1 (monotonicity (rowCells row)).2 = 0 ∧
      ((cell row 1 ≤ cell row 0 ∧ cell row 2 ≤ cell row 1 ∧ cell row 3 ≤ cell row 2) →
        (monotonicity (rowCells row)).2 = 0) ∧
      ((cell row 0 ≤ cell row 1 ∧ cell row 1 ≤ cell row 2 ∧ cell row 2 ≤ cell row 3) →
        (monotonicity (rowCells row)).1 = 0) := by
  rw [rowCells_eq]
  have hn := monotonicity_nonneg (cell row 0) (cell row 1) (cell row 2) (cell row 3)
  have hr := fun h : cell row 1 ≤ cell row 0 ∧ cell row 2 ≤ cell row 1 ∧
      cell row 3 ≤ cell row 2 => monotonicity_right_zero _ _ _ _ h.1 h.2.1 h.2.2
  have hl := fun h : cell row 0 ≤ cell row 1 ∧ cell row 1 ≤ cell row 2 ∧
      cell row 2 ≤ cell row 3 => monotonicity_left_zero _ _ _ _ h.1 h.2.1 h.2.2
  refine ⟨?_, hr, hl⟩
  rcases hmono with h | h
  · rw [hr h]
    exact min_eq_right hn.1
  · rw [hl h]
    exact min_eq_left hn.2

/-- Witness for C17: the row `0x0123` has the ranks `[3, 2, 1, 0]` (tiles
`[8, 4, 2, 0]`), its accumulators are `(81, 0)`; the row `0x3210` has the
ranks `[0, 1, 2, 3]` (tiles `[0, 2, 4, 8]`), its accumulators are
`(0, 81)`. -/
theorem monotonicity_penalty_zero_of_monotone_witness :
    rowCells 0x0123 = [3, 2, 1, 0] ∧ monotonicity (rowCells 0x0123) = (81, 0) ∧
      rowCells 0x3210 = [0, 1, 2, 3] ∧ monotonicity (rowCells 0x3210) = (0, 81) ∧
      min (monotonicity (rowCells 0x0123)).1 (monotonicity (rowCells 0x0123)).2 = 0 ∧
      min (monotonicity (rowCells 0x3210)).1 (monotonicity (rowCells 0x3210)).2 = 0 :=
  ⟨by decide, by decide, by decide, by decide,
    (monotonicity_penalty_zero_of_monotone 0x0123 (Or.inl (by decide))).1,
    (monotonicity_penalty_zero_of_monotone 0x3210 (Or.inr (by decide))).1⟩

/-! ## `countDistinctTiles` against the number of distinct values -/

theorem cell_zero_eq (board : Nat) : cell board 0 = board &&& 0xf := by
  unfold cell
  rw [Nat.mul_zero, Nat.shiftRight_zero]

theorem cell_shiftRight_four (board n : Nat) : cell (board >>> 4) n = cell board (n + 1) := by
  unfold cell
  rw [← Nat.shiftRight_add, show 4 + 4 * n = 4 * (n + 1) by ring]

/-- The presence bit that one iteration of the first loop sets. -/
theorem testBit_presence (bitset c v : Nat) (hv : v < 16) :
    ((bitset ||| (1 <<< c)) % 2 ^ 16).testBit v = (bitset.testBit v || decide (c = v)) := by
  rw [Nat.testBit_mod_two_pow, Nat.testBit_or, Nat.one_shiftLeft, Nat.testBit_two_pow]
  simp [hv]

/-- The first loop of `countDistinctTiles`: it returns a 16-bit set in which
a bit `v >= 1` is set exactly if it was set before or one of the first
`fuel` cells of `board` equals `v`. -/
theorem distinctLoop_testBit (fuel : Nat) :
    ∀ board bitset, board < 2 ^ (4 * fuel) → bitset < 2 ^ 16 →
      ∃ r, distinctLoop (fuel + 1) board bitset = some r ∧ r < 2 ^ 16 ∧
        ∀ v, 1 ≤ v → v < 16 →
          (r.testBit v = true ↔
            bitset.testBit v = true ∨ ∃ n, n < fuel ∧ cell board n = v) := by
  induction fuel with
  | zero =>
    intro board bitset hb hbs
    have h0 : board = 0 := by simpa using hb
    subst h0
    refine ⟨bitset, by simp [distinctLoop], hbs, fun v _ _ => ?_⟩
    simp
  | succ fuel ih =>
    intro board bitset hb hbs
    by_cases h0 : board = 0
    · subst h0
      refine ⟨bitset, by simp [distinctLoop], hbs, fun v hv _ => ?_⟩
      constructor
      · exact fun h => Or.inl h
      · rintro (h | ⟨n, -, hn⟩)
        · exact h
        · rw [cell_eq_zero_of_lt 0 n (by positivity)] at hn
          omega
    · have hshift : board >>> 4 < 2 ^ (4 * fuel) := by
        rw [Nat.shiftRight_eq_div_pow, Nat.div_lt_iff_lt_mul (by norm_num)]
        calc board < 2 ^ (4 * (fuel + 1)) := hb
          _ = 2 ^ (4 * fuel) * 2 ^ 4 := by ring
      obtain ⟨r, hr, hr16, hbits⟩ := ih (board >>> 4)
        ((bitset ||| (1 <<< (board &&& 0xf))) % 2 ^ 16) hshift (Nat.mod_lt _ (by norm_num))
      refine ⟨r, ?_, hr16, fun v hv hv16 => ?_⟩
      · rw [distinctLoop, if_pos h0]
        exact hr
      · rw [hbits v hv hv16, testBit_presence _ _ _ hv16, ← cell_zero_eq]
        simp only [Bool.or_eq_true, decide_eq_true_eq, cell_shiftRight_four]
        constructor
        · rintro ((h | h) | ⟨n, hn, hc⟩)
          · exact Or.inl h
          · exact Or.inr ⟨0, Nat.succ_pos _, h⟩
          · exact Or.inr ⟨n + 1, Nat.succ_lt_succ hn, hc⟩
        · rintro (h | ⟨n, hn, hc⟩)
          · exact Or.inl (Or.inl h)
          · cases n with
            | zero => exact Or.inl (Or.inr hc)
            | succ n => exact Or.inr ⟨n, Nat.lt_of_succ_lt_succ hn, hc⟩

/-- Counting the set bits below `k + 1`: bit 0, then the bits of the half. -/
theorem countP_testBit_succ (b k : Nat) :
    (List.range (k + 1)).countP (fun i => b.testBit i) =
      (if b.testBit 0 then 1 else 0) + (List.range k).countP (fun i => (b / 2).testBit i) := by
  rw [List.range_succ_eq_map, List.countP_cons, List.countP_map, Nat.add_comm]
  congr 1
  apply List.countP_congr
  intro i _
  simp [Nat.testBit_succ]

/-- The step `bitset &= bitset - 1` clears exactly one set bit. -/
theorem countP_clear_lowest (k : Nat) :
    ∀ b, b ≠ 0 → b < 2 ^ k →
      (List.range k).countP (fun i => (b &&& (b - 1)).testBit i) + 1 =
        (List.range k).countP (fun i => b.testBit i) := by
  induction k with
  | zero =>
    intro b h0 hb
    simp at hb
    exact absurd hb h0
  | succ k ih =>
    intro b h0 hb
    rw [countP_testBit_succ, countP_testBit_succ]
    have hhalf : b / 2 < 2 ^ k := by
      rw [Nat.div_lt_iff_lt_mul (by norm_num)]
      calc b < 2 ^ (k + 1) := hb
        _ = 2 ^ k * 2 := by ring
    rcases Nat.even_or_odd b with he | ho
    · obtain ⟨c, hc⟩ := he
      have hc0 : c ≠ 0 := by omega
      have hb2 : b / 2 = c := by omega
      have hdiv : (b &&& (b - 1)) / 2 = c &&& (c - 1) := by
        apply Nat.eq_of_testBit_eq
        intro i
        rw [← Nat.testBit_succ, Nat.testBit_and, Nat.testBit_and, Nat.testBit_succ,
          Nat.testBit_succ, hb2, show (b - 1) / 2 = c - 1 by omega]
      have hbit0 : b.testBit 0 = false := by
        rw [Nat.testBit_zero]
        simp
        omega
      have hand0 : (b &&& (b - 1)).testBit 0 = false := by
        rw [Nat.testBit_and, hbit0]
        rfl
      rw [hdiv, hbit0, hand0, hb2]
      have := ih c hc0 (hb2 ▸ hhalf)
      simp only [Bool.false_eq_true, if_false, Nat.zero_add]
      exact this
    · obtain ⟨c, hc⟩ := ho
      have hb2 : b / 2 = c := by omega
      have hdiv : (b &&& (b - 1)) / 2 = c := by
        apply Nat.eq_of_testBit_eq
        intro i
        rw [← Nat.testBit_succ, Nat.testBit_and, Nat.testBit_succ,
          Nat.testBit_succ, hb2, show (b - 1) / 2 = c by omega, Bool.and_self]
      have hbit0 : b.testBit 0 = true := by
        rw [Nat.testBit_zero]
        simp
        omega
      have hand0 : (b &&& (b - 1)).testBit 0 = false := by
        rw [Nat.testBit_and, Nat.testBit_zero (b - 1)]
        simp
        omega
      rw [hdiv, hbit0, hand0, hb2]
      simp only [Bool.false_eq_true, if_false, if_true, Nat.zero_add]
      exact Nat.add_comm _ _

/-- The second loop of `countDistinctTiles` adds the number of set bits. -/
theorem popLoop_eq (k fuel : Nat) :
    ∀ bitset count, bitset < fuel → bitset < 2 ^ k →
      popLoop fuel bitset count =
        some (count + ((List.range k).countP (fun i => bitset.testBit i) : Nat)) := by
  induction fuel with
  | zero => intro bitset count h; omega
  | succ fuel ih =>
    intro bitset count h hk
    by_cases h0 : bitset = 0
    · subst h0
      simp [popLoop]
    · have hle : bitset &&& (bitset - 1) ≤ bitset - 1 := Nat.and_le_right
      rw [popLoop, if_pos h0, ih _ _ (by omega) (by omega), ← countP_clear_lowest k bitset h0 hk]
      congr 1
      push_cast
      ring

/-- C15: for every 64-bit board, `countDistinctTiles board` returns the
number of values `v` in `1..15` that occur in at least one of the sixteen
4-bit cells (empty cells are not counted), and the result is between 0 and
15. -/
theorem countDistinctTiles_eq_distinctValueCount (board : Nat) (hb : board < 2 ^ 64) :
    countDistinctTiles board = some ((distinctValueCount board : Nat) : Int) ∧
      distinctValueCount board ≤ 15 := by
  obtain ⟨bs, hbs, hlt, hbits⟩ := distinctLoop_testBit 16 board 0 hb (by norm_num)
  have hlt2 : bs >>> 1 < 2 ^ 15 := by
    rw [Nat.shiftRight_eq_div_pow, Nat.div_lt_iff_lt_mul (by norm_num)]
    calc bs < 2 ^ 16 := hlt
      _ = 2 ^ 15 * 2 ^ 1 := by norm_num
  have hcount : (List.range 15).countP (fun i => (bs >>> 1).testBit i) =
      distinctValueCount board := by
    unfold distinctValueCount
    apply List.countP_congr
    intro i hi
    have hi15 : i < 15 := List.mem_range.1 hi
    rw [Nat.testBit_shiftRight, Nat.add_comm, hbits (i + 1) (Nat.succ_pos i) (by omega)]
    simp
  constructor
  · unfold countDistinctTiles
    rw [hbs]
    simp only []
    rw [popLoop_eq 15 65536 _ _ (lt_trans hlt2 (by norm_num)) hlt2, hcount, Int.zero_add]
  · unfold distinctValueCount
    exact le_of_le_of_eq (List.countP_le_length _) (List.length_range 15)

/-- Witness for C15: the board `0x1212212112122121` holds the two values 1
and 2. -/
theorem countDistinctTiles_eq_distinctValueCount_witness :
    countDistinctTiles 0x1212212112122121 = some 2 := by
  have h := (countDistinctTiles_eq_distinctValueCount 0x1212212112122121 (by norm_num)).1
  have hd : distinctValueCount 0x1212212112122121 = 2 := by decide
  rw [hd] at h
  exact h

/-! ## The search returns from every state -/

/-- One iteration of the loop of `scoreMoveNode` returns and keeps the
depth and the depth limit, if the chance node does. -/
theorem moveNodeStep_returns (f : EvalState → Nat → ℚ → Option (ℚ × EvalState)) (c D : Int)
    (hf : ∀ state board cprob, state.curdepth = c → state.depth_limit = D →
      ∃ v st, f state board cprob = some (v, st) ∧ st.curdepth = c ∧ st.depth_limit = D)
    (board : Nat) (cprob best : ℚ) (state : EvalState) (move : Int)
    (hc : state.curdepth = c) (hD : state.depth_limit = D) :
    ∃ best2 st, moveNodeStep f board cprob (some (best, state)) move = some (best2, st) ∧
      st.curdepth = c ∧ st.depth_limit = D := by
  unfold moveNodeStep
  simp only
  by_cases hne : board ≠ executeMove move board
  · obtain ⟨v, st, hv, hs⟩ := hf { state with moves_evaled := (state.moves_evaled + 1) % 2 ^ 64 }
      (executeMove move board) cprob hc hD
    rw [if_pos hne, hv]
    exact ⟨_, st, rfl, hs⟩
  · rw [if_neg hne]
    exact ⟨best, _, rfl, hc, hD⟩

/-- The move node returns and keeps the depth and the depth limit, if the
chance node one level deeper does. -/
theorem scoreMoveNodeWith_returns (f : EvalState → Nat → ℚ → Option (ℚ × EvalState))
    (c D : Int)
    (hf : ∀ state board cprob, state.curdepth = c + 1 → state.depth_limit = D →
      ∃ v st, f state board cprob = some (v, st) ∧ st.curdepth = c + 1 ∧ st.depth_limit = D)
    (state : EvalState) (board : Nat) (cprob : ℚ) (hc : state.curdepth = c)
    (hD : state.depth_limit = D) :
    ∃ v st, scoreMoveNodeWith f state board cprob = some (v, st) ∧ st.curdepth = c ∧
      st.depth_limit = D := by
  obtain ⟨b0, s0, e0, hc0, hD0⟩ := moveNodeStep_returns f (c + 1) D hf board cprob 0
    { state with curdepth := state.curdepth + 1 } 0 (by simp [hc]) hD
  obtain ⟨b1, s1, e1, hc1, hD1⟩ := moveNodeStep_returns f (c + 1) D hf board cprob b0 s0 1 hc0 hD0
  obtain ⟨b2, s2, e2, hc2, hD2⟩ := moveNodeStep_returns f (c + 1) D hf board cprob b1 s1 2 hc1 hD1
  obtain ⟨b3, s3, e3, hc3, hD3⟩ := moveNodeStep_returns f (c + 1) D hf board cprob b2 s2 3 hc2 hD2
  unfold scoreMoveNodeWith
  simp only [List.foldl_cons, List.foldl_nil, e0, e1, e2, e3]
  exact ⟨b3, _, rfl, by simp [hc3], hD3⟩

/-- The loop over the empty cells returns and keeps the depth and the depth
limit, if the move node does. -/
theorem tileLoop_returns (F : FloatEnv) (g : EvalState → Nat → ℚ → Option (ℚ × EvalState))
    (c D : Int)
    (hg : ∀ state board cprob, state.curdepth = c → state.depth_limit = D →
      ∃ v st, g state board cprob = some (v, st) ∧ st.curdepth = c ∧ st.depth_limit = D)
    (board : Nat) (cprob : ℚ) (num_open : Nat) (fuel : Nat) :
    ∀ k, k ≤ 16 → 17 - k ≤ fuel → ∀ state res tmp count, state.curdepth = c →
      state.depth_limit = D →
      ∃ r st, tileLoop F g board cprob num_open fuel state res tmp (2 ^ (4 * k) % 2 ^ 64) count =
        some (r, st) ∧ st.curdepth = c ∧ st.depth_limit = D := by
  induction fuel with
  | zero => intro k hk hf; omega
  | succ fuel ih =>
    intro k hk hfuel state res tmp count hc hD
    unfold tileLoop
    by_cases hcond : 2 ^ (4 * k) % 2 ^ 64 ≠ 0 ∧ count < num_open
    · have hk16 : k < 16 := by
        by_contra hge
        have : k = 16 := by omega
        subst this
        exact hcond.1 (by norm_num)
      rw [if_pos hcond, shl64_pow]
      by_cases hcell : tmp &&& 0xf = 0
      · rw [if_pos hcell]
        obtain ⟨v2, st2, e2, hc2, hD2⟩ := hg state (board ||| 2 ^ (4 * k) % 2 ^ 64)
          (F.fmul cprob (F.rnd32 (9 / 10))) hc hD
        obtain ⟨v4, st4, e4, hc4, hD4⟩ := hg st2 (board ||| shl64 (2 ^ (4 * k) % 2 ^ 64) 1)
          (F.fmul cprob (F.rnd32 (1 / 10))) hc2 hD2
        simp only [e2, e4]
        exact ih (k + 1) (by omega) (by omega) st4 _ _ _ hc4 hD4
      · rw [if_neg hcell]
        exact ih (k + 1) (by omega) (by omega) state res _ _ hc hD
    · rw [if_neg hcond]
      exact ⟨res, state, rfl, hc, hD⟩

theorem cacheStore_depth (state : EvalState) (board : Nat) (res : ℚ) :
    (cacheStore state board res).curdepth = state.curdepth ∧
      (cacheStore state board res).depth_limit = state.depth_limit := by
  unfold cacheStore
  split_ifs <;> exact ⟨rfl, rfl⟩

/-- The chance node returns from every state, whatever the table holds, with
a budget of more nested calls than levels are left below the depth limit; it
keeps the depth and the depth limit. -/
theorem scoreTileChooseNode_returns (F : FloatEnv) (fuel : Nat) :
    ∀ (c D : Int) (state : EvalState) (board : Nat) (cprob : ℚ), state.curdepth = c →
      state.depth_limit = D → (D - c).toNat < fuel →
      ∃ v st, scoreTileChooseNode F fuel state board cprob = some (v, st) ∧ st.curdepth = c ∧
        st.depth_limit = D := by
  induction fuel with
  | zero => intro c D state board cprob _ _ h; omega
  | succ fuel ih =>
    intro c D state board cprob hc hD hfuel
    unfold scoreTileChooseNode
    by_cases hleaf : cprob < CPROB_THRESH_BASE F ∨ state.curdepth ≥ state.depth_limit
    · rw [if_pos hleaf]
      exact ⟨_, _, rfl, hc, hD⟩
    · rw [if_neg hleaf]
      have hlt : c < D := by
        rw [hc, hD] at hleaf
        push_neg at hleaf
        exact hleaf.2
      cases hlook : cacheLookup state board with
      | some v =>
        simp only
        exact ⟨v, _, rfl, hc, hD⟩
      | none =>
        simp only
        by_cases hopen : countEmpty board = 0
        · rw [if_pos hopen]
          exact ⟨0, state, rfl, hc, hD⟩
        · rw [if_neg hopen]
          have hmove : ∀ st b cp, st.curdepth = c → st.depth_limit = D →
              ∃ v st2, scoreMoveNodeWith (scoreTileChooseNode F fuel) st b cp = some (v, st2) ∧
                st2.curdepth = c ∧ st2.depth_limit = D := by
            intro st b cp hsc hsD
            apply scoreMoveNodeWith_returns _ c D _ st b cp hsc hsD
            intro st1 b1 cp1 hc1 hD1
            exact ih (c + 1) D st1 b1 cp1 hc1 hD1 (by omega)
          obtain ⟨r, st, e, hsc, hsD⟩ := tileLoop_returns F _ c D hmove board
            (F.fdiv cprob (countEmpty board)) (countEmpty board) 17 0 (by norm_num)
            (by norm_num) state 0 board 0 hc hD
          have e1 : (2 : Nat) ^ (4 * 0) % 2 ^ 64 = 1 := by norm_num
          rw [e1] at e
          rw [e]
          simp only
          have hcs := cacheStore_depth st board (F.fdiv r (countEmpty board))
          exact ⟨_, _, rfl, hcs.1.trans hsc, hcs.2.trans hsD⟩

end AIEvaluator
namespace AIEvaluator

/-! ## The divisions of the chance node as checked operations -/

/-- The checked division has no result exactly for the divisor 0. -/
theorem fdivChecked_eq_none (F : FloatEnv) (a : ℚ) (n : Nat) :
    F.fdivChecked a n = none ↔ n = 0 := by
  unfold FloatEnv.fdivChecked
  split_ifs with h
  · exact ⟨fun _ => h, fun _ => rfl⟩
  · exact ⟨fun e => absurd e (by simp), fun e => absurd e h⟩

theorem fdivChecked_of_ne_zero (F : FloatEnv) (a : ℚ) (n : Nat) (h : n ≠ 0) :
    F.fdivChecked a n = some (F.fdiv a n) := by
  unfold FloatEnv.fdivChecked
  rw [if_neg h]

/-- The chance node with checked divisions is the chance node of the
program: no call executes a division with `num_open = 0`. -/
theorem tileNodeDivChecked_eq (F : FloatEnv) (fuel : Nat) :
    tileNodeDivChecked F fuel = scoreTileChooseNode F fuel := by
  induction fuel with
  | zero =>
    funext state board cprob
    rw [tileNodeDivChecked, scoreTileChooseNode]
  | succ fuel ih =>
    funext state board cprob
    rw [tileNodeDivChecked, scoreTileChooseNode, ih]
    by_cases hleaf : cprob < CPROB_THRESH_BASE F ∨ state.curdepth ≥ state.depth_limit
    · rw [if_pos hleaf, if_pos hleaf]
    · rw [if_neg hleaf, if_neg hleaf]
      cases cacheLookup state board with
      | some v => rfl
      | none =>
        simp only
        by_cases hz : countEmpty board = 0
        · rw [if_pos hz, if_pos hz]
        · rw [if_neg hz, if_neg hz, fdivChecked_of_ne_zero F cprob _ hz]
          simp only
          cases tileLoop F (scoreMoveNodeWith (scoreTileChooseNode F fuel)) board
              (F.fdiv cprob (countEmpty board)) (countEmpty board) 17 state 0 board 1 0 with
          | none => rfl
          | some r =>
            obtain ⟨res, st⟩ := r
            simp only
            rw [fdivChecked_of_ne_zero F res _ hz]

/-- C16: the chance node never divides by zero. With the two divisions by
`num_open` as checked operations (no result for the divisor 0): for every
board with no empty cell, `countEmpty board = 0` and the chance node returns
a defined value with a budget of one call, i.e. without entering the loop:
the static heuristic at a leaf, a cached value, or 0; for every board, state
and budget the node with checked divisions returns what the chance node of
the program returns, and with a budget above the levels left below the depth
limit it returns a result, so a division is executed only with
`num_open >= 1`. -/
theorem scoreTileChooseNode_never_divides_by_zero (F : FloatEnv) (fuel : Nat)
    (state : EvalState) (board : Nat) (cprob : ℚ) :
    ((∀ n, n < 16 → cell board n ≠ 0) →
      countEmpty board = 0 ∧
      (tileNodeDivChecked F 1 state board cprob =
          some (scoreHeurBoard F board,
            { state with maxdepth := max state.curdepth state.maxdepth }) ∨
        (∃ v, cacheLookup state board = some v ∧
          tileNodeDivChecked F 1 state board cprob =
            some (v, { state with cachehits := state.cachehits + 1 })) ∨
        tileNodeDivChecked F 1 state board cprob = some (0, state))) ∧
    tileNodeDivChecked F fuel state board cprob = scoreTileChooseNode F fuel state board cprob ∧
    ((state.depth_limit - state.curdepth).toNat < fuel →
      ∃ v st, tileNodeDivChecked F fuel state board cprob = some (v, st)) ∧
    (∀ (a : ℚ) (n : Nat), F.fdivChecked a n = none ↔ n = 0) := by
  refine ⟨fun hfull => ?_, ?_, ?_, fdivChecked_eq_none F⟩
  · have hz := countEmpty_full_board board hfull
    refine ⟨hz, ?_⟩
    rw [tileNodeDivChecked_eq]
    rcases scoreTileChooseNode_cases F 0 state board cprob with h | h | h | h
    · exact Or.inl h
    · exact Or.inr (Or.inl h)
    · exact Or.inr (Or.inr h.2)
    · rw [hz] at h
      exact absurd h.1 (by norm_num)
  · rw [tileNodeDivChecked_eq]
  · intro hfuel
    rw [tileNodeDivChecked_eq]
    obtain ⟨v, st, h, -⟩ := scoreTileChooseNode_returns F fuel _ _ state board cprob rfl rfl hfuel
    exact ⟨v, st, h⟩

/-- Witness for C16: the board `0x1212212112122121` is full; at depth 0 of
a search with depth limit 3 and an empty table the chance node with checked
divisions returns 0 with a budget of one call. The board `0x2001` has 14
empty cells, and the node with checked divisions returns a result. -/
theorem scoreTileChooseNode_never_divides_by_zero_witness :
    countEmpty 0x1212212112122121 = 0 ∧
    tileNodeDivChecked exactEnv 1
        { transTable := fun _ => none, maxdepth := 0, curdepth := 0, cachehits := 0,
          moves_evaled := 0, depth_limit := 3 } 0x1212212112122121 1 =
      some (0, { transTable := fun _ => none, maxdepth := 0, curdepth := 0, cachehits := 0,
                 moves_evaled := 0, depth_limit := 3 }) ∧
    ∃ v st, tileNodeDivChecked exactEnv 4
        { transTable := fun _ => none, maxdepth := 0, curdepth := 0, cachehits := 0,
          moves_evaled := 0, depth_limit := 3 } 0x2001 1 = some (v, st) := by
  have hfull : ∀ n, n < 16 → cell 0x1212212112122121 n ≠ 0 := by
    intro n hn
    interval_cases n <;> decide
  have h := scoreTileChooseNode_never_divides_by_zero exactEnv 1
    { transTable := fun _ => none, maxdepth := 0, curdepth := 0, cachehits := 0,
      moves_evaled := 0, depth_limit := 3 } 0x1212212112122121 1
  obtain ⟨hz, -⟩ := h.1 hfull
  refine ⟨hz, ?_, ?_⟩
  · have hnl : ¬ ((1 : ℚ) < CPROB_THRESH_BASE exactEnv ∨ (0 : Int) ≥ 3) := by
      norm_num [CPROB_THRESH_BASE, exactEnv]
    have hl : cacheLookup
        { transTable := fun _ => none, maxdepth := 0, curdepth := 0, cachehits := 0,
          moves_evaled := 0, depth_limit := 3 } 0x1212212112122121 = none := by
      simp [cacheLookup]
    rw [h.2.1, scoreTileChooseNode, if_neg hnl, hl]
    simp only [hz, if_true]
  · exact (scoreTileChooseNode_never_divides_by_zero exactEnv 4
      { transTable := fun _ => none, maxdepth := 0, curdepth := 0, cachehits := 0,
        moves_evaled := 0, depth_limit := 3 } 0x2001 1).2.2.1 (by decide)

/-! ## Table entries and leaf values of a board of tiles 512 and 16 -/

theorem heurRowScore_0494 : heurRowScore sumPower 0x494 = (-122938) := by
  have h : rowCells 0x494 = [4, 9, 4, 0] := by decide
  norm_num [heurRowScore, h, heurStep, monotonicity, monotonicityStep, sumPower]

theorem heurRowScore_0949 : heurRowScore sumPower 0x949 = (-145587) := by
  have h : rowCells 0x949 = [9, 4, 9, 0] := by decide
  norm_num [heurRowScore, h, heurStep, monotonicity, monotonicityStep, sumPower]

theorem heurRowScore_4494 : heurRowScore sumPower 0x4494 = (-123216) := by
  have h : rowCells 0x4494 = [4, 9, 4, 4] := by decide
  norm_num [heurRowScore, h, heurStep, monotonicity, monotonicityStep, sumPower]

theorem heurRowScore_4940 : heurRowScore sumPower 0x4940 = (-122938) := by
  have h : rowCells 0x4940 = [0, 4, 9, 4] := by decide
  norm_num [heurRowScore, h, heurStep, monotonicity, monotonicityStep, sumPower]

theorem heurRowScore_4944 : heurRowScore sumPower 0x4944 = (-123216) := by
  have h : rowCells 0x4944 = [4, 4, 9, 4] := by decide
  norm_num [heurRowScore, h, heurStep, monotonicity, monotonicityStep, sumPower]

theorem heurRowScore_4949 : heurRowScore sumPower 0x4949 = (-147265) := by
  have h : rowCells 0x4949 = [9, 4, 9, 4] := by decide
  norm_num [heurRowScore, h, heurStep, monotonicity, monotonicityStep, sumPower]

theorem heurRowScore_9490 : heurRowScore sumPower 0x9490 = (-145587) := by
  have h : rowCells 0x9490 = [0, 9, 4, 9] := by decide
  norm_num [heurRowScore, h, heurStep, monotonicity, monotonicityStep, sumPower]

theorem heurRowScore_9494 : heurRowScore sumPower 0x9494 = (-147265) := by
  have h : rowCells 0x9494 = [4, 9, 4, 9] := by decide
  norm_num [heurRowScore, h, heurStep, monotonicity, monotonicityStep, sumPower]

theorem heurRowScore_9499 : heurRowScore sumPower 0x9499 = (-168514) := by
  have h : rowCells 0x9499 = [9, 9, 4, 9] := by decide
  norm_num [heurRowScore, h, heurStep, monotonicity, monotonicityStep, sumPower]

theorem heurRowScore_9949 : heurRowScore sumPower 0x9949 = (-168514) := by
  have h : rowCells 0x9949 = [9, 4, 9, 9] := by decide
  norm_num [heurRowScore, h, heurStep, monotonicity, monotonicityStep, sumPower]

theorem scoreHeurBoard_9499494494994940 : scoreHeurBoard tableEnv 0x9499494494994940 = (-1170564) := by
  have ht : transpose 0x9499494494994940 = 0x9494494994949490 := by decide
  have r0 : (0x9499494494994940 >>> 0) &&& 0xFFFF = 0x4940 := by decide
  have r1 : (0x9499494494994940 >>> 16) &&& 0xFFFF = 0x9499 := by decide
  have r2 : (0x9499494494994940 >>> 32) &&& 0xFFFF = 0x4944 := by decide
  have r3 : (0x9499494494994940 >>> 48) &&& 0xFFFF = 0x9499 := by decide
  have c0 : (0x9494494994949490 >>> 0) &&& 0xFFFF = 0x9490 := by decide
  have c1 : (0x9494494994949490 >>> 16) &&& 0xFFFF = 0x9494 := by decide
  have c2 : (0x9494494994949490 >>> 32) &&& 0xFFFF = 0x4949 := by decide
  have c3 : (0x9494494994949490 >>> 48) &&& 0xFFFF = 0x9494 := by decide
  have hT : ∀ r, tableEnv.heurScoreTable r = heurRowScore sumPower r := fun _ => rfl
  unfold scoreHeurBoard scoreHelper FloatEnv.fadd
  rw [ht, r0, r1, r2, r3, c0, c1, c2, c3]
  simp only [hT, heurRowScore_4940, heurRowScore_4944, heurRowScore_4949, heurRowScore_9490, heurRowScore_9494, heurRowScore_9499]
  norm_num [tableEnv]

theorem scoreHeurBoard_0949494994944949 : scoreHeurBoard tableEnv 0x949494994944949 = (-1170564) := by
  have ht : transpose 0x949494994944949 = 0x494994944949949 := by decide
  have r0 : (0x949494994944949 >>> 0) &&& 0xFFFF = 0x4949 := by decide
  have r1 : (0x949494994944949 >>> 16) &&& 0xFFFF = 0x9494 := by decide
  have r2 : (0x949494994944949 >>> 32) &&& 0xFFFF = 0x4949 := by decide
  have r3 : (0x949494994944949 >>> 48) &&& 0xFFFF = 0x949 := by decide
  have c0 : (0x494994944949949 >>> 0) &&& 0xFFFF = 0x9949 := by decide
  have c1 : (0x494994944949949 >>> 16) &&& 0xFFFF = 0x4494 := by decide
  have c2 : (0x494994944949949 >>> 32) &&& 0xFFFF = 0x9949 := by decide
  have c3 : (0x494994944949949 >>> 48) &&& 0xFFFF = 0x494 := by decide
  have hT : ∀ r, tableEnv.heurScoreTable r = heurRowScore sumPower r := fun _ => rfl
  unfold scoreHeurBoard scoreHelper FloatEnv.fadd
  rw [ht, r0, r1, r2, r3, c0, c1, c2, c3]
  simp only [hT, heurRowScore_0494, heurRowScore_0949, heurRowScore_4494, heurRowScore_4949, heurRowScore_9494, heurRowScore_9949]
  norm_num [tableEnv]

/-! ## The move node takes the maximum with 0 -/

/-- The maximum with 0 over the directions below `k` that change the board,
as three properties of `best`. -/
theorem max_with_zero_step (ch : Nat → Prop) (v : Nat → ℚ) (k : Nat) (best best2 : ℚ)
    (h : 0 ≤ best ∧ (∀ d, d < k → ch d → v d ≤ best) ∧
      (best = 0 ∨ ∃ d, d < k ∧ ch d ∧ best = v d))
    (hch : ch k → best2 = if best < v k then v k else best) (hun : ¬ ch k → best2 = best) :
    0 ≤ best2 ∧ (∀ d, d < k + 1 → ch d → v d ≤ best2) ∧
      (best2 = 0 ∨ ∃ d, d < k + 1 ∧ ch d ∧ best2 = v d) := by
  obtain ⟨h0, hle, hex⟩ := h
  by_cases hk : ch k
  · have hb := hch hk
    by_cases hlt : best < v k
    · rw [if_pos hlt] at hb
      subst hb
      refine ⟨le_of_lt (lt_of_le_of_lt h0 hlt), fun d hd hcd => ?_,
        Or.inr ⟨k, Nat.lt_succ_self k, hk, rfl⟩⟩
      rcases Nat.lt_succ_iff_lt_or_eq.1 hd with hd | hd
      · exact le_trans (hle d hd hcd) (le_of_lt hlt)
      · rw [hd]
    · rw [if_neg hlt] at hb
      subst hb
      refine ⟨h0, fun d hd hcd => ?_, ?_⟩
      · rcases Nat.lt_succ_iff_lt_or_eq.1 hd with hd | hd
        · exact hle d hd hcd
        · rw [hd]
          exact not_lt.1 hlt
      · rcases hex with h | ⟨d, hd, hcd, he⟩
        · exact Or.inl h
        · exact Or.inr ⟨d, Nat.lt_succ_of_lt hd, hcd, he⟩
  · have hb := hun hk
    subst hb
    refine ⟨h0, fun d hd hcd => ?_, ?_⟩
    · rcases Nat.lt_succ_iff_lt_or_eq.1 hd with hd | hd
      · exact hle d hd hcd
      · rw [hd] at hcd
        exact absurd hcd hk
    · rcases hex with h | ⟨d, hd, hcd, he⟩
      · exact Or.inl h
      · exact Or.inr ⟨d, Nat.lt_succ_of_lt hd, hcd, he⟩

/-- One iteration of the loop of `scoreMoveNode`, split by whether the
direction changes the board. -/
theorem moveNodeStep_split (f : EvalState → Nat → ℚ → Option (ℚ × EvalState)) (c D : Int)
    (hf : ∀ state board cprob, state.curdepth = c → state.depth_limit = D →
      ∃ v st, f state board cprob = some (v, st) ∧ st.curdepth = c ∧ st.depth_limit = D)
    (board : Nat) (cprob best : ℚ) (state : EvalState) (move : Int)
    (hc : state.curdepth = c) (hD : state.depth_limit = D) :
    ∃ best2 st v, moveNodeStep f board cprob (some (best, state)) move = some (best2, st) ∧
      st.curdepth = c ∧ st.depth_limit = D ∧
      (executeMove move board = board →
        best2 = best ∧ st = { state with moves_evaled := (state.moves_evaled + 1) % 2 ^ 64 }) ∧
      (executeMove move board ≠ board →
        f { state with moves_evaled := (state.moves_evaled + 1) % 2 ^ 64 }
          (executeMove move board) cprob = some (v, st) ∧
        best2 = if best < v then v else best) := by
  unfold moveNodeStep
  simp only
  by_cases hne : board ≠ executeMove move board
  · obtain ⟨v, st, hv, hs⟩ := hf { state with moves_evaled := (state.moves_evaled + 1) % 2 ^ 64 }
      (executeMove move board) cprob hc hD
    rw [if_pos hne, hv]
    exact ⟨_, st, v, rfl, hs.1, hs.2, fun h => absurd h.symm hne, fun _ => ⟨rfl, rfl⟩⟩
  · rw [if_neg hne]
    exact ⟨best, _, 0, rfl, hc, hD, fun _ => ⟨rfl, rfl⟩,
      fun h => absurd (fun e => h e.symm) hne⟩

/-- The move node over an arbitrary chance node `f` that returns: the
states `s 0 .. s 4` before and after the four directions, the values `v d`
of the directions that change the board, and the result `best`, which is
the maximum of 0 and these values. -/
theorem scoreMoveNodeWith_max (f : EvalState → Nat → ℚ → Option (ℚ × EvalState))
    (state : EvalState) (board : Nat) (cprob : ℚ)
    (hf : ∀ st b cp, st.curdepth = state.curdepth + 1 → st.depth_limit = state.depth_limit →
      ∃ v st2, f st b cp = some (v, st2) ∧ st2.curdepth = state.curdepth + 1 ∧
        st2.depth_limit = state.depth_limit) :
    ∃ (v : Nat → ℚ) (s : Nat → EvalState) (best : ℚ),
      s 0 = { state with curdepth := state.curdepth + 1 } ∧
      (∀ d : Nat, d < 4 →
        (s d).curdepth = state.curdepth + 1 ∧ (s d).depth_limit = state.depth_limit ∧
        (executeMove d board = board →
          s (d + 1) = { s d with moves_evaled := ((s d).moves_evaled + 1) % 2 ^ 64 }) ∧
        (executeMove d board ≠ board →
          f { s d with moves_evaled := ((s d).moves_evaled + 1) % 2 ^ 64 }
            (executeMove d board) cprob = some (v d, s (d + 1)))) ∧
      scoreMoveNodeWith f state board cprob =
        some (best, { s 4 with curdepth := (s 4).curdepth - 1 }) ∧
      0 ≤ best ∧
      (∀ d : Nat, d < 4 → executeMove d board ≠ board → v d ≤ best) ∧
      (best = 0 ∨ ∃ d : Nat, d < 4 ∧ executeMove d board ≠ board ∧ best = v d) := by
  obtain ⟨b1, s1, v0, e0, hc1, hD1, hu0, hx0⟩ := moveNodeStep_split f _ _ hf board cprob 0
    { state with curdepth := state.curdepth + 1 } ((0 : Nat) : Int) rfl rfl
  obtain ⟨b2, s2, v1, e1, hc2, hD2, hu1, hx1⟩ := moveNodeStep_split f _ _ hf board cprob b1
    s1 ((1 : Nat) : Int) hc1 hD1
  obtain ⟨b3, s3, v2, e2, hc3, hD3, hu2, hx2⟩ := moveNodeStep_split f _ _ hf board cprob b2
    s2 ((2 : Nat) : Int) hc2 hD2
  obtain ⟨b4, s4, v3, e3, -, -, hu3, hx3⟩ := moveNodeStep_split f _ _ hf board cprob b3
    s3 ((3 : Nat) : Int) hc3 hD3
  have i0 : (0 : ℚ) ≤ 0 ∧ (∀ d : Nat, d < 0 → executeMove d board ≠ board →
      [v0, v1, v2, v3].getD d 0 ≤ 0) ∧
      ((0 : ℚ) = 0 ∨ ∃ d : Nat, d < 0 ∧ executeMove d board ≠ board ∧
        (0 : ℚ) = [v0, v1, v2, v3].getD d 0) :=
    ⟨le_refl 0, fun d hd => absurd hd (Nat.not_lt_zero d), Or.inl rfl⟩
  have i1 := max_with_zero_step (fun d : Nat => executeMove d board ≠ board)
    (fun d => [v0, v1, v2, v3].getD d 0) 0 0 b1 i0 (fun h => (hx0 h).2)
    (fun h => (hu0 (not_not.1 h)).1)
  have i2 := max_with_zero_step (fun d : Nat => executeMove d board ≠ board)
    (fun d => [v0, v1, v2, v3].getD d 0) 1 b1 b2 i1 (fun h => (hx1 h).2)
    (fun h => (hu1 (not_not.1 h)).1)
  have i3 := max_with_zero_step (fun d : Nat => executeMove d board ≠ board)
    (fun d => [v0, v1, v2, v3].getD d 0) 2 b2 b3 i2 (fun h => (hx2 h).2)
    (fun h => (hu2 (not_not.1 h)).1)
  have i4 := max_with_zero_step (fun d : Nat => executeMove d board ≠ board)
    (fun d => [v0, v1, v2, v3].getD d 0) 3 b3 b4 i3 (fun h => (hx3 h).2)
    (fun h => (hu3 (not_not.1 h)).1)
  refine ⟨fun d => [v0, v1, v2, v3].getD d 0,
    fun d => ([({ state with curdepth := state.curdepth + 1 } : EvalState), s1, s2, s3,
      s4] : List EvalState).getD d s4, b4,
    rfl, ?_, ?_, i4.1, i4.2.1, i4.2.2⟩
  · intro d hd
    interval_cases d
    · exact ⟨rfl, rfl, fun h => (hu0 h).2, fun h => (hx0 h).1⟩
    · exact ⟨hc1, hD1, fun h => (hu1 h).2, fun h => (hx1 h).1⟩
    · exact ⟨hc2, hD2, fun h => (hu2 h).2, fun h => (hx2 h).1⟩
    · exact ⟨hc3, hD3, fun h => (hu3 h).2, fun h => (hx3 h).1⟩
  · simp only [Nat.cast_zero, Nat.cast_one, Nat.cast_ofNat] at e0 e1 e2 e3
    unfold scoreMoveNodeWith
    simp only [List.foldl_cons, List.foldl_nil, e0, e1, e2, e3]
    rfl

/-- At or below the depth limit the chance node is a leaf: it returns the
static heuristic. -/
theorem scoreTileChooseNode_leaf (F : FloatEnv) (fuel : Nat) (state : EvalState) (board : Nat)
    (cprob : ℚ) (h : state.curdepth ≥ state.depth_limit) :
    scoreTileChooseNode F (fuel + 1) state board cprob =
      some (scoreHeurBoard F board,
        { state with maxdepth := max state.curdepth state.maxdepth }) := by
  rw [scoreTileChooseNode, if_pos (Or.inr h)]

/-- The board `0x9490494994944949` (rows `[512,16,512,16]`, `[16,512,16,512]`,
`[512,16,512,16]`, `[0,512,16,512]`): up and right leave it, down and left
change it. -/
theorem checker_board_moves :
    executeMove 0 0x9490494994944949 = 0x9490494994944949 ∧
      executeMove 1 0x9490494994944949 = 0x9499494494994940 ∧
      executeMove 2 0x9490494994944949 = 0x0949494994944949 ∧
      executeMove 3 0x9490494994944949 = 0x9490494994944949 := by
  refine ⟨?_, ?_, ?_, ?_⟩
  · rw [executeMove_up_closed]
    decide
  · rw [executeMove_down_closed]
    decide
  · rw [executeMove_left_closed]
    decide
  · rw [executeMove_right_closed]
    decide

/-- C20 fails on the code: on the board `0x9490494994944949` at depth 2 of
a search with depth limit 3, the two directions that change the board (down
and left) lead to leaves whose static heuristic is `-1170564`, so the
maximum over the directions that change the board is `-1170564`, and
`scoreMoveNode` returns 0, the initial value of `best`. The float
environment is exact arithmetic with the table of `initTables`; the rows
involved hold only the ranks 0, 4 and 9, for which every table entry is an
integer that `float` represents exactly. -/
theorem scoreMoveNode_zero_above_negative_leaves :
    executeMove 0 0x9490494994944949 = 0x9490494994944949 ∧
      executeMove 1 0x9490494994944949 = 0x9499494494994940 ∧
      executeMove 2 0x9490494994944949 = 0x0949494994944949 ∧
      executeMove 3 0x9490494994944949 = 0x9490494994944949 ∧
      (∀ st : EvalState, st.curdepth = 3 → st.depth_limit = 3 →
        ∃ st2, scoreTileChooseNode tableEnv 1 st 0x9499494494994940 1 =
          some (-1170564, st2)) ∧
      (∀ st : EvalState, st.curdepth = 3 → st.depth_limit = 3 →
        ∃ st2, scoreTileChooseNode tableEnv 1 st 0x0949494994944949 1 =
          some (-1170564, st2)) ∧
      ∃ st2, scoreMoveNode tableEnv 1
        { transTable := fun _ => none, maxdepth := 0, curdepth := 2, cachehits := 0,
          moves_evaled := 0, depth_limit := 3 } 0x9490494994944949 1 = some (0, st2) := by
  have hleaf1 : ∀ st : EvalState, st.curdepth = 3 → st.depth_limit = 3 →
      scoreTileChooseNode tableEnv 1 st 0x9499494494994940 1 =
        some (-1170564, { st with maxdepth := max st.curdepth st.maxdepth }) := by
    intro st hc hD
    rw [scoreTileChooseNode_leaf tableEnv 0 st _ 1 (by rw [hc, hD]),
      scoreHeurBoard_9499494494994940]
  have hleaf2 : ∀ st : EvalState, st.curdepth = 3 → st.depth_limit = 3 →
      scoreTileChooseNode tableEnv 1 st 0x0949494994944949 1 =
        some (-1170564, { st with maxdepth := max st.curdepth st.maxdepth }) := by
    intro st hc hD
    rw [scoreTileChooseNode_leaf tableEnv 0 st _ 1 (by rw [hc, hD]),
      scoreHeurBoard_0949494994944949]
  refine ⟨checker_board_moves.1, checker_board_moves.2.1, checker_board_moves.2.2.1,
    checker_board_moves.2.2.2, fun st hc hD => ⟨_, hleaf1 st hc hD⟩,
    fun st hc hD => ⟨_, hleaf2 st hc hD⟩, ?_⟩
  obtain ⟨v, s, best, -, hsteps, hres, h0, -, hex⟩ :=
    scoreMoveNodeWith_max (scoreTileChooseNode tableEnv 1)
      { transTable := fun _ => none, maxdepth := 0, curdepth := 2, cachehits := 0,
        moves_evaled := 0, depth_limit := 3 } 0x9490494994944949 1
      (fun st b cp hc hD => scoreTileChooseNode_returns tableEnv 1 _ _ st b cp hc hD
        (by decide))
  have hbest : best = 0 := by
    rcases hex with h | ⟨d, hd, hch, hv⟩
    · exact h
    · exfalso
      have hval : ∀ (st : EvalState) (x : Nat) (w : ℚ) (st2 : EvalState),
          scoreTileChooseNode tableEnv 1 st x 1 = some (w, st2) → st.curdepth = 3 →
          st.depth_limit = 3 → x = 0x9499494494994940 ∨ x = 0x0949494994944949 →
          w = -1170564 := by
        intro st x w st2 hx hc hD hb
        rcases hb with hb | hb
        · rw [hb, hleaf1 st hc hD] at hx
          exact (Prod.mk.inj (Option.some.inj hx)).1.symm
        · rw [hb, hleaf2 st hc hD] at hx
          exact (Prod.mk.inj (Option.some.inj hx)).1.symm
      have hneg : v d < 0 := by
        obtain ⟨hc, hD, -, hx⟩ := hsteps d hd
        have hx := hx hch
        have hw : v d = -1170564 := by
          refine hval _ _ _ _ hx hc hD ?_
          interval_cases d
          · exact absurd checker_board_moves.1 hch
          · exact Or.inl checker_board_moves.2.1
          · exact Or.inr checker_board_moves.2.2.1
          · exact absurd checker_board_moves.2.2.2 hch
        rw [hw]
        norm_num
      rw [← hv] at hneg
      exact absurd h0 (not_le.2 hneg)
  rw [hbest] at hres
  exact ⟨_, hres⟩

/-- C20, amended: for every state, board and cprob, with a budget of nested
calls that covers the levels left below the depth limit, `scoreMoveNode`
returns `best`, the maximum of 0 and the values `v d` that
`scoreTileChooseNode` returns one level deeper for the directions `d` in
0..3 with `executeMove d board ≠ board`: `0 ≤ best`, `v d ≤ best` for every
such `d`, and `best` is 0 or one of these `v d`; it is 0 if no direction
changes the board. The state `s d` is the state before direction `d`
(`s 0` is the given state one level deeper, every direction counts one
evaluated move), and the returned state is `s 4` back at the depth of the
call. -/
theorem scoreMoveNode_max_with_zero (F : FloatEnv) (fuel : Nat) (state : EvalState)
    (board : Nat) (cprob : ℚ)
    (hfuel : (state.depth_limit - (state.curdepth + 1)).toNat < fuel) :
    ∃ (v : Nat → ℚ) (s : Nat → EvalState) (best : ℚ),
      s 0 = { state with curdepth := state.curdepth + 1 } ∧
      (∀ d : Nat, d < 4 →
        (s d).curdepth = state.curdepth + 1 ∧ (s d).depth_limit = state.depth_limit ∧
        (executeMove d board = board →
          s (d + 1) = { s d with moves_evaled := ((s d).moves_evaled + 1) % 2 ^ 64 }) ∧
        (executeMove d board ≠ board →
          scoreTileChooseNode F fuel
            { s d with moves_evaled := ((s d).moves_evaled + 1) % 2 ^ 64 }
            (executeMove d board) cprob = some (v d, s (d + 1)))) ∧
      scoreMoveNode F fuel state board cprob =
        some (best, { s 4 with curdepth := (s 4).curdepth - 1 }) ∧
      0 ≤ best ∧
      (∀ d : Nat, d < 4 → executeMove d board ≠ board → v d ≤ best) ∧
      (best = 0 ∨ ∃ d : Nat, d < 4 ∧ executeMove d board ≠ board ∧ best = v d) ∧
      ((∀ d : Nat, d < 4 → executeMove d board = board) → best = 0) := by
  obtain ⟨v, s, best, h0, hsteps, hres, hb0, hle, hex⟩ :=
    scoreMoveNodeWith_max (scoreTileChooseNode F fuel) state board cprob
      (fun st b cp hc hD => scoreTileChooseNode_returns F fuel _ _ st b cp hc hD hfuel)
  refine ⟨v, s, best, h0, hsteps, hres, hb0, hle, hex, fun hall => ?_⟩
  rcases hex with h | ⟨d, hd, hch, -⟩
  · exact h
  · exact absurd (hall d hd) hch

/-- Witness for C20: on the board `0x9490494994944949` at depth 2 with depth
limit 3 and one nested call, `scoreMoveNode` returns a value that is not
negative. -/
theorem scoreMoveNode_max_with_zero_witness :
    ∃ best st, scoreMoveNode tableEnv 1
      { transTable := fun _ => none, maxdepth := 0, curdepth := 2, cachehits := 0,
        moves_evaled := 0, depth_limit := 3 } 0x9490494994944949 1 = some (best, st) ∧
      0 ≤ best := by
  obtain ⟨_, s, best, -, -, hres, hb0, -⟩ := scoreMoveNode_max_with_zero tableEnv 1
    { transTable := fun _ => none, maxdepth := 0, curdepth := 2, cachehits := 0,
      moves_evaled := 0, depth_limit := 3 } 0x9490494994944949 1 (by decide)
  exact ⟨best, _, hres, hb0⟩

/-! ## The search with the cache switched on is the search of the program -/

theorem tileNodeOn_true (F : FloatEnv) (fuel : Nat) :
    tileNodeOn true F fuel = scoreTileChooseNode F fuel := by
  induction fuel with
  | zero =>
    funext state board cprob
    rw [tileNodeOn, scoreTileChooseNode]
  | succ fuel ih =>
    funext state board cprob
    rw [tileNodeOn, scoreTileChooseNode, ih]
    simp only [lookupIf, storeIf, if_true]

theorem topLevelOn_true (F : FloatEnv) (t : Nat → Option (Int × ℚ)) (board : Nat)
    (move : Int) :
    (topLevelOn true F t board move).map (fun r => (r.1, r.2.1)) =
      scoreTopLevelMove F t board move := by
  unfold topLevelOn scoreTopLevelMove
  simp only [tileNodeOn_true]
  split_ifs
  · rfl
  · cases countDistinctTiles board with
    | none => rfl
    | some n =>
      simp only
      cases scoreTileChooseNode F ((max 3 (n - 2)).toNat + 1)
        { transTable := t, maxdepth := 0, curdepth := 0, cachehits := 0, moves_evaled := 0,
          depth_limit := max 3 (n - 2) } (executeMove move board) 1 with
      | none => rfl
      | some r => rfl

theorem allMovesStepOn_true (F : FloatEnv) (bitboard : Nat)
    (acc : Option (List ℚ × (Nat → Option (Int × ℚ)) × Int)) (move : Nat) :
    (allMovesStepOn true F bitboard acc move).map (fun r => (r.1, r.2.1)) =
      evaluateStep F bitboard (acc.map (fun r => (r.1, r.2.1))) move := by
  cases acc with
  | none => rfl
  | some a =>
    obtain ⟨scores, t, hits⟩ := a
    have h := topLevelOn_true F t bitboard move
    unfold allMovesStepOn evaluateStep
    simp only [Option.map_some']
    rw [← h]
    cases topLevelOn true F t bitboard move with
    | none => rfl
    | some r => rfl

/-- With the cache switched on, `allMovesOn` returns the scores of
`evaluateAllMoves`. -/
theorem allMovesOn_true (F : FloatEnv) (grid : List (List Int)) :
    (allMovesOn true F grid).map Prod.fst = evaluateAllMoves F grid := by
  unfold allMovesOn evaluateAllMoves
  simp only [List.foldl_cons, List.foldl_nil]
  have h0 : (some (List.replicate 4 (0 : ℚ), (fun _ => none : Nat → Option (Int × ℚ)))) =
      (some (List.replicate 4 (0 : ℚ), (fun _ => none : Nat → Option (Int × ℚ)), (0 : Int))).map
        (fun r => (r.1, r.2.1)) := rfl
  rw [h0, ← allMovesStepOn_true, ← allMovesStepOn_true, ← allMovesStepOn_true,
    ← allMovesStepOn_true]
  cases allMovesStepOn true F (convertToBitboard grid)
    (allMovesStepOn true F (convertToBitboard grid)
      (allMovesStepOn true F (convertToBitboard grid)
        (allMovesStepOn true F (convertToBitboard grid)
          (some (List.replicate 4 0, fun _ => none, 0)) 0) 1) 2) 3 with
  | none => rfl
  | some r => rfl

/-! ## The loop over the empty cells as a fold -/

theorem foldl_spawnStep_none (F : FloatEnv)
    (g : EvalState → Nat → ℚ → Option (ℚ × EvalState)) (board : Nat) (cprob : ℚ)
    (cells : List Nat) : cells.foldl (spawnStep F g board cprob) none = none := by
  induction cells with
  | nil => rfl
  | cons k rest ih => exact ih

theorem shiftRight_cell_step (board k : Nat) :
    (board >>> (4 * k)) >>> 4 = board >>> (4 * (k + 1)) := by
  rw [← Nat.shiftRight_add]
  rfl

/-- The loop `tileLoop` from cell `k` on, with `count` spawns done and as
many empty cells left as `num_open` asks for: it is the fold of `spawnStep`
over the empty cells from `k` on. -/
theorem tileLoop_eq_fold (F : FloatEnv) (g : EvalState → Nat → ℚ → Option (ℚ × EvalState))
    (board : Nat) (cprob : ℚ) (num_open : Nat) :
    ∀ (j k fuel : Nat), k + j = 16 → j < fuel → ∀ (st : EvalState) (res : ℚ) (count : Nat),
      count + ((List.range' k j).filter (fun i => decide (cell board i = 0))).length =
        num_open →
      tileLoop F g board cprob num_open fuel st res (board >>> (4 * k))
          (2 ^ (4 * k) % 2 ^ 64) count =
        ((List.range' k j).filter (fun i => decide (cell board i = 0))).foldl
          (spawnStep F g board cprob) (some (res, st)) := by
  intro j
  induction j with
  | zero =>
    intro k fuel hk hfuel st res count _
    have hk16 : k = 16 := by omega
    subst hk16
    obtain ⟨fuel2, rfl⟩ : ∃ f, fuel = f + 1 := ⟨fuel - 1, by omega⟩
    rw [tileLoop, if_neg (by norm_num)]
    rfl
  | succ j ih =>
    intro k fuel hk hfuel st res count hcount
    obtain ⟨fuel2, rfl⟩ : ∃ f, fuel = f + 1 := ⟨fuel - 1, by omega⟩
    have hk16 : k < 16 := by omega
    have htile : 2 ^ (4 * k) % 2 ^ 64 ≠ 0 := by
      rw [Nat.mod_eq_of_lt (Nat.pow_lt_pow_right (by norm_num) (by omega))]
      positivity
    have hcellk : (board >>> (4 * k)) &&& 0xf = cell board k := rfl
    rw [List.range'_succ] at hcount ⊢
    rw [tileLoop]
    by_cases hz : cell board k = 0
    · rw [List.filter_cons_of_pos (by simpa using hz)] at hcount ⊢
      rw [List.length_cons] at hcount
      rw [if_pos ⟨htile, by omega⟩, hcellk, if_pos hz, List.foldl_cons]
      rw [spawnStep]
      cases g st (board ||| 2 ^ (4 * k) % 2 ^ 64) (F.fmul cprob (F.rnd32 (9 / 10))) with
      | none =>
        simp only
        rw [foldl_spawnStep_none]
      | some r2 =>
        obtain ⟨v2, st2⟩ := r2
        simp only
        cases g st2 (board ||| shl64 (2 ^ (4 * k) % 2 ^ 64) 1)
          (F.fmul cprob (F.rnd32 (1 / 10))) with
        | none =>
          simp only
          rw [foldl_spawnStep_none]
        | some r4 =>
          obtain ⟨v4, st4⟩ := r4
          simp only
          rw [shiftRight_cell_step, shl64_pow]
          exact ih (k + 1) fuel2 (by omega) (by omega) st4 _ (count + 1) (by omega)
    · rw [List.filter_cons_of_neg (by simpa using hz)] at hcount ⊢
      by_cases hlt : count < num_open
      · rw [if_pos ⟨htile, hlt⟩, hcellk, if_neg hz, shiftRight_cell_step, shl64_pow]
        exact ih (k + 1) fuel2 (by omega) (by omega) st res count hcount
      · rw [if_neg (fun h => hlt h.2)]
        have hlen : ((List.range' (k + 1) j).filter
            (fun i => decide (cell board i = 0))).length = 0 := by omega
        rw [List.length_eq_zero.1 hlen]
        rfl

/-- The empty cells of a board, in the order of the loop. -/
theorem tileLoop_empty_cells (F : FloatEnv)
    (g : EvalState → Nat → ℚ → Option (ℚ × EvalState)) (board : Nat) (cprob : ℚ)
    (st : EvalState) (hopen : countEmpty board ≠ 0) :
    tileLoop F g board cprob (countEmpty board) 17 st 0 board 1 0 =
      ((List.range 16).filter (fun i => decide (cell board i = 0))).foldl
        (spawnStep F g board cprob) (some (0, st)) := by
  have hlen : ((List.range' 0 16).filter (fun i => decide (cell board i = 0))).length =
      countEmpty board := by
    rw [← List.range_eq_range', ← List.countP_eq_length_filter]
    have hm := countEmpty_eq_mod board
    unfold zeroCellCount at hm
    have hle : (List.range 16).countP (fun n => decide (cell board n = 0)) ≤ 16 :=
      le_of_le_of_eq (List.countP_le_length _) (List.length_range 16)
    omega
  have h := tileLoop_eq_fold F g board cprob (countEmpty board) 16 0 17 rfl (by norm_num) st 0
    0 (by rw [Nat.zero_add, hlen])
  rw [List.range_eq_range']
  simpa using h

/-! ## Rules for evaluating the search node by node -/

theorem At.store {d D : Int} {E : List (Nat × (Int × ℚ))} {st : EvalState}
    (h : At d D E st) (hd : d < 15) (b : Nat) (v : ℚ) :
    At d D ((b, (d, v)) :: E) (cacheStore st b v) := by
  obtain ⟨hc, hD, ht⟩ := h
  unfold cacheStore
  rw [if_pos (by rw [hc]; exact hd)]
  refine ⟨hc, hD, fun x => ?_⟩
  by_cases hx : x = b
  · subst hx
    simp [hc, List.lookup]
  · have hne : (x == b) = false := by simpa using hx
    simp only [Function.update_noteq hx, List.lookup, hne]
    exact ht x

/-- A direction that leaves the board. -/
theorem StepRes.unchanged (f : EvalState → Nat → ℚ → Option (ℚ × EvalState)) (d D : Int)
    (b : Nat) (cp : ℚ) (move : Int) (best : ℚ) (E : List (Nat × (Int × ℚ)))
    (h : executeMove move b = b) : StepRes f d D b cp move best E best E := by
  intro st hst
  unfold moveNodeStep
  simp only [h, ne_eq, not_true_eq_false, if_false]
  exact ⟨_, rfl, hst⟩

/-- A direction that changes the board. -/
theorem StepRes.changed (f : EvalState → Nat → ℚ → Option (ℚ × EvalState)) (d D : Int)
    (b : Nat) (cp : ℚ) (move : Int) (best : ℚ) (E : List (Nat × (Int × ℚ))) (nb : Nat)
    (w : ℚ) (E2 : List (Nat × (Int × ℚ))) (best2 : ℚ)
    (h : executeMove move b = nb) (hne : b ≠ nb) (hnode : NodeRes f d D E nb cp w E2)
    (hbest : (if best < w then w else best) = best2) :
    StepRes f d D b cp move best E best2 E2 := by
  intro st hst
  obtain ⟨st2, e, hst2⟩ := hnode { st with moves_evaled := (st.moves_evaled + 1) % 2 ^ 64 } hst
  unfold moveNodeStep
  simp only [h, ne_eq, hne, not_false_eq_true, if_true, e, hbest]
  exact ⟨st2, rfl, hst2⟩

/-- The move node from its four directions. -/
theorem NodeRes.move (f : EvalState → Nat → ℚ → Option (ℚ × EvalState)) (d D : Int)
    (b : Nat) (cp : ℚ) (E0 E1 E2 E3 E4 : List (Nat × (Int × ℚ))) (b1 b2 b3 b4 : ℚ)
    (h0 : StepRes f (d + 1) D b cp 0 0 E0 b1 E1) (h1 : StepRes f (d + 1) D b cp 1 b1 E1 b2 E2)
    (h2 : StepRes f (d + 1) D b cp 2 b2 E2 b3 E3) (h3 : StepRes f (d + 1) D b cp 3 b3 E3 b4 E4)
    (best : ℚ) (hbest : b4 = best) :
    NodeRes (scoreMoveNodeWith f) d D E0 b cp best E4 := by
  subst hbest
  intro st hst
  have hst0 : At (d + 1) D E0 { st with curdepth := st.curdepth + 1 } :=
    ⟨by simp [hst.1], hst.2.1, hst.2.2⟩
  obtain ⟨s1, e1, hs1⟩ := h0 _ hst0
  obtain ⟨s2, e2, hs2⟩ := h1 _ hs1
  obtain ⟨s3, e3, hs3⟩ := h2 _ hs2
  obtain ⟨s4, e4, hs4⟩ := h3 _ hs3
  unfold scoreMoveNodeWith
  simp only [List.foldl_cons, List.foldl_nil, e1, e2, e3, e4]
  exact ⟨_, rfl, by simp [hs4.1], hs4.2.1, hs4.2.2⟩

theorem FoldRes.nil (F : FloatEnv) (g : EvalState → Nat → ℚ → Option (ℚ × EvalState))
    (d D : Int) (b : Nat) (cp res : ℚ) (E : List (Nat × (Int × ℚ))) :
    FoldRes F g d D b cp [] res E res E :=
  fun st hst => ⟨st, rfl, hst⟩

/-- One empty cell: the spawn of a 2 and the spawn of a 4. -/
theorem FoldRes.cons (F : FloatEnv) (g : EvalState → Nat → ℚ → Option (ℚ × EvalState))
    (d D : Int) (b : Nat) (cp : ℚ) (k : Nat) (rest : List Nat) (res : ℚ)
    (E E1 E2 E3 : List (Nat × (Int × ℚ))) (nb2 nb4 : Nat) (c2 c4 v2 v4 res2 r : ℚ)
    (hb2 : b ||| 2 ^ (4 * k) % 2 ^ 64 = nb2) (hb4 : b ||| shl64 (2 ^ (4 * k) % 2 ^ 64) 1 = nb4)
    (hc2 : F.fmul cp (F.rnd32 (9 / 10)) = c2) (hc4 : F.fmul cp (F.rnd32 (1 / 10)) = c4)
    (h2 : NodeRes g d D E nb2 c2 v2 E1) (h4 : NodeRes g d D E1 nb4 c4 v4 E2)
    (hres : F.fadd (F.fadd res (F.fmul v2 (F.rnd32 (9 / 10)))) (F.fmul v4 (F.rnd32 (1 / 10))) =
      res2)
    (hrest : FoldRes F g d D b cp rest res2 E2 r E3) :
    FoldRes F g d D b cp (k :: rest) res E r E3 := by
  intro st hst
  obtain ⟨s2, e2, hs2⟩ := h2 st hst
  obtain ⟨s4, e4, hs4⟩ := h4 s2 hs2
  obtain ⟨s5, e5, hs5⟩ := hrest s4 hs4
  rw [List.foldl_cons, spawnStep]
  simp only [hb2, hb4, hc2, hc4, e2, e4, hres]
  exact ⟨s5, e5, hs5⟩

/-- A leaf returns the static heuristic. -/
theorem NodeRes.leaf (cache : Bool) (F : FloatEnv) (fuel : Nat) (d D : Int)
    (E : List (Nat × (Int × ℚ))) (b : Nat) (cp v : ℚ)
    (hleaf : cp < CPROB_THRESH_BASE F ∨ d ≥ D) (hv : scoreHeurBoard F b = v) :
    NodeRes (tileNodeOn cache F (fuel + 1)) d D E b cp v E := by
  intro st hst
  rw [tileNodeOn, if_pos (by rw [hst.1, hst.2.1]; exact hleaf), hv]
  exact ⟨_, rfl, hst⟩

theorem lookupIf_hit (d D : Int) (E : List (Nat × (Int × ℚ))) (st : EvalState) (b : Nat)
    (d2 : Int) (v : ℚ) (hst : At d D E st) (hd : d < 15) (hl : E.lookup b = some (d2, v))
    (hle : d2 ≤ d) : lookupIf true st b = some v := by
  unfold lookupIf cacheLookup CACHE_DEPTH_LIMIT
  rw [if_pos rfl, if_pos (by rw [hst.1]; exact hd), hst.2.2 b, hl]
  simp only
  rw [if_pos (by rw [hst.1]; exact hle)]

theorem lookupIf_miss (cache : Bool) (d D : Int) (E : List (Nat × (Int × ℚ)))
    (st : EvalState) (b : Nat) (hst : At d D E st)
    (hmiss : cache = false ∨ E.lookup b = none ∨
      ∃ d2 v2, E.lookup b = some (d2, v2) ∧ d < d2) :
    lookupIf cache st b = none := by
  unfold lookupIf
  rcases hmiss with h | h | ⟨d2, v2, h, hlt⟩
  · rw [h]
    rfl
  · cases cache
    · rfl
    · rw [if_pos rfl]
      unfold cacheLookup
      rw [hst.2.2 b, h]
      simp
  · cases cache
    · rfl
    · rw [if_pos rfl]
      unfold cacheLookup
      rw [hst.2.2 b, h, hst.1]
      simp only
      split_ifs with h1 h2
      · exact absurd h2 (not_le.2 hlt)
      · rfl
      · rfl

/-- A cache hit returns the value of the entry. -/
theorem NodeRes.hit (F : FloatEnv) (fuel : Nat) (d D : Int) (E : List (Nat × (Int × ℚ)))
    (b : Nat) (cp : ℚ) (d2 : Int) (v : ℚ)
    (hnl : ¬ (cp < CPROB_THRESH_BASE F ∨ d ≥ D)) (hd : d < 15)
    (hl : E.lookup b = some (d2, v)) (hle : d2 ≤ d) :
    NodeRes (tileNodeOn true F (fuel + 1)) d D E b cp v E := by
  intro st hst
  rw [tileNodeOn, if_neg (by rw [hst.1, hst.2.1]; exact hnl),
    lookupIf_hit d D E st b d2 v hst hd hl hle]
  exact ⟨_, rfl, hst⟩

/-- A board without an empty cell below the leaves: the value is 0. -/
theorem NodeRes.zero (cache : Bool) (F : FloatEnv) (fuel : Nat) (d D : Int)
    (E : List (Nat × (Int × ℚ))) (b : Nat) (cp : ℚ)
    (hnl : ¬ (cp < CPROB_THRESH_BASE F ∨ d ≥ D))
    (hmiss : cache = false ∨ E.lookup b = none ∨
      ∃ d2 v2, E.lookup b = some (d2, v2) ∧ d < d2)
    (hz : countEmpty b = 0) :
    NodeRes (tileNodeOn cache F (fuel + 1)) d D E b cp 0 E := by
  intro st hst
  rw [tileNodeOn, if_neg (by rw [hst.1, hst.2.1]; exact hnl),
    lookupIf_miss cache d D E st b hst hmiss]
  simp only [hz, if_true]
  exact ⟨_, rfl, hst⟩

/-- The average over the spawns, with the cache bypassed. -/
theorem NodeRes.expand_off (F : FloatEnv) (fuel : Nat) (d D : Int)
    (E E1 : List (Nat × (Int × ℚ))) (b : Nat) (cp : ℚ) (n : Nat) (cells : List Nat)
    (cp2 r v : ℚ)
    (hnl : ¬ (cp < CPROB_THRESH_BASE F ∨ d ≥ D)) (hn : countEmpty b = n) (hn0 : n ≠ 0)
    (hcells : (List.range 16).filter (fun i => decide (cell b i = 0)) = cells)
    (hcp : F.fdiv cp n = cp2)
    (hfold : FoldRes F (scoreMoveNodeWith (tileNodeOn false F fuel)) d D b cp2 cells 0 E r E1)
    (hv : F.fdiv r n = v) :
    NodeRes (tileNodeOn false F (fuel + 1)) d D E b cp v E1 := by
  intro st hst
  obtain ⟨st2, e, hst2⟩ := hfold st hst
  rw [tileNodeOn, if_neg (by rw [hst.1, hst.2.1]; exact hnl),
    lookupIf_miss false d D E st b hst (Or.inl rfl)]
  simp only [hn, hn0, if_false]
  rw [← hn, tileLoop_empty_cells F _ b _ st (by rw [hn]; exact hn0), hcells, hn, hcp, e]
  simp only [hv, storeIf]
  exact ⟨st2, rfl, hst2⟩

/-- The average over the spawns, stored in the cache. -/
theorem NodeRes.expand_on (F : FloatEnv) (fuel : Nat) (d D : Int)
    (E E1 : List (Nat × (Int × ℚ))) (b : Nat) (cp : ℚ) (n : Nat) (cells : List Nat)
    (cp2 r v : ℚ)
    (hnl : ¬ (cp < CPROB_THRESH_BASE F ∨ d ≥ D)) (hd : d < 15)
    (hmiss : E.lookup b = none ∨ ∃ d2 v2, E.lookup b = some (d2, v2) ∧ d < d2)
    (hn : countEmpty b = n) (hn0 : n ≠ 0)
    (hcells : (List.range 16).filter (fun i => decide (cell b i = 0)) = cells)
    (hcp : F.fdiv cp n = cp2)
    (hfold : FoldRes F (scoreMoveNodeWith (tileNodeOn true F fuel)) d D b cp2 cells 0 E r E1)
    (hv : F.fdiv r n = v) :
    NodeRes (tileNodeOn true F (fuel + 1)) d D E b cp v ((b, (d, v)) :: E1) := by
  intro st hst
  obtain ⟨st2, e, hst2⟩ := hfold st hst
  rw [tileNodeOn, if_neg (by rw [hst.1, hst.2.1]; exact hnl),
    lookupIf_miss true d D E st b hst (Or.inr hmiss)]
  simp only [hn, hn0, if_false]
  rw [← hn, tileLoop_empty_cells F _ b _ st (by rw [hn]; exact hn0), hcells, hn, hcp, e]
  simp only [hv, storeIf, if_true]
  exact ⟨_, rfl, hst2.store hd b v⟩

/-- A top-level move that leaves the board scores 0 and leaves the table. -/
theorem topLevelOn_unchanged (cache : Bool) (F : FloatEnv) (board : Nat) (move : Int)
    (E : List (Nat × (Int × ℚ))) (h : executeMove move board = board) :
    ∀ t : Nat → Option (Int × ℚ), (∀ x, t x = E.lookup x) →
      ∃ t2 hits, topLevelOn cache F t board move = some (0, t2, hits) ∧
        ∀ x, t2 x = E.lookup x := by
  intro t ht
  unfold topLevelOn
  simp only [h, if_true]
  exact ⟨t, 0, rfl, ht⟩

/-- A top-level move that changes the board: the value of the chance node
at depth 0 plus `1e-6`. -/
theorem topLevelOn_changed (cache : Bool) (F : FloatEnv) (board : Nat) (move : Int)
    (E E2 : List (Nat × (Int × ℚ))) (nb : Nat) (k D : Int) (fuel : Nat) (v s : ℚ)
    (h : executeMove move board = nb) (hne : board ≠ nb)
    (hk : countDistinctTiles board = some k) (hD : max 3 (k - 2) = D)
    (hfuel : D.toNat + 1 = fuel) (hnode : NodeRes (tileNodeOn cache F fuel) 0 D E nb 1 v E2)
    (hs : F.rnd32 (F.rnd64 (v + F.rnd64 (1 / 1000000))) = s) :
    ∀ t : Nat → Option (Int × ℚ), (∀ x, t x = E.lookup x) →
      ∃ t2 hits, topLevelOn cache F t board move = some (s, t2, hits) ∧
        ∀ x, t2 x = E2.lookup x := by
  intro t ht
  obtain ⟨st2, e, hst2⟩ := hnode
    { transTable := t, maxdepth := 0, curdepth := 0, cachehits := 0, moves_evaled := 0,
      depth_limit := D } ⟨rfl, rfl, ht⟩
  unfold topLevelOn
  simp only [h, hne, if_false, hk, hD, hfuel, e, hs]
  exact ⟨_, _, rfl, hst2.2.2⟩

/-- The four scores from the four top-level moves. -/
theorem allMovesOn_scores (cache : Bool) (F : FloatEnv) (grid : List (List Int)) (board : Nat)
    (E1 E2 E3 E4 : List (Nat × (Int × ℚ))) (s0 s1 s2 s3 : ℚ)
    (hb : convertToBitboard grid = board)
    (h0 : ∀ t : Nat → Option (Int × ℚ), (∀ x, t x = ([] : List (Nat × (Int × ℚ))).lookup x) →
      ∃ t2 hits, topLevelOn cache F t board 0 = some (s0, t2, hits) ∧ ∀ x, t2 x = E1.lookup x)
    (h1 : ∀ t : Nat → Option (Int × ℚ), (∀ x, t x = E1.lookup x) →
      ∃ t2 hits, topLevelOn cache F t board 1 = some (s1, t2, hits) ∧ ∀ x, t2 x = E2.lookup x)
    (h2 : ∀ t : Nat → Option (Int × ℚ), (∀ x, t x = E2.lookup x) →
      ∃ t2 hits, topLevelOn cache F t board 2 = some (s2, t2, hits) ∧ ∀ x, t2 x = E3.lookup x)
    (h3 : ∀ t : Nat → Option (Int × ℚ), (∀ x, t x = E3.lookup x) →
      ∃ t2 hits, topLevelOn cache F t board 3 = some (s3, t2, hits) ∧ ∀ x, t2 x = E4.lookup x) :
    (allMovesOn cache F grid).map Prod.fst = some [s0, s1, s2, s3] := by
  obtain ⟨t1, n1, e1, ht1⟩ := h0 (fun _ => none) (fun _ => rfl)
  obtain ⟨t2, n2, e2, ht2⟩ := h1 t1 ht1
  obtain ⟨t3, n3, e3, ht3⟩ := h2 t2 ht2
  obtain ⟨t4, n4, e4, -⟩ := h3 t3 ht3
  have c0 : (((0 : Nat) : Int)) = 0 := rfl
  have c1 : (((1 : Nat) : Int)) = 1 := rfl
  have c2 : (((2 : Nat) : Int)) = 2 := rfl
  have c3 : (((3 : Nat) : Int)) = 3 := rfl
  unfold allMovesOn
  simp only [hb, List.foldl_cons, List.foldl_nil, allMovesStepOn, c0, c1, c2, c3, e1, e2, e3, e4]
  rfl

/-! ## Without a cache hit the cache is transparent -/

/-- One iteration of the move node never lowers the hit counter, if the
chance node never does. -/
theorem moveNodeStep_hits_mono (f : EvalState → Nat → ℚ → Option (ℚ × EvalState))
    (hf : ∀ st b cp v st2, f st b cp = some (v, st2) → st.cachehits ≤ st2.cachehits)
    (board : Nat) (cprob best : ℚ) (st : EvalState) (move : Int) (best2 : ℚ)
    (st2 : EvalState)
    (h : moveNodeStep f board cprob (some (best, st)) move = some (best2, st2)) :
    st.cachehits ≤ st2.cachehits := by
  unfold moveNodeStep at h
  simp only at h
  split_ifs at h with hne
  · cases hr : f { st with moves_evaled := (st.moves_evaled + 1) % 2 ^ 64 }
      (executeMove move board) cprob with
    | none => rw [hr] at h; exact absurd h (by simp)
    | some r =>
      obtain ⟨v, s⟩ := r
      rw [hr] at h
      simp only [Option.some.injEq, Prod.mk.injEq] at h
      rw [← h.2]
      have hle := hf _ _ _ _ _ hr
      exact hle
  · simp only [Option.some.injEq, Prod.mk.injEq] at h
    rw [← h.2]

/-- One iteration of the move node of the run with the cache, when it counts
no hit, is matched by the run without the cache. -/
theorem moveNodeStep_sim (fc fu : EvalState → Nat → ℚ → Option (ℚ × EvalState))
    (hsim : ∀ sc su b cp v sc2, SameButTable sc su → fc sc b cp = some (v, sc2) →
      sc2.cachehits = sc.cachehits → ∃ su2, fu su b cp = some (v, su2) ∧ SameButTable sc2 su2)
    (board : Nat) (cprob best : ℚ) (sc su : EvalState) (move : Int) (best2 : ℚ)
    (sc2 : EvalState) (hs : SameButTable sc su)
    (h : moveNodeStep fc board cprob (some (best, sc)) move = some (best2, sc2))
    (hhits : sc2.cachehits = sc.cachehits) :
    ∃ su2, moveNodeStep fu board cprob (some (best, su)) move = some (best2, su2) ∧
      SameButTable sc2 su2 := by
  have hs2 : SameButTable { sc with moves_evaled := (sc.moves_evaled + 1) % 2 ^ 64 }
      { su with moves_evaled := (su.moves_evaled + 1) % 2 ^ 64 } :=
    ⟨hs.1, hs.2.1, hs.2.2.1, by simp only [hs.2.2.2.1], hs.2.2.2.2⟩
  unfold moveNodeStep at h ⊢
  simp only at h ⊢
  split_ifs at h ⊢ with hne
  · cases hr : fc { sc with moves_evaled := (sc.moves_evaled + 1) % 2 ^ 64 }
      (executeMove move board) cprob with
    | none => rw [hr] at h; exact absurd h (by simp)
    | some r =>
      obtain ⟨v, s⟩ := r
      rw [hr] at h
      simp only [Option.some.injEq, Prod.mk.injEq] at h
      obtain ⟨su2, e, hs3⟩ := hsim _ _ _ _ _ _ hs2 hr (by rw [h.2]; exact hhits)
      rw [e]
      exact ⟨su2, by simp only [h.1], h.2 ▸ hs3⟩
  · simp only [Option.some.injEq, Prod.mk.injEq] at h
    exact ⟨_, by rw [h.1], h.2 ▸ hs2⟩

theorem moveNodeStep_none (f : EvalState → Nat → ℚ → Option (ℚ × EvalState)) (board : Nat)
    (cprob : ℚ) (move : Int) : moveNodeStep f board cprob none move = none := rfl

/-- The four iterations of a move node that returns. -/
theorem moveNode_steps (f : EvalState → Nat → ℚ → Option (ℚ × EvalState)) (board : Nat)
    (cprob : ℚ) (st : EvalState) (v : ℚ) (st2 : EvalState)
    (h : scoreMoveNodeWith f st board cprob = some (v, st2)) :
    ∃ r1 r2 r3 r4 : ℚ × EvalState,
      moveNodeStep f board cprob (some (0, { st with curdepth := st.curdepth + 1 })) 0 =
        some r1 ∧
      moveNodeStep f board cprob (some r1) 1 = some r2 ∧
      moveNodeStep f board cprob (some r2) 2 = some r3 ∧
      moveNodeStep f board cprob (some r3) 3 = some r4 ∧
      v = r4.1 ∧ st2 = { r4.2 with curdepth := r4.2.curdepth - 1 } := by
  unfold scoreMoveNodeWith at h
  simp only [List.foldl_cons, List.foldl_nil] at h
  cases h1 : moveNodeStep f board cprob (some (0, { st with curdepth := st.curdepth + 1 })) 0 with
  | none => rw [h1] at h; simp [moveNodeStep_none] at h
  | some r1 =>
    rw [h1] at h
    cases h2 : moveNodeStep f board cprob (some r1) 1 with
    | none => rw [h2] at h; simp [moveNodeStep_none] at h
    | some r2 =>
      rw [h2] at h
      cases h3 : moveNodeStep f board cprob (some r2) 2 with
      | none => rw [h3] at h; simp [moveNodeStep_none] at h
      | some r3 =>
        rw [h3] at h
        cases h4 : moveNodeStep f board cprob (some r3) 3 with
        | none => rw [h4] at h; simp at h
        | some r4 =>
          rw [h4] at h
          simp only [Option.some.injEq, Prod.mk.injEq] at h
          exact ⟨r1, r2, r3, r4, rfl, h2, h3, h4, h.1.symm, h.2.symm⟩

/-- The move node never lowers the hit counter, if the chance node never
does. -/
theorem moveNode_hits_mono (f : EvalState → Nat → ℚ → Option (ℚ × EvalState))
    (hf : ∀ st b cp v st2, f st b cp = some (v, st2) → st.cachehits ≤ st2.cachehits)
    (st : EvalState) (board : Nat) (cprob v : ℚ) (st2 : EvalState)
    (h : scoreMoveNodeWith f st board cprob = some (v, st2)) :
    st.cachehits ≤ st2.cachehits := by
  obtain ⟨⟨b1, s1⟩, ⟨b2, s2⟩, ⟨b3, s3⟩, ⟨b4, s4⟩, e1, e2, e3, e4, -, hst⟩ :=
    moveNode_steps f board cprob st v st2 h
  have m1 := moveNodeStep_hits_mono f hf board cprob 0 _ 0 b1 s1 e1
  have m2 := moveNodeStep_hits_mono f hf board cprob b1 s1 1 b2 s2 e2
  have m3 := moveNodeStep_hits_mono f hf board cprob b2 s2 2 b3 s3 e3
  have m4 := moveNodeStep_hits_mono f hf board cprob b3 s3 3 b4 s4 e4
  rw [hst]
  exact le_trans (le_trans (le_trans m1 m2) m3) m4

/-- The move node of the run with the cache, when it counts no hit, is
matched by the run without the cache. -/
theorem moveNode_sim (fc fu : EvalState → Nat → ℚ → Option (ℚ × EvalState))
    (hmono : ∀ st b cp v st2, fc st b cp = some (v, st2) → st.cachehits ≤ st2.cachehits)
    (hsim : ∀ sc su b cp v sc2, SameButTable sc su → fc sc b cp = some (v, sc2) →
      sc2.cachehits = sc.cachehits → ∃ su2, fu su b cp = some (v, su2) ∧ SameButTable sc2 su2)
    (sc su : EvalState) (board : Nat) (cprob v : ℚ) (sc2 : EvalState)
    (hs : SameButTable sc su) (h : scoreMoveNodeWith fc sc board cprob = some (v, sc2))
    (hhits : sc2.cachehits = sc.cachehits) :
    ∃ su2, scoreMoveNodeWith fu su board cprob = some (v, su2) ∧ SameButTable sc2 su2 := by
  obtain ⟨⟨b1, s1⟩, ⟨b2, s2⟩, ⟨b3, s3⟩, ⟨b4, s4⟩, e1, e2, e3, e4, hv, hst⟩ :=
    moveNode_steps fc board cprob sc v sc2 h
  have m1 := moveNodeStep_hits_mono fc hmono board cprob 0 _ 0 b1 s1 e1
  have m2 := moveNodeStep_hits_mono fc hmono board cprob b1 s1 1 b2 s2 e2
  have m3 := moveNodeStep_hits_mono fc hmono board cprob b2 s2 2 b3 s3 e3
  have m4 := moveNodeStep_hits_mono fc hmono board cprob b3 s3 3 b4 s4 e4
  have h4 : s4.cachehits = sc.cachehits := by rw [← hhits, hst]
  simp only at m1
  have hs0 : SameButTable { sc with curdepth := sc.curdepth + 1 }
      { su with curdepth := su.curdepth + 1 } :=
    ⟨hs.1, by simp only [hs.2.1], hs.2.2.1, hs.2.2.2.1, hs.2.2.2.2⟩
  obtain ⟨u1, f1, hs1⟩ := moveNodeStep_sim fc fu hsim board cprob 0 _ _ 0 b1 s1 hs0 e1
    (by simp only; omega)
  obtain ⟨u2, f2, hs2⟩ := moveNodeStep_sim fc fu hsim board cprob b1 s1 u1 1 b2 s2 hs1 e2
    (by omega)
  obtain ⟨u3, f3, hs3⟩ := moveNodeStep_sim fc fu hsim board cprob b2 s2 u2 2 b3 s3 hs2 e3
    (by omega)
  obtain ⟨u4, f4, hs4⟩ := moveNodeStep_sim fc fu hsim board cprob b3 s3 u3 3 b4 s4 hs3 e4
    (by omega)
  unfold scoreMoveNodeWith
  simp only [List.foldl_cons, List.foldl_nil, f1, f2, f3, f4]
  refine ⟨_, by rw [hv], ?_⟩
  rw [hst]
  exact ⟨hs4.1, by simp only [hs4.2.1], hs4.2.2.1, hs4.2.2.2.1, hs4.2.2.2.2⟩

/-- The spawn loop never lowers the hit counter, if the move node never
does. -/
theorem tileLoop_hits_mono (F : FloatEnv) (g : EvalState → Nat → ℚ → Option (ℚ × EvalState))
    (hg : ∀ st b cp v st2, g st b cp = some (v, st2) → st.cachehits ≤ st2.cachehits)
    (board : Nat) (cprob : ℚ) (num_open : Nat) (fuel : Nat) :
    ∀ (st : EvalState) (res : ℚ) (tmp tile_2 count : Nat) (r : ℚ) (st2 : EvalState),
      tileLoop F g board cprob num_open fuel st res tmp tile_2 count = some (r, st2) →
      st.cachehits ≤ st2.cachehits := by
  induction fuel with
  | zero =>
    intro st res tmp tile_2 count r st2 h
    rw [tileLoop] at h
    exact absurd h (by simp)
  | succ fuel ih =>
    intro st res tmp tile_2 count r st2 h
    rw [tileLoop] at h
    split_ifs at h with hcond hcell
    · cases h2 : g st (board ||| tile_2) (F.fmul cprob (F.rnd32 (9 / 10))) with
      | none => rw [h2] at h; exact absurd h (by simp)
      | some r2 =>
        obtain ⟨v2, s2⟩ := r2
        rw [h2] at h
        simp only at h
        cases h4 : g s2 (board ||| shl64 tile_2 1) (F.fmul cprob (F.rnd32 (1 / 10))) with
        | none => rw [h4] at h; exact absurd h (by simp)
        | some r4 =>
          obtain ⟨v4, s4⟩ := r4
          rw [h4] at h
          simp only at h
          exact le_trans (le_trans (hg _ _ _ _ _ h2) (hg _ _ _ _ _ h4)) (ih _ _ _ _ _ _ _ h)
    · exact ih _ _ _ _ _ _ _ h
    · simp only [Option.some.injEq, Prod.mk.injEq] at h
      rw [h.2]

/-- The spawn loop of the run with the cache, when it counts no hit, is
matched by the run without the cache. -/
theorem tileLoop_sim (F : FloatEnv) (gc gu : EvalState → Nat → ℚ → Option (ℚ × EvalState))
    (hmono : ∀ st b cp v st2, gc st b cp = some (v, st2) → st.cachehits ≤ st2.cachehits)
    (hsim : ∀ sc su b cp v sc2, SameButTable sc su → gc sc b cp = some (v, sc2) →
      sc2.cachehits = sc.cachehits → ∃ su2, gu su b cp = some (v, su2) ∧ SameButTable sc2 su2)
    (board : Nat) (cprob : ℚ) (num_open : Nat) (fuel : Nat) :
    ∀ (sc su : EvalState) (res : ℚ) (tmp tile_2 count : Nat) (r : ℚ) (sc2 : EvalState),
      SameButTable sc su →
      tileLoop F gc board cprob num_open fuel sc res tmp tile_2 count = some (r, sc2) →
      sc2.cachehits = sc.cachehits →
      ∃ su2, tileLoop F gu board cprob num_open fuel su res tmp tile_2 count = some (r, su2) ∧
        SameButTable sc2 su2 := by
  induction fuel with
  | zero =>
    intro sc su res tmp tile_2 count r sc2 _ h
    rw [tileLoop] at h
    exact absurd h (by simp)
  | succ fuel ih =>
    intro sc su res tmp tile_2 count r sc2 hs h hhits
    rw [tileLoop] at h ⊢
    split_ifs at h ⊢ with hcond hcell
    · cases h2 : gc sc (board ||| tile_2) (F.fmul cprob (F.rnd32 (9 / 10))) with
      | none => rw [h2] at h; exact absurd h (by simp)
      | some r2 =>
        obtain ⟨v2, s2⟩ := r2
        rw [h2] at h
        simp only at h
        cases h4 : gc s2 (board ||| shl64 tile_2 1) (F.fmul cprob (F.rnd32 (1 / 10))) with
        | none => rw [h4] at h; exact absurd h (by simp)
        | some r4 =>
          obtain ⟨v4, s4⟩ := r4
          rw [h4] at h
          simp only at h
          have m2 := hmono _ _ _ _ _ h2
          have m4 := hmono _ _ _ _ _ h4
          have m5 := tileLoop_hits_mono F gc hmono board cprob num_open fuel _ _ _ _ _ _ _ h
          obtain ⟨u2, e2, hs2⟩ := hsim _ _ _ _ _ _ hs h2 (by omega)
          obtain ⟨u4, e4, hs4⟩ := hsim _ _ _ _ _ _ hs2 h4 (by omega)
          rw [e2]
          simp only
          rw [e4]
          simp only
          exact ih _ _ _ _ _ _ _ _ hs4 h (by omega)
    · exact ih _ _ _ _ _ _ _ _ hs h hhits
    · simp only [Option.some.injEq, Prod.mk.injEq] at h
      exact ⟨su, by rw [h.1], h.2 ▸ hs⟩

theorem cacheStore_hits (state : EvalState) (board : Nat) (res : ℚ) :
    SameButTable (cacheStore state board res) state := by
  unfold cacheStore
  split_ifs <;> exact ⟨rfl, rfl, rfl, rfl, rfl⟩

/-- The chance node with the cache never lowers the hit counter. -/
theorem tileNodeOn_hits_mono (F : FloatEnv) (fuel : Nat) :
    ∀ (st : EvalState) (b : Nat) (cp v : ℚ) (st2 : EvalState),
      tileNodeOn true F fuel st b cp = some (v, st2) → st.cachehits ≤ st2.cachehits := by
  induction fuel with
  | zero =>
    intro st b cp v st2 h
    rw [tileNodeOn] at h
    exact absurd h (by simp)
  | succ fuel ih =>
    intro st b cp v st2 h
    rw [tileNodeOn] at h
    split_ifs at h with hleaf
    · simp only [Option.some.injEq, Prod.mk.injEq] at h
      rw [← h.2]
    · cases hl : lookupIf true st b with
      | some w =>
        rw [hl] at h
        simp only [Option.some.injEq, Prod.mk.injEq] at h
        rw [← h.2]
        simp only
        omega
      | none =>
        rw [hl] at h
        simp only at h
        split_ifs at h with hopen
        · simp only [Option.some.injEq, Prod.mk.injEq] at h
          rw [← h.2]
        · cases ht : tileLoop F (scoreMoveNodeWith (tileNodeOn true F fuel)) b
            (F.fdiv cp (countEmpty b)) (countEmpty b) 17 st 0 b 1 0 with
          | none => rw [ht] at h; exact absurd h (by simp)
          | some r =>
            obtain ⟨res, s⟩ := r
            rw [ht] at h
            simp only [Option.some.injEq, Prod.mk.injEq, storeIf, if_true] at h
            rw [← h.2, (cacheStore_hits s b _).2.2.1]
            exact tileLoop_hits_mono F _
              (fun st b cp v st2 h => moveNode_hits_mono _ ih st b cp v st2 h) b _ _ 17 _ _ _ _ _
              _ _ ht

/-- The chance node with the cache, when it counts no hit, is matched by the
chance node without the cache: same value, same state but for the table. -/
theorem tileNodeOn_sim (F : FloatEnv) (fuel : Nat) :
    ∀ (sc su : EvalState) (b : Nat) (cp v : ℚ) (sc2 : EvalState), SameButTable sc su →
      tileNodeOn true F fuel sc b cp = some (v, sc2) → sc2.cachehits = sc.cachehits →
      ∃ su2, tileNodeOn false F fuel su b cp = some (v, su2) ∧ SameButTable sc2 su2 := by
  induction fuel with
  | zero =>
    intro sc su b cp v sc2 _ h
    rw [tileNodeOn] at h
    exact absurd h (by simp)
  | succ fuel ih =>
    intro sc su b cp v sc2 hs h hhits
    rw [tileNodeOn] at h ⊢
    rw [← hs.2.1, ← hs.2.2.2.2]
    split_ifs at h ⊢ with hleaf
    · simp only [Option.some.injEq, Prod.mk.injEq] at h
      refine ⟨_, by rw [h.1], ?_⟩
      rw [← h.2]
      exact ⟨by simp only [hs.1], rfl, hs.2.2.1, hs.2.2.2.1, rfl⟩
    · cases hl : lookupIf true sc b with
      | some w =>
        rw [hl] at h
        simp only [Option.some.injEq, Prod.mk.injEq] at h
        rw [← h.2] at hhits
        simp only at hhits
        omega
      | none =>
        rw [hl] at h
        simp only [lookupIf, Bool.false_eq_true, if_false] at h ⊢
        split_ifs at h ⊢ with hopen
        · simp only [Option.some.injEq, Prod.mk.injEq] at h
          exact ⟨su, by rw [h.1], h.2 ▸ hs⟩
        · cases ht : tileLoop F (scoreMoveNodeWith (tileNodeOn true F fuel)) b
            (F.fdiv cp (countEmpty b)) (countEmpty b) 17 sc 0 b 1 0 with
          | none => rw [ht] at h; exact absurd h (by simp)
          | some r =>
            obtain ⟨res, s⟩ := r
            rw [ht] at h
            simp only [Option.some.injEq, Prod.mk.injEq, storeIf, if_true] at h
            have hst := cacheStore_hits s b (F.fdiv res (countEmpty b))
            rw [h.2] at hst
            obtain ⟨u, e, hsu⟩ := tileLoop_sim F (scoreMoveNodeWith (tileNodeOn true F fuel))
              (scoreMoveNodeWith (tileNodeOn false F fuel))
              (fun st b cp v st2 h => moveNode_hits_mono _ (tileNodeOn_hits_mono F fuel) st b cp
                v st2 h)
              (fun sc su b cp v sc2 hs h hh => moveNode_sim _ _ (tileNodeOn_hits_mono F fuel) ih
                sc su b cp v sc2 hs h hh)
              b _ _ 17 sc su 0 b 1 0 res s hs ht (by rw [← hhits, hst.2.2.1])
            rw [e]
            simp only [storeIf, Bool.false_eq_true, if_false]
            refine ⟨u, by rw [h.1], ?_⟩
            exact ⟨hst.1.trans hsu.1, hst.2.1.trans hsu.2.1, hst.2.2.1.trans hsu.2.2.1,
              hst.2.2.2.1.trans hsu.2.2.2.1, hst.2.2.2.2.trans hsu.2.2.2.2⟩

/-- A top-level move with the cache: its hit count is not negative, and if
it is 0 the move without the cache has the same score, from any table. -/
theorem topLevelOn_sim (F : FloatEnv) (t : Nat → Option (Int × ℚ)) (board : Nat) (move : Int)
    (s : ℚ) (t2 : Nat → Option (Int × ℚ)) (hits : Int)
    (h : topLevelOn true F t board move = some (s, t2, hits)) :
    0 ≤ hits ∧ (hits = 0 → ∀ u : Nat → Option (Int × ℚ),
      ∃ u2, topLevelOn false F u board move = some (s, u2, 0)) := by
  unfold topLevelOn at h ⊢
  simp only at h ⊢
  split_ifs at h ⊢ with hsame
  · simp only [Option.some.injEq, Prod.mk.injEq] at h
    exact ⟨le_of_eq h.2.2, fun _ u => ⟨u, by rw [h.1]⟩⟩
  · cases hd : countDistinctTiles board with
    | none => rw [hd] at h; exact absurd h (by simp)
    | some k =>
      rw [hd] at h
      simp only at h ⊢
      cases hn : tileNodeOn true F ((max 3 (k - 2)).toNat + 1)
        { transTable := t, maxdepth := 0, curdepth := 0, cachehits := 0, moves_evaled := 0,
          depth_limit := max 3 (k - 2) } (executeMove move board) 1 with
      | none => rw [hn] at h; exact absurd h (by simp)
      | some r =>
        obtain ⟨v, st⟩ := r
        rw [hn] at h
        simp only [Option.some.injEq, Prod.mk.injEq] at h
        have hmono := tileNodeOn_hits_mono F _ _ _ _ _ _ hn
        simp only at hmono
        refine ⟨by rw [← h.2.2]; exact hmono, fun h0 u => ?_⟩
        obtain ⟨su, e, hsu⟩ := tileNodeOn_sim F _
          { transTable := t, maxdepth := 0, curdepth := 0, cachehits := 0, moves_evaled := 0,
            depth_limit := max 3 (k - 2) }
          { transTable := u, maxdepth := 0, curdepth := 0, cachehits := 0, moves_evaled := 0,
            depth_limit := max 3 (k - 2) } _ _ _ _ ⟨rfl, rfl, rfl, rfl, rfl⟩ hn
          (by rw [h.2.2, h0])
        rw [e]
        simp only
        refine ⟨su.transTable, ?_⟩
        rw [h.1, ← hsu.2.2.1, h.2.2, h0]

/-- One iteration of `evaluateAllMoves` with the cache: the hit count does
not fall, and if it stays the iteration without the cache has the same
score. -/
theorem allMovesStepOn_sim (F : FloatEnv) (board : Nat) (scores : List ℚ)
    (t : Nat → Option (Int × ℚ)) (n : Int) (move : Nat)
    (r : List ℚ × (Nat → Option (Int × ℚ)) × Int)
    (h : allMovesStepOn true F board (some (scores, t, n)) move = some r) :
    n ≤ r.2.2 ∧ (r.2.2 = n → ∀ u : Nat → Option (Int × ℚ),
      ∃ u2, allMovesStepOn false F board (some (scores, u, n)) move = some (r.1, u2, n)) := by
  unfold allMovesStepOn at h ⊢
  simp only at h ⊢
  cases ht : topLevelOn true F t board move with
  | none => rw [ht] at h; exact absurd h (by simp)
  | some x =>
    obtain ⟨s, t2, k⟩ := x
    rw [ht] at h
    simp only [Option.some.injEq] at h
    obtain ⟨hk, hsim⟩ := topLevelOn_sim F t board move s t2 k ht
    rw [← h]
    simp only
    refine ⟨by omega, fun he u => ?_⟩
    obtain ⟨u2, e⟩ := hsim (by omega) u
    rw [e]
    simp only [add_zero]
    exact ⟨u2, rfl⟩

theorem allMovesStepOn_none (cache : Bool) (F : FloatEnv) (board : Nat) (move : Nat) :
    allMovesStepOn cache F board none move = none := rfl

/-- If the run with the cache counts no hit, the run with the cache bypassed
returns the same scores. -/
theorem allMovesOn_sim (F : FloatEnv) (grid : List (List Int)) (scores : List ℚ)
    (h : allMovesOn true F grid = some (scores, 0)) :
    allMovesOn false F grid = some (scores, 0) := by
  unfold allMovesOn at h ⊢
  simp only [List.foldl_cons, List.foldl_nil] at h ⊢
  cases h1 : allMovesStepOn true F (convertToBitboard grid)
      (some (List.replicate 4 0, (fun _ => none), 0)) 0 with
  | none => rw [h1] at h; simp [allMovesStepOn_none] at h
  | some r1 =>
    obtain ⟨sc1, t1, n1⟩ := r1
    rw [h1] at h
    cases h2 : allMovesStepOn true F (convertToBitboard grid) (some (sc1, t1, n1)) 1 with
    | none => rw [h2] at h; simp [allMovesStepOn_none] at h
    | some r2 =>
      obtain ⟨sc2, t2, n2⟩ := r2
      rw [h2] at h
      cases h3 : allMovesStepOn true F (convertToBitboard grid) (some (sc2, t2, n2)) 2 with
      | none => rw [h3] at h; simp [allMovesStepOn_none] at h
      | some r3 =>
        obtain ⟨sc3, t3, n3⟩ := r3
        rw [h3] at h
        cases h4 : allMovesStepOn true F (convertToBitboard grid) (some (sc3, t3, n3)) 3 with
        | none => rw [h4] at h; simp at h
        | some r4 =>
          obtain ⟨sc4, t4, n4⟩ := r4
          rw [h4] at h
          simp only [Option.some.injEq, Prod.mk.injEq] at h
          obtain ⟨m1, s1⟩ := allMovesStepOn_sim F _ _ _ _ _ _ h1
          obtain ⟨m2, s2⟩ := allMovesStepOn_sim F _ _ _ _ _ _ h2
          obtain ⟨m3, s3⟩ := allMovesStepOn_sim F _ _ _ _ _ _ h3
          obtain ⟨m4, s4⟩ := allMovesStepOn_sim F _ _ _ _ _ _ h4
          simp only at m1 m2 m3 m4 s1 s2 s3 s4
          have hn4 : n4 = 0 := h.2
          have e1 : n1 = 0 := by omega
          have e2 : n2 = 0 := by omega
          have e3 : n3 = 0 := by omega
          subst e1 e2 e3 hn4
          obtain ⟨u1, f1⟩ := s1 rfl (fun _ => none)
          obtain ⟨u2, f2⟩ := s2 rfl u1
          obtain ⟨u3, f3⟩ := s3 rfl u2
          obtain ⟨u4, f4⟩ := s4 rfl u3
          rw [f1, f2, f3, f4]
          simp only [h.1]

/-! ## The search on the grid `[[8, 32, 4, 64], [32, 4, 32, 4], [32, 16, 4, 64], [4, 4, 64, 16]]`, node by node -/

theorem executeMove_0_4622624525256253 : executeMove 0 0x4622624525256253 = 0x4620624225266253 := by
  rw [executeMove_up_closed]
  decide

theorem executeMove_0_4621624225266253 : executeMove 0 0x4621624225266253 = 0x4621624225266253 := by
  rw [executeMove_up_closed]
  decide

theorem executeMove_1_4621624225266253 : executeMove 1 0x4621624225266253 = 0x4621624225266253 := by
  rw [executeMove_down_closed]
  decide

theorem executeMove_2_4621624225266253 : executeMove 2 0x4621624225266253 = 0x4621624225266253 := by
  rw [executeMove_left_closed]
  decide

theorem executeMove_3_4621624225266253 : executeMove 3 0x4621624225266253 = 0x4621624225266253 := by
  rw [executeMove_right_closed]
  decide

theorem executeMove_0_4622624225266253 : executeMove 0 0x4622624225266253 = 0x4620624325266253 := by
  rw [executeMove_up_closed]
  decide

theorem executeMove_0_4621624325266253 : executeMove 0 0x4621624325266253 = 0x4621624325266253 := by
  rw [executeMove_up_closed]
  decide

theorem executeMove_1_4621624325266253 : executeMove 1 0x4621624325266253 = 0x4621624325266253 := by
  rw [executeMove_down_closed]
  decide

theorem executeMove_2_4621624325266253 : executeMove 2 0x4621624325266253 = 0x4621624325266253 := by
  rw [executeMove_left_closed]
  decide

theorem executeMove_3_4621624325266253 : executeMove 3 0x4621624325266253 = 0x4621624325266253 := by
  rw [executeMove_right_closed]
  decide

theorem executeMove_0_4622624325266253 : executeMove 0 0x4622624325266253 = 0x4622624325266253 := by
  rw [executeMove_up_closed]
  decide

theorem executeMove_1_4622624325266253 : executeMove 1 0x4622624325266253 = 0x4622624325266253 := by
  rw [executeMove_down_closed]
  decide

theorem executeMove_2_4622624325266253 : executeMove 2 0x4622624325266253 = 0x0463624325266253 := by
  rw [executeMove_left_closed]
  decide

theorem executeMove_0_1463624325266253 : executeMove 0 0x1463624325266253 = 0x1460624425266253 := by
  rw [executeMove_up_closed]
  decide

theorem heurRowScore_6253 : heurRowScore sumPower 0x6253 = (91109818381644107313 / 562949953421312) := by
  have h : rowCells 0x6253 = [3, 5, 2, 6] := by decide
  norm_num [heurRowScore, h, heurStep, monotonicity, monotonicityStep, sumPower]

theorem heurRowScore_2526 : heurRowScore sumPower 0x2526 = (45664675507957632337 / 281474976710656) := by
  have h : rowCells 0x2526 = [6, 2, 5, 2] := by decide
  norm_num [heurRowScore, h, heurStep, monotonicity, monotonicityStep, sumPower]

theorem heurRowScore_6244 : heurRowScore sumPower 0x6244 = (102096356742652326129 / 562949953421312) := by
  have h : rowCells 0x6244 = [4, 4, 2, 6] := by decide
  norm_num [heurRowScore, h, heurStep, monotonicity, monotonicityStep, sumPower]

theorem heurRowScore_1460 : heurRowScore sumPower 0x1460 = (1162544539190903819 / 8796093022208) := by
  have h : rowCells 0x1460 = [0, 6, 4, 1] := by decide
  norm_num [heurRowScore, h, heurStep, monotonicity, monotonicityStep, sumPower]

theorem heurRowScore_0463 : heurRowScore sumPower 0x463 = (595594863905473993 / 4398046511104) := by
  have h : rowCells 0x463 = [3, 6, 4, 0] := by decide
  norm_num [heurRowScore, h, heurStep, monotonicity, monotonicityStep, sumPower]

theorem heurRowScore_6425 : heurRowScore sumPower 0x6425 = (90606777049895840881 / 562949953421312) := by
  have h : rowCells 0x6425 = [5, 2, 4, 6] := by decide
  norm_num [heurRowScore, h, heurStep, monotonicity, monotonicityStep, sumPower]

theorem heurRowScore_4252 : heurRowScore sumPower 0x4252 = (46906539623036685297 / 281474976710656) := by
  have h : rowCells 0x4252 = [2, 5, 2, 4] := by decide
  norm_num [heurRowScore, h, heurStep, monotonicity, monotonicityStep, sumPower]

theorem heurRowScore_1626 : heurRowScore sumPower 0x1626 = (72093945939400225713 / 562949953421312) := by
  have h : rowCells 0x1626 = [6, 2, 6, 1] := by decide
  norm_num [heurRowScore, h, heurStep, monotonicity, monotonicityStep, sumPower]

theorem scoreHeurBoard_1460624425266253 : scoreHeurBoard tableEnv 0x1460624425266253 = (86461040182962456353 / 70368744177664) := by
  have ht : transpose 0x1460624425266253 = 0x1626425264250463 := by decide
  have r0 : (0x1460624425266253 >>> 0) &&& 0xFFFF = 0x6253 := by decide
  have r1 : (0x1460624425266253 >>> 16) &&& 0xFFFF = 0x2526 := by decide
  have r2 : (0x1460624425266253 >>> 32) &&& 0xFFFF = 0x6244 := by decide
  have r3 : (0x1460624425266253 >>> 48) &&& 0xFFFF = 0x1460 := by decide
  have c0 : (0x1626425264250463 >>> 0) &&& 0xFFFF = 0x0463 := by decide
  have c1 : (0x1626425264250463 >>> 16) &&& 0xFFFF = 0x6425 := by decide
  have c2 : (0x1626425264250463 >>> 32) &&& 0xFFFF = 0x4252 := by decide
  have c3 : (0x1626425264250463 >>> 48) &&& 0xFFFF = 0x1626 := by decide
  have hT : ∀ r, tableEnv.heurScoreTable r = heurRowScore sumPower r := fun _ => rfl
  unfold scoreHeurBoard scoreHelper FloatEnv.fadd
  rw [ht, r0, r1, r2, r3, c0, c1, c2, c3]
  simp only [hT, heurRowScore_0463, heurRowScore_1460, heurRowScore_1626, heurRowScore_2526, heurRowScore_4252, heurRowScore_6244, heurRowScore_6253, heurRowScore_6425]
  norm_num [tableEnv]

theorem executeMove_1_1463624325266253 : executeMove 1 0x1463624325266253 = 0x1464624625236250 := by
  rw [executeMove_down_closed]
  decide

theorem heurRowScore_6250 : heurRowScore sumPower 0x6250 = (91551407071736802417 / 562949953421312) := by
  have h : rowCells 0x6250 = [0, 5, 2, 6] := by decide
  norm_num [heurRowScore, h, heurStep, monotonicity, monotonicityStep, sumPower]

theorem heurRowScore_2523 : heurRowScore sumPower 0x2523 = (47158060288910818513 / 281474976710656) := by
  have h : rowCells 0x2523 = [3, 2, 5, 2] := by decide
  norm_num [heurRowScore, h, heurStep, monotonicity, monotonicityStep, sumPower]

theorem heurRowScore_6246 : heurRowScore sumPower 0x6246 = (71307504854470652849 / 562949953421312) := by
  have h : rowCells 0x6246 = [6, 4, 2, 6] := by decide
  norm_num [heurRowScore, h, heurStep, monotonicity, monotonicityStep, sumPower]

theorem heurRowScore_1464 : heurRowScore sumPower 0x1464 = (1253205869970801675 / 8796093022208) := by
  have h : rowCells 0x1464 = [4, 6, 4, 1] := by decide
  norm_num [heurRowScore, h, heurStep, monotonicity, monotonicityStep, sumPower]

theorem heurRowScore_4630 : heurRowScore sumPower 0x4630 = (631768796459304393 / 4398046511104) := by
  have h : rowCells 0x4630 = [0, 3, 6, 4] := by decide
  norm_num [heurRowScore, h, heurStep, monotonicity, monotonicityStep, sumPower]

theorem scoreHeurBoard_1464624625236250 : scoreHeurBoard tableEnv 0x1464624625236250 = (84345052045540099873 / 70368744177664) := by
  have ht : transpose 0x1464624625236250 = 0x1626425264254630 := by decide
  have r0 : (0x1464624625236250 >>> 0) &&& 0xFFFF = 0x6250 := by decide
  have r1 : (0x1464624625236250 >>> 16) &&& 0xFFFF = 0x2523 := by decide
  have r2 : (0x1464624625236250 >>> 32) &&& 0xFFFF = 0x6246 := by decide
  have r3 : (0x1464624625236250 >>> 48) &&& 0xFFFF = 0x1464 := by decide
  have c0 : (0x1626425264254630 >>> 0) &&& 0xFFFF = 0x4630 := by decide
  have c1 : (0x1626425264254630 >>> 16) &&& 0xFFFF = 0x6425 := by decide
  have c2 : (0x1626425264254630 >>> 32) &&& 0xFFFF = 0x4252 := by decide
  have c3 : (0x1626425264254630 >>> 48) &&& 0xFFFF = 0x1626 := by decide
  have hT : ∀ r, tableEnv.heurScoreTable r = heurRowScore sumPower r := fun _ => rfl
  unfold scoreHeurBoard scoreHelper FloatEnv.fadd
  rw [ht, r0, r1, r2, r3, c0, c1, c2, c3]
  simp only [hT, heurRowScore_1464, heurRowScore_1626, heurRowScore_2523, heurRowScore_4252, heurRowScore_4630, heurRowScore_6246, heurRowScore_6250, heurRowScore_6425]
  norm_num [tableEnv]

theorem executeMove_2_1463624325266253 : executeMove 2 0x1463624325266253 = 0x1463624325266253 := by
  rw [executeMove_left_closed]
  decide

theorem executeMove_3_1463624325266253 : executeMove 3 0x1463624325266253 = 0x1463624325266253 := by
  rw [executeMove_right_closed]
  decide

theorem executeMove_0_2463624325266253 : executeMove 0 0x2463624325266253 = 0x2460624425266253 := by
  rw [executeMove_up_closed]
  decide

theorem heurRowScore_2460 : heurRowScore sumPower 0x2460 = (74735863106469720305 / 562949953421312) := by
  have h : rowCells 0x2460 = [0, 6, 4, 2] := by decide
  norm_num [heurRowScore, h, heurStep, monotonicity, monotonicityStep, sumPower]

theorem heurRowScore_2626 : heurRowScore sumPower 0x2626 = (36015039410245038321 / 281474976710656) := by
  have h : rowCells 0x2626 = [6, 2, 6, 2] := by decide
  norm_num [heurRowScore, h, heurStep, monotonicity, monotonicityStep, sumPower]

theorem scoreHeurBoard_2460624425266253 : scoreHeurBoard tableEnv 0x2460624425266253 = (345978733471520688821 / 281474976710656) := by
  have ht : transpose 0x2460624425266253 = 0x2626425264250463 := by decide
  have r0 : (0x2460624425266253 >>> 0) &&& 0xFFFF = 0x6253 := by decide
  have r1 : (0x2460624425266253 >>> 16) &&& 0xFFFF = 0x2526 := by decide
  have r2 : (0x2460624425266253 >>> 32) &&& 0xFFFF = 0x6244 := by decide
  have r3 : (0x2460624425266253 >>> 48) &&& 0xFFFF = 0x2460 := by decide
  have c0 : (0x2626425264250463 >>> 0) &&& 0xFFFF = 0x0463 := by decide
  have c1 : (0x2626425264250463 >>> 16) &&& 0xFFFF = 0x6425 := by decide
  have c2 : (0x2626425264250463 >>> 32) &&& 0xFFFF = 0x4252 := by decide
  have c3 : (0x2626425264250463 >>> 48) &&& 0xFFFF = 0x2626 := by decide
  have hT : ∀ r, tableEnv.heurScoreTable r = heurRowScore sumPower r := fun _ => rfl
  unfold scoreHeurBoard scoreHelper FloatEnv.fadd
  rw [ht, r0, r1, r2, r3, c0, c1, c2, c3]
  simp only [hT, heurRowScore_0463, heurRowScore_2460, heurRowScore_2526, heurRowScore_2626, heurRowScore_4252, heurRowScore_6244, heurRowScore_6253, heurRowScore_6425]
  norm_num [tableEnv]

theorem executeMove_1_2463624325266253 : executeMove 1 0x2463624325266253 = 0x2464624625236250 := by
  rw [executeMove_down_closed]
  decide

theorem heurRowScore_2464 : heurRowScore sumPower 0x2464 = (80141308559221158129 / 562949953421312) := by
  have h : rowCells 0x2464 = [4, 6, 4, 2] := by decide
  norm_num [heurRowScore, h, heurStep, monotonicity, monotonicityStep, sumPower]

theorem scoreHeurBoard_2464624625236250 : scoreHeurBoard tableEnv 0x2464624625236250 = (337316341063250250421 / 281474976710656) := by
  have ht : transpose 0x2464624625236250 = 0x2626425264254630 := by decide
  have r0 : (0x2464624625236250 >>> 0) &&& 0xFFFF = 0x6250 := by decide
  have r1 : (0x2464624625236250 >>> 16) &&& 0xFFFF = 0x2523 := by decide
  have r2 : (0x2464624625236250 >>> 32) &&& 0xFFFF = 0x6246 := by decide
  have r3 : (0x2464624625236250 >>> 48) &&& 0xFFFF = 0x2464 := by decide
  have c0 : (0x2626425264254630 >>> 0) &&& 0xFFFF = 0x4630 := by decide
  have c1 : (0x2626425264254630 >>> 16) &&& 0xFFFF = 0x6425 := by decide
  have c2 : (0x2626425264254630 >>> 32) &&& 0xFFFF = 0x4252 := by decide
  have c3 : (0x2626425264254630 >>> 48) &&& 0xFFFF = 0x2626 := by decide
  have hT : ∀ r, tableEnv.heurScoreTable r = heurRowScore sumPower r := fun _ => rfl
  unfold scoreHeurBoard scoreHelper FloatEnv.fadd
  rw [ht, r0, r1, r2, r3, c0, c1, c2, c3]
  simp only [hT, heurRowScore_2464, heurRowScore_2523, heurRowScore_2626, heurRowScore_4252, heurRowScore_4630, heurRowScore_6246, heurRowScore_6250, heurRowScore_6425]
  norm_num [tableEnv]

theorem executeMove_2_2463624325266253 : executeMove 2 0x2463624325266253 = 0x2463624325266253 := by
  rw [executeMove_left_closed]
  decide

theorem executeMove_3_2463624325266253 : executeMove 3 0x2463624325266253 = 0x2463624325266253 := by
  rw [executeMove_right_closed]
  decide

theorem executeMove_3_4622624325266253 : executeMove 3 0x4622624325266253 = 0x4630624325266253 := by
  rw [executeMove_right_closed]
  decide

theorem executeMove_0_4631624325266253 : executeMove 0 0x4631624325266253 = 0x4631624325266253 := by
  rw [executeMove_up_closed]
  decide

theorem executeMove_1_4631624325266253 : executeMove 1 0x4631624325266253 = 0x4631624325266253 := by
  rw [executeMove_down_closed]
  decide

theorem executeMove_2_4631624325266253 : executeMove 2 0x4631624325266253 = 0x4631624325266253 := by
  rw [executeMove_left_closed]
  decide

theorem executeMove_3_4631624325266253 : executeMove 3 0x4631624325266253 = 0x4631624325266253 := by
  rw [executeMove_right_closed]
  decide

theorem executeMove_0_4632624325266253 : executeMove 0 0x4632624325266253 = 0x4632624325266253 := by
  rw [executeMove_up_closed]
  decide

theorem executeMove_1_4632624325266253 : executeMove 1 0x4632624325266253 = 0x4632624325266253 := by
  rw [executeMove_down_closed]
  decide

theorem executeMove_2_4632624325266253 : executeMove 2 0x4632624325266253 = 0x4632624325266253 := by
  rw [executeMove_left_closed]
  decide

theorem executeMove_3_4632624325266253 : executeMove 3 0x4632624325266253 = 0x4632624325266253 := by
  rw [executeMove_right_closed]
  decide

theorem executeMove_1_4622624225266253 : executeMove 1 0x4622624225266253 = 0x4623624625236250 := by
  rw [executeMove_down_closed]
  decide

theorem executeMove_0_4623624625236251 : executeMove 0 0x4623624625236251 = 0x4623624625236251 := by
  rw [executeMove_up_closed]
  decide

theorem executeMove_1_4623624625236251 : executeMove 1 0x4623624625236251 = 0x4623624625236251 := by
  rw [executeMove_down_closed]
  decide

theorem executeMove_2_4623624625236251 : executeMove 2 0x4623624625236251 = 0x4623624625236251 := by
  rw [executeMove_left_closed]
  decide

theorem executeMove_3_4623624625236251 : executeMove 3 0x4623624625236251 = 0x4623624625236251 := by
  rw [executeMove_right_closed]
  decide

theorem executeMove_0_4623624625236252 : executeMove 0 0x4623624625236252 = 0x4623624625236252 := by
  rw [executeMove_up_closed]
  decide

theorem executeMove_1_4623624625236252 : executeMove 1 0x4623624625236252 = 0x4623624625236252 := by
  rw [executeMove_down_closed]
  decide

theorem executeMove_2_4623624625236252 : executeMove 2 0x4623624625236252 = 0x4623624625236252 := by
  rw [executeMove_left_closed]
  decide

theorem executeMove_3_4623624625236252 : executeMove 3 0x4623624625236252 = 0x4623624625236252 := by
  rw [executeMove_right_closed]
  decide

theorem executeMove_2_4622624225266253 : executeMove 2 0x4622624225266253 = 0x0463624225266253 := by
  rw [executeMove_left_closed]
  decide

theorem executeMove_0_1463624225266253 : executeMove 0 0x1463624225266253 = 0x1463624225266253 := by
  rw [executeMove_up_closed]
  decide

theorem executeMove_1_1463624225266253 : executeMove 1 0x1463624225266253 = 0x1463624225266253 := by
  rw [executeMove_down_closed]
  decide

theorem executeMove_2_1463624225266253 : executeMove 2 0x1463624225266253 = 0x1463624225266253 := by
  rw [executeMove_left_closed]
  decide

theorem executeMove_3_1463624225266253 : executeMove 3 0x1463624225266253 = 0x1463624225266253 := by
  rw [executeMove_right_closed]
  decide

theorem executeMove_0_2463624225266253 : executeMove 0 0x2463624225266253 = 0x2463624225266253 := by
  rw [executeMove_up_closed]
  decide

theorem executeMove_1_2463624225266253 : executeMove 1 0x2463624225266253 = 0x2463624225266253 := by
  rw [executeMove_down_closed]
  decide

theorem executeMove_2_2463624225266253 : executeMove 2 0x2463624225266253 = 0x2463624225266253 := by
  rw [executeMove_left_closed]
  decide

theorem executeMove_3_2463624225266253 : executeMove 3 0x2463624225266253 = 0x2463624225266253 := by
  rw [executeMove_right_closed]
  decide

theorem executeMove_3_4622624225266253 : executeMove 3 0x4622624225266253 = 0x4630624225266253 := by
  rw [executeMove_right_closed]
  decide

theorem executeMove_0_4631624225266253 : executeMove 0 0x4631624225266253 = 0x4631624225266253 := by
  rw [executeMove_up_closed]
  decide

theorem executeMove_1_4631624225266253 : executeMove 1 0x4631624225266253 = 0x4631624225266253 := by
  rw [executeMove_down_closed]
  decide

theorem executeMove_2_4631624225266253 : executeMove 2 0x4631624225266253 = 0x4631624225266253 := by
  rw [executeMove_left_closed]
  decide

theorem executeMove_3_4631624225266253 : executeMove 3 0x4631624225266253 = 0x4631624225266253 := by
  rw [executeMove_right_closed]
  decide

theorem executeMove_0_4632624225266253 : executeMove 0 0x4632624225266253 = 0x4630624325266253 := by
  rw [executeMove_up_closed]
  decide

theorem executeMove_1_4632624225266253 : executeMove 1 0x4632624225266253 = 0x4633624625236250 := by
  rw [executeMove_down_closed]
  decide

theorem executeMove_0_4633624625236251 : executeMove 0 0x4633624625236251 = 0x4633624625236251 := by
  rw [executeMove_up_closed]
  decide

theorem executeMove_1_4633624625236251 : executeMove 1 0x4633624625236251 = 0x4633624625236251 := by
  rw [executeMove_down_closed]
  decide

theorem executeMove_2_4633624625236251 : executeMove 2 0x4633624625236251 = 0x0464624625236251 := by
  rw [executeMove_left_closed]
  decide

theorem heurRowScore_6251 : heurRowScore sumPower 0x6251 = (91393218134825413745 / 562949953421312) := by
  have h : rowCells 0x6251 = [1, 5, 2, 6] := by decide
  norm_num [heurRowScore, h, heurStep, monotonicity, monotonicityStep, sumPower]

theorem heurRowScore_0464 : heurRowScore sumPower 0x464 = (1255677572110042123 / 8796093022208) := by
  have h : rowCells 0x464 = [4, 6, 4, 0] := by decide
  norm_num [heurRowScore, h, heurStep, monotonicity, monotonicityStep, sumPower]

theorem heurRowScore_4631 : heurRowScore sumPower 0x4631 = (630532945389684169 / 4398046511104) := by
  have h : rowCells 0x4631 = [1, 3, 6, 4] := by decide
  norm_num [heurRowScore, h, heurStep, monotonicity, monotonicityStep, sumPower]

theorem heurRowScore_0626 : heurRowScore sumPower 0x626 = (72252134876311614385 / 562949953421312) := by
  have h : rowCells 0x626 = [6, 2, 6, 0] := by decide
  norm_num [heurRowScore, h, heurStep, monotonicity, monotonicityStep, sumPower]

theorem scoreHeurBoard_0464624625236251 : scoreHeurBoard tableEnv 0x0464624625236251 = (84345052045540099873 / 70368744177664) := by
  have ht : transpose 0x0464624625236251 = 0x0626425264254631 := by decide
  have r0 : (0x0464624625236251 >>> 0) &&& 0xFFFF = 0x6251 := by decide
  have r1 : (0x0464624625236251 >>> 16) &&& 0xFFFF = 0x2523 := by decide
  have r2 : (0x0464624625236251 >>> 32) &&& 0xFFFF = 0x6246 := by decide
  have r3 : (0x0464624625236251 >>> 48) &&& 0xFFFF = 0x0464 := by decide
  have c0 : (0x0626425264254631 >>> 0) &&& 0xFFFF = 0x4631 := by decide
  have c1 : (0x0626425264254631 >>> 16) &&& 0xFFFF = 0x6425 := by decide
  have c2 : (0x0626425264254631 >>> 32) &&& 0xFFFF = 0x4252 := by decide
  have c3 : (0x0626425264254631 >>> 48) &&& 0xFFFF = 0x0626 := by decide
  have hT : ∀ r, tableEnv.heurScoreTable r = heurRowScore sumPower r := fun _ => rfl
  unfold scoreHeurBoard scoreHelper FloatEnv.fadd
  rw [ht, r0, r1, r2, r3, c0, c1, c2, c3]
  simp only [hT, heurRowScore_0464, heurRowScore_0626, heurRowScore_2523, heurRowScore_4252, heurRowScore_4631, heurRowScore_6246, heurRowScore_6251, heurRowScore_6425]
  norm_num [tableEnv]

theorem executeMove_3_4633624625236251 : executeMove 3 0x4633624625236251 = 0x4640624625236251 := by
  rw [executeMove_right_closed]
  decide

theorem heurRowScore_4640 : heurRowScore sumPower 0x4640 = (1255677572110042123 / 8796093022208) := by
  have h : rowCells 0x4640 = [0, 4, 6, 4] := by decide
  norm_num [heurRowScore, h, heurStep, monotonicity, monotonicityStep, sumPower]

theorem heurRowScore_0631 : heurRowScore sumPower 0x631 = (585202279999735241 / 4398046511104) := by
  have h : rowCells 0x631 = [1, 3, 6, 0] := by decide
  norm_num [heurRowScore, h, heurStep, monotonicity, monotonicityStep, sumPower]

theorem heurRowScore_4425 : heurRowScore sumPower 0x4425 = (103641876257029597617 / 562949953421312) := by
  have h : rowCells 0x4425 = [5, 2, 4, 4] := by decide
  norm_num [heurRowScore, h, heurStep, monotonicity, monotonicityStep, sumPower]

theorem heurRowScore_6252 : heurRowScore sumPower 0x6252 = (45664675507957632337 / 281474976710656) := by
  have h : rowCells 0x6252 = [2, 5, 2, 6] := by decide
  norm_num [heurRowScore, h, heurStep, monotonicity, monotonicityStep, sumPower]

theorem heurRowScore_4626 : heurRowScore sumPower 0x4626 = (71307504854470652849 / 562949953421312) := by
  have h : rowCells 0x4626 = [6, 2, 6, 4] := by decide
  norm_num [heurRowScore, h, heurStep, monotonicity, monotonicityStep, sumPower]

theorem scoreHeurBoard_4640624625236251 : scoreHeurBoard tableEnv 0x4640624625236251 = (84820604018692753185 / 70368744177664) := by
  have ht : transpose 0x4640624625236251 = 0x4626625244250631 := by decide
  have r0 : (0x4640624625236251 >>> 0) &&& 0xFFFF = 0x6251 := by decide
  have r1 : (0x4640624625236251 >>> 16) &&& 0xFFFF = 0x2523 := by decide
  have r2 : (0x4640624625236251 >>> 32) &&& 0xFFFF = 0x6246 := by decide
  have r3 : (0x4640624625236251 >>> 48) &&& 0xFFFF = 0x4640 := by decide
  have c0 : (0x4626625244250631 >>> 0) &&& 0xFFFF = 0x0631 := by decide
  have c1 : (0x4626625244250631 >>> 16) &&& 0xFFFF = 0x4425 := by decide
  have c2 : (0x4626625244250631 >>> 32) &&& 0xFFFF = 0x6252 := by decide
  have c3 : (0x4626625244250631 >>> 48) &&& 0xFFFF = 0x4626 := by decide
  have hT : ∀ r, tableEnv.heurScoreTable r = heurRowScore sumPower r := fun _ => rfl
  unfold scoreHeurBoard scoreHelper FloatEnv.fadd
  rw [ht, r0, r1, r2, r3, c0, c1, c2, c3]
  simp only [hT, heurRowScore_0631, heurRowScore_2523, heurRowScore_4425, heurRowScore_4626, heurRowScore_4640, heurRowScore_6246, heurRowScore_6251, heurRowScore_6252]
  norm_num [tableEnv]

theorem executeMove_0_4633624625236252 : executeMove 0 0x4633624625236252 = 0x4633624625236252 := by
  rw [executeMove_up_closed]
  decide

theorem executeMove_1_4633624625236252 : executeMove 1 0x4633624625236252 = 0x4633624625236252 := by
  rw [executeMove_down_closed]
  decide

theorem executeMove_2_4633624625236252 : executeMove 2 0x4633624625236252 = 0x0464624625236252 := by
  rw [executeMove_left_closed]
  decide

theorem heurRowScore_4632 : heurRowScore sumPower 0x4632 = (80644349890969424561 / 562949953421312) := by
  have h : rowCells 0x4632 = [2, 3, 6, 4] := by decide
  norm_num [heurRowScore, h, heurStep, monotonicity, monotonicityStep, sumPower]

theorem scoreHeurBoard_0464624625236252 : scoreHeurBoard tableEnv 0x0464624625236252 = (337316341063250250421 / 281474976710656) := by
  have ht : transpose 0x0464624625236252 = 0x0626425264254632 := by decide
  have r0 : (0x0464624625236252 >>> 0) &&& 0xFFFF = 0x6252 := by decide
  have r1 : (0x0464624625236252 >>> 16) &&& 0xFFFF = 0x2523 := by decide
  have r2 : (0x0464624625236252 >>> 32) &&& 0xFFFF = 0x6246 := by decide
  have r3 : (0x0464624625236252 >>> 48) &&& 0xFFFF = 0x0464 := by decide
  have c0 : (0x0626425264254632 >>> 0) &&& 0xFFFF = 0x4632 := by decide
  have c1 : (0x0626425264254632 >>> 16) &&& 0xFFFF = 0x6425 := by decide
  have c2 : (0x0626425264254632 >>> 32) &&& 0xFFFF = 0x4252 := by decide
  have c3 : (0x0626425264254632 >>> 48) &&& 0xFFFF = 0x0626 := by decide
  have hT : ∀ r, tableEnv.heurScoreTable r = heurRowScore sumPower r := fun _ => rfl
  unfold scoreHeurBoard scoreHelper FloatEnv.fadd
  rw [ht, r0, r1, r2, r3, c0, c1, c2, c3]
  simp only [hT, heurRowScore_0464, heurRowScore_0626, heurRowScore_2523, heurRowScore_4252, heurRowScore_4632, heurRowScore_6246, heurRowScore_6252, heurRowScore_6425]
  norm_num [tableEnv]

theorem executeMove_3_4633624625236252 : executeMove 3 0x4633624625236252 = 0x4640624625236252 := by
  rw [executeMove_right_closed]
  decide

theorem heurRowScore_0632 : heurRowScore sumPower 0x632 = (75238904438217986737 / 562949953421312) := by
  have h : rowCells 0x632 = [2, 3, 6, 0] := by decide
  norm_num [heurRowScore, h, heurStep, monotonicity, monotonicityStep, sumPower]

theorem scoreHeurBoard_4640624625236252 : scoreHeurBoard tableEnv 0x4640624625236252 = (339416988814441876149 / 281474976710656) := by
  have ht : transpose 0x4640624625236252 = 0x4626625244250632 := by decide
  have r0 : (0x4640624625236252 >>> 0) &&& 0xFFFF = 0x6252 := by decide
  have r1 : (0x4640624625236252 >>> 16) &&& 0xFFFF = 0x2523 := by decide
  have r2 : (0x4640624625236252 >>> 32) &&& 0xFFFF = 0x6246 := by decide
  have r3 : (0x4640624625236252 >>> 48) &&& 0xFFFF = 0x4640 := by decide
  have c0 : (0x4626625244250632 >>> 0) &&& 0xFFFF = 0x0632 := by decide
  have c1 : (0x4626625244250632 >>> 16) &&& 0xFFFF = 0x4425 := by decide
  have c2 : (0x4626625244250632 >>> 32) &&& 0xFFFF = 0x6252 := by decide
  have c3 : (0x4626625244250632 >>> 48) &&& 0xFFFF = 0x4626 := by decide
  have hT : ∀ r, tableEnv.heurScoreTable r = heurRowScore sumPower r := fun _ => rfl
  unfold scoreHeurBoard scoreHelper FloatEnv.fadd
  rw [ht, r0, r1, r2, r3, c0, c1, c2, c3]
  simp only [hT, heurRowScore_0632, heurRowScore_2523, heurRowScore_4425, heurRowScore_4626, heurRowScore_4640, heurRowScore_6246, heurRowScore_6252]
  norm_num [tableEnv]

theorem executeMove_2_4632624225266253 : executeMove 2 0x4632624225266253 = 0x4632624225266253 := by
  rw [executeMove_left_closed]
  decide

theorem executeMove_3_4632624225266253 : executeMove 3 0x4632624225266253 = 0x4632624225266253 := by
  rw [executeMove_right_closed]
  decide

theorem executeMove_1_4622624525256253 : executeMove 1 0x4622624525256253 = 0x4622624625236250 := by
  rw [executeMove_down_closed]
  decide

theorem executeMove_0_4622624625236251 : executeMove 0 0x4622624625236251 = 0x4622624625236251 := by
  rw [executeMove_up_closed]
  decide

theorem executeMove_1_4622624625236251 : executeMove 1 0x4622624625236251 = 0x4622624625236251 := by
  rw [executeMove_down_closed]
  decide

theorem executeMove_2_4622624625236251 : executeMove 2 0x4622624625236251 = 0x0463624625236251 := by
  rw [executeMove_left_closed]
  decide

theorem executeMove_0_1463624625236251 : executeMove 0 0x1463624625236251 = 0x1463624625236251 := by
  rw [executeMove_up_closed]
  decide

theorem executeMove_1_1463624625236251 : executeMove 1 0x1463624625236251 = 0x1463624625236251 := by
  rw [executeMove_down_closed]
  decide

theorem executeMove_2_1463624625236251 : executeMove 2 0x1463624625236251 = 0x1463624625236251 := by
  rw [executeMove_left_closed]
  decide

theorem executeMove_3_1463624625236251 : executeMove 3 0x1463624625236251 = 0x1463624625236251 := by
  rw [executeMove_right_closed]
  decide

theorem executeMove_0_2463624625236251 : executeMove 0 0x2463624625236251 = 0x2463624625236251 := by
  rw [executeMove_up_closed]
  decide

theorem executeMove_1_2463624625236251 : executeMove 1 0x2463624625236251 = 0x2463624625236251 := by
  rw [executeMove_down_closed]
  decide

theorem executeMove_2_2463624625236251 : executeMove 2 0x2463624625236251 = 0x2463624625236251 := by
  rw [executeMove_left_closed]
  decide

theorem executeMove_3_2463624625236251 : executeMove 3 0x2463624625236251 = 0x2463624625236251 := by
  rw [executeMove_right_closed]
  decide

theorem executeMove_3_4622624625236251 : executeMove 3 0x4622624625236251 = 0x4630624625236251 := by
  rw [executeMove_right_closed]
  decide

theorem executeMove_0_4631624625236251 : executeMove 0 0x4631624625236251 = 0x4631624625236251 := by
  rw [executeMove_up_closed]
  decide

theorem executeMove_1_4631624625236251 : executeMove 1 0x4631624625236251 = 0x4631624625236251 := by
  rw [executeMove_down_closed]
  decide

theorem executeMove_2_4631624625236251 : executeMove 2 0x4631624625236251 = 0x4631624625236251 := by
  rw [executeMove_left_closed]
  decide

theorem executeMove_3_4631624625236251 : executeMove 3 0x4631624625236251 = 0x4631624625236251 := by
  rw [executeMove_right_closed]
  decide

theorem executeMove_0_4632624625236251 : executeMove 0 0x4632624625236251 = 0x4632624625236251 := by
  rw [executeMove_up_closed]
  decide

theorem executeMove_1_4632624625236251 : executeMove 1 0x4632624625236251 = 0x4632624625236251 := by
  rw [executeMove_down_closed]
  decide

theorem executeMove_2_4632624625236251 : executeMove 2 0x4632624625236251 = 0x4632624625236251 := by
  rw [executeMove_left_closed]
  decide

theorem executeMove_3_4632624625236251 : executeMove 3 0x4632624625236251 = 0x4632624625236251 := by
  rw [executeMove_right_closed]
  decide

theorem executeMove_0_4622624625236252 : executeMove 0 0x4622624625236252 = 0x4622624625236252 := by
  rw [executeMove_up_closed]
  decide

theorem executeMove_1_4622624625236252 : executeMove 1 0x4622624625236252 = 0x4622624625236252 := by
  rw [executeMove_down_closed]
  decide

theorem executeMove_2_4622624625236252 : executeMove 2 0x4622624625236252 = 0x0463624625236252 := by
  rw [executeMove_left_closed]
  decide

theorem executeMove_0_1463624625236252 : executeMove 0 0x1463624625236252 = 0x1463624625236252 := by
  rw [executeMove_up_closed]
  decide

theorem executeMove_1_1463624625236252 : executeMove 1 0x1463624625236252 = 0x1463624625236252 := by
  rw [executeMove_down_closed]
  decide

theorem executeMove_2_1463624625236252 : executeMove 2 0x1463624625236252 = 0x1463624625236252 := by
  rw [executeMove_left_closed]
  decide

theorem executeMove_3_1463624625236252 : executeMove 3 0x1463624625236252 = 0x1463624625236252 := by
  rw [executeMove_right_closed]
  decide

theorem executeMove_0_2463624625236252 : executeMove 0 0x2463624625236252 = 0x2463624625236252 := by
  rw [executeMove_up_closed]
  decide

theorem executeMove_1_2463624625236252 : executeMove 1 0x2463624625236252 = 0x2463624625236252 := by
  rw [executeMove_down_closed]
  decide

theorem executeMove_2_2463624625236252 : executeMove 2 0x2463624625236252 = 0x2463624625236252 := by
  rw [executeMove_left_closed]
  decide

theorem executeMove_3_2463624625236252 : executeMove 3 0x2463624625236252 = 0x2463624625236252 := by
  rw [executeMove_right_closed]
  decide

theorem executeMove_3_4622624625236252 : executeMove 3 0x4622624625236252 = 0x4630624625236252 := by
  rw [executeMove_right_closed]
  decide

theorem executeMove_0_4631624625236252 : executeMove 0 0x4631624625236252 = 0x4631624625236252 := by
  rw [executeMove_up_closed]
  decide

theorem executeMove_1_4631624625236252 : executeMove 1 0x4631624625236252 = 0x4631624625236252 := by
  rw [executeMove_down_closed]
  decide

theorem executeMove_2_4631624625236252 : executeMove 2 0x4631624625236252 = 0x4631624625236252 := by
  rw [executeMove_left_closed]
  decide

theorem executeMove_3_4631624625236252 : executeMove 3 0x4631624625236252 = 0x4631624625236252 := by
  rw [executeMove_right_closed]
  decide

theorem executeMove_0_4632624625236252 : executeMove 0 0x4632624625236252 = 0x4632624625236252 := by
  rw [executeMove_up_closed]
  decide

theorem executeMove_1_4632624625236252 : executeMove 1 0x4632624625236252 = 0x4632624625236252 := by
  rw [executeMove_down_closed]
  decide

theorem executeMove_2_4632624625236252 : executeMove 2 0x4632624625236252 = 0x4632624625236252 := by
  rw [executeMove_left_closed]
  decide

theorem executeMove_3_4632624625236252 : executeMove 3 0x4632624625236252 = 0x4632624625236252 := by
  rw [executeMove_right_closed]
  decide

theorem executeMove_2_4622624525256253 : executeMove 2 0x4622624525256253 = 0x0463624525256253 := by
  rw [executeMove_left_closed]
  decide

theorem executeMove_0_1463624525256253 : executeMove 0 0x1463624525256253 = 0x1460624325266253 := by
  rw [executeMove_up_closed]
  decide

theorem executeMove_0_1461624325266253 : executeMove 0 0x1461624325266253 = 0x1461624325266253 := by
  rw [executeMove_up_closed]
  decide

theorem executeMove_1_1461624325266253 : executeMove 1 0x1461624325266253 = 0x1461624325266253 := by
  rw [executeMove_down_closed]
  decide

theorem executeMove_2_1461624325266253 : executeMove 2 0x1461624325266253 = 0x1461624325266253 := by
  rw [executeMove_left_closed]
  decide

theorem executeMove_3_1461624325266253 : executeMove 3 0x1461624325266253 = 0x1461624325266253 := by
  rw [executeMove_right_closed]
  decide

theorem executeMove_0_1462624325266253 : executeMove 0 0x1462624325266253 = 0x1462624325266253 := by
  rw [executeMove_up_closed]
  decide

theorem executeMove_1_1462624325266253 : executeMove 1 0x1462624325266253 = 0x1462624325266253 := by
  rw [executeMove_down_closed]
  decide

theorem executeMove_2_1462624325266253 : executeMove 2 0x1462624325266253 = 0x1462624325266253 := by
  rw [executeMove_left_closed]
  decide

theorem executeMove_3_1462624325266253 : executeMove 3 0x1462624325266253 = 0x1462624325266253 := by
  rw [executeMove_right_closed]
  decide

theorem executeMove_1_1463624525256253 : executeMove 1 0x1463624525256253 = 0x1463624625236250 := by
  rw [executeMove_down_closed]
  decide

theorem executeMove_2_1463624525256253 : executeMove 2 0x1463624525256253 = 0x1463624525256253 := by
  rw [executeMove_left_closed]
  decide

theorem executeMove_3_1463624525256253 : executeMove 3 0x1463624525256253 = 0x1463624525256253 := by
  rw [executeMove_right_closed]
  decide

theorem executeMove_0_2463624525256253 : executeMove 0 0x2463624525256253 = 0x2460624325266253 := by
  rw [executeMove_up_closed]
  decide

theorem executeMove_0_2461624325266253 : executeMove 0 0x2461624325266253 = 0x2461624325266253 := by
  rw [executeMove_up_closed]
  decide

theorem executeMove_1_2461624325266253 : executeMove 1 0x2461624325266253 = 0x2461624325266253 := by
  rw [executeMove_down_closed]
  decide

theorem executeMove_2_2461624325266253 : executeMove 2 0x2461624325266253 = 0x2461624325266253 := by
  rw [executeMove_left_closed]
  decide

theorem executeMove_3_2461624325266253 : executeMove 3 0x2461624325266253 = 0x2461624325266253 := by
  rw [executeMove_right_closed]
  decide

theorem executeMove_0_2462624325266253 : executeMove 0 0x2462624325266253 = 0x2462624325266253 := by
  rw [executeMove_up_closed]
  decide

theorem executeMove_1_2462624325266253 : executeMove 1 0x2462624325266253 = 0x2462624325266253 := by
  rw [executeMove_down_closed]
  decide

theorem executeMove_2_2462624325266253 : executeMove 2 0x2462624325266253 = 0x2462624325266253 := by
  rw [executeMove_left_closed]
  decide

theorem executeMove_3_2462624325266253 : executeMove 3 0x2462624325266253 = 0x2462624325266253 := by
  rw [executeMove_right_closed]
  decide

theorem executeMove_1_2463624525256253 : executeMove 1 0x2463624525256253 = 0x2463624625236250 := by
  rw [executeMove_down_closed]
  decide

theorem executeMove_2_2463624525256253 : executeMove 2 0x2463624525256253 = 0x2463624525256253 := by
  rw [executeMove_left_closed]
  decide

theorem executeMove_3_2463624525256253 : executeMove 3 0x2463624525256253 = 0x2463624525256253 := by
  rw [executeMove_right_closed]
  decide

theorem executeMove_3_4622624525256253 : executeMove 3 0x4622624525256253 = 0x4630624525256253 := by
  rw [executeMove_right_closed]
  decide

theorem executeMove_0_4631624525256253 : executeMove 0 0x4631624525256253 = 0x4630624125266253 := by
  rw [executeMove_up_closed]
  decide

theorem executeMove_0_4631624125266253 : executeMove 0 0x4631624125266253 = 0x4630624225266253 := by
  rw [executeMove_up_closed]
  decide

theorem executeMove_1_4631624125266253 : executeMove 1 0x4631624125266253 = 0x4632624625236250 := by
  rw [executeMove_down_closed]
  decide

theorem executeMove_2_4631624125266253 : executeMove 2 0x4631624125266253 = 0x4631624125266253 := by
  rw [executeMove_left_closed]
  decide

theorem executeMove_3_4631624125266253 : executeMove 3 0x4631624125266253 = 0x4631624125266253 := by
  rw [executeMove_right_closed]
  decide

theorem executeMove_0_4632624125266253 : executeMove 0 0x4632624125266253 = 0x4632624125266253 := by
  rw [executeMove_up_closed]
  decide

theorem executeMove_1_4632624125266253 : executeMove 1 0x4632624125266253 = 0x4632624125266253 := by
  rw [executeMove_down_closed]
  decide

theorem executeMove_2_4632624125266253 : executeMove 2 0x4632624125266253 = 0x4632624125266253 := by
  rw [executeMove_left_closed]
  decide

theorem executeMove_3_4632624125266253 : executeMove 3 0x4632624125266253 = 0x4632624125266253 := by
  rw [executeMove_right_closed]
  decide

theorem executeMove_1_4631624525256253 : executeMove 1 0x4631624525256253 = 0x4631624625236250 := by
  rw [executeMove_down_closed]
  decide

theorem executeMove_2_4631624525256253 : executeMove 2 0x4631624525256253 = 0x4631624525256253 := by
  rw [executeMove_left_closed]
  decide

theorem executeMove_3_4631624525256253 : executeMove 3 0x4631624525256253 = 0x4631624525256253 := by
  rw [executeMove_right_closed]
  decide

theorem executeMove_0_4632624525256253 : executeMove 0 0x4632624525256253 = 0x4630624225266253 := by
  rw [executeMove_up_closed]
  decide

theorem executeMove_1_4632624525256253 : executeMove 1 0x4632624525256253 = 0x4632624625236250 := by
  rw [executeMove_down_closed]
  decide

theorem executeMove_2_4632624525256253 : executeMove 2 0x4632624525256253 = 0x4632624525256253 := by
  rw [executeMove_left_closed]
  decide

theorem executeMove_3_4632624525256253 : executeMove 3 0x4632624525256253 = 0x4632624525256253 := by
  rw [executeMove_right_closed]
  decide

theorem heurRowScore_6243 : heurRowScore sumPower 0x6243 = (101811268139610755761 / 562949953421312) := by
  have h : rowCells 0x6243 = [3, 4, 2, 6] := by decide
  norm_num [heurRowScore, h, heurStep, monotonicity, monotonicityStep, sumPower]

theorem heurRowScore_0363 : heurRowScore sumPower 0x363 = (1199049748619514649 / 8796093022208) := by
  have h : rowCells 0x363 = [3, 6, 3, 0] := by decide
  norm_num [heurRowScore, h, heurStep, monotonicity, monotonicityStep, sumPower]

theorem heurRowScore_3425 : heurRowScore sumPower 0x3425 = (103356787653988027249 / 562949953421312) := by
  have h : rowCells 0x3425 = [5, 2, 4, 3] := by decide
  norm_num [heurRowScore, h, heurStep, monotonicity, monotonicityStep, sumPower]

theorem scoreHeurBoard_4630624325266253 : scoreHeurBoard tableEnv 0x4630624325266253 = (88481208864997996545 / 70368744177664) := by
  have ht : transpose 0x4630624325266253 = 0x4626625234250363 := by decide
  have r0 : (0x4630624325266253 >>> 0) &&& 0xFFFF = 0x6253 := by decide
  have r1 : (0x4630624325266253 >>> 16) &&& 0xFFFF = 0x2526 := by decide
  have r2 : (0x4630624325266253 >>> 32) &&& 0xFFFF = 0x6243 := by decide
  have r3 : (0x4630624325266253 >>> 48) &&& 0xFFFF = 0x4630 := by decide
  have c0 : (0x4626625234250363 >>> 0) &&& 0xFFFF = 0x0363 := by decide
  have c1 : (0x4626625234250363 >>> 16) &&& 0xFFFF = 0x3425 := by decide
  have c2 : (0x4626625234250363 >>> 32) &&& 0xFFFF = 0x6252 := by decide
  have c3 : (0x4626625234250363 >>> 48) &&& 0xFFFF = 0x4626 := by decide
  have hT : ∀ r, tableEnv.heurScoreTable r = heurRowScore sumPower r := fun _ => rfl
  unfold scoreHeurBoard scoreHelper FloatEnv.fadd
  rw [ht, r0, r1, r2, r3, c0, c1, c2, c3]
  simp only [hT, heurRowScore_0363, heurRowScore_2526, heurRowScore_3425, heurRowScore_4626, heurRowScore_4630, heurRowScore_6243, heurRowScore_6252, heurRowScore_6253]
  norm_num [tableEnv]

theorem heurRowScore_4633 : heurRowScore sumPower 0x4633 = (1268952299867001625 / 8796093022208) := by
  have h : rowCells 0x4633 = [3, 3, 6, 4] := by decide
  norm_num [heurRowScore, h, heurStep, monotonicity, monotonicityStep, sumPower]

theorem heurRowScore_3630 : heurRowScore sumPower 0x3630 = (1199049748619514649 / 8796093022208) := by
  have h : rowCells 0x3630 = [0, 3, 6, 3] := by decide
  norm_num [heurRowScore, h, heurStep, monotonicity, monotonicityStep, sumPower]

theorem scoreHeurBoard_4633624625236250 : scoreHeurBoard tableEnv 0x4633624625236250 = (85140100891442509825 / 70368744177664) := by
  have ht : transpose 0x4633624625236250 = 0x4626625234253630 := by decide
  have r0 : (0x4633624625236250 >>> 0) &&& 0xFFFF = 0x6250 := by decide
  have r1 : (0x4633624625236250 >>> 16) &&& 0xFFFF = 0x2523 := by decide
  have r2 : (0x4633624625236250 >>> 32) &&& 0xFFFF = 0x6246 := by decide
  have r3 : (0x4633624625236250 >>> 48) &&& 0xFFFF = 0x4633 := by decide
  have c0 : (0x4626625234253630 >>> 0) &&& 0xFFFF = 0x3630 := by decide
  have c1 : (0x4626625234253630 >>> 16) &&& 0xFFFF = 0x3425 := by decide
  have c2 : (0x4626625234253630 >>> 32) &&& 0xFFFF = 0x6252 := by decide
  have c3 : (0x4626625234253630 >>> 48) &&& 0xFFFF = 0x4626 := by decide
  have hT : ∀ r, tableEnv.heurScoreTable r = heurRowScore sumPower r := fun _ => rfl
  unfold scoreHeurBoard scoreHelper FloatEnv.fadd
  rw [ht, r0, r1, r2, r3, c0, c1, c2, c3]
  simp only [hT, heurRowScore_2523, heurRowScore_3425, heurRowScore_3630, heurRowScore_4626, heurRowScore_4633, heurRowScore_6246, heurRowScore_6250, heurRowScore_6252]
  norm_num [tableEnv]

/-! ### With the transposition cache -/

theorem move_c_1 :
    NodeRes (scoreMoveNodeWith (tileNodeOn true tableEnv 3)) 0 3
      []
      0x4621624225266253 (9 / 10) 0
      [] :=
  NodeRes.move _ 0 3 _ _ _ _ _ _ _ _ _ _ _
    (StepRes.unchanged _ 1 3 _ _ 0 _ _ executeMove_0_4621624225266253)
    (StepRes.unchanged _ 1 3 _ _ 1 _ _ executeMove_1_4621624225266253)
    (StepRes.unchanged _ 1 3 _ _ 2 _ _ executeMove_2_4621624225266253)
    (StepRes.unchanged _ 1 3 _ _ 3 _ _ executeMove_3_4621624225266253)
    _ (by norm_num)

theorem move_c_2 :
    NodeRes (scoreMoveNodeWith (tileNodeOn true tableEnv 2)) 1 3
      []
      0x4621624325266253 (9 / 100) 0
      [] :=
  NodeRes.move _ 1 3 _ _ _ _ _ _ _ _ _ _ _
    (StepRes.unchanged _ 2 3 _ _ 0 _ _ executeMove_0_4621624325266253)
    (StepRes.unchanged _ 2 3 _ _ 1 _ _ executeMove_1_4621624325266253)
    (StepRes.unchanged _ 2 3 _ _ 2 _ _ executeMove_2_4621624325266253)
    (StepRes.unchanged _ 2 3 _ _ 3 _ _ executeMove_3_4621624325266253)
    _ (by norm_num)

theorem node_c_3 :
    NodeRes (tileNodeOn true tableEnv 1) 3 3
      []
      0x1460624425266253 (9 / 1000) (86461040182962456353 / 70368744177664)
      [] :=
  NodeRes.leaf true tableEnv 0 3 3 _ _ _ _ (Or.inr (by decide)) scoreHeurBoard_1460624425266253

theorem node_c_4 :
    NodeRes (tileNodeOn true tableEnv 1) 3 3
      []
      0x1464624625236250 (9 / 1000) (84345052045540099873 / 70368744177664)
      [] :=
  NodeRes.leaf true tableEnv 0 3 3 _ _ _ _ (Or.inr (by decide)) scoreHeurBoard_1464624625236250

theorem move_c_5 :
    NodeRes (scoreMoveNodeWith (tileNodeOn true tableEnv 1)) 2 3
      []
      0x1463624325266253 (9 / 1000) (86461040182962456353 / 70368744177664)
      [] :=
  NodeRes.move _ 2 3 _ _ _ _ _ _ _ _ _ _ _
    (StepRes.changed _ 3 3 _ _ 0 _ _ _ _ _ _ executeMove_0_1463624325266253 (by decide) node_c_3 rfl)
    (StepRes.changed _ 3 3 _ _ 1 _ _ _ _ _ _ executeMove_1_1463624325266253 (by decide) node_c_4 rfl)
    (StepRes.unchanged _ 3 3 _ _ 2 _ _ executeMove_2_1463624325266253)
    (StepRes.unchanged _ 3 3 _ _ 3 _ _ executeMove_3_1463624325266253)
    _ (by norm_num)

theorem node_c_6 :
    NodeRes (tileNodeOn true tableEnv 1) 3 3
      []
      0x2460624425266253 (1 / 1000) (345978733471520688821 / 281474976710656)
      [] :=
  NodeRes.leaf true tableEnv 0 3 3 _ _ _ _ (Or.inr (by decide)) scoreHeurBoard_2460624425266253

theorem node_c_7 :
    NodeRes (tileNodeOn true tableEnv 1) 3 3
      []
      0x2464624625236250 (1 / 1000) (337316341063250250421 / 281474976710656)
      [] :=
  NodeRes.leaf true tableEnv 0 3 3 _ _ _ _ (Or.inr (by decide)) scoreHeurBoard_2464624625236250

theorem move_c_8 :
    NodeRes (scoreMoveNodeWith (tileNodeOn true tableEnv 1)) 2 3
      []
      0x2463624325266253 (1 / 1000) (345978733471520688821 / 281474976710656)
      [] :=
  NodeRes.move _ 2 3 _ _ _ _ _ _ _ _ _ _ _
    (StepRes.changed _ 3 3 _ _ 0 _ _ _ _ _ _ executeMove_0_2463624325266253 (by decide) node_c_6 rfl)
    (StepRes.changed _ 3 3 _ _ 1 _ _ _ _ _ _ executeMove_1_2463624325266253 (by decide) node_c_7 rfl)
    (StepRes.unchanged _ 3 3 _ _ 2 _ _ executeMove_2_2463624325266253)
    (StepRes.unchanged _ 3 3 _ _ 3 _ _ executeMove_3_2463624325266253)
    _ (by norm_num)

theorem node_c_9 :
    NodeRes (tileNodeOn true tableEnv 2) 2 3
      []
      0x0463624325266253 (1 / 100) (3458576180058169117529 / 2814749767106560)
      [(0x0463624325266253, (2, (3458576180058169117529 / 2814749767106560)))] :=
  NodeRes.expand_on tableEnv 1 2 3 _ _ _ _ 1 [15] (1 / 100) _ _
    (by norm_num [CPROB_THRESH_BASE, tableEnv]) (by decide) (Or.inl rfl)
    (by decide) (by decide) (by decide) (by norm_num [tableEnv, FloatEnv.fmul, FloatEnv.fadd, FloatEnv.fdiv])
    (FoldRes.cons tableEnv _ 2 3 _ _ 15 _ _ _ _ _ _ _ _ _ _ _ _ (3458576180058169117529 / 2814749767106560) _
      (by decide) (by decide) (by norm_num [tableEnv, FloatEnv.fmul, FloatEnv.fadd, FloatEnv.fdiv])
      (by norm_num [tableEnv, FloatEnv.fmul, FloatEnv.fadd, FloatEnv.fdiv])
      move_c_5 move_c_8
      (by norm_num [tableEnv, FloatEnv.fmul, FloatEnv.fadd, FloatEnv.fdiv])
      (FoldRes.nil tableEnv _ 2 3 _ _ _ _))
    (by norm_num [tableEnv, FloatEnv.fmul, FloatEnv.fadd, FloatEnv.fdiv])

theorem move_c_10 :
    NodeRes (scoreMoveNodeWith (tileNodeOn true tableEnv 1)) 2 3
      [(0x0463624325266253, (2, (3458576180058169117529 / 2814749767106560)))]
      0x4631624325266253 (9 / 1000) 0
      [(0x0463624325266253, (2, (3458576180058169117529 / 2814749767106560)))] :=
  NodeRes.move _ 2 3 _ _ _ _ _ _ _ _ _ _ _
    (StepRes.unchanged _ 3 3 _ _ 0 _ _ executeMove_0_4631624325266253)
    (StepRes.unchanged _ 3 3 _ _ 1 _ _ executeMove_1_4631624325266253)
    (StepRes.unchanged _ 3 3 _ _ 2 _ _ executeMove_2_4631624325266253)
    (StepRes.unchanged _ 3 3 _ _ 3 _ _ executeMove_3_4631624325266253)
    _ (by norm_num)

theorem move_c_11 :
    NodeRes (scoreMoveNodeWith (tileNodeOn true tableEnv 1)) 2 3
      [(0x0463624325266253, (2, (3458576180058169117529 / 2814749767106560)))]
      0x4632624325266253 (1 / 1000) 0
      [(0x0463624325266253, (2, (3458576180058169117529 / 2814749767106560)))] :=
  NodeRes.move _ 2 3 _ _ _ _ _ _ _ _ _ _ _
    (StepRes.unchanged _ 3 3 _ _ 0 _ _ executeMove_0_4632624325266253)
    (StepRes.unchanged _ 3 3 _ _ 1 _ _ executeMove_1_4632624325266253)
    (StepRes.unchanged _ 3 3 _ _ 2 _ _ executeMove_2_4632624325266253)
    (StepRes.unchanged _ 3 3 _ _ 3 _ _ executeMove_3_4632624325266253)
    _ (by norm_num)

theorem node_c_12 :
    NodeRes (tileNodeOn true tableEnv 2) 2 3
      [(0x0463624325266253, (2, (3458576180058169117529 / 2814749767106560)))]
      0x4630624325266253 (1 / 100) 0
      [(0x4630624325266253, (2, 0)), (0x0463624325266253, (2, (3458576180058169117529 / 2814749767106560)))] :=
  NodeRes.expand_on tableEnv 1 2 3 _ _ _ _ 1 [12] (1 / 100) _ _
    (by norm_num [CPROB_THRESH_BASE, tableEnv]) (by decide) (Or.inl rfl)
    (by decide) (by decide) (by decide) (by norm_num [tableEnv, FloatEnv.fmul, FloatEnv.fadd, FloatEnv.fdiv])
    (FoldRes.cons tableEnv _ 2 3 _ _ 12 _ _ _ _ _ _ _ _ _ _ _ _ 0 _
      (by decide) (by decide) (by norm_num [tableEnv, FloatEnv.fmul, FloatEnv.fadd, FloatEnv.fdiv])
      (by norm_num [tableEnv, FloatEnv.fmul, FloatEnv.fadd, FloatEnv.fdiv])
      move_c_10 move_c_11
      (by norm_num [tableEnv, FloatEnv.fmul, FloatEnv.fadd, FloatEnv.fdiv])
      (FoldRes.nil tableEnv _ 2 3 _ _ _ _))
    (by norm_num [tableEnv, FloatEnv.fmul, FloatEnv.fadd, FloatEnv.fdiv])

theorem move_c_13 :
    NodeRes (scoreMoveNodeWith (tileNodeOn true tableEnv 2)) 1 3
      []
      0x4622624325266253 (1 / 100) (3458576180058169117529 / 2814749767106560)
      [(0x4630624325266253, (2, 0)), (0x0463624325266253, (2, (3458576180058169117529 / 2814749767106560)))] :=
  NodeRes.move _ 1 3 _ _ _ _ _ _ _ _ _ _ _
    (StepRes.unchanged _ 2 3 _ _ 0 _ _ executeMove_0_4622624325266253)
    (StepRes.unchanged _ 2 3 _ _ 1 _ _ executeMove_1_4622624325266253)
    (StepRes.changed _ 2 3 _ _ 2 _ _ _ _ _ _ executeMove_2_4622624325266253 (by decide) node_c_9 rfl)
    (StepRes.changed _ 2 3 _ _ 3 _ _ _ _ _ _ executeMove_3_4622624325266253 (by decide) node_c_12 rfl)
    _ (by norm_num)

theorem node_c_14 :
    NodeRes (tileNodeOn true tableEnv 3) 1 3
      []
      0x4620624325266253 (1 / 10) (3458576180058169117529 / 28147497671065600)
      [(0x4620624325266253, (1, (3458576180058169117529 / 28147497671065600))), (0x4630624325266253, (2, 0)), (0x0463624325266253, (2, (3458576180058169117529 / 2814749767106560)))] :=
  NodeRes.expand_on tableEnv 2 1 3 _ _ _ _ 1 [12] (1 / 10) _ _
    (by norm_num [CPROB_THRESH_BASE, tableEnv]) (by decide) (Or.inl rfl)
    (by decide) (by decide) (by decide) (by norm_num [tableEnv, FloatEnv.fmul, FloatEnv.fadd, FloatEnv.fdiv])
    (FoldRes.cons tableEnv _ 1 3 _ _ 12 _ _ _ _ _ _ _ _ _ _ _ _ (3458576180058169117529 / 28147497671065600) _
      (by decide) (by decide) (by norm_num [tableEnv, FloatEnv.fmul, FloatEnv.fadd, FloatEnv.fdiv])
      (by norm_num [tableEnv, FloatEnv.fmul, FloatEnv.fadd, FloatEnv.fdiv])
      move_c_2 move_c_13
      (by norm_num [tableEnv, FloatEnv.fmul, FloatEnv.fadd, FloatEnv.fdiv])
      (FoldRes.nil tableEnv _ 1 3 _ _ _ _))
    (by norm_num [tableEnv, FloatEnv.fmul, FloatEnv.fadd, FloatEnv.fdiv])

theorem move_c_15 :
    NodeRes (scoreMoveNodeWith (tileNodeOn true tableEnv 2)) 1 3
      [(0x4620624325266253, (1, (3458576180058169117529 / 28147497671065600))), (0x4630624325266253, (2, 0)), (0x0463624325266253, (2, (3458576180058169117529 / 2814749767106560)))]
      0x4623624625236251 (9 / 100) 0
      [(0x4620624325266253, (1, (3458576180058169117529 / 28147497671065600))), (0x4630624325266253, (2, 0)), (0x0463624325266253, (2, (3458576180058169117529 / 2814749767106560)))] :=
  NodeRes.move _ 1 3 _ _ _ _ _ _ _ _ _ _ _
    (StepRes.unchanged _ 2 3 _ _ 0 _ _ executeMove_0_4623624625236251)
    (StepRes.unchanged _ 2 3 _ _ 1 _ _ executeMove_1_4623624625236251)
    (StepRes.unchanged _ 2 3 _ _ 2 _ _ executeMove_2_4623624625236251)
    (StepRes.unchanged _ 2 3 _ _ 3 _ _ executeMove_3_4623624625236251)
    _ (by norm_num)

theorem move_c_16 :
    NodeRes (scoreMoveNodeWith (tileNodeOn true tableEnv 2)) 1 3
      [(0x4620624325266253, (1, (3458576180058169117529 / 28147497671065600))), (0x4630624325266253, (2, 0)), (0x0463624325266253, (2, (3458576180058169117529 / 2814749767106560)))]
      0x4623624625236252 (1 / 100) 0
      [(0x4620624325266253, (1, (3458576180058169117529 / 28147497671065600))), (0x4630624325266253, (2, 0)), (0x0463624325266253, (2, (3458576180058169117529 / 2814749767106560)))] :=
  NodeRes.move _ 1 3 _ _ _ _ _ _ _ _ _ _ _
    (StepRes.unchanged _ 2 3 _ _ 0 _ _ executeMove_0_4623624625236252)
    (StepRes.unchanged _ 2 3 _ _ 1 _ _ executeMove_1_4623624625236252)
    (StepRes.unchanged _ 2 3 _ _ 2 _ _ executeMove_2_4623624625236252)
    (StepRes.unchanged _ 2 3 _ _ 3 _ _ executeMove_3_4623624625236252)
    _ (by norm_num)

theorem node_c_17 :
    NodeRes (tileNodeOn true tableEnv 3) 1 3
      [(0x4620624325266253, (1, (3458576180058169117529 / 28147497671065600))), (0x4630624325266253, (2, 0)), (0x0463624325266253, (2, (3458576180058169117529 / 2814749767106560)))]
      0x4623624625236250 (1 / 10) 0
      [(0x4623624625236250, (1, 0)), (0x4620624325266253, (1, (3458576180058169117529 / 28147497671065600))), (0x4630624325266253, (2, 0)), (0x0463624325266253, (2, (3458576180058169117529 / 2814749767106560)))] :=
  NodeRes.expand_on tableEnv 2 1 3 _ _ _ _ 1 [0] (1 / 10) _ _
    (by norm_num [CPROB_THRESH_BASE, tableEnv]) (by decide) (Or.inl rfl)
    (by decide) (by decide) (by decide) (by norm_num [tableEnv, FloatEnv.fmul, FloatEnv.fadd, FloatEnv.fdiv])
    (FoldRes.cons tableEnv _ 1 3 _ _ 0 _ _ _ _ _ _ _ _ _ _ _ _ 0 _
      (by decide) (by decide) (by norm_num [tableEnv, FloatEnv.fmul, FloatEnv.fadd, FloatEnv.fdiv])
      (by norm_num [tableEnv, FloatEnv.fmul, FloatEnv.fadd, FloatEnv.fdiv])
      move_c_15 move_c_16
      (by norm_num [tableEnv, FloatEnv.fmul, FloatEnv.fadd, FloatEnv.fdiv])
      (FoldRes.nil tableEnv _ 1 3 _ _ _ _))
    (by norm_num [tableEnv, FloatEnv.fmul, FloatEnv.fadd, FloatEnv.fdiv])

theorem move_c_18 :
    NodeRes (scoreMoveNodeWith (tileNodeOn true tableEnv 2)) 1 3
      [(0x4623624625236250, (1, 0)), (0x4620624325266253, (1, (3458576180058169117529 / 28147497671065600))), (0x4630624325266253, (2, 0)), (0x0463624325266253, (2, (3458576180058169117529 / 2814749767106560)))]
      0x1463624225266253 (9 / 100) 0
      [(0x4623624625236250, (1, 0)), (0x4620624325266253, (1, (3458576180058169117529 / 28147497671065600))), (0x4630624325266253, (2, 0)), (0x0463624325266253, (2, (3458576180058169117529 / 2814749767106560)))] :=
  NodeRes.move _ 1 3 _ _ _ _ _ _ _ _ _ _ _
    (StepRes.unchanged _ 2 3 _ _ 0 _ _ executeMove_0_1463624225266253)
    (StepRes.unchanged _ 2 3 _ _ 1 _ _ executeMove_1_1463624225266253)
    (StepRes.unchanged _ 2 3 _ _ 2 _ _ executeMove_2_1463624225266253)
    (StepRes.unchanged _ 2 3 _ _ 3 _ _ executeMove_3_1463624225266253)
    _ (by norm_num)

theorem move_c_19 :
    NodeRes (scoreMoveNodeWith (tileNodeOn true tableEnv 2)) 1 3
      [(0x4623624625236250, (1, 0)), (0x4620624325266253, (1, (3458576180058169117529 / 28147497671065600))), (0x4630624325266253, (2, 0)), (0x0463624325266253, (2, (3458576180058169117529 / 2814749767106560)))]
      0x2463624225266253 (1 / 100) 0
      [(0x4623624625236250, (1, 0)), (0x4620624325266253, (1, (3458576180058169117529 / 28147497671065600))), (0x4630624325266253, (2, 0)), (0x0463624325266253, (2, (3458576180058169117529 / 2814749767106560)))] :=
  NodeRes.move _ 1 3 _ _ _ _ _ _ _ _ _ _ _
    (StepRes.unchanged _ 2 3 _ _ 0 _ _ executeMove_0_2463624225266253)
    (StepRes.unchanged _ 2 3 _ _ 1 _ _ executeMove_1_2463624225266253)
    (StepRes.unchanged _ 2 3 _ _ 2 _ _ executeMove_2_2463624225266253)
    (StepRes.unchanged _ 2 3 _ _ 3 _ _ executeMove_3_2463624225266253)
    _ (by norm_num)

theorem node_c_20 :
    NodeRes (tileNodeOn true tableEnv 3) 1 3
      [(0x4623624625236250, (1, 0)), (0x4620624325266253, (1, (3458576180058169117529 / 28147497671065600))), (0x4630624325266253, (2, 0)), (0x0463624325266253, (2, (3458576180058169117529 / 2814749767106560)))]
      0x0463624225266253 (1 / 10) 0
      [(0x0463624225266253, (1, 0)), (0x4623624625236250, (1, 0)), (0x4620624325266253, (1, (3458576180058169117529 / 28147497671065600))), (0x4630624325266253, (2, 0)), (0x0463624325266253, (2, (3458576180058169117529 / 2814749767106560)))] :=
  NodeRes.expand_on tableEnv 2 1 3 _ _ _ _ 1 [15] (1 / 10) _ _
    (by norm_num [CPROB_THRESH_BASE, tableEnv]) (by decide) (Or.inl rfl)
    (by decide) (by decide) (by decide) (by norm_num [tableEnv, FloatEnv.fmul, FloatEnv.fadd, FloatEnv.fdiv])
    (FoldRes.cons tableEnv _ 1 3 _ _ 15 _ _ _ _ _ _ _ _ _ _ _ _ 0 _
      (by decide) (by decide) (by norm_num [tableEnv, FloatEnv.fmul, FloatEnv.fadd, FloatEnv.fdiv])
      (by norm_num [tableEnv, FloatEnv.fmul, FloatEnv.fadd, FloatEnv.fdiv])
      move_c_18 move_c_19
      (by norm_num [tableEnv, FloatEnv.fmul, FloatEnv.fadd, FloatEnv.fdiv])
      (FoldRes.nil tableEnv _ 1 3 _ _ _ _))
    (by norm_num [tableEnv, FloatEnv.fmul, FloatEnv.fadd, FloatEnv.fdiv])

theorem move_c_21 :
    NodeRes (scoreMoveNodeWith (tileNodeOn true tableEnv 2)) 1 3
      [(0x0463624225266253, (1, 0)), (0x4623624625236250, (1, 0)), (0x4620624325266253, (1, (3458576180058169117529 / 28147497671065600))), (0x4630624325266253, (2, 0)), (0x0463624325266253, (2, (3458576180058169117529 / 2814749767106560)))]
      0x4631624225266253 (9 / 100) 0
      [(0x0463624225266253, (1, 0)), (0x4623624625236250, (1, 0)), (0x4620624325266253, (1, (3458576180058169117529 / 28147497671065600))), (0x4630624325266253, (2, 0)), (0x0463624325266253, (2, (3458576180058169117529 / 2814749767106560)))] :=
  NodeRes.move _ 1 3 _ _ _ _ _ _ _ _ _ _ _
    (StepRes.unchanged _ 2 3 _ _ 0 _ _ executeMove_0_4631624225266253)
    (StepRes.unchanged _ 2 3 _ _ 1 _ _ executeMove_1_4631624225266253)
    (StepRes.unchanged _ 2 3 _ _ 2 _ _ executeMove_2_4631624225266253)
    (StepRes.unchanged _ 2 3 _ _ 3 _ _ executeMove_3_4631624225266253)
    _ (by norm_num)

theorem node_c_22 :
    NodeRes (tileNodeOn true tableEnv 2) 2 3
      [(0x0463624225266253, (1, 0)), (0x4623624625236250, (1, 0)), (0x4620624325266253, (1, (3458576180058169117529 / 28147497671065600))), (0x4630624325266253, (2, 0)), (0x0463624325266253, (2, (3458576180058169117529 / 2814749767106560)))]
      0x4630624325266253 (1 / 100) 0
      [(0x0463624225266253, (1, 0)), (0x4623624625236250, (1, 0)), (0x4620624325266253, (1, (3458576180058169117529 / 28147497671065600))), (0x4630624325266253, (2, 0)), (0x0463624325266253, (2, (3458576180058169117529 / 2814749767106560)))] :=
  NodeRes.hit tableEnv 1 2 3 _ _ _ 2 _ (by norm_num [CPROB_THRESH_BASE, tableEnv]) (by decide) rfl (by decide)

theorem node_c_23 :
    NodeRes (tileNodeOn true tableEnv 1) 3 3
      [(0x0463624225266253, (1, 0)), (0x4623624625236250, (1, 0)), (0x4620624325266253, (1, (3458576180058169117529 / 28147497671065600))), (0x4630624325266253, (2, 0)), (0x0463624325266253, (2, (3458576180058169117529 / 2814749767106560)))]
      0x0464624625236251 (9 / 1000) (84345052045540099873 / 70368744177664)
      [(0x0463624225266253, (1, 0)), (0x4623624625236250, (1, 0)), (0x4620624325266253, (1, (3458576180058169117529 / 28147497671065600))), (0x4630624325266253, (2, 0)), (0x0463624325266253, (2, (3458576180058169117529 / 2814749767106560)))] :=
  NodeRes.leaf true tableEnv 0 3 3 _ _ _ _ (Or.inr (by decide)) scoreHeurBoard_0464624625236251

theorem node_c_24 :
    NodeRes (tileNodeOn true tableEnv 1) 3 3
      [(0x0463624225266253, (1, 0)), (0x4623624625236250, (1, 0)), (0x4620624325266253, (1, (3458576180058169117529 / 28147497671065600))), (0x4630624325266253, (2, 0)), (0x0463624325266253, (2, (3458576180058169117529 / 2814749767106560)))]
      0x4640624625236251 (9 / 1000) (84820604018692753185 / 70368744177664)
      [(0x0463624225266253, (1, 0)), (0x4623624625236250, (1, 0)), (0x4620624325266253, (1, (3458576180058169117529 / 28147497671065600))), (0x4630624325266253, (2, 0)), (0x0463624325266253, (2, (3458576180058169117529 / 2814749767106560)))] :=
  NodeRes.leaf true tableEnv 0 3 3 _ _ _ _ (Or.inr (by decide)) scoreHeurBoard_4640624625236251

theorem move_c_25 :
    NodeRes (scoreMoveNodeWith (tileNodeOn true tableEnv 1)) 2 3
      [(0x0463624225266253, (1, 0)), (0x4623624625236250, (1, 0)), (0x4620624325266253, (1, (3458576180058169117529 / 28147497671065600))), (0x4630624325266253, (2, 0)), (0x0463624325266253, (2, (3458576180058169117529 / 2814749767106560)))]
      0x4633624625236251 (9 / 1000) (84820604018692753185 / 70368744177664)
      [(0x0463624225266253, (1, 0)), (0x4623624625236250, (1, 0)), (0x4620624325266253, (1, (3458576180058169117529 / 28147497671065600))), (0x4630624325266253, (2, 0)), (0x0463624325266253, (2, (3458576180058169117529 / 2814749767106560)))] :=
  NodeRes.move _ 2 3 _ _ _ _ _ _ _ _ _ _ _
    (StepRes.unchanged _ 3 3 _ _ 0 _ _ executeMove_0_4633624625236251)
    (StepRes.unchanged _ 3 3 _ _ 1 _ _ executeMove_1_4633624625236251)
    (StepRes.changed _ 3 3 _ _ 2 _ _ _ _ _ _ executeMove_2_4633624625236251 (by decide) node_c_23 rfl)
    (StepRes.changed _ 3 3 _ _ 3 _ _ _ _ _ _ executeMove_3_4633624625236251 (by decide) node_c_24 rfl)
    _ (by norm_num)

theorem node_c_26 :
    NodeRes (tileNodeOn true tableEnv 1) 3 3
      [(0x0463624225266253, (1, 0)), (0x4623624625236250, (1, 0)), (0x4620624325266253, (1, (3458576180058169117529 / 28147497671065600))), (0x4630624325266253, (2, 0)), (0x0463624325266253, (2, (3458576180058169117529 / 2814749767106560)))]
      0x0464624625236252 (1 / 1000) (337316341063250250421 / 281474976710656)
      [(0x0463624225266253, (1, 0)), (0x4623624625236250, (1, 0)), (0x4620624325266253, (1, (3458576180058169117529 / 28147497671065600))), (0x4630624325266253, (2, 0)), (0x0463624325266253, (2, (3458576180058169117529 / 2814749767106560)))] :=
  NodeRes.leaf true tableEnv 0 3 3 _ _ _ _ (Or.inr (by decide)) scoreHeurBoard_0464624625236252

theorem node_c_27 :
    NodeRes (tileNodeOn true tableEnv 1) 3 3
      [(0x0463624225266253, (1, 0)), (0x4623624625236250, (1, 0)), (0x4620624325266253, (1, (3458576180058169117529 / 28147497671065600))), (0x4630624325266253, (2, 0)), (0x0463624325266253, (2, (3458576180058169117529 / 2814749767106560)))]
      0x4640624625236252 (1 / 1000) (339416988814441876149 / 281474976710656)
      [(0x0463624225266253, (1, 0)), (0x4623624625236250, (1, 0)), (0x4620624325266253, (1, (3458576180058169117529 / 28147497671065600))), (0x4630624325266253, (2, 0)), (0x0463624325266253, (2, (3458576180058169117529 / 2814749767106560)))] :=
  NodeRes.leaf true tableEnv 0 3 3 _ _ _ _ (Or.inr (by decide)) scoreHeurBoard_4640624625236252

theorem move_c_28 :
    NodeRes (scoreMoveNodeWith (tileNodeOn true tableEnv 1)) 2 3
      [(0x0463624225266253, (1, 0)), (0x4623624625236250, (1, 0)), (0x4620624325266253, (1, (3458576180058169117529 / 28147497671065600))), (0x4630624325266253, (2, 0)), (0x0463624325266253, (2, (3458576180058169117529 / 2814749767106560)))]
      0x4633624625236252 (1 / 1000) (339416988814441876149 / 281474976710656)
      [(0x0463624225266253, (1, 0)), (0x4623624625236250, (1, 0)), (0x4620624325266253, (1, (3458576180058169117529 / 28147497671065600))), (0x4630624325266253, (2, 0)), (0x0463624325266253, (2, (3458576180058169117529 / 2814749767106560)))] :=
  NodeRes.move _ 2 3 _ _ _ _ _ _ _ _ _ _ _
    (StepRes.unchanged _ 3 3 _ _ 0 _ _ executeMove_0_4633624625236252)
    (StepRes.unchanged _ 3 3 _ _ 1 _ _ executeMove_1_4633624625236252)
    (StepRes.changed _ 3 3 _ _ 2 _ _ _ _ _ _ executeMove_2_4633624625236252 (by decide) node_c_26 rfl)
    (StepRes.changed _ 3 3 _ _ 3 _ _ _ _ _ _ executeMove_3_4633624625236252 (by decide) node_c_27 rfl)
    _ (by norm_num)

theorem node_c_29 :
    NodeRes (tileNodeOn true tableEnv 2) 2 3
      [(0x0463624225266253, (1, 0)), (0x4623624625236250, (1, 0)), (0x4620624325266253, (1, (3458576180058169117529 / 28147497671065600))), (0x4630624325266253, (2, 0)), (0x0463624325266253, (2, (3458576180058169117529 / 2814749767106560)))]
      0x4633624625236250 (1 / 100) (3392958733487380990809 / 2814749767106560)
      [(0x4633624625236250, (2, (3392958733487380990809 / 2814749767106560))), (0x0463624225266253, (1, 0)), (0x4623624625236250, (1, 0)), (0x4620624325266253, (1, (3458576180058169117529 / 28147497671065600))), (0x4630624325266253, (2, 0)), (0x0463624325266253, (2, (3458576180058169117529 / 2814749767106560)))] :=
  NodeRes.expand_on tableEnv 1 2 3 _ _ _ _ 1 [0] (1 / 100) _ _
    (by norm_num [CPROB_THRESH_BASE, tableEnv]) (by decide) (Or.inl rfl)
    (by decide) (by decide) (by decide) (by norm_num [tableEnv, FloatEnv.fmul, FloatEnv.fadd, FloatEnv.fdiv])
    (FoldRes.cons tableEnv _ 2 3 _ _ 0 _ _ _ _ _ _ _ _ _ _ _ _ (3392958733487380990809 / 2814749767106560) _
      (by decide) (by decide) (by norm_num [tableEnv, FloatEnv.fmul, FloatEnv.fadd, FloatEnv.fdiv])
      (by norm_num [tableEnv, FloatEnv.fmul, FloatEnv.fadd, FloatEnv.fdiv])
      move_c_25 move_c_28
      (by norm_num [tableEnv, FloatEnv.fmul, FloatEnv.fadd, FloatEnv.fdiv])
      (FoldRes.nil tableEnv _ 2 3 _ _ _ _))
    (by norm_num [tableEnv, FloatEnv.fmul, FloatEnv.fadd, FloatEnv.fdiv])

theorem move_c_30 :
    NodeRes (scoreMoveNodeWith (tileNodeOn true tableEnv 2)) 1 3
      [(0x0463624225266253, (1, 0)), (0x4623624625236250, (1, 0)), (0x4620624325266253, (1, (3458576180058169117529 / 28147497671065600))), (0x4630624325266253, (2, 0)), (0x0463624325266253, (2, (3458576180058169117529 / 2814749767106560)))]
      0x4632624225266253 (1 / 100) (3392958733487380990809 / 2814749767106560)
      [(0x4633624625236250, (2, (3392958733487380990809 / 2814749767106560))), (0x0463624225266253, (1, 0)), (0x4623624625236250, (1, 0)), (0x4620624325266253, (1, (3458576180058169117529 / 28147497671065600))), (0x4630624325266253, (2, 0)), (0x0463624325266253, (2, (3458576180058169117529 / 2814749767106560)))] :=
  NodeRes.move _ 1 3 _ _ _ _ _ _ _ _ _ _ _
    (StepRes.changed _ 2 3 _ _ 0 _ _ _ _ _ _ executeMove_0_4632624225266253 (by decide) node_c_22 rfl)
    (StepRes.changed _ 2 3 _ _ 1 _ _ _ _ _ _ executeMove_1_4632624225266253 (by decide) node_c_29 rfl)
    (StepRes.unchanged _ 2 3 _ _ 2 _ _ executeMove_2_4632624225266253)
    (StepRes.unchanged _ 2 3 _ _ 3 _ _ executeMove_3_4632624225266253)
    _ (by norm_num)

theorem node_c_31 :
    NodeRes (tileNodeOn true tableEnv 3) 1 3
      [(0x0463624225266253, (1, 0)), (0x4623624625236250, (1, 0)), (0x4620624325266253, (1, (3458576180058169117529 / 28147497671065600))), (0x4630624325266253, (2, 0)), (0x0463624325266253, (2, (3458576180058169117529 / 2814749767106560)))]
      0x4630624225266253 (1 / 10) (3392958733487380990809 / 28147497671065600)
      [(0x4630624225266253, (1, (3392958733487380990809 / 28147497671065600))), (0x4633624625236250, (2, (3392958733487380990809 / 2814749767106560))), (0x0463624225266253, (1, 0)), (0x4623624625236250, (1, 0)), (0x4620624325266253, (1, (3458576180058169117529 / 28147497671065600))), (0x4630624325266253, (2, 0)), (0x0463624325266253, (2, (3458576180058169117529 / 2814749767106560)))] :=
  NodeRes.expand_on tableEnv 2 1 3 _ _ _ _ 1 [12] (1 / 10) _ _
    (by norm_num [CPROB_THRESH_BASE, tableEnv]) (by decide) (Or.inl rfl)
    (by decide) (by decide) (by decide) (by norm_num [tableEnv, FloatEnv.fmul, FloatEnv.fadd, FloatEnv.fdiv])
    (FoldRes.cons tableEnv _ 1 3 _ _ 12 _ _ _ _ _ _ _ _ _ _ _ _ (3392958733487380990809 / 28147497671065600) _
      (by decide) (by decide) (by norm_num [tableEnv, FloatEnv.fmul, FloatEnv.fadd, FloatEnv.fdiv])
      (by norm_num [tableEnv, FloatEnv.fmul, FloatEnv.fadd, FloatEnv.fdiv])
      move_c_21 move_c_30
      (by norm_num [tableEnv, FloatEnv.fmul, FloatEnv.fadd, FloatEnv.fdiv])
      (FoldRes.nil tableEnv _ 1 3 _ _ _ _))
    (by norm_num [tableEnv, FloatEnv.fmul, FloatEnv.fadd, FloatEnv.fdiv])

theorem move_c_32 :
    NodeRes (scoreMoveNodeWith (tileNodeOn true tableEnv 3)) 0 3
      []
      0x4622624225266253 (1 / 10) (3458576180058169117529 / 28147497671065600)
      [(0x4630624225266253, (1, (3392958733487380990809 / 28147497671065600))), (0x4633624625236250, (2, (3392958733487380990809 / 2814749767106560))), (0x0463624225266253, (1, 0)), (0x4623624625236250, (1, 0)), (0x4620624325266253, (1, (3458576180058169117529 / 28147497671065600))), (0x4630624325266253, (2, 0)), (0x0463624325266253, (2, (3458576180058169117529 / 2814749767106560)))] :=
  NodeRes.move _ 0 3 _ _ _ _ _ _ _ _ _ _ _
    (StepRes.changed _ 1 3 _ _ 0 _ _ _ _ _ _ executeMove_0_4622624225266253 (by decide) node_c_14 rfl)
    (StepRes.changed _ 1 3 _ _ 1 _ _ _ _ _ _ executeMove_1_4622624225266253 (by decide) node_c_17 rfl)
    (StepRes.changed _ 1 3 _ _ 2 _ _ _ _ _ _ executeMove_2_4622624225266253 (by decide) node_c_20 rfl)
    (StepRes.changed _ 1 3 _ _ 3 _ _ _ _ _ _ executeMove_3_4622624225266253 (by decide) node_c_31 rfl)
    _ (by norm_num)

theorem node_c_33 :
    NodeRes (tileNodeOn true tableEnv 4) 0 3
      []
      0x4620624225266253 1 (3458576180058169117529 / 281474976710656000)
      [(0x4620624225266253, (0, (3458576180058169117529 / 281474976710656000))), (0x4630624225266253, (1, (3392958733487380990809 / 28147497671065600))), (0x4633624625236250, (2, (3392958733487380990809 / 2814749767106560))), (0x0463624225266253, (1, 0)), (0x4623624625236250, (1, 0)), (0x4620624325266253, (1, (3458576180058169117529 / 28147497671065600))), (0x4630624325266253, (2, 0)), (0x0463624325266253, (2, (3458576180058169117529 / 2814749767106560)))] :=
  NodeRes.expand_on tableEnv 3 0 3 _ _ _ _ 1 [12] 1 _ _
    (by norm_num [CPROB_THRESH_BASE, tableEnv]) (by decide) (Or.inl rfl)
    (by decide) (by decide) (by decide) (by norm_num [tableEnv, FloatEnv.fmul, FloatEnv.fadd, FloatEnv.fdiv])
    (FoldRes.cons tableEnv _ 0 3 _ _ 12 _ _ _ _ _ _ _ _ _ _ _ _ (3458576180058169117529 / 281474976710656000) _
      (by decide) (by decide) (by norm_num [tableEnv, FloatEnv.fmul, FloatEnv.fadd, FloatEnv.fdiv])
      (by norm_num [tableEnv, FloatEnv.fmul, FloatEnv.fadd, FloatEnv.fdiv])
      move_c_1 move_c_32
      (by norm_num [tableEnv, FloatEnv.fmul, FloatEnv.fadd, FloatEnv.fdiv])
      (FoldRes.nil tableEnv _ 0 3 _ _ _ _))
    (by norm_num [tableEnv, FloatEnv.fmul, FloatEnv.fadd, FloatEnv.fdiv])

theorem top_c_0 : ∀ t : Nat → Option (Int × ℚ),
    (∀ x, t x = List.lookup x ([] : List (Nat × (Int × ℚ)))) →
    ∃ t2 hits, topLevelOn true tableEnv t 0x4622624525256253 0 = some ((432322022542455511779957 / 35184372088832000000), t2, hits) ∧
      ∀ x, t2 x = List.lookup x ([(0x4620624225266253, (0, (3458576180058169117529 / 281474976710656000))), (0x4630624225266253, (1, (3392958733487380990809 / 28147497671065600))), (0x4633624625236250, (2, (3392958733487380990809 / 2814749767106560))), (0x0463624225266253, (1, 0)), (0x4623624625236250, (1, 0)), (0x4620624325266253, (1, (3458576180058169117529 / 28147497671065600))), (0x4630624325266253, (2, 0)), (0x0463624325266253, (2, (3458576180058169117529 / 2814749767106560)))] : List (Nat × (Int × ℚ))) :=
  topLevelOn_changed true tableEnv _ 0 _ _ _ 5 3 4 _ _ executeMove_0_4622624525256253 (by decide)
    (by decide) (by decide) (by decide) node_c_33 (by norm_num [tableEnv])

theorem move_c_34 :
    NodeRes (scoreMoveNodeWith (tileNodeOn true tableEnv 2)) 1 3
      [(0x4620624225266253, (0, (3458576180058169117529 / 281474976710656000))), (0x4630624225266253, (1, (3392958733487380990809 / 28147497671065600))), (0x4633624625236250, (2, (3392958733487380990809 / 2814749767106560))), (0x0463624225266253, (1, 0)), (0x4623624625236250, (1, 0)), (0x4620624325266253, (1, (3458576180058169117529 / 28147497671065600))), (0x4630624325266253, (2, 0)), (0x0463624325266253, (2, (3458576180058169117529 / 2814749767106560)))]
      0x1463624625236251 (81 / 100) 0
      [(0x4620624225266253, (0, (3458576180058169117529 / 281474976710656000))), (0x4630624225266253, (1, (3392958733487380990809 / 28147497671065600))), (0x4633624625236250, (2, (3392958733487380990809 / 2814749767106560))), (0x0463624225266253, (1, 0)), (0x4623624625236250, (1, 0)), (0x4620624325266253, (1, (3458576180058169117529 / 28147497671065600))), (0x4630624325266253, (2, 0)), (0x0463624325266253, (2, (3458576180058169117529 / 2814749767106560)))] :=
  NodeRes.move _ 1 3 _ _ _ _ _ _ _ _ _ _ _
    (StepRes.unchanged _ 2 3 _ _ 0 _ _ executeMove_0_1463624625236251)
    (StepRes.unchanged _ 2 3 _ _ 1 _ _ executeMove_1_1463624625236251)
    (StepRes.unchanged _ 2 3 _ _ 2 _ _ executeMove_2_1463624625236251)
    (StepRes.unchanged _ 2 3 _ _ 3 _ _ executeMove_3_1463624625236251)
    _ (by norm_num)

theorem move_c_35 :
    NodeRes (scoreMoveNodeWith (tileNodeOn true tableEnv 2)) 1 3
      [(0x4620624225266253, (0, (3458576180058169117529 / 281474976710656000))), (0x4630624225266253, (1, (3392958733487380990809 / 28147497671065600))), (0x4633624625236250, (2, (3392958733487380990809 / 2814749767106560))), (0x0463624225266253, (1, 0)), (0x4623624625236250, (1, 0)), (0x4620624325266253, (1, (3458576180058169117529 / 28147497671065600))), (0x4630624325266253, (2, 0)), (0x0463624325266253, (2, (3458576180058169117529 / 2814749767106560)))]
      0x2463624625236251 (9 / 100) 0
      [(0x4620624225266253, (0, (3458576180058169117529 / 281474976710656000))), (0x4630624225266253, (1, (3392958733487380990809 / 28147497671065600))), (0x4633624625236250, (2, (3392958733487380990809 / 2814749767106560))), (0x0463624225266253, (1, 0)), (0x4623624625236250, (1, 0)), (0x4620624325266253, (1, (3458576180058169117529 / 28147497671065600))), (0x4630624325266253, (2, 0)), (0x0463624325266253, (2, (3458576180058169117529 / 2814749767106560)))] :=
  NodeRes.move _ 1 3 _ _ _ _ _ _ _ _ _ _ _
    (StepRes.unchanged _ 2 3 _ _ 0 _ _ executeMove_0_2463624625236251)
    (StepRes.unchanged _ 2 3 _ _ 1 _ _ executeMove_1_2463624625236251)
    (StepRes.unchanged _ 2 3 _ _ 2 _ _ executeMove_2_2463624625236251)
    (StepRes.unchanged _ 2 3 _ _ 3 _ _ executeMove_3_2463624625236251)
    _ (by norm_num)

theorem node_c_36 :
    NodeRes (tileNodeOn true tableEnv 3) 1 3
      [(0x4620624225266253, (0, (3458576180058169117529 / 281474976710656000))), (0x4630624225266253, (1, (3392958733487380990809 / 28147497671065600))), (0x4633624625236250, (2, (3392958733487380990809 / 2814749767106560))), (0x0463624225266253, (1, 0)), (0x4623624625236250, (1, 0)), (0x4620624325266253, (1, (3458576180058169117529 / 28147497671065600))), (0x4630624325266253, (2, 0)), (0x0463624325266253, (2, (3458576180058169117529 / 2814749767106560)))]
      0x0463624625236251 (9 / 10) 0
      [(0x0463624625236251, (1, 0)), (0x4620624225266253, (0, (3458576180058169117529 / 281474976710656000))), (0x4630624225266253, (1, (3392958733487380990809 / 28147497671065600))), (0x4633624625236250, (2, (3392958733487380990809 / 2814749767106560))), (0x0463624225266253, (1, 0)), (0x4623624625236250, (1, 0)), (0x4620624325266253, (1, (3458576180058169117529 / 28147497671065600))), (0x4630624325266253, (2, 0)), (0x0463624325266253, (2, (3458576180058169117529 / 2814749767106560)))] :=
  NodeRes.expand_on tableEnv 2 1 3 _ _ _ _ 1 [15] (9 / 10) _ _
    (by norm_num [CPROB_THRESH_BASE, tableEnv]) (by decide) (Or.inl rfl)
    (by decide) (by decide) (by decide) (by norm_num [tableEnv, FloatEnv.fmul, FloatEnv.fadd, FloatEnv.fdiv])
    (FoldRes.cons tableEnv _ 1 3 _ _ 15 _ _ _ _ _ _ _ _ _ _ _ _ 0 _
      (by decide) (by decide) (by norm_num [tableEnv, FloatEnv.fmul, FloatEnv.fadd, FloatEnv.fdiv])
      (by norm_num [tableEnv, FloatEnv.fmul, FloatEnv.fadd, FloatEnv.fdiv])
      move_c_34 move_c_35
      (by norm_num [tableEnv, FloatEnv.fmul, FloatEnv.fadd, FloatEnv.fdiv])
      (FoldRes.nil tableEnv _ 1 3 _ _ _ _))
    (by norm_num [tableEnv, FloatEnv.fmul, FloatEnv.fadd, FloatEnv.fdiv])

theorem move_c_37 :
    NodeRes (scoreMoveNodeWith (tileNodeOn true tableEnv 2)) 1 3
      [(0x0463624625236251, (1, 0)), (0x4620624225266253, (0, (3458576180058169117529 / 281474976710656000))), (0x4630624225266253, (1, (3392958733487380990809 / 28147497671065600))), (0x4633624625236250, (2, (3392958733487380990809 / 2814749767106560))), (0x0463624225266253, (1, 0)), (0x4623624625236250, (1, 0)), (0x4620624325266253, (1, (3458576180058169117529 / 28147497671065600))), (0x4630624325266253, (2, 0)), (0x0463624325266253, (2, (3458576180058169117529 / 2814749767106560)))]
      0x4631624625236251 (81 / 100) 0
      [(0x0463624625236251, (1, 0)), (0x4620624225266253, (0, (3458576180058169117529 / 281474976710656000))), (0x4630624225266253, (1, (3392958733487380990809 / 28147497671065600))), (0x4633624625236250, (2, (3392958733487380990809 / 2814749767106560))), (0x0463624225266253, (1, 0)), (0x4623624625236250, (1, 0)), (0x4620624325266253, (1, (3458576180058169117529 / 28147497671065600))), (0x4630624325266253, (2, 0)), (0x0463624325266253, (2, (3458576180058169117529 / 2814749767106560)))] :=
  NodeRes.move _ 1 3 _ _ _ _ _ _ _ _ _ _ _
    (StepRes.unchanged _ 2 3 _ _ 0 _ _ executeMove_0_4631624625236251)
    (StepRes.unchanged _ 2 3 _ _ 1 _ _ executeMove_1_4631624625236251)
    (StepRes.unchanged _ 2 3 _ _ 2 _ _ executeMove_2_4631624625236251)
    (StepRes.unchanged _ 2 3 _ _ 3 _ _ executeMove_3_4631624625236251)
    _ (by norm_num)

theorem move_c_38 :
    NodeRes (scoreMoveNodeWith (tileNodeOn true tableEnv 2)) 1 3
      [(0x0463624625236251, (1, 0)), (0x4620624225266253, (0, (3458576180058169117529 / 281474976710656000))), (0x4630624225266253, (1, (3392958733487380990809 / 28147497671065600))), (0x4633624625236250, (2, (3392958733487380990809 / 2814749767106560))), (0x0463624225266253, (1, 0)), (0x4623624625236250, (1, 0)), (0x4620624325266253, (1, (3458576180058169117529 / 28147497671065600))), (0x4630624325266253, (2, 0)), (0x0463624325266253, (2, (3458576180058169117529 / 2814749767106560)))]
      0x4632624625236251 (9 / 100) 0
      [(0x0463624625236251, (1, 0)), (0x4620624225266253, (0, (3458576180058169117529 / 281474976710656000))), (0x4630624225266253, (1, (3392958733487380990809 / 28147497671065600))), (0x4633624625236250, (2, (3392958733487380990809 / 2814749767106560))), (0x0463624225266253, (1, 0)), (0x4623624625236250, (1, 0)), (0x4620624325266253, (1, (3458576180058169117529 / 28147497671065600))), (0x4630624325266253, (2, 0)), (0x0463624325266253, (2, (3458576180058169117529 / 2814749767106560)))] :=
  NodeRes.move _ 1 3 _ _ _ _ _ _ _ _ _ _ _
    (StepRes.unchanged _ 2 3 _ _ 0 _ _ executeMove_0_4632624625236251)
    (StepRes.unchanged _ 2 3 _ _ 1 _ _ executeMove_1_4632624625236251)
    (StepRes.unchanged _ 2 3 _ _ 2 _ _ executeMove_2_4632624625236251)
    (StepRes.unchanged _ 2 3 _ _ 3 _ _ executeMove_3_4632624625236251)
    _ (by norm_num)

theorem node_c_39 :
    NodeRes (tileNodeOn true tableEnv 3) 1 3
      [(0x0463624625236251, (1, 0)), (0x4620624225266253, (0, (3458576180058169117529 / 281474976710656000))), (0x4630624225266253, (1, (3392958733487380990809 / 28147497671065600))), (0x4633624625236250, (2, (3392958733487380990809 / 2814749767106560))), (0x0463624225266253, (1, 0)), (0x4623624625236250, (1, 0)), (0x4620624325266253, (1, (3458576180058169117529 / 28147497671065600))), (0x4630624325266253, (2, 0)), (0x0463624325266253, (2, (3458576180058169117529 / 2814749767106560)))]
      0x4630624625236251 (9 / 10) 0
      [(0x4630624625236251, (1, 0)), (0x0463624625236251, (1, 0)), (0x4620624225266253, (0, (3458576180058169117529 / 281474976710656000))), (0x4630624225266253, (1, (3392958733487380990809 / 28147497671065600))), (0x4633624625236250, (2, (3392958733487380990809 / 2814749767106560))), (0x0463624225266253, (1, 0)), (0x4623624625236250, (1, 0)), (0x4620624325266253, (1, (3458576180058169117529 / 28147497671065600))), (0x4630624325266253, (2, 0)), (0x0463624325266253, (2, (3458576180058169117529 / 2814749767106560)))] :=
  NodeRes.expand_on tableEnv 2 1 3 _ _ _ _ 1 [12] (9 / 10) _ _
    (by norm_num [CPROB_THRESH_BASE, tableEnv]) (by decide) (Or.inl rfl)
    (by decide) (by decide) (by decide) (by norm_num [tableEnv, FloatEnv.fmul, FloatEnv.fadd, FloatEnv.fdiv])
    (FoldRes.cons tableEnv _ 1 3 _ _ 12 _ _ _ _ _ _ _ _ _ _ _ _ 0 _
      (by decide) (by decide) (by norm_num [tableEnv, FloatEnv.fmul, FloatEnv.fadd, FloatEnv.fdiv])
      (by norm_num [tableEnv, FloatEnv.fmul, FloatEnv.fadd, FloatEnv.fdiv])
      move_c_37 move_c_38
      (by norm_num [tableEnv, FloatEnv.fmul, FloatEnv.fadd, FloatEnv.fdiv])
      (FoldRes.nil tableEnv _ 1 3 _ _ _ _))
    (by norm_num [tableEnv, FloatEnv.fmul, FloatEnv.fadd, FloatEnv.fdiv])

theorem move_c_40 :
    NodeRes (scoreMoveNodeWith (tileNodeOn true tableEnv 3)) 0 3
      [(0x4620624225266253, (0, (3458576180058169117529 / 281474976710656000))), (0x4630624225266253, (1, (3392958733487380990809 / 28147497671065600))), (0x4633624625236250, (2, (3392958733487380990809 / 2814749767106560))), (0x0463624225266253, (1, 0)), (0x4623624625236250, (1, 0)), (0x4620624325266253, (1, (3458576180058169117529 / 28147497671065600))), (0x4630624325266253, (2, 0)), (0x0463624325266253, (2, (3458576180058169117529 / 2814749767106560)))]
      0x4622624625236251 (9 / 10) 0
      [(0x4630624625236251, (1, 0)), (0x0463624625236251, (1, 0)), (0x4620624225266253, (0, (3458576180058169117529 / 281474976710656000))), (0x4630624225266253, (1, (3392958733487380990809 / 28147497671065600))), (0x4633624625236250, (2, (3392958733487380990809 / 2814749767106560))), (0x0463624225266253, (1, 0)), (0x4623624625236250, (1, 0)), (0x4620624325266253, (1, (3458576180058169117529 / 28147497671065600))), (0x4630624325266253, (2, 0)), (0x0463624325266253, (2, (3458576180058169117529 / 2814749767106560)))] :=
  NodeRes.move _ 0 3 _ _ _ _ _ _ _ _ _ _ _
    (StepRes.unchanged _ 1 3 _ _ 0 _ _ executeMove_0_4622624625236251)
    (StepRes.unchanged _ 1 3 _ _ 1 _ _ executeMove_1_4622624625236251)
    (StepRes.changed _ 1 3 _ _ 2 _ _ _ _ _ _ executeMove_2_4622624625236251 (by decide) node_c_36 rfl)
    (StepRes.changed _ 1 3 _ _ 3 _ _ _ _ _ _ executeMove_3_4622624625236251 (by decide) node_c_39 rfl)
    _ (by norm_num)

theorem move_c_41 :
    NodeRes (scoreMoveNodeWith (tileNodeOn true tableEnv 2)) 1 3
      [(0x4630624625236251, (1, 0)), (0x0463624625236251, (1, 0)), (0x4620624225266253, (0, (3458576180058169117529 / 281474976710656000))), (0x4630624225266253, (1, (3392958733487380990809 / 28147497671065600))), (0x4633624625236250, (2, (3392958733487380990809 / 2814749767106560))), (0x0463624225266253, (1, 0)), (0x4623624625236250, (1, 0)), (0x4620624325266253, (1, (3458576180058169117529 / 28147497671065600))), (0x4630624325266253, (2, 0)), (0x0463624325266253, (2, (3458576180058169117529 / 2814749767106560)))]
      0x1463624625236252 (9 / 100) 0
      [(0x4630624625236251, (1, 0)), (0x0463624625236251, (1, 0)), (0x4620624225266253, (0, (3458576180058169117529 / 281474976710656000))), (0x4630624225266253, (1, (3392958733487380990809 / 28147497671065600))), (0x4633624625236250, (2, (3392958733487380990809 / 2814749767106560))), (0x0463624225266253, (1, 0)), (0x4623624625236250, (1, 0)), (0x4620624325266253, (1, (3458576180058169117529 / 28147497671065600))), (0x4630624325266253, (2, 0)), (0x0463624325266253, (2, (3458576180058169117529 / 2814749767106560)))] :=
  NodeRes.move _ 1 3 _ _ _ _ _ _ _ _ _ _ _
    (StepRes.unchanged _ 2 3 _ _ 0 _ _ executeMove_0_1463624625236252)
    (StepRes.unchanged _ 2 3 _ _ 1 _ _ executeMove_1_1463624625236252)
    (StepRes.unchanged _ 2 3 _ _ 2 _ _ executeMove_2_1463624625236252)
    (StepRes.unchanged _ 2 3 _ _ 3 _ _ executeMove_3_1463624625236252)
    _ (by norm_num)

theorem move_c_42 :
    NodeRes (scoreMoveNodeWith (tileNodeOn true tableEnv 2)) 1 3
      [(0x4630624625236251, (1, 0)), (0x0463624625236251, (1, 0)), (0x4620624225266253, (0, (3458576180058169117529 / 281474976710656000))), (0x4630624225266253, (1, (3392958733487380990809 / 28147497671065600))), (0x4633624625236250, (2, (3392958733487380990809 / 2814749767106560))), (0x0463624225266253, (1, 0)), (0x4623624625236250, (1, 0)), (0x4620624325266253, (1, (3458576180058169117529 / 28147497671065600))), (0x4630624325266253, (2, 0)), (0x0463624325266253, (2, (3458576180058169117529 / 2814749767106560)))]
      0x2463624625236252 (1 / 100) 0
      [(0x4630624625236251, (1, 0)), (0x0463624625236251, (1, 0)), (0x4620624225266253, (0, (3458576180058169117529 / 281474976710656000))), (0x4630624225266253, (1, (3392958733487380990809 / 28147497671065600))), (0x4633624625236250, (2, (3392958733487380990809 / 2814749767106560))), (0x0463624225266253, (1, 0)), (0x4623624625236250, (1, 0)), (0x4620624325266253, (1, (3458576180058169117529 / 28147497671065600))), (0x4630624325266253, (2, 0)), (0x0463624325266253, (2, (3458576180058169117529 / 2814749767106560)))] :=
  NodeRes.move _ 1 3 _ _ _ _ _ _ _ _ _ _ _
    (StepRes.unchanged _ 2 3 _ _ 0 _ _ executeMove_0_2463624625236252)
    (StepRes.unchanged _ 2 3 _ _ 1 _ _ executeMove_1_2463624625236252)
    (StepRes.unchanged _ 2 3 _ _ 2 _ _ executeMove_2_2463624625236252)
    (StepRes.unchanged _ 2 3 _ _ 3 _ _ executeMove_3_2463624625236252)
    _ (by norm_num)

theorem node_c_43 :
    NodeRes (tileNodeOn true tableEnv 3) 1 3
      [(0x4630624625236251, (1, 0)), (0x0463624625236251, (1, 0)), (0x4620624225266253, (0, (3458576180058169117529 / 281474976710656000))), (0x4630624225266253, (1, (3392958733487380990809 / 28147497671065600))), (0x4633624625236250, (2, (3392958733487380990809 / 2814749767106560))), (0x0463624225266253, (1, 0)), (0x4623624625236250, (1, 0)), (0x4620624325266253, (1, (3458576180058169117529 / 28147497671065600))), (0x4630624325266253, (2, 0)), (0x0463624325266253, (2, (3458576180058169117529 / 2814749767106560)))]
      0x0463624625236252 (1 / 10) 0
      [(0x0463624625236252, (1, 0)), (0x4630624625236251, (1, 0)), (0x0463624625236251, (1, 0)), (0x4620624225266253, (0, (3458576180058169117529 / 281474976710656000))), (0x4630624225266253, (1, (3392958733487380990809 / 28147497671065600))), (0x4633624625236250, (2, (3392958733487380990809 / 2814749767106560))), (0x0463624225266253, (1, 0)), (0x4623624625236250, (1, 0)), (0x4620624325266253, (1, (3458576180058169117529 / 28147497671065600))), (0x4630624325266253, (2, 0)), (0x0463624325266253, (2, (3458576180058169117529 / 2814749767106560)))] :=
  NodeRes.expand_on tableEnv 2 1 3 _ _ _ _ 1 [15] (1 / 10) _ _
    (by norm_num [CPROB_THRESH_BASE, tableEnv]) (by decide) (Or.inl rfl)
    (by decide) (by decide) (by decide) (by norm_num [tableEnv, FloatEnv.fmul, FloatEnv.fadd, FloatEnv.fdiv])
    (FoldRes.cons tableEnv _ 1 3 _ _ 15 _ _ _ _ _ _ _ _ _ _ _ _ 0 _
      (by decide) (by decide) (by norm_num [tableEnv, FloatEnv.fmul, FloatEnv.fadd, FloatEnv.fdiv])
      (by norm_num [tableEnv, FloatEnv.fmul, FloatEnv.fadd, FloatEnv.fdiv])
      move_c_41 move_c_42
      (by norm_num [tableEnv, FloatEnv.fmul, FloatEnv.fadd, FloatEnv.fdiv])
      (FoldRes.nil tableEnv _ 1 3 _ _ _ _))
    (by norm_num [tableEnv, FloatEnv.fmul, FloatEnv.fadd, FloatEnv.fdiv])

theorem move_c_44 :
    NodeRes (scoreMoveNodeWith (tileNodeOn true tableEnv 2)) 1 3
      [(0x0463624625236252, (1, 0)), (0x4630624625236251, (1, 0)), (0x0463624625236251, (1, 0)), (0x4620624225266253, (0, (3458576180058169117529 / 281474976710656000))), (0x4630624225266253, (1, (3392958733487380990809 / 28147497671065600))), (0x4633624625236250, (2, (3392958733487380990809 / 2814749767106560))), (0x0463624225266253, (1, 0)), (0x4623624625236250, (1, 0)), (0x4620624325266253, (1, (3458576180058169117529 / 28147497671065600))), (0x4630624325266253, (2, 0)), (0x0463624325266253, (2, (3458576180058169117529 / 2814749767106560)))]
      0x4631624625236252 (9 / 100) 0
      [(0x0463624625236252, (1, 0)), (0x4630624625236251, (1, 0)), (0x0463624625236251, (1, 0)), (0x4620624225266253, (0, (3458576180058169117529 / 281474976710656000))), (0x4630624225266253, (1, (3392958733487380990809 / 28147497671065600))), (0x4633624625236250, (2, (3392958733487380990809 / 2814749767106560))), (0x0463624225266253, (1, 0)), (0x4623624625236250, (1, 0)), (0x4620624325266253, (1, (3458576180058169117529 / 28147497671065600))), (0x4630624325266253, (2, 0)), (0x0463624325266253, (2, (3458576180058169117529 / 2814749767106560)))] :=
  NodeRes.move _ 1 3 _ _ _ _ _ _ _ _ _ _ _
    (StepRes.unchanged _ 2 3 _ _ 0 _ _ executeMove_0_4631624625236252)
    (StepRes.unchanged _ 2 3 _ _ 1 _ _ executeMove_1_4631624625236252)
    (StepRes.unchanged _ 2 3 _ _ 2 _ _ executeMove_2_4631624625236252)
    (StepRes.unchanged _ 2 3 _ _ 3 _ _ executeMove_3_4631624625236252)
    _ (by norm_num)

theorem move_c_45 :
    NodeRes (scoreMoveNodeWith (tileNodeOn true tableEnv 2)) 1 3
      [(0x0463624625236252, (1, 0)), (0x4630624625236251, (1, 0)), (0x0463624625236251, (1, 0)), (0x4620624225266253, (0, (3458576180058169117529 / 281474976710656000))), (0x4630624225266253, (1, (3392958733487380990809 / 28147497671065600))), (0x4633624625236250, (2, (3392958733487380990809 / 2814749767106560))), (0x0463624225266253, (1, 0)), (0x4623624625236250, (1, 0)), (0x4620624325266253, (1, (3458576180058169117529 / 28147497671065600))), (0x4630624325266253, (2, 0)), (0x0463624325266253, (2, (3458576180058169117529 / 2814749767106560)))]
      0x4632624625236252 (1 / 100) 0
      [(0x0463624625236252, (1, 0)), (0x4630624625236251, (1, 0)), (0x0463624625236251, (1, 0)), (0x4620624225266253, (0, (3458576180058169117529 / 281474976710656000))), (0x4630624225266253, (1, (3392958733487380990809 / 28147497671065600))), (0x4633624625236250, (2, (3392958733487380990809 / 2814749767106560))), (0x0463624225266253, (1, 0)), (0x4623624625236250, (1, 0)), (0x4620624325266253, (1, (3458576180058169117529 / 28147497671065600))), (0x4630624325266253, (2, 0)), (0x0463624325266253, (2, (3458576180058169117529 / 2814749767106560)))] :=
  NodeRes.move _ 1 3 _ _ _ _ _ _ _ _ _ _ _
    (StepRes.unchanged _ 2 3 _ _ 0 _ _ executeMove_0_4632624625236252)
    (StepRes.unchanged _ 2 3 _ _ 1 _ _ executeMove_1_4632624625236252)
    (StepRes.unchanged _ 2 3 _ _ 2 _ _ executeMove_2_4632624625236252)
    (StepRes.unchanged _ 2 3 _ _ 3 _ _ executeMove_3_4632624625236252)
    _ (by norm_num)

theorem node_c_46 :
    NodeRes (tileNodeOn true tableEnv 3) 1 3
      [(0x0463624625236252, (1, 0)), (0x4630624625236251, (1, 0)), (0x0463624625236251, (1, 0)), (0x4620624225266253, (0, (3458576180058169117529 / 281474976710656000))), (0x4630624225266253, (1, (3392958733487380990809 / 28147497671065600))), (0x4633624625236250, (2, (3392958733487380990809 / 2814749767106560))), (0x0463624225266253, (1, 0)), (0x4623624625236250, (1, 0)), (0x4620624325266253, (1, (3458576180058169117529 / 28147497671065600))), (0x4630624325266253, (2, 0)), (0x0463624325266253, (2, (3458576180058169117529 / 2814749767106560)))]
      0x4630624625236252 (1 / 10) 0
      [(0x4630624625236252, (1, 0)), (0x0463624625236252, (1, 0)), (0x4630624625236251, (1, 0)), (0x0463624625236251, (1, 0)), (0x4620624225266253, (0, (3458576180058169117529 / 281474976710656000))), (0x4630624225266253, (1, (3392958733487380990809 / 28147497671065600))), (0x4633624625236250, (2, (3392958733487380990809 / 2814749767106560))), (0x0463624225266253, (1, 0)), (0x4623624625236250, (1, 0)), (0x4620624325266253, (1, (3458576180058169117529 / 28147497671065600))), (0x4630624325266253, (2, 0)), (0x0463624325266253, (2, (3458576180058169117529 / 2814749767106560)))] :=
  NodeRes.expand_on tableEnv 2 1 3 _ _ _ _ 1 [12] (1 / 10) _ _
    (by norm_num [CPROB_THRESH_BASE, tableEnv]) (by decide) (Or.inl rfl)
    (by decide) (by decide) (by decide) (by norm_num [tableEnv, FloatEnv.fmul, FloatEnv.fadd, FloatEnv.fdiv])
    (FoldRes.cons tableEnv _ 1 3 _ _ 12 _ _ _ _ _ _ _ _ _ _ _ _ 0 _
      (by decide) (by decide) (by norm_num [tableEnv, FloatEnv.fmul, FloatEnv.fadd, FloatEnv.fdiv])
      (by norm_num [tableEnv, FloatEnv.fmul, FloatEnv.fadd, FloatEnv.fdiv])
      move_c_44 move_c_45
      (by norm_num [tableEnv, FloatEnv.fmul, FloatEnv.fadd, FloatEnv.fdiv])
      (FoldRes.nil tableEnv _ 1 3 _ _ _ _))
    (by norm_num [tableEnv, FloatEnv.fmul, FloatEnv.fadd, FloatEnv.fdiv])

theorem move_c_47 :
    NodeRes (scoreMoveNodeWith (tileNodeOn true tableEnv 3)) 0 3
      [(0x4630624625236251, (1, 0)), (0x0463624625236251, (1, 0)), (0x4620624225266253, (0, (3458576180058169117529 / 281474976710656000))), (0x4630624225266253, (1, (3392958733487380990809 / 28147497671065600))), (0x4633624625236250, (2, (3392958733487380990809 / 2814749767106560))), (0x0463624225266253, (1, 0)), (0x4623624625236250, (1, 0)), (0x4620624325266253, (1, (3458576180058169117529 / 28147497671065600))), (0x4630624325266253, (2, 0)), (0x0463624325266253, (2, (3458576180058169117529 / 2814749767106560)))]
      0x4622624625236252 (1 / 10) 0
      [(0x4630624625236252, (1, 0)), (0x0463624625236252, (1, 0)), (0x4630624625236251, (1, 0)), (0x0463624625236251, (1, 0)), (0x4620624225266253, (0, (3458576180058169117529 / 281474976710656000))), (0x4630624225266253, (1, (3392958733487380990809 / 28147497671065600))), (0x4633624625236250, (2, (3392958733487380990809 / 2814749767106560))), (0x0463624225266253, (1, 0)), (0x4623624625236250, (1, 0)), (0x4620624325266253, (1, (3458576180058169117529 / 28147497671065600))), (0x4630624325266253, (2, 0)), (0x0463624325266253, (2, (3458576180058169117529 / 2814749767106560)))] :=
  NodeRes.move _ 0 3 _ _ _ _ _ _ _ _ _ _ _
    (StepRes.unchanged _ 1 3 _ _ 0 _ _ executeMove_0_4622624625236252)
    (StepRes.unchanged _ 1 3 _ _ 1 _ _ executeMove_1_4622624625236252)
    (StepRes.changed _ 1 3 _ _ 2 _ _ _ _ _ _ executeMove_2_4622624625236252 (by decide) node_c_43 rfl)
    (StepRes.changed _ 1 3 _ _ 3 _ _ _ _ _ _ executeMove_3_4622624625236252 (by decide) node_c_46 rfl)
    _ (by norm_num)

theorem node_c_48 :
    NodeRes (tileNodeOn true tableEnv 4) 0 3
      [(0x4620624225266253, (0, (3458576180058169117529 / 281474976710656000))), (0x4630624225266253, (1, (3392958733487380990809 / 28147497671065600))), (0x4633624625236250, (2, (3392958733487380990809 / 2814749767106560))), (0x0463624225266253, (1, 0)), (0x4623624625236250, (1, 0)), (0x4620624325266253, (1, (3458576180058169117529 / 28147497671065600))), (0x4630624325266253, (2, 0)), (0x0463624325266253, (2, (3458576180058169117529 / 2814749767106560)))]
      0x4622624625236250 1 0
      [(0x4622624625236250, (0, 0)), (0x4630624625236252, (1, 0)), (0x0463624625236252, (1, 0)), (0x4630624625236251, (1, 0)), (0x0463624625236251, (1, 0)), (0x4620624225266253, (0, (3458576180058169117529 / 281474976710656000))), (0x4630624225266253, (1, (3392958733487380990809 / 28147497671065600))), (0x4633624625236250, (2, (3392958733487380990809 / 2814749767106560))), (0x0463624225266253, (1, 0)), (0x4623624625236250, (1, 0)), (0x4620624325266253, (1, (3458576180058169117529 / 28147497671065600))), (0x4630624325266253, (2, 0)), (0x0463624325266253, (2, (3458576180058169117529 / 2814749767106560)))] :=
  NodeRes.expand_on tableEnv 3 0 3 _ _ _ _ 1 [0] 1 _ _
    (by norm_num [CPROB_THRESH_BASE, tableEnv]) (by decide) (Or.inl rfl)
    (by decide) (by decide) (by decide) (by norm_num [tableEnv, FloatEnv.fmul, FloatEnv.fadd, FloatEnv.fdiv])
    (FoldRes.cons tableEnv _ 0 3 _ _ 0 _ _ _ _ _ _ _ _ _ _ _ _ 0 _
      (by decide) (by decide) (by norm_num [tableEnv, FloatEnv.fmul, FloatEnv.fadd, FloatEnv.fdiv])
      (by norm_num [tableEnv, FloatEnv.fmul, FloatEnv.fadd, FloatEnv.fdiv])
      move_c_40 move_c_47
      (by norm_num [tableEnv, FloatEnv.fmul, FloatEnv.fadd, FloatEnv.fdiv])
      (FoldRes.nil tableEnv _ 0 3 _ _ _ _))
    (by norm_num [tableEnv, FloatEnv.fmul, FloatEnv.fadd, FloatEnv.fdiv])

theorem top_c_1 : ∀ t : Nat → Option (Int × ℚ),
    (∀ x, t x = List.lookup x ([(0x4620624225266253, (0, (3458576180058169117529 / 281474976710656000))), (0x4630624225266253, (1, (3392958733487380990809 / 28147497671065600))), (0x4633624625236250, (2, (3392958733487380990809 / 2814749767106560))), (0x0463624225266253, (1, 0)), (0x4623624625236250, (1, 0)), (0x4620624325266253, (1, (3458576180058169117529 / 28147497671065600))), (0x4630624325266253, (2, 0)), (0x0463624325266253, (2, (3458576180058169117529 / 2814749767106560)))] : List (Nat × (Int × ℚ)))) →
    ∃ t2 hits, topLevelOn true tableEnv t 0x4622624525256253 1 = some ((1 / 1000000), t2, hits) ∧
      ∀ x, t2 x = List.lookup x ([(0x4622624625236250, (0, 0)), (0x4630624625236252, (1, 0)), (0x0463624625236252, (1, 0)), (0x4630624625236251, (1, 0)), (0x0463624625236251, (1, 0)), (0x4620624225266253, (0, (3458576180058169117529 / 281474976710656000))), (0x4630624225266253, (1, (3392958733487380990809 / 28147497671065600))), (0x4633624625236250, (2, (3392958733487380990809 / 2814749767106560))), (0x0463624225266253, (1, 0)), (0x4623624625236250, (1, 0)), (0x4620624325266253, (1, (3458576180058169117529 / 28147497671065600))), (0x4630624325266253, (2, 0)), (0x0463624325266253, (2, (3458576180058169117529 / 2814749767106560)))] : List (Nat × (Int × ℚ))) :=
  topLevelOn_changed true tableEnv _ 1 _ _ _ 5 3 4 _ _ executeMove_1_4622624525256253 (by decide)
    (by decide) (by decide) (by decide) node_c_48 (by norm_num [tableEnv])

theorem move_c_49 :
    NodeRes (scoreMoveNodeWith (tileNodeOn true tableEnv 2)) 1 3
      [(0x4622624625236250, (0, 0)), (0x4630624625236252, (1, 0)), (0x0463624625236252, (1, 0)), (0x4630624625236251, (1, 0)), (0x0463624625236251, (1, 0)), (0x4620624225266253, (0, (3458576180058169117529 / 281474976710656000))), (0x4630624225266253, (1, (3392958733487380990809 / 28147497671065600))), (0x4633624625236250, (2, (3392958733487380990809 / 2814749767106560))), (0x0463624225266253, (1, 0)), (0x4623624625236250, (1, 0)), (0x4620624325266253, (1, (3458576180058169117529 / 28147497671065600))), (0x4630624325266253, (2, 0)), (0x0463624325266253, (2, (3458576180058169117529 / 2814749767106560)))]
      0x1461624325266253 (81 / 100) 0
      [(0x4622624625236250, (0, 0)), (0x4630624625236252, (1, 0)), (0x0463624625236252, (1, 0)), (0x4630624625236251, (1, 0)), (0x0463624625236251, (1, 0)), (0x4620624225266253, (0, (3458576180058169117529 / 281474976710656000))), (0x4630624225266253, (1, (3392958733487380990809 / 28147497671065600))), (0x4633624625236250, (2, (3392958733487380990809 / 2814749767106560))), (0x0463624225266253, (1, 0)), (0x4623624625236250, (1, 0)), (0x4620624325266253, (1, (3458576180058169117529 / 28147497671065600))), (0x4630624325266253, (2, 0)), (0x0463624325266253, (2, (3458576180058169117529 / 2814749767106560)))] :=
  NodeRes.move _ 1 3 _ _ _ _ _ _ _ _ _ _ _
    (StepRes.unchanged _ 2 3 _ _ 0 _ _ executeMove_0_1461624325266253)
    (StepRes.unchanged _ 2 3 _ _ 1 _ _ executeMove_1_1461624325266253)
    (StepRes.unchanged _ 2 3 _ _ 2 _ _ executeMove_2_1461624325266253)
    (StepRes.unchanged _ 2 3 _ _ 3 _ _ executeMove_3_1461624325266253)
    _ (by norm_num)

theorem move_c_50 :
    NodeRes (scoreMoveNodeWith (tileNodeOn true tableEnv 2)) 1 3
      [(0x4622624625236250, (0, 0)), (0x4630624625236252, (1, 0)), (0x0463624625236252, (1, 0)), (0x4630624625236251, (1, 0)), (0x0463624625236251, (1, 0)), (0x4620624225266253, (0, (3458576180058169117529 / 281474976710656000))), (0x4630624225266253, (1, (3392958733487380990809 / 28147497671065600))), (0x4633624625236250, (2, (3392958733487380990809 / 2814749767106560))), (0x0463624225266253, (1, 0)), (0x4623624625236250, (1, 0)), (0x4620624325266253, (1, (3458576180058169117529 / 28147497671065600))), (0x4630624325266253, (2, 0)), (0x0463624325266253, (2, (3458576180058169117529 / 2814749767106560)))]
      0x1462624325266253 (9 / 100) 0
      [(0x4622624625236250, (0, 0)), (0x4630624625236252, (1, 0)), (0x0463624625236252, (1, 0)), (0x4630624625236251, (1, 0)), (0x0463624625236251, (1, 0)), (0x4620624225266253, (0, (3458576180058169117529 / 281474976710656000))), (0x4630624225266253, (1, (3392958733487380990809 / 28147497671065600))), (0x4633624625236250, (2, (3392958733487380990809 / 2814749767106560))), (0x0463624225266253, (1, 0)), (0x4623624625236250, (1, 0)), (0x4620624325266253, (1, (3458576180058169117529 / 28147497671065600))), (0x4630624325266253, (2, 0)), (0x0463624325266253, (2, (3458576180058169117529 / 2814749767106560)))] :=
  NodeRes.move _ 1 3 _ _ _ _ _ _ _ _ _ _ _
    (StepRes.unchanged _ 2 3 _ _ 0 _ _ executeMove_0_1462624325266253)
    (StepRes.unchanged _ 2 3 _ _ 1 _ _ executeMove_1_1462624325266253)
    (StepRes.unchanged _ 2 3 _ _ 2 _ _ executeMove_2_1462624325266253)
    (StepRes.unchanged _ 2 3 _ _ 3 _ _ executeMove_3_1462624325266253)
    _ (by norm_num)

theorem node_c_51 :
    NodeRes (tileNodeOn true tableEnv 3) 1 3
      [(0x4622624625236250, (0, 0)), (0x4630624625236252, (1, 0)), (0x0463624625236252, (1, 0)), (0x4630624625236251, (1, 0)), (0x0463624625236251, (1, 0)), (0x4620624225266253, (0, (3458576180058169117529 / 281474976710656000))), (0x4630624225266253, (1, (3392958733487380990809 / 28147497671065600))), (0x4633624625236250, (2, (3392958733487380990809 / 2814749767106560))), (0x0463624225266253, (1, 0)), (0x4623624625236250, (1, 0)), (0x4620624325266253, (1, (3458576180058169117529 / 28147497671065600))), (0x4630624325266253, (2, 0)), (0x0463624325266253, (2, (3458576180058169117529 / 2814749767106560)))]
      0x1460624325266253 (9 / 10) 0
      [(0x1460624325266253, (1, 0)), (0x4622624625236250, (0, 0)), (0x4630624625236252, (1, 0)), (0x0463624625236252, (1, 0)), (0x4630624625236251, (1, 0)), (0x0463624625236251, (1, 0)), (0x4620624225266253, (0, (3458576180058169117529 / 281474976710656000))), (0x4630624225266253, (1, (3392958733487380990809 / 28147497671065600))), (0x4633624625236250, (2, (3392958733487380990809 / 2814749767106560))), (0x0463624225266253, (1, 0)), (0x4623624625236250, (1, 0)), (0x4620624325266253, (1, (3458576180058169117529 / 28147497671065600))), (0x4630624325266253, (2, 0)), (0x0463624325266253, (2, (3458576180058169117529 / 2814749767106560)))] :=
  NodeRes.expand_on tableEnv 2 1 3 _ _ _ _ 1 [12] (9 / 10) _ _
    (by norm_num [CPROB_THRESH_BASE, tableEnv]) (by decide) (Or.inl rfl)
    (by decide) (by decide) (by decide) (by norm_num [tableEnv, FloatEnv.fmul, FloatEnv.fadd, FloatEnv.fdiv])
    (FoldRes.cons tableEnv _ 1 3 _ _ 12 _ _ _ _ _ _ _ _ _ _ _ _ 0 _
      (by decide) (by decide) (by norm_num [tableEnv, FloatEnv.fmul, FloatEnv.fadd, FloatEnv.fdiv])
      (by norm_num [tableEnv, FloatEnv.fmul, FloatEnv.fadd, FloatEnv.fdiv])
      move_c_49 move_c_50
      (by norm_num [tableEnv, FloatEnv.fmul, FloatEnv.fadd, FloatEnv.fdiv])
      (FoldRes.nil tableEnv _ 1 3 _ _ _ _))
    (by norm_num [tableEnv, FloatEnv.fmul, FloatEnv.fadd, FloatEnv.fdiv])

theorem move_c_52 :
    NodeRes (scoreMoveNodeWith (tileNodeOn true tableEnv 2)) 1 3
      [(0x1460624325266253, (1, 0)), (0x4622624625236250, (0, 0)), (0x4630624625236252, (1, 0)), (0x0463624625236252, (1, 0)), (0x4630624625236251, (1, 0)), (0x0463624625236251, (1, 0)), (0x4620624225266253, (0, (3458576180058169117529 / 281474976710656000))), (0x4630624225266253, (1, (3392958733487380990809 / 28147497671065600))), (0x4633624625236250, (2, (3392958733487380990809 / 2814749767106560))), (0x0463624225266253, (1, 0)), (0x4623624625236250, (1, 0)), (0x4620624325266253, (1, (3458576180058169117529 / 28147497671065600))), (0x4630624325266253, (2, 0)), (0x0463624325266253, (2, (3458576180058169117529 / 2814749767106560)))]
      0x1463624625236251 (81 / 100) 0
      [(0x1460624325266253, (1, 0)), (0x4622624625236250, (0, 0)), (0x4630624625236252, (1, 0)), (0x0463624625236252, (1, 0)), (0x4630624625236251, (1, 0)), (0x0463624625236251, (1, 0)), (0x4620624225266253, (0, (3458576180058169117529 / 281474976710656000))), (0x4630624225266253, (1, (3392958733487380990809 / 28147497671065600))), (0x4633624625236250, (2, (3392958733487380990809 / 2814749767106560))), (0x0463624225266253, (1, 0)), (0x4623624625236250, (1, 0)), (0x4620624325266253, (1, (3458576180058169117529 / 28147497671065600))), (0x4630624325266253, (2, 0)), (0x0463624325266253, (2, (3458576180058169117529 / 2814749767106560)))] :=
  NodeRes.move _ 1 3 _ _ _ _ _ _ _ _ _ _ _
    (StepRes.unchanged _ 2 3 _ _ 0 _ _ executeMove_0_1463624625236251)
    (StepRes.unchanged _ 2 3 _ _ 1 _ _ executeMove_1_1463624625236251)
    (StepRes.unchanged _ 2 3 _ _ 2 _ _ executeMove_2_1463624625236251)
    (StepRes.unchanged _ 2 3 _ _ 3 _ _ executeMove_3_1463624625236251)
    _ (by norm_num)

theorem move_c_53 :
    NodeRes (scoreMoveNodeWith (tileNodeOn true tableEnv 2)) 1 3
      [(0x1460624325266253, (1, 0)), (0x4622624625236250, (0, 0)), (0x4630624625236252, (1, 0)), (0x0463624625236252, (1, 0)), (0x4630624625236251, (1, 0)), (0x0463624625236251, (1, 0)), (0x4620624225266253, (0, (3458576180058169117529 / 281474976710656000))), (0x4630624225266253, (1, (3392958733487380990809 / 28147497671065600))), (0x4633624625236250, (2, (3392958733487380990809 / 2814749767106560))), (0x0463624225266253, (1, 0)), (0x4623624625236250, (1, 0)), (0x4620624325266253, (1, (3458576180058169117529 / 28147497671065600))), (0x4630624325266253, (2, 0)), (0x0463624325266253, (2, (3458576180058169117529 / 2814749767106560)))]
      0x1463624625236252 (9 / 100) 0
      [(0x1460624325266253, (1, 0)), (0x4622624625236250, (0, 0)), (0x4630624625236252, (1, 0)), (0x0463624625236252, (1, 0)), (0x4630624625236251, (1, 0)), (0x0463624625236251, (1, 0)), (0x4620624225266253, (0, (3458576180058169117529 / 281474976710656000))), (0x4630624225266253, (1, (3392958733487380990809 / 28147497671065600))), (0x4633624625236250, (2, (3392958733487380990809 / 2814749767106560))), (0x0463624225266253, (1, 0)), (0x4623624625236250, (1, 0)), (0x4620624325266253, (1, (3458576180058169117529 / 28147497671065600))), (0x4630624325266253, (2, 0)), (0x0463624325266253, (2, (3458576180058169117529 / 2814749767106560)))] :=
  NodeRes.move _ 1 3 _ _ _ _ _ _ _ _ _ _ _
    (StepRes.unchanged _ 2 3 _ _ 0 _ _ executeMove_0_1463624625236252)
    (StepRes.unchanged _ 2 3 _ _ 1 _ _ executeMove_1_1463624625236252)
    (StepRes.unchanged _ 2 3 _ _ 2 _ _ executeMove_2_1463624625236252)
    (StepRes.unchanged _ 2 3 _ _ 3 _ _ executeMove_3_1463624625236252)
    _ (by norm_num)

theorem node_c_54 :
    NodeRes (tileNodeOn true tableEnv 3) 1 3
      [(0x1460624325266253, (1, 0)), (0x4622624625236250, (0, 0)), (0x4630624625236252, (1, 0)), (0x0463624625236252, (1, 0)), (0x4630624625236251, (1, 0)), (0x0463624625236251, (1, 0)), (0x4620624225266253, (0, (3458576180058169117529 / 281474976710656000))), (0x4630624225266253, (1, (3392958733487380990809 / 28147497671065600))), (0x4633624625236250, (2, (3392958733487380990809 / 2814749767106560))), (0x0463624225266253, (1, 0)), (0x4623624625236250, (1, 0)), (0x4620624325266253, (1, (3458576180058169117529 / 28147497671065600))), (0x4630624325266253, (2, 0)), (0x0463624325266253, (2, (3458576180058169117529 / 2814749767106560)))]
      0x1463624625236250 (9 / 10) 0
      [(0x1463624625236250, (1, 0)), (0x1460624325266253, (1, 0)), (0x4622624625236250, (0, 0)), (0x4630624625236252, (1, 0)), (0x0463624625236252, (1, 0)), (0x4630624625236251, (1, 0)), (0x0463624625236251, (1, 0)), (0x4620624225266253, (0, (3458576180058169117529 / 281474976710656000))), (0x4630624225266253, (1, (3392958733487380990809 / 28147497671065600))), (0x4633624625236250, (2, (3392958733487380990809 / 2814749767106560))), (0x0463624225266253, (1, 0)), (0x4623624625236250, (1, 0)), (0x4620624325266253, (1, (3458576180058169117529 / 28147497671065600))), (0x4630624325266253, (2, 0)), (0x0463624325266253, (2, (3458576180058169117529 / 2814749767106560)))] :=
  NodeRes.expand_on tableEnv 2 1 3 _ _ _ _ 1 [0] (9 / 10) _ _
    (by norm_num [CPROB_THRESH_BASE, tableEnv]) (by decide) (Or.inl rfl)
    (by decide) (by decide) (by decide) (by norm_num [tableEnv, FloatEnv.fmul, FloatEnv.fadd, FloatEnv.fdiv])
    (FoldRes.cons tableEnv _ 1 3 _ _ 0 _ _ _ _ _ _ _ _ _ _ _ _ 0 _
      (by decide) (by decide) (by norm_num [tableEnv, FloatEnv.fmul, FloatEnv.fadd, FloatEnv.fdiv])
      (by norm_num [tableEnv, FloatEnv.fmul, FloatEnv.fadd, FloatEnv.fdiv])
      move_c_52 move_c_53
      (by norm_num [tableEnv, FloatEnv.fmul, FloatEnv.fadd, FloatEnv.fdiv])
      (FoldRes.nil tableEnv _ 1 3 _ _ _ _))
    (by norm_num [tableEnv, FloatEnv.fmul, FloatEnv.fadd, FloatEnv.fdiv])

theorem move_c_55 :
    NodeRes (scoreMoveNodeWith (tileNodeOn true tableEnv 3)) 0 3
      [(0x4622624625236250, (0, 0)), (0x4630624625236252, (1, 0)), (0x0463624625236252, (1, 0)), (0x4630624625236251, (1, 0)), (0x0463624625236251, (1, 0)), (0x4620624225266253, (0, (3458576180058169117529 / 281474976710656000))), (0x4630624225266253, (1, (3392958733487380990809 / 28147497671065600))), (0x4633624625236250, (2, (3392958733487380990809 / 2814749767106560))), (0x0463624225266253, (1, 0)), (0x4623624625236250, (1, 0)), (0x4620624325266253, (1, (3458576180058169117529 / 28147497671065600))), (0x4630624325266253, (2, 0)), (0x0463624325266253, (2, (3458576180058169117529 / 2814749767106560)))]
      0x1463624525256253 (9 / 10) 0
      [(0x1463624625236250, (1, 0)), (0x1460624325266253, (1, 0)), (0x4622624625236250, (0, 0)), (0x4630624625236252, (1, 0)), (0x0463624625236252, (1, 0)), (0x4630624625236251, (1, 0)), (0x0463624625236251, (1, 0)), (0x4620624225266253, (0, (3458576180058169117529 / 281474976710656000))), (0x4630624225266253, (1, (3392958733487380990809 / 28147497671065600))), (0x4633624625236250, (2, (3392958733487380990809 / 2814749767106560))), (0x0463624225266253, (1, 0)), (0x4623624625236250, (1, 0)), (0x4620624325266253, (1, (3458576180058169117529 / 28147497671065600))), (0x4630624325266253, (2, 0)), (0x0463624325266253, (2, (3458576180058169117529 / 2814749767106560)))] :=
  NodeRes.move _ 0 3 _ _ _ _ _ _ _ _ _ _ _
    (StepRes.changed _ 1 3 _ _ 0 _ _ _ _ _ _ executeMove_0_1463624525256253 (by decide) node_c_51 rfl)
    (StepRes.changed _ 1 3 _ _ 1 _ _ _ _ _ _ executeMove_1_1463624525256253 (by decide) node_c_54 rfl)
    (StepRes.unchanged _ 1 3 _ _ 2 _ _ executeMove_2_1463624525256253)
    (StepRes.unchanged _ 1 3 _ _ 3 _ _ executeMove_3_1463624525256253)
    _ (by norm_num)

theorem move_c_56 :
    NodeRes (scoreMoveNodeWith (tileNodeOn true tableEnv 2)) 1 3
      [(0x1463624625236250, (1, 0)), (0x1460624325266253, (1, 0)), (0x4622624625236250, (0, 0)), (0x4630624625236252, (1, 0)), (0x0463624625236252, (1, 0)), (0x4630624625236251, (1, 0)), (0x0463624625236251, (1, 0)), (0x4620624225266253, (0, (3458576180058169117529 / 281474976710656000))), (0x4630624225266253, (1, (3392958733487380990809 / 28147497671065600))), (0x4633624625236250, (2, (3392958733487380990809 / 2814749767106560))), (0x0463624225266253, (1, 0)), (0x4623624625236250, (1, 0)), (0x4620624325266253, (1, (3458576180058169117529 / 28147497671065600))), (0x4630624325266253, (2, 0)), (0x0463624325266253, (2, (3458576180058169117529 / 2814749767106560)))]
      0x2461624325266253 (9 / 100) 0
      [(0x1463624625236250, (1, 0)), (0x1460624325266253, (1, 0)), (0x4622624625236250, (0, 0)), (0x4630624625236252, (1, 0)), (0x0463624625236252, (1, 0)), (0x4630624625236251, (1, 0)), (0x0463624625236251, (1, 0)), (0x4620624225266253, (0, (3458576180058169117529 / 281474976710656000))), (0x4630624225266253, (1, (3392958733487380990809 / 28147497671065600))), (0x4633624625236250, (2, (3392958733487380990809 / 2814749767106560))), (0x0463624225266253, (1, 0)), (0x4623624625236250, (1, 0)), (0x4620624325266253, (1, (3458576180058169117529 / 28147497671065600))), (0x4630624325266253, (2, 0)), (0x0463624325266253, (2, (3458576180058169117529 / 2814749767106560)))] :=
  NodeRes.move _ 1 3 _ _ _ _ _ _ _ _ _ _ _
    (StepRes.unchanged _ 2 3 _ _ 0 _ _ executeMove_0_2461624325266253)
    (StepRes.unchanged _ 2 3 _ _ 1 _ _ executeMove_1_2461624325266253)
    (StepRes.unchanged _ 2 3 _ _ 2 _ _ executeMove_2_2461624325266253)
    (StepRes.unchanged _ 2 3 _ _ 3 _ _ executeMove_3_2461624325266253)
    _ (by norm_num)

theorem move_c_57 :
    NodeRes (scoreMoveNodeWith (tileNodeOn true tableEnv 2)) 1 3
      [(0x1463624625236250, (1, 0)), (0x1460624325266253, (1, 0)), (0x4622624625236250, (0, 0)), (0x4630624625236252, (1, 0)), (0x0463624625236252, (1, 0)), (0x4630624625236251, (1, 0)), (0x0463624625236251, (1, 0)), (0x4620624225266253, (0, (3458576180058169117529 / 281474976710656000))), (0x4630624225266253, (1, (3392958733487380990809 / 28147497671065600))), (0x4633624625236250, (2, (3392958733487380990809 / 2814749767106560))), (0x0463624225266253, (1, 0)), (0x4623624625236250, (1, 0)), (0x4620624325266253, (1, (3458576180058169117529 / 28147497671065600))), (0x4630624325266253, (2, 0)), (0x0463624325266253, (2, (3458576180058169117529 / 2814749767106560)))]
      0x2462624325266253 (1 / 100) 0
      [(0x1463624625236250, (1, 0)), (0x1460624325266253, (1, 0)), (0x4622624625236250, (0, 0)), (0x4630624625236252, (1, 0)), (0x0463624625236252, (1, 0)), (0x4630624625236251, (1, 0)), (0x0463624625236251, (1, 0)), (0x4620624225266253, (0, (3458576180058169117529 / 281474976710656000))), (0x4630624225266253, (1, (3392958733487380990809 / 28147497671065600))), (0x4633624625236250, (2, (3392958733487380990809 / 2814749767106560))), (0x0463624225266253, (1, 0)), (0x4623624625236250, (1, 0)), (0x4620624325266253, (1, (3458576180058169117529 / 28147497671065600))), (0x4630624325266253, (2, 0)), (0x0463624325266253, (2, (3458576180058169117529 / 2814749767106560)))] :=
  NodeRes.move _ 1 3 _ _ _ _ _ _ _ _ _ _ _
    (StepRes.unchanged _ 2 3 _ _ 0 _ _ executeMove_0_2462624325266253)
    (StepRes.unchanged _ 2 3 _ _ 1 _ _ executeMove_1_2462624325266253)
    (StepRes.unchanged _ 2 3 _ _ 2 _ _ executeMove_2_2462624325266253)
    (StepRes.unchanged _ 2 3 _ _ 3 _ _ executeMove_3_2462624325266253)
    _ (by norm_num)

theorem node_c_58 :
    NodeRes (tileNodeOn true tableEnv 3) 1 3
      [(0x1463624625236250, (1, 0)), (0x1460624325266253, (1, 0)), (0x4622624625236250, (0, 0)), (0x4630624625236252, (1, 0)), (0x0463624625236252, (1, 0)), (0x4630624625236251, (1, 0)), (0x0463624625236251, (1, 0)), (0x4620624225266253, (0, (3458576180058169117529 / 281474976710656000))), (0x4630624225266253, (1, (3392958733487380990809 / 28147497671065600))), (0x4633624625236250, (2, (3392958733487380990809 / 2814749767106560))), (0x0463624225266253, (1, 0)), (0x4623624625236250, (1, 0)), (0x4620624325266253, (1, (3458576180058169117529 / 28147497671065600))), (0x4630624325266253, (2, 0)), (0x0463624325266253, (2, (3458576180058169117529 / 2814749767106560)))]
      0x2460624325266253 (1 / 10) 0
      [(0x2460624325266253, (1, 0)), (0x1463624625236250, (1, 0)), (0x1460624325266253, (1, 0)), (0x4622624625236250, (0, 0)), (0x4630624625236252, (1, 0)), (0x0463624625236252, (1, 0)), (0x4630624625236251, (1, 0)), (0x0463624625236251, (1, 0)), (0x4620624225266253, (0, (3458576180058169117529 / 281474976710656000))), (0x4630624225266253, (1, (3392958733487380990809 / 28147497671065600))), (0x4633624625236250, (2, (3392958733487380990809 / 2814749767106560))), (0x0463624225266253, (1, 0)), (0x4623624625236250, (1, 0)), (0x4620624325266253, (1, (3458576180058169117529 / 28147497671065600))), (0x4630624325266253, (2, 0)), (0x0463624325266253, (2, (3458576180058169117529 / 2814749767106560)))] :=
  NodeRes.expand_on tableEnv 2 1 3 _ _ _ _ 1 [12] (1 / 10) _ _
    (by norm_num [CPROB_THRESH_BASE, tableEnv]) (by decide) (Or.inl rfl)
    (by decide) (by decide) (by decide) (by norm_num [tableEnv, FloatEnv.fmul, FloatEnv.fadd, FloatEnv.fdiv])
    (FoldRes.cons tableEnv _ 1 3 _ _ 12 _ _ _ _ _ _ _ _ _ _ _ _ 0 _
      (by decide) (by decide) (by norm_num [tableEnv, FloatEnv.fmul, FloatEnv.fadd, FloatEnv.fdiv])
      (by norm_num [tableEnv, FloatEnv.fmul, FloatEnv.fadd, FloatEnv.fdiv])
      move_c_56 move_c_57
      (by norm_num [tableEnv, FloatEnv.fmul, FloatEnv.fadd, FloatEnv.fdiv])
      (FoldRes.nil tableEnv _ 1 3 _ _ _ _))
    (by norm_num [tableEnv, FloatEnv.fmul, FloatEnv.fadd, FloatEnv.fdiv])

theorem move_c_59 :
    NodeRes (scoreMoveNodeWith (tileNodeOn true tableEnv 2)) 1 3
      [(0x2460624325266253, (1, 0)), (0x1463624625236250, (1, 0)), (0x1460624325266253, (1, 0)), (0x4622624625236250, (0, 0)), (0x4630624625236252, (1, 0)), (0x0463624625236252, (1, 0)), (0x4630624625236251, (1, 0)), (0x0463624625236251, (1, 0)), (0x4620624225266253, (0, (3458576180058169117529 / 281474976710656000))), (0x4630624225266253, (1, (3392958733487380990809 / 28147497671065600))), (0x4633624625236250, (2, (3392958733487380990809 / 2814749767106560))), (0x0463624225266253, (1, 0)), (0x4623624625236250, (1, 0)), (0x4620624325266253, (1, (3458576180058169117529 / 28147497671065600))), (0x4630624325266253, (2, 0)), (0x0463624325266253, (2, (3458576180058169117529 / 2814749767106560)))]
      0x2463624625236251 (9 / 100) 0
      [(0x2460624325266253, (1, 0)), (0x1463624625236250, (1, 0)), (0x1460624325266253, (1, 0)), (0x4622624625236250, (0, 0)), (0x4630624625236252, (1, 0)), (0x0463624625236252, (1, 0)), (0x4630624625236251, (1, 0)), (0x0463624625236251, (1, 0)), (0x4620624225266253, (0, (3458576180058169117529 / 281474976710656000))), (0x4630624225266253, (1, (3392958733487380990809 / 28147497671065600))), (0x4633624625236250, (2, (3392958733487380990809 / 2814749767106560))), (0x0463624225266253, (1, 0)), (0x4623624625236250, (1, 0)), (0x4620624325266253, (1, (3458576180058169117529 / 28147497671065600))), (0x4630624325266253, (2, 0)), (0x0463624325266253, (2, (3458576180058169117529 / 2814749767106560)))] :=
  NodeRes.move _ 1 3 _ _ _ _ _ _ _ _ _ _ _
    (StepRes.unchanged _ 2 3 _ _ 0 _ _ executeMove_0_2463624625236251)
    (StepRes.unchanged _ 2 3 _ _ 1 _ _ executeMove_1_2463624625236251)
    (StepRes.unchanged _ 2 3 _ _ 2 _ _ executeMove_2_2463624625236251)
    (StepRes.unchanged _ 2 3 _ _ 3 _ _ executeMove_3_2463624625236251)
    _ (by norm_num)

theorem move_c_60 :
    NodeRes (scoreMoveNodeWith (tileNodeOn true tableEnv 2)) 1 3
      [(0x2460624325266253, (1, 0)), (0x1463624625236250, (1, 0)), (0x1460624325266253, (1, 0)), (0x4622624625236250, (0, 0)), (0x4630624625236252, (1, 0)), (0x0463624625236252, (1, 0)), (0x4630624625236251, (1, 0)), (0x0463624625236251, (1, 0)), (0x4620624225266253, (0, (3458576180058169117529 / 281474976710656000))), (0x4630624225266253, (1, (3392958733487380990809 / 28147497671065600))), (0x4633624625236250, (2, (3392958733487380990809 / 2814749767106560))), (0x0463624225266253, (1, 0)), (0x4623624625236250, (1, 0)), (0x4620624325266253, (1, (3458576180058169117529 / 28147497671065600))), (0x4630624325266253, (2, 0)), (0x0463624325266253, (2, (3458576180058169117529 / 2814749767106560)))]
      0x2463624625236252 (1 / 100) 0
      [(0x2460624325266253, (1, 0)), (0x1463624625236250, (1, 0)), (0x1460624325266253, (1, 0)), (0x4622624625236250, (0, 0)), (0x4630624625236252, (1, 0)), (0x0463624625236252, (1, 0)), (0x4630624625236251, (1, 0)), (0x0463624625236251, (1, 0)), (0x4620624225266253, (0, (3458576180058169117529 / 281474976710656000))), (0x4630624225266253, (1, (3392958733487380990809 / 28147497671065600))), (0x4633624625236250, (2, (3392958733487380990809 / 2814749767106560))), (0x0463624225266253, (1, 0)), (0x4623624625236250, (1, 0)), (0x4620624325266253, (1, (3458576180058169117529 / 28147497671065600))), (0x4630624325266253, (2, 0)), (0x0463624325266253, (2, (3458576180058169117529 / 2814749767106560)))] :=
  NodeRes.move _ 1 3 _ _ _ _ _ _ _ _ _ _ _
    (StepRes.unchanged _ 2 3 _ _ 0 _ _ executeMove_0_2463624625236252)
    (StepRes.unchanged _ 2 3 _ _ 1 _ _ executeMove_1_2463624625236252)
    (StepRes.unchanged _ 2 3 _ _ 2 _ _ executeMove_2_2463624625236252)
    (StepRes.unchanged _ 2 3 _ _ 3 _ _ executeMove_3_2463624625236252)
    _ (by norm_num)

theorem node_c_61 :
    NodeRes (tileNodeOn true tableEnv 3) 1 3
      [(0x2460624325266253, (1, 0)), (0x1463624625236250, (1, 0)), (0x1460624325266253, (1, 0)), (0x4622624625236250, (0, 0)), (0x4630624625236252, (1, 0)), (0x0463624625236252, (1, 0)), (0x4630624625236251, (1, 0)), (0x0463624625236251, (1, 0)), (0x4620624225266253, (0, (3458576180058169117529 / 281474976710656000))), (0x4630624225266253, (1, (3392958733487380990809 / 28147497671065600))), (0x4633624625236250, (2, (3392958733487380990809 / 2814749767106560))), (0x0463624225266253, (1, 0)), (0x4623624625236250, (1, 0)), (0x4620624325266253, (1, (3458576180058169117529 / 28147497671065600))), (0x4630624325266253, (2, 0)), (0x0463624325266253, (2, (3458576180058169117529 / 2814749767106560)))]
      0x2463624625236250 (1 / 10) 0
      [(0x2463624625236250, (1, 0)), (0x2460624325266253, (1, 0)), (0x1463624625236250, (1, 0)), (0x1460624325266253, (1, 0)), (0x4622624625236250, (0, 0)), (0x4630624625236252, (1, 0)), (0x0463624625236252, (1, 0)), (0x4630624625236251, (1, 0)), (0x0463624625236251, (1, 0)), (0x4620624225266253, (0, (3458576180058169117529 / 281474976710656000))), (0x4630624225266253, (1, (3392958733487380990809 / 28147497671065600))), (0x4633624625236250, (2, (3392958733487380990809 / 2814749767106560))), (0x0463624225266253, (1, 0)), (0x4623624625236250, (1, 0)), (0x4620624325266253, (1, (3458576180058169117529 / 28147497671065600))), (0x4630624325266253, (2, 0)), (0x0463624325266253, (2, (3458576180058169117529 / 2814749767106560)))] :=
  NodeRes.expand_on tableEnv 2 1 3 _ _ _ _ 1 [0] (1 / 10) _ _
    (by norm_num [CPROB_THRESH_BASE, tableEnv]) (by decide) (Or.inl rfl)
    (by decide) (by decide) (by decide) (by norm_num [tableEnv, FloatEnv.fmul, FloatEnv.fadd, FloatEnv.fdiv])
    (FoldRes.cons tableEnv _ 1 3 _ _ 0 _ _ _ _ _ _ _ _ _ _ _ _ 0 _
      (by decide) (by decide) (by norm_num [tableEnv, FloatEnv.fmul, FloatEnv.fadd, FloatEnv.fdiv])
      (by norm_num [tableEnv, FloatEnv.fmul, FloatEnv.fadd, FloatEnv.fdiv])
      move_c_59 move_c_60
      (by norm_num [tableEnv, FloatEnv.fmul, FloatEnv.fadd, FloatEnv.fdiv])
      (FoldRes.nil tableEnv _ 1 3 _ _ _ _))
    (by norm_num [tableEnv, FloatEnv.fmul, FloatEnv.fadd, FloatEnv.fdiv])

theorem move_c_62 :
    NodeRes (scoreMoveNodeWith (tileNodeOn true tableEnv 3)) 0 3
      [(0x1463624625236250, (1, 0)), (0x1460624325266253, (1, 0)), (0x4622624625236250, (0, 0)), (0x4630624625236252, (1, 0)), (0x0463624625236252, (1, 0)), (0x4630624625236251, (1, 0)), (0x0463624625236251, (1, 0)), (0x4620624225266253, (0, (3458576180058169117529 / 281474976710656000))), (0x4630624225266253, (1, (3392958733487380990809 / 28147497671065600))), (0x4633624625236250, (2, (3392958733487380990809 / 2814749767106560))), (0x0463624225266253, (1, 0)), (0x4623624625236250, (1, 0)), (0x4620624325266253, (1, (3458576180058169117529 / 28147497671065600))), (0x4630624325266253, (2, 0)), (0x0463624325266253, (2, (3458576180058169117529 / 2814749767106560)))]
      0x2463624525256253 (1 / 10) 0
      [(0x2463624625236250, (1, 0)), (0x2460624325266253, (1, 0)), (0x1463624625236250, (1, 0)), (0x1460624325266253, (1, 0)), (0x4622624625236250, (0, 0)), (0x4630624625236252, (1, 0)), (0x0463624625236252, (1, 0)), (0x4630624625236251, (1, 0)), (0x0463624625236251, (1, 0)), (0x4620624225266253, (0, (3458576180058169117529 / 281474976710656000))), (0x4630624225266253, (1, (3392958733487380990809 / 28147497671065600))), (0x4633624625236250, (2, (3392958733487380990809 / 2814749767106560))), (0x0463624225266253, (1, 0)), (0x4623624625236250, (1, 0)), (0x4620624325266253, (1, (3458576180058169117529 / 28147497671065600))), (0x4630624325266253, (2, 0)), (0x0463624325266253, (2, (3458576180058169117529 / 2814749767106560)))] :=
  NodeRes.move _ 0 3 _ _ _ _ _ _ _ _ _ _ _
    (StepRes.changed _ 1 3 _ _ 0 _ _ _ _ _ _ executeMove_0_2463624525256253 (by decide) node_c_58 rfl)
    (StepRes.changed _ 1 3 _ _ 1 _ _ _ _ _ _ executeMove_1_2463624525256253 (by decide) node_c_61 rfl)
    (StepRes.unchanged _ 1 3 _ _ 2 _ _ executeMove_2_2463624525256253)
    (StepRes.unchanged _ 1 3 _ _ 3 _ _ executeMove_3_2463624525256253)
    _ (by norm_num)

theorem node_c_63 :
    NodeRes (tileNodeOn true tableEnv 4) 0 3
      [(0x4622624625236250, (0, 0)), (0x4630624625236252, (1, 0)), (0x0463624625236252, (1, 0)), (0x4630624625236251, (1, 0)), (0x0463624625236251, (1, 0)), (0x4620624225266253, (0, (3458576180058169117529 / 281474976710656000))), (0x4630624225266253, (1, (3392958733487380990809 / 28147497671065600))), (0x4633624625236250, (2, (3392958733487380990809 / 2814749767106560))), (0x0463624225266253, (1, 0)), (0x4623624625236250, (1, 0)), (0x4620624325266253, (1, (3458576180058169117529 / 28147497671065600))), (0x4630624325266253, (2, 0)), (0x0463624325266253, (2, (3458576180058169117529 / 2814749767106560)))]
      0x0463624525256253 1 0
      [(0x0463624525256253, (0, 0)), (0x2463624625236250, (1, 0)), (0x2460624325266253, (1, 0)), (0x1463624625236250, (1, 0)), (0x1460624325266253, (1, 0)), (0x4622624625236250, (0, 0)), (0x4630624625236252, (1, 0)), (0x0463624625236252, (1, 0)), (0x4630624625236251, (1, 0)), (0x0463624625236251, (1, 0)), (0x4620624225266253, (0, (3458576180058169117529 / 281474976710656000))), (0x4630624225266253, (1, (3392958733487380990809 / 28147497671065600))), (0x4633624625236250, (2, (3392958733487380990809 / 2814749767106560))), (0x0463624225266253, (1, 0)), (0x4623624625236250, (1, 0)), (0x4620624325266253, (1, (3458576180058169117529 / 28147497671065600))), (0x4630624325266253, (2, 0)), (0x0463624325266253, (2, (3458576180058169117529 / 2814749767106560)))] :=
  NodeRes.expand_on tableEnv 3 0 3 _ _ _ _ 1 [15] 1 _ _
    (by norm_num [CPROB_THRESH_BASE, tableEnv]) (by decide) (Or.inl rfl)
    (by decide) (by decide) (by decide) (by norm_num [tableEnv, FloatEnv.fmul, FloatEnv.fadd, FloatEnv.fdiv])
    (FoldRes.cons tableEnv _ 0 3 _ _ 15 _ _ _ _ _ _ _ _ _ _ _ _ 0 _
      (by decide) (by decide) (by norm_num [tableEnv, FloatEnv.fmul, FloatEnv.fadd, FloatEnv.fdiv])
      (by norm_num [tableEnv, FloatEnv.fmul, FloatEnv.fadd, FloatEnv.fdiv])
      move_c_55 move_c_62
      (by norm_num [tableEnv, FloatEnv.fmul, FloatEnv.fadd, FloatEnv.fdiv])
      (FoldRes.nil tableEnv _ 0 3 _ _ _ _))
    (by norm_num [tableEnv, FloatEnv.fmul, FloatEnv.fadd, FloatEnv.fdiv])

theorem top_c_2 : ∀ t : Nat → Option (Int × ℚ),
    (∀ x, t x = List.lookup x ([(0x4622624625236250, (0, 0)), (0x4630624625236252, (1, 0)), (0x0463624625236252, (1, 0)), (0x4630624625236251, (1, 0)), (0x0463624625236251, (1, 0)), (0x4620624225266253, (0, (3458576180058169117529 / 281474976710656000))), (0x4630624225266253, (1, (3392958733487380990809 / 28147497671065600))), (0x4633624625236250, (2, (3392958733487380990809 / 2814749767106560))), (0x0463624225266253, (1, 0)), (0x4623624625236250, (1, 0)), (0x4620624325266253, (1, (3458576180058169117529 / 28147497671065600))), (0x4630624325266253, (2, 0)), (0x0463624325266253, (2, (3458576180058169117529 / 2814749767106560)))] : List (Nat × (Int × ℚ)))) →
    ∃ t2 hits, topLevelOn true tableEnv t 0x4622624525256253 2 = some ((1 / 1000000), t2, hits) ∧
      ∀ x, t2 x = List.lookup x ([(0x0463624525256253, (0, 0)), (0x2463624625236250, (1, 0)), (0x2460624325266253, (1, 0)), (0x1463624625236250, (1, 0)), (0x1460624325266253, (1, 0)), (0x4622624625236250, (0, 0)), (0x4630624625236252, (1, 0)), (0x0463624625236252, (1, 0)), (0x4630624625236251, (1, 0)), (0x0463624625236251, (1, 0)), (0x4620624225266253, (0, (3458576180058169117529 / 281474976710656000))), (0x4630624225266253, (1, (3392958733487380990809 / 28147497671065600))), (0x4633624625236250, (2, (3392958733487380990809 / 2814749767106560))), (0x0463624225266253, (1, 0)), (0x4623624625236250, (1, 0)), (0x4620624325266253, (1, (3458576180058169117529 / 28147497671065600))), (0x4630624325266253, (2, 0)), (0x0463624325266253, (2, (3458576180058169117529 / 2814749767106560)))] : List (Nat × (Int × ℚ))) :=
  topLevelOn_changed true tableEnv _ 2 _ _ _ 5 3 4 _ _ executeMove_2_4622624525256253 (by decide)
    (by decide) (by decide) (by decide) node_c_63 (by norm_num [tableEnv])

theorem node_c_64 :
    NodeRes (tileNodeOn true tableEnv 2) 2 3
      [(0x0463624525256253, (0, 0)), (0x2463624625236250, (1, 0)), (0x2460624325266253, (1, 0)), (0x1463624625236250, (1, 0)), (0x1460624325266253, (1, 0)), (0x4622624625236250, (0, 0)), (0x4630624625236252, (1, 0)), (0x0463624625236252, (1, 0)), (0x4630624625236251, (1, 0)), (0x0463624625236251, (1, 0)), (0x4620624225266253, (0, (3458576180058169117529 / 281474976710656000))), (0x4630624225266253, (1, (3392958733487380990809 / 28147497671065600))), (0x4633624625236250, (2, (3392958733487380990809 / 2814749767106560))), (0x0463624225266253, (1, 0)), (0x4623624625236250, (1, 0)), (0x4620624325266253, (1, (3458576180058169117529 / 28147497671065600))), (0x4630624325266253, (2, 0)), (0x0463624325266253, (2, (3458576180058169117529 / 2814749767106560)))]
      0x4630624225266253 (81 / 100) (3392958733487380990809 / 28147497671065600)
      [(0x0463624525256253, (0, 0)), (0x2463624625236250, (1, 0)), (0x2460624325266253, (1, 0)), (0x1463624625236250, (1, 0)), (0x1460624325266253, (1, 0)), (0x4622624625236250, (0, 0)), (0x4630624625236252, (1, 0)), (0x0463624625236252, (1, 0)), (0x4630624625236251, (1, 0)), (0x0463624625236251, (1, 0)), (0x4620624225266253, (0, (3458576180058169117529 / 281474976710656000))), (0x4630624225266253, (1, (3392958733487380990809 / 28147497671065600))), (0x4633624625236250, (2, (3392958733487380990809 / 2814749767106560))), (0x0463624225266253, (1, 0)), (0x4623624625236250, (1, 0)), (0x4620624325266253, (1, (3458576180058169117529 / 28147497671065600))), (0x4630624325266253, (2, 0)), (0x0463624325266253, (2, (3458576180058169117529 / 2814749767106560)))] :=
  NodeRes.hit tableEnv 1 2 3 _ _ _ 1 _ (by norm_num [CPROB_THRESH_BASE, tableEnv]) (by decide) rfl (by decide)

theorem move_c_65 :
    NodeRes (scoreMoveNodeWith (tileNodeOn true tableEnv 1)) 2 3
      [(0x0463624525256253, (0, 0)), (0x2463624625236250, (1, 0)), (0x2460624325266253, (1, 0)), (0x1463624625236250, (1, 0)), (0x1460624325266253, (1, 0)), (0x4622624625236250, (0, 0)), (0x4630624625236252, (1, 0)), (0x0463624625236252, (1, 0)), (0x4630624625236251, (1, 0)), (0x0463624625236251, (1, 0)), (0x4620624225266253, (0, (3458576180058169117529 / 281474976710656000))), (0x4630624225266253, (1, (3392958733487380990809 / 28147497671065600))), (0x4633624625236250, (2, (3392958733487380990809 / 2814749767106560))), (0x0463624225266253, (1, 0)), (0x4623624625236250, (1, 0)), (0x4620624325266253, (1, (3458576180058169117529 / 28147497671065600))), (0x4630624325266253, (2, 0)), (0x0463624325266253, (2, (3458576180058169117529 / 2814749767106560)))]
      0x4632624625236251 (729 / 1000) 0
      [(0x0463624525256253, (0, 0)), (0x2463624625236250, (1, 0)), (0x2460624325266253, (1, 0)), (0x1463624625236250, (1, 0)), (0x1460624325266253, (1, 0)), (0x4622624625236250, (0, 0)), (0x4630624625236252, (1, 0)), (0x0463624625236252, (1, 0)), (0x4630624625236251, (1, 0)), (0x0463624625236251, (1, 0)), (0x4620624225266253, (0, (3458576180058169117529 / 281474976710656000))), (0x4630624225266253, (1, (3392958733487380990809 / 28147497671065600))), (0x4633624625236250, (2, (3392958733487380990809 / 2814749767106560))), (0x0463624225266253, (1, 0)), (0x4623624625236250, (1, 0)), (0x4620624325266253, (1, (3458576180058169117529 / 28147497671065600))), (0x4630624325266253, (2, 0)), (0x0463624325266253, (2, (3458576180058169117529 / 2814749767106560)))] :=
  NodeRes.move _ 2 3 _ _ _ _ _ _ _ _ _ _ _
    (StepRes.unchanged _ 3 3 _ _ 0 _ _ executeMove_0_4632624625236251)
    (StepRes.unchanged _ 3 3 _ _ 1 _ _ executeMove_1_4632624625236251)
    (StepRes.unchanged _ 3 3 _ _ 2 _ _ executeMove_2_4632624625236251)
    (StepRes.unchanged _ 3 3 _ _ 3 _ _ executeMove_3_4632624625236251)
    _ (by norm_num)

theorem move_c_66 :
    NodeRes (scoreMoveNodeWith (tileNodeOn true tableEnv 1)) 2 3
      [(0x0463624525256253, (0, 0)), (0x2463624625236250, (1, 0)), (0x2460624325266253, (1, 0)), (0x1463624625236250, (1, 0)), (0x1460624325266253, (1, 0)), (0x4622624625236250, (0, 0)), (0x4630624625236252, (1, 0)), (0x0463624625236252, (1, 0)), (0x4630624625236251, (1, 0)), (0x0463624625236251, (1, 0)), (0x4620624225266253, (0, (3458576180058169117529 / 281474976710656000))), (0x4630624225266253, (1, (3392958733487380990809 / 28147497671065600))), (0x4633624625236250, (2, (3392958733487380990809 / 2814749767106560))), (0x0463624225266253, (1, 0)), (0x4623624625236250, (1, 0)), (0x4620624325266253, (1, (3458576180058169117529 / 28147497671065600))), (0x4630624325266253, (2, 0)), (0x0463624325266253, (2, (3458576180058169117529 / 2814749767106560)))]
      0x4632624625236252 (81 / 1000) 0
      [(0x0463624525256253, (0, 0)), (0x2463624625236250, (1, 0)), (0x2460624325266253, (1, 0)), (0x1463624625236250, (1, 0)), (0x1460624325266253, (1, 0)), (0x4622624625236250, (0, 0)), (0x4630624625236252, (1, 0)), (0x0463624625236252, (1, 0)), (0x4630624625236251, (1, 0)), (0x0463624625236251, (1, 0)), (0x4620624225266253, (0, (3458576180058169117529 / 281474976710656000))), (0x4630624225266253, (1, (3392958733487380990809 / 28147497671065600))), (0x4633624625236250, (2, (3392958733487380990809 / 2814749767106560))), (0x0463624225266253, (1, 0)), (0x4623624625236250, (1, 0)), (0x4620624325266253, (1, (3458576180058169117529 / 28147497671065600))), (0x4630624325266253, (2, 0)), (0x0463624325266253, (2, (3458576180058169117529 / 2814749767106560)))] :=
  NodeRes.move _ 2 3 _ _ _ _ _ _ _ _ _ _ _
    (StepRes.unchanged _ 3 3 _ _ 0 _ _ executeMove_0_4632624625236252)
    (StepRes.unchanged _ 3 3 _ _ 1 _ _ executeMove_1_4632624625236252)
    (StepRes.unchanged _ 3 3 _ _ 2 _ _ executeMove_2_4632624625236252)
    (StepRes.unchanged _ 3 3 _ _ 3 _ _ executeMove_3_4632624625236252)
    _ (by norm_num)

theorem node_c_67 :
    NodeRes (tileNodeOn true tableEnv 2) 2 3
      [(0x0463624525256253, (0, 0)), (0x2463624625236250, (1, 0)), (0x2460624325266253, (1, 0)), (0x1463624625236250, (1, 0)), (0x1460624325266253, (1, 0)), (0x4622624625236250, (0, 0)), (0x4630624625236252, (1, 0)), (0x0463624625236252, (1, 0)), (0x4630624625236251, (1, 0)), (0x0463624625236251, (1, 0)), (0x4620624225266253, (0, (3458576180058169117529 / 281474976710656000))), (0x4630624225266253, (1, (3392958733487380990809 / 28147497671065600))), (0x4633624625236250, (2, (3392958733487380990809 / 2814749767106560))), (0x0463624225266253, (1, 0)), (0x4623624625236250, (1, 0)), (0x4620624325266253, (1, (3458576180058169117529 / 28147497671065600))), (0x4630624325266253, (2, 0)), (0x0463624325266253, (2, (3458576180058169117529 / 2814749767106560)))]
      0x4632624625236250 (81 / 100) 0
      [(0x4632624625236250, (2, 0)), (0x0463624525256253, (0, 0)), (0x2463624625236250, (1, 0)), (0x2460624325266253, (1, 0)), (0x1463624625236250, (1, 0)), (0x1460624325266253, (1, 0)), (0x4622624625236250, (0, 0)), (0x4630624625236252, (1, 0)), (0x0463624625236252, (1, 0)), (0x4630624625236251, (1, 0)), (0x0463624625236251, (1, 0)), (0x4620624225266253, (0, (3458576180058169117529 / 281474976710656000))), (0x4630624225266253, (1, (3392958733487380990809 / 28147497671065600))), (0x4633624625236250, (2, (3392958733487380990809 / 2814749767106560))), (0x0463624225266253, (1, 0)), (0x4623624625236250, (1, 0)), (0x4620624325266253, (1, (3458576180058169117529 / 28147497671065600))), (0x4630624325266253, (2, 0)), (0x0463624325266253, (2, (3458576180058169117529 / 2814749767106560)))] :=
  NodeRes.expand_on tableEnv 1 2 3 _ _ _ _ 1 [0] (81 / 100) _ _
    (by norm_num [CPROB_THRESH_BASE, tableEnv]) (by decide) (Or.inl rfl)
    (by decide) (by decide) (by decide) (by norm_num [tableEnv, FloatEnv.fmul, FloatEnv.fadd, FloatEnv.fdiv])
    (FoldRes.cons tableEnv _ 2 3 _ _ 0 _ _ _ _ _ _ _ _ _ _ _ _ 0 _
      (by decide) (by decide) (by norm_num [tableEnv, FloatEnv.fmul, FloatEnv.fadd, FloatEnv.fdiv])
      (by norm_num [tableEnv, FloatEnv.fmul, FloatEnv.fadd, FloatEnv.fdiv])
      move_c_65 move_c_66
      (by norm_num [tableEnv, FloatEnv.fmul, FloatEnv.fadd, FloatEnv.fdiv])
      (FoldRes.nil tableEnv _ 2 3 _ _ _ _))
    (by norm_num [tableEnv, FloatEnv.fmul, FloatEnv.fadd, FloatEnv.fdiv])

theorem move_c_68 :
    NodeRes (scoreMoveNodeWith (tileNodeOn true tableEnv 2)) 1 3
      [(0x0463624525256253, (0, 0)), (0x2463624625236250, (1, 0)), (0x2460624325266253, (1, 0)), (0x1463624625236250, (1, 0)), (0x1460624325266253, (1, 0)), (0x4622624625236250, (0, 0)), (0x4630624625236252, (1, 0)), (0x0463624625236252, (1, 0)), (0x4630624625236251, (1, 0)), (0x0463624625236251, (1, 0)), (0x4620624225266253, (0, (3458576180058169117529 / 281474976710656000))), (0x4630624225266253, (1, (3392958733487380990809 / 28147497671065600))), (0x4633624625236250, (2, (3392958733487380990809 / 2814749767106560))), (0x0463624225266253, (1, 0)), (0x4623624625236250, (1, 0)), (0x4620624325266253, (1, (3458576180058169117529 / 28147497671065600))), (0x4630624325266253, (2, 0)), (0x0463624325266253, (2, (3458576180058169117529 / 2814749767106560)))]
      0x4631624125266253 (81 / 100) (3392958733487380990809 / 28147497671065600)
      [(0x4632624625236250, (2, 0)), (0x0463624525256253, (0, 0)), (0x2463624625236250, (1, 0)), (0x2460624325266253, (1, 0)), (0x1463624625236250, (1, 0)), (0x1460624325266253, (1, 0)), (0x4622624625236250, (0, 0)), (0x4630624625236252, (1, 0)), (0x0463624625236252, (1, 0)), (0x4630624625236251, (1, 0)), (0x0463624625236251, (1, 0)), (0x4620624225266253, (0, (3458576180058169117529 / 281474976710656000))), (0x4630624225266253, (1, (3392958733487380990809 / 28147497671065600))), (0x4633624625236250, (2, (3392958733487380990809 / 2814749767106560))), (0x0463624225266253, (1, 0)), (0x4623624625236250, (1, 0)), (0x4620624325266253, (1, (3458576180058169117529 / 28147497671065600))), (0x4630624325266253, (2, 0)), (0x0463624325266253, (2, (3458576180058169117529 / 2814749767106560)))] :=
  NodeRes.move _ 1 3 _ _ _ _ _ _ _ _ _ _ _
    (StepRes.changed _ 2 3 _ _ 0 _ _ _ _ _ _ executeMove_0_4631624125266253 (by decide) node_c_64 rfl)
    (StepRes.changed _ 2 3 _ _ 1 _ _ _ _ _ _ executeMove_1_4631624125266253 (by decide) node_c_67 rfl)
    (StepRes.unchanged _ 2 3 _ _ 2 _ _ executeMove_2_4631624125266253)
    (StepRes.unchanged _ 2 3 _ _ 3 _ _ executeMove_3_4631624125266253)
    _ (by norm_num)

theorem move_c_69 :
    NodeRes (scoreMoveNodeWith (tileNodeOn true tableEnv 2)) 1 3
      [(0x4632624625236250, (2, 0)), (0x0463624525256253, (0, 0)), (0x2463624625236250, (1, 0)), (0x2460624325266253, (1, 0)), (0x1463624625236250, (1, 0)), (0x1460624325266253, (1, 0)), (0x4622624625236250, (0, 0)), (0x4630624625236252, (1, 0)), (0x0463624625236252, (1, 0)), (0x4630624625236251, (1, 0)), (0x0463624625236251, (1, 0)), (0x4620624225266253, (0, (3458576180058169117529 / 281474976710656000))), (0x4630624225266253, (1, (3392958733487380990809 / 28147497671065600))), (0x4633624625236250, (2, (3392958733487380990809 / 2814749767106560))), (0x0463624225266253, (1, 0)), (0x4623624625236250, (1, 0)), (0x4620624325266253, (1, (3458576180058169117529 / 28147497671065600))), (0x4630624325266253, (2, 0)), (0x0463624325266253, (2, (3458576180058169117529 / 2814749767106560)))]
      0x4632624125266253 (9 / 100) 0
      [(0x4632624625236250, (2, 0)), (0x0463624525256253, (0, 0)), (0x2463624625236250, (1, 0)), (0x2460624325266253, (1, 0)), (0x1463624625236250, (1, 0)), (0x1460624325266253, (1, 0)), (0x4622624625236250, (0, 0)), (0x4630624625236252, (1, 0)), (0x0463624625236252, (1, 0)), (0x4630624625236251, (1, 0)), (0x0463624625236251, (1, 0)), (0x4620624225266253, (0, (3458576180058169117529 / 281474976710656000))), (0x4630624225266253, (1, (3392958733487380990809 / 28147497671065600))), (0x4633624625236250, (2, (3392958733487380990809 / 2814749767106560))), (0x0463624225266253, (1, 0)), (0x4623624625236250, (1, 0)), (0x4620624325266253, (1, (3458576180058169117529 / 28147497671065600))), (0x4630624325266253, (2, 0)), (0x0463624325266253, (2, (3458576180058169117529 / 2814749767106560)))] :=
  NodeRes.move _ 1 3 _ _ _ _ _ _ _ _ _ _ _
    (StepRes.unchanged _ 2 3 _ _ 0 _ _ executeMove_0_4632624125266253)
    (StepRes.unchanged _ 2 3 _ _ 1 _ _ executeMove_1_4632624125266253)
    (StepRes.unchanged _ 2 3 _ _ 2 _ _ executeMove_2_4632624125266253)
    (StepRes.unchanged _ 2 3 _ _ 3 _ _ executeMove_3_4632624125266253)
    _ (by norm_num)

theorem node_c_70 :
    NodeRes (tileNodeOn true tableEnv 3) 1 3
      [(0x0463624525256253, (0, 0)), (0x2463624625236250, (1, 0)), (0x2460624325266253, (1, 0)), (0x1463624625236250, (1, 0)), (0x1460624325266253, (1, 0)), (0x4622624625236250, (0, 0)), (0x4630624625236252, (1, 0)), (0x0463624625236252, (1, 0)), (0x4630624625236251, (1, 0)), (0x0463624625236251, (1, 0)), (0x4620624225266253, (0, (3458576180058169117529 / 281474976710656000))), (0x4630624225266253, (1, (3392958733487380990809 / 28147497671065600))), (0x4633624625236250, (2, (3392958733487380990809 / 2814749767106560))), (0x0463624225266253, (1, 0)), (0x4623624625236250, (1, 0)), (0x4620624325266253, (1, (3458576180058169117529 / 28147497671065600))), (0x4630624325266253, (2, 0)), (0x0463624325266253, (2, (3458576180058169117529 / 2814749767106560)))]
      0x4630624125266253 (9 / 10) (30536628601386428917281 / 281474976710656000)
      [(0x4630624125266253, (1, (30536628601386428917281 / 281474976710656000))), (0x4632624625236250, (2, 0)), (0x0463624525256253, (0, 0)), (0x2463624625236250, (1, 0)), (0x2460624325266253, (1, 0)), (0x1463624625236250, (1, 0)), (0x1460624325266253, (1, 0)), (0x4622624625236250, (0, 0)), (0x4630624625236252, (1, 0)), (0x0463624625236252, (1, 0)), (0x4630624625236251, (1, 0)), (0x0463624625236251, (1, 0)), (0x4620624225266253, (0, (3458576180058169117529 / 281474976710656000))), (0x4630624225266253, (1, (3392958733487380990809 / 28147497671065600))), (0x4633624625236250, (2, (3392958733487380990809 / 2814749767106560))), (0x0463624225266253, (1, 0)), (0x4623624625236250, (1, 0)), (0x4620624325266253, (1, (3458576180058169117529 / 28147497671065600))), (0x4630624325266253, (2, 0)), (0x0463624325266253, (2, (3458576180058169117529 / 2814749767106560)))] :=
  NodeRes.expand_on tableEnv 2 1 3 _ _ _ _ 1 [12] (9 / 10) _ _
    (by norm_num [CPROB_THRESH_BASE, tableEnv]) (by decide) (Or.inl rfl)
    (by decide) (by decide) (by decide) (by norm_num [tableEnv, FloatEnv.fmul, FloatEnv.fadd, FloatEnv.fdiv])
    (FoldRes.cons tableEnv _ 1 3 _ _ 12 _ _ _ _ _ _ _ _ _ _ _ _ (30536628601386428917281 / 281474976710656000) _
      (by decide) (by decide) (by norm_num [tableEnv, FloatEnv.fmul, FloatEnv.fadd, FloatEnv.fdiv])
      (by norm_num [tableEnv, FloatEnv.fmul, FloatEnv.fadd, FloatEnv.fdiv])
      move_c_68 move_c_69
      (by norm_num [tableEnv, FloatEnv.fmul, FloatEnv.fadd, FloatEnv.fdiv])
      (FoldRes.nil tableEnv _ 1 3 _ _ _ _))
    (by norm_num [tableEnv, FloatEnv.fmul, FloatEnv.fadd, FloatEnv.fdiv])

theorem move_c_71 :
    NodeRes (scoreMoveNodeWith (tileNodeOn true tableEnv 2)) 1 3
      [(0x4630624125266253, (1, (30536628601386428917281 / 281474976710656000))), (0x4632624625236250, (2, 0)), (0x0463624525256253, (0, 0)), (0x2463624625236250, (1, 0)), (0x2460624325266253, (1, 0)), (0x1463624625236250, (1, 0)), (0x1460624325266253, (1, 0)), (0x4622624625236250, (0, 0)), (0x4630624625236252, (1, 0)), (0x0463624625236252, (1, 0)), (0x4630624625236251, (1, 0)), (0x0463624625236251, (1, 0)), (0x4620624225266253, (0, (3458576180058169117529 / 281474976710656000))), (0x4630624225266253, (1, (3392958733487380990809 / 28147497671065600))), (0x4633624625236250, (2, (3392958733487380990809 / 2814749767106560))), (0x0463624225266253, (1, 0)), (0x4623624625236250, (1, 0)), (0x4620624325266253, (1, (3458576180058169117529 / 28147497671065600))), (0x4630624325266253, (2, 0)), (0x0463624325266253, (2, (3458576180058169117529 / 2814749767106560)))]
      0x4631624625236251 (81 / 100) 0
      [(0x4630624125266253, (1, (30536628601386428917281 / 281474976710656000))), (0x4632624625236250, (2, 0)), (0x0463624525256253, (0, 0)), (0x2463624625236250, (1, 0)), (0x2460624325266253, (1, 0)), (0x1463624625236250, (1, 0)), (0x1460624325266253, (1, 0)), (0x4622624625236250, (0, 0)), (0x4630624625236252, (1, 0)), (0x0463624625236252, (1, 0)), (0x4630624625236251, (1, 0)), (0x0463624625236251, (1, 0)), (0x4620624225266253, (0, (3458576180058169117529 / 281474976710656000))), (0x4630624225266253, (1, (3392958733487380990809 / 28147497671065600))), (0x4633624625236250, (2, (3392958733487380990809 / 2814749767106560))), (0x0463624225266253, (1, 0)), (0x4623624625236250, (1, 0)), (0x4620624325266253, (1, (3458576180058169117529 / 28147497671065600))), (0x4630624325266253, (2, 0)), (0x0463624325266253, (2, (3458576180058169117529 / 2814749767106560)))] :=
  NodeRes.move _ 1 3 _ _ _ _ _ _ _ _ _ _ _
    (StepRes.unchanged _ 2 3 _ _ 0 _ _ executeMove_0_4631624625236251)
    (StepRes.unchanged _ 2 3 _ _ 1 _ _ executeMove_1_4631624625236251)
    (StepRes.unchanged _ 2 3 _ _ 2 _ _ executeMove_2_4631624625236251)
    (StepRes.unchanged _ 2 3 _ _ 3 _ _ executeMove_3_4631624625236251)
    _ (by norm_num)

theorem move_c_72 :
    NodeRes (scoreMoveNodeWith (tileNodeOn true tableEnv 2)) 1 3
      [(0x4630624125266253, (1, (30536628601386428917281 / 281474976710656000))), (0x4632624625236250, (2, 0)), (0x0463624525256253, (0, 0)), (0x2463624625236250, (1, 0)), (0x2460624325266253, (1, 0)), (0x1463624625236250, (1, 0)), (0x1460624325266253, (1, 0)), (0x4622624625236250, (0, 0)), (0x4630624625236252, (1, 0)), (0x0463624625236252, (1, 0)), (0x4630624625236251, (1, 0)), (0x0463624625236251, (1, 0)), (0x4620624225266253, (0, (3458576180058169117529 / 281474976710656000))), (0x4630624225266253, (1, (3392958733487380990809 / 28147497671065600))), (0x4633624625236250, (2, (3392958733487380990809 / 2814749767106560))), (0x0463624225266253, (1, 0)), (0x4623624625236250, (1, 0)), (0x4620624325266253, (1, (3458576180058169117529 / 28147497671065600))), (0x4630624325266253, (2, 0)), (0x0463624325266253, (2, (3458576180058169117529 / 2814749767106560)))]
      0x4631624625236252 (9 / 100) 0
      [(0x4630624125266253, (1, (30536628601386428917281 / 281474976710656000))), (0x4632624625236250, (2, 0)), (0x0463624525256253, (0, 0)), (0x2463624625236250, (1, 0)), (0x2460624325266253, (1, 0)), (0x1463624625236250, (1, 0)), (0x1460624325266253, (1, 0)), (0x4622624625236250, (0, 0)), (0x4630624625236252, (1, 0)), (0x0463624625236252, (1, 0)), (0x4630624625236251, (1, 0)), (0x0463624625236251, (1, 0)), (0x4620624225266253, (0, (3458576180058169117529 / 281474976710656000))), (0x4630624225266253, (1, (3392958733487380990809 / 28147497671065600))), (0x4633624625236250, (2, (3392958733487380990809 / 2814749767106560))), (0x0463624225266253, (1, 0)), (0x4623624625236250, (1, 0)), (0x4620624325266253, (1, (3458576180058169117529 / 28147497671065600))), (0x4630624325266253, (2, 0)), (0x0463624325266253, (2, (3458576180058169117529 / 2814749767106560)))] :=
  NodeRes.move _ 1 3 _ _ _ _ _ _ _ _ _ _ _
    (StepRes.unchanged _ 2 3 _ _ 0 _ _ executeMove_0_4631624625236252)
    (StepRes.unchanged _ 2 3 _ _ 1 _ _ executeMove_1_4631624625236252)
    (StepRes.unchanged _ 2 3 _ _ 2 _ _ executeMove_2_4631624625236252)
    (StepRes.unchanged _ 2 3 _ _ 3 _ _ executeMove_3_4631624625236252)
    _ (by norm_num)

theorem node_c_73 :
    NodeRes (tileNodeOn true tableEnv 3) 1 3
      [(0x4630624125266253, (1, (30536628601386428917281 / 281474976710656000))), (0x4632624625236250, (2, 0)), (0x0463624525256253, (0, 0)), (0x2463624625236250, (1, 0)), (0x2460624325266253, (1, 0)), (0x1463624625236250, (1, 0)), (0x1460624325266253, (1, 0)), (0x4622624625236250, (0, 0)), (0x4630624625236252, (1, 0)), (0x0463624625236252, (1, 0)), (0x4630624625236251, (1, 0)), (0x0463624625236251, (1, 0)), (0x4620624225266253, (0, (3458576180058169117529 / 281474976710656000))), (0x4630624225266253, (1, (3392958733487380990809 / 28147497671065600))), (0x4633624625236250, (2, (3392958733487380990809 / 2814749767106560))), (0x0463624225266253, (1, 0)), (0x4623624625236250, (1, 0)), (0x4620624325266253, (1, (3458576180058169117529 / 28147497671065600))), (0x4630624325266253, (2, 0)), (0x0463624325266253, (2, (3458576180058169117529 / 2814749767106560)))]
      0x4631624625236250 (9 / 10) 0
      [(0x4631624625236250, (1, 0)), (0x4630624125266253, (1, (30536628601386428917281 / 281474976710656000))), (0x4632624625236250, (2, 0)), (0x0463624525256253, (0, 0)), (0x2463624625236250, (1, 0)), (0x2460624325266253, (1, 0)), (0x1463624625236250, (1, 0)), (0x1460624325266253, (1, 0)), (0x4622624625236250, (0, 0)), (0x4630624625236252, (1, 0)), (0x0463624625236252, (1, 0)), (0x4630624625236251, (1, 0)), (0x0463624625236251, (1, 0)), (0x4620624225266253, (0, (3458576180058169117529 / 281474976710656000))), (0x4630624225266253, (1, (3392958733487380990809 / 28147497671065600))), (0x4633624625236250, (2, (3392958733487380990809 / 2814749767106560))), (0x0463624225266253, (1, 0)), (0x4623624625236250, (1, 0)), (0x4620624325266253, (1, (3458576180058169117529 / 28147497671065600))), (0x4630624325266253, (2, 0)), (0x0463624325266253, (2, (3458576180058169117529 / 2814749767106560)))] :=
  NodeRes.expand_on tableEnv 2 1 3 _ _ _ _ 1 [0] (9 / 10) _ _
    (by norm_num [CPROB_THRESH_BASE, tableEnv]) (by decide) (Or.inl rfl)
    (by decide) (by decide) (by decide) (by norm_num [tableEnv, FloatEnv.fmul, FloatEnv.fadd, FloatEnv.fdiv])
    (FoldRes.cons tableEnv _ 1 3 _ _ 0 _ _ _ _ _ _ _ _ _ _ _ _ 0 _
      (by decide) (by decide) (by norm_num [tableEnv, FloatEnv.fmul, FloatEnv.fadd, FloatEnv.fdiv])
      (by norm_num [tableEnv, FloatEnv.fmul, FloatEnv.fadd, FloatEnv.fdiv])
      move_c_71 move_c_72
      (by norm_num [tableEnv, FloatEnv.fmul, FloatEnv.fadd, FloatEnv.fdiv])
      (FoldRes.nil tableEnv _ 1 3 _ _ _ _))
    (by norm_num [tableEnv, FloatEnv.fmul, FloatEnv.fadd, FloatEnv.fdiv])

theorem move_c_74 :
    NodeRes (scoreMoveNodeWith (tileNodeOn true tableEnv 3)) 0 3
      [(0x0463624525256253, (0, 0)), (0x2463624625236250, (1, 0)), (0x2460624325266253, (1, 0)), (0x1463624625236250, (1, 0)), (0x1460624325266253, (1, 0)), (0x4622624625236250, (0, 0)), (0x4630624625236252, (1, 0)), (0x0463624625236252, (1, 0)), (0x4630624625236251, (1, 0)), (0x0463624625236251, (1, 0)), (0x4620624225266253, (0, (3458576180058169117529 / 281474976710656000))), (0x4630624225266253, (1, (3392958733487380990809 / 28147497671065600))), (0x4633624625236250, (2, (3392958733487380990809 / 2814749767106560))), (0x0463624225266253, (1, 0)), (0x4623624625236250, (1, 0)), (0x4620624325266253, (1, (3458576180058169117529 / 28147497671065600))), (0x4630624325266253, (2, 0)), (0x0463624325266253, (2, (3458576180058169117529 / 2814749767106560)))]
      0x4631624525256253 (9 / 10) (30536628601386428917281 / 281474976710656000)
      [(0x4631624625236250, (1, 0)), (0x4630624125266253, (1, (30536628601386428917281 / 281474976710656000))), (0x4632624625236250, (2, 0)), (0x0463624525256253, (0, 0)), (0x2463624625236250, (1, 0)), (0x2460624325266253, (1, 0)), (0x1463624625236250, (1, 0)), (0x1460624325266253, (1, 0)), (0x4622624625236250, (0, 0)), (0x4630624625236252, (1, 0)), (0x0463624625236252, (1, 0)), (0x4630624625236251, (1, 0)), (0x0463624625236251, (1, 0)), (0x4620624225266253, (0, (3458576180058169117529 / 281474976710656000))), (0x4630624225266253, (1, (3392958733487380990809 / 28147497671065600))), (0x4633624625236250, (2, (3392958733487380990809 / 2814749767106560))), (0x0463624225266253, (1, 0)), (0x4623624625236250, (1, 0)), (0x4620624325266253, (1, (3458576180058169117529 / 28147497671065600))), (0x4630624325266253, (2, 0)), (0x0463624325266253, (2, (3458576180058169117529 / 2814749767106560)))] :=
  NodeRes.move _ 0 3 _ _ _ _ _ _ _ _ _ _ _
    (StepRes.changed _ 1 3 _ _ 0 _ _ _ _ _ _ executeMove_0_4631624525256253 (by decide) node_c_70 rfl)
    (StepRes.changed _ 1 3 _ _ 1 _ _ _ _ _ _ executeMove_1_4631624525256253 (by decide) node_c_73 rfl)
    (StepRes.unchanged _ 1 3 _ _ 2 _ _ executeMove_2_4631624525256253)
    (StepRes.unchanged _ 1 3 _ _ 3 _ _ executeMove_3_4631624525256253)
    _ (by norm_num)

theorem node_c_75 :
    NodeRes (tileNodeOn true tableEnv 3) 1 3
      [(0x4631624625236250, (1, 0)), (0x4630624125266253, (1, (30536628601386428917281 / 281474976710656000))), (0x4632624625236250, (2, 0)), (0x0463624525256253, (0, 0)), (0x2463624625236250, (1, 0)), (0x2460624325266253, (1, 0)), (0x1463624625236250, (1, 0)), (0x1460624325266253, (1, 0)), (0x4622624625236250, (0, 0)), (0x4630624625236252, (1, 0)), (0x0463624625236252, (1, 0)), (0x4630624625236251, (1, 0)), (0x0463624625236251, (1, 0)), (0x4620624225266253, (0, (3458576180058169117529 / 281474976710656000))), (0x4630624225266253, (1, (3392958733487380990809 / 28147497671065600))), (0x4633624625236250, (2, (3392958733487380990809 / 2814749767106560))), (0x0463624225266253, (1, 0)), (0x4623624625236250, (1, 0)), (0x4620624325266253, (1, (3458576180058169117529 / 28147497671065600))), (0x4630624325266253, (2, 0)), (0x0463624325266253, (2, (3458576180058169117529 / 2814749767106560)))]
      0x4630624225266253 (1 / 10) (3392958733487380990809 / 28147497671065600)
      [(0x4631624625236250, (1, 0)), (0x4630624125266253, (1, (30536628601386428917281 / 281474976710656000))), (0x4632624625236250, (2, 0)), (0x0463624525256253, (0, 0)), (0x2463624625236250, (1, 0)), (0x2460624325266253, (1, 0)), (0x1463624625236250, (1, 0)), (0x1460624325266253, (1, 0)), (0x4622624625236250, (0, 0)), (0x4630624625236252, (1, 0)), (0x0463624625236252, (1, 0)), (0x4630624625236251, (1, 0)), (0x0463624625236251, (1, 0)), (0x4620624225266253, (0, (3458576180058169117529 / 281474976710656000))), (0x4630624225266253, (1, (3392958733487380990809 / 28147497671065600))), (0x4633624625236250, (2, (3392958733487380990809 / 2814749767106560))), (0x0463624225266253, (1, 0)), (0x4623624625236250, (1, 0)), (0x4620624325266253, (1, (3458576180058169117529 / 28147497671065600))), (0x4630624325266253, (2, 0)), (0x0463624325266253, (2, (3458576180058169117529 / 2814749767106560)))] :=
  NodeRes.hit tableEnv 2 1 3 _ _ _ 1 _ (by norm_num [CPROB_THRESH_BASE, tableEnv]) (by decide) rfl (by decide)

theorem move_c_76 :
    NodeRes (scoreMoveNodeWith (tileNodeOn true tableEnv 2)) 1 3
      [(0x4631624625236250, (1, 0)), (0x4630624125266253, (1, (30536628601386428917281 / 281474976710656000))), (0x4632624625236250, (2, 0)), (0x0463624525256253, (0, 0)), (0x2463624625236250, (1, 0)), (0x2460624325266253, (1, 0)), (0x1463624625236250, (1, 0)), (0x1460624325266253, (1, 0)), (0x4622624625236250, (0, 0)), (0x4630624625236252, (1, 0)), (0x0463624625236252, (1, 0)), (0x4630624625236251, (1, 0)), (0x0463624625236251, (1, 0)), (0x4620624225266253, (0, (3458576180058169117529 / 281474976710656000))), (0x4630624225266253, (1, (3392958733487380990809 / 28147497671065600))), (0x4633624625236250, (2, (3392958733487380990809 / 2814749767106560))), (0x0463624225266253, (1, 0)), (0x4623624625236250, (1, 0)), (0x4620624325266253, (1, (3458576180058169117529 / 28147497671065600))), (0x4630624325266253, (2, 0)), (0x0463624325266253, (2, (3458576180058169117529 / 2814749767106560)))]
      0x4632624625236251 (9 / 100) 0
      [(0x4631624625236250, (1, 0)), (0x4630624125266253, (1, (30536628601386428917281 / 281474976710656000))), (0x4632624625236250, (2, 0)), (0x0463624525256253, (0, 0)), (0x2463624625236250, (1, 0)), (0x2460624325266253, (1, 0)), (0x1463624625236250, (1, 0)), (0x1460624325266253, (1, 0)), (0x4622624625236250, (0, 0)), (0x4630624625236252, (1, 0)), (0x0463624625236252, (1, 0)), (0x4630624625236251, (1, 0)), (0x0463624625236251, (1, 0)), (0x4620624225266253, (0, (3458576180058169117529 / 281474976710656000))), (0x4630624225266253, (1, (3392958733487380990809 / 28147497671065600))), (0x4633624625236250, (2, (3392958733487380990809 / 2814749767106560))), (0x0463624225266253, (1, 0)), (0x4623624625236250, (1, 0)), (0x4620624325266253, (1, (3458576180058169117529 / 28147497671065600))), (0x4630624325266253, (2, 0)), (0x0463624325266253, (2, (3458576180058169117529 / 2814749767106560)))] :=
  NodeRes.move _ 1 3 _ _ _ _ _ _ _ _ _ _ _
    (StepRes.unchanged _ 2 3 _ _ 0 _ _ executeMove_0_4632624625236251)
    (StepRes.unchanged _ 2 3 _ _ 1 _ _ executeMove_1_4632624625236251)
    (StepRes.unchanged _ 2 3 _ _ 2 _ _ executeMove_2_4632624625236251)
    (StepRes.unchanged _ 2 3 _ _ 3 _ _ executeMove_3_4632624625236251)
    _ (by norm_num)

theorem move_c_77 :
    NodeRes (scoreMoveNodeWith (tileNodeOn true tableEnv 2)) 1 3
      [(0x4631624625236250, (1, 0)), (0x4630624125266253, (1, (30536628601386428917281 / 281474976710656000))), (0x4632624625236250, (2, 0)), (0x0463624525256253, (0, 0)), (0x2463624625236250, (1, 0)), (0x2460624325266253, (1, 0)), (0x1463624625236250, (1, 0)), (0x1460624325266253, (1, 0)), (0x4622624625236250, (0, 0)), (0x4630624625236252, (1, 0)), (0x0463624625236252, (1, 0)), (0x4630624625236251, (1, 0)), (0x0463624625236251, (1, 0)), (0x4620624225266253, (0, (3458576180058169117529 / 281474976710656000))), (0x4630624225266253, (1, (3392958733487380990809 / 28147497671065600))), (0x4633624625236250, (2, (3392958733487380990809 / 2814749767106560))), (0x0463624225266253, (1, 0)), (0x4623624625236250, (1, 0)), (0x4620624325266253, (1, (3458576180058169117529 / 28147497671065600))), (0x4630624325266253, (2, 0)), (0x0463624325266253, (2, (3458576180058169117529 / 2814749767106560)))]
      0x4632624625236252 (1 / 100) 0
      [(0x4631624625236250, (1, 0)), (0x4630624125266253, (1, (30536628601386428917281 / 281474976710656000))), (0x4632624625236250, (2, 0)), (0x0463624525256253, (0, 0)), (0x2463624625236250, (1, 0)), (0x2460624325266253, (1, 0)), (0x1463624625236250, (1, 0)), (0x1460624325266253, (1, 0)), (0x4622624625236250, (0, 0)), (0x4630624625236252, (1, 0)), (0x0463624625236252, (1, 0)), (0x4630624625236251, (1, 0)), (0x0463624625236251, (1, 0)), (0x4620624225266253, (0, (3458576180058169117529 / 281474976710656000))), (0x4630624225266253, (1, (3392958733487380990809 / 28147497671065600))), (0x4633624625236250, (2, (3392958733487380990809 / 2814749767106560))), (0x0463624225266253, (1, 0)), (0x4623624625236250, (1, 0)), (0x4620624325266253, (1, (3458576180058169117529 / 28147497671065600))), (0x4630624325266253, (2, 0)), (0x0463624325266253, (2, (3458576180058169117529 / 2814749767106560)))] :=
  NodeRes.move _ 1 3 _ _ _ _ _ _ _ _ _ _ _
    (StepRes.unchanged _ 2 3 _ _ 0 _ _ executeMove_0_4632624625236252)
    (StepRes.unchanged _ 2 3 _ _ 1 _ _ executeMove_1_4632624625236252)
    (StepRes.unchanged _ 2 3 _ _ 2 _ _ executeMove_2_4632624625236252)
    (StepRes.unchanged _ 2 3 _ _ 3 _ _ executeMove_3_4632624625236252)
    _ (by norm_num)

theorem node_c_78 :
    NodeRes (tileNodeOn true tableEnv 3) 1 3
      [(0x4631624625236250, (1, 0)), (0x4630624125266253, (1, (30536628601386428917281 / 281474976710656000))), (0x4632624625236250, (2, 0)), (0x0463624525256253, (0, 0)), (0x2463624625236250, (1, 0)), (0x2460624325266253, (1, 0)), (0x1463624625236250, (1, 0)), (0x1460624325266253, (1, 0)), (0x4622624625236250, (0, 0)), (0x4630624625236252, (1, 0)), (0x0463624625236252, (1, 0)), (0x4630624625236251, (1, 0)), (0x0463624625236251, (1, 0)), (0x4620624225266253, (0, (3458576180058169117529 / 281474976710656000))), (0x4630624225266253, (1, (3392958733487380990809 / 28147497671065600))), (0x4633624625236250, (2, (3392958733487380990809 / 2814749767106560))), (0x0463624225266253, (1, 0)), (0x4623624625236250, (1, 0)), (0x4620624325266253, (1, (3458576180058169117529 / 28147497671065600))), (0x4630624325266253, (2, 0)), (0x0463624325266253, (2, (3458576180058169117529 / 2814749767106560)))]
      0x4632624625236250 (1 / 10) 0
      [(0x4632624625236250, (1, 0)), (0x4631624625236250, (1, 0)), (0x4630624125266253, (1, (30536628601386428917281 / 281474976710656000))), (0x4632624625236250, (2, 0)), (0x0463624525256253, (0, 0)), (0x2463624625236250, (1, 0)), (0x2460624325266253, (1, 0)), (0x1463624625236250, (1, 0)), (0x1460624325266253, (1, 0)), (0x4622624625236250, (0, 0)), (0x4630624625236252, (1, 0)), (0x0463624625236252, (1, 0)), (0x4630624625236251, (1, 0)), (0x0463624625236251, (1, 0)), (0x4620624225266253, (0, (3458576180058169117529 / 281474976710656000))), (0x4630624225266253, (1, (3392958733487380990809 / 28147497671065600))), (0x4633624625236250, (2, (3392958733487380990809 / 2814749767106560))), (0x0463624225266253, (1, 0)), (0x4623624625236250, (1, 0)), (0x4620624325266253, (1, (3458576180058169117529 / 28147497671065600))), (0x4630624325266253, (2, 0)), (0x0463624325266253, (2, (3458576180058169117529 / 2814749767106560)))] :=
  NodeRes.expand_on tableEnv 2 1 3 _ _ _ _ 1 [0] (1 / 10) _ _
    (by norm_num [CPROB_THRESH_BASE, tableEnv]) (by decide) (Or.inr ⟨2, 0, rfl, by decide⟩)
    (by decide) (by decide) (by decide) (by norm_num [tableEnv, FloatEnv.fmul, FloatEnv.fadd, FloatEnv.fdiv])
    (FoldRes.cons tableEnv _ 1 3 _ _ 0 _ _ _ _ _ _ _ _ _ _ _ _ 0 _
      (by decide) (by decide) (by norm_num [tableEnv, FloatEnv.fmul, FloatEnv.fadd, FloatEnv.fdiv])
      (by norm_num [tableEnv, FloatEnv.fmul, FloatEnv.fadd, FloatEnv.fdiv])
      move_c_76 move_c_77
      (by norm_num [tableEnv, FloatEnv.fmul, FloatEnv.fadd, FloatEnv.fdiv])
      (FoldRes.nil tableEnv _ 1 3 _ _ _ _))
    (by norm_num [tableEnv, FloatEnv.fmul, FloatEnv.fadd, FloatEnv.fdiv])

theorem move_c_79 :
    NodeRes (scoreMoveNodeWith (tileNodeOn true tableEnv 3)) 0 3
      [(0x4631624625236250, (1, 0)), (0x4630624125266253, (1, (30536628601386428917281 / 281474976710656000))), (0x4632624625236250, (2, 0)), (0x0463624525256253, (0, 0)), (0x2463624625236250, (1, 0)), (0x2460624325266253, (1, 0)), (0x1463624625236250, (1, 0)), (0x1460624325266253, (1, 0)), (0x4622624625236250, (0, 0)), (0x4630624625236252, (1, 0)), (0x0463624625236252, (1, 0)), (0x4630624625236251, (1, 0)), (0x0463624625236251, (1, 0)), (0x4620624225266253, (0, (3458576180058169117529 / 281474976710656000))), (0x4630624225266253, (1, (3392958733487380990809 / 28147497671065600))), (0x4633624625236250, (2, (3392958733487380990809 / 2814749767106560))), (0x0463624225266253, (1, 0)), (0x4623624625236250, (1, 0)), (0x4620624325266253, (1, (3458576180058169117529 / 28147497671065600))), (0x4630624325266253, (2, 0)), (0x0463624325266253, (2, (3458576180058169117529 / 2814749767106560)))]
      0x4632624525256253 (1 / 10) (3392958733487380990809 / 28147497671065600)
      [(0x4632624625236250, (1, 0)), (0x4631624625236250, (1, 0)), (0x4630624125266253, (1, (30536628601386428917281 / 281474976710656000))), (0x4632624625236250, (2, 0)), (0x0463624525256253, (0, 0)), (0x2463624625236250, (1, 0)), (0x2460624325266253, (1, 0)), (0x1463624625236250, (1, 0)), (0x1460624325266253, (1, 0)), (0x4622624625236250, (0, 0)), (0x4630624625236252, (1, 0)), (0x0463624625236252, (1, 0)), (0x4630624625236251, (1, 0)), (0x0463624625236251, (1, 0)), (0x4620624225266253, (0, (3458576180058169117529 / 281474976710656000))), (0x4630624225266253, (1, (3392958733487380990809 / 28147497671065600))), (0x4633624625236250, (2, (3392958733487380990809 / 2814749767106560))), (0x0463624225266253, (1, 0)), (0x4623624625236250, (1, 0)), (0x4620624325266253, (1, (3458576180058169117529 / 28147497671065600))), (0x4630624325266253, (2, 0)), (0x0463624325266253, (2, (3458576180058169117529 / 2814749767106560)))] :=
  NodeRes.move _ 0 3 _ _ _ _ _ _ _ _ _ _ _
    (StepRes.changed _ 1 3 _ _ 0 _ _ _ _ _ _ executeMove_0_4632624525256253 (by decide) node_c_75 rfl)
    (StepRes.changed _ 1 3 _ _ 1 _ _ _ _ _ _ executeMove_1_4632624525256253 (by decide) node_c_78 rfl)
    (StepRes.unchanged _ 1 3 _ _ 2 _ _ executeMove_2_4632624525256253)
    (StepRes.unchanged _ 1 3 _ _ 3 _ _ executeMove_3_4632624525256253)
    _ (by norm_num)

theorem node_c_80 :
    NodeRes (tileNodeOn true tableEnv 4) 0 3
      [(0x0463624525256253, (0, 0)), (0x2463624625236250, (1, 0)), (0x2460624325266253, (1, 0)), (0x1463624625236250, (1, 0)), (0x1460624325266253, (1, 0)), (0x4622624625236250, (0, 0)), (0x4630624625236252, (1, 0)), (0x0463624625236252, (1, 0)), (0x4630624625236251, (1, 0)), (0x0463624625236251, (1, 0)), (0x4620624225266253, (0, (3458576180058169117529 / 281474976710656000))), (0x4630624225266253, (1, (3392958733487380990809 / 28147497671065600))), (0x4633624625236250, (2, (3392958733487380990809 / 2814749767106560))), (0x0463624225266253, (1, 0)), (0x4623624625236250, (1, 0)), (0x4620624325266253, (1, (3458576180058169117529 / 28147497671065600))), (0x4630624325266253, (2, 0)), (0x0463624325266253, (2, (3458576180058169117529 / 2814749767106560)))]
      0x4630624525256253 1 (308759244747351670163619 / 2814749767106560000)
      [(0x4630624525256253, (0, (308759244747351670163619 / 2814749767106560000))), (0x4632624625236250, (1, 0)), (0x4631624625236250, (1, 0)), (0x4630624125266253, (1, (30536628601386428917281 / 281474976710656000))), (0x4632624625236250, (2, 0)), (0x0463624525256253, (0, 0)), (0x2463624625236250, (1, 0)), (0x2460624325266253, (1, 0)), (0x1463624625236250, (1, 0)), (0x1460624325266253, (1, 0)), (0x4622624625236250, (0, 0)), (0x4630624625236252, (1, 0)), (0x0463624625236252, (1, 0)), (0x4630624625236251, (1, 0)), (0x0463624625236251, (1, 0)), (0x4620624225266253, (0, (3458576180058169117529 / 281474976710656000))), (0x4630624225266253, (1, (3392958733487380990809 / 28147497671065600))), (0x4633624625236250, (2, (3392958733487380990809 / 2814749767106560))), (0x0463624225266253, (1, 0)), (0x4623624625236250, (1, 0)), (0x4620624325266253, (1, (3458576180058169117529 / 28147497671065600))), (0x4630624325266253, (2, 0)), (0x0463624325266253, (2, (3458576180058169117529 / 2814749767106560)))] :=
  NodeRes.expand_on tableEnv 3 0 3 _ _ _ _ 1 [12] 1 _ _
    (by norm_num [CPROB_THRESH_BASE, tableEnv]) (by decide) (Or.inl rfl)
    (by decide) (by decide) (by decide) (by norm_num [tableEnv, FloatEnv.fmul, FloatEnv.fadd, FloatEnv.fdiv])
    (FoldRes.cons tableEnv _ 0 3 _ _ 12 _ _ _ _ _ _ _ _ _ _ _ _ (308759244747351670163619 / 2814749767106560000) _
      (by decide) (by decide) (by norm_num [tableEnv, FloatEnv.fmul, FloatEnv.fadd, FloatEnv.fdiv])
      (by norm_num [tableEnv, FloatEnv.fmul, FloatEnv.fadd, FloatEnv.fdiv])
      move_c_74 move_c_79
      (by norm_num [tableEnv, FloatEnv.fmul, FloatEnv.fadd, FloatEnv.fdiv])
      (FoldRes.nil tableEnv _ 0 3 _ _ _ _))
    (by norm_num [tableEnv, FloatEnv.fmul, FloatEnv.fadd, FloatEnv.fdiv])

theorem top_c_3 : ∀ t : Nat → Option (Int × ℚ),
    (∀ x, t x = List.lookup x ([(0x0463624525256253, (0, 0)), (0x2463624625236250, (1, 0)), (0x2460624325266253, (1, 0)), (0x1463624625236250, (1, 0)), (0x1460624325266253, (1, 0)), (0x4622624625236250, (0, 0)), (0x4630624625236252, (1, 0)), (0x0463624625236252, (1, 0)), (0x4630624625236251, (1, 0)), (0x0463624625236251, (1, 0)), (0x4620624225266253, (0, (3458576180058169117529 / 281474976710656000))), (0x4630624225266253, (1, (3392958733487380990809 / 28147497671065600))), (0x4633624625236250, (2, (3392958733487380990809 / 2814749767106560))), (0x0463624225266253, (1, 0)), (0x4623624625236250, (1, 0)), (0x4620624325266253, (1, (3458576180058169117529 / 28147497671065600))), (0x4630624325266253, (2, 0)), (0x0463624325266253, (2, (3458576180058169117529 / 2814749767106560)))] : List (Nat × (Int × ℚ)))) →
    ∃ t2 hits, topLevelOn true tableEnv t 0x4622624525256253 3 = some ((7718981118754160498268139 / 70368744177664000000), t2, hits) ∧
      ∀ x, t2 x = List.lookup x ([(0x4630624525256253, (0, (308759244747351670163619 / 2814749767106560000))), (0x4632624625236250, (1, 0)), (0x4631624625236250, (1, 0)), (0x4630624125266253, (1, (30536628601386428917281 / 281474976710656000))), (0x4632624625236250, (2, 0)), (0x0463624525256253, (0, 0)), (0x2463624625236250, (1, 0)), (0x2460624325266253, (1, 0)), (0x1463624625236250, (1, 0)), (0x1460624325266253, (1, 0)), (0x4622624625236250, (0, 0)), (0x4630624625236252, (1, 0)), (0x0463624625236252, (1, 0)), (0x4630624625236251, (1, 0)), (0x0463624625236251, (1, 0)), (0x4620624225266253, (0, (3458576180058169117529 / 281474976710656000))), (0x4630624225266253, (1, (3392958733487380990809 / 28147497671065600))), (0x4633624625236250, (2, (3392958733487380990809 / 2814749767106560))), (0x0463624225266253, (1, 0)), (0x4623624625236250, (1, 0)), (0x4620624325266253, (1, (3458576180058169117529 / 28147497671065600))), (0x4630624325266253, (2, 0)), (0x0463624325266253, (2, (3458576180058169117529 / 2814749767106560)))] : List (Nat × (Int × ℚ))) :=
  topLevelOn_changed true tableEnv _ 3 _ _ _ 5 3 4 _ _ executeMove_3_4622624525256253 (by decide)
    (by decide) (by decide) (by decide) node_c_80 (by norm_num [tableEnv])

/-! ### With the cache bypassed -/

theorem move_u_1 :
    NodeRes (scoreMoveNodeWith (tileNodeOn false tableEnv 3)) 0 3
      []
      0x4621624225266253 (9 / 10) 0
      [] :=
  NodeRes.move _ 0 3 _ _ _ _ _ _ _ _ _ _ _
    (StepRes.unchanged _ 1 3 _ _ 0 _ _ executeMove_0_4621624225266253)
    (StepRes.unchanged _ 1 3 _ _ 1 _ _ executeMove_1_4621624225266253)
    (StepRes.unchanged _ 1 3 _ _ 2 _ _ executeMove_2_4621624225266253)
    (StepRes.unchanged _ 1 3 _ _ 3 _ _ executeMove_3_4621624225266253)
    _ (by norm_num)

theorem move_u_2 :
    NodeRes (scoreMoveNodeWith (tileNodeOn false tableEnv 2)) 1 3
      []
      0x4621624325266253 (9 / 100) 0
      [] :=
  NodeRes.move _ 1 3 _ _ _ _ _ _ _ _ _ _ _
    (StepRes.unchanged _ 2 3 _ _ 0 _ _ executeMove_0_4621624325266253)
    (StepRes.unchanged _ 2 3 _ _ 1 _ _ executeMove_1_4621624325266253)
    (StepRes.unchanged _ 2 3 _ _ 2 _ _ executeMove_2_4621624325266253)
    (StepRes.unchanged _ 2 3 _ _ 3 _ _ executeMove_3_4621624325266253)
    _ (by norm_num)

theorem node_u_3 :
    NodeRes (tileNodeOn false tableEnv 1) 3 3
      []
      0x1460624425266253 (9 / 1000) (86461040182962456353 / 70368744177664)
      [] :=
  NodeRes.leaf false tableEnv 0 3 3 _ _ _ _ (Or.inr (by decide)) scoreHeurBoard_1460624425266253

theorem node_u_4 :
    NodeRes (tileNodeOn false tableEnv 1) 3 3
      []
      0x1464624625236250 (9 / 1000) (84345052045540099873 / 70368744177664)
      [] :=
  NodeRes.leaf false tableEnv 0 3 3 _ _ _ _ (Or.inr (by decide)) scoreHeurBoard_1464624625236250

theorem move_u_5 :
    NodeRes (scoreMoveNodeWith (tileNodeOn false tableEnv 1)) 2 3
      []
      0x1463624325266253 (9 / 1000) (86461040182962456353 / 70368744177664)
      [] :=
  NodeRes.move _ 2 3 _ _ _ _ _ _ _ _ _ _ _
    (StepRes.changed _ 3 3 _ _ 0 _ _ _ _ _ _ executeMove_0_1463624325266253 (by decide) node_u_3 rfl)
    (StepRes.changed _ 3 3 _ _ 1 _ _ _ _ _ _ executeMove_1_1463624325266253 (by decide) node_u_4 rfl)
    (StepRes.unchanged _ 3 3 _ _ 2 _ _ executeMove_2_1463624325266253)
    (StepRes.unchanged _ 3 3 _ _ 3 _ _ executeMove_3_1463624325266253)
    _ (by norm_num)

theorem node_u_6 :
    NodeRes (tileNodeOn false tableEnv 1) 3 3
      []
      0x2460624425266253 (1 / 1000) (345978733471520688821 / 281474976710656)
      [] :=
  NodeRes.leaf false tableEnv 0 3 3 _ _ _ _ (Or.inr (by decide)) scoreHeurBoard_2460624425266253

theorem node_u_7 :
    NodeRes (tileNodeOn false tableEnv 1) 3 3
      []
      0x2464624625236250 (1 / 1000) (337316341063250250421 / 281474976710656)
      [] :=
  NodeRes.leaf false tableEnv 0 3 3 _ _ _ _ (Or.inr (by decide)) scoreHeurBoard_2464624625236250

theorem move_u_8 :
    NodeRes (scoreMoveNodeWith (tileNodeOn false tableEnv 1)) 2 3
      []
      0x2463624325266253 (1 / 1000) (345978733471520688821 / 281474976710656)
      [] :=
  NodeRes.move _ 2 3 _ _ _ _ _ _ _ _ _ _ _
    (StepRes.changed _ 3 3 _ _ 0 _ _ _ _ _ _ executeMove_0_2463624325266253 (by decide) node_u_6 rfl)
    (StepRes.changed _ 3 3 _ _ 1 _ _ _ _ _ _ executeMove_1_2463624325266253 (by decide) node_u_7 rfl)
    (StepRes.unchanged _ 3 3 _ _ 2 _ _ executeMove_2_2463624325266253)
    (StepRes.unchanged _ 3 3 _ _ 3 _ _ executeMove_3_2463624325266253)
    _ (by norm_num)

theorem node_u_9 :
    NodeRes (tileNodeOn false tableEnv 2) 2 3
      []
      0x0463624325266253 (1 / 100) (3458576180058169117529 / 2814749767106560)
      [] :=
  NodeRes.expand_off tableEnv 1 2 3 _ _ _ _ 1 [15] (1 / 100) _ _
    (by norm_num [CPROB_THRESH_BASE, tableEnv])
    (by decide) (by decide) (by decide) (by norm_num [tableEnv, FloatEnv.fmul, FloatEnv.fadd, FloatEnv.fdiv])
    (FoldRes.cons tableEnv _ 2 3 _ _ 15 _ _ _ _ _ _ _ _ _ _ _ _ (3458576180058169117529 / 2814749767106560) _
      (by decide) (by decide) (by norm_num [tableEnv, FloatEnv.fmul, FloatEnv.fadd, FloatEnv.fdiv])
      (by norm_num [tableEnv, FloatEnv.fmul, FloatEnv.fadd, FloatEnv.fdiv])
      move_u_5 move_u_8
      (by norm_num [tableEnv, FloatEnv.fmul, FloatEnv.fadd, FloatEnv.fdiv])
      (FoldRes.nil tableEnv _ 2 3 _ _ _ _))
    (by norm_num [tableEnv, FloatEnv.fmul, FloatEnv.fadd, FloatEnv.fdiv])

theorem move_u_10 :
    NodeRes (scoreMoveNodeWith (tileNodeOn false tableEnv 1)) 2 3
      []
      0x4631624325266253 (9 / 1000) 0
      [] :=
  NodeRes.move _ 2 3 _ _ _ _ _ _ _ _ _ _ _
    (StepRes.unchanged _ 3 3 _ _ 0 _ _ executeMove_0_4631624325266253)
    (StepRes.unchanged _ 3 3 _ _ 1 _ _ executeMove_1_4631624325266253)
    (StepRes.unchanged _ 3 3 _ _ 2 _ _ executeMove_2_4631624325266253)
    (StepRes.unchanged _ 3 3 _ _ 3 _ _ executeMove_3_4631624325266253)
    _ (by norm_num)

theorem move_u_11 :
    NodeRes (scoreMoveNodeWith (tileNodeOn false tableEnv 1)) 2 3
      []
      0x4632624325266253 (1 / 1000) 0
      [] :=
  NodeRes.move _ 2 3 _ _ _ _ _ _ _ _ _ _ _
    (StepRes.unchanged _ 3 3 _ _ 0 _ _ executeMove_0_4632624325266253)
    (StepRes.unchanged _ 3 3 _ _ 1 _ _ executeMove_1_4632624325266253)
    (StepRes.unchanged _ 3 3 _ _ 2 _ _ executeMove_2_4632624325266253)
    (StepRes.unchanged _ 3 3 _ _ 3 _ _ executeMove_3_4632624325266253)
    _ (by norm_num)

theorem node_u_12 :
    NodeRes (tileNodeOn false tableEnv 2) 2 3
      []
      0x4630624325266253 (1 / 100) 0
      [] :=
  NodeRes.expand_off tableEnv 1 2 3 _ _ _ _ 1 [12] (1 / 100) _ _
    (by norm_num [CPROB_THRESH_BASE, tableEnv])
    (by decide) (by decide) (by decide) (by norm_num [tableEnv, FloatEnv.fmul, FloatEnv.fadd, FloatEnv.fdiv])
    (FoldRes.cons tableEnv _ 2 3 _ _ 12 _ _ _ _ _ _ _ _ _ _ _ _ 0 _
      (by decide) (by decide) (by norm_num [tableEnv, FloatEnv.fmul, FloatEnv.fadd, FloatEnv.fdiv])
      (by norm_num [tableEnv, FloatEnv.fmul, FloatEnv.fadd, FloatEnv.fdiv])
      move_u_10 move_u_11
      (by norm_num [tableEnv, FloatEnv.fmul, FloatEnv.fadd, FloatEnv.fdiv])
      (FoldRes.nil tableEnv _ 2 3 _ _ _ _))
    (by norm_num [tableEnv, FloatEnv.fmul, FloatEnv.fadd, FloatEnv.fdiv])

theorem move_u_13 :
    NodeRes (scoreMoveNodeWith (tileNodeOn false tableEnv 2)) 1 3
      []
      0x4622624325266253 (1 / 100) (3458576180058169117529 / 2814749767106560)
      [] :=
  NodeRes.move _ 1 3 _ _ _ _ _ _ _ _ _ _ _
    (StepRes.unchanged _ 2 3 _ _ 0 _ _ executeMove_0_4622624325266253)
    (StepRes.unchanged _ 2 3 _ _ 1 _ _ executeMove_1_4622624325266253)
    (StepRes.changed _ 2 3 _ _ 2 _ _ _ _ _ _ executeMove_2_4622624325266253 (by decide) node_u_9 rfl)
    (StepRes.changed _ 2 3 _ _ 3 _ _ _ _ _ _ executeMove_3_4622624325266253 (by decide) node_u_12 rfl)
    _ (by norm_num)

theorem node_u_14 :
    NodeRes (tileNodeOn false tableEnv 3) 1 3
      []
      0x4620624325266253 (1 / 10) (3458576180058169117529 / 28147497671065600)
      [] :=
  NodeRes.expand_off tableEnv 2 1 3 _ _ _ _ 1 [12] (1 / 10) _ _
    (by norm_num [CPROB_THRESH_BASE, tableEnv])
    (by decide) (by decide) (by decide) (by norm_num [tableEnv, FloatEnv.fmul, FloatEnv.fadd, FloatEnv.fdiv])
    (FoldRes.cons tableEnv _ 1 3 _ _ 12 _ _ _ _ _ _ _ _ _ _ _ _ (3458576180058169117529 / 28147497671065600) _
      (by decide) (by decide) (by norm_num [tableEnv, FloatEnv.fmul, FloatEnv.fadd, FloatEnv.fdiv])
      (by norm_num [tableEnv, FloatEnv.fmul, FloatEnv.fadd, FloatEnv.fdiv])
      move_u_2 move_u_13
      (by norm_num [tableEnv, FloatEnv.fmul, FloatEnv.fadd, FloatEnv.fdiv])
      (FoldRes.nil tableEnv _ 1 3 _ _ _ _))
    (by norm_num [tableEnv, FloatEnv.fmul, FloatEnv.fadd, FloatEnv.fdiv])

theorem move_u_15 :
    NodeRes (scoreMoveNodeWith (tileNodeOn false tableEnv 2)) 1 3
      []
      0x4623624625236251 (9 / 100) 0
      [] :=
  NodeRes.move _ 1 3 _ _ _ _ _ _ _ _ _ _ _
    (StepRes.unchanged _ 2 3 _ _ 0 _ _ executeMove_0_4623624625236251)
    (StepRes.unchanged _ 2 3 _ _ 1 _ _ executeMove_1_4623624625236251)
    (StepRes.unchanged _ 2 3 _ _ 2 _ _ executeMove_2_4623624625236251)
    (StepRes.unchanged _ 2 3 _ _ 3 _ _ executeMove_3_4623624625236251)
    _ (by norm_num)

theorem move_u_16 :
    NodeRes (scoreMoveNodeWith (tileNodeOn false tableEnv 2)) 1 3
      []
      0x4623624625236252 (1 / 100) 0
      [] :=
  NodeRes.move _ 1 3 _ _ _ _ _ _ _ _ _ _ _
    (StepRes.unchanged _ 2 3 _ _ 0 _ _ executeMove_0_4623624625236252)
    (StepRes.unchanged _ 2 3 _ _ 1 _ _ executeMove_1_4623624625236252)
    (StepRes.unchanged _ 2 3 _ _ 2 _ _ executeMove_2_4623624625236252)
    (StepRes.unchanged _ 2 3 _ _ 3 _ _ executeMove_3_4623624625236252)
    _ (by norm_num)

theorem node_u_17 :
    NodeRes (tileNodeOn false tableEnv 3) 1 3
      []
      0x4623624625236250 (1 / 10) 0
      [] :=
  NodeRes.expand_off tableEnv 2 1 3 _ _ _ _ 1 [0] (1 / 10) _ _
    (by norm_num [CPROB_THRESH_BASE, tableEnv])
    (by decide) (by decide) (by decide) (by norm_num [tableEnv, FloatEnv.fmul, FloatEnv.fadd, FloatEnv.fdiv])
    (FoldRes.cons tableEnv _ 1 3 _ _ 0 _ _ _ _ _ _ _ _ _ _ _ _ 0 _
      (by decide) (by decide) (by norm_num [tableEnv, FloatEnv.fmul, FloatEnv.fadd, FloatEnv.fdiv])
      (by norm_num [tableEnv, FloatEnv.fmul, FloatEnv.fadd, FloatEnv.fdiv])
      move_u_15 move_u_16
      (by norm_num [tableEnv, FloatEnv.fmul, FloatEnv.fadd, FloatEnv.fdiv])
      (FoldRes.nil tableEnv _ 1 3 _ _ _ _))
    (by norm_num [tableEnv, FloatEnv.fmul, FloatEnv.fadd, FloatEnv.fdiv])

theorem move_u_18 :
    NodeRes (scoreMoveNodeWith (tileNodeOn false tableEnv 2)) 1 3
      []
      0x1463624225266253 (9 / 100) 0
      [] :=
  NodeRes.move _ 1 3 _ _ _ _ _ _ _ _ _ _ _
    (StepRes.unchanged _ 2 3 _ _ 0 _ _ executeMove_0_1463624225266253)
    (StepRes.unchanged _ 2 3 _ _ 1 _ _ executeMove_1_1463624225266253)
    (StepRes.unchanged _ 2 3 _ _ 2 _ _ executeMove_2_1463624225266253)
    (StepRes.unchanged _ 2 3 _ _ 3 _ _ executeMove_3_1463624225266253)
    _ (by norm_num)

theorem move_u_19 :
    NodeRes (scoreMoveNodeWith (tileNodeOn false tableEnv 2)) 1 3
      []
      0x2463624225266253 (1 / 100) 0
      [] :=
  NodeRes.move _ 1 3 _ _ _ _ _ _ _ _ _ _ _
    (StepRes.unchanged _ 2 3 _ _ 0 _ _ executeMove_0_2463624225266253)
    (StepRes.unchanged _ 2 3 _ _ 1 _ _ executeMove_1_2463624225266253)
    (StepRes.unchanged _ 2 3 _ _ 2 _ _ executeMove_2_2463624225266253)
    (StepRes.unchanged _ 2 3 _ _ 3 _ _ executeMove_3_2463624225266253)
    _ (by norm_num)

theorem node_u_20 :
    NodeRes (tileNodeOn false tableEnv 3) 1 3
      []
      0x0463624225266253 (1 / 10) 0
      [] :=
  NodeRes.expand_off tableEnv 2 1 3 _ _ _ _ 1 [15] (1 / 10) _ _
    (by norm_num [CPROB_THRESH_BASE, tableEnv])
    (by decide) (by decide) (by decide) (by norm_num [tableEnv, FloatEnv.fmul, FloatEnv.fadd, FloatEnv.fdiv])
    (FoldRes.cons tableEnv _ 1 3 _ _ 15 _ _ _ _ _ _ _ _ _ _ _ _ 0 _
      (by decide) (by decide) (by norm_num [tableEnv, FloatEnv.fmul, FloatEnv.fadd, FloatEnv.fdiv])
      (by norm_num [tableEnv, FloatEnv.fmul, FloatEnv.fadd, FloatEnv.fdiv])
      move_u_18 move_u_19
      (by norm_num [tableEnv, FloatEnv.fmul, FloatEnv.fadd, FloatEnv.fdiv])
      (FoldRes.nil tableEnv _ 1 3 _ _ _ _))
    (by norm_num [tableEnv, FloatEnv.fmul, FloatEnv.fadd, FloatEnv.fdiv])

theorem move_u_21 :
    NodeRes (scoreMoveNodeWith (tileNodeOn false tableEnv 2)) 1 3
      []
      0x4631624225266253 (9 / 100) 0
      [] :=
  NodeRes.move _ 1 3 _ _ _ _ _ _ _ _ _ _ _
    (StepRes.unchanged _ 2 3 _ _ 0 _ _ executeMove_0_4631624225266253)
    (StepRes.unchanged _ 2 3 _ _ 1 _ _ executeMove_1_4631624225266253)
    (StepRes.unchanged _ 2 3 _ _ 2 _ _ executeMove_2_4631624225266253)
    (StepRes.unchanged _ 2 3 _ _ 3 _ _ executeMove_3_4631624225266253)
    _ (by norm_num)

theorem node_u_22 :
    NodeRes (tileNodeOn false tableEnv 1) 3 3
      []
      0x0464624625236251 (9 / 1000) (84345052045540099873 / 70368744177664)
      [] :=
  NodeRes.leaf false tableEnv 0 3 3 _ _ _ _ (Or.inr (by decide)) scoreHeurBoard_0464624625236251

theorem node_u_23 :
    NodeRes (tileNodeOn false tableEnv 1) 3 3
      []
      0x4640624625236251 (9 / 1000) (84820604018692753185 / 70368744177664)
      [] :=
  NodeRes.leaf false tableEnv 0 3 3 _ _ _ _ (Or.inr (by decide)) scoreHeurBoard_4640624625236251

theorem move_u_24 :
    NodeRes (scoreMoveNodeWith (tileNodeOn false tableEnv 1)) 2 3
      []
      0x4633624625236251 (9 / 1000) (84820604018692753185 / 70368744177664)
      [] :=
  NodeRes.move _ 2 3 _ _ _ _ _ _ _ _ _ _ _
    (StepRes.unchanged _ 3 3 _ _ 0 _ _ executeMove_0_4633624625236251)
    (StepRes.unchanged _ 3 3 _ _ 1 _ _ executeMove_1_4633624625236251)
    (StepRes.changed _ 3 3 _ _ 2 _ _ _ _ _ _ executeMove_2_4633624625236251 (by decide) node_u_22 rfl)
    (StepRes.changed _ 3 3 _ _ 3 _ _ _ _ _ _ executeMove_3_4633624625236251 (by decide) node_u_23 rfl)
    _ (by norm_num)

theorem node_u_25 :
    NodeRes (tileNodeOn false tableEnv 1) 3 3
      []
      0x0464624625236252 (1 / 1000) (337316341063250250421 / 281474976710656)
      [] :=
  NodeRes.leaf false tableEnv 0 3 3 _ _ _ _ (Or.inr (by decide)) scoreHeurBoard_0464624625236252

theorem node_u_26 :
    NodeRes (tileNodeOn false tableEnv 1) 3 3
      []
      0x4640624625236252 (1 / 1000) (339416988814441876149 / 281474976710656)
      [] :=
  NodeRes.leaf false tableEnv 0 3 3 _ _ _ _ (Or.inr (by decide)) scoreHeurBoard_4640624625236252

theorem move_u_27 :
    NodeRes (scoreMoveNodeWith (tileNodeOn false tableEnv 1)) 2 3
      []
      0x4633624625236252 (1 / 1000) (339416988814441876149 / 281474976710656)
      [] :=
  NodeRes.move _ 2 3 _ _ _ _ _ _ _ _ _ _ _
    (StepRes.unchanged _ 3 3 _ _ 0 _ _ executeMove_0_4633624625236252)
    (StepRes.unchanged _ 3 3 _ _ 1 _ _ executeMove_1_4633624625236252)
    (StepRes.changed _ 3 3 _ _ 2 _ _ _ _ _ _ executeMove_2_4633624625236252 (by decide) node_u_25 rfl)
    (StepRes.changed _ 3 3 _ _ 3 _ _ _ _ _ _ executeMove_3_4633624625236252 (by decide) node_u_26 rfl)
    _ (by norm_num)

theorem node_u_28 :
    NodeRes (tileNodeOn false tableEnv 2) 2 3
      []
      0x4633624625236250 (1 / 100) (3392958733487380990809 / 2814749767106560)
      [] :=
  NodeRes.expand_off tableEnv 1 2 3 _ _ _ _ 1 [0] (1 / 100) _ _
    (by norm_num [CPROB_THRESH_BASE, tableEnv])
    (by decide) (by decide) (by decide) (by norm_num [tableEnv, FloatEnv.fmul, FloatEnv.fadd, FloatEnv.fdiv])
    (FoldRes.cons tableEnv _ 2 3 _ _ 0 _ _ _ _ _ _ _ _ _ _ _ _ (3392958733487380990809 / 2814749767106560) _
      (by decide) (by decide) (by norm_num [tableEnv, FloatEnv.fmul, FloatEnv.fadd, FloatEnv.fdiv])
      (by norm_num [tableEnv, FloatEnv.fmul, FloatEnv.fadd, FloatEnv.fdiv])
      move_u_24 move_u_27
      (by norm_num [tableEnv, FloatEnv.fmul, FloatEnv.fadd, FloatEnv.fdiv])
      (FoldRes.nil tableEnv _ 2 3 _ _ _ _))
    (by norm_num [tableEnv, FloatEnv.fmul, FloatEnv.fadd, FloatEnv.fdiv])

theorem move_u_29 :
    NodeRes (scoreMoveNodeWith (tileNodeOn false tableEnv 2)) 1 3
      []
      0x4632624225266253 (1 / 100) (3392958733487380990809 / 2814749767106560)
      [] :=
  NodeRes.move _ 1 3 _ _ _ _ _ _ _ _ _ _ _
    (StepRes.changed _ 2 3 _ _ 0 _ _ _ _ _ _ executeMove_0_4632624225266253 (by decide) node_u_12 rfl)
    (StepRes.changed _ 2 3 _ _ 1 _ _ _ _ _ _ executeMove_1_4632624225266253 (by decide) node_u_28 rfl)
    (StepRes.unchanged _ 2 3 _ _ 2 _ _ executeMove_2_4632624225266253)
    (StepRes.unchanged _ 2 3 _ _ 3 _ _ executeMove_3_4632624225266253)
    _ (by norm_num)

theorem node_u_30 :
    NodeRes (tileNodeOn false tableEnv 3) 1 3
      []
      0x4630624225266253 (1 / 10) (3392958733487380990809 / 28147497671065600)
      [] :=
  NodeRes.expand_off tableEnv 2 1 3 _ _ _ _ 1 [12] (1 / 10) _ _
    (by norm_num [CPROB_THRESH_BASE, tableEnv])
    (by decide) (by decide) (by decide) (by norm_num [tableEnv, FloatEnv.fmul, FloatEnv.fadd, FloatEnv.fdiv])
    (FoldRes.cons tableEnv _ 1 3 _ _ 12 _ _ _ _ _ _ _ _ _ _ _ _ (3392958733487380990809 / 28147497671065600) _
      (by decide) (by decide) (by norm_num [tableEnv, FloatEnv.fmul, FloatEnv.fadd, FloatEnv.fdiv])
      (by norm_num [tableEnv, FloatEnv.fmul, FloatEnv.fadd, FloatEnv.fdiv])
      move_u_21 move_u_29
      (by norm_num [tableEnv, FloatEnv.fmul, FloatEnv.fadd, FloatEnv.fdiv])
      (FoldRes.nil tableEnv _ 1 3 _ _ _ _))
    (by norm_num [tableEnv, FloatEnv.fmul, FloatEnv.fadd, FloatEnv.fdiv])

theorem move_u_31 :
    NodeRes (scoreMoveNodeWith (tileNodeOn false tableEnv 3)) 0 3
      []
      0x4622624225266253 (1 / 10) (3458576180058169117529 / 28147497671065600)
      [] :=
  NodeRes.move _ 0 3 _ _ _ _ _ _ _ _ _ _ _
    (StepRes.changed _ 1 3 _ _ 0 _ _ _ _ _ _ executeMove_0_4622624225266253 (by decide) node_u_14 rfl)
    (StepRes.changed _ 1 3 _ _ 1 _ _ _ _ _ _ executeMove_1_4622624225266253 (by decide) node_u_17 rfl)
    (StepRes.changed _ 1 3 _ _ 2 _ _ _ _ _ _ executeMove_2_4622624225266253 (by decide) node_u_20 rfl)
    (StepRes.changed _ 1 3 _ _ 3 _ _ _ _ _ _ executeMove_3_4622624225266253 (by decide) node_u_30 rfl)
    _ (by norm_num)

theorem node_u_32 :
    NodeRes (tileNodeOn false tableEnv 4) 0 3
      []
      0x4620624225266253 1 (3458576180058169117529 / 281474976710656000)
      [] :=
  NodeRes.expand_off tableEnv 3 0 3 _ _ _ _ 1 [12] 1 _ _
    (by norm_num [CPROB_THRESH_BASE, tableEnv])
    (by decide) (by decide) (by decide) (by norm_num [tableEnv, FloatEnv.fmul, FloatEnv.fadd, FloatEnv.fdiv])
    (FoldRes.cons tableEnv _ 0 3 _ _ 12 _ _ _ _ _ _ _ _ _ _ _ _ (3458576180058169117529 / 281474976710656000) _
      (by decide) (by decide) (by norm_num [tableEnv, FloatEnv.fmul, FloatEnv.fadd, FloatEnv.fdiv])
      (by norm_num [tableEnv, FloatEnv.fmul, FloatEnv.fadd, FloatEnv.fdiv])
      move_u_1 move_u_31
      (by norm_num [tableEnv, FloatEnv.fmul, FloatEnv.fadd, FloatEnv.fdiv])
      (FoldRes.nil tableEnv _ 0 3 _ _ _ _))
    (by norm_num [tableEnv, FloatEnv.fmul, FloatEnv.fadd, FloatEnv.fdiv])

theorem top_u_0 : ∀ t : Nat → Option (Int × ℚ),
    (∀ x, t x = List.lookup x ([] : List (Nat × (Int × ℚ)))) →
    ∃ t2 hits, topLevelOn false tableEnv t 0x4622624525256253 0 = some ((432322022542455511779957 / 35184372088832000000), t2, hits) ∧
      ∀ x, t2 x = List.lookup x ([] : List (Nat × (Int × ℚ))) :=
  topLevelOn_changed false tableEnv _ 0 _ _ _ 5 3 4 _ _ executeMove_0_4622624525256253 (by decide)
    (by decide) (by decide) (by decide) node_u_32 (by norm_num [tableEnv])

theorem move_u_33 :
    NodeRes (scoreMoveNodeWith (tileNodeOn false tableEnv 2)) 1 3
      []
      0x1463624625236251 (81 / 100) 0
      [] :=
  NodeRes.move _ 1 3 _ _ _ _ _ _ _ _ _ _ _
    (StepRes.unchanged _ 2 3 _ _ 0 _ _ executeMove_0_1463624625236251)
    (StepRes.unchanged _ 2 3 _ _ 1 _ _ executeMove_1_1463624625236251)
    (StepRes.unchanged _ 2 3 _ _ 2 _ _ executeMove_2_1463624625236251)
    (StepRes.unchanged _ 2 3 _ _ 3 _ _ executeMove_3_1463624625236251)
    _ (by norm_num)

theorem move_u_34 :
    NodeRes (scoreMoveNodeWith (tileNodeOn false tableEnv 2)) 1 3
      []
      0x2463624625236251 (9 / 100) 0
      [] :=
  NodeRes.move _ 1 3 _ _ _ _ _ _ _ _ _ _ _
    (StepRes.unchanged _ 2 3 _ _ 0 _ _ executeMove_0_2463624625236251)
    (StepRes.unchanged _ 2 3 _ _ 1 _ _ executeMove_1_2463624625236251)
    (StepRes.unchanged _ 2 3 _ _ 2 _ _ executeMove_2_2463624625236251)
    (StepRes.unchanged _ 2 3 _ _ 3 _ _ executeMove_3_2463624625236251)
    _ (by norm_num)

theorem node_u_35 :
    NodeRes (tileNodeOn false tableEnv 3) 1 3
      []
      0x0463624625236251 (9 / 10) 0
      [] :=
  NodeRes.expand_off tableEnv 2 1 3 _ _ _ _ 1 [15] (9 / 10) _ _
    (by norm_num [CPROB_THRESH_BASE, tableEnv])
    (by decide) (by decide) (by decide) (by norm_num [tableEnv, FloatEnv.fmul, FloatEnv.fadd, FloatEnv.fdiv])
    (FoldRes.cons tableEnv _ 1 3 _ _ 15 _ _ _ _ _ _ _ _ _ _ _ _ 0 _
      (by decide) (by decide) (by norm_num [tableEnv, FloatEnv.fmul, FloatEnv.fadd, FloatEnv.fdiv])
      (by norm_num [tableEnv, FloatEnv.fmul, FloatEnv.fadd, FloatEnv.fdiv])
      move_u_33 move_u_34
      (by norm_num [tableEnv, FloatEnv.fmul, FloatEnv.fadd, FloatEnv.fdiv])
      (FoldRes.nil tableEnv _ 1 3 _ _ _ _))
    (by norm_num [tableEnv, FloatEnv.fmul, FloatEnv.fadd, FloatEnv.fdiv])

theorem move_u_36 :
    NodeRes (scoreMoveNodeWith (tileNodeOn false tableEnv 2)) 1 3
      []
      0x4631624625236251 (81 / 100) 0
      [] :=
  NodeRes.move _ 1 3 _ _ _ _ _ _ _ _ _ _ _
    (StepRes.unchanged _ 2 3 _ _ 0 _ _ executeMove_0_4631624625236251)
    (StepRes.unchanged _ 2 3 _ _ 1 _ _ executeMove_1_4631624625236251)
    (StepRes.unchanged _ 2 3 _ _ 2 _ _ executeMove_2_4631624625236251)
    (StepRes.unchanged _ 2 3 _ _ 3 _ _ executeMove_3_4631624625236251)
    _ (by norm_num)

theorem move_u_37 :
    NodeRes (scoreMoveNodeWith (tileNodeOn false tableEnv 2)) 1 3
      []
      0x4632624625236251 (9 / 100) 0
      [] :=
  NodeRes.move _ 1 3 _ _ _ _ _ _ _ _ _ _ _
    (StepRes.unchanged _ 2 3 _ _ 0 _ _ executeMove_0_4632624625236251)
    (StepRes.unchanged _ 2 3 _ _ 1 _ _ executeMove_1_4632624625236251)
    (StepRes.unchanged _ 2 3 _ _ 2 _ _ executeMove_2_4632624625236251)
    (StepRes.unchanged _ 2 3 _ _ 3 _ _ executeMove_3_4632624625236251)
    _ (by norm_num)

theorem node_u_38 :
    NodeRes (tileNodeOn false tableEnv 3) 1 3
      []
      0x4630624625236251 (9 / 10) 0
      [] :=
  NodeRes.expand_off tableEnv 2 1 3 _ _ _ _ 1 [12] (9 / 10) _ _
    (by norm_num [CPROB_THRESH_BASE, tableEnv])
    (by decide) (by decide) (by decide) (by norm_num [tableEnv, FloatEnv.fmul, FloatEnv.fadd, FloatEnv.fdiv])
    (FoldRes.cons tableEnv _ 1 3 _ _ 12 _ _ _ _ _ _ _ _ _ _ _ _ 0 _
      (by decide) (by decide) (by norm_num [tableEnv, FloatEnv.fmul, FloatEnv.fadd, FloatEnv.fdiv])
      (by norm_num [tableEnv, FloatEnv.fmul, FloatEnv.fadd, FloatEnv.fdiv])
      move_u_36 move_u_37
      (by norm_num [tableEnv, FloatEnv.fmul, FloatEnv.fadd, FloatEnv.fdiv])
      (FoldRes.nil tableEnv _ 1 3 _ _ _ _))
    (by norm_num [tableEnv, FloatEnv.fmul, FloatEnv.fadd, FloatEnv.fdiv])

theorem move_u_39 :
    NodeRes (scoreMoveNodeWith (tileNodeOn false tableEnv 3)) 0 3
      []
      0x4622624625236251 (9 / 10) 0
      [] :=
  NodeRes.move _ 0 3 _ _ _ _ _ _ _ _ _ _ _
    (StepRes.unchanged _ 1 3 _ _ 0 _ _ executeMove_0_4622624625236251)
    (StepRes.unchanged _ 1 3 _ _ 1 _ _ executeMove_1_4622624625236251)
    (StepRes.changed _ 1 3 _ _ 2 _ _ _ _ _ _ executeMove_2_4622624625236251 (by decide) node_u_35 rfl)
    (StepRes.changed _ 1 3 _ _ 3 _ _ _ _ _ _ executeMove_3_4622624625236251 (by decide) node_u_38 rfl)
    _ (by norm_num)

theorem move_u_40 :
    NodeRes (scoreMoveNodeWith (tileNodeOn false tableEnv 2)) 1 3
      []
      0x1463624625236252 (9 / 100) 0
      [] :=
  NodeRes.move _ 1 3 _ _ _ _ _ _ _ _ _ _ _
    (StepRes.unchanged _ 2 3 _ _ 0 _ _ executeMove_0_1463624625236252)
    (StepRes.unchanged _ 2 3 _ _ 1 _ _ executeMove_1_1463624625236252)
    (StepRes.unchanged _ 2 3 _ _ 2 _ _ executeMove_2_1463624625236252)
    (StepRes.unchanged _ 2 3 _ _ 3 _ _ executeMove_3_1463624625236252)
    _ (by norm_num)

theorem move_u_41 :
    NodeRes (scoreMoveNodeWith (tileNodeOn false tableEnv 2)) 1 3
      []
      0x2463624625236252 (1 / 100) 0
      [] :=
  NodeRes.move _ 1 3 _ _ _ _ _ _ _ _ _ _ _
    (StepRes.unchanged _ 2 3 _ _ 0 _ _ executeMove_0_2463624625236252)
    (StepRes.unchanged _ 2 3 _ _ 1 _ _ executeMove_1_2463624625236252)
    (StepRes.unchanged _ 2 3 _ _ 2 _ _ executeMove_2_2463624625236252)
    (StepRes.unchanged _ 2 3 _ _ 3 _ _ executeMove_3_2463624625236252)
    _ (by norm_num)

theorem node_u_42 :
    NodeRes (tileNodeOn false tableEnv 3) 1 3
      []
      0x0463624625236252 (1 / 10) 0
      [] :=
  NodeRes.expand_off tableEnv 2 1 3 _ _ _ _ 1 [15] (1 / 10) _ _
    (by norm_num [CPROB_THRESH_BASE, tableEnv])
    (by decide) (by decide) (by decide) (by norm_num [tableEnv, FloatEnv.fmul, FloatEnv.fadd, FloatEnv.fdiv])
    (FoldRes.cons tableEnv _ 1 3 _ _ 15 _ _ _ _ _ _ _ _ _ _ _ _ 0 _
      (by decide) (by decide) (by norm_num [tableEnv, FloatEnv.fmul, FloatEnv.fadd, FloatEnv.fdiv])
      (by norm_num [tableEnv, FloatEnv.fmul, FloatEnv.fadd, FloatEnv.fdiv])
      move_u_40 move_u_41
      (by norm_num [tableEnv, FloatEnv.fmul, FloatEnv.fadd, FloatEnv.fdiv])
      (FoldRes.nil tableEnv _ 1 3 _ _ _ _))
    (by norm_num [tableEnv, FloatEnv.fmul, FloatEnv.fadd, FloatEnv.fdiv])

theorem move_u_43 :
    NodeRes (scoreMoveNodeWith (tileNodeOn false tableEnv 2)) 1 3
      []
      0x4631624625236252 (9 / 100) 0
      [] :=
  NodeRes.move _ 1 3 _ _ _ _ _ _ _ _ _ _ _
    (StepRes.unchanged _ 2 3 _ _ 0 _ _ executeMove_0_4631624625236252)
    (StepRes.unchanged _ 2 3 _ _ 1 _ _ executeMove_1_4631624625236252)
    (StepRes.unchanged _ 2 3 _ _ 2 _ _ executeMove_2_4631624625236252)
    (StepRes.unchanged _ 2 3 _ _ 3 _ _ executeMove_3_4631624625236252)
    _ (by norm_num)

theorem move_u_44 :
    NodeRes (scoreMoveNodeWith (tileNodeOn false tableEnv 2)) 1 3
      []
      0x4632624625236252 (1 / 100) 0
      [] :=
  NodeRes.move _ 1 3 _ _ _ _ _ _ _ _ _ _ _
    (StepRes.unchanged _ 2 3 _ _ 0 _ _ executeMove_0_4632624625236252)
    (StepRes.unchanged _ 2 3 _ _ 1 _ _ executeMove_1_4632624625236252)
    (StepRes.unchanged _ 2 3 _ _ 2 _ _ executeMove_2_4632624625236252)
    (StepRes.unchanged _ 2 3 _ _ 3 _ _ executeMove_3_4632624625236252)
    _ (by norm_num)

theorem node_u_45 :
    NodeRes (tileNodeOn false tableEnv 3) 1 3
      []
      0x4630624625236252 (1 / 10) 0
      [] :=
  NodeRes.expand_off tableEnv 2 1 3 _ _ _ _ 1 [12] (1 / 10) _ _
    (by norm_num [CPROB_THRESH_BASE, tableEnv])
    (by decide) (by decide) (by decide) (by norm_num [tableEnv, FloatEnv.fmul, FloatEnv.fadd, FloatEnv.fdiv])
    (FoldRes.cons tableEnv _ 1 3 _ _ 12 _ _ _ _ _ _ _ _ _ _ _ _ 0 _
      (by decide) (by decide) (by norm_num [tableEnv, FloatEnv.fmul, FloatEnv.fadd, FloatEnv.fdiv])
      (by norm_num [tableEnv, FloatEnv.fmul, FloatEnv.fadd, FloatEnv.fdiv])
      move_u_43 move_u_44
      (by norm_num [tableEnv, FloatEnv.fmul, FloatEnv.fadd, FloatEnv.fdiv])
      (FoldRes.nil tableEnv _ 1 3 _ _ _ _))
    (by norm_num [tableEnv, FloatEnv.fmul, FloatEnv.fadd, FloatEnv.fdiv])

theorem move_u_46 :
    NodeRes (scoreMoveNodeWith (tileNodeOn false tableEnv 3)) 0 3
      []
      0x4622624625236252 (1 / 10) 0
      [] :=
  NodeRes.move _ 0 3 _ _ _ _ _ _ _ _ _ _ _
    (StepRes.unchanged _ 1 3 _ _ 0 _ _ executeMove_0_4622624625236252)
    (StepRes.unchanged _ 1 3 _ _ 1 _ _ executeMove_1_4622624625236252)
    (StepRes.changed _ 1 3 _ _ 2 _ _ _ _ _ _ executeMove_2_4622624625236252 (by decide) node_u_42 rfl)
    (StepRes.changed _ 1 3 _ _ 3 _ _ _ _ _ _ executeMove_3_4622624625236252 (by decide) node_u_45 rfl)
    _ (by norm_num)

theorem node_u_47 :
    NodeRes (tileNodeOn false tableEnv 4) 0 3
      []
      0x4622624625236250 1 0
      [] :=
  NodeRes.expand_off tableEnv 3 0 3 _ _ _ _ 1 [0] 1 _ _
    (by norm_num [CPROB_THRESH_BASE, tableEnv])
    (by decide) (by decide) (by decide) (by norm_num [tableEnv, FloatEnv.fmul, FloatEnv.fadd, FloatEnv.fdiv])
    (FoldRes.cons tableEnv _ 0 3 _ _ 0 _ _ _ _ _ _ _ _ _ _ _ _ 0 _
      (by decide) (by decide) (by norm_num [tableEnv, FloatEnv.fmul, FloatEnv.fadd, FloatEnv.fdiv])
      (by norm_num [tableEnv, FloatEnv.fmul, FloatEnv.fadd, FloatEnv.fdiv])
      move_u_39 move_u_46
      (by norm_num [tableEnv, FloatEnv.fmul, FloatEnv.fadd, FloatEnv.fdiv])
      (FoldRes.nil tableEnv _ 0 3 _ _ _ _))
    (by norm_num [tableEnv, FloatEnv.fmul, FloatEnv.fadd, FloatEnv.fdiv])

theorem top_u_1 : ∀ t : Nat → Option (Int × ℚ),
    (∀ x, t x = List.lookup x ([] : List (Nat × (Int × ℚ)))) →
    ∃ t2 hits, topLevelOn false tableEnv t 0x4622624525256253 1 = some ((1 / 1000000), t2, hits) ∧
      ∀ x, t2 x = List.lookup x ([] : List (Nat × (Int × ℚ))) :=
  topLevelOn_changed false tableEnv _ 1 _ _ _ 5 3 4 _ _ executeMove_1_4622624525256253 (by decide)
    (by decide) (by decide) (by decide) node_u_47 (by norm_num [tableEnv])

theorem move_u_48 :
    NodeRes (scoreMoveNodeWith (tileNodeOn false tableEnv 2)) 1 3
      []
      0x1461624325266253 (81 / 100) 0
      [] :=
  NodeRes.move _ 1 3 _ _ _ _ _ _ _ _ _ _ _
    (StepRes.unchanged _ 2 3 _ _ 0 _ _ executeMove_0_1461624325266253)
    (StepRes.unchanged _ 2 3 _ _ 1 _ _ executeMove_1_1461624325266253)
    (StepRes.unchanged _ 2 3 _ _ 2 _ _ executeMove_2_1461624325266253)
    (StepRes.unchanged _ 2 3 _ _ 3 _ _ executeMove_3_1461624325266253)
    _ (by norm_num)

theorem move_u_49 :
    NodeRes (scoreMoveNodeWith (tileNodeOn false tableEnv 2)) 1 3
      []
      0x1462624325266253 (9 / 100) 0
      [] :=
  NodeRes.move _ 1 3 _ _ _ _ _ _ _ _ _ _ _
    (StepRes.unchanged _ 2 3 _ _ 0 _ _ executeMove_0_1462624325266253)
    (StepRes.unchanged _ 2 3 _ _ 1 _ _ executeMove_1_1462624325266253)
    (StepRes.unchanged _ 2 3 _ _ 2 _ _ executeMove_2_1462624325266253)
    (StepRes.unchanged _ 2 3 _ _ 3 _ _ executeMove_3_1462624325266253)
    _ (by norm_num)

theorem node_u_50 :
    NodeRes (tileNodeOn false tableEnv 3) 1 3
      []
      0x1460624325266253 (9 / 10) 0
      [] :=
  NodeRes.expand_off tableEnv 2 1 3 _ _ _ _ 1 [12] (9 / 10) _ _
    (by norm_num [CPROB_THRESH_BASE, tableEnv])
    (by decide) (by decide) (by decide) (by norm_num [tableEnv, FloatEnv.fmul, FloatEnv.fadd, FloatEnv.fdiv])
    (FoldRes.cons tableEnv _ 1 3 _ _ 12 _ _ _ _ _ _ _ _ _ _ _ _ 0 _
      (by decide) (by decide) (by norm_num [tableEnv, FloatEnv.fmul, FloatEnv.fadd, FloatEnv.fdiv])
      (by norm_num [tableEnv, FloatEnv.fmul, FloatEnv.fadd, FloatEnv.fdiv])
      move_u_48 move_u_49
      (by norm_num [tableEnv, FloatEnv.fmul, FloatEnv.fadd, FloatEnv.fdiv])
      (FoldRes.nil tableEnv _ 1 3 _ _ _ _))
    (by norm_num [tableEnv, FloatEnv.fmul, FloatEnv.fadd, FloatEnv.fdiv])

theorem node_u_51 :
    NodeRes (tileNodeOn false tableEnv 3) 1 3
      []
      0x1463624625236250 (9 / 10) 0
      [] :=
  NodeRes.expand_off tableEnv 2 1 3 _ _ _ _ 1 [0] (9 / 10) _ _
    (by norm_num [CPROB_THRESH_BASE, tableEnv])
    (by decide) (by decide) (by decide) (by norm_num [tableEnv, FloatEnv.fmul, FloatEnv.fadd, FloatEnv.fdiv])
    (FoldRes.cons tableEnv _ 1 3 _ _ 0 _ _ _ _ _ _ _ _ _ _ _ _ 0 _
      (by decide) (by decide) (by norm_num [tableEnv, FloatEnv.fmul, FloatEnv.fadd, FloatEnv.fdiv])
      (by norm_num [tableEnv, FloatEnv.fmul, FloatEnv.fadd, FloatEnv.fdiv])
      move_u_33 move_u_40
      (by norm_num [tableEnv, FloatEnv.fmul, FloatEnv.fadd, FloatEnv.fdiv])
      (FoldRes.nil tableEnv _ 1 3 _ _ _ _))
    (by norm_num [tableEnv, FloatEnv.fmul, FloatEnv.fadd, FloatEnv.fdiv])

theorem move_u_52 :
    NodeRes (scoreMoveNodeWith (tileNodeOn false tableEnv 3)) 0 3
      []
      0x1463624525256253 (9 / 10) 0
      [] :=
  NodeRes.move _ 0 3 _ _ _ _ _ _ _ _ _ _ _
    (StepRes.changed _ 1 3 _ _ 0 _ _ _ _ _ _ executeMove_0_1463624525256253 (by decide) node_u_50 rfl)
    (StepRes.changed _ 1 3 _ _ 1 _ _ _ _ _ _ executeMove_1_1463624525256253 (by decide) node_u_51 rfl)
    (StepRes.unchanged _ 1 3 _ _ 2 _ _ executeMove_2_1463624525256253)
    (StepRes.unchanged _ 1 3 _ _ 3 _ _ executeMove_3_1463624525256253)
    _ (by norm_num)

theorem move_u_53 :
    NodeRes (scoreMoveNodeWith (tileNodeOn false tableEnv 2)) 1 3
      []
      0x2461624325266253 (9 / 100) 0
      [] :=
  NodeRes.move _ 1 3 _ _ _ _ _ _ _ _ _ _ _
    (StepRes.unchanged _ 2 3 _ _ 0 _ _ executeMove_0_2461624325266253)
    (StepRes.unchanged _ 2 3 _ _ 1 _ _ executeMove_1_2461624325266253)
    (StepRes.unchanged _ 2 3 _ _ 2 _ _ executeMove_2_2461624325266253)
    (StepRes.unchanged _ 2 3 _ _ 3 _ _ executeMove_3_2461624325266253)
    _ (by norm_num)

theorem move_u_54 :
    NodeRes (scoreMoveNodeWith (tileNodeOn false tableEnv 2)) 1 3
      []
      0x2462624325266253 (1 / 100) 0
      [] :=
  NodeRes.move _ 1 3 _ _ _ _ _ _ _ _ _ _ _
    (StepRes.unchanged _ 2 3 _ _ 0 _ _ executeMove_0_2462624325266253)
    (StepRes.unchanged _ 2 3 _ _ 1 _ _ executeMove_1_2462624325266253)
    (StepRes.unchanged _ 2 3 _ _ 2 _ _ executeMove_2_2462624325266253)
    (StepRes.unchanged _ 2 3 _ _ 3 _ _ executeMove_3_2462624325266253)
    _ (by norm_num)

theorem node_u_55 :
    NodeRes (tileNodeOn false tableEnv 3) 1 3
      []
      0x2460624325266253 (1 / 10) 0
      [] :=
  NodeRes.expand_off tableEnv 2 1 3 _ _ _ _ 1 [12] (1 / 10) _ _
    (by norm_num [CPROB_THRESH_BASE, tableEnv])
    (by decide) (by decide) (by decide) (by norm_num [tableEnv, FloatEnv.fmul, FloatEnv.fadd, FloatEnv.fdiv])
    (FoldRes.cons tableEnv _ 1 3 _ _ 12 _ _ _ _ _ _ _ _ _ _ _ _ 0 _
      (by decide) (by decide) (by norm_num [tableEnv, FloatEnv.fmul, FloatEnv.fadd, FloatEnv.fdiv])
      (by norm_num [tableEnv, FloatEnv.fmul, FloatEnv.fadd, FloatEnv.fdiv])
      move_u_53 move_u_54
      (by norm_num [tableEnv, FloatEnv.fmul, FloatEnv.fadd, FloatEnv.fdiv])
      (FoldRes.nil tableEnv _ 1 3 _ _ _ _))
    (by norm_num [tableEnv, FloatEnv.fmul, FloatEnv.fadd, FloatEnv.fdiv])

theorem node_u_56 :
    NodeRes (tileNodeOn false tableEnv 3) 1 3
      []
      0x2463624625236250 (1 / 10) 0
      [] :=
  NodeRes.expand_off tableEnv 2 1 3 _ _ _ _ 1 [0] (1 / 10) _ _
    (by norm_num [CPROB_THRESH_BASE, tableEnv])
    (by decide) (by decide) (by decide) (by norm_num [tableEnv, FloatEnv.fmul, FloatEnv.fadd, FloatEnv.fdiv])
    (FoldRes.cons tableEnv _ 1 3 _ _ 0 _ _ _ _ _ _ _ _ _ _ _ _ 0 _
      (by decide) (by decide) (by norm_num [tableEnv, FloatEnv.fmul, FloatEnv.fadd, FloatEnv.fdiv])
      (by norm_num [tableEnv, FloatEnv.fmul, FloatEnv.fadd, FloatEnv.fdiv])
      move_u_34 move_u_41
      (by norm_num [tableEnv, FloatEnv.fmul, FloatEnv.fadd, FloatEnv.fdiv])
      (FoldRes.nil tableEnv _ 1 3 _ _ _ _))
    (by norm_num [tableEnv, FloatEnv.fmul, FloatEnv.fadd, FloatEnv.fdiv])

theorem move_u_57 :
    NodeRes (scoreMoveNodeWith (tileNodeOn false tableEnv 3)) 0 3
      []
      0x2463624525256253 (1 / 10) 0
      [] :=
  NodeRes.move _ 0 3 _ _ _ _ _ _ _ _ _ _ _
    (StepRes.changed _ 1 3 _ _ 0 _ _ _ _ _ _ executeMove_0_2463624525256253 (by decide) node_u_55 rfl)
    (StepRes.changed _ 1 3 _ _ 1 _ _ _ _ _ _ executeMove_1_2463624525256253 (by decide) node_u_56 rfl)
    (StepRes.unchanged _ 1 3 _ _ 2 _ _ executeMove_2_2463624525256253)
    (StepRes.unchanged _ 1 3 _ _ 3 _ _ executeMove_3_2463624525256253)
    _ (by norm_num)

theorem node_u_58 :
    NodeRes (tileNodeOn false tableEnv 4) 0 3
      []
      0x0463624525256253 1 0
      [] :=
  NodeRes.expand_off tableEnv 3 0 3 _ _ _ _ 1 [15] 1 _ _
    (by norm_num [CPROB_THRESH_BASE, tableEnv])
    (by decide) (by decide) (by decide) (by norm_num [tableEnv, FloatEnv.fmul, FloatEnv.fadd, FloatEnv.fdiv])
    (FoldRes.cons tableEnv _ 0 3 _ _ 15 _ _ _ _ _ _ _ _ _ _ _ _ 0 _
      (by decide) (by decide) (by norm_num [tableEnv, FloatEnv.fmul, FloatEnv.fadd, FloatEnv.fdiv])
      (by norm_num [tableEnv, FloatEnv.fmul, FloatEnv.fadd, FloatEnv.fdiv])
      move_u_52 move_u_57
      (by norm_num [tableEnv, FloatEnv.fmul, FloatEnv.fadd, FloatEnv.fdiv])
      (FoldRes.nil tableEnv _ 0 3 _ _ _ _))
    (by norm_num [tableEnv, FloatEnv.fmul, FloatEnv.fadd, FloatEnv.fdiv])

theorem top_u_2 : ∀ t : Nat → Option (Int × ℚ),
    (∀ x, t x = List.lookup x ([] : List (Nat × (Int × ℚ)))) →
    ∃ t2 hits, topLevelOn false tableEnv t 0x4622624525256253 2 = some ((1 / 1000000), t2, hits) ∧
      ∀ x, t2 x = List.lookup x ([] : List (Nat × (Int × ℚ))) :=
  topLevelOn_changed false tableEnv _ 2 _ _ _ 5 3 4 _ _ executeMove_2_4622624525256253 (by decide)
    (by decide) (by decide) (by decide) node_u_58 (by norm_num [tableEnv])

theorem move_u_59 :
    NodeRes (scoreMoveNodeWith (tileNodeOn false tableEnv 1)) 2 3
      []
      0x4631624225266253 (729 / 1000) 0
      [] :=
  NodeRes.move _ 2 3 _ _ _ _ _ _ _ _ _ _ _
    (StepRes.unchanged _ 3 3 _ _ 0 _ _ executeMove_0_4631624225266253)
    (StepRes.unchanged _ 3 3 _ _ 1 _ _ executeMove_1_4631624225266253)
    (StepRes.unchanged _ 3 3 _ _ 2 _ _ executeMove_2_4631624225266253)
    (StepRes.unchanged _ 3 3 _ _ 3 _ _ executeMove_3_4631624225266253)
    _ (by norm_num)

theorem node_u_60 :
    NodeRes (tileNodeOn false tableEnv 1) 3 3
      []
      0x4630624325266253 (81 / 1000) (88481208864997996545 / 70368744177664)
      [] :=
  NodeRes.leaf false tableEnv 0 3 3 _ _ _ _ (Or.inr (by decide)) scoreHeurBoard_4630624325266253

theorem node_u_61 :
    NodeRes (tileNodeOn false tableEnv 1) 3 3
      []
      0x4633624625236250 (81 / 1000) (85140100891442509825 / 70368744177664)
      [] :=
  NodeRes.leaf false tableEnv 0 3 3 _ _ _ _ (Or.inr (by decide)) scoreHeurBoard_4633624625236250

theorem move_u_62 :
    NodeRes (scoreMoveNodeWith (tileNodeOn false tableEnv 1)) 2 3
      []
      0x4632624225266253 (81 / 1000) (88481208864997996545 / 70368744177664)
      [] :=
  NodeRes.move _ 2 3 _ _ _ _ _ _ _ _ _ _ _
    (StepRes.changed _ 3 3 _ _ 0 _ _ _ _ _ _ executeMove_0_4632624225266253 (by decide) node_u_60 rfl)
    (StepRes.changed _ 3 3 _ _ 1 _ _ _ _ _ _ executeMove_1_4632624225266253 (by decide) node_u_61 rfl)
    (StepRes.unchanged _ 3 3 _ _ 2 _ _ executeMove_2_4632624225266253)
    (StepRes.unchanged _ 3 3 _ _ 3 _ _ executeMove_3_4632624225266253)
    _ (by norm_num)

theorem node_u_63 :
    NodeRes (tileNodeOn false tableEnv 2) 2 3
      []
      0x4630624225266253 (81 / 100) (17696241772999599309 / 140737488355328)
      [] :=
  NodeRes.expand_off tableEnv 1 2 3 _ _ _ _ 1 [12] (81 / 100) _ _
    (by norm_num [CPROB_THRESH_BASE, tableEnv])
    (by decide) (by decide) (by decide) (by norm_num [tableEnv, FloatEnv.fmul, FloatEnv.fadd, FloatEnv.fdiv])
    (FoldRes.cons tableEnv _ 2 3 _ _ 12 _ _ _ _ _ _ _ _ _ _ _ _ (17696241772999599309 / 140737488355328) _
      (by decide) (by decide) (by norm_num [tableEnv, FloatEnv.fmul, FloatEnv.fadd, FloatEnv.fdiv])
      (by norm_num [tableEnv, FloatEnv.fmul, FloatEnv.fadd, FloatEnv.fdiv])
      move_u_59 move_u_62
      (by norm_num [tableEnv, FloatEnv.fmul, FloatEnv.fadd, FloatEnv.fdiv])
      (FoldRes.nil tableEnv _ 2 3 _ _ _ _))
    (by norm_num [tableEnv, FloatEnv.fmul, FloatEnv.fadd, FloatEnv.fdiv])

theorem move_u_64 :
    NodeRes (scoreMoveNodeWith (tileNodeOn false tableEnv 1)) 2 3
      []
      0x4632624625236251 (729 / 1000) 0
      [] :=
  NodeRes.move _ 2 3 _ _ _ _ _ _ _ _ _ _ _
    (StepRes.unchanged _ 3 3 _ _ 0 _ _ executeMove_0_4632624625236251)
    (StepRes.unchanged _ 3 3 _ _ 1 _ _ executeMove_1_4632624625236251)
    (StepRes.unchanged _ 3 3 _ _ 2 _ _ executeMove_2_4632624625236251)
    (StepRes.unchanged _ 3 3 _ _ 3 _ _ executeMove_3_4632624625236251)
    _ (by norm_num)

theorem move_u_65 :
    NodeRes (scoreMoveNodeWith (tileNodeOn false tableEnv 1)) 2 3
      []
      0x4632624625236252 (81 / 1000) 0
      [] :=
  NodeRes.move _ 2 3 _ _ _ _ _ _ _ _ _ _ _
    (StepRes.unchanged _ 3 3 _ _ 0 _ _ executeMove_0_4632624625236252)
    (StepRes.unchanged _ 3 3 _ _ 1 _ _ executeMove_1_4632624625236252)
    (StepRes.unchanged _ 3 3 _ _ 2 _ _ executeMove_2_4632624625236252)
    (StepRes.unchanged _ 3 3 _ _ 3 _ _ executeMove_3_4632624625236252)
    _ (by norm_num)

theorem node_u_66 :
    NodeRes (tileNodeOn false tableEnv 2) 2 3
      []
      0x4632624625236250 (81 / 100) 0
      [] :=
  NodeRes.expand_off tableEnv 1 2 3 _ _ _ _ 1 [0] (81 / 100) _ _
    (by norm_num [CPROB_THRESH_BASE, tableEnv])
    (by decide) (by decide) (by decide) (by norm_num [tableEnv, FloatEnv.fmul, FloatEnv.fadd, FloatEnv.fdiv])
    (FoldRes.cons tableEnv _ 2 3 _ _ 0 _ _ _ _ _ _ _ _ _ _ _ _ 0 _
      (by decide) (by decide) (by norm_num [tableEnv, FloatEnv.fmul, FloatEnv.fadd, FloatEnv.fdiv])
      (by norm_num [tableEnv, FloatEnv.fmul, FloatEnv.fadd, FloatEnv.fdiv])
      move_u_64 move_u_65
      (by norm_num [tableEnv, FloatEnv.fmul, FloatEnv.fadd, FloatEnv.fdiv])
      (FoldRes.nil tableEnv _ 2 3 _ _ _ _))
    (by norm_num [tableEnv, FloatEnv.fmul, FloatEnv.fadd, FloatEnv.fdiv])

theorem move_u_67 :
    NodeRes (scoreMoveNodeWith (tileNodeOn false tableEnv 2)) 1 3
      []
      0x4631624125266253 (81 / 100) (17696241772999599309 / 140737488355328)
      [] :=
  NodeRes.move _ 1 3 _ _ _ _ _ _ _ _ _ _ _
    (StepRes.changed _ 2 3 _ _ 0 _ _ _ _ _ _ executeMove_0_4631624125266253 (by decide) node_u_63 rfl)
    (StepRes.changed _ 2 3 _ _ 1 _ _ _ _ _ _ executeMove_1_4631624125266253 (by decide) node_u_66 rfl)
    (StepRes.unchanged _ 2 3 _ _ 2 _ _ executeMove_2_4631624125266253)
    (StepRes.unchanged _ 2 3 _ _ 3 _ _ executeMove_3_4631624125266253)
    _ (by norm_num)

theorem move_u_68 :
    NodeRes (scoreMoveNodeWith (tileNodeOn false tableEnv 2)) 1 3
      []
      0x4632624125266253 (9 / 100) 0
      [] :=
  NodeRes.move _ 1 3 _ _ _ _ _ _ _ _ _ _ _
    (StepRes.unchanged _ 2 3 _ _ 0 _ _ executeMove_0_4632624125266253)
    (StepRes.unchanged _ 2 3 _ _ 1 _ _ executeMove_1_4632624125266253)
    (StepRes.unchanged _ 2 3 _ _ 2 _ _ executeMove_2_4632624125266253)
    (StepRes.unchanged _ 2 3 _ _ 3 _ _ executeMove_3_4632624125266253)
    _ (by norm_num)

theorem node_u_69 :
    NodeRes (tileNodeOn false tableEnv 3) 1 3
      []
      0x4630624125266253 (9 / 10) (159266175956996393781 / 1407374883553280)
      [] :=
  NodeRes.expand_off tableEnv 2 1 3 _ _ _ _ 1 [12] (9 / 10) _ _
    (by norm_num [CPROB_THRESH_BASE, tableEnv])
    (by decide) (by decide) (by decide) (by norm_num [tableEnv, FloatEnv.fmul, FloatEnv.fadd, FloatEnv.fdiv])
    (FoldRes.cons tableEnv _ 1 3 _ _ 12 _ _ _ _ _ _ _ _ _ _ _ _ (159266175956996393781 / 1407374883553280) _
      (by decide) (by decide) (by norm_num [tableEnv, FloatEnv.fmul, FloatEnv.fadd, FloatEnv.fdiv])
      (by norm_num [tableEnv, FloatEnv.fmul, FloatEnv.fadd, FloatEnv.fdiv])
      move_u_67 move_u_68
      (by norm_num [tableEnv, FloatEnv.fmul, FloatEnv.fadd, FloatEnv.fdiv])
      (FoldRes.nil tableEnv _ 1 3 _ _ _ _))
    (by norm_num [tableEnv, FloatEnv.fmul, FloatEnv.fadd, FloatEnv.fdiv])

theorem node_u_70 :
    NodeRes (tileNodeOn false tableEnv 3) 1 3
      []
      0x4631624625236250 (9 / 10) 0
      [] :=
  NodeRes.expand_off tableEnv 2 1 3 _ _ _ _ 1 [0] (9 / 10) _ _
    (by norm_num [CPROB_THRESH_BASE, tableEnv])
    (by decide) (by decide) (by decide) (by norm_num [tableEnv, FloatEnv.fmul, FloatEnv.fadd, FloatEnv.fdiv])
    (FoldRes.cons tableEnv _ 1 3 _ _ 0 _ _ _ _ _ _ _ _ _ _ _ _ 0 _
      (by decide) (by decide) (by norm_num [tableEnv, FloatEnv.fmul, FloatEnv.fadd, FloatEnv.fdiv])
      (by norm_num [tableEnv, FloatEnv.fmul, FloatEnv.fadd, FloatEnv.fdiv])
      move_u_36 move_u_43
      (by norm_num [tableEnv, FloatEnv.fmul, FloatEnv.fadd, FloatEnv.fdiv])
      (FoldRes.nil tableEnv _ 1 3 _ _ _ _))
    (by norm_num [tableEnv, FloatEnv.fmul, FloatEnv.fadd, FloatEnv.fdiv])

theorem move_u_71 :
    NodeRes (scoreMoveNodeWith (tileNodeOn false tableEnv 3)) 0 3
      []
      0x4631624525256253 (9 / 10) (159266175956996393781 / 1407374883553280)
      [] :=
  NodeRes.move _ 0 3 _ _ _ _ _ _ _ _ _ _ _
    (StepRes.changed _ 1 3 _ _ 0 _ _ _ _ _ _ executeMove_0_4631624525256253 (by decide) node_u_69 rfl)
    (StepRes.changed _ 1 3 _ _ 1 _ _ _ _ _ _ executeMove_1_4631624525256253 (by decide) node_u_70 rfl)
    (StepRes.unchanged _ 1 3 _ _ 2 _ _ executeMove_2_4631624525256253)
    (StepRes.unchanged _ 1 3 _ _ 3 _ _ executeMove_3_4631624525256253)
    _ (by norm_num)

theorem node_u_72 :
    NodeRes (tileNodeOn false tableEnv 3) 1 3
      []
      0x4632624625236250 (1 / 10) 0
      [] :=
  NodeRes.expand_off tableEnv 2 1 3 _ _ _ _ 1 [0] (1 / 10) _ _
    (by norm_num [CPROB_THRESH_BASE, tableEnv])
    (by decide) (by decide) (by decide) (by norm_num [tableEnv, FloatEnv.fmul, FloatEnv.fadd, FloatEnv.fdiv])
    (FoldRes.cons tableEnv _ 1 3 _ _ 0 _ _ _ _ _ _ _ _ _ _ _ _ 0 _
      (by decide) (by decide) (by norm_num [tableEnv, FloatEnv.fmul, FloatEnv.fadd, FloatEnv.fdiv])
      (by norm_num [tableEnv, FloatEnv.fmul, FloatEnv.fadd, FloatEnv.fdiv])
      move_u_37 move_u_44
      (by norm_num [tableEnv, FloatEnv.fmul, FloatEnv.fadd, FloatEnv.fdiv])
      (FoldRes.nil tableEnv _ 1 3 _ _ _ _))
    (by norm_num [tableEnv, FloatEnv.fmul, FloatEnv.fadd, FloatEnv.fdiv])

theorem move_u_73 :
    NodeRes (scoreMoveNodeWith (tileNodeOn false tableEnv 3)) 0 3
      []
      0x4632624525256253 (1 / 10) (3392958733487380990809 / 28147497671065600)
      [] :=
  NodeRes.move _ 0 3 _ _ _ _ _ _ _ _ _ _ _
    (StepRes.changed _ 1 3 _ _ 0 _ _ _ _ _ _ executeMove_0_4632624525256253 (by decide) node_u_30 rfl)
    (StepRes.changed _ 1 3 _ _ 1 _ _ _ _ _ _ executeMove_1_4632624525256253 (by decide) node_u_72 rfl)
    (StepRes.unchanged _ 1 3 _ _ 2 _ _ executeMove_2_4632624525256253)
    (StepRes.unchanged _ 1 3 _ _ 3 _ _ executeMove_3_4632624525256253)
    _ (by norm_num)

theorem node_u_74 :
    NodeRes (tileNodeOn false tableEnv 4) 0 3
      []
      0x4630624525256253 1 (32060870405746731871389 / 281474976710656000)
      [] :=
  NodeRes.expand_off tableEnv 3 0 3 _ _ _ _ 1 [12] 1 _ _
    (by norm_num [CPROB_THRESH_BASE, tableEnv])
    (by decide) (by decide) (by decide) (by norm_num [tableEnv, FloatEnv.fmul, FloatEnv.fadd, FloatEnv.fdiv])
    (FoldRes.cons tableEnv _ 0 3 _ _ 12 _ _ _ _ _ _ _ _ _ _ _ _ (32060870405746731871389 / 281474976710656000) _
      (by decide) (by decide) (by norm_num [tableEnv, FloatEnv.fmul, FloatEnv.fadd, FloatEnv.fdiv])
      (by norm_num [tableEnv, FloatEnv.fmul, FloatEnv.fadd, FloatEnv.fdiv])
      move_u_71 move_u_73
      (by norm_num [tableEnv, FloatEnv.fmul, FloatEnv.fadd, FloatEnv.fdiv])
      (FoldRes.nil tableEnv _ 0 3 _ _ _ _))
    (by norm_num [tableEnv, FloatEnv.fmul, FloatEnv.fadd, FloatEnv.fdiv])

theorem top_u_3 : ∀ t : Nat → Option (Int × ℚ),
    (∀ x, t x = List.lookup x ([] : List (Nat × (Int × ℚ)))) →
    ∃ t2 hits, topLevelOn false tableEnv t 0x4622624525256253 3 = some ((4007608800753525856012457 / 35184372088832000000), t2, hits) ∧
      ∀ x, t2 x = List.lookup x ([] : List (Nat × (Int × ℚ))) :=
  topLevelOn_changed false tableEnv _ 3 _ _ _ 5 3 4 _ _ executeMove_3_4622624525256253 (by decide)
    (by decide) (by decide) (by decide) node_u_74 (by norm_num [tableEnv])

theorem scores_with_cache :
    (allMovesOn true tableEnv [[8, 32, 4, 64], [32, 4, 32, 4], [32, 16, 4, 64], [4, 4, 64, 16]]).map Prod.fst =
      some [(432322022542455511779957 / 35184372088832000000), (1 / 1000000), (1 / 1000000), (7718981118754160498268139 / 70368744177664000000)] :=
  allMovesOn_scores true tableEnv _ 0x4622624525256253 _ _ _ _ _ _ _ _ (by decide)
    top_c_0 top_c_1 top_c_2 top_c_3

theorem scores_without_cache :
    (allMovesOn false tableEnv [[8, 32, 4, 64], [32, 4, 32, 4], [32, 16, 4, 64], [4, 4, 64, 16]]).map Prod.fst =
      some [(432322022542455511779957 / 35184372088832000000), (1 / 1000000), (1 / 1000000), (4007608800753525856012457 / 35184372088832000000)] :=
  allMovesOn_scores false tableEnv _ 0x4622624525256253 _ _ _ _ _ _ _ _ (by decide)
    top_u_0 top_u_1 top_u_2 top_u_3

/-- On a grid that no direction changes, the evaluation returns four zero
scores and counts no cache hit, with or without the cache. -/
theorem allMovesOn_no_legal_move (cache : Bool) (F : FloatEnv) (grid : List (List Int))
    (hdead : ∀ d : Nat, d < 4 →
      executeMove d (convertToBitboard grid) = convertToBitboard grid) :
    allMovesOn cache F grid = some ([0, 0, 0, 0], 0) := by
  have h0 := hdead 0 (by norm_num)
  have h1 := hdead 1 (by norm_num)
  have h2 := hdead 2 (by norm_num)
  have h3 := hdead 3 (by norm_num)
  have e : ∀ (m : Nat) (t : Nat → Option (Int × ℚ)),
      executeMove m (convertToBitboard grid) = convertToBitboard grid →
      topLevelOn cache F t (convertToBitboard grid) m = some (0, t, 0) := by
    intro m t hm
    unfold topLevelOn
    simp only [hm, if_true]
  unfold allMovesOn
  simp only [List.foldl_cons, List.foldl_nil, allMovesStepOn, e 0 _ h0, e 1 _ h1, e 2 _ h2,
    e 3 _ h3]
  rfl

/-- C13 fails on the code: on the grid `[[8,32,4,64],[32,4,32,4],
[32,16,4,64],[4,4,64,16]]`, in exact arithmetic with the heuristic table of
`initTables`, the score of the move to the right is
`7718981118754160498268139 / 70368744177664000000` (about 109693.32) with
the transposition cache and
`4007608800753525856012457 / 35184372088832000000` (about 113903.09) with
the cache bypassed: in the search for the move to the right the board
`0x4630624225266253` is looked up at depth 2 and the lookup returns the
value that the search for the move up stored for it at depth 1. -/
theorem cache_changes_scores :
    evaluateAllMoves tableEnv [[8, 32, 4, 64], [32, 4, 32, 4], [32, 16, 4, 64], [4, 4, 64, 16]] =
        some [(432322022542455511779957 / 35184372088832000000), (1 / 1000000), (1 / 1000000),
          (7718981118754160498268139 / 70368744177664000000)] ∧
      (allMovesOn false tableEnv
          [[8, 32, 4, 64], [32, 4, 32, 4], [32, 16, 4, 64], [4, 4, 64, 16]]).map Prod.fst =
        some [(432322022542455511779957 / 35184372088832000000), (1 / 1000000), (1 / 1000000),
          (4007608800753525856012457 / 35184372088832000000)] ∧
      (allMovesOn false tableEnv
          [[8, 32, 4, 64], [32, 4, 32, 4], [32, 16, 4, 64], [4, 4, 64, 16]]).map Prod.fst ≠
        evaluateAllMoves tableEnv
          [[8, 32, 4, 64], [32, 4, 32, 4], [32, 16, 4, 64], [4, 4, 64, 16]] := by
  have hc := scores_with_cache
  rw [allMovesOn_true] at hc
  refine ⟨hc, scores_without_cache, ?_⟩
  rw [hc, scores_without_cache]
  norm_num

/-- On a grid on which the evaluation with the transposition cache counts
no cache hit, the evaluation with the cache bypassed returns the four scores
of `evaluateAllMoves`. -/
theorem allMovesOn_without_hits (F : FloatEnv) (grid : List (List Int))
    (scores : List ℚ) (h : allMovesOn true F grid = some (scores, 0)) :
    evaluateAllMoves F grid = some scores ∧
      (allMovesOn false F grid).map Prod.fst = some scores := by
  have hs := allMovesOn_true F grid
  rw [h] at hs
  refine ⟨hs.symm, ?_⟩
  rw [allMovesOn_sim F grid scores h]
  rfl

end AIEvaluator
namespace AIEvaluator

/-! ## The depth limit of a top-level search -/

/-- The loops of `countDistinctTiles` return the number of distinct non-zero
cell values of a 64-bit board, which is at most 15. -/
theorem countDistinctTiles_spec (board : Nat) (hb : board < 2 ^ 64) :
    countDistinctTiles board = some ((distinctValueCount board : Nat) : Int) ∧
      distinctValueCount board ≤ 15 := by
  obtain ⟨bs, hbs, hlt, hbits⟩ := distinctLoop_testBit 16 board 0 hb (by norm_num)
  have hlt2 : bs >>> 1 < 2 ^ 15 := by
    rw [Nat.shiftRight_eq_div_pow, Nat.div_lt_iff_lt_mul (by norm_num)]
    calc bs < 2 ^ 16 := hlt
      _ = 2 ^ 15 * 2 ^ 1 := by norm_num
  have hcount : (List.range 15).countP (fun i => (bs >>> 1).testBit i) =
      distinctValueCount board := by
    unfold distinctValueCount
    apply List.countP_congr
    intro i hi
    have hi15 : i < 15 := List.mem_range.1 hi
    rw [Nat.testBit_shiftRight, Nat.add_comm, hbits (i + 1) (Nat.succ_pos i) (by omega)]
    simp
  constructor
  · unfold countDistinctTiles
    rw [hbs]
    simp only []
    rw [popLoop_eq 15 65536 _ _ (lt_trans hlt2 (by norm_num)) hlt2, hcount, Int.zero_add]
  · unfold distinctValueCount
    exact le_of_le_of_eq (List.countP_le_length _) (List.length_range 15)

/-- The depth limit of a 64-bit board, from the number of its distinct
non-zero cell values. -/
theorem topLevelDepthLimit_eq (board : Nat) (hb : board < 2 ^ 64) :
    topLevelDepthLimit board = some (max 3 (((distinctValueCount board : Nat) : Int) - 2)) := by
  unfold topLevelDepthLimit
  rw [(countDistinctTiles_spec board hb).1]

/-- `scoreTopLevelMove` assigns `topLevelDepthLimit board` to
`state.depth_limit` and starts the search from `topLevelState`. -/
theorem scoreTopLevelMove_eq (F : FloatEnv) (t : Nat → Option (Int × ℚ)) (board : Nat)
    (move : Int) :
    scoreTopLevelMove F t board move =
      if board = executeMove move board then some (0, t)
      else
        match topLevelDepthLimit board with
        | none => none
        | some D =>
          match scoreTileChooseNode F (D.toNat + 1) (topLevelState t D)
              (executeMove move board) 1 with
          | none => none
          | some (v, state) =>
            some (F.rnd32 (F.rnd64 (v + F.rnd64 (1 / 1000000))), state.transTable) := by
  unfold scoreTopLevelMove topLevelDepthLimit topLevelState
  dsimp only
  by_cases h : board = executeMove move board
  · rw [if_pos h, if_pos h]
  · rw [if_neg h, if_neg h]
    cases countDistinctTiles board <;> rfl

/-- C23: for every 64-bit board `b` there is one depth limit
`D = max(3, countDistinctTiles(b) - 2)`, computed from `b` itself, such that
for every direction whose move changes `b` (and every table),
`scoreTopLevelMove` starts its search on the moved board at depth 0 with
`depth_limit = D`; the search returns, keeps `depth_limit = D`, and its
value plus `1e-6` is the score. -/
theorem scoreTopLevelMove_depth_limit (F : FloatEnv) (board : Nat) (hb : board < 2 ^ 64) :
    ∃ D : Int, countDistinctTiles board = some ((distinctValueCount board : Nat) : Int) ∧
      D = max 3 (((distinctValueCount board : Nat) : Int) - 2) ∧
      ∀ (t : Nat → Option (Int × ℚ)) (move : Int), executeMove move board ≠ board →
        (topLevelState t D).depth_limit = D ∧ (topLevelState t D).curdepth = 0 ∧
        (topLevelState t D).transTable = t ∧
        ∃ v st, scoreTileChooseNode F (D.toNat + 1) (topLevelState t D)
            (executeMove move board) 1 = some (v, st) ∧
          st.depth_limit = D ∧
          scoreTopLevelMove F t board move =
            some (F.rnd32 (F.rnd64 (v + F.rnd64 (1 / 1000000))), st.transTable) := by
  refine ⟨max 3 (((distinctValueCount board : Nat) : Int) - 2),
    (countDistinctTiles_spec board hb).1, rfl, ?_⟩
  intro t move hmove
  refine ⟨rfl, rfl, rfl, ?_⟩
  obtain ⟨v, st, hv, -, hD⟩ := scoreTileChooseNode_returns F
    ((max 3 (((distinctValueCount board : Nat) : Int) - 2)).toNat + 1) 0
    (max 3 (((distinctValueCount board : Nat) : Int) - 2))
    (topLevelState t (max 3 (((distinctValueCount board : Nat) : Int) - 2)))
    (executeMove move board) 1 rfl rfl (by omega)
  refine ⟨v, st, hv, hD, ?_⟩
  rw [scoreTopLevelMove_eq, if_neg (fun h => hmove h.symm), topLevelDepthLimit_eq board hb]
  simp only [hv]

/-- Witness for C23: the board `0x21` (a 2 and a 4). -/
theorem scoreTopLevelMove_depth_limit_witness :
    (0x21 : Nat) < 2 ^ 64 ∧
    ∃ D : Int, countDistinctTiles 0x21 = some ((distinctValueCount 0x21 : Nat) : Int) ∧
      D = max 3 (((distinctValueCount 0x21 : Nat) : Int) - 2) ∧
      ∀ (t : Nat → Option (Int × ℚ)) (move : Int), executeMove move 0x21 ≠ 0x21 →
        (topLevelState t D).depth_limit = D ∧ (topLevelState t D).curdepth = 0 ∧
        (topLevelState t D).transTable = t ∧
        ∃ v st, scoreTileChooseNode exactEnv (D.toNat + 1) (topLevelState t D)
            (executeMove move 0x21) 1 = some (v, st) ∧
          st.depth_limit = D ∧
          scoreTopLevelMove exactEnv t 0x21 move =
            some (exactEnv.rnd32 (exactEnv.rnd64 (v + exactEnv.rnd64 (1 / 1000000))),
              st.transTable) :=
  ⟨by norm_num, scoreTopLevelMove_depth_limit exactEnv 0x21 (by norm_num)⟩

/-- C24 fails on the code: the board `0x654321` holds six distinct tile
values and the board `0x54321` five, yet `scoreTopLevelMove` searches the
first with `depth_limit = max(3, 6 - 2) = 4` and the second with
`depth_limit = max(3, 5 - 2) = 3`: the board with more distinct values is
searched more deeply, not less. -/
theorem more_distinct_tiles_deeper_search :
    countDistinctTiles 0x654321 = some 6 ∧ countDistinctTiles 0x54321 = some 5 ∧
      topLevelDepthLimit 0x654321 = some 4 ∧ topLevelDepthLimit 0x54321 = some 3 ∧
      (∀ (F : FloatEnv) (t : Nat → Option (Int × ℚ)) (move : Int),
        executeMove move 0x654321 ≠ 0x654321 →
        scoreTopLevelMove F t 0x654321 move =
          match scoreTileChooseNode F 5 (topLevelState t 4) (executeMove move 0x654321) 1 with
          | none => none
          | some (v, state) =>
            some (F.rnd32 (F.rnd64 (v + F.rnd64 (1 / 1000000))), state.transTable)) ∧
      (∀ (F : FloatEnv) (t : Nat → Option (Int × ℚ)) (move : Int),
        executeMove move 0x54321 ≠ 0x54321 →
        scoreTopLevelMove F t 0x54321 move =
          match scoreTileChooseNode F 4 (topLevelState t 3) (executeMove move 0x54321) 1 with
          | none => none
          | some (v, state) =>
            some (F.rnd32 (F.rnd64 (v + F.rnd64 (1 / 1000000))), state.transTable)) := by
  have d1 : distinctValueCount 0x654321 = 6 := by decide
  have d2 : distinctValueCount 0x54321 = 5 := by decide
  have c1 := (countDistinctTiles_spec 0x654321 (by norm_num)).1
  have c2 := (countDistinctTiles_spec 0x54321 (by norm_num)).1
  have l1 := topLevelDepthLimit_eq 0x654321 (by norm_num)
  have l2 := topLevelDepthLimit_eq 0x54321 (by norm_num)
  rw [d1] at c1 l1
  rw [d2] at c2 l2
  have e1 : max (3 : Int) (((6 : Nat) : Int) - 2) = 4 := by norm_num
  have e2 : max (3 : Int) (((5 : Nat) : Int) - 2) = 3 := by norm_num
  rw [e1] at l1
  rw [e2] at l2
  refine ⟨c1, c2, l1, l2, ?_, ?_⟩
  · intro F t move hmove
    rw [scoreTopLevelMove_eq, if_neg (fun h => hmove h.symm), l1]
    rfl
  · intro F t move hmove
    rw [scoreTopLevelMove_eq, if_neg (fun h => hmove h.symm), l2]
    rfl

/-- C24, amended: of two boards, the one with more distinct tile values is
searched at least as deeply, since `max(3, n - 2)` grows with `n`. -/
theorem topLevelDepthLimit_monotone (b1 b2 : Nat) (n1 n2 : Int)
    (h1 : countDistinctTiles b1 = some n1) (h2 : countDistinctTiles b2 = some n2)
    (h : n1 > n2) :
    ∃ D1 D2 : Int, topLevelDepthLimit b1 = some D1 ∧ topLevelDepthLimit b2 = some D2 ∧
      D1 = max 3 (n1 - 2) ∧ D2 = max 3 (n2 - 2) ∧ D2 ≤ D1 := by
  refine ⟨max 3 (n1 - 2), max 3 (n2 - 2), ?_, ?_, rfl, rfl, ?_⟩
  · unfold topLevelDepthLimit
    rw [h1]
  · unfold topLevelDepthLimit
    rw [h2]
  · exact max_le_max le_rfl (by omega)

/-- Witness for C24: the boards `0x654321` (six distinct values, depth
limit 4) and `0x54321` (five distinct values, depth limit 3). -/
theorem topLevelDepthLimit_monotone_witness :
    ∃ D1 D2 : Int, topLevelDepthLimit 0x654321 = some D1 ∧
      topLevelDepthLimit 0x54321 = some D2 ∧
      D1 = max 3 (6 - 2) ∧ D2 = max 3 (5 - 2) ∧ D2 ≤ D1 := by
  have d1 : distinctValueCount 0x654321 = 6 := by decide
  have d2 : distinctValueCount 0x54321 = 5 := by decide
  have c1 := (countDistinctTiles_spec 0x654321 (by norm_num)).1
  have c2 := (countDistinctTiles_spec 0x54321 (by norm_num)).1
  rw [d1] at c1
  rw [d2] at c2
  exact topLevelDepthLimit_monotone 0x654321 0x54321 6 5 c1 c2 (by norm_num)

end AIEvaluator
namespace Game2048

/-! ## The win test is a latch -/

/-- The scan of `hasWon` finds `TARGET` exactly if some cell of the board
holds 2048. -/
theorem any_target_iff (board : List (List Int)) :
    (board.any (fun r => r.any (fun num => decide (num = TARGET)))) = true ↔
      ∃ r ∈ board, ∃ num ∈ r, num = 2048 := by
  simp [TARGET]

/-- A call of `hasWon` with `haveWonFlag` unset sets the flag and scans the
board. -/
theorem hasWon_unset (board : List (List Int)) :
    hasWon { board := board, haveWonFlag := false } =
      (board.any (fun r => r.any (fun num => decide (num = TARGET))),
        { board := board, haveWonFlag := true }) := by
  simp [hasWon]

/-- A call of `hasWon` with `haveWonFlag` set returns `false` and changes
nothing. -/
theorem hasWon_set (board : List (List Int)) :
    hasWon { board := board, haveWonFlag := true } =
      (false, { board := board, haveWonFlag := true }) := by
  simp [hasWon]

/-- Changes of the board between calls leave `haveWonFlag` as it is; the
board is the last one installed. -/
theorem winRun_changes (cs : List (List (List Int))) :
    ∀ (s : WinState) (rest : List WinEvent),
      winRun s (cs.map WinEvent.change ++ rest) =
        winRun { board := cs.getLastD s.board, haveWonFlag := s.haveWonFlag } rest := by
  induction cs with
  | nil => intro s rest; rfl
  | cons c cs ih =>
    intro s rest
    rw [List.map_cons, List.cons_append, winRun]
    simp only [winStep]
    rw [ih]
    cases cs with
    | nil => rfl
    | cons d ds => rfl

/-- Once `haveWonFlag` is set and as long as it is not reset, every call of
`hasWon` returns `false`, whatever the board holds. -/
theorem winRun_latched (es : List WinEvent) :
    ∀ (s : WinState), s.haveWonFlag = true →
      (∀ e ∈ es, e = WinEvent.call ∨ ∃ b, e = WinEvent.change b) →
      (∀ x ∈ (winRun s es).1, x = false) ∧
        (winRun s es).1.length = es.countP isCall ∧
        (winRun s es).2.haveWonFlag = true := by
  induction es with
  | nil =>
    intro s hs _
    exact ⟨fun x hx => absurd hx (List.not_mem_nil x), rfl, hs⟩
  | cons e es ih =>
    intro s hs hes
    have hrest : ∀ e2 ∈ es, e2 = WinEvent.call ∨ ∃ b, e2 = WinEvent.change b :=
      fun e2 h2 => hes e2 (List.mem_cons_of_mem e h2)
    rcases hes e (List.mem_cons_self e es) with rfl | ⟨b, rfl⟩
    · obtain ⟨board, flag⟩ := s
      simp only at hs
      subst hs
      obtain ⟨h1, h2, h3⟩ := ih { board := board, haveWonFlag := true } rfl hrest
      rw [winRun]
      simp only [winStep, hasWon_set]
      refine ⟨?_, ?_, h3⟩
      · intro x hx
        rcases List.mem_cons.1 hx with rfl | hx
        · rfl
        · exact h1 x hx
      · rw [List.length_cons, h2, List.countP_cons_of_pos]
        rfl
    · obtain ⟨h1, h2, h3⟩ := ih { s with board := b } hs hrest
      rw [winRun]
      simp only [winStep]
      refine ⟨h1, ?_, h3⟩
      rw [h2, List.countP_cons_of_neg]
      simp [isCall]

/-- C30: `hasWon` latches on its first call. After a reset of `haveWonFlag`
(constructor, `restartGame`, `loadGame`) with board `b0` and any changes
`cs` of the board, the first call of `hasWon` returns `true` exactly if the
board at that moment holds a cell 2048, and it sets `haveWonFlag`; every
later call, with no reset in between, returns `false` whatever boards were
installed in the meantime; a call with the flag set returns `false` and
leaves the members as they are. -/
theorem hasWon_latches_on_first_call (s : WinState) (b0 : List (List Int))
    (cs : List (List (List Int))) (later : List WinEvent)
    (hlater : ∀ e ∈ later, e = WinEvent.call ∨ ∃ b, e = WinEvent.change b) :
    (∃ first rest,
      (winRun s (WinEvent.reset b0 :: (cs.map WinEvent.change ++ WinEvent.call :: later))).1 =
        first :: rest ∧
      (first = true ↔ ∃ r ∈ cs.getLastD b0, ∃ num ∈ r, num = 2048) ∧
      (∀ x ∈ rest, x = false) ∧ rest.length = later.countP isCall) ∧
      (winRun s (WinEvent.reset b0 ::
        (cs.map WinEvent.change ++ WinEvent.call :: later))).2.haveWonFlag = true ∧
      (∀ b, hasWon { board := b, haveWonFlag := false } =
        (b.any (fun r => r.any (fun num => decide (num = TARGET))),
          { board := b, haveWonFlag := true })) ∧
      ∀ b, hasWon { board := b, haveWonFlag := true } =
        (false, { board := b, haveWonFlag := true }) := by
  obtain ⟨h1, h2, h3⟩ := winRun_latched later
    { board := cs.getLastD b0, haveWonFlag := true } rfl hlater
  have hrun : winRun s (WinEvent.reset b0 ::
      (cs.map WinEvent.change ++ WinEvent.call :: later)) =
      ((cs.getLastD b0).any (fun r => r.any (fun num => decide (num = TARGET))) ::
        (winRun { board := cs.getLastD b0, haveWonFlag := true } later).1,
        (winRun { board := cs.getLastD b0, haveWonFlag := true } later).2) := by
    rw [winRun]
    simp only [winStep]
    rw [winRun_changes, winRun]
    simp only [winStep, hasWon_unset]
  rw [hrun]
  exact ⟨⟨_, _, rfl, any_target_iff _, h1, h2⟩, h3, hasWon_unset, hasWon_set⟩

/-- Witness for C30: after a reset the first call sees a board without 2048
and returns `false`; then a 2048 tile appears and the second call returns
`false` as well. -/
theorem hasWon_latches_on_first_call_witness :
    (winRun { board := [], haveWonFlag := true }
      [WinEvent.reset [[2, 0, 0, 0], [0, 0, 0, 0], [0, 0, 0, 0], [0, 0, 0, 0]], WinEvent.call,
        WinEvent.change [[2048, 0, 0, 0], [0, 0, 0, 0], [0, 0, 0, 0], [0, 0, 0, 0]],
        WinEvent.call]).1 = [false, false] ∧
      (winRun { board := [], haveWonFlag := true }
        [WinEvent.reset [[2, 0, 0, 0], [0, 0, 0, 0], [0, 0, 0, 0], [0, 0, 0, 0]], WinEvent.call,
          WinEvent.change [[2048, 0, 0, 0], [0, 0, 0, 0], [0, 0, 0, 0], [0, 0, 0, 0]],
          WinEvent.call]).2.haveWonFlag = true := by
  have h := hasWon_latches_on_first_call { board := [], haveWonFlag := true }
    [[2, 0, 0, 0], [0, 0, 0, 0], [0, 0, 0, 0], [0, 0, 0, 0]] []
    [WinEvent.change [[2048, 0, 0, 0], [0, 0, 0, 0], [0, 0, 0, 0], [0, 0, 0, 0]],
      WinEvent.call]
    (by
      intro e he
      rcases List.mem_cons.1 he with rfl | he
      · exact Or.inr ⟨_, rfl⟩
      · rcases List.mem_cons.1 he with rfl | he
        · exact Or.inl rfl
        · exact absurd he (List.not_mem_nil e))
  exact ⟨by decide, h.2.1⟩

end Game2048
namespace AIEvaluator

/-! ## Moves conserve the total tile value -/

theorem lineSum_nil : lineSum [] = 0 := rfl

theorem lineSum_cons (x : Nat) (l : List Nat) :
    lineSum (x :: l) = (if x = 0 then 0 else 2 ^ x) + lineSum l := by
  simp [lineSum]

theorem lineSum_append (l m : List Nat) : lineSum (l ++ m) = lineSum l + lineSum m := by
  simp [lineSum]

theorem lineSum_replicate_zero (n : Nat) : lineSum (List.replicate n 0) = 0 := by
  induction n with
  | zero => rfl
  | succ n ih => rw [List.replicate_succ, lineSum_cons, ih]; simp

theorem lineSum_reverse (l : List Nat) : lineSum l.reverse = lineSum l := by
  simp [lineSum, List.sum_reverse]

/-- Dropping the empty cells does not change the total of a line. -/
theorem lineSum_filter (l : List Nat) : lineSum (l.filter (fun c => c ≠ 0)) = lineSum l := by
  induction l with
  | nil => rfl
  | cons x l ih =>
    by_cases hx : x = 0
    · subst hx
      rw [List.filter_cons_of_neg (by simp), lineSum_cons, ih]
      simp
    · rw [List.filter_cons_of_pos (by simpa using hx), lineSum_cons, lineSum_cons, ih]

/-- Merging two equal tiles of rank at most 14 into one tile of the next rank
does not change the total: `2 ^ r + 2 ^ r = 2 ^ (r + 1)`. -/
theorem lineSum_mergePairs (l : List Nat) (h : ∀ x ∈ l, x ≠ 0 ∧ x ≤ 14) :
    lineSum (mergePairs l) = lineSum l := by
  induction l using mergePairs.induct with
  | case1 x rest ih =>
    have hx := h x (by simp)
    have hrest : ∀ z ∈ rest, z ≠ 0 ∧ z ≤ 14 := fun z hz => h z (by simp [hz])
    simp only [mergePairs, if_true]
    rw [lineSum_cons, lineSum_cons, lineSum_cons, ih hrest]
    have hmin : min (x + 1) 15 = x + 1 := min_eq_left (by omega)
    rw [hmin, if_neg (Nat.succ_ne_zero x), if_neg hx.1, pow_succ]
    ring
  | case2 x y rest hxy ih =>
    have hrest : ∀ z ∈ y :: rest, z ≠ 0 ∧ z ≤ 14 := fun z hz => h z (List.mem_cons_of_mem _ hz)
    simp only [mergePairs, hxy, if_false]
    rw [lineSum_cons, lineSum_cons x, ih hrest]
  | case3 l hl =>
    unfold mergePairs
    split
    · exact absurd rfl (hl _ _ _)
    · rfl

/-- The reference rule `slideLeft` conserves the total of a line whose ranks
are at most 14. -/
theorem lineSum_slideLeft (l : List Nat) (h : ∀ x ∈ l, x ≤ 14) :
    lineSum (slideLeft l) = lineSum l := by
  unfold slideLeft
  simp only
  rw [lineSum_append, lineSum_replicate_zero, Nat.add_zero, lineSum_mergePairs, lineSum_filter]
  intro x hx
  rw [List.mem_filter] at hx
  exact ⟨by simpa using hx.2, h x hx.1⟩

/-- The total of a board is the sum of the totals of its four rows. -/
theorem tileSum_rows (b : Nat) :
    tileSum b = lineSum (boardRow b 0) + lineSum (boardRow b 1) + lineSum (boardRow b 2) +
      lineSum (boardRow b 3) := by
  have hr : List.range 16 = [0, 1, 2, 3, 4, 5, 6, 7, 8, 9, 10, 11, 12, 13, 14, 15] := by decide
  unfold tileSum lineSum boardRow
  rw [hr]
  simp only [List.map_cons, List.map_nil, List.sum_cons, List.sum_nil]
  norm_num
  ring

/-- The total of a board is the sum of the totals of its four columns. -/
theorem tileSum_cols (b : Nat) :
    tileSum b = lineSum (boardCol b 0) + lineSum (boardCol b 1) + lineSum (boardCol b 2) +
      lineSum (boardCol b 3) := by
  have hr : List.range 16 = [0, 1, 2, 3, 4, 5, 6, 7, 8, 9, 10, 11, 12, 13, 14, 15] := by decide
  unfold tileSum lineSum boardCol
  rw [hr]
  simp only [List.map_cons, List.map_nil, List.sum_cons, List.sum_nil]
  norm_num
  ring

theorem boardRow_le (b i : Nat) (hi : i < 4) (h14 : ∀ n, n < 16 → cell b n ≤ 14) :
    ∀ x ∈ boardRow b i, x ≤ 14 := by
  intro x hx
  unfold boardRow at hx
  simp only [List.mem_cons, List.mem_singleton, List.not_mem_nil, or_false] at hx
  rcases hx with rfl | rfl | rfl | rfl <;> exact h14 _ (by omega)

theorem boardCol_le (b j : Nat) (hj : j < 4) (h14 : ∀ n, n < 16 → cell b n ≤ 14) :
    ∀ x ∈ boardCol b j, x ≤ 14 := by
  intro x hx
  unfold boardCol at hx
  simp only [List.mem_cons, List.mem_singleton, List.not_mem_nil, or_false] at hx
  rcases hx with rfl | rfl | rfl | rfl <;> exact h14 _ (by omega)

/-- C28: for every board in which every cell has rank at most 14 and every
direction `d` in `{0, 1, 2, 3}`, the sum of `2 ^ rank` over the non-empty
cells of `executeMove d b` equals that sum for `b`. -/
theorem executeMove_conserves_tileSum (b : Nat) (h14 : ∀ n, n < 16 → cell b n ≤ 14) (d : Int)
    (hd0 : 0 ≤ d) (hd3 : d ≤ 3) : tileSum (executeMove d b) = tileSum b := by
  have hrow : ∀ i, i < 4 → lineSum (slideLeft (boardRow b i)) = lineSum (boardRow b i) :=
    fun i hi => lineSum_slideLeft _ (boardRow_le b i hi h14)
  have hcol : ∀ j, j < 4 → lineSum (slideLeft (boardCol b j)) = lineSum (boardCol b j) :=
    fun j hj => lineSum_slideLeft _ (boardCol_le b j hj h14)
  have hrowr : ∀ i, i < 4 →
      lineSum (slideLeft (boardRow b i).reverse).reverse = lineSum (boardRow b i) := by
    intro i hi
    rw [lineSum_reverse, lineSum_slideLeft, lineSum_reverse]
    intro x hx
    exact boardRow_le b i hi h14 x (List.mem_reverse.1 hx)
  have hcolr : ∀ j, j < 4 →
      lineSum (slideLeft (boardCol b j).reverse).reverse = lineSum (boardCol b j) := by
    intro j hj
    rw [lineSum_reverse, lineSum_slideLeft, lineSum_reverse]
    intro x hx
    exact boardCol_le b j hj h14 x (List.mem_reverse.1 hx)
  have hd : d = 0 ∨ d = 1 ∨ d = 2 ∨ d = 3 := by omega
  rcases hd with rfl | rfl | rfl | rfl
  · rw [tileSum_cols, tileSum_cols b]
    rw [boardCol_executeMove_up b 0 (by norm_num), boardCol_executeMove_up b 1 (by norm_num),
      boardCol_executeMove_up b 2 (by norm_num), boardCol_executeMove_up b 3 (by norm_num),
      hcol 0 (by norm_num), hcol 1 (by norm_num), hcol 2 (by norm_num), hcol 3 (by norm_num)]
  · rw [tileSum_cols, tileSum_cols b]
    rw [boardCol_executeMove_down b 0 (by norm_num), boardCol_executeMove_down b 1 (by norm_num),
      boardCol_executeMove_down b 2 (by norm_num), boardCol_executeMove_down b 3 (by norm_num),
      hcolr 0 (by norm_num), hcolr 1 (by norm_num), hcolr 2 (by norm_num),
      hcolr 3 (by norm_num)]
  · rw [tileSum_rows, tileSum_rows b]
    rw [boardRow_executeMove_left b 0 (by norm_num), boardRow_executeMove_left b 1 (by norm_num),
      boardRow_executeMove_left b 2 (by norm_num), boardRow_executeMove_left b 3 (by norm_num),
      hrow 0 (by norm_num), hrow 1 (by norm_num), hrow 2 (by norm_num), hrow 3 (by norm_num)]
  · rw [tileSum_rows, tileSum_rows b]
    rw [boardRow_executeMove_right b 0 (by norm_num),
      boardRow_executeMove_right b 1 (by norm_num),
      boardRow_executeMove_right b 2 (by norm_num),
      boardRow_executeMove_right b 3 (by norm_num),
      hrowr 0 (by norm_num), hrowr 1 (by norm_num), hrowr 2 (by norm_num),
      hrowr 3 (by norm_num)]

/-- Witness for C28: the left move on the board `0x11ee`, whose first row
holds two tiles of rank 14 and two of rank 1; the total is
`2 ^ 14 + 2 ^ 14 + 2 + 2 = 32772` before and after the move. -/
theorem executeMove_conserves_tileSum_witness :
    tileSum (executeMove 2 0x11ee) = tileSum 0x11ee ∧ tileSum 0x11ee = 32772 :=
  ⟨executeMove_conserves_tileSum 0x11ee
      (by intro n hn; interval_cases n <;> decide) 2 (by norm_num) (by norm_num),
    by decide⟩

end AIEvaluator
namespace AIEvaluator

/-! ## A move that changes the board leaves an empty and a non-empty cell -/

theorem mergePairs_eq_self_of_length (l : List Nat) (h : (mergePairs l).length = l.length) :
    mergePairs l = l := by
  induction l using mergePairs.induct with
  | case1 x rest ih =>
    have hle := mergePairs_length_le rest
    simp only [mergePairs, if_true, List.length_cons] at h
    omega
  | case2 x y rest hxy ih =>
    simp only [mergePairs, hxy, if_false, List.length_cons] at h ⊢
    rw [ih (by simpa using h)]
  | case3 l hl =>
    unfold mergePairs
    split
    · exact absurd rfl (hl _ _ _)
    · rfl

theorem mergePairs_ne_zero (l : List Nat) (h : ∀ x ∈ l, x ≠ 0) : ∀ x ∈ mergePairs l, x ≠ 0 := by
  induction l using mergePairs.induct with
  | case1 x rest ih =>
    intro z hz
    simp only [mergePairs, if_true, List.mem_cons] at hz
    rcases hz with rfl | hz
    · have := h x (by simp)
      omega
    · exact ih (fun w hw => h w (by simp [hw])) z hz
  | case2 x y rest hxy ih =>
    intro z hz
    simp only [mergePairs, hxy, if_false, List.mem_cons] at hz
    rcases hz with rfl | hz
    · exact h _ (by simp)
    · exact ih (fun w hw => h w (List.mem_cons_of_mem _ hw)) z hz
  | case3 l hl =>
    unfold mergePairs
    split
    · exact absurd rfl (hl _ _ _)
    · exact h

theorem mergePairs_eq_nil (l : List Nat) (h : mergePairs l = []) : l = [] := by
  induction l using mergePairs.induct with
  | case1 x rest ih => simp [mergePairs] at h
  | case2 x y rest hxy ih => simp [mergePairs, hxy] at h
  | case3 l hl =>
    unfold mergePairs at h
    split at h
    · exact absurd rfl (hl _ _ _)
    · exact h

/-- A line that the reference rule changes has, after the move, an empty
cell and a non-empty cell. -/
theorem slideLeft_changed (l : List Nat) (h : slideLeft l ≠ l) :
    0 ∈ slideLeft l ∧ ∃ x ∈ slideLeft l, x ≠ 0 := by
  have hm := mergePairs_length_le (l.filter (fun c => c ≠ 0))
  have hf := List.length_filter_le (fun c => decide (c ≠ 0)) l
  constructor
  · by_contra h0
    apply h
    have hlen : l.length - (mergePairs (l.filter (fun c => c ≠ 0))).length = 0 := by
      by_contra hpos
      apply h0
      unfold slideLeft
      simp only [List.mem_append, List.mem_replicate]
      exact Or.inr ⟨hpos, trivial⟩
    have hfl : (l.filter (fun c => c ≠ 0)).length = l.length := by omega
    have hfilter : l.filter (fun c => c ≠ 0) = l := List.filter_eq_self.2
      (List.filter_length_eq_length.1 hfl)
    have hmerge : mergePairs l = l := mergePairs_eq_self_of_length l (by
      rw [hfilter] at hm hlen
      omega)
    unfold slideLeft
    simp only
    rw [hfilter, hmerge, Nat.sub_self]
    simp
  · by_contra hall
    push_neg at hall
    apply h
    have hpacked : mergePairs (l.filter (fun c => c ≠ 0)) = [] := by
      apply List.eq_nil_iff_forall_not_mem.2
      intro x hx
      have hne := mergePairs_ne_zero (l.filter (fun c => c ≠ 0))
        (fun z hz => by simpa using (List.mem_filter.1 hz).2) x hx
      apply hne
      apply hall
      unfold slideLeft
      simp only [List.mem_append]
      exact Or.inl hx
    have hfilter := mergePairs_eq_nil _ hpacked
    have hzero : ∀ x ∈ l, x = 0 := by
      intro x hx
      by_contra hne
      have : x ∈ l.filter (fun c => c ≠ 0) := List.mem_filter.2 ⟨hx, by simpa using hne⟩
      rw [hfilter] at this
      exact absurd this (List.not_mem_nil x)
    unfold slideLeft
    simp only
    rw [hpacked, List.length_nil, Nat.sub_zero, List.nil_append]
    exact (List.eq_replicate_iff.2 ⟨rfl, hzero⟩).symm

theorem mem_boardRow (x i v : Nat) (hi : i < 4) (hv : v ∈ boardRow x i) :
    ∃ n, n < 16 ∧ cell x n = v := by
  unfold boardRow at hv
  simp only [List.mem_cons, List.mem_singleton, List.not_mem_nil, or_false] at hv
  rcases hv with rfl | rfl | rfl | rfl
  · exact ⟨4 * i, by omega, rfl⟩
  · exact ⟨4 * i + 1, by omega, rfl⟩
  · exact ⟨4 * i + 2, by omega, rfl⟩
  · exact ⟨4 * i + 3, by omega, rfl⟩

theorem mem_boardCol (x j v : Nat) (hj : j < 4) (hv : v ∈ boardCol x j) :
    ∃ n, n < 16 ∧ cell x n = v := by
  unfold boardCol at hv
  simp only [List.mem_cons, List.mem_singleton, List.not_mem_nil, or_false] at hv
  rcases hv with rfl | rfl | rfl | rfl
  · exact ⟨j, by omega, rfl⟩
  · exact ⟨4 + j, by omega, rfl⟩
  · exact ⟨8 + j, by omega, rfl⟩
  · exact ⟨12 + j, by omega, rfl⟩

/-- The board after a move that changed it has an empty cell and a non-empty
cell. -/
theorem executeMove_changed_cells (b : Nat) (hb : b < 2 ^ 64) (d : Int) (hd0 : 0 ≤ d)
    (hd3 : d ≤ 3) (h : executeMove d b ≠ b) :
    (∃ n, n < 16 ∧ cell (executeMove d b) n = 0) ∧
      ∃ n, n < 16 ∧ cell (executeMove d b) n ≠ 0 := by
  have hd : d = 0 ∨ d = 1 ∨ d = 2 ∨ d = 3 := by omega
  rcases hd with rfl | rfl | rfl | rfl
  · rw [Ne, executeMove_up_eq_self_iff b hb] at h
    push_neg at h
    obtain ⟨j, hj, hne⟩ := h
    obtain ⟨h0, x, hx, hx0⟩ := slideLeft_changed _ hne
    rw [← boardCol_executeMove_up b j hj] at h0 hx
    obtain ⟨n, hn, e⟩ := mem_boardCol _ j 0 hj h0
    obtain ⟨m, hm, e2⟩ := mem_boardCol _ j x hj hx
    exact ⟨⟨n, hn, e⟩, m, hm, by rw [e2]; exact hx0⟩
  · rw [Ne, executeMove_down_eq_self_iff b hb] at h
    push_neg at h
    obtain ⟨j, hj, hne⟩ := h
    obtain ⟨h0, x, hx, hx0⟩ := slideLeft_changed _ hne
    rw [← List.mem_reverse, ← boardCol_executeMove_down b j hj] at h0 hx
    obtain ⟨n, hn, e⟩ := mem_boardCol _ j 0 hj h0
    obtain ⟨m, hm, e2⟩ := mem_boardCol _ j x hj hx
    exact ⟨⟨n, hn, e⟩, m, hm, by rw [e2]; exact hx0⟩
  · rw [Ne, executeMove_left_eq_self_iff b hb] at h
    push_neg at h
    obtain ⟨i, hi, hne⟩ := h
    obtain ⟨h0, x, hx, hx0⟩ := slideLeft_changed _ hne
    rw [← boardRow_executeMove_left b i hi] at h0 hx
    obtain ⟨n, hn, e⟩ := mem_boardRow _ i 0 hi h0
    obtain ⟨m, hm, e2⟩ := mem_boardRow _ i x hi hx
    exact ⟨⟨n, hn, e⟩, m, hm, by rw [e2]; exact hx0⟩
  · rw [Ne, executeMove_right_eq_self_iff b hb] at h
    push_neg at h
    obtain ⟨i, hi, hne⟩ := h
    obtain ⟨h0, x, hx, hx0⟩ := slideLeft_changed _ hne
    rw [← List.mem_reverse, ← boardRow_executeMove_right b i hi] at h0 hx
    obtain ⟨n, hn, e⟩ := mem_boardRow _ i 0 hi h0
    obtain ⟨m, hm, e2⟩ := mem_boardRow _ i x hi hx
    exact ⟨⟨n, hn, e⟩, m, hm, by rw [e2]; exact hx0⟩

/-- A board with an empty cell and a non-empty cell has between 1 and 15
empty cells, and `countEmpty` counts them. -/
theorem countEmpty_of_mixed (x : Nat) (h0 : ∃ n, n < 16 ∧ cell x n = 0)
    (h1 : ∃ n, n < 16 ∧ cell x n ≠ 0) :
    countEmpty x = zeroCellCount x ∧ 1 ≤ countEmpty x ∧ countEmpty x ≤ 15 := by
  have hlt := zeroCellCount_lt x h1
  have hpos : 0 < zeroCellCount x := by
    obtain ⟨n, hn, e⟩ := h0
    unfold zeroCellCount
    exact List.countP_pos_iff.2 ⟨n, List.mem_range.2 hn, by simpa using e⟩
  have he : countEmpty x = zeroCellCount x := by
    rw [countEmpty_eq_mod, Nat.mod_eq_of_lt hlt]
  rw [he]
  exact ⟨rfl, hpos, by omega⟩

/-- After a move that changed the board, `countEmpty` is the number of empty
cells and lies in `1..15`. -/
theorem executeMove_changed_countEmpty (b : Nat) (hb : b < 2 ^ 64) (d : Int) (hd0 : 0 ≤ d)
    (hd3 : d ≤ 3) (h : executeMove d b ≠ b) :
    countEmpty (executeMove d b) = zeroCellCount (executeMove d b) ∧
      1 ≤ countEmpty (executeMove d b) ∧ countEmpty (executeMove d b) ≤ 15 := by
  obtain ⟨h0, h1⟩ := executeMove_changed_cells b hb d hd0 hd3 h
  exact countEmpty_of_mixed _ h0 h1

end AIEvaluator
namespace AIEvaluator

/-! ## The chance node averages over the spawns at the empty cells -/

/-- The tile `tile_2` of cell `c` is a 1 shifted to that cell. -/
theorem tile2_eq_shl64 (c : Nat) : 2 ^ (4 * c) % 2 ^ 64 = shl64 1 (4 * c) := by
  unfold shl64
  rw [Nat.one_shiftLeft]

/-- The tile `tile_2 << 1` of cell `c` is a 2 shifted to that cell. -/
theorem tile4_eq_shl64 (c : Nat) : shl64 (2 ^ (4 * c) % 2 ^ 64) 1 = shl64 2 (4 * c) := by
  unfold shl64
  rw [Nat.shiftLeft_eq, Nat.shiftLeft_eq, Nat.mod_mul_mod]
  congr 1
  ring

/-- Placing a rank `r` in `1..15` at an empty cell `c` by `board | (r << 4c)`
sets cell `c` to `r` and leaves every other cell as it was. -/
theorem cell_place (board r c m : Nat) (hr : r < 16) (hc : c < 16) (hm : m < 16)
    (hempty : cell board c = 0) :
    cell (board ||| shl64 r (4 * c)) m = if m = c then r else cell board m := by
  rw [cell_or, cell_shl64 r c m hm]
  by_cases hmc : m = c
  · subst hmc
    rw [if_pos le_rfl, if_pos rfl, Nat.sub_self, hempty, cell_of_lt_16 r hr, Nat.zero_or]
  · rw [if_neg hmc]
    by_cases hle : c ≤ m
    · rw [if_pos hle, cell_of_nibble r (m - c) hr, if_neg (by omega), Nat.or_zero]
    · rw [if_neg hle, Nat.or_zero]

/-- The fold of the spawns over a list of cells, when it returns, returns
the sum of a trace of the calls of the move node. -/
theorem foldl_spawnStep_trace (F : FloatEnv)
    (g : EvalState → Nat → ℚ → Option (ℚ × EvalState)) (board : Nat) (cprob : ℚ)
    (cells : List Nat) :
    ∀ (state : EvalState) (res r : ℚ) (final : EvalState),
      cells.foldl (spawnStep F g board cprob) (some (res, state)) = some (r, final) →
      ∃ values : List (ℚ × ℚ), SpawnTrace F g board cprob cells state values final ∧
        r = values.foldl (fun res v =>
          F.fadd (F.fadd res (F.fmul v.1 (F.rnd32 (9 / 10)))) (F.fmul v.2 (F.rnd32 (1 / 10))))
          res := by
  induction cells with
  | nil =>
    intro state res r final h
    simp only [List.foldl_nil, Option.some.injEq, Prod.mk.injEq] at h
    exact ⟨[], ⟨rfl, h.2.symm⟩, h.1.symm⟩
  | cons k cells ih =>
    intro state res r final h
    rw [List.foldl_cons] at h
    cases h2 : g state (board ||| 2 ^ (4 * k) % 2 ^ 64) (F.fmul cprob (F.rnd32 (9 / 10))) with
    | none =>
      rw [spawnStep, h2] at h
      simp only at h
      rw [foldl_spawnStep_none] at h
      exact absurd h (by simp)
    | some r2 =>
      obtain ⟨v2, s2⟩ := r2
      cases h4 : g s2 (board ||| shl64 (2 ^ (4 * k) % 2 ^ 64) 1)
          (F.fmul cprob (F.rnd32 (1 / 10))) with
      | none =>
        rw [spawnStep, h2] at h
        simp only at h
        rw [h4] at h
        simp only at h
        rw [foldl_spawnStep_none] at h
        exact absurd h (by simp)
      | some r4 =>
        obtain ⟨v4, s4⟩ := r4
        rw [spawnStep, h2] at h
        simp only at h
        rw [h4] at h
        simp only at h
        obtain ⟨values, htrace, hr⟩ := ih s4 _ r final h
        refine ⟨(v2, v4) :: values, ?_, ?_⟩
        · exact ⟨v2, v4, s2, s4, values, rfl, h2, h4, htrace⟩
        · rw [List.foldl_cons]
          exact hr

/-- Without rounding, the accumulated sum divided by `n` is `1 / n` times the
sum of `0.9 * v2 + 0.1 * v4` over the spawns. -/
theorem spawnSum_exact (F : FloatEnv) (hF : ∀ a, F.rnd32 a = a) (values : List (ℚ × ℚ))
    (n : ℚ) :
    F.fdiv (spawnSum F values) n =
      (1 / n) * (values.map (fun v => 9 / 10 * v.1 + 1 / 10 * v.2)).sum := by
  have hfold : ∀ (vs : List (ℚ × ℚ)) (res : ℚ),
      vs.foldl (fun res v =>
        F.fadd (F.fadd res (F.fmul v.1 (F.rnd32 (9 / 10)))) (F.fmul v.2 (F.rnd32 (1 / 10))))
        res = res + (vs.map (fun v => 9 / 10 * v.1 + 1 / 10 * v.2)).sum := by
    intro vs
    induction vs with
    | nil => intro res; simp
    | cons v vs ih =>
      intro res
      rw [List.foldl_cons, ih]
      simp only [FloatEnv.fadd, FloatEnv.fmul, hF, List.map_cons, List.sum_cons]
      ring
  unfold spawnSum
  rw [hfold, FloatEnv.fdiv, hF]
  ring

theorem emptyCells_length (board : Nat) : (emptyCells board).length = zeroCellCount board := by
  unfold emptyCells zeroCellCount
  rw [List.countP_eq_length_filter]

theorem mem_emptyCells (board c : Nat) : c ∈ emptyCells board ↔ c < 16 ∧ cell board c = 0 := by
  unfold emptyCells
  simp [List.mem_filter]

theorem emptyCells_nodup (board : Nat) : (emptyCells board).Nodup :=
  List.Nodup.filter _ (List.nodup_range 16)

/-- An expanded chance node on a board with `1..15` empty cells returns the
accumulated sum of the spawns at its empty cells, divided by their
number. -/
theorem scoreTileChooseNode_expand (F : FloatEnv) (fuel : Nat) (state : EvalState)
    (board : Nat) (cprob : ℚ)
    (hexp : ¬ (cprob < CPROB_THRESH_BASE F ∨ state.curdepth ≥ state.depth_limit))
    (hmiss : cacheLookup state board = none)
    (hn1 : 1 ≤ zeroCellCount board) (hn15 : zeroCellCount board ≤ 15)
    (hfuel : (state.depth_limit - (state.curdepth + 1)).toNat < fuel) :
    ∃ (values : List (ℚ × ℚ)) (final : EvalState),
      SpawnTrace F (scoreMoveNode F fuel) board (F.fdiv cprob (zeroCellCount board))
        (emptyCells board) state values final ∧
      final.curdepth = state.curdepth ∧ final.depth_limit = state.depth_limit ∧
      scoreTileChooseNode F (fuel + 1) state board cprob =
        some (F.fdiv (spawnSum F values) (zeroCellCount board),
          cacheStore final board (F.fdiv (spawnSum F values) (zeroCellCount board))) := by
  have hcount : countEmpty board = zeroCellCount board := by
    rw [countEmpty_eq_mod, Nat.mod_eq_of_lt (by omega)]
  have hopen : countEmpty board ≠ 0 := by omega
  have hmove : ∀ st b cp, st.curdepth = state.curdepth → st.depth_limit = state.depth_limit →
      ∃ v st2, scoreMoveNodeWith (scoreTileChooseNode F fuel) st b cp = some (v, st2) ∧
        st2.curdepth = state.curdepth ∧ st2.depth_limit = state.depth_limit := by
    intro st b cp hsc hsD
    apply scoreMoveNodeWith_returns _ state.curdepth state.depth_limit _ st b cp hsc hsD
    intro st1 b1 cp1 hc1 hD1
    exact scoreTileChooseNode_returns F fuel (state.curdepth + 1) state.depth_limit st1 b1 cp1
      hc1 hD1 hfuel
  obtain ⟨r, st, e, hsc, hsD⟩ := tileLoop_returns F _ state.curdepth state.depth_limit hmove
    board (F.fdiv cprob (countEmpty board)) (countEmpty board) 17 0 (by norm_num)
    (by norm_num) state 0 board 0 rfl rfl
  have e1 : (2 : Nat) ^ (4 * 0) % 2 ^ 64 = 1 := by norm_num
  rw [e1, tileLoop_empty_cells F _ board _ state hopen] at e
  obtain ⟨values, htrace, hr⟩ := foldl_spawnStep_trace F _ board _ _ state 0 r st e
  refine ⟨values, st, ?_, hsc, hsD, ?_⟩
  · rw [← hcount]
    exact htrace
  · rw [scoreTileChooseNode, if_neg hexp, hmiss]
    simp only
    rw [if_neg hopen, tileLoop_empty_cells F _ board _ state hopen, e]
    simp only
    rw [hr, hcount]
    rfl

theorem SpawnTrace_length (F : FloatEnv)
    (g : EvalState → Nat → ℚ → Option (ℚ × EvalState)) (board : Nat) (cprob : ℚ)
    (cells : List Nat) :
    ∀ (state : EvalState) (values : List (ℚ × ℚ)) (final : EvalState),
      SpawnTrace F g board cprob cells state values final → values.length = cells.length := by
  induction cells with
  | nil =>
    intro state values final h
    rw [h.1]
    rfl
  | cons k cells ih =>
    intro state values final h
    obtain ⟨v2, v4, s2, s4, rest, hv, -, -, hrest⟩ := h
    rw [hv, List.length_cons, List.length_cons, ih s4 rest final hrest]

/-- C21: a chance node that is expanded (`cprob >= 0.0001`,
`curdepth < depth_limit`, no cache hit) on a board with `n` empty cells,
`1 <= n <= 15`, returns `res / n`, where `res` accumulates, over the empty
cells `c` in ascending order, `0.9 * scoreMoveNode(board | tile_2(c),
cprob / n * 0.9)` and `0.1 * scoreMoveNode(board | tile_2(c) << 1,
cprob / n * 0.1)`, each call made in the state the previous one left; without
rounding this is `1 / n` times the sum of `0.9 * v2 + 0.1 * v4`. The cells
visited are exactly the empty cells, each once; the two boards of cell `c`
hold rank 1 resp. rank 2 at `c` and agree with `board` at every other
cell. -/
theorem scoreTileChooseNode_expectation (F : FloatEnv) (fuel : Nat) (state : EvalState)
    (board : Nat) (cprob : ℚ)
    (hexp : ¬ (cprob < CPROB_THRESH_BASE F ∨ state.curdepth ≥ state.depth_limit))
    (hmiss : cacheLookup state board = none)
    (hn1 : 1 ≤ zeroCellCount board) (hn15 : zeroCellCount board ≤ 15)
    (hfuel : (state.depth_limit - (state.curdepth + 1)).toNat < fuel) :
    (∃ (values : List (ℚ × ℚ)) (final : EvalState),
      SpawnTrace F (scoreMoveNode F fuel) board (F.fdiv cprob (zeroCellCount board))
        (emptyCells board) state values final ∧
      values.length = zeroCellCount board ∧
      scoreTileChooseNode F (fuel + 1) state board cprob =
        some (F.fdiv (spawnSum F values) (zeroCellCount board),
          cacheStore final board (F.fdiv (spawnSum F values) (zeroCellCount board))) ∧
      ((∀ a, F.rnd32 a = a) →
        F.fdiv (spawnSum F values) (zeroCellCount board) =
          (1 / (zeroCellCount board : ℚ)) *
            (values.map (fun v => 9 / 10 * v.1 + 1 / 10 * v.2)).sum)) ∧
      (emptyCells board).length = zeroCellCount board ∧ (emptyCells board).Nodup ∧
      (∀ c, c ∈ emptyCells board ↔ c < 16 ∧ cell board c = 0) ∧
      ∀ c ∈ emptyCells board, ∀ m, m < 16 →
        cell (board ||| 2 ^ (4 * c) % 2 ^ 64) m = (if m = c then 1 else cell board m) ∧
        cell (board ||| shl64 (2 ^ (4 * c) % 2 ^ 64) 1) m =
          (if m = c then 2 else cell board m) := by
  obtain ⟨values, final, htrace, -, -, hres⟩ :=
    scoreTileChooseNode_expand F fuel state board cprob hexp hmiss hn1 hn15 hfuel
  refine ⟨⟨values, final, htrace, ?_, hres, fun hF => spawnSum_exact F hF values _⟩,
    emptyCells_length board, emptyCells_nodup board, mem_emptyCells board, ?_⟩
  · rw [SpawnTrace_length F _ board _ _ state values final htrace, emptyCells_length]
  · intro c hc m hm
    obtain ⟨hc16, hempty⟩ := (mem_emptyCells board c).1 hc
    rw [tile4_eq_shl64, tile2_eq_shl64]
    exact ⟨cell_place board 1 c m (by norm_num) hc16 hm hempty,
      cell_place board 2 c m (by norm_num) hc16 hm hempty⟩

/-- Witness for C21: the board `0x2001` with 14 empty cells, at depth 2 of
a search with depth limit 3 and an empty table. -/
theorem scoreTileChooseNode_expectation_witness :
    ∃ (values : List (ℚ × ℚ)) (final : EvalState),
      values.length = zeroCellCount 0x2001 ∧
      scoreTileChooseNode exactEnv 2
        { transTable := fun _ => none, maxdepth := 0, curdepth := 2, cachehits := 0,
          moves_evaled := 0, depth_limit := 3 } 0x2001 1 =
        some (exactEnv.fdiv (spawnSum exactEnv values) (zeroCellCount 0x2001),
          cacheStore final 0x2001
            (exactEnv.fdiv (spawnSum exactEnv values) (zeroCellCount 0x2001))) := by
  obtain ⟨⟨values, final, -, hlen, hres, -⟩, -⟩ :=
    scoreTileChooseNode_expectation exactEnv 1
      { transTable := fun _ => none, maxdepth := 0, curdepth := 2, cachehits := 0,
        moves_evaled := 0, depth_limit := 3 } 0x2001 1
      (by norm_num [CPROB_THRESH_BASE, exactEnv])
      (by simp [cacheLookup])
      (by decide) (by decide) (by decide)
  exact ⟨values, final, hlen, hres⟩

end AIEvaluator
namespace AIEvaluator

/-! ## The cache reuse rule -/

/-- Below `CACHE_DEPTH_LIMIT` the lookup returns the value of an entry
recorded at a depth `<=` the current depth. -/
theorem cacheLookup_of_entry_le (state : EvalState) (board : Nat) (d : Int) (v : ℚ)
    (hdepth : state.curdepth < CACHE_DEPTH_LIMIT)
    (hentry : state.transTable board = some (d, v)) (hle : d ≤ state.curdepth) :
    cacheLookup state board = some v := by
  unfold cacheLookup
  rw [if_pos hdepth, hentry]
  simp only
  rw [if_pos hle]

/-- The lookup does not return an entry recorded deeper than the current
depth. -/
theorem cacheLookup_of_entry_gt (state : EvalState) (board : Nat) (d : Int) (v : ℚ)
    (hentry : state.transTable board = some (d, v)) (hgt : state.curdepth < d) :
    cacheLookup state board = none := by
  unfold cacheLookup
  split_ifs with h
  · rw [hentry]
    simp only
    rw [if_neg (by omega)]
  · rfl

/-- Below `CACHE_DEPTH_LIMIT` the store writes the entry
`(curdepth, res)`. -/
theorem cacheStore_entry (state : EvalState) (board : Nat) (res : ℚ)
    (hdepth : state.curdepth < CACHE_DEPTH_LIMIT) :
    (cacheStore state board res).transTable board = some (state.curdepth, res) := by
  unfold cacheStore
  rw [if_pos hdepth]
  simp

/-- C25: at a chance node that is not a leaf (the board is what a move that
changed a 64-bit board left), at a depth `d'` below `CACHE_DEPTH_LIMIT`, with
an entry `(d, v)` stored for the board: if `d <= d'` the lookup hits and the
node returns `v`, counting a cache hit and leaving the table as it is; if
`d > d'` the lookup misses, the node is recomputed from the spawns at its
empty cells, and the entry for the board is overwritten with
`(d', new value)`. -/
theorem cache_reuse_rule (F : FloatEnv) (fuel : Nat) (state : EvalState) (b0 : Nat)
    (move : Int) (cprob : ℚ) (d : Int) (v : ℚ) (hb0 : b0 < 2 ^ 64) (hm0 : 0 ≤ move)
    (hm3 : move ≤ 3) (hchg : executeMove move b0 ≠ b0)
    (hexp : ¬ (cprob < CPROB_THRESH_BASE F ∨ state.curdepth ≥ state.depth_limit))
    (hdepth : state.curdepth < CACHE_DEPTH_LIMIT)
    (hentry : state.transTable (executeMove move b0) = some (d, v))
    (hfuel : (state.depth_limit - (state.curdepth + 1)).toNat < fuel) :
    (d ≤ state.curdepth →
      cacheLookup state (executeMove move b0) = some v ∧
      scoreTileChooseNode F (fuel + 1) state (executeMove move b0) cprob =
        some (v, { state with cachehits := state.cachehits + 1 })) ∧
    (state.curdepth < d →
      cacheLookup state (executeMove move b0) = none ∧
      ∃ (values : List (ℚ × ℚ)) (final : EvalState) (res : ℚ),
        SpawnTrace F (scoreMoveNode F fuel) (executeMove move b0)
          (F.fdiv cprob (zeroCellCount (executeMove move b0)))
          (emptyCells (executeMove move b0)) state values final ∧
        res = F.fdiv (spawnSum F values) (zeroCellCount (executeMove move b0)) ∧
        scoreTileChooseNode F (fuel + 1) state (executeMove move b0) cprob =
          some (res, cacheStore final (executeMove move b0) res) ∧
        (cacheStore final (executeMove move b0) res).transTable (executeMove move b0) =
          some (state.curdepth, res) ∧
        (cacheStore final (executeMove move b0) res).cachehits = final.cachehits) := by
  constructor
  · intro hle
    have hl := cacheLookup_of_entry_le state _ d v hdepth hentry hle
    refine ⟨hl, ?_⟩
    rw [scoreTileChooseNode, if_neg hexp, hl]
  · intro hgt
    have hl := cacheLookup_of_entry_gt state _ d v hentry hgt
    refine ⟨hl, ?_⟩
    obtain ⟨he, h1, h15⟩ := executeMove_changed_countEmpty b0 hb0 move hm0 hm3 hchg
    rw [he] at h1 h15
    obtain ⟨values, final, htrace, hc, -, hres⟩ :=
      scoreTileChooseNode_expand F fuel state _ cprob hexp hl h1 h15 hfuel
    refine ⟨values, final, _, htrace, rfl, hres, ?_, ?_⟩
    · rw [← hc]
      exact cacheStore_entry final _ _ (by rw [hc]; exact hdepth)
    · exact (cacheStore_hits final _ _).2.2.1

/-- Witness for C25: the board `0x9499494494994940` is what the move down
leaves of `0x9490494994944949`. At depth 2 of a search with depth limit 3, an
entry `(1, 7)` is returned as the value 7; an entry `(3, 7)` is not, the
node is recomputed and the entry becomes `(2, new value)`. -/
theorem cache_reuse_rule_witness :
    scoreTileChooseNode exactEnv 2
        { transTable := fun _ => some (1, 7), maxdepth := 0, curdepth := 2, cachehits := 0,
          moves_evaled := 0, depth_limit := 3 } 0x9499494494994940 1 =
      some (7,
        { transTable := fun _ => some (1, 7), maxdepth := 0, curdepth := 2,
          cachehits := 0 + 1, moves_evaled := 0, depth_limit := 3 }) ∧
    ∃ (final : EvalState) (res : ℚ),
      scoreTileChooseNode exactEnv 2
          { transTable := fun _ => some (3, 7), maxdepth := 0, curdepth := 2, cachehits := 0,
            moves_evaled := 0, depth_limit := 3 } 0x9499494494994940 1 =
        some (res, cacheStore final 0x9499494494994940 res) ∧
      (cacheStore final 0x9499494494994940 res).transTable 0x9499494494994940 =
        some (2, res) := by
  have hmove : executeMove 1 0x9490494994944949 = 0x9499494494994940 :=
    checker_board_moves.2.1
  have hchg : executeMove 1 0x9490494994944949 ≠ 0x9490494994944949 := by
    rw [hmove]
    norm_num
  have hexp : ¬ ((1 : ℚ) < CPROB_THRESH_BASE exactEnv ∨ (2 : Int) ≥ 3) := by
    norm_num [CPROB_THRESH_BASE, exactEnv]
  have h1 := (cache_reuse_rule exactEnv 1
    { transTable := fun _ => some (1, 7), maxdepth := 0, curdepth := 2, cachehits := 0,
      moves_evaled := 0, depth_limit := 3 } 0x9490494994944949 1 1 1 7 (by norm_num)
    (by norm_num) (by norm_num) hchg hexp (by decide) rfl (by decide)).1 (by decide)
  obtain ⟨-, values, final, res, -, -, h3, h4, -⟩ := (cache_reuse_rule exactEnv 1
    { transTable := fun _ => some (3, 7), maxdepth := 0, curdepth := 2, cachehits := 0,
      moves_evaled := 0, depth_limit := 3 } 0x9490494994944949 1 1 3 7 (by norm_num)
    (by norm_num) (by norm_num) hchg hexp (by decide) rfl (by decide)).2 (by decide)
  rw [hmove] at h1 h3 h4
  exact ⟨h1.2, final, res, h3, h4⟩

end AIEvaluator
namespace AIEvaluator

/-! ## The checked search agrees with the search where every call passes the check -/

/-- One iteration of the loop of `scoreMoveNode` gives the same result over
two chance-node functions that agree on the board the move leads to. -/
theorem moveNodeStep_agree (f g : EvalState → Nat → ℚ → Option (ℚ × EvalState)) (c D : Int)
    (B : Nat → Prop)
    (hfg : ∀ state board cprob, state.curdepth = c → state.depth_limit = D → B board →
      g state board cprob = f state board cprob)
    (board : Nat) (cprob best : ℚ) (state : EvalState) (move : Int)
    (hc : state.curdepth = c) (hD : state.depth_limit = D)
    (hB : executeMove move board ≠ board → B (executeMove move board)) :
    moveNodeStep g board cprob (some (best, state)) move =
      moveNodeStep f board cprob (some (best, state)) move := by
  unfold moveNodeStep
  simp only
  by_cases hne : board ≠ executeMove move board
  · have e := hfg { state with moves_evaled := (state.moves_evaled + 1) % 2 ^ 64 }
      (executeMove move board) cprob hc hD (hB (fun h => hne h.symm))
    rw [if_pos hne, if_pos hne, e]
  · rw [if_neg hne, if_neg hne]

/-- The move node gives the same result over two chance-node functions that
agree, one level deeper, on the boards that the four moves lead to. -/
theorem scoreMoveNodeWith_agree (f g : EvalState → Nat → ℚ → Option (ℚ × EvalState))
    (c D : Int) (B : Nat → Prop)
    (hf : ∀ state board cprob, state.curdepth = c + 1 → state.depth_limit = D →
      ∃ v st, f state board cprob = some (v, st) ∧ st.curdepth = c + 1 ∧ st.depth_limit = D)
    (hfg : ∀ state board cprob, state.curdepth = c + 1 → state.depth_limit = D → B board →
      g state board cprob = f state board cprob)
    (state : EvalState) (board : Nat) (cprob : ℚ) (hc : state.curdepth = c)
    (hD : state.depth_limit = D)
    (hB : ∀ move : Int, 0 ≤ move → move ≤ 3 → executeMove move board ≠ board →
      B (executeMove move board)) :
    scoreMoveNodeWith g state board cprob = scoreMoveNodeWith f state board cprob := by
  obtain ⟨b0, s0, e0, hc0, hD0⟩ := moveNodeStep_returns f (c + 1) D hf board cprob 0
    { state with curdepth := state.curdepth + 1 } 0 (by simp [hc]) hD
  obtain ⟨b1, s1, e1, hc1, hD1⟩ := moveNodeStep_returns f (c + 1) D hf board cprob b0 s0 1 hc0 hD0
  obtain ⟨b2, s2, e2, hc2, hD2⟩ := moveNodeStep_returns f (c + 1) D hf board cprob b1 s1 2 hc1 hD1
  have g0 := moveNodeStep_agree f g (c + 1) D B hfg board cprob 0
    { state with curdepth := state.curdepth + 1 } 0 (by simp [hc]) hD
    (hB 0 (by norm_num) (by norm_num))
  have g1 := moveNodeStep_agree f g (c + 1) D B hfg board cprob b0 s0 1 hc0 hD0
    (hB 1 (by norm_num) (by norm_num))
  have g2 := moveNodeStep_agree f g (c + 1) D B hfg board cprob b1 s1 2 hc1 hD1
    (hB 2 (by norm_num) (by norm_num))
  have g3 := moveNodeStep_agree f g (c + 1) D B hfg board cprob b2 s2 3 hc2 hD2
    (hB 3 (by norm_num) (by norm_num))
  unfold scoreMoveNodeWith
  simp only [List.foldl_cons, List.foldl_nil]
  rw [g0, e0, g1, e1, g2, e2, g3]

/-- The loop over the empty cells gives the same result over two move-node
functions that agree on the boards with a spawned tile. -/
theorem tileLoop_agree (F : FloatEnv) (g1 g2 : EvalState → Nat → ℚ → Option (ℚ × EvalState))
    (c D : Int) (P : Nat → Prop)
    (hg1 : ∀ state board cprob, state.curdepth = c → state.depth_limit = D →
      ∃ v st, g1 state board cprob = some (v, st) ∧ st.curdepth = c ∧ st.depth_limit = D)
    (hg : ∀ state board cprob, state.curdepth = c → state.depth_limit = D → P board →
      g2 state board cprob = g1 state board cprob)
    (board : Nat) (hP : ∀ x, x < 2 ^ 64 → P (board ||| x)) (cprob : ℚ) (num_open : Nat)
    (fuel : Nat) :
    ∀ (state : EvalState) (res : ℚ) (tmp tile_2 count : Nat), tile_2 < 2 ^ 64 →
      state.curdepth = c → state.depth_limit = D →
      tileLoop F g2 board cprob num_open fuel state res tmp tile_2 count =
        tileLoop F g1 board cprob num_open fuel state res tmp tile_2 count := by
  induction fuel with
  | zero =>
    intro state res tmp tile_2 count _ _ _
    rw [tileLoop, tileLoop]
  | succ fuel ih =>
    intro state res tmp tile_2 count ht hc hD
    rw [tileLoop, tileLoop]
    by_cases hcond : tile_2 ≠ 0 ∧ count < num_open
    · rw [if_pos hcond, if_pos hcond]
      by_cases hcell : tmp &&& 0xf = 0
      · rw [if_pos hcell, if_pos hcell]
        obtain ⟨v2, st2, e2, hc2, hD2⟩ := hg1 state (board ||| tile_2)
          (F.fmul cprob (F.rnd32 (9 / 10))) hc hD
        obtain ⟨v4, st4, e4, hc4, hD4⟩ := hg1 st2 (board ||| shl64 tile_2 1)
          (F.fmul cprob (F.rnd32 (1 / 10))) hc2 hD2
        rw [hg _ _ _ hc hD (hP _ ht), e2]
        simp only
        rw [hg _ _ _ hc2 hD2 (hP _ (shl64_lt _ _)), e4]
        simp only
        exact ih st4 _ _ _ _ (shl64_lt _ _) hc4 hD4
      · rw [if_neg hcell, if_neg hcell]
        exact ih state res _ _ _ (shl64_lt _ _) hc hD
    · rw [if_neg hcond, if_neg hcond]

/-- The checked chance node is `scoreTileChooseNode` on every state and
board from which all calls of the search pass the check: `S` relates the
depth and the depth limit, `B` holds of the boards of chance nodes, `P` of
the boards of move nodes. -/
theorem tileNodeChecked_eq (ok : EvalState → Nat → Bool) (F : FloatEnv)
    (S : Int → Int → Prop) (B P : Nat → Prop)
    (hok : ∀ st b, S st.curdepth st.depth_limit → B b → ok st b = true)
    (hS : ∀ c D, S c D → c < D → S (c + 1) D)
    (hspawn : ∀ b x, B b → x < 2 ^ 64 → P (b ||| x))
    (hmove : ∀ b (move : Int), P b → 0 ≤ move → move ≤ 3 → executeMove move b ≠ b →
      B (executeMove move b))
    (fuel : Nat) :
    ∀ (c D : Int) (state : EvalState) (board : Nat) (cprob : ℚ), state.curdepth = c →
      state.depth_limit = D → S c D → B board → (D - c).toNat < fuel →
      tileNodeChecked ok F fuel state board cprob =
        scoreTileChooseNode F fuel state board cprob := by
  induction fuel with
  | zero => intro c D state board cprob _ _ _ _ h; omega
  | succ fuel ih =>
    intro c D state board cprob hc hD hSc hBb hfuel
    rw [tileNodeChecked, scoreTileChooseNode, if_pos (hok state board (by rw [hc, hD]; exact hSc) hBb)]
    by_cases hleaf : cprob < CPROB_THRESH_BASE F ∨ state.curdepth ≥ state.depth_limit
    · rw [if_pos hleaf, if_pos hleaf]
    · rw [if_neg hleaf, if_neg hleaf]
      have hlt : c < D := by
        rw [hc, hD] at hleaf
        push_neg at hleaf
        exact hleaf.2
      have htile : ∀ st b cp, st.curdepth = c + 1 → st.depth_limit = D →
          ∃ v st2, scoreTileChooseNode F fuel st b cp = some (v, st2) ∧
            st2.curdepth = c + 1 ∧ st2.depth_limit = D :=
        fun st b cp h1 h2 => scoreTileChooseNode_returns F fuel (c + 1) D st b cp h1 h2
          (by omega)
      have hmv : ∀ st b cp, st.curdepth = c → st.depth_limit = D →
          ∃ v st2, scoreMoveNodeWith (scoreTileChooseNode F fuel) st b cp = some (v, st2) ∧
            st2.curdepth = c ∧ st2.depth_limit = D :=
        fun st b cp h1 h2 => scoreMoveNodeWith_returns _ c D htile st b cp h1 h2
      have hagree : ∀ st b cp, st.curdepth = c → st.depth_limit = D → P b →
          scoreMoveNodeWith (tileNodeChecked ok F fuel) st b cp =
            scoreMoveNodeWith (scoreTileChooseNode F fuel) st b cp := by
        intro st b cp h1 h2 hPb
        apply scoreMoveNodeWith_agree _ _ c D B htile _ st b cp h1 h2
          (fun move hm0 hm3 hne => hmove b move hPb hm0 hm3 hne)
        intro st1 b1 cp1 hc1 hD1 hB1
        exact ih (c + 1) D st1 b1 cp1 hc1 hD1 (hS c D hSc hlt) hB1 (by omega)
      have hloop := tileLoop_agree F _ _ c D P hmv hagree board
        (fun x hx => hspawn board x hBb hx) (F.fdiv cprob (countEmpty board))
        (countEmpty board) 17 state 0 board 1 0 (by norm_num) hc hD
      cases cacheLookup state board with
      | some v => rfl
      | none =>
        simp only
        rw [hloop]

/-- The checked top-level move is `scoreTopLevelMove` when the check passes
throughout the search it starts. -/
theorem topLevelChecked_eq (ok : EvalState → Nat → Bool) (F : FloatEnv)
    (S : Int → Int → Prop) (B P : Nat → Prop)
    (hok : ∀ st b, S st.curdepth st.depth_limit → B b → ok st b = true)
    (hS : ∀ c D, S c D → c < D → S (c + 1) D)
    (hspawn : ∀ b x, B b → x < 2 ^ 64 → P (b ||| x))
    (hmove : ∀ b (move : Int), P b → 0 ≤ move → move ≤ 3 → executeMove move b ≠ b →
      B (executeMove move b))
    (t : Nat → Option (Int × ℚ)) (board : Nat) (move : Int) (hb : P board)
    (hm0 : 0 ≤ move) (hm3 : move ≤ 3)
    (hS0 : ∀ n, countDistinctTiles board = some n → S 0 (max 3 (n - 2))) :
    topLevelChecked ok F t board move = scoreTopLevelMove F t board move := by
  unfold topLevelChecked scoreTopLevelMove
  dsimp only
  by_cases h : board = executeMove move board
  · rw [if_pos h, if_pos h]
  · rw [if_neg h, if_neg h]
    cases hn : countDistinctTiles board with
    | none => rfl
    | some n =>
      simp only
      rw [tileNodeChecked_eq ok F S B P hok hS hspawn hmove _ 0 (max 3 (n - 2)) _ _ 1 rfl rfl
        (hS0 n hn) (hmove board move hb hm0 hm3 (fun e => h e.symm)) (by omega)]

/-- The checked evaluation is `evaluateAllMoves` when the check passes
throughout the four searches. -/
theorem evaluateAllMovesChecked_eq (ok : EvalState → Nat → Bool) (F : FloatEnv)
    (S : Int → Int → Prop) (B P : Nat → Prop)
    (hok : ∀ st b, S st.curdepth st.depth_limit → B b → ok st b = true)
    (hS : ∀ c D, S c D → c < D → S (c + 1) D)
    (hspawn : ∀ b x, B b → x < 2 ^ 64 → P (b ||| x))
    (hmove : ∀ b (move : Int), P b → 0 ≤ move → move ≤ 3 → executeMove move b ≠ b →
      B (executeMove move b))
    (grid : List (List Int)) (hb : P (convertToBitboard grid))
    (hS0 : ∀ n, countDistinctTiles (convertToBitboard grid) = some n → S 0 (max 3 (n - 2))) :
    evaluateAllMovesChecked ok F grid = evaluateAllMoves F grid := by
  have hstep : ∀ (acc : Option (List ℚ × (Nat → Option (Int × ℚ)))) (move : Nat), move ≤ 3 →
      evaluateStepChecked ok F (convertToBitboard grid) acc move =
        evaluateStep F (convertToBitboard grid) acc move := by
    intro acc move hm
    cases acc with
    | none => rfl
    | some a =>
      obtain ⟨scores, t⟩ := a
      unfold evaluateStepChecked evaluateStep
      simp only
      rw [topLevelChecked_eq ok F S B P hok hS hspawn hmove t _ (move : Int) hb
        (Int.natCast_nonneg move) (by omega) hS0]
  unfold evaluateAllMovesChecked evaluateAllMoves
  simp only [List.foldl_cons, List.foldl_nil]
  rw [hstep _ 0 (by norm_num), hstep _ 1 (by norm_num), hstep _ 2 (by norm_num),
    hstep _ 3 (by norm_num)]

end AIEvaluator
namespace AIEvaluator

/-! ## Every chance node of a search has an empty cell -/

/-- C26: for every 64-bit board `b` and every direction `d` in
`{0, 1, 2, 3}` with `executeMove d b != b`, the moved board has an empty cell
and a non-empty cell, `countEmpty` of it is the number of its empty cells and
lies in `1..15`. Consequently `evaluateAllMoves` returns the same scores when
every call of `scoreTileChooseNode` is checked for
`1 <= countEmpty board <= 15` at its entry: every board that the four
searches pass to the chance node has `num_open >= 1`, so the
`num_open == 0` return is not taken. -/
theorem executeMove_leaves_open_cell (F : FloatEnv) (b : Nat) (hb : b < 2 ^ 64) (d : Int)
    (hd0 : 0 ≤ d) (hd3 : d ≤ 3) (h : executeMove d b ≠ b) :
    (∃ n, n < 16 ∧ cell (executeMove d b) n = 0) ∧
      (∃ n, n < 16 ∧ cell (executeMove d b) n ≠ 0) ∧
      countEmpty (executeMove d b) = zeroCellCount (executeMove d b) ∧
      1 ≤ countEmpty (executeMove d b) ∧ countEmpty (executeMove d b) ≤ 15 ∧
      ∀ grid : List (List Int),
        evaluateAllMovesChecked
            (fun _ board => decide (1 ≤ countEmpty board ∧ countEmpty board ≤ 15)) F grid =
          evaluateAllMoves F grid ∧
        ∃ scores, evaluateAllMoves F grid = some scores ∧ scores.length = 4 := by
  obtain ⟨h0, h1⟩ := executeMove_changed_cells b hb d hd0 hd3 h
  obtain ⟨he, hge, hle⟩ := executeMove_changed_countEmpty b hb d hd0 hd3 h
  refine ⟨h0, h1, he, hge, hle, ?_⟩
  intro grid
  constructor
  · apply evaluateAllMovesChecked_eq _ F (fun _ _ => True)
      (fun x => x < 2 ^ 64 ∧ 1 ≤ countEmpty x ∧ countEmpty x ≤ 15) (fun x => x < 2 ^ 64)
    · intro st x _ hx
      exact decide_eq_true hx.2
    · intro c D _ _
      trivial
    · intro x y hx hy
      exact Nat.or_lt_two_pow hx.1 hy
    · intro x move hx hm0 hm3 hne
      exact ⟨executeMove_lt move x hx,
        (executeMove_changed_countEmpty x hx move hm0 hm3 hne).2⟩
    · exact convertToBitboard_lt grid
    · intro n _
      trivial
  · obtain ⟨s0, s1, s2, s3, hs, -⟩ := evaluateAllMoves_scores F grid
    exact ⟨_, hs, rfl⟩

/-- Witness for C26: the move down on the board `0x9490494994944949`
leaves `0x9499494494994940`, which has one empty cell. -/
theorem executeMove_leaves_open_cell_witness :
    executeMove 1 0x9490494994944949 = 0x9499494494994940 ∧
      countEmpty (executeMove 1 0x9490494994944949) =
        zeroCellCount (executeMove 1 0x9490494994944949) ∧
      zeroCellCount 0x9499494494994940 = 1 := by
  have hmove : executeMove 1 0x9490494994944949 = 0x9499494494994940 :=
    checker_board_moves.2.1
  have hchg : executeMove 1 0x9490494994944949 ≠ 0x9490494994944949 := by
    rw [hmove]
    norm_num
  exact ⟨hmove,
    (executeMove_leaves_open_cell exactEnv 0x9490494994944949 (by norm_num) 1 (by norm_num)
      (by norm_num) hchg).2.2.1, by decide⟩

end AIEvaluator
namespace AIEvaluator

/-! ## The depth limit stays below the cache-depth ceiling -/

/-- C27: for every 64-bit board the depth limit
`max(3, countDistinctTiles(board) - 2)` lies between 3 and 13, below
`CACHE_DEPTH_LIMIT = 15`. In every state with that depth limit that passes
the leaf test (`curdepth < depth_limit`) the guard
`curdepth < CACHE_DEPTH_LIMIT` holds: the lookup consults the table (an
entry is returned by the depth rule alone, a missing entry gives a miss) and
the store writes the entry. Consequently `evaluateAllMoves` returns the same
scores when every call of the chance node is checked for
`curdepth < depth_limit → curdepth < CACHE_DEPTH_LIMIT`. -/
theorem depth_limit_below_cache_ceiling (F : FloatEnv) (board : Nat) (hb : board < 2 ^ 64) :
    ∃ D : Int, topLevelDepthLimit board = some D ∧ 3 ≤ D ∧ D ≤ 13 ∧ D < CACHE_DEPTH_LIMIT ∧
      (∀ (state : EvalState) (b : Nat) (res : ℚ), state.depth_limit = D →
        state.curdepth < state.depth_limit →
        state.curdepth < CACHE_DEPTH_LIMIT ∧
        (∀ entry, state.transTable b = some entry →
          cacheLookup state b = if entry.1 ≤ state.curdepth then some entry.2 else none) ∧
        (state.transTable b = none → cacheLookup state b = none) ∧
        cacheStore state b res =
          { state with
            transTable := Function.update state.transTable b (some (state.curdepth, res)) }) ∧
      ∀ grid : List (List Int),
        evaluateAllMovesChecked
            (fun st _ => decide (st.curdepth < st.depth_limit → st.curdepth < CACHE_DEPTH_LIMIT))
            F grid =
          evaluateAllMoves F grid := by
  obtain ⟨-, h15⟩ := countDistinctTiles_spec board hb
  have hD13 : max (3 : Int) (((distinctValueCount board : Nat) : Int) - 2) ≤ 13 :=
    max_le (by norm_num) (by omega)
  refine ⟨_, topLevelDepthLimit_eq board hb, le_max_left _ _, hD13, ?_, ?_, ?_⟩
  · unfold CACHE_DEPTH_LIMIT
    omega
  · intro state b res hD hlt
    have hguard : state.curdepth < CACHE_DEPTH_LIMIT := by
      unfold CACHE_DEPTH_LIMIT
      omega
    refine ⟨hguard, ?_, ?_, ?_⟩
    · intro entry he
      unfold cacheLookup
      rw [if_pos hguard, he]
    · intro he
      unfold cacheLookup
      rw [if_pos hguard, he]
    · unfold cacheStore
      rw [if_pos hguard]
  · intro grid
    apply evaluateAllMovesChecked_eq _ F (fun _ D => D ≤ 13) (fun _ => True) (fun _ => True)
    · intro st x hS _
      apply decide_eq_true
      intro hlt
      unfold CACHE_DEPTH_LIMIT
      omega
    · intro c D hS _
      exact hS
    · intro x y _ _
      trivial
    · intro x move _ _ _ _
      trivial
    · trivial
    · intro n hn
      have hspec := countDistinctTiles_spec (convertToBitboard grid) (convertToBitboard_lt grid)
      rw [hspec.1] at hn
      have hn2 : ((distinctValueCount (convertToBitboard grid) : Nat) : Int) = n :=
        Option.some.inj hn
      exact max_le (by norm_num) (by omega)

/-- Witness for C27: the board `0x654321` has depth limit 4. -/
theorem depth_limit_below_cache_ceiling_witness :
    ∃ D : Int, topLevelDepthLimit 0x654321 = some D ∧ 3 ≤ D ∧ D ≤ 13 ∧
      D < CACHE_DEPTH_LIMIT := by
  obtain ⟨D, h1, h2, h3, h4, -⟩ :=
    depth_limit_below_cache_ceiling exactEnv 0x654321 (by norm_num)
  exact ⟨D, h1, h2, h3, h4⟩

end AIEvaluator
namespace AIEvaluator

/-! ## The search terminates -/

/-- C22: the mutual recursion terminates for every state, board and
`cprob`. A chance node with `cprob < 0.0001` or `curdepth >= depth_limit`
returns `scoreHeurBoard(board)` without a nested call (a budget of one
call suffices). A chance node returns with a budget of more nested chance
nodes than levels are left below the depth limit, and a move node with one
level less, because it calls its chance nodes at `curdepth + 1` (the result
is the same when every other depth is refused); both leave `curdepth` and
`depth_limit` as they found them. From a state with
`curdepth <= depth_limit` the search returns the same result when every call
of the chance node is checked for `curdepth <= depth_limit`: the depth never
exceeds the depth limit. -/
theorem search_terminates (F : FloatEnv) (state : EvalState) (board : Nat) (cprob : ℚ) :
    ((cprob < CPROB_THRESH_BASE F ∨ state.curdepth ≥ state.depth_limit) →
      scoreTileChooseNode F 1 state board cprob =
        some (scoreHeurBoard F board,
          { state with maxdepth := max state.curdepth state.maxdepth })) ∧
    (∀ fuel, (state.depth_limit - state.curdepth).toNat < fuel →
      ∃ v st, scoreTileChooseNode F fuel state board cprob = some (v, st) ∧
        st.curdepth = state.curdepth ∧ st.depth_limit = state.depth_limit) ∧
    (∀ fuel, (state.depth_limit - (state.curdepth + 1)).toNat < fuel →
      (∃ v st, scoreMoveNode F fuel state board cprob = some (v, st) ∧
        st.curdepth = state.curdepth ∧ st.depth_limit = state.depth_limit) ∧
      scoreMoveNodeWith
          (fun st b cp =>
            if st.curdepth = state.curdepth + 1 then scoreTileChooseNode F fuel st b cp
            else none) state board cprob =
        scoreMoveNode F fuel state board cprob) ∧
    (state.curdepth ≤ state.depth_limit →
      ∀ fuel, (state.depth_limit - state.curdepth).toNat < fuel →
        tileNodeChecked (fun st _ => decide (st.curdepth ≤ st.depth_limit)) F fuel state board
            cprob =
          scoreTileChooseNode F fuel state board cprob) := by
  refine ⟨?_, ?_, ?_, ?_⟩
  · intro hleaf
    rw [scoreTileChooseNode, if_pos hleaf]
  · intro fuel hfuel
    exact scoreTileChooseNode_returns F fuel _ _ state board cprob rfl rfl hfuel
  · intro fuel hfuel
    have htile : ∀ st b cp, st.curdepth = state.curdepth + 1 →
        st.depth_limit = state.depth_limit →
        ∃ v st2, scoreTileChooseNode F fuel st b cp = some (v, st2) ∧
          st2.curdepth = state.curdepth + 1 ∧ st2.depth_limit = state.depth_limit :=
      fun st b cp h1 h2 => scoreTileChooseNode_returns F fuel _ _ st b cp h1 h2 hfuel
    constructor
    · exact scoreMoveNodeWith_returns _ _ _ htile state board cprob rfl rfl
    · unfold scoreMoveNode
      apply scoreMoveNodeWith_agree _ _ state.curdepth state.depth_limit (fun _ => True) htile
        _ state board cprob rfl rfl (fun _ _ _ _ => trivial)
      intro st b cp h1 _ _
      simp only [h1, if_true]
  · intro hle fuel hfuel
    apply tileNodeChecked_eq _ F (fun c D => c ≤ D) (fun _ => True) (fun _ => True) _ _ _ _
      fuel state.curdepth state.depth_limit state board cprob rfl rfl hle trivial hfuel
    · intro st x hS _
      exact decide_eq_true hS
    · intro c D _ hlt
      omega
    · intro x y _ _
      trivial
    · intro x move _ _ _ _
      trivial

/-- Witness for C22: the search that `scoreTopLevelMove` starts at depth 0
with depth limit 3 on the board `0x21` returns with a budget of four nested
chance nodes, and the depth stays within the depth limit. -/
theorem search_terminates_witness :
    (∃ v st, scoreTileChooseNode exactEnv 4 (topLevelState (fun _ => none) 3) 0x21 1 =
        some (v, st) ∧
      st.curdepth = (topLevelState (fun _ => none) 3).curdepth ∧
      st.depth_limit = (topLevelState (fun _ => none) 3).depth_limit) ∧
    tileNodeChecked (fun st _ => decide (st.curdepth ≤ st.depth_limit)) exactEnv 4
        (topLevelState (fun _ => none) 3) 0x21 1 =
      scoreTileChooseNode exactEnv 4 (topLevelState (fun _ => none) 3) 0x21 1 := by
  have h := search_terminates exactEnv (topLevelState (fun _ => none) 3) 0x21 1
  exact ⟨h.2.1 4 (by decide), h.2.2.2 (by decide) 4 (by decide)⟩

end AIEvaluator
namespace Game2048

/-! ## The game-over test is exact -/

/-- `canMove` returns `true` exactly if some cell is empty or some cell
equals its right or its lower neighbour. -/
theorem canMove_iff (G : List (List Int)) :
    canMove G = true ↔
      (∃ i j, i < 4 ∧ j < 4 ∧ (G.getD i []).getD j 0 = 0) ∨
      (∃ i j, i < 4 ∧ j < 3 ∧ (G.getD i []).getD j 0 = (G.getD i []).getD (j + 1) 0) ∨
      (∃ i j, i < 3 ∧ j < 4 ∧ (G.getD i []).getD j 0 = (G.getD (i + 1) []).getD j 0) := by
  unfold canMove
  simp only [BOARD_SIZE]
  constructor
  · intro h
    split_ifs at h with h1 h2
    · left
      simp only [List.any_eq_true, List.mem_range, decide_eq_true_eq] at h1
      obtain ⟨i, hi, j, hj, e⟩ := h1
      exact ⟨i, j, hi, hj, e⟩
    · right
      simp only [List.any_eq_true, List.mem_range, Bool.or_eq_true, Bool.and_eq_true,
        decide_eq_true_eq] at h2
      obtain ⟨i, hi, j, hj, e⟩ := h2
      rcases e with ⟨hj3, e⟩ | ⟨hi3, e⟩
      · exact Or.inl ⟨i, j, hi, by omega, e⟩
      · exact Or.inr ⟨i, j, by omega, hj, e⟩
  · intro h
    split_ifs with h1 h2
    · rfl
    · rfl
    · exfalso
      simp only [List.any_eq_true, List.mem_range, decide_eq_true_eq, Bool.or_eq_true,
        Bool.and_eq_true, not_exists, not_and, not_or] at h1 h2
      rcases h with ⟨i, j, hi, hj, e⟩ | ⟨i, j, hi, hj, e⟩ | ⟨i, j, hi, hj, e⟩
      · exact h1 i hi j hj e
      · exact (h2 i hi j (by omega)).1 (by omega) e
      · exact (h2 i (by omega) j hj).2 (by omega) e

/-- A row with an empty and a non-empty cell changes under the move toward
one of its two ends. -/
theorem gameSlide_mixed (a b c d : Int) (h0 : a = 0 ∨ b = 0 ∨ c = 0 ∨ d = 0)
    (h1 : a ≠ 0 ∨ b ≠ 0 ∨ c ≠ 0 ∨ d ≠ 0) :
    gameSlide [a, b, c, d] ≠ [a, b, c, d] ∨ gameSlide [d, c, b, a] ≠ [d, c, b, a] := by
  by_contra hcon
  push_neg at hcon
  obtain ⟨hl, hr⟩ := hcon
  rw [gameSlide_fixed_iff] at hl hr
  obtain ⟨l1, l2, l3, -⟩ := hl
  obtain ⟨r1, r2, r3, -⟩ := hr
  by_cases ha : a = 0 <;> by_cases hb : b = 0 <;> by_cases hc : c = 0 <;> by_cases hd : d = 0 <;>
    simp_all

/-- A row with two equal non-empty neighbours changes under the move. -/
theorem gameSlide_equal (a b c d : Int)
    (h : (a ≠ 0 ∧ a = b) ∨ (b ≠ 0 ∧ b = c) ∨ (c ≠ 0 ∧ c = d)) :
    gameSlide [a, b, c, d] ≠ [a, b, c, d] := by
  intro hfix
  rw [gameSlide_fixed_iff] at hfix
  obtain ⟨-, -, -, n1, n2, n3⟩ := hfix
  rcases h with h | h | h
  · exact n1 h
  · exact n2 h
  · exact n3 h

/-- A row that changes under the move has an empty cell or two equal
neighbours. -/
theorem gameSlide_changed (a b c d : Int) (h : gameSlide [a, b, c, d] ≠ [a, b, c, d]) :
    (a = 0 ∨ b = 0 ∨ c = 0 ∨ d = 0) ∨ a = b ∨ b = c ∨ c = d := by
  by_contra hcon
  push_neg at hcon
  obtain ⟨⟨ha, hb, hc, hd⟩, hab, hbc, hcd⟩ := hcon
  apply h
  rw [gameSlide_fixed_iff]
  exact ⟨fun e => absurd e ha, fun e => absurd e hb, fun e => absurd e hc,
    fun e => hab e.2, fun e => hbc e.2, fun e => hcd e.2⟩

theorem mixed_of_index (x : Nat → Int) (p q : Nat) (hp : p < 4) (hq : q < 4) (h0 : x p = 0)
    (h1 : x q ≠ 0) :
    (x 0 = 0 ∨ x 1 = 0 ∨ x 2 = 0 ∨ x 3 = 0) ∧ (x 0 ≠ 0 ∨ x 1 ≠ 0 ∨ x 2 ≠ 0 ∨ x 3 ≠ 0) := by
  constructor
  · interval_cases p
    · exact Or.inl h0
    · exact Or.inr (Or.inl h0)
    · exact Or.inr (Or.inr (Or.inl h0))
    · exact Or.inr (Or.inr (Or.inr h0))
  · interval_cases q
    · exact Or.inl h1
    · exact Or.inr (Or.inl h1)
    · exact Or.inr (Or.inr (Or.inl h1))
    · exact Or.inr (Or.inr (Or.inr h1))

theorem zero_of_index (x : Nat → Int) (h : x 0 = 0 ∨ x 1 = 0 ∨ x 2 = 0 ∨ x 3 = 0) :
    ∃ p, p < 4 ∧ x p = 0 := by
  rcases h with h | h | h | h
  · exact ⟨0, by norm_num, h⟩
  · exact ⟨1, by norm_num, h⟩
  · exact ⟨2, by norm_num, h⟩
  · exact ⟨3, by norm_num, h⟩

theorem equal_of_index (x : Nat → Int) (h : x 0 = x 1 ∨ x 1 = x 2 ∨ x 2 = x 3) :
    ∃ p, p < 3 ∧ x p = x (p + 1) := by
  rcases h with h | h | h
  · exact ⟨0, by norm_num, h⟩
  · exact ⟨1, by norm_num, h⟩
  · exact ⟨2, by norm_num, h⟩

theorem equal_at_index (x : Nat → Int) (p : Nat) (hp : p < 3) (h : x p = x (p + 1))
    (hne : x p ≠ 0) :
    (x 0 ≠ 0 ∧ x 0 = x 1) ∨ (x 1 ≠ 0 ∧ x 1 = x 2) ∨ (x 2 ≠ 0 ∧ x 2 = x 3) := by
  interval_cases p
  · exact Or.inl ⟨hne, h⟩
  · exact Or.inr (Or.inl ⟨hne, h⟩)
  · exact Or.inr (Or.inr ⟨hne, h⟩)

/-- The flags of the four moves on a 4x4 board, line by line. -/
theorem move_flags (G : List (List Int)) (hlen : G.length = 4)
    (hrows : ∀ r ∈ G, r.length = 4) :
    ((moveLeft G).2 = true ∨ (moveRight G).2 = true ∨ (moveUp G).2 = true ∨
        (moveDown G).2 = true) ↔
      (∃ i, i < 4 ∧ gameSlide (gridRow G i) ≠ gridRow G i) ∨
      (∃ i, i < 4 ∧ gameSlide (gridRow G i).reverse ≠ (gridRow G i).reverse) ∨
      (∃ j, j < 4 ∧ gameSlide (gridCol G j) ≠ gridCol G j) ∨
      (∃ j, j < 4 ∧ gameSlide (gridCol G j).reverse ≠ (gridCol G j).reverse) := by
  have hleft : (moveLeft G).2 = true ↔
      ∃ i, i < 4 ∧ gameSlide (gridRow G i) ≠ gridRow G i := by
    match G, hlen, hrows with
    | [r0, r1, r2, r3], _, hrows =>
      exact moveLeft_flag r0 r1 r2 r3 (hrows r0 (by simp)) (hrows r1 (by simp))
        (hrows r2 (by simp)) (hrows r3 (by simp))
  rw [hleft, moveRight_flag, moveUp_flag, moveDown_flag]

/-- Some line of the board changes under a move exactly if `canMove`
returns `true`, on a board with a non-empty cell. -/
theorem canMove_iff_line_changes (G : List (List Int))
    (hne : ∃ i j, i < 4 ∧ j < 4 ∧ (G.getD i []).getD j 0 ≠ 0) :
    canMove G = true ↔
      (∃ i, i < 4 ∧ gameSlide (gridRow G i) ≠ gridRow G i) ∨
      (∃ i, i < 4 ∧ gameSlide (gridRow G i).reverse ≠ (gridRow G i).reverse) ∨
      (∃ j, j < 4 ∧ gameSlide (gridCol G j) ≠ gridCol G j) ∨
      (∃ j, j < 4 ∧ gameSlide (gridCol G j).reverse ≠ (gridCol G j).reverse) := by
  have hrow : ∀ i, gridRow G i =
      [(G.getD i []).getD 0 0, (G.getD i []).getD 1 0, (G.getD i []).getD 2 0,
        (G.getD i []).getD 3 0] := fun _ => rfl
  have hrowr : ∀ i, (gridRow G i).reverse =
      [(G.getD i []).getD 3 0, (G.getD i []).getD 2 0, (G.getD i []).getD 1 0,
        (G.getD i []).getD 0 0] := fun _ => rfl
  have hcol : ∀ j, gridCol G j =
      [(G.getD 0 []).getD j 0, (G.getD 1 []).getD j 0, (G.getD 2 []).getD j 0,
        (G.getD 3 []).getD j 0] := fun _ => rfl
  have hcolr : ∀ j, (gridCol G j).reverse =
      [(G.getD 3 []).getD j 0, (G.getD 2 []).getD j 0, (G.getD 1 []).getD j 0,
        (G.getD 0 []).getD j 0] := fun _ => rfl
  have hzero : (∃ i j, i < 4 ∧ j < 4 ∧ (G.getD i []).getD j 0 = 0) →
      (∃ i, i < 4 ∧ gameSlide (gridRow G i) ≠ gridRow G i) ∨
      (∃ i, i < 4 ∧ gameSlide (gridRow G i).reverse ≠ (gridRow G i).reverse) ∨
      (∃ j, j < 4 ∧ gameSlide (gridCol G j) ≠ gridCol G j) ∨
      (∃ j, j < 4 ∧ gameSlide (gridCol G j).reverse ≠ (gridCol G j).reverse) := by
    rintro ⟨i0, j0, hi0, hj0, e0⟩
    obtain ⟨i1, j1, hi1, hj1, e1⟩ := hne
    by_cases hfull : ∃ j, j < 4 ∧ (G.getD i0 []).getD j 0 ≠ 0
    · obtain ⟨j, hj, ej⟩ := hfull
      obtain ⟨m0, m1⟩ := mixed_of_index (fun k => (G.getD i0 []).getD k 0) j0 j hj0 hj e0 ej
      rcases gameSlide_mixed _ _ _ _ m0 m1 with h | h
      · exact Or.inl ⟨i0, hi0, by rw [hrow]; exact h⟩
      · exact Or.inr (Or.inl ⟨i0, hi0, by rw [hrowr]; exact h⟩)
    · push_neg at hfull
      obtain ⟨m0, m1⟩ := mixed_of_index (fun k => (G.getD k []).getD j1 0) i0 i1 hi0 hi1
        (hfull j1 hj1) e1
      rcases gameSlide_mixed _ _ _ _ m0 m1 with h | h
      · exact Or.inr (Or.inr (Or.inl ⟨j1, hj1, by rw [hcol]; exact h⟩))
      · exact Or.inr (Or.inr (Or.inr ⟨j1, hj1, by rw [hcolr]; exact h⟩))
  rw [canMove_iff]
  constructor
  · intro h
    by_cases hz : ∃ i j, i < 4 ∧ j < 4 ∧ (G.getD i []).getD j 0 = 0
    · exact hzero hz
    · push_neg at hz
      rcases h with h | ⟨i, j, hi, hj, e⟩ | ⟨i, j, hi, hj, e⟩
      · exact absurd h (by push_neg; exact hz)
      · left
        refine ⟨i, hi, ?_⟩
        rw [hrow]
        exact gameSlide_equal _ _ _ _
          (equal_at_index (fun k => (G.getD i []).getD k 0) j hj e (hz i j hi (by omega)))
      · right; right; left
        refine ⟨j, hj, ?_⟩
        rw [hcol]
        exact gameSlide_equal _ _ _ _
          (equal_at_index (fun k => (G.getD k []).getD j 0) i hi e (hz i j (by omega) hj))
  · intro h
    rcases h with ⟨i, hi, h⟩ | ⟨i, hi, h⟩ | ⟨j, hj, h⟩ | ⟨j, hj, h⟩
    · rw [hrow] at h
      rcases gameSlide_changed _ _ _ _ h with hz | he
      · obtain ⟨p, hp, e⟩ := zero_of_index (fun k => (G.getD i []).getD k 0) hz
        exact Or.inl ⟨i, p, hi, hp, e⟩
      · obtain ⟨p, hp, e⟩ := equal_of_index (fun k => (G.getD i []).getD k 0) he
        exact Or.inr (Or.inl ⟨i, p, hi, hp, e⟩)
    · rw [hrowr] at h
      rcases gameSlide_changed _ _ _ _ h with hz | he
      · obtain ⟨p, hp, e⟩ := zero_of_index (fun k => (G.getD i []).getD k 0)
          (by rcases hz with hz | hz | hz | hz
              · exact Or.inr (Or.inr (Or.inr hz))
              · exact Or.inr (Or.inr (Or.inl hz))
              · exact Or.inr (Or.inl hz)
              · exact Or.inl hz)
        exact Or.inl ⟨i, p, hi, hp, e⟩
      · obtain ⟨p, hp, e⟩ := equal_of_index (fun k => (G.getD i []).getD k 0)
          (by rcases he with he | he | he
              · exact Or.inr (Or.inr he.symm)
              · exact Or.inr (Or.inl he.symm)
              · exact Or.inl he.symm)
        exact Or.inr (Or.inl ⟨i, p, hi, hp, e⟩)
    · rw [hcol] at h
      rcases gameSlide_changed _ _ _ _ h with hz | he
      · obtain ⟨p, hp, e⟩ := zero_of_index (fun k => (G.getD k []).getD j 0) hz
        exact Or.inl ⟨p, j, hp, hj, e⟩
      · obtain ⟨p, hp, e⟩ := equal_of_index (fun k => (G.getD k []).getD j 0) he
        exact Or.inr (Or.inr ⟨p, j, hp, hj, e⟩)
    · rw [hcolr] at h
      rcases gameSlide_changed _ _ _ _ h with hz | he
      · obtain ⟨p, hp, e⟩ := zero_of_index (fun k => (G.getD k []).getD j 0)
          (by rcases hz with hz | hz | hz | hz
              · exact Or.inr (Or.inr (Or.inr hz))
              · exact Or.inr (Or.inr (Or.inl hz))
              · exact Or.inr (Or.inl hz)
              · exact Or.inl hz)
        exact Or.inl ⟨p, j, hp, hj, e⟩
      · obtain ⟨p, hp, e⟩ := equal_of_index (fun k => (G.getD k []).getD j 0)
          (by rcases he with he | he | he
              · exact Or.inr (Or.inr he.symm)
              · exact Or.inr (Or.inl he.symm)
              · exact Or.inl he.symm)
        exact Or.inr (Or.inr ⟨p, j, hp, hj, e⟩)

/-- C29: for every 4x4 game board with at least one non-empty cell (the
cells may hold any integers), `canMove` returns `true` if and only if at
least one of `moveLeft`, `moveRight`, `moveUp`, `moveDown` returns `true`;
and `canMove` returns `true` exactly if a cell is empty or two horizontal or
vertical neighbours are equal. -/
theorem canMove_iff_some_move (G : List (List Int)) (hlen : G.length = 4)
    (hrows : ∀ r ∈ G, r.length = 4)
    (hne : ∃ i j, i < 4 ∧ j < 4 ∧ (G.getD i []).getD j 0 ≠ 0) :
    (canMove G = true ↔
      (moveLeft G).2 = true ∨ (moveRight G).2 = true ∨ (moveUp G).2 = true ∨
        (moveDown G).2 = true) ∧
    (canMove G = true ↔
      (∃ i j, i < 4 ∧ j < 4 ∧ (G.getD i []).getD j 0 = 0) ∨
      (∃ i j, i < 4 ∧ j < 3 ∧ (G.getD i []).getD j 0 = (G.getD i []).getD (j + 1) 0) ∨
      (∃ i j, i < 3 ∧ j < 4 ∧ (G.getD i []).getD j 0 = (G.getD (i + 1) []).getD j 0)) := by
  refine ⟨?_, canMove_iff G⟩
  rw [move_flags G hlen hrows]
  exact canMove_iff_line_changes G hne

/-- Witness for C29: a full board without equal neighbours (no move is
legal, `canMove` is `false`). -/
theorem canMove_iff_some_move_witness :
    canMove [[2, 4, 2, 4], [4, 2, 4, 2], [2, 4, 2, 4], [4, 2, 4, 2]] = false ∧
    ¬ ((moveLeft [[2, 4, 2, 4], [4, 2, 4, 2], [2, 4, 2, 4], [4, 2, 4, 2]]).2 = true ∨
      (moveRight [[2, 4, 2, 4], [4, 2, 4, 2], [2, 4, 2, 4], [4, 2, 4, 2]]).2 = true ∨
      (moveUp [[2, 4, 2, 4], [4, 2, 4, 2], [2, 4, 2, 4], [4, 2, 4, 2]]).2 = true ∨
      (moveDown [[2, 4, 2, 4], [4, 2, 4, 2], [2, 4, 2, 4], [4, 2, 4, 2]]).2 = true) := by
  have hc : canMove [[2, 4, 2, 4], [4, 2, 4, 2], [2, 4, 2, 4], [4, 2, 4, 2]] = false := by
    decide
  have h := (canMove_iff_some_move [[2, 4, 2, 4], [4, 2, 4, 2], [2, 4, 2, 4], [4, 2, 4, 2]]
    rfl (by intro r hr; simp at hr; rcases hr with rfl | rfl | rfl | rfl <;> rfl)
    ⟨0, 0, by norm_num, by norm_num, by decide⟩).1
  refine ⟨hc, ?_⟩
  intro hm
  rw [h.2 hm] at hc
  exact absurd hc (by simp)

end Game2048
namespace AIEvaluator

/-! ## The audited run is followed by the cached run and by the bypassed run -/

theorem auditKey_ne (b k : Nat) (hk : k < 2 ^ 64) : auditKey b ≠ k := by
  unfold auditKey
  omega

theorem auditKey_ne_auditKey (b k : Nat) (h : k ≠ b) : auditKey b ≠ auditKey k := by
  unfold auditKey
  omega

theorem agree_moves {sa s : EvalState} (h : Agree sa s) (m n : Nat) :
    Agree { sa with moves_evaled := m } { s with moves_evaled := n } := h

theorem agree_maxdepth {sa s : EvalState} (h : Agree sa s) (m n : Int) :
    Agree { sa with maxdepth := m } { s with maxdepth := n } := h

theorem agree_deeper {sa s : EvalState} (h : Agree sa s) :
    Agree { sa with curdepth := sa.curdepth + 1 } { s with curdepth := s.curdepth + 1 } :=
  ⟨by simp only [h.1], h.2.1, h.2.2.1, h.2.2.2⟩

theorem agree_shallower {sa s : EvalState} (h : Agree sa s) :
    Agree { sa with curdepth := sa.curdepth - 1 } { s with curdepth := s.curdepth - 1 } :=
  ⟨by simp only [h.1], h.2.1, h.2.2.1, h.2.2.2⟩

theorem agree_hit {sa s : EvalState} (h : Agree sa s) :
    Agree { sa with cachehits := sa.cachehits + 1 } { s with cachehits := s.cachehits + 1 } :=
  ⟨h.1, h.2.1, by simp only [h.2.2.1], h.2.2.2⟩

/-- The cached run reads what the audited run reads for a 64-bit board. -/
theorem agree_lookup {sa s : EvalState} (h : Agree sa s) (b : Nat) (hb : b < 2 ^ 64) :
    cacheLookup s b = cacheLookup sa b := by
  unfold cacheLookup
  rw [h.1, h.2.2.2 b hb]

/-- The store of the cached run agrees with the store of the audited run. -/
theorem agree_store {sa s : EvalState} (h : Agree sa s) (b : Nat) (hb : b < 2 ^ 64)
    (res cp : ℚ) : Agree (auditStore sa b res cp) (cacheStore s b res) := by
  unfold auditStore cacheStore
  simp only
  by_cases hd : sa.curdepth < CACHE_DEPTH_LIMIT
  · have hd2 : s.curdepth < CACHE_DEPTH_LIMIT := by rw [h.1]; exact hd
    rw [if_pos hd, if_pos hd2, if_pos hd]
    refine ⟨h.1, h.2.1, h.2.2.1, ?_⟩
    intro k hk
    simp only
    rw [Function.update_noteq (auditKey_ne b k hk).symm]
    by_cases hkb : k = b
    · subst hkb
      rw [Function.update_same, Function.update_same, h.1]
    · rw [Function.update_noteq hkb, Function.update_noteq hkb]
      exact h.2.2.2 k hk
  · have hd2 : ¬ s.curdepth < CACHE_DEPTH_LIMIT := by rw [h.1]; exact hd
    rw [if_neg hd, if_neg hd2, if_neg hd]
    exact h

theorem auditStore_depth (state : EvalState) (board : Nat) (res cp : ℚ) :
    (auditStore state board res cp).curdepth = state.curdepth ∧
      (auditStore state board res cp).depth_limit = state.depth_limit := by
  unfold auditStore cacheStore
  simp only
  split_ifs <;> exact ⟨rfl, rfl⟩

/-- The store of the audited run keeps the table sound, if the bypassed run
computes the stored value for the board at the depth of the state with the
recorded `cprob`. -/
theorem soundTable_store (F : FloatEnv) (K D : Int) (state : EvalState) (board : Nat)
    (hb : board < 2 ^ 64) (res cp : ℚ) (hs : SoundTable F K D state.transTable)
    (hnew : ∀ (fuel : Nat) (su : EvalState), (fuel : Int) + state.curdepth = K →
      su.curdepth = state.curdepth → su.depth_limit = D →
      ∃ su2, tileNodeOn false F fuel su board cp = some (res, su2) ∧
        su2.curdepth = state.curdepth ∧ su2.depth_limit = D) :
    SoundTable F K D (auditStore state board res cp).transTable := by
  unfold auditStore cacheStore
  simp only
  by_cases hd : state.curdepth < CACHE_DEPTH_LIMIT
  · rw [if_pos hd, if_pos hd]
    intro b d v c2 hb2 he hg
    simp only at he hg
    rw [Function.update_noteq (auditKey_ne board b hb2).symm] at he
    by_cases hbb : b = board
    · subst hbb
      rw [Function.update_same] at he hg
      simp only [Option.some.injEq, Prod.mk.injEq] at he hg
      obtain ⟨rfl, rfl⟩ := he
      obtain ⟨-, rfl⟩ := hg
      exact hnew
    · rw [Function.update_noteq hbb] at he
      rw [Function.update_noteq (auditKey_ne_auditKey board b hbb).symm,
        Function.update_noteq (auditKey_ne b board hb)] at hg
      exact hs b d v c2 hb2 he hg
  · rw [if_neg hd, if_neg hd]
    exact hs

end AIEvaluator
namespace AIEvaluator

/-- One iteration of the loop of the move node: if the chance node of the
audited run is followed, the iteration is. -/
theorem moveNodeStep_tracks (F : FloatEnv) (K D c : Int)
    (fa fc fu : EvalState → Nat → ℚ → Option (ℚ × EvalState))
    (hnode : ∀ sa b cp v sa2, sa.curdepth = c → sa.depth_limit = D →
      SoundTable F K D sa.transTable → b < 2 ^ 64 → fa sa b cp = some (v, sa2) →
      Tracks F K D c sa sa2 v (fun s => fc s b cp) (fun su => fu su b cp))
    (board : Nat) (hb : board < 2 ^ 64) (cprob best : ℚ) (sa : EvalState) (move : Int)
    (best2 : ℚ) (sa2 : EvalState) (hc : sa.curdepth = c) (hD : sa.depth_limit = D)
    (hsound : SoundTable F K D sa.transTable)
    (h : moveNodeStep fa board cprob (some (best, sa)) move = some (best2, sa2)) :
    Tracks F K D c sa sa2 best2 (fun s => moveNodeStep fc board cprob (some (best, s)) move)
      (fun su => moveNodeStep fu board cprob (some (best, su)) move) := by
  unfold moveNodeStep at h
  simp only at h
  by_cases hne : board ≠ executeMove move board
  · rw [if_pos hne] at h
    cases hf : fa { sa with moves_evaled := (sa.moves_evaled + 1) % 2 ^ 64 }
        (executeMove move board) cprob with
    | none => rw [hf] at h; exact absurd h (by simp)
    | some r =>
      obtain ⟨v, sa3⟩ := r
      rw [hf] at h
      simp only [Option.some.injEq, Prod.mk.injEq] at h
      obtain ⟨hbest, hsa⟩ := h
      subst hsa
      obtain ⟨t1, t2, t3, t4, t5⟩ :=
        hnode { sa with moves_evaled := (sa.moves_evaled + 1) % 2 ^ 64 } _ _ _ _ hc hD hsound
          (executeMove_lt move board hb) hf
      refine ⟨t1, t2, t3, ?_, ?_⟩
      · intro s hs
        obtain ⟨s2, e, ha⟩ := t4 { s with moves_evaled := (s.moves_evaled + 1) % 2 ^ 64 }
          (agree_moves hs _ _)
        refine ⟨s2, ?_, ha⟩
        simp only at e
        unfold moveNodeStep
        simp only
        rw [if_pos hne, e, ← hbest]
      · intro su hsc hsD
        obtain ⟨su2, e, h1, h2⟩ := t5 { su with moves_evaled := (su.moves_evaled + 1) % 2 ^ 64 }
          hsc hsD
        refine ⟨su2, ?_, h1, h2⟩
        simp only at e
        unfold moveNodeStep
        simp only
        rw [if_pos hne, e, ← hbest]
  · rw [if_neg hne] at h
    simp only [Option.some.injEq, Prod.mk.injEq] at h
    obtain ⟨hbest, hsa⟩ := h
    subst hsa
    subst hbest
    refine ⟨hc, hD, hsound, ?_, ?_⟩
    · intro s hs
      refine ⟨{ s with moves_evaled := (s.moves_evaled + 1) % 2 ^ 64 }, ?_, agree_moves hs _ _⟩
      unfold moveNodeStep
      simp only
      rw [if_neg hne]
    · intro su hsc hsD
      refine ⟨{ su with moves_evaled := (su.moves_evaled + 1) % 2 ^ 64 }, ?_, hsc, hsD⟩
      unfold moveNodeStep
      simp only
      rw [if_neg hne]

/-- The move node: if the chance node of the audited run is followed one
level deeper, the move node is. -/
theorem scoreMoveNodeWith_tracks (F : FloatEnv) (K D c : Int)
    (fa fc fu : EvalState → Nat → ℚ → Option (ℚ × EvalState))
    (hnode : ∀ sa b cp v sa2, sa.curdepth = c + 1 → sa.depth_limit = D →
      SoundTable F K D sa.transTable → b < 2 ^ 64 → fa sa b cp = some (v, sa2) →
      Tracks F K D (c + 1) sa sa2 v (fun s => fc s b cp) (fun su => fu su b cp))
    (board : Nat) (hb : board < 2 ^ 64) (cprob : ℚ) (sa : EvalState) (v : ℚ)
    (sa2 : EvalState) (hc : sa.curdepth = c) (hD : sa.depth_limit = D)
    (hsound : SoundTable F K D sa.transTable)
    (h : scoreMoveNodeWith fa sa board cprob = some (v, sa2)) :
    Tracks F K D c sa sa2 v (fun s => scoreMoveNodeWith fc s board cprob)
      (fun su => scoreMoveNodeWith fu su board cprob) := by
  obtain ⟨⟨b1, s1⟩, ⟨b2, s2⟩, ⟨b3, s3⟩, ⟨b4, s4⟩, e1, e2, e3, e4, hv, hst⟩ :=
    moveNode_steps fa board cprob sa v sa2 h
  simp only at hv
  subst hv
  subst hst
  have t1 := moveNodeStep_tracks F K D (c + 1) fa fc fu hnode board hb cprob 0
    { sa with curdepth := sa.curdepth + 1 } 0 b1 s1 (by simp only [hc]) hD hsound e1
  have t2 := moveNodeStep_tracks F K D (c + 1) fa fc fu hnode board hb cprob b1 s1 1 b2 s2
    t1.1 t1.2.1 t1.2.2.1 e2
  have t3 := moveNodeStep_tracks F K D (c + 1) fa fc fu hnode board hb cprob b2 s2 2 b3 s3
    t2.1 t2.2.1 t2.2.2.1 e3
  have t4 := moveNodeStep_tracks F K D (c + 1) fa fc fu hnode board hb cprob b3 s3 3 v s4
    t3.1 t3.2.1 t3.2.2.1 e4
  refine ⟨?_, t4.2.1, t4.2.2.1, ?_, ?_⟩
  · simp only [t4.1]
    ring
  · intro s hs
    obtain ⟨x1, f1, a1⟩ := t1.2.2.2.1 { s with curdepth := s.curdepth + 1 } (agree_deeper hs)
    obtain ⟨x2, f2, a2⟩ := t2.2.2.2.1 x1 a1
    obtain ⟨x3, f3, a3⟩ := t3.2.2.2.1 x2 a2
    obtain ⟨x4, f4, a4⟩ := t4.2.2.2.1 x3 a3
    simp only at f1 f2 f3 f4
    refine ⟨{ x4 with curdepth := x4.curdepth - 1 }, ?_, agree_shallower a4⟩
    unfold scoreMoveNodeWith
    simp only [List.foldl_cons, List.foldl_nil, f1, f2, f3, f4]
  · intro su hsc hsD
    obtain ⟨x1, f1, c1, d1⟩ := t1.2.2.2.2 { su with curdepth := su.curdepth + 1 }
      (by simp only [hsc]) hsD
    obtain ⟨x2, f2, c2, d2⟩ := t2.2.2.2.2 x1 c1 d1
    obtain ⟨x3, f3, c3, d3⟩ := t3.2.2.2.2 x2 c2 d2
    obtain ⟨x4, f4, c4, d4⟩ := t4.2.2.2.2 x3 c3 d3
    simp only at f1 f2 f3 f4
    refine ⟨{ x4 with curdepth := x4.curdepth - 1 }, ?_, ?_, d4⟩
    · unfold scoreMoveNodeWith
      simp only [List.foldl_cons, List.foldl_nil, f1, f2, f3, f4]
    · simp only [c4]
      ring

end AIEvaluator
namespace AIEvaluator

/-- The loop of the chance node: if the move node of the audited run is
followed, the loop is. -/
theorem tileLoop_tracks (F : FloatEnv) (K D c : Int)
    (ga gc gu : EvalState → Nat → ℚ → Option (ℚ × EvalState))
    (hmove : ∀ sa b cp v sa2, sa.curdepth = c → sa.depth_limit = D →
      SoundTable F K D sa.transTable → b < 2 ^ 64 → ga sa b cp = some (v, sa2) →
      Tracks F K D c sa sa2 v (fun s => gc s b cp) (fun su => gu su b cp))
    (board : Nat) (hb : board < 2 ^ 64) (cprob : ℚ) (num_open : Nat) (fuel : Nat) :
    ∀ (sa : EvalState) (res : ℚ) (tmp tile_2 count : Nat) (r : ℚ) (sa2 : EvalState),
      tile_2 < 2 ^ 64 → sa.curdepth = c → sa.depth_limit = D →
      SoundTable F K D sa.transTable →
      tileLoop F ga board cprob num_open fuel sa res tmp tile_2 count = some (r, sa2) →
      Tracks F K D c sa sa2 r
        (fun s => tileLoop F gc board cprob num_open fuel s res tmp tile_2 count)
        (fun su => tileLoop F gu board cprob num_open fuel su res tmp tile_2 count) := by
  induction fuel with
  | zero =>
    intro sa res tmp tile_2 count r sa2 _ _ _ _ h
    rw [tileLoop] at h
    exact absurd h (by simp)
  | succ fuel ih =>
    intro sa res tmp tile_2 count r sa2 ht hc hD hsound h
    rw [tileLoop] at h
    by_cases hloop : tile_2 ≠ 0 ∧ count < num_open
    · rw [if_pos hloop] at h
      by_cases hz : tmp &&& 0xf = 0
      · rw [if_pos hz] at h
        cases e2 : ga sa (board ||| tile_2) (F.fmul cprob (F.rnd32 (9 / 10))) with
        | none => rw [e2] at h; exact absurd h (by simp)
        | some p2 =>
          obtain ⟨v2, sb⟩ := p2
          rw [e2] at h
          simp only at h
          cases e4 : ga sb (board ||| shl64 tile_2 1) (F.fmul cprob (F.rnd32 (1 / 10))) with
          | none => rw [e4] at h; exact absurd h (by simp)
          | some p4 =>
            obtain ⟨v4, sc⟩ := p4
            rw [e4] at h
            simp only at h
            have t2 := hmove sa _ _ _ _ hc hD hsound (Nat.or_lt_two_pow hb ht) e2
            have t4 := hmove sb _ _ _ _ t2.1 t2.2.1 t2.2.2.1
              (Nat.or_lt_two_pow hb (shl64_lt _ _)) e4
            have tr := ih sc _ _ _ _ r sa2 (shl64_lt _ _) t4.1 t4.2.1 t4.2.2.1 h
            refine ⟨tr.1, tr.2.1, tr.2.2.1, ?_, ?_⟩
            · intro s hs
              obtain ⟨x2, f2, a2⟩ := t2.2.2.2.1 s hs
              obtain ⟨x4, f4, a4⟩ := t4.2.2.2.1 x2 a2
              obtain ⟨xr, fr, ar⟩ := tr.2.2.2.1 x4 a4
              simp only at f2 f4 fr
              refine ⟨xr, ?_, ar⟩
              simp only
              rw [tileLoop, if_pos hloop, if_pos hz, f2]
              simp only
              rw [f4]
              exact fr
            · intro su hsc hsD
              obtain ⟨x2, f2, c2, d2⟩ := t2.2.2.2.2 su hsc hsD
              obtain ⟨x4, f4, c4, d4⟩ := t4.2.2.2.2 x2 c2 d2
              obtain ⟨xr, fr, cr, dr⟩ := tr.2.2.2.2 x4 c4 d4
              simp only at f2 f4 fr
              refine ⟨xr, ?_, cr, dr⟩
              simp only
              rw [tileLoop, if_pos hloop, if_pos hz, f2]
              simp only
              rw [f4]
              exact fr
      · rw [if_neg hz] at h
        have tr := ih sa _ _ _ _ r sa2 (shl64_lt _ _) hc hD hsound h
        refine ⟨tr.1, tr.2.1, tr.2.2.1, ?_, ?_⟩
        · intro s hs
          obtain ⟨xr, fr, ar⟩ := tr.2.2.2.1 s hs
          simp only at fr
          refine ⟨xr, ?_, ar⟩
          simp only
          rw [tileLoop, if_pos hloop, if_neg hz]
          exact fr
        · intro su hsc hsD
          obtain ⟨xr, fr, cr, dr⟩ := tr.2.2.2.2 su hsc hsD
          simp only at fr
          refine ⟨xr, ?_, cr, dr⟩
          simp only
          rw [tileLoop, if_pos hloop, if_neg hz]
          exact fr
    · rw [if_neg hloop] at h
      simp only [Option.some.injEq, Prod.mk.injEq] at h
      obtain ⟨hr, hs2⟩ := h
      subst hr
      subst hs2
      refine ⟨hc, hD, hsound, ?_, ?_⟩
      · intro s hs
        refine ⟨s, ?_, hs⟩
        simp only
        rw [tileLoop, if_neg hloop]
      · intro su hsc hsD
        refine ⟨su, ?_, hsc, hsD⟩
        simp only
        rw [tileLoop, if_neg hloop]

end AIEvaluator
namespace AIEvaluator

/-- The chance node: a result of the audited run is the result of the
cached run from every state that agrees, and of the bypassed run from every
state at the same depth. -/
theorem tileNodeAudit_tracks (F : FloatEnv) (K D : Int) (fuel : Nat) :
    ∀ (c : Int), (fuel : Int) + c = K →
    ∀ (sa : EvalState) (b : Nat) (cp v : ℚ) (sa2 : EvalState), sa.curdepth = c →
      sa.depth_limit = D → SoundTable F K D sa.transTable → b < 2 ^ 64 →
      tileNodeAudit F fuel sa b cp = some (v, sa2) →
      Tracks F K D c sa sa2 v (fun s => tileNodeOn true F fuel s b cp)
        (fun su => tileNodeOn false F fuel su b cp) := by
  induction fuel with
  | zero =>
    intro c _ sa b cp v sa2 _ _ _ _ h
    rw [tileNodeAudit] at h
    exact absurd h (by simp)
  | succ fuel ih =>
    intro c hK sa b cp v sa2 hc hD hsound hb h
    rw [tileNodeAudit] at h
    by_cases hleaf : cp < CPROB_THRESH_BASE F ∨ sa.curdepth ≥ sa.depth_limit
    · rw [if_pos hleaf] at h
      simp only [Option.some.injEq, Prod.mk.injEq] at h
      obtain ⟨hv, hs2⟩ := h
      subst hv
      subst hs2
      refine ⟨hc, hD, hsound, ?_, ?_⟩
      · intro s hs
        have hl : cp < CPROB_THRESH_BASE F ∨ s.curdepth ≥ s.depth_limit := by
          rw [hs.1, hs.2.1]
          exact hleaf
        refine ⟨{ s with maxdepth := max s.curdepth s.maxdepth }, ?_, agree_maxdepth hs _ _⟩
        simp only
        rw [tileNodeOn, if_pos hl]
      · intro su hsc hsD
        have hl : cp < CPROB_THRESH_BASE F ∨ su.curdepth ≥ su.depth_limit := by
          rw [hsc, hsD, ← hc, ← hD]
          exact hleaf
        refine ⟨{ su with maxdepth := max su.curdepth su.maxdepth }, ?_, hsc, hsD⟩
        simp only
        rw [tileNodeOn, if_pos hl]
    · rw [if_neg hleaf] at h
      have hlc : ∀ s : EvalState, s.curdepth = c → s.depth_limit = D →
          ¬ (cp < CPROB_THRESH_BASE F ∨ s.curdepth ≥ s.depth_limit) := by
        intro s h1 h2
        rw [h1, h2, ← hc, ← hD]
        exact hleaf
      cases hl : cacheLookup sa b with
      | some v0 =>
        rw [hl] at h
        simp only at h
        by_cases hex : ExactEntry sa b cp
        · rw [if_pos hex] at h
          simp only [Option.some.injEq, Prod.mk.injEq] at h
          obtain ⟨hv, hs2⟩ := h
          subst hv
          subst hs2
          have hentry : sa.transTable b = some (sa.curdepth, v0) := by
            have h1 := hex.1
            unfold cacheLookup at hl
            cases ht : sa.transTable b with
            | none => rw [ht] at h1; exact absurd h1 (by simp)
            | some entry =>
              rw [ht] at h1 hl
              simp only [Option.map_some', Option.some.injEq] at h1
              split_ifs at hl with ha
              simp only at hl
              rw [if_pos (le_of_eq h1)] at hl
              simp only [Option.some.injEq] at hl
              rw [← h1, ← hl]
          refine ⟨hc, hD, hsound, ?_, ?_⟩
          · intro s hs
            refine ⟨{ s with cachehits := s.cachehits + 1 }, ?_, agree_hit hs⟩
            have hls : lookupIf true s b = some v0 := by
              unfold lookupIf
              rw [if_pos rfl, agree_lookup hs b hb, hl]
            simp only
            rw [tileNodeOn, if_neg (hlc s (hs.1.trans hc) (hs.2.1.trans hD)), hls]
          · intro su hsc hsD
            obtain ⟨su2, e, h1, h2⟩ := hsound b sa.curdepth v0 cp hb hentry hex.2 (fuel + 1) su
              (by rw [hc]; exact hK) (hsc.trans hc.symm) hsD
            exact ⟨su2, e, h1.trans hc, h2⟩
        · rw [if_neg hex] at h
          exact absurd h (by simp)
      | none =>
        rw [hl] at h
        simp only at h
        by_cases hz : countEmpty b = 0
        · rw [if_pos hz] at h
          simp only [Option.some.injEq, Prod.mk.injEq] at h
          obtain ⟨hv, hs2⟩ := h
          subst hv
          subst hs2
          refine ⟨hc, hD, hsound, ?_, ?_⟩
          · intro s hs
            have hls : lookupIf true s b = none := by
              unfold lookupIf
              rw [if_pos rfl, agree_lookup hs b hb, hl]
            refine ⟨s, ?_, hs⟩
            simp only
            rw [tileNodeOn, if_neg (hlc s (hs.1.trans hc) (hs.2.1.trans hD)), hls]
            simp only
            rw [if_pos hz]
          · intro su hsc hsD
            refine ⟨su, ?_, hsc, hsD⟩
            simp only
            rw [tileNodeOn, if_neg (hlc su hsc hsD)]
            simp only [lookupIf, Bool.false_eq_true, if_false]
            rw [if_pos hz]
        · rw [if_neg hz] at h
          cases hloop : tileLoop F (scoreMoveNodeWith (tileNodeAudit F fuel)) b
              (F.fdiv cp (countEmpty b)) (countEmpty b) 17 sa 0 b 1 0 with
          | none => rw [hloop] at h; exact absurd h (by simp)
          | some p =>
            obtain ⟨res, sl⟩ := p
            rw [hloop] at h
            simp only [Option.some.injEq, Prod.mk.injEq] at h
            obtain ⟨hv, hs2⟩ := h
            have hK2 : (fuel : Int) + (c + 1) = K := by
              rw [← hK]
              push_cast
              ring
            have tr := tileLoop_tracks F K D c (scoreMoveNodeWith (tileNodeAudit F fuel))
              (scoreMoveNodeWith (tileNodeOn true F fuel))
              (scoreMoveNodeWith (tileNodeOn false F fuel))
              (fun sa b cp v sa2 h1 h2 h3 h4 h5 =>
                scoreMoveNodeWith_tracks F K D c (tileNodeAudit F fuel) (tileNodeOn true F fuel)
                  (tileNodeOn false F fuel) (ih (c + 1) hK2) b h4 cp sa v sa2 h1 h2 h3 h5)
              b hb (F.fdiv cp (countEmpty b)) (countEmpty b) 17 sa 0 b 1 0 res sl
              (by norm_num) hc hD hsound hloop
            have hbyp : ∀ su : EvalState, su.curdepth = c → su.depth_limit = D →
                ∃ su2, tileNodeOn false F (fuel + 1) su b cp = some (v, su2) ∧
                  su2.curdepth = c ∧ su2.depth_limit = D := by
              intro su hsc hsD
              obtain ⟨xr, fr, cr, dr⟩ := tr.2.2.2.2 su hsc hsD
              simp only at fr
              refine ⟨xr, ?_, cr, dr⟩
              rw [tileNodeOn, if_neg (hlc su hsc hsD)]
              simp only [lookupIf, Bool.false_eq_true, if_false]
              rw [if_neg hz, fr]
              simp only [storeIf, Bool.false_eq_true, if_false]
              rw [hv]
            subst hs2
            refine ⟨(auditStore_depth _ _ _ _).1.trans tr.1,
              (auditStore_depth _ _ _ _).2.trans tr.2.1, ?_, ?_, hbyp⟩
            · apply soundTable_store F K D sl b hb _ cp tr.2.2.1
              intro fuel2 su hf hsc hsD
              have hfe : fuel2 = fuel + 1 := by
                have h1 : (fuel2 : Int) + c = ((fuel + 1 : Nat) : Int) + c := by
                  rw [← tr.1, hf, ← hK, tr.1]
                exact Int.ofNat_inj.mp (by linarith)
              subst hfe
              rw [hv]
              obtain ⟨su2, e, h1, h2⟩ := hbyp su (hsc.trans tr.1) hsD
              exact ⟨su2, e, h1.trans tr.1.symm, h2⟩
            · intro s hs
              have hls : lookupIf true s b = none := by
                unfold lookupIf
                rw [if_pos rfl, agree_lookup hs b hb, hl]
              obtain ⟨xr, fr, ar⟩ := tr.2.2.2.1 s hs
              simp only at fr
              refine ⟨cacheStore xr b v, ?_, ?_⟩
              · simp only
                rw [tileNodeOn, if_neg (hlc s (hs.1.trans hc) (hs.2.1.trans hD)), hls]
                simp only
                rw [if_neg hz, fr]
                simp only [storeIf, if_true]
                rw [hv]
              · rw [← hv]
                exact agree_store ar b hb _ cp

end AIEvaluator
namespace AIEvaluator

/-- The empty table is sound. -/
theorem soundTable_empty (F : FloatEnv) (K D : Int) : SoundTable F K D (fun _ => none) := by
  intro b d v cp _ he
  exact absurd he (by simp)

/-- A top-level move of the audited run: the cached run from a table that
agrees returns the same score and hit count, the bypassed run from every
table returns the same score. -/
theorem topLevelAudit_tracks (F : FloatEnv) (board : Nat) (hb : board < 2 ^ 64) (move : Int)
    (ta : Nat → Option (Int × ℚ)) (s : ℚ) (ta2 : Nat → Option (Int × ℚ)) (h : Int)
    (hsound : SoundTable F
      (((max 3 (((distinctValueCount board : Nat) : Int) - 2)).toNat + 1 : Nat) : Int)
      (max 3 (((distinctValueCount board : Nat) : Int) - 2)) ta)
    (ha : topLevelAudit F ta board move = some (s, ta2, h)) :
    SoundTable F
        (((max 3 (((distinctValueCount board : Nat) : Int) - 2)).toNat + 1 : Nat) : Int)
        (max 3 (((distinctValueCount board : Nat) : Int) - 2)) ta2 ∧
      (∀ tc : Nat → Option (Int × ℚ), (∀ k, k < 2 ^ 64 → tc k = ta k) →
        ∃ tc2, topLevelOn true F tc board move = some (s, tc2, h) ∧
          ∀ k, k < 2 ^ 64 → tc2 k = ta2 k) ∧
      ∀ tu : Nat → Option (Int × ℚ), ∃ tu2 hu, topLevelOn false F tu board move =
        some (s, tu2, hu) := by
  unfold topLevelAudit at ha
  simp only at ha
  by_cases hm : board = executeMove move board
  · rw [if_pos hm] at ha
    simp only [Option.some.injEq, Prod.mk.injEq] at ha
    obtain ⟨hs, ht, hh⟩ := ha
    subst hs
    subst ht
    subst hh
    refine ⟨hsound, ?_, ?_⟩
    · intro tc htc
      refine ⟨tc, ?_, htc⟩
      unfold topLevelOn
      simp only
      rw [if_pos hm]
    · intro tu
      refine ⟨tu, 0, ?_⟩
      unfold topLevelOn
      simp only
      rw [if_pos hm]
  · rw [if_neg hm, (countDistinctTiles_spec board hb).1] at ha
    simp only at ha
    cases hn : tileNodeAudit F ((max 3 (((distinctValueCount board : Nat) : Int) - 2)).toNat + 1)
        { transTable := ta, maxdepth := 0, curdepth := 0, cachehits := 0, moves_evaled := 0,
          depth_limit := max 3 (((distinctValueCount board : Nat) : Int) - 2) }
        (executeMove move board) 1 with
    | none => rw [hn] at ha; exact absurd ha (by simp)
    | some p =>
      obtain ⟨v, sa2⟩ := p
      rw [hn] at ha
      simp only [Option.some.injEq, Prod.mk.injEq] at ha
      obtain ⟨hs, ht, hh⟩ := ha
      have tr := tileNodeAudit_tracks F _ (max 3 (((distinctValueCount board : Nat) : Int) - 2))
        ((max 3 (((distinctValueCount board : Nat) : Int) - 2)).toNat + 1) 0 (add_zero _)
        _ _ _ _ _ rfl rfl hsound (executeMove_lt move board hb) hn
      rw [← ht]
      refine ⟨tr.2.2.1, ?_, ?_⟩
      · intro tc htc
        obtain ⟨s2, e, hag⟩ := tr.2.2.2.1
          { transTable := tc, maxdepth := 0, curdepth := 0, cachehits := 0, moves_evaled := 0,
            depth_limit := max 3 (((distinctValueCount board : Nat) : Int) - 2) }
          ⟨rfl, rfl, rfl, htc⟩
        simp only at e
        refine ⟨s2.transTable, ?_, hag.2.2.2⟩
        unfold topLevelOn
        simp only
        rw [if_neg hm, (countDistinctTiles_spec board hb).1]
        simp only
        rw [e]
        simp only
        rw [hs, hag.2.2.1, hh]
      · intro tu
        obtain ⟨s2, e, -, -⟩ := tr.2.2.2.2
          { transTable := tu, maxdepth := 0, curdepth := 0, cachehits := 0, moves_evaled := 0,
            depth_limit := max 3 (((distinctValueCount board : Nat) : Int) - 2) } rfl rfl
        simp only at e
        refine ⟨s2.transTable, s2.cachehits, ?_⟩
        unfold topLevelOn
        simp only
        rw [if_neg hm, (countDistinctTiles_spec board hb).1]
        simp only
        rw [e]
        simp only
        rw [hs]

/-- One iteration of the loop of `evaluateAllMoves` in the audited run. -/
theorem allMovesStepAudit_tracks (F : FloatEnv) (board : Nat) (hb : board < 2 ^ 64)
    (move : Nat) (sc : List ℚ) (ta : Nat → Option (Int × ℚ)) (h : Int) (sc2 : List ℚ)
    (ta2 : Nat → Option (Int × ℚ)) (h2 : Int)
    (hsound : SoundTable F
      (((max 3 (((distinctValueCount board : Nat) : Int) - 2)).toNat + 1 : Nat) : Int)
      (max 3 (((distinctValueCount board : Nat) : Int) - 2)) ta)
    (ha : allMovesStepAudit F board (some (sc, ta, h)) move = some (sc2, ta2, h2)) :
    SoundTable F
        (((max 3 (((distinctValueCount board : Nat) : Int) - 2)).toNat + 1 : Nat) : Int)
        (max 3 (((distinctValueCount board : Nat) : Int) - 2)) ta2 ∧
      (∀ tc : Nat → Option (Int × ℚ), (∀ k, k < 2 ^ 64 → tc k = ta k) →
        ∃ tc2, allMovesStepOn true F board (some (sc, tc, h)) move = some (sc2, tc2, h2) ∧
          ∀ k, k < 2 ^ 64 → tc2 k = ta2 k) ∧
      ∀ (tu : Nat → Option (Int × ℚ)) (hu : Int), ∃ tu2 hu2,
        allMovesStepOn false F board (some (sc, tu, hu)) move = some (sc2, tu2, hu2) := by
  unfold allMovesStepAudit at ha
  simp only at ha
  cases ht : topLevelAudit F ta board move with
  | none => rw [ht] at ha; exact absurd ha (by simp)
  | some p =>
    obtain ⟨s, ta3, h3⟩ := p
    rw [ht] at ha
    simp only [Option.some.injEq, Prod.mk.injEq] at ha
    obtain ⟨hs, hta, hh⟩ := ha
    subst hs
    subst hta
    subst hh
    obtain ⟨t1, t2, t3⟩ := topLevelAudit_tracks F board hb move ta s ta3 h3 hsound ht
    refine ⟨t1, ?_, ?_⟩
    · intro tc htc
      obtain ⟨tc2, e, hag⟩ := t2 tc htc
      refine ⟨tc2, ?_, hag⟩
      unfold allMovesStepOn
      simp only
      rw [e]
    · intro tu hu
      obtain ⟨tu2, hu2, e⟩ := t3 tu
      refine ⟨tu2, hu + hu2, ?_⟩
      unfold allMovesStepOn
      simp only
      rw [e]

/-- The evaluation of the audited run: the cached run returns the same
scores and hit count, the bypassed run the same scores. -/
theorem allMovesAudit_tracks (F : FloatEnv) (grid : List (List Int)) (scores : List ℚ)
    (hits : Int) (h : allMovesAudit F grid = some (scores, hits)) :
    allMovesOn true F grid = some (scores, hits) ∧
      (allMovesOn false F grid).map Prod.fst = some scores := by
  unfold allMovesAudit at h
  simp only [List.foldl_cons, List.foldl_nil] at h
  have hb := convertToBitboard_lt grid
  cases e0 : allMovesStepAudit F (convertToBitboard grid)
      (some (List.replicate 4 0, fun _ => none, 0)) 0 with
  | none => rw [e0] at h; simp [allMovesStepAudit] at h
  | some p0 =>
    obtain ⟨c0, t0, h0⟩ := p0
    rw [e0] at h
    cases e1 : allMovesStepAudit F (convertToBitboard grid) (some (c0, t0, h0)) 1 with
    | none => rw [e1] at h; simp [allMovesStepAudit] at h
    | some p1 =>
      obtain ⟨c1, t1, h1⟩ := p1
      rw [e1] at h
      cases e2 : allMovesStepAudit F (convertToBitboard grid) (some (c1, t1, h1)) 2 with
      | none => rw [e2] at h; simp [allMovesStepAudit] at h
      | some p2 =>
        obtain ⟨c2, t2, h2⟩ := p2
        rw [e2] at h
        cases e3 : allMovesStepAudit F (convertToBitboard grid) (some (c2, t2, h2)) 3 with
        | none => rw [e3] at h; simp at h
        | some p3 =>
          obtain ⟨c3, t3, h3⟩ := p3
          rw [e3] at h
          simp only [Option.some.injEq, Prod.mk.injEq] at h
          obtain ⟨hsc, hh⟩ := h
          subst hsc
          subst hh
          obtain ⟨s0, a0, u0⟩ := allMovesStepAudit_tracks F _ hb 0 _ _ _ _ _ _
            (soundTable_empty F _ _) e0
          obtain ⟨s1, a1, u1⟩ := allMovesStepAudit_tracks F _ hb 1 _ _ _ _ _ _ s0 e1
          obtain ⟨s2, a2, u2⟩ := allMovesStepAudit_tracks F _ hb 2 _ _ _ _ _ _ s1 e2
          obtain ⟨-, a3, u3⟩ := allMovesStepAudit_tracks F _ hb 3 _ _ _ _ _ _ s2 e3
          constructor
          · obtain ⟨x0, f0, g0⟩ := a0 (fun _ => none) (fun _ _ => rfl)
            obtain ⟨x1, f1, g1⟩ := a1 x0 g0
            obtain ⟨x2, f2, g2⟩ := a2 x1 g1
            obtain ⟨x3, f3, -⟩ := a3 x2 g2
            unfold allMovesOn
            simp only [List.foldl_cons, List.foldl_nil]
            rw [f0, f1, f2, f3]
          · obtain ⟨x0, y0, f0⟩ := u0 (fun _ => none) 0
            obtain ⟨x1, y1, f1⟩ := u1 x0 y0
            obtain ⟨x2, y2, f2⟩ := u2 x1 y1
            obtain ⟨x3, y3, f3⟩ := u3 x2 y2
            unfold allMovesOn
            simp only [List.foldl_cons, List.foldl_nil]
            rw [f0, f1, f2, f3]
            rfl

end AIEvaluator
namespace AIEvaluator

/-! ## Rules for evaluating the audited search node by node -/

theorem auditStore_eq (state : EvalState) (board : Nat) (res cprob : ℚ) :
    auditStore state board res cprob =
      cacheStore (cacheStore state board res) (auditKey board) cprob := rfl

theorem atHits_store {d D : Int} {E : List (Nat × (Int × ℚ))} {n : Int} {st : EvalState}
    (h : AtHits d D E n st) (hd : d < 15) (b : Nat) (v cp : ℚ) :
    AtHits d D ((auditKey b, (d, cp)) :: (b, (d, v)) :: E) n (auditStore st b v cp) := by
  rw [auditStore_eq]
  refine ⟨(h.1.store hd b v).store hd (auditKey b) cp, ?_⟩
  rw [(cacheStore_hits _ _ _).2.2.1, (cacheStore_hits _ _ _).2.2.1]
  exact h.2

/-- A direction that leaves the board. -/
theorem stepHits_unchanged (f : EvalState → Nat → ℚ → Option (ℚ × EvalState)) (d D : Int)
    (b : Nat) (cp : ℚ) (move : Int) (best : ℚ) (E : List (Nat × (Int × ℚ))) (n : Int)
    (h : executeMove move b = b) : StepHits f d D b cp move best E n best E n := by
  intro st hst
  unfold moveNodeStep
  simp only [h, ne_eq, not_true_eq_false, if_false]
  exact ⟨_, rfl, hst⟩

/-- A direction that changes the board. -/
theorem stepHits_changed (f : EvalState → Nat → ℚ → Option (ℚ × EvalState)) (d D : Int)
    (b : Nat) (cp : ℚ) (move : Int) (best : ℚ) (E : List (Nat × (Int × ℚ))) (n : Int)
    (nb : Nat) (w : ℚ) (E2 : List (Nat × (Int × ℚ))) (n2 : Int) (best2 : ℚ)
    (h : executeMove move b = nb) (hne : b ≠ nb) (hnode : NodeHits f d D E n nb cp w E2 n2)
    (hbest : (if best < w then w else best) = best2) :
    StepHits f d D b cp move best E n best2 E2 n2 := by
  intro st hst
  obtain ⟨st2, e, hst2⟩ := hnode { st with moves_evaled := (st.moves_evaled + 1) % 2 ^ 64 } hst
  unfold moveNodeStep
  simp only [h, ne_eq, hne, not_false_eq_true, if_true, e, hbest]
  exact ⟨st2, rfl, hst2⟩

/-- The move node from its four directions. -/
theorem nodeHits_move (f : EvalState → Nat → ℚ → Option (ℚ × EvalState)) (d D : Int)
    (b : Nat) (cp : ℚ) (E0 E1 E2 E3 E4 : List (Nat × (Int × ℚ))) (n0 n1 n2 n3 n4 : Int)
    (b1 b2 b3 b4 : ℚ)
    (h0 : StepHits f (d + 1) D b cp 0 0 E0 n0 b1 E1 n1)
    (h1 : StepHits f (d + 1) D b cp 1 b1 E1 n1 b2 E2 n2)
    (h2 : StepHits f (d + 1) D b cp 2 b2 E2 n2 b3 E3 n3)
    (h3 : StepHits f (d + 1) D b cp 3 b3 E3 n3 b4 E4 n4)
    (best : ℚ) (hbest : b4 = best) :
    NodeHits (scoreMoveNodeWith f) d D E0 n0 b cp best E4 n4 := by
  subst hbest
  intro st hst
  have hst0 : AtHits (d + 1) D E0 n0 { st with curdepth := st.curdepth + 1 } :=
    ⟨⟨by simp [hst.1.1], hst.1.2.1, hst.1.2.2⟩, hst.2⟩
  obtain ⟨s1, e1, hs1⟩ := h0 _ hst0
  obtain ⟨s2, e2, hs2⟩ := h1 _ hs1
  obtain ⟨s3, e3, hs3⟩ := h2 _ hs2
  obtain ⟨s4, e4, hs4⟩ := h3 _ hs3
  unfold scoreMoveNodeWith
  simp only [List.foldl_cons, List.foldl_nil, e1, e2, e3, e4]
  exact ⟨_, rfl, ⟨by simp [hs4.1.1], hs4.1.2.1, hs4.1.2.2⟩, hs4.2⟩

theorem foldHits_nil (F : FloatEnv) (g : EvalState → Nat → ℚ → Option (ℚ × EvalState))
    (d D : Int) (b : Nat) (cp res : ℚ) (E : List (Nat × (Int × ℚ))) (n : Int) :
    FoldHits F g d D b cp [] res E n res E n :=
  fun st hst => ⟨st, rfl, hst⟩

/-- One empty cell: the spawn of a 2 and the spawn of a 4. -/
theorem foldHits_cons (F : FloatEnv) (g : EvalState → Nat → ℚ → Option (ℚ × EvalState))
    (d D : Int) (b : Nat) (cp : ℚ) (k : Nat) (rest : List Nat) (res : ℚ)
    (E E1 E2 E3 : List (Nat × (Int × ℚ))) (n n1 n2 n3 : Int) (nb2 nb4 : Nat)
    (c2 c4 v2 v4 res2 r : ℚ)
    (hb2 : b ||| 2 ^ (4 * k) % 2 ^ 64 = nb2) (hb4 : b ||| shl64 (2 ^ (4 * k) % 2 ^ 64) 1 = nb4)
    (hc2 : F.fmul cp (F.rnd32 (9 / 10)) = c2) (hc4 : F.fmul cp (F.rnd32 (1 / 10)) = c4)
    (h2 : NodeHits g d D E n nb2 c2 v2 E1 n1) (h4 : NodeHits g d D E1 n1 nb4 c4 v4 E2 n2)
    (hres : F.fadd (F.fadd res (F.fmul v2 (F.rnd32 (9 / 10)))) (F.fmul v4 (F.rnd32 (1 / 10))) =
      res2)
    (hrest : FoldHits F g d D b cp rest res2 E2 n2 r E3 n3) :
    FoldHits F g d D b cp (k :: rest) res E n r E3 n3 := by
  intro st hst
  obtain ⟨s2, e2, hs2⟩ := h2 st hst
  obtain ⟨s4, e4, hs4⟩ := h4 s2 hs2
  obtain ⟨s5, e5, hs5⟩ := hrest s4 hs4
  rw [List.foldl_cons, spawnStep]
  simp only [hb2, hb4, hc2, hc4, e2, e4, hres]
  exact ⟨s5, e5, hs5⟩

/-- A leaf returns the static heuristic. -/
theorem nodeHits_leaf (F : FloatEnv) (fuel : Nat) (d D : Int)
    (E : List (Nat × (Int × ℚ))) (n : Int) (b : Nat) (cp v : ℚ)
    (hleaf : cp < CPROB_THRESH_BASE F ∨ d ≥ D) (hv : scoreHeurBoard F b = v) :
    NodeHits (tileNodeAudit F (fuel + 1)) d D E n b cp v E n := by
  intro st hst
  rw [tileNodeAudit, if_pos (by rw [hst.1.1, hst.1.2.1]; exact hleaf), hv]
  exact ⟨_, rfl, hst⟩

theorem cacheLookup_hit (d D : Int) (E : List (Nat × (Int × ℚ))) (st : EvalState) (b : Nat)
    (d2 : Int) (v : ℚ) (hst : At d D E st) (hd : d < 15) (hl : E.lookup b = some (d2, v))
    (hle : d2 ≤ d) : cacheLookup st b = some v := by
  have h := lookupIf_hit d D E st b d2 v hst hd hl hle
  unfold lookupIf at h
  rw [if_pos rfl] at h
  exact h

theorem cacheLookup_miss (d D : Int) (E : List (Nat × (Int × ℚ))) (st : EvalState) (b : Nat)
    (hst : At d D E st)
    (hmiss : E.lookup b = none ∨ ∃ d2 v2, E.lookup b = some (d2, v2) ∧ d < d2) :
    cacheLookup st b = none := by
  have h := lookupIf_miss true d D E st b hst (Or.inr hmiss)
  unfold lookupIf at h
  rw [if_pos rfl] at h
  exact h

/-- An exact cache hit returns the value of the entry and is counted. -/
theorem nodeHits_hit (F : FloatEnv) (fuel : Nat) (d D : Int) (E : List (Nat × (Int × ℚ)))
    (n : Int) (b : Nat) (cp v : ℚ) (n2 : Int)
    (hnl : ¬ (cp < CPROB_THRESH_BASE F ∨ d ≥ D)) (hd : d < 15)
    (hl : E.lookup b = some (d, v)) (hg : E.lookup (auditKey b) = some (d, cp))
    (hn : n + 1 = n2) :
    NodeHits (tileNodeAudit F (fuel + 1)) d D E n b cp v E n2 := by
  intro st hst
  have hex : ExactEntry st b cp := by
    unfold ExactEntry
    rw [hst.1.2.2 b, hst.1.2.2 (auditKey b), hl, hg, hst.1.1]
    exact ⟨rfl, rfl⟩
  rw [tileNodeAudit, if_neg (by rw [hst.1.1, hst.1.2.1]; exact hnl),
    cacheLookup_hit d D E st b d v hst.1 hd hl (le_refl d)]
  simp only
  rw [if_pos hex]
  refine ⟨_, rfl, hst.1, ?_⟩
  simp only [hst.2, hn]

/-- A board without an empty cell below the leaves: the value is 0. -/
theorem nodeHits_zero (F : FloatEnv) (fuel : Nat) (d D : Int)
    (E : List (Nat × (Int × ℚ))) (n : Int) (b : Nat) (cp : ℚ)
    (hnl : ¬ (cp < CPROB_THRESH_BASE F ∨ d ≥ D))
    (hmiss : E.lookup b = none ∨ ∃ d2 v2, E.lookup b = some (d2, v2) ∧ d < d2)
    (hz : countEmpty b = 0) :
    NodeHits (tileNodeAudit F (fuel + 1)) d D E n b cp 0 E n := by
  intro st hst
  rw [tileNodeAudit, if_neg (by rw [hst.1.1, hst.1.2.1]; exact hnl),
    cacheLookup_miss d D E st b hst.1 hmiss]
  simp only [hz, if_true]
  exact ⟨_, rfl, hst⟩

/-- The average over the spawns, stored in the cache with its audit
record. -/
theorem nodeHits_expand (F : FloatEnv) (fuel : Nat) (d D : Int)
    (E E1 : List (Nat × (Int × ℚ))) (n n1 : Int) (b : Nat) (cp : ℚ) (m : Nat)
    (cells : List Nat) (cp2 r v : ℚ)
    (hnl : ¬ (cp < CPROB_THRESH_BASE F ∨ d ≥ D)) (hd : d < 15)
    (hmiss : E.lookup b = none ∨ ∃ d2 v2, E.lookup b = some (d2, v2) ∧ d < d2)
    (hn : countEmpty b = m) (hn0 : m ≠ 0)
    (hcells : (List.range 16).filter (fun i => decide (cell b i = 0)) = cells)
    (hcp : F.fdiv cp m = cp2)
    (hfold : FoldHits F (scoreMoveNodeWith (tileNodeAudit F fuel)) d D b cp2 cells 0 E n r E1
      n1)
    (hv : F.fdiv r m = v) :
    NodeHits (tileNodeAudit F (fuel + 1)) d D E n b cp v
      ((auditKey b, (d, cp)) :: (b, (d, v)) :: E1) n1 := by
  intro st hst
  obtain ⟨st2, e, hst2⟩ := hfold st hst
  rw [tileNodeAudit, if_neg (by rw [hst.1.1, hst.1.2.1]; exact hnl),
    cacheLookup_miss d D E st b hst.1 hmiss]
  simp only [hn, hn0, if_false]
  rw [← hn, tileLoop_empty_cells F _ b _ st (by rw [hn]; exact hn0), hcells, hn, hcp, e]
  simp only [hv]
  exact ⟨_, rfl, atHits_store hst2 hd b v cp⟩

/-- A top-level move that leaves the board scores 0, leaves the table and
counts no hit. -/
theorem topLevelAudit_unchanged (F : FloatEnv) (board : Nat) (move : Int)
    (E : List (Nat × (Int × ℚ))) (h : executeMove move board = board) :
    ∀ t : Nat → Option (Int × ℚ), (∀ x, t x = E.lookup x) →
      ∃ t2, topLevelAudit F t board move = some (0, t2, 0) ∧ ∀ x, t2 x = E.lookup x := by
  intro t ht
  unfold topLevelAudit
  simp only [h, if_true]
  exact ⟨t, rfl, ht⟩

/-- A top-level move that changes the board: the value of the chance node
at depth 0 plus `1e-6`, and the hits that the search counted. -/
theorem topLevelAudit_changed (F : FloatEnv) (board : Nat) (move : Int)
    (E E2 : List (Nat × (Int × ℚ))) (n : Int) (nb : Nat) (k D : Int) (fuel : Nat) (v s : ℚ)
    (h : executeMove move board = nb) (hne : board ≠ nb)
    (hk : countDistinctTiles board = some k) (hD : max 3 (k - 2) = D)
    (hfuel : D.toNat + 1 = fuel)
    (hnode : NodeHits (tileNodeAudit F fuel) 0 D E 0 nb 1 v E2 n)
    (hs : F.rnd32 (F.rnd64 (v + F.rnd64 (1 / 1000000))) = s) :
    ∀ t : Nat → Option (Int × ℚ), (∀ x, t x = E.lookup x) →
      ∃ t2, topLevelAudit F t board move = some (s, t2, n) ∧ ∀ x, t2 x = E2.lookup x := by
  intro t ht
  obtain ⟨st2, e, hst2⟩ := hnode
    { transTable := t, maxdepth := 0, curdepth := 0, cachehits := 0, moves_evaled := 0,
      depth_limit := D } ⟨⟨rfl, rfl, ht⟩, rfl⟩
  unfold topLevelAudit
  simp only [h, hne, if_false, hk, hD, hfuel, e, hs, hst2.2]
  exact ⟨_, rfl, hst2.1.2.2⟩

/-- The four scores and the number of hits from the four top-level moves. -/
theorem allMovesAudit_scores (F : FloatEnv) (grid : List (List Int)) (board : Nat)
    (E1 E2 E3 E4 : List (Nat × (Int × ℚ))) (s0 s1 s2 s3 : ℚ) (n0 n1 n2 n3 hits : Int)
    (hb : convertToBitboard grid = board)
    (h0 : ∀ t : Nat → Option (Int × ℚ), (∀ x, t x = ([] : List (Nat × (Int × ℚ))).lookup x) →
      ∃ t2, topLevelAudit F t board 0 = some (s0, t2, n0) ∧ ∀ x, t2 x = E1.lookup x)
    (h1 : ∀ t : Nat → Option (Int × ℚ), (∀ x, t x = E1.lookup x) →
      ∃ t2, topLevelAudit F t board 1 = some (s1, t2, n1) ∧ ∀ x, t2 x = E2.lookup x)
    (h2 : ∀ t : Nat → Option (Int × ℚ), (∀ x, t x = E2.lookup x) →
      ∃ t2, topLevelAudit F t board 2 = some (s2, t2, n2) ∧ ∀ x, t2 x = E3.lookup x)
    (h3 : ∀ t : Nat → Option (Int × ℚ), (∀ x, t x = E3.lookup x) →
      ∃ t2, topLevelAudit F t board 3 = some (s3, t2, n3) ∧ ∀ x, t2 x = E4.lookup x)
    (hh : 0 + n0 + n1 + n2 + n3 = hits) :
    allMovesAudit F grid = some ([s0, s1, s2, s3], hits) := by
  obtain ⟨t1, e1, ht1⟩ := h0 (fun _ => none) (fun _ => rfl)
  obtain ⟨t2, e2, ht2⟩ := h1 t1 ht1
  obtain ⟨t3, e3, ht3⟩ := h2 t2 ht2
  obtain ⟨t4, e4, -⟩ := h3 t3 ht3
  have c0 : (((0 : Nat) : Int)) = 0 := rfl
  have c1 : (((1 : Nat) : Int)) = 1 := rfl
  have c2 : (((2 : Nat) : Int)) = 2 := rfl
  have c3 : (((3 : Nat) : Int)) = 3 := rfl
  unfold allMovesAudit
  simp only [hb, List.foldl_cons, List.foldl_nil, allMovesStepAudit, c0, c1, c2, c3, e1, e2, e3,
    e4, hh]
  rfl

/-! ## The audited search on the grid `[[16, 2, 32, 2], [32, 16, 2, 128], [128, 32, 128, 16], [2, 2, 16, 2]]`, node by node -/

theorem executeMove_0_1411475771451514 : executeMove 0 0x1411475771451514 = 0x1411475771451514 := by
  rw [executeMove_up_closed]
  decide

theorem executeMove_1_1411475771451514 : executeMove 1 0x1411475771451514 = 0x1411475771451514 := by
  rw [executeMove_down_closed]
  decide

theorem executeMove_2_1411475771451514 : executeMove 2 0x1411475771451514 = 0x0142475771451514 := by
  rw [executeMove_left_closed]
  decide

theorem executeMove_0_1142475771451514 : executeMove 0 0x1142475771451514 = 0x1142475771451514 := by
  rw [executeMove_up_closed]
  decide

theorem executeMove_1_1142475771451514 : executeMove 1 0x1142475771451514 = 0x1142475771451514 := by
  rw [executeMove_down_closed]
  decide

theorem executeMove_2_1142475771451514 : executeMove 2 0x1142475771451514 = 0x0242475771451514 := by
  rw [executeMove_left_closed]
  decide

theorem executeMove_0_1242475771451514 : executeMove 0 0x1242475771451514 = 0x1242475771451514 := by
  rw [executeMove_up_closed]
  decide

theorem executeMove_1_1242475771451514 : executeMove 1 0x1242475771451514 = 0x1242475771451514 := by
  rw [executeMove_down_closed]
  decide

theorem executeMove_2_1242475771451514 : executeMove 2 0x1242475771451514 = 0x1242475771451514 := by
  rw [executeMove_left_closed]
  decide

theorem executeMove_3_1242475771451514 : executeMove 3 0x1242475771451514 = 0x1242475771451514 := by
  rw [executeMove_right_closed]
  decide

theorem executeMove_0_2242475771451514 : executeMove 0 0x2242475771451514 = 0x2242475771451514 := by
  rw [executeMove_up_closed]
  decide

theorem executeMove_1_2242475771451514 : executeMove 1 0x2242475771451514 = 0x2242475771451514 := by
  rw [executeMove_down_closed]
  decide

theorem executeMove_2_2242475771451514 : executeMove 2 0x2242475771451514 = 0x0342475771451514 := by
  rw [executeMove_left_closed]
  decide

theorem executeMove_0_1342475771451514 : executeMove 0 0x1342475771451514 = 0x1342475771451514 := by
  rw [executeMove_up_closed]
  decide

theorem executeMove_1_1342475771451514 : executeMove 1 0x1342475771451514 = 0x1342475771451514 := by
  rw [executeMove_down_closed]
  decide

theorem executeMove_2_1342475771451514 : executeMove 2 0x1342475771451514 = 0x1342475771451514 := by
  rw [executeMove_left_closed]
  decide

theorem executeMove_3_1342475771451514 : executeMove 3 0x1342475771451514 = 0x1342475771451514 := by
  rw [executeMove_right_closed]
  decide

theorem executeMove_0_2342475771451514 : executeMove 0 0x2342475771451514 = 0x2342475771451514 := by
  rw [executeMove_up_closed]
  decide

theorem executeMove_1_2342475771451514 : executeMove 1 0x2342475771451514 = 0x2342475771451514 := by
  rw [executeMove_down_closed]
  decide

theorem executeMove_2_2342475771451514 : executeMove 2 0x2342475771451514 = 0x2342475771451514 := by
  rw [executeMove_left_closed]
  decide

theorem executeMove_3_2342475771451514 : executeMove 3 0x2342475771451514 = 0x2342475771451514 := by
  rw [executeMove_right_closed]
  decide

theorem executeMove_3_2242475771451514 : executeMove 3 0x2242475771451514 = 0x3420475771451514 := by
  rw [executeMove_right_closed]
  decide

theorem executeMove_0_3421475771451514 : executeMove 0 0x3421475771451514 = 0x3421475771451514 := by
  rw [executeMove_up_closed]
  decide

theorem executeMove_1_3421475771451514 : executeMove 1 0x3421475771451514 = 0x3421475771451514 := by
  rw [executeMove_down_closed]
  decide

theorem executeMove_2_3421475771451514 : executeMove 2 0x3421475771451514 = 0x3421475771451514 := by
  rw [executeMove_left_closed]
  decide

theorem executeMove_3_3421475771451514 : executeMove 3 0x3421475771451514 = 0x3421475771451514 := by
  rw [executeMove_right_closed]
  decide

theorem executeMove_0_3422475771451514 : executeMove 0 0x3422475771451514 = 0x3422475771451514 := by
  rw [executeMove_up_closed]
  decide

theorem executeMove_1_3422475771451514 : executeMove 1 0x3422475771451514 = 0x3422475771451514 := by
  rw [executeMove_down_closed]
  decide

theorem executeMove_2_3422475771451514 : executeMove 2 0x3422475771451514 = 0x0343475771451514 := by
  rw [executeMove_left_closed]
  decide

theorem heurRowScore_1514 : heurRowScore sumPower 0x1514 = (730811982552590967 / 4398046511104) := by
  have h : rowCells 0x1514 = [4, 1, 5, 1] := by decide
  norm_num [heurRowScore, h, heurStep, monotonicity, monotonicityStep, sumPower]

theorem heurRowScore_7145 : heurRowScore sumPower 0x7145 = (1373914429890000483 / 8796093022208) := by
  have h : rowCells 0x7145 = [5, 4, 1, 7] := by decide
  norm_num [heurRowScore, h, heurStep, monotonicity, monotonicityStep, sumPower]

theorem heurRowScore_4757 : heurRowScore sumPower 0x4757 = (101243654260048635 / 1099511627776) := by
  have h : rowCells 0x4757 = [7, 5, 7, 4] := by decide
  norm_num [heurRowScore, h, heurStep, monotonicity, monotonicityStep, sumPower]

theorem heurRowScore_0343 : heurRowScore sumPower 0x343 = (833905514570631047 / 4398046511104) := by
  have h : rowCells 0x343 = [3, 4, 3, 0] := by decide
  norm_num [heurRowScore, h, heurStep, monotonicity, monotonicityStep, sumPower]

theorem heurRowScore_3754 : heurRowScore sumPower 0x3754 = (370340003433979637 / 4398046511104) := by
  have h : rowCells 0x3754 = [4, 5, 7, 3] := by decide
  norm_num [heurRowScore, h, heurStep, monotonicity, monotonicityStep, sumPower]

theorem heurRowScore_4541 : heurRowScore sumPower 0x4541 = (777378499012160119 / 4398046511104) := by
  have h : rowCells 0x4541 = [1, 4, 5, 4] := by decide
  norm_num [heurRowScore, h, heurStep, monotonicity, monotonicityStep, sumPower]

theorem heurRowScore_3715 : heurRowScore sumPower 0x3715 = (323773486974410485 / 4398046511104) := by
  have h : rowCells 0x3715 = [5, 1, 7, 3] := by decide
  norm_num [heurRowScore, h, heurStep, monotonicity, monotonicityStep, sumPower]

theorem heurRowScore_0471 : heurRowScore sumPower 0x471 = (669106308415594869 / 8796093022208) := by
  have h : rowCells 0x471 = [1, 7, 4, 0] := by decide
  norm_num [heurRowScore, h, heurStep, monotonicity, monotonicityStep, sumPower]

theorem scoreHeurBoard_0343475771451514 : scoreHeurBoard tableEnv 0x0343475771451514 = (4462694472736764471 / 4398046511104) := by
  have ht : transpose 0x0343475771451514 = 0x0471371545413754 := by decide
  have r0 : (0x0343475771451514 >>> 0) &&& 0xFFFF = 0x1514 := by decide
  have r1 : (0x0343475771451514 >>> 16) &&& 0xFFFF = 0x7145 := by decide
  have r2 : (0x0343475771451514 >>> 32) &&& 0xFFFF = 0x4757 := by decide
  have r3 : (0x0343475771451514 >>> 48) &&& 0xFFFF = 0x0343 := by decide
  have c0 : (0x0471371545413754 >>> 0) &&& 0xFFFF = 0x3754 := by decide
  have c1 : (0x0471371545413754 >>> 16) &&& 0xFFFF = 0x4541 := by decide
  have c2 : (0x0471371545413754 >>> 32) &&& 0xFFFF = 0x3715 := by decide
  have c3 : (0x0471371545413754 >>> 48) &&& 0xFFFF = 0x0471 := by decide
  have hT : ∀ r, tableEnv.heurScoreTable r = heurRowScore sumPower r := fun _ => rfl
  unfold scoreHeurBoard scoreHelper FloatEnv.fadd
  rw [ht, r0, r1, r2, r3, c0, c1, c2, c3]
  simp only [hT, heurRowScore_0343, heurRowScore_0471, heurRowScore_1514, heurRowScore_3715, heurRowScore_3754, heurRowScore_4541, heurRowScore_4757, heurRowScore_7145]
  norm_num [tableEnv]

theorem executeMove_3_3422475771451514 : executeMove 3 0x3422475771451514 = 0x3430475771451514 := by
  rw [executeMove_right_closed]
  decide

theorem heurRowScore_3430 : heurRowScore sumPower 0x3430 = (833905514570631047 / 4398046511104) := by
  have h : rowCells 0x3430 = [0, 3, 4, 3] := by decide
  norm_num [heurRowScore, h, heurStep, monotonicity, monotonicityStep, sumPower]

theorem heurRowScore_0754 : heurRowScore sumPower 0x754 = (747579830150657635 / 8796093022208) := by
  have h : rowCells 0x754 = [4, 5, 7, 0] := by decide
  norm_num [heurRowScore, h, heurStep, monotonicity, monotonicityStep, sumPower]

theorem heurRowScore_3541 : heurRowScore sumPower 0x3541 = (1490269153725226101 / 8796093022208) := by
  have h : rowCells 0x3541 = [1, 4, 5, 3] := by decide
  norm_num [heurRowScore, h, heurStep, monotonicity, monotonicityStep, sumPower]

theorem heurRowScore_4715 : heurRowScore sumPower 0x4715 = (639686953140254307 / 8796093022208) := by
  have h : rowCells 0x4715 = [5, 1, 7, 4] := by decide
  norm_num [heurRowScore, h, heurStep, monotonicity, monotonicityStep, sumPower]

theorem heurRowScore_3471 : heurRowScore sumPower 0x3471 = (173819948724099647 / 2199023255552) := by
  have h : rowCells 0x3471 = [1, 7, 4, 3] := by decide
  norm_num [heurRowScore, h, heurStep, monotonicity, monotonicityStep, sumPower]

theorem scoreHeurBoard_3430475771451514 : scoreHeurBoard tableEnv 0x3430475771451514 = (4443057195064685111 / 4398046511104) := by
  have ht : transpose 0x3430475771451514 = 0x3471471535410754 := by decide
  have r0 : (0x3430475771451514 >>> 0) &&& 0xFFFF = 0x1514 := by decide
  have r1 : (0x3430475771451514 >>> 16) &&& 0xFFFF = 0x7145 := by decide
  have r2 : (0x3430475771451514 >>> 32) &&& 0xFFFF = 0x4757 := by decide
  have r3 : (0x3430475771451514 >>> 48) &&& 0xFFFF = 0x3430 := by decide
  have c0 : (0x3471471535410754 >>> 0) &&& 0xFFFF = 0x0754 := by decide
  have c1 : (0x3471471535410754 >>> 16) &&& 0xFFFF = 0x3541 := by decide
  have c2 : (0x3471471535410754 >>> 32) &&& 0xFFFF = 0x4715 := by decide
  have c3 : (0x3471471535410754 >>> 48) &&& 0xFFFF = 0x3471 := by decide
  have hT : ∀ r, tableEnv.heurScoreTable r = heurRowScore sumPower r := fun _ => rfl
  unfold scoreHeurBoard scoreHelper FloatEnv.fadd
  rw [ht, r0, r1, r2, r3, c0, c1, c2, c3]
  simp only [hT, heurRowScore_0754, heurRowScore_1514, heurRowScore_3430, heurRowScore_3471, heurRowScore_3541, heurRowScore_4715, heurRowScore_4757, heurRowScore_7145]
  norm_num [tableEnv]

theorem executeMove_3_1142475771451514 : executeMove 3 0x1142475771451514 = 0x2420475771451514 := by
  rw [executeMove_right_closed]
  decide

theorem executeMove_0_2421475771451514 : executeMove 0 0x2421475771451514 = 0x2421475771451514 := by
  rw [executeMove_up_closed]
  decide

theorem executeMove_1_2421475771451514 : executeMove 1 0x2421475771451514 = 0x2421475771451514 := by
  rw [executeMove_down_closed]
  decide

theorem executeMove_2_2421475771451514 : executeMove 2 0x2421475771451514 = 0x2421475771451514 := by
  rw [executeMove_left_closed]
  decide

theorem executeMove_3_2421475771451514 : executeMove 3 0x2421475771451514 = 0x2421475771451514 := by
  rw [executeMove_right_closed]
  decide

theorem executeMove_0_2422475771451514 : executeMove 0 0x2422475771451514 = 0x2422475771451514 := by
  rw [executeMove_up_closed]
  decide

theorem executeMove_1_2422475771451514 : executeMove 1 0x2422475771451514 = 0x2422475771451514 := by
  rw [executeMove_down_closed]
  decide

theorem executeMove_2_2422475771451514 : executeMove 2 0x2422475771451514 = 0x0243475771451514 := by
  rw [executeMove_left_closed]
  decide

theorem executeMove_0_1243475771451514 : executeMove 0 0x1243475771451514 = 0x1243475771451514 := by
  rw [executeMove_up_closed]
  decide

theorem executeMove_1_1243475771451514 : executeMove 1 0x1243475771451514 = 0x1243475771451514 := by
  rw [executeMove_down_closed]
  decide

theorem executeMove_2_1243475771451514 : executeMove 2 0x1243475771451514 = 0x1243475771451514 := by
  rw [executeMove_left_closed]
  decide

theorem executeMove_3_1243475771451514 : executeMove 3 0x1243475771451514 = 0x1243475771451514 := by
  rw [executeMove_right_closed]
  decide

theorem executeMove_0_2243475771451514 : executeMove 0 0x2243475771451514 = 0x2243475771451514 := by
  rw [executeMove_up_closed]
  decide

theorem executeMove_1_2243475771451514 : executeMove 1 0x2243475771451514 = 0x2243475771451514 := by
  rw [executeMove_down_closed]
  decide

theorem executeMove_2_2243475771451514 : executeMove 2 0x2243475771451514 = 0x0343475771451514 := by
  rw [executeMove_left_closed]
  decide

theorem executeMove_3_2243475771451514 : executeMove 3 0x2243475771451514 = 0x3430475771451514 := by
  rw [executeMove_right_closed]
  decide

theorem executeMove_3_2422475771451514 : executeMove 3 0x2422475771451514 = 0x2430475771451514 := by
  rw [executeMove_right_closed]
  decide

theorem executeMove_0_2431475771451514 : executeMove 0 0x2431475771451514 = 0x2431475771451514 := by
  rw [executeMove_up_closed]
  decide

theorem executeMove_1_2431475771451514 : executeMove 1 0x2431475771451514 = 0x2431475771451514 := by
  rw [executeMove_down_closed]
  decide

theorem executeMove_2_2431475771451514 : executeMove 2 0x2431475771451514 = 0x2431475771451514 := by
  rw [executeMove_left_closed]
  decide

theorem executeMove_3_2431475771451514 : executeMove 3 0x2431475771451514 = 0x2431475771451514 := by
  rw [executeMove_right_closed]
  decide

theorem executeMove_0_2432475771451514 : executeMove 0 0x2432475771451514 = 0x2432475771451514 := by
  rw [executeMove_up_closed]
  decide

theorem executeMove_1_2432475771451514 : executeMove 1 0x2432475771451514 = 0x2432475771451514 := by
  rw [executeMove_down_closed]
  decide

theorem executeMove_2_2432475771451514 : executeMove 2 0x2432475771451514 = 0x2432475771451514 := by
  rw [executeMove_left_closed]
  decide

theorem executeMove_3_2432475771451514 : executeMove 3 0x2432475771451514 = 0x2432475771451514 := by
  rw [executeMove_right_closed]
  decide

theorem executeMove_0_2142475771451514 : executeMove 0 0x2142475771451514 = 0x2142475771451514 := by
  rw [executeMove_up_closed]
  decide

theorem executeMove_1_2142475771451514 : executeMove 1 0x2142475771451514 = 0x2142475771451514 := by
  rw [executeMove_down_closed]
  decide

theorem executeMove_2_2142475771451514 : executeMove 2 0x2142475771451514 = 0x2142475771451514 := by
  rw [executeMove_left_closed]
  decide

theorem executeMove_3_2142475771451514 : executeMove 3 0x2142475771451514 = 0x2142475771451514 := by
  rw [executeMove_right_closed]
  decide

theorem executeMove_3_1411475771451514 : executeMove 3 0x1411475771451514 = 0x1420475771451514 := by
  rw [executeMove_right_closed]
  decide

theorem executeMove_0_1421475771451514 : executeMove 0 0x1421475771451514 = 0x1421475771451514 := by
  rw [executeMove_up_closed]
  decide

theorem executeMove_1_1421475771451514 : executeMove 1 0x1421475771451514 = 0x1421475771451514 := by
  rw [executeMove_down_closed]
  decide

theorem executeMove_2_1421475771451514 : executeMove 2 0x1421475771451514 = 0x1421475771451514 := by
  rw [executeMove_left_closed]
  decide

theorem executeMove_3_1421475771451514 : executeMove 3 0x1421475771451514 = 0x1421475771451514 := by
  rw [executeMove_right_closed]
  decide

theorem executeMove_0_1422475771451514 : executeMove 0 0x1422475771451514 = 0x1422475771451514 := by
  rw [executeMove_up_closed]
  decide

theorem executeMove_1_1422475771451514 : executeMove 1 0x1422475771451514 = 0x1422475771451514 := by
  rw [executeMove_down_closed]
  decide

theorem executeMove_2_1422475771451514 : executeMove 2 0x1422475771451514 = 0x0143475771451514 := by
  rw [executeMove_left_closed]
  decide

theorem executeMove_0_1143475771451514 : executeMove 0 0x1143475771451514 = 0x1143475771451514 := by
  rw [executeMove_up_closed]
  decide

theorem executeMove_1_1143475771451514 : executeMove 1 0x1143475771451514 = 0x1143475771451514 := by
  rw [executeMove_down_closed]
  decide

theorem executeMove_2_1143475771451514 : executeMove 2 0x1143475771451514 = 0x0243475771451514 := by
  rw [executeMove_left_closed]
  decide

theorem executeMove_3_1143475771451514 : executeMove 3 0x1143475771451514 = 0x2430475771451514 := by
  rw [executeMove_right_closed]
  decide

theorem executeMove_0_2143475771451514 : executeMove 0 0x2143475771451514 = 0x2143475771451514 := by
  rw [executeMove_up_closed]
  decide

theorem executeMove_1_2143475771451514 : executeMove 1 0x2143475771451514 = 0x2143475771451514 := by
  rw [executeMove_down_closed]
  decide

theorem executeMove_2_2143475771451514 : executeMove 2 0x2143475771451514 = 0x2143475771451514 := by
  rw [executeMove_left_closed]
  decide

theorem executeMove_3_2143475771451514 : executeMove 3 0x2143475771451514 = 0x2143475771451514 := by
  rw [executeMove_right_closed]
  decide

theorem executeMove_3_1422475771451514 : executeMove 3 0x1422475771451514 = 0x1430475771451514 := by
  rw [executeMove_right_closed]
  decide

theorem executeMove_0_1431475771451514 : executeMove 0 0x1431475771451514 = 0x1431475771451514 := by
  rw [executeMove_up_closed]
  decide

theorem executeMove_1_1431475771451514 : executeMove 1 0x1431475771451514 = 0x1431475771451514 := by
  rw [executeMove_down_closed]
  decide

theorem executeMove_2_1431475771451514 : executeMove 2 0x1431475771451514 = 0x1431475771451514 := by
  rw [executeMove_left_closed]
  decide

theorem executeMove_3_1431475771451514 : executeMove 3 0x1431475771451514 = 0x1431475771451514 := by
  rw [executeMove_right_closed]
  decide

theorem executeMove_0_1432475771451514 : executeMove 0 0x1432475771451514 = 0x1432475771451514 := by
  rw [executeMove_up_closed]
  decide

theorem executeMove_1_1432475771451514 : executeMove 1 0x1432475771451514 = 0x1432475771451514 := by
  rw [executeMove_down_closed]
  decide

theorem executeMove_2_1432475771451514 : executeMove 2 0x1432475771451514 = 0x1432475771451514 := by
  rw [executeMove_left_closed]
  decide

theorem executeMove_3_1432475771451514 : executeMove 3 0x1432475771451514 = 0x1432475771451514 := by
  rw [executeMove_right_closed]
  decide

theorem top_a_0 : ∀ t : Nat → Option (Int × ℚ),
    (∀ x, t x = List.lookup x ([] : List (Nat × (Int × ℚ)))) →
    ∃ t2, topLevelAudit tableEnv t 0x1411475771451514 0 = some (0, t2, 0) ∧
      ∀ x, t2 x = List.lookup x ([] : List (Nat × (Int × ℚ))) :=
  topLevelAudit_unchanged tableEnv _ 0 _ executeMove_0_1411475771451514

theorem top_a_1 : ∀ t : Nat → Option (Int × ℚ),
    (∀ x, t x = List.lookup x ([] : List (Nat × (Int × ℚ)))) →
    ∃ t2, topLevelAudit tableEnv t 0x1411475771451514 1 = some (0, t2, 0) ∧
      ∀ x, t2 x = List.lookup x ([] : List (Nat × (Int × ℚ))) :=
  topLevelAudit_unchanged tableEnv _ 1 _ executeMove_1_1411475771451514

theorem move_a_1 :
    NodeHits (scoreMoveNodeWith (tileNodeAudit tableEnv 2)) 1 3
      [] 0
      0x1242475771451514 (81 / 100) 0
      [] 0 :=
  nodeHits_move _ 1 3 _ _ _ _ _ _ _ _ _ _ _ _ _ _ _ _
    (stepHits_unchanged _ 2 3 _ _ 0 _ _ _ executeMove_0_1242475771451514)
    (stepHits_unchanged _ 2 3 _ _ 1 _ _ _ executeMove_1_1242475771451514)
    (stepHits_unchanged _ 2 3 _ _ 2 _ _ _ executeMove_2_1242475771451514)
    (stepHits_unchanged _ 2 3 _ _ 3 _ _ _ executeMove_3_1242475771451514)
    _ (by norm_num)

theorem move_a_2 :
    NodeHits (scoreMoveNodeWith (tileNodeAudit tableEnv 1)) 2 3
      [] 0
      0x1342475771451514 (81 / 1000) 0
      [] 0 :=
  nodeHits_move _ 2 3 _ _ _ _ _ _ _ _ _ _ _ _ _ _ _ _
    (stepHits_unchanged _ 3 3 _ _ 0 _ _ _ executeMove_0_1342475771451514)
    (stepHits_unchanged _ 3 3 _ _ 1 _ _ _ executeMove_1_1342475771451514)
    (stepHits_unchanged _ 3 3 _ _ 2 _ _ _ executeMove_2_1342475771451514)
    (stepHits_unchanged _ 3 3 _ _ 3 _ _ _ executeMove_3_1342475771451514)
    _ (by norm_num)

theorem move_a_3 :
    NodeHits (scoreMoveNodeWith (tileNodeAudit tableEnv 1)) 2 3
      [] 0
      0x2342475771451514 (9 / 1000) 0
      [] 0 :=
  nodeHits_move _ 2 3 _ _ _ _ _ _ _ _ _ _ _ _ _ _ _ _
    (stepHits_unchanged _ 3 3 _ _ 0 _ _ _ executeMove_0_2342475771451514)
    (stepHits_unchanged _ 3 3 _ _ 1 _ _ _ executeMove_1_2342475771451514)
    (stepHits_unchanged _ 3 3 _ _ 2 _ _ _ executeMove_2_2342475771451514)
    (stepHits_unchanged _ 3 3 _ _ 3 _ _ _ executeMove_3_2342475771451514)
    _ (by norm_num)

theorem node_a_4 :
    NodeHits (tileNodeAudit tableEnv 2) 2 3
      [] 0
      0x0342475771451514 (9 / 100) 0
      [(0x10342475771451514, (2, (9 / 100))), (0x0342475771451514, (2, 0))] 0 :=
  nodeHits_expand tableEnv 1 2 3 _ _ _ _ _ _ 1 [15] (9 / 100) _ _
    (by norm_num [CPROB_THRESH_BASE, tableEnv]) (by decide) (Or.inl rfl)
    (by decide) (by decide) (by decide) (by norm_num [tableEnv, FloatEnv.fmul, FloatEnv.fadd, FloatEnv.fdiv])
    (foldHits_cons tableEnv _ 2 3 _ _ 15 _ _ _ _ _ _ _ _ _ _ _ _ _ _ _ _ 0 _
      (by decide) (by decide) (by norm_num [tableEnv, FloatEnv.fmul, FloatEnv.fadd, FloatEnv.fdiv])
      (by norm_num [tableEnv, FloatEnv.fmul, FloatEnv.fadd, FloatEnv.fdiv])
      move_a_2 move_a_3
      (by norm_num [tableEnv, FloatEnv.fmul, FloatEnv.fadd, FloatEnv.fdiv])
      (foldHits_nil tableEnv _ 2 3 _ _ _ _ _))
    (by norm_num [tableEnv, FloatEnv.fmul, FloatEnv.fadd, FloatEnv.fdiv])

theorem move_a_5 :
    NodeHits (scoreMoveNodeWith (tileNodeAudit tableEnv 1)) 2 3
      [(0x10342475771451514, (2, (9 / 100))), (0x0342475771451514, (2, 0))] 0
      0x3421475771451514 (81 / 1000) 0
      [(0x10342475771451514, (2, (9 / 100))), (0x0342475771451514, (2, 0))] 0 :=
  nodeHits_move _ 2 3 _ _ _ _ _ _ _ _ _ _ _ _ _ _ _ _
    (stepHits_unchanged _ 3 3 _ _ 0 _ _ _ executeMove_0_3421475771451514)
    (stepHits_unchanged _ 3 3 _ _ 1 _ _ _ executeMove_1_3421475771451514)
    (stepHits_unchanged _ 3 3 _ _ 2 _ _ _ executeMove_2_3421475771451514)
    (stepHits_unchanged _ 3 3 _ _ 3 _ _ _ executeMove_3_3421475771451514)
    _ (by norm_num)

theorem node_a_6 :
    NodeHits (tileNodeAudit tableEnv 1) 3 3
      [(0x10342475771451514, (2, (9 / 100))), (0x0342475771451514, (2, 0))] 0
      0x0343475771451514 (9 / 1000) (4462694472736764471 / 4398046511104)
      [(0x10342475771451514, (2, (9 / 100))), (0x0342475771451514, (2, 0))] 0 :=
  nodeHits_leaf tableEnv 0 3 3 _ _ _ _ _ (Or.inr (by decide)) scoreHeurBoard_0343475771451514

theorem node_a_7 :
    NodeHits (tileNodeAudit tableEnv 1) 3 3
      [(0x10342475771451514, (2, (9 / 100))), (0x0342475771451514, (2, 0))] 0
      0x3430475771451514 (9 / 1000) (4443057195064685111 / 4398046511104)
      [(0x10342475771451514, (2, (9 / 100))), (0x0342475771451514, (2, 0))] 0 :=
  nodeHits_leaf tableEnv 0 3 3 _ _ _ _ _ (Or.inr (by decide)) scoreHeurBoard_3430475771451514

theorem move_a_8 :
    NodeHits (scoreMoveNodeWith (tileNodeAudit tableEnv 1)) 2 3
      [(0x10342475771451514, (2, (9 / 100))), (0x0342475771451514, (2, 0))] 0
      0x3422475771451514 (9 / 1000) (4462694472736764471 / 4398046511104)
      [(0x10342475771451514, (2, (9 / 100))), (0x0342475771451514, (2, 0))] 0 :=
  nodeHits_move _ 2 3 _ _ _ _ _ _ _ _ _ _ _ _ _ _ _ _
    (stepHits_unchanged _ 3 3 _ _ 0 _ _ _ executeMove_0_3422475771451514)
    (stepHits_unchanged _ 3 3 _ _ 1 _ _ _ executeMove_1_3422475771451514)
    (stepHits_changed _ 3 3 _ _ 2 _ _ _ _ _ _ _ _ executeMove_2_3422475771451514 (by decide) node_a_6 rfl)
    (stepHits_changed _ 3 3 _ _ 3 _ _ _ _ _ _ _ _ executeMove_3_3422475771451514 (by decide) node_a_7 rfl)
    _ (by norm_num)

theorem node_a_9 :
    NodeHits (tileNodeAudit tableEnv 2) 2 3
      [(0x10342475771451514, (2, (9 / 100))), (0x0342475771451514, (2, 0))] 0
      0x3420475771451514 (9 / 100) (4462694472736764471 / 43980465111040)
      [(0x13420475771451514, (2, (9 / 100))), (0x3420475771451514, (2, (4462694472736764471 / 43980465111040))), (0x10342475771451514, (2, (9 / 100))), (0x0342475771451514, (2, 0))] 0 :=
  nodeHits_expand tableEnv 1 2 3 _ _ _ _ _ _ 1 [12] (9 / 100) _ _
    (by norm_num [CPROB_THRESH_BASE, tableEnv]) (by decide) (Or.inl rfl)
    (by decide) (by decide) (by decide) (by norm_num [tableEnv, FloatEnv.fmul, FloatEnv.fadd, FloatEnv.fdiv])
    (foldHits_cons tableEnv _ 2 3 _ _ 12 _ _ _ _ _ _ _ _ _ _ _ _ _ _ _ _ (4462694472736764471 / 43980465111040) _
      (by decide) (by decide) (by norm_num [tableEnv, FloatEnv.fmul, FloatEnv.fadd, FloatEnv.fdiv])
      (by norm_num [tableEnv, FloatEnv.fmul, FloatEnv.fadd, FloatEnv.fdiv])
      move_a_5 move_a_8
      (by norm_num [tableEnv, FloatEnv.fmul, FloatEnv.fadd, FloatEnv.fdiv])
      (foldHits_nil tableEnv _ 2 3 _ _ _ _ _))
    (by norm_num [tableEnv, FloatEnv.fmul, FloatEnv.fadd, FloatEnv.fdiv])

theorem move_a_10 :
    NodeHits (scoreMoveNodeWith (tileNodeAudit tableEnv 2)) 1 3
      [] 0
      0x2242475771451514 (9 / 100) (4462694472736764471 / 43980465111040)
      [(0x13420475771451514, (2, (9 / 100))), (0x3420475771451514, (2, (4462694472736764471 / 43980465111040))), (0x10342475771451514, (2, (9 / 100))), (0x0342475771451514, (2, 0))] 0 :=
  nodeHits_move _ 1 3 _ _ _ _ _ _ _ _ _ _ _ _ _ _ _ _
    (stepHits_unchanged _ 2 3 _ _ 0 _ _ _ executeMove_0_2242475771451514)
    (stepHits_unchanged _ 2 3 _ _ 1 _ _ _ executeMove_1_2242475771451514)
    (stepHits_changed _ 2 3 _ _ 2 _ _ _ _ _ _ _ _ executeMove_2_2242475771451514 (by decide) node_a_4 rfl)
    (stepHits_changed _ 2 3 _ _ 3 _ _ _ _ _ _ _ _ executeMove_3_2242475771451514 (by decide) node_a_9 rfl)
    _ (by norm_num)

theorem node_a_11 :
    NodeHits (tileNodeAudit tableEnv 3) 1 3
      [] 0
      0x0242475771451514 (9 / 10) (4462694472736764471 / 439804651110400)
      [(0x10242475771451514, (1, (9 / 10))), (0x0242475771451514, (1, (4462694472736764471 / 439804651110400))), (0x13420475771451514, (2, (9 / 100))), (0x3420475771451514, (2, (4462694472736764471 / 43980465111040))), (0x10342475771451514, (2, (9 / 100))), (0x0342475771451514, (2, 0))] 0 :=
  nodeHits_expand tableEnv 2 1 3 _ _ _ _ _ _ 1 [15] (9 / 10) _ _
    (by norm_num [CPROB_THRESH_BASE, tableEnv]) (by decide) (Or.inl rfl)
    (by decide) (by decide) (by decide) (by norm_num [tableEnv, FloatEnv.fmul, FloatEnv.fadd, FloatEnv.fdiv])
    (foldHits_cons tableEnv _ 1 3 _ _ 15 _ _ _ _ _ _ _ _ _ _ _ _ _ _ _ _ (4462694472736764471 / 439804651110400) _
      (by decide) (by decide) (by norm_num [tableEnv, FloatEnv.fmul, FloatEnv.fadd, FloatEnv.fdiv])
      (by norm_num [tableEnv, FloatEnv.fmul, FloatEnv.fadd, FloatEnv.fdiv])
      move_a_1 move_a_10
      (by norm_num [tableEnv, FloatEnv.fmul, FloatEnv.fadd, FloatEnv.fdiv])
      (foldHits_nil tableEnv _ 1 3 _ _ _ _ _))
    (by norm_num [tableEnv, FloatEnv.fmul, FloatEnv.fadd, FloatEnv.fdiv])

theorem move_a_12 :
    NodeHits (scoreMoveNodeWith (tileNodeAudit tableEnv 2)) 1 3
      [(0x10242475771451514, (1, (9 / 10))), (0x0242475771451514, (1, (4462694472736764471 / 439804651110400))), (0x13420475771451514, (2, (9 / 100))), (0x3420475771451514, (2, (4462694472736764471 / 43980465111040))), (0x10342475771451514, (2, (9 / 100))), (0x0342475771451514, (2, 0))] 0
      0x2421475771451514 (81 / 100) 0
      [(0x10242475771451514, (1, (9 / 10))), (0x0242475771451514, (1, (4462694472736764471 / 439804651110400))), (0x13420475771451514, (2, (9 / 100))), (0x3420475771451514, (2, (4462694472736764471 / 43980465111040))), (0x10342475771451514, (2, (9 / 100))), (0x0342475771451514, (2, 0))] 0 :=
  nodeHits_move _ 1 3 _ _ _ _ _ _ _ _ _ _ _ _ _ _ _ _
    (stepHits_unchanged _ 2 3 _ _ 0 _ _ _ executeMove_0_2421475771451514)
    (stepHits_unchanged _ 2 3 _ _ 1 _ _ _ executeMove_1_2421475771451514)
    (stepHits_unchanged _ 2 3 _ _ 2 _ _ _ executeMove_2_2421475771451514)
    (stepHits_unchanged _ 2 3 _ _ 3 _ _ _ executeMove_3_2421475771451514)
    _ (by norm_num)

theorem move_a_13 :
    NodeHits (scoreMoveNodeWith (tileNodeAudit tableEnv 1)) 2 3
      [(0x10242475771451514, (1, (9 / 10))), (0x0242475771451514, (1, (4462694472736764471 / 439804651110400))), (0x13420475771451514, (2, (9 / 100))), (0x3420475771451514, (2, (4462694472736764471 / 43980465111040))), (0x10342475771451514, (2, (9 / 100))), (0x0342475771451514, (2, 0))] 0
      0x1243475771451514 (81 / 1000) 0
      [(0x10242475771451514, (1, (9 / 10))), (0x0242475771451514, (1, (4462694472736764471 / 439804651110400))), (0x13420475771451514, (2, (9 / 100))), (0x3420475771451514, (2, (4462694472736764471 / 43980465111040))), (0x10342475771451514, (2, (9 / 100))), (0x0342475771451514, (2, 0))] 0 :=
  nodeHits_move _ 2 3 _ _ _ _ _ _ _ _ _ _ _ _ _ _ _ _
    (stepHits_unchanged _ 3 3 _ _ 0 _ _ _ executeMove_0_1243475771451514)
    (stepHits_unchanged _ 3 3 _ _ 1 _ _ _ executeMove_1_1243475771451514)
    (stepHits_unchanged _ 3 3 _ _ 2 _ _ _ executeMove_2_1243475771451514)
    (stepHits_unchanged _ 3 3 _ _ 3 _ _ _ executeMove_3_1243475771451514)
    _ (by norm_num)

theorem node_a_14 :
    NodeHits (tileNodeAudit tableEnv 1) 3 3
      [(0x10242475771451514, (1, (9 / 10))), (0x0242475771451514, (1, (4462694472736764471 / 439804651110400))), (0x13420475771451514, (2, (9 / 100))), (0x3420475771451514, (2, (4462694472736764471 / 43980465111040))), (0x10342475771451514, (2, (9 / 100))), (0x0342475771451514, (2, 0))] 0
      0x0343475771451514 (9 / 1000) (4462694472736764471 / 4398046511104)
      [(0x10242475771451514, (1, (9 / 10))), (0x0242475771451514, (1, (4462694472736764471 / 439804651110400))), (0x13420475771451514, (2, (9 / 100))), (0x3420475771451514, (2, (4462694472736764471 / 43980465111040))), (0x10342475771451514, (2, (9 / 100))), (0x0342475771451514, (2, 0))] 0 :=
  nodeHits_leaf tableEnv 0 3 3 _ _ _ _ _ (Or.inr (by decide)) scoreHeurBoard_0343475771451514

theorem node_a_15 :
    NodeHits (tileNodeAudit tableEnv 1) 3 3
      [(0x10242475771451514, (1, (9 / 10))), (0x0242475771451514, (1, (4462694472736764471 / 439804651110400))), (0x13420475771451514, (2, (9 / 100))), (0x3420475771451514, (2, (4462694472736764471 / 43980465111040))), (0x10342475771451514, (2, (9 / 100))), (0x0342475771451514, (2, 0))] 0
      0x3430475771451514 (9 / 1000) (4443057195064685111 / 4398046511104)
      [(0x10242475771451514, (1, (9 / 10))), (0x0242475771451514, (1, (4462694472736764471 / 439804651110400))), (0x13420475771451514, (2, (9 / 100))), (0x3420475771451514, (2, (4462694472736764471 / 43980465111040))), (0x10342475771451514, (2, (9 / 100))), (0x0342475771451514, (2, 0))] 0 :=
  nodeHits_leaf tableEnv 0 3 3 _ _ _ _ _ (Or.inr (by decide)) scoreHeurBoard_3430475771451514

theorem move_a_16 :
    NodeHits (scoreMoveNodeWith (tileNodeAudit tableEnv 1)) 2 3
      [(0x10242475771451514, (1, (9 / 10))), (0x0242475771451514, (1, (4462694472736764471 / 439804651110400))), (0x13420475771451514, (2, (9 / 100))), (0x3420475771451514, (2, (4462694472736764471 / 43980465111040))), (0x10342475771451514, (2, (9 / 100))), (0x0342475771451514, (2, 0))] 0
      0x2243475771451514 (9 / 1000) (4462694472736764471 / 4398046511104)
      [(0x10242475771451514, (1, (9 / 10))), (0x0242475771451514, (1, (4462694472736764471 / 439804651110400))), (0x13420475771451514, (2, (9 / 100))), (0x3420475771451514, (2, (4462694472736764471 / 43980465111040))), (0x10342475771451514, (2, (9 / 100))), (0x0342475771451514, (2, 0))] 0 :=
  nodeHits_move _ 2 3 _ _ _ _ _ _ _ _ _ _ _ _ _ _ _ _
    (stepHits_unchanged _ 3 3 _ _ 0 _ _ _ executeMove_0_2243475771451514)
    (stepHits_unchanged _ 3 3 _ _ 1 _ _ _ executeMove_1_2243475771451514)
    (stepHits_changed _ 3 3 _ _ 2 _ _ _ _ _ _ _ _ executeMove_2_2243475771451514 (by decide) node_a_14 rfl)
    (stepHits_changed _ 3 3 _ _ 3 _ _ _ _ _ _ _ _ executeMove_3_2243475771451514 (by decide) node_a_15 rfl)
    _ (by norm_num)

theorem node_a_17 :
    NodeHits (tileNodeAudit tableEnv 2) 2 3
      [(0x10242475771451514, (1, (9 / 10))), (0x0242475771451514, (1, (4462694472736764471 / 439804651110400))), (0x13420475771451514, (2, (9 / 100))), (0x3420475771451514, (2, (4462694472736764471 / 43980465111040))), (0x10342475771451514, (2, (9 / 100))), (0x0342475771451514, (2, 0))] 0
      0x0243475771451514 (9 / 100) (4462694472736764471 / 43980465111040)
      [(0x10243475771451514, (2, (9 / 100))), (0x0243475771451514, (2, (4462694472736764471 / 43980465111040))), (0x10242475771451514, (1, (9 / 10))), (0x0242475771451514, (1, (4462694472736764471 / 439804651110400))), (0x13420475771451514, (2, (9 / 100))), (0x3420475771451514, (2, (4462694472736764471 / 43980465111040))), (0x10342475771451514, (2, (9 / 100))), (0x0342475771451514, (2, 0))] 0 :=
  nodeHits_expand tableEnv 1 2 3 _ _ _ _ _ _ 1 [15] (9 / 100) _ _
    (by norm_num [CPROB_THRESH_BASE, tableEnv]) (by decide) (Or.inl rfl)
    (by decide) (by decide) (by decide) (by norm_num [tableEnv, FloatEnv.fmul, FloatEnv.fadd, FloatEnv.fdiv])
    (foldHits_cons tableEnv _ 2 3 _ _ 15 _ _ _ _ _ _ _ _ _ _ _ _ _ _ _ _ (4462694472736764471 / 43980465111040) _
      (by decide) (by decide) (by norm_num [tableEnv, FloatEnv.fmul, FloatEnv.fadd, FloatEnv.fdiv])
      (by norm_num [tableEnv, FloatEnv.fmul, FloatEnv.fadd, FloatEnv.fdiv])
      move_a_13 move_a_16
      (by norm_num [tableEnv, FloatEnv.fmul, FloatEnv.fadd, FloatEnv.fdiv])
      (foldHits_nil tableEnv _ 2 3 _ _ _ _ _))
    (by norm_num [tableEnv, FloatEnv.fmul, FloatEnv.fadd, FloatEnv.fdiv])

theorem move_a_18 :
    NodeHits (scoreMoveNodeWith (tileNodeAudit tableEnv 1)) 2 3
      [(0x10243475771451514, (2, (9 / 100))), (0x0243475771451514, (2, (4462694472736764471 / 43980465111040))), (0x10242475771451514, (1, (9 / 10))), (0x0242475771451514, (1, (4462694472736764471 / 439804651110400))), (0x13420475771451514, (2, (9 / 100))), (0x3420475771451514, (2, (4462694472736764471 / 43980465111040))), (0x10342475771451514, (2, (9 / 100))), (0x0342475771451514, (2, 0))] 0
      0x2431475771451514 (81 / 1000) 0
      [(0x10243475771451514, (2, (9 / 100))), (0x0243475771451514, (2, (4462694472736764471 / 43980465111040))), (0x10242475771451514, (1, (9 / 10))), (0x0242475771451514, (1, (4462694472736764471 / 439804651110400))), (0x13420475771451514, (2, (9 / 100))), (0x3420475771451514, (2, (4462694472736764471 / 43980465111040))), (0x10342475771451514, (2, (9 / 100))), (0x0342475771451514, (2, 0))] 0 :=
  nodeHits_move _ 2 3 _ _ _ _ _ _ _ _ _ _ _ _ _ _ _ _
    (stepHits_unchanged _ 3 3 _ _ 0 _ _ _ executeMove_0_2431475771451514)
    (stepHits_unchanged _ 3 3 _ _ 1 _ _ _ executeMove_1_2431475771451514)
    (stepHits_unchanged _ 3 3 _ _ 2 _ _ _ executeMove_2_2431475771451514)
    (stepHits_unchanged _ 3 3 _ _ 3 _ _ _ executeMove_3_2431475771451514)
    _ (by norm_num)

theorem move_a_19 :
    NodeHits (scoreMoveNodeWith (tileNodeAudit tableEnv 1)) 2 3
      [(0x10243475771451514, (2, (9 / 100))), (0x0243475771451514, (2, (4462694472736764471 / 43980465111040))), (0x10242475771451514, (1, (9 / 10))), (0x0242475771451514, (1, (4462694472736764471 / 439804651110400))), (0x13420475771451514, (2, (9 / 100))), (0x3420475771451514, (2, (4462694472736764471 / 43980465111040))), (0x10342475771451514, (2, (9 / 100))), (0x0342475771451514, (2, 0))] 0
      0x2432475771451514 (9 / 1000) 0
      [(0x10243475771451514, (2, (9 / 100))), (0x0243475771451514, (2, (4462694472736764471 / 43980465111040))), (0x10242475771451514, (1, (9 / 10))), (0x0242475771451514, (1, (4462694472736764471 / 439804651110400))), (0x13420475771451514, (2, (9 / 100))), (0x3420475771451514, (2, (4462694472736764471 / 43980465111040))), (0x10342475771451514, (2, (9 / 100))), (0x0342475771451514, (2, 0))] 0 :=
  nodeHits_move _ 2 3 _ _ _ _ _ _ _ _ _ _ _ _ _ _ _ _
    (stepHits_unchanged _ 3 3 _ _ 0 _ _ _ executeMove_0_2432475771451514)
    (stepHits_unchanged _ 3 3 _ _ 1 _ _ _ executeMove_1_2432475771451514)
    (stepHits_unchanged _ 3 3 _ _ 2 _ _ _ executeMove_2_2432475771451514)
    (stepHits_unchanged _ 3 3 _ _ 3 _ _ _ executeMove_3_2432475771451514)
    _ (by norm_num)

theorem node_a_20 :
    NodeHits (tileNodeAudit tableEnv 2) 2 3
      [(0x10243475771451514, (2, (9 / 100))), (0x0243475771451514, (2, (4462694472736764471 / 43980465111040))), (0x10242475771451514, (1, (9 / 10))), (0x0242475771451514, (1, (4462694472736764471 / 439804651110400))), (0x13420475771451514, (2, (9 / 100))), (0x3420475771451514, (2, (4462694472736764471 / 43980465111040))), (0x10342475771451514, (2, (9 / 100))), (0x0342475771451514, (2, 0))] 0
      0x2430475771451514 (9 / 100) 0
      [(0x12430475771451514, (2, (9 / 100))), (0x2430475771451514, (2, 0)), (0x10243475771451514, (2, (9 / 100))), (0x0243475771451514, (2, (4462694472736764471 / 43980465111040))), (0x10242475771451514, (1, (9 / 10))), (0x0242475771451514, (1, (4462694472736764471 / 439804651110400))), (0x13420475771451514, (2, (9 / 100))), (0x3420475771451514, (2, (4462694472736764471 / 43980465111040))), (0x10342475771451514, (2, (9 / 100))), (0x0342475771451514, (2, 0))] 0 :=
  nodeHits_expand tableEnv 1 2 3 _ _ _ _ _ _ 1 [12] (9 / 100) _ _
    (by norm_num [CPROB_THRESH_BASE, tableEnv]) (by decide) (Or.inl rfl)
    (by decide) (by decide) (by decide) (by norm_num [tableEnv, FloatEnv.fmul, FloatEnv.fadd, FloatEnv.fdiv])
    (foldHits_cons tableEnv _ 2 3 _ _ 12 _ _ _ _ _ _ _ _ _ _ _ _ _ _ _ _ 0 _
      (by decide) (by decide) (by norm_num [tableEnv, FloatEnv.fmul, FloatEnv.fadd, FloatEnv.fdiv])
      (by norm_num [tableEnv, FloatEnv.fmul, FloatEnv.fadd, FloatEnv.fdiv])
      move_a_18 move_a_19
      (by norm_num [tableEnv, FloatEnv.fmul, FloatEnv.fadd, FloatEnv.fdiv])
      (foldHits_nil tableEnv _ 2 3 _ _ _ _ _))
    (by norm_num [tableEnv, FloatEnv.fmul, FloatEnv.fadd, FloatEnv.fdiv])

theorem move_a_21 :
    NodeHits (scoreMoveNodeWith (tileNodeAudit tableEnv 2)) 1 3
      [(0x10242475771451514, (1, (9 / 10))), (0x0242475771451514, (1, (4462694472736764471 / 439804651110400))), (0x13420475771451514, (2, (9 / 100))), (0x3420475771451514, (2, (4462694472736764471 / 43980465111040))), (0x10342475771451514, (2, (9 / 100))), (0x0342475771451514, (2, 0))] 0
      0x2422475771451514 (9 / 100) (4462694472736764471 / 43980465111040)
      [(0x12430475771451514, (2, (9 / 100))), (0x2430475771451514, (2, 0)), (0x10243475771451514, (2, (9 / 100))), (0x0243475771451514, (2, (4462694472736764471 / 43980465111040))), (0x10242475771451514, (1, (9 / 10))), (0x0242475771451514, (1, (4462694472736764471 / 439804651110400))), (0x13420475771451514, (2, (9 / 100))), (0x3420475771451514, (2, (4462694472736764471 / 43980465111040))), (0x10342475771451514, (2, (9 / 100))), (0x0342475771451514, (2, 0))] 0 :=
  nodeHits_move _ 1 3 _ _ _ _ _ _ _ _ _ _ _ _ _ _ _ _
    (stepHits_unchanged _ 2 3 _ _ 0 _ _ _ executeMove_0_2422475771451514)
    (stepHits_unchanged _ 2 3 _ _ 1 _ _ _ executeMove_1_2422475771451514)
    (stepHits_changed _ 2 3 _ _ 2 _ _ _ _ _ _ _ _ executeMove_2_2422475771451514 (by decide) node_a_17 rfl)
    (stepHits_changed _ 2 3 _ _ 3 _ _ _ _ _ _ _ _ executeMove_3_2422475771451514 (by decide) node_a_20 rfl)
    _ (by norm_num)

theorem node_a_22 :
    NodeHits (tileNodeAudit tableEnv 3) 1 3
      [(0x10242475771451514, (1, (9 / 10))), (0x0242475771451514, (1, (4462694472736764471 / 439804651110400))), (0x13420475771451514, (2, (9 / 100))), (0x3420475771451514, (2, (4462694472736764471 / 43980465111040))), (0x10342475771451514, (2, (9 / 100))), (0x0342475771451514, (2, 0))] 0
      0x2420475771451514 (9 / 10) (4462694472736764471 / 439804651110400)
      [(0x12420475771451514, (1, (9 / 10))), (0x2420475771451514, (1, (4462694472736764471 / 439804651110400))), (0x12430475771451514, (2, (9 / 100))), (0x2430475771451514, (2, 0)), (0x10243475771451514, (2, (9 / 100))), (0x0243475771451514, (2, (4462694472736764471 / 43980465111040))), (0x10242475771451514, (1, (9 / 10))), (0x0242475771451514, (1, (4462694472736764471 / 439804651110400))), (0x13420475771451514, (2, (9 / 100))), (0x3420475771451514, (2, (4462694472736764471 / 43980465111040))), (0x10342475771451514, (2, (9 / 100))), (0x0342475771451514, (2, 0))] 0 :=
  nodeHits_expand tableEnv 2 1 3 _ _ _ _ _ _ 1 [12] (9 / 10) _ _
    (by norm_num [CPROB_THRESH_BASE, tableEnv]) (by decide) (Or.inl rfl)
    (by decide) (by decide) (by decide) (by norm_num [tableEnv, FloatEnv.fmul, FloatEnv.fadd, FloatEnv.fdiv])
    (foldHits_cons tableEnv _ 1 3 _ _ 12 _ _ _ _ _ _ _ _ _ _ _ _ _ _ _ _ (4462694472736764471 / 439804651110400) _
      (by decide) (by decide) (by norm_num [tableEnv, FloatEnv.fmul, FloatEnv.fadd, FloatEnv.fdiv])
      (by norm_num [tableEnv, FloatEnv.fmul, FloatEnv.fadd, FloatEnv.fdiv])
      move_a_12 move_a_21
      (by norm_num [tableEnv, FloatEnv.fmul, FloatEnv.fadd, FloatEnv.fdiv])
      (foldHits_nil tableEnv _ 1 3 _ _ _ _ _))
    (by norm_num [tableEnv, FloatEnv.fmul, FloatEnv.fadd, FloatEnv.fdiv])

theorem move_a_23 :
    NodeHits (scoreMoveNodeWith (tileNodeAudit tableEnv 3)) 0 3
      [] 0
      0x1142475771451514 (9 / 10) (4462694472736764471 / 439804651110400)
      [(0x12420475771451514, (1, (9 / 10))), (0x2420475771451514, (1, (4462694472736764471 / 439804651110400))), (0x12430475771451514, (2, (9 / 100))), (0x2430475771451514, (2, 0)), (0x10243475771451514, (2, (9 / 100))), (0x0243475771451514, (2, (4462694472736764471 / 43980465111040))), (0x10242475771451514, (1, (9 / 10))), (0x0242475771451514, (1, (4462694472736764471 / 439804651110400))), (0x13420475771451514, (2, (9 / 100))), (0x3420475771451514, (2, (4462694472736764471 / 43980465111040))), (0x10342475771451514, (2, (9 / 100))), (0x0342475771451514, (2, 0))] 0 :=
  nodeHits_move _ 0 3 _ _ _ _ _ _ _ _ _ _ _ _ _ _ _ _
    (stepHits_unchanged _ 1 3 _ _ 0 _ _ _ executeMove_0_1142475771451514)
    (stepHits_unchanged _ 1 3 _ _ 1 _ _ _ executeMove_1_1142475771451514)
    (stepHits_changed _ 1 3 _ _ 2 _ _ _ _ _ _ _ _ executeMove_2_1142475771451514 (by decide) node_a_11 rfl)
    (stepHits_changed _ 1 3 _ _ 3 _ _ _ _ _ _ _ _ executeMove_3_1142475771451514 (by decide) node_a_22 rfl)
    _ (by norm_num)

theorem move_a_24 :
    NodeHits (scoreMoveNodeWith (tileNodeAudit tableEnv 3)) 0 3
      [(0x12420475771451514, (1, (9 / 10))), (0x2420475771451514, (1, (4462694472736764471 / 439804651110400))), (0x12430475771451514, (2, (9 / 100))), (0x2430475771451514, (2, 0)), (0x10243475771451514, (2, (9 / 100))), (0x0243475771451514, (2, (4462694472736764471 / 43980465111040))), (0x10242475771451514, (1, (9 / 10))), (0x0242475771451514, (1, (4462694472736764471 / 439804651110400))), (0x13420475771451514, (2, (9 / 100))), (0x3420475771451514, (2, (4462694472736764471 / 43980465111040))), (0x10342475771451514, (2, (9 / 100))), (0x0342475771451514, (2, 0))] 0
      0x2142475771451514 (1 / 10) 0
      [(0x12420475771451514, (1, (9 / 10))), (0x2420475771451514, (1, (4462694472736764471 / 439804651110400))), (0x12430475771451514, (2, (9 / 100))), (0x2430475771451514, (2, 0)), (0x10243475771451514, (2, (9 / 100))), (0x0243475771451514, (2, (4462694472736764471 / 43980465111040))), (0x10242475771451514, (1, (9 / 10))), (0x0242475771451514, (1, (4462694472736764471 / 439804651110400))), (0x13420475771451514, (2, (9 / 100))), (0x3420475771451514, (2, (4462694472736764471 / 43980465111040))), (0x10342475771451514, (2, (9 / 100))), (0x0342475771451514, (2, 0))] 0 :=
  nodeHits_move _ 0 3 _ _ _ _ _ _ _ _ _ _ _ _ _ _ _ _
    (stepHits_unchanged _ 1 3 _ _ 0 _ _ _ executeMove_0_2142475771451514)
    (stepHits_unchanged _ 1 3 _ _ 1 _ _ _ executeMove_1_2142475771451514)
    (stepHits_unchanged _ 1 3 _ _ 2 _ _ _ executeMove_2_2142475771451514)
    (stepHits_unchanged _ 1 3 _ _ 3 _ _ _ executeMove_3_2142475771451514)
    _ (by norm_num)

theorem node_a_25 :
    NodeHits (tileNodeAudit tableEnv 4) 0 3
      [] 0
      0x0142475771451514 1 (40164250254630880239 / 4398046511104000)
      [(0x10142475771451514, (0, 1)), (0x0142475771451514, (0, (40164250254630880239 / 4398046511104000))), (0x12420475771451514, (1, (9 / 10))), (0x2420475771451514, (1, (4462694472736764471 / 439804651110400))), (0x12430475771451514, (2, (9 / 100))), (0x2430475771451514, (2, 0)), (0x10243475771451514, (2, (9 / 100))), (0x0243475771451514, (2, (4462694472736764471 / 43980465111040))), (0x10242475771451514, (1, (9 / 10))), (0x0242475771451514, (1, (4462694472736764471 / 439804651110400))), (0x13420475771451514, (2, (9 / 100))), (0x3420475771451514, (2, (4462694472736764471 / 43980465111040))), (0x10342475771451514, (2, (9 / 100))), (0x0342475771451514, (2, 0))] 0 :=
  nodeHits_expand tableEnv 3 0 3 _ _ _ _ _ _ 1 [15] 1 _ _
    (by norm_num [CPROB_THRESH_BASE, tableEnv]) (by decide) (Or.inl rfl)
    (by decide) (by decide) (by decide) (by norm_num [tableEnv, FloatEnv.fmul, FloatEnv.fadd, FloatEnv.fdiv])
    (foldHits_cons tableEnv _ 0 3 _ _ 15 _ _ _ _ _ _ _ _ _ _ _ _ _ _ _ _ (40164250254630880239 / 4398046511104000) _
      (by decide) (by decide) (by norm_num [tableEnv, FloatEnv.fmul, FloatEnv.fadd, FloatEnv.fdiv])
      (by norm_num [tableEnv, FloatEnv.fmul, FloatEnv.fadd, FloatEnv.fdiv])
      move_a_23 move_a_24
      (by norm_num [tableEnv, FloatEnv.fmul, FloatEnv.fadd, FloatEnv.fdiv])
      (foldHits_nil tableEnv _ 0 3 _ _ _ _ _))
    (by norm_num [tableEnv, FloatEnv.fmul, FloatEnv.fadd, FloatEnv.fdiv])

theorem top_a_2 : ∀ t : Nat → Option (Int × ℚ),
    (∀ x, t x = List.lookup x ([] : List (Nat × (Int × ℚ)))) →
    ∃ t2, topLevelAudit tableEnv t 0x1411475771451514 2 = some ((5020531282378615843763 / 549755813888000000), t2, 0) ∧
      ∀ x, t2 x = List.lookup x ([(0x10142475771451514, (0, 1)), (0x0142475771451514, (0, (40164250254630880239 / 4398046511104000))), (0x12420475771451514, (1, (9 / 10))), (0x2420475771451514, (1, (4462694472736764471 / 439804651110400))), (0x12430475771451514, (2, (9 / 100))), (0x2430475771451514, (2, 0)), (0x10243475771451514, (2, (9 / 100))), (0x0243475771451514, (2, (4462694472736764471 / 43980465111040))), (0x10242475771451514, (1, (9 / 10))), (0x0242475771451514, (1, (4462694472736764471 / 439804651110400))), (0x13420475771451514, (2, (9 / 100))), (0x3420475771451514, (2, (4462694472736764471 / 43980465111040))), (0x10342475771451514, (2, (9 / 100))), (0x0342475771451514, (2, 0))] : List (Nat × (Int × ℚ))) :=
  topLevelAudit_changed tableEnv _ 2 _ _ _ _ 4 3 4 _ _ executeMove_2_1411475771451514 (by decide)
    (by decide) (by decide) (by decide) node_a_25 (by norm_num [tableEnv])

theorem move_a_26 :
    NodeHits (scoreMoveNodeWith (tileNodeAudit tableEnv 3)) 0 3
      [(0x10142475771451514, (0, 1)), (0x0142475771451514, (0, (40164250254630880239 / 4398046511104000))), (0x12420475771451514, (1, (9 / 10))), (0x2420475771451514, (1, (4462694472736764471 / 439804651110400))), (0x12430475771451514, (2, (9 / 100))), (0x2430475771451514, (2, 0)), (0x10243475771451514, (2, (9 / 100))), (0x0243475771451514, (2, (4462694472736764471 / 43980465111040))), (0x10242475771451514, (1, (9 / 10))), (0x0242475771451514, (1, (4462694472736764471 / 439804651110400))), (0x13420475771451514, (2, (9 / 100))), (0x3420475771451514, (2, (4462694472736764471 / 43980465111040))), (0x10342475771451514, (2, (9 / 100))), (0x0342475771451514, (2, 0))] 0
      0x1421475771451514 (9 / 10) 0
      [(0x10142475771451514, (0, 1)), (0x0142475771451514, (0, (40164250254630880239 / 4398046511104000))), (0x12420475771451514, (1, (9 / 10))), (0x2420475771451514, (1, (4462694472736764471 / 439804651110400))), (0x12430475771451514, (2, (9 / 100))), (0x2430475771451514, (2, 0)), (0x10243475771451514, (2, (9 / 100))), (0x0243475771451514, (2, (4462694472736764471 / 43980465111040))), (0x10242475771451514, (1, (9 / 10))), (0x0242475771451514, (1, (4462694472736764471 / 439804651110400))), (0x13420475771451514, (2, (9 / 100))), (0x3420475771451514, (2, (4462694472736764471 / 43980465111040))), (0x10342475771451514, (2, (9 / 100))), (0x0342475771451514, (2, 0))] 0 :=
  nodeHits_move _ 0 3 _ _ _ _ _ _ _ _ _ _ _ _ _ _ _ _
    (stepHits_unchanged _ 1 3 _ _ 0 _ _ _ executeMove_0_1421475771451514)
    (stepHits_unchanged _ 1 3 _ _ 1 _ _ _ executeMove_1_1421475771451514)
    (stepHits_unchanged _ 1 3 _ _ 2 _ _ _ executeMove_2_1421475771451514)
    (stepHits_unchanged _ 1 3 _ _ 3 _ _ _ executeMove_3_1421475771451514)
    _ (by norm_num)

theorem node_a_27 :
    NodeHits (tileNodeAudit tableEnv 2) 2 3
      [(0x10142475771451514, (0, 1)), (0x0142475771451514, (0, (40164250254630880239 / 4398046511104000))), (0x12420475771451514, (1, (9 / 10))), (0x2420475771451514, (1, (4462694472736764471 / 439804651110400))), (0x12430475771451514, (2, (9 / 100))), (0x2430475771451514, (2, 0)), (0x10243475771451514, (2, (9 / 100))), (0x0243475771451514, (2, (4462694472736764471 / 43980465111040))), (0x10242475771451514, (1, (9 / 10))), (0x0242475771451514, (1, (4462694472736764471 / 439804651110400))), (0x13420475771451514, (2, (9 / 100))), (0x3420475771451514, (2, (4462694472736764471 / 43980465111040))), (0x10342475771451514, (2, (9 / 100))), (0x0342475771451514, (2, 0))] 0
      0x0243475771451514 (9 / 100) (4462694472736764471 / 43980465111040)
      [(0x10142475771451514, (0, 1)), (0x0142475771451514, (0, (40164250254630880239 / 4398046511104000))), (0x12420475771451514, (1, (9 / 10))), (0x2420475771451514, (1, (4462694472736764471 / 439804651110400))), (0x12430475771451514, (2, (9 / 100))), (0x2430475771451514, (2, 0)), (0x10243475771451514, (2, (9 / 100))), (0x0243475771451514, (2, (4462694472736764471 / 43980465111040))), (0x10242475771451514, (1, (9 / 10))), (0x0242475771451514, (1, (4462694472736764471 / 439804651110400))), (0x13420475771451514, (2, (9 / 100))), (0x3420475771451514, (2, (4462694472736764471 / 43980465111040))), (0x10342475771451514, (2, (9 / 100))), (0x0342475771451514, (2, 0))] 1 :=
  nodeHits_hit tableEnv 1 2 3 _ _ _ _ _ _ (by norm_num [CPROB_THRESH_BASE, tableEnv]) (by decide) rfl rfl (by norm_num)

theorem node_a_28 :
    NodeHits (tileNodeAudit tableEnv 2) 2 3
      [(0x10142475771451514, (0, 1)), (0x0142475771451514, (0, (40164250254630880239 / 4398046511104000))), (0x12420475771451514, (1, (9 / 10))), (0x2420475771451514, (1, (4462694472736764471 / 439804651110400))), (0x12430475771451514, (2, (9 / 100))), (0x2430475771451514, (2, 0)), (0x10243475771451514, (2, (9 / 100))), (0x0243475771451514, (2, (4462694472736764471 / 43980465111040))), (0x10242475771451514, (1, (9 / 10))), (0x0242475771451514, (1, (4462694472736764471 / 439804651110400))), (0x13420475771451514, (2, (9 / 100))), (0x3420475771451514, (2, (4462694472736764471 / 43980465111040))), (0x10342475771451514, (2, (9 / 100))), (0x0342475771451514, (2, 0))] 1
      0x2430475771451514 (9 / 100) 0
      [(0x10142475771451514, (0, 1)), (0x0142475771451514, (0, (40164250254630880239 / 4398046511104000))), (0x12420475771451514, (1, (9 / 10))), (0x2420475771451514, (1, (4462694472736764471 / 439804651110400))), (0x12430475771451514, (2, (9 / 100))), (0x2430475771451514, (2, 0)), (0x10243475771451514, (2, (9 / 100))), (0x0243475771451514, (2, (4462694472736764471 / 43980465111040))), (0x10242475771451514, (1, (9 / 10))), (0x0242475771451514, (1, (4462694472736764471 / 439804651110400))), (0x13420475771451514, (2, (9 / 100))), (0x3420475771451514, (2, (4462694472736764471 / 43980465111040))), (0x10342475771451514, (2, (9 / 100))), (0x0342475771451514, (2, 0))] 2 :=
  nodeHits_hit tableEnv 1 2 3 _ _ _ _ _ _ (by norm_num [CPROB_THRESH_BASE, tableEnv]) (by decide) rfl rfl (by norm_num)

theorem move_a_29 :
    NodeHits (scoreMoveNodeWith (tileNodeAudit tableEnv 2)) 1 3
      [(0x10142475771451514, (0, 1)), (0x0142475771451514, (0, (40164250254630880239 / 4398046511104000))), (0x12420475771451514, (1, (9 / 10))), (0x2420475771451514, (1, (4462694472736764471 / 439804651110400))), (0x12430475771451514, (2, (9 / 100))), (0x2430475771451514, (2, 0)), (0x10243475771451514, (2, (9 / 100))), (0x0243475771451514, (2, (4462694472736764471 / 43980465111040))), (0x10242475771451514, (1, (9 / 10))), (0x0242475771451514, (1, (4462694472736764471 / 439804651110400))), (0x13420475771451514, (2, (9 / 100))), (0x3420475771451514, (2, (4462694472736764471 / 43980465111040))), (0x10342475771451514, (2, (9 / 100))), (0x0342475771451514, (2, 0))] 0
      0x1143475771451514 (9 / 100) (4462694472736764471 / 43980465111040)
      [(0x10142475771451514, (0, 1)), (0x0142475771451514, (0, (40164250254630880239 / 4398046511104000))), (0x12420475771451514, (1, (9 / 10))), (0x2420475771451514, (1, (4462694472736764471 / 439804651110400))), (0x12430475771451514, (2, (9 / 100))), (0x2430475771451514, (2, 0)), (0x10243475771451514, (2, (9 / 100))), (0x0243475771451514, (2, (4462694472736764471 / 43980465111040))), (0x10242475771451514, (1, (9 / 10))), (0x0242475771451514, (1, (4462694472736764471 / 439804651110400))), (0x13420475771451514, (2, (9 / 100))), (0x3420475771451514, (2, (4462694472736764471 / 43980465111040))), (0x10342475771451514, (2, (9 / 100))), (0x0342475771451514, (2, 0))] 2 :=
  nodeHits_move _ 1 3 _ _ _ _ _ _ _ _ _ _ _ _ _ _ _ _
    (stepHits_unchanged _ 2 3 _ _ 0 _ _ _ executeMove_0_1143475771451514)
    (stepHits_unchanged _ 2 3 _ _ 1 _ _ _ executeMove_1_1143475771451514)
    (stepHits_changed _ 2 3 _ _ 2 _ _ _ _ _ _ _ _ executeMove_2_1143475771451514 (by decide) node_a_27 rfl)
    (stepHits_changed _ 2 3 _ _ 3 _ _ _ _ _ _ _ _ executeMove_3_1143475771451514 (by decide) node_a_28 rfl)
    _ (by norm_num)

theorem move_a_30 :
    NodeHits (scoreMoveNodeWith (tileNodeAudit tableEnv 2)) 1 3
      [(0x10142475771451514, (0, 1)), (0x0142475771451514, (0, (40164250254630880239 / 4398046511104000))), (0x12420475771451514, (1, (9 / 10))), (0x2420475771451514, (1, (4462694472736764471 / 439804651110400))), (0x12430475771451514, (2, (9 / 100))), (0x2430475771451514, (2, 0)), (0x10243475771451514, (2, (9 / 100))), (0x0243475771451514, (2, (4462694472736764471 / 43980465111040))), (0x10242475771451514, (1, (9 / 10))), (0x0242475771451514, (1, (4462694472736764471 / 439804651110400))), (0x13420475771451514, (2, (9 / 100))), (0x3420475771451514, (2, (4462694472736764471 / 43980465111040))), (0x10342475771451514, (2, (9 / 100))), (0x0342475771451514, (2, 0))] 2
      0x2143475771451514 (1 / 100) 0
      [(0x10142475771451514, (0, 1)), (0x0142475771451514, (0, (40164250254630880239 / 4398046511104000))), (0x12420475771451514, (1, (9 / 10))), (0x2420475771451514, (1, (4462694472736764471 / 439804651110400))), (0x12430475771451514, (2, (9 / 100))), (0x2430475771451514, (2, 0)), (0x10243475771451514, (2, (9 / 100))), (0x0243475771451514, (2, (4462694472736764471 / 43980465111040))), (0x10242475771451514, (1, (9 / 10))), (0x0242475771451514, (1, (4462694472736764471 / 439804651110400))), (0x13420475771451514, (2, (9 / 100))), (0x3420475771451514, (2, (4462694472736764471 / 43980465111040))), (0x10342475771451514, (2, (9 / 100))), (0x0342475771451514, (2, 0))] 2 :=
  nodeHits_move _ 1 3 _ _ _ _ _ _ _ _ _ _ _ _ _ _ _ _
    (stepHits_unchanged _ 2 3 _ _ 0 _ _ _ executeMove_0_2143475771451514)
    (stepHits_unchanged _ 2 3 _ _ 1 _ _ _ executeMove_1_2143475771451514)
    (stepHits_unchanged _ 2 3 _ _ 2 _ _ _ executeMove_2_2143475771451514)
    (stepHits_unchanged _ 2 3 _ _ 3 _ _ _ executeMove_3_2143475771451514)
    _ (by norm_num)

theorem node_a_31 :
    NodeHits (tileNodeAudit tableEnv 3) 1 3
      [(0x10142475771451514, (0, 1)), (0x0142475771451514, (0, (40164250254630880239 / 4398046511104000))), (0x12420475771451514, (1, (9 / 10))), (0x2420475771451514, (1, (4462694472736764471 / 439804651110400))), (0x12430475771451514, (2, (9 / 100))), (0x2430475771451514, (2, 0)), (0x10243475771451514, (2, (9 / 100))), (0x0243475771451514, (2, (4462694472736764471 / 43980465111040))), (0x10242475771451514, (1, (9 / 10))), (0x0242475771451514, (1, (4462694472736764471 / 439804651110400))), (0x13420475771451514, (2, (9 / 100))), (0x3420475771451514, (2, (4462694472736764471 / 43980465111040))), (0x10342475771451514, (2, (9 / 100))), (0x0342475771451514, (2, 0))] 0
      0x0143475771451514 (1 / 10) (40164250254630880239 / 439804651110400)
      [(0x10143475771451514, (1, (1 / 10))), (0x0143475771451514, (1, (40164250254630880239 / 439804651110400))), (0x10142475771451514, (0, 1)), (0x0142475771451514, (0, (40164250254630880239 / 4398046511104000))), (0x12420475771451514, (1, (9 / 10))), (0x2420475771451514, (1, (4462694472736764471 / 439804651110400))), (0x12430475771451514, (2, (9 / 100))), (0x2430475771451514, (2, 0)), (0x10243475771451514, (2, (9 / 100))), (0x0243475771451514, (2, (4462694472736764471 / 43980465111040))), (0x10242475771451514, (1, (9 / 10))), (0x0242475771451514, (1, (4462694472736764471 / 439804651110400))), (0x13420475771451514, (2, (9 / 100))), (0x3420475771451514, (2, (4462694472736764471 / 43980465111040))), (0x10342475771451514, (2, (9 / 100))), (0x0342475771451514, (2, 0))] 2 :=
  nodeHits_expand tableEnv 2 1 3 _ _ _ _ _ _ 1 [15] (1 / 10) _ _
    (by norm_num [CPROB_THRESH_BASE, tableEnv]) (by decide) (Or.inl rfl)
    (by decide) (by decide) (by decide) (by norm_num [tableEnv, FloatEnv.fmul, FloatEnv.fadd, FloatEnv.fdiv])
    (foldHits_cons tableEnv _ 1 3 _ _ 15 _ _ _ _ _ _ _ _ _ _ _ _ _ _ _ _ (40164250254630880239 / 439804651110400) _
      (by decide) (by decide) (by norm_num [tableEnv, FloatEnv.fmul, FloatEnv.fadd, FloatEnv.fdiv])
      (by norm_num [tableEnv, FloatEnv.fmul, FloatEnv.fadd, FloatEnv.fdiv])
      move_a_29 move_a_30
      (by norm_num [tableEnv, FloatEnv.fmul, FloatEnv.fadd, FloatEnv.fdiv])
      (foldHits_nil tableEnv _ 1 3 _ _ _ _ _))
    (by norm_num [tableEnv, FloatEnv.fmul, FloatEnv.fadd, FloatEnv.fdiv])

theorem move_a_32 :
    NodeHits (scoreMoveNodeWith (tileNodeAudit tableEnv 2)) 1 3
      [(0x10143475771451514, (1, (1 / 10))), (0x0143475771451514, (1, (40164250254630880239 / 439804651110400))), (0x10142475771451514, (0, 1)), (0x0142475771451514, (0, (40164250254630880239 / 4398046511104000))), (0x12420475771451514, (1, (9 / 10))), (0x2420475771451514, (1, (4462694472736764471 / 439804651110400))), (0x12430475771451514, (2, (9 / 100))), (0x2430475771451514, (2, 0)), (0x10243475771451514, (2, (9 / 100))), (0x0243475771451514, (2, (4462694472736764471 / 43980465111040))), (0x10242475771451514, (1, (9 / 10))), (0x0242475771451514, (1, (4462694472736764471 / 439804651110400))), (0x13420475771451514, (2, (9 / 100))), (0x3420475771451514, (2, (4462694472736764471 / 43980465111040))), (0x10342475771451514, (2, (9 / 100))), (0x0342475771451514, (2, 0))] 2
      0x1431475771451514 (9 / 100) 0
      [(0x10143475771451514, (1, (1 / 10))), (0x0143475771451514, (1, (40164250254630880239 / 439804651110400))), (0x10142475771451514, (0, 1)), (0x0142475771451514, (0, (40164250254630880239 / 4398046511104000))), (0x12420475771451514, (1, (9 / 10))), (0x2420475771451514, (1, (4462694472736764471 / 439804651110400))), (0x12430475771451514, (2, (9 / 100))), (0x2430475771451514, (2, 0)), (0x10243475771451514, (2, (9 / 100))), (0x0243475771451514, (2, (4462694472736764471 / 43980465111040))), (0x10242475771451514, (1, (9 / 10))), (0x0242475771451514, (1, (4462694472736764471 / 439804651110400))), (0x13420475771451514, (2, (9 / 100))), (0x3420475771451514, (2, (4462694472736764471 / 43980465111040))), (0x10342475771451514, (2, (9 / 100))), (0x0342475771451514, (2, 0))] 2 :=
  nodeHits_move _ 1 3 _ _ _ _ _ _ _ _ _ _ _ _ _ _ _ _
    (stepHits_unchanged _ 2 3 _ _ 0 _ _ _ executeMove_0_1431475771451514)
    (stepHits_unchanged _ 2 3 _ _ 1 _ _ _ executeMove_1_1431475771451514)
    (stepHits_unchanged _ 2 3 _ _ 2 _ _ _ executeMove_2_1431475771451514)
    (stepHits_unchanged _ 2 3 _ _ 3 _ _ _ executeMove_3_1431475771451514)
    _ (by norm_num)

theorem move_a_33 :
    NodeHits (scoreMoveNodeWith (tileNodeAudit tableEnv 2)) 1 3
      [(0x10143475771451514, (1, (1 / 10))), (0x0143475771451514, (1, (40164250254630880239 / 439804651110400))), (0x10142475771451514, (0, 1)), (0x0142475771451514, (0, (40164250254630880239 / 4398046511104000))), (0x12420475771451514, (1, (9 / 10))), (0x2420475771451514, (1, (4462694472736764471 / 439804651110400))), (0x12430475771451514, (2, (9 / 100))), (0x2430475771451514, (2, 0)), (0x10243475771451514, (2, (9 / 100))), (0x0243475771451514, (2, (4462694472736764471 / 43980465111040))), (0x10242475771451514, (1, (9 / 10))), (0x0242475771451514, (1, (4462694472736764471 / 439804651110400))), (0x13420475771451514, (2, (9 / 100))), (0x3420475771451514, (2, (4462694472736764471 / 43980465111040))), (0x10342475771451514, (2, (9 / 100))), (0x0342475771451514, (2, 0))] 2
      0x1432475771451514 (1 / 100) 0
      [(0x10143475771451514, (1, (1 / 10))), (0x0143475771451514, (1, (40164250254630880239 / 439804651110400))), (0x10142475771451514, (0, 1)), (0x0142475771451514, (0, (40164250254630880239 / 4398046511104000))), (0x12420475771451514, (1, (9 / 10))), (0x2420475771451514, (1, (4462694472736764471 / 439804651110400))), (0x12430475771451514, (2, (9 / 100))), (0x2430475771451514, (2, 0)), (0x10243475771451514, (2, (9 / 100))), (0x0243475771451514, (2, (4462694472736764471 / 43980465111040))), (0x10242475771451514, (1, (9 / 10))), (0x0242475771451514, (1, (4462694472736764471 / 439804651110400))), (0x13420475771451514, (2, (9 / 100))), (0x3420475771451514, (2, (4462694472736764471 / 43980465111040))), (0x10342475771451514, (2, (9 / 100))), (0x0342475771451514, (2, 0))] 2 :=
  nodeHits_move _ 1 3 _ _ _ _ _ _ _ _ _ _ _ _ _ _ _ _
    (stepHits_unchanged _ 2 3 _ _ 0 _ _ _ executeMove_0_1432475771451514)
    (stepHits_unchanged _ 2 3 _ _ 1 _ _ _ executeMove_1_1432475771451514)
    (stepHits_unchanged _ 2 3 _ _ 2 _ _ _ executeMove_2_1432475771451514)
    (stepHits_unchanged _ 2 3 _ _ 3 _ _ _ executeMove_3_1432475771451514)
    _ (by norm_num)

theorem node_a_34 :
    NodeHits (tileNodeAudit tableEnv 3) 1 3
      [(0x10143475771451514, (1, (1 / 10))), (0x0143475771451514, (1, (40164250254630880239 / 439804651110400))), (0x10142475771451514, (0, 1)), (0x0142475771451514, (0, (40164250254630880239 / 4398046511104000))), (0x12420475771451514, (1, (9 / 10))), (0x2420475771451514, (1, (4462694472736764471 / 439804651110400))), (0x12430475771451514, (2, (9 / 100))), (0x2430475771451514, (2, 0)), (0x10243475771451514, (2, (9 / 100))), (0x0243475771451514, (2, (4462694472736764471 / 43980465111040))), (0x10242475771451514, (1, (9 / 10))), (0x0242475771451514, (1, (4462694472736764471 / 439804651110400))), (0x13420475771451514, (2, (9 / 100))), (0x3420475771451514, (2, (4462694472736764471 / 43980465111040))), (0x10342475771451514, (2, (9 / 100))), (0x0342475771451514, (2, 0))] 2
      0x1430475771451514 (1 / 10) 0
      [(0x11430475771451514, (1, (1 / 10))), (0x1430475771451514, (1, 0)), (0x10143475771451514, (1, (1 / 10))), (0x0143475771451514, (1, (40164250254630880239 / 439804651110400))), (0x10142475771451514, (0, 1)), (0x0142475771451514, (0, (40164250254630880239 / 4398046511104000))), (0x12420475771451514, (1, (9 / 10))), (0x2420475771451514, (1, (4462694472736764471 / 439804651110400))), (0x12430475771451514, (2, (9 / 100))), (0x2430475771451514, (2, 0)), (0x10243475771451514, (2, (9 / 100))), (0x0243475771451514, (2, (4462694472736764471 / 43980465111040))), (0x10242475771451514, (1, (9 / 10))), (0x0242475771451514, (1, (4462694472736764471 / 439804651110400))), (0x13420475771451514, (2, (9 / 100))), (0x3420475771451514, (2, (4462694472736764471 / 43980465111040))), (0x10342475771451514, (2, (9 / 100))), (0x0342475771451514, (2, 0))] 2 :=
  nodeHits_expand tableEnv 2 1 3 _ _ _ _ _ _ 1 [12] (1 / 10) _ _
    (by norm_num [CPROB_THRESH_BASE, tableEnv]) (by decide) (Or.inl rfl)
    (by decide) (by decide) (by decide) (by norm_num [tableEnv, FloatEnv.fmul, FloatEnv.fadd, FloatEnv.fdiv])
    (foldHits_cons tableEnv _ 1 3 _ _ 12 _ _ _ _ _ _ _ _ _ _ _ _ _ _ _ _ 0 _
      (by decide) (by decide) (by norm_num [tableEnv, FloatEnv.fmul, FloatEnv.fadd, FloatEnv.fdiv])
      (by norm_num [tableEnv, FloatEnv.fmul, FloatEnv.fadd, FloatEnv.fdiv])
      move_a_32 move_a_33
      (by norm_num [tableEnv, FloatEnv.fmul, FloatEnv.fadd, FloatEnv.fdiv])
      (foldHits_nil tableEnv _ 1 3 _ _ _ _ _))
    (by norm_num [tableEnv, FloatEnv.fmul, FloatEnv.fadd, FloatEnv.fdiv])

theorem move_a_35 :
    NodeHits (scoreMoveNodeWith (tileNodeAudit tableEnv 3)) 0 3
      [(0x10142475771451514, (0, 1)), (0x0142475771451514, (0, (40164250254630880239 / 4398046511104000))), (0x12420475771451514, (1, (9 / 10))), (0x2420475771451514, (1, (4462694472736764471 / 439804651110400))), (0x12430475771451514, (2, (9 / 100))), (0x2430475771451514, (2, 0)), (0x10243475771451514, (2, (9 / 100))), (0x0243475771451514, (2, (4462694472736764471 / 43980465111040))), (0x10242475771451514, (1, (9 / 10))), (0x0242475771451514, (1, (4462694472736764471 / 439804651110400))), (0x13420475771451514, (2, (9 / 100))), (0x3420475771451514, (2, (4462694472736764471 / 43980465111040))), (0x10342475771451514, (2, (9 / 100))), (0x0342475771451514, (2, 0))] 0
      0x1422475771451514 (1 / 10) (40164250254630880239 / 439804651110400)
      [(0x11430475771451514, (1, (1 / 10))), (0x1430475771451514, (1, 0)), (0x10143475771451514, (1, (1 / 10))), (0x0143475771451514, (1, (40164250254630880239 / 439804651110400))), (0x10142475771451514, (0, 1)), (0x0142475771451514, (0, (40164250254630880239 / 4398046511104000))), (0x12420475771451514, (1, (9 / 10))), (0x2420475771451514, (1, (4462694472736764471 / 439804651110400))), (0x12430475771451514, (2, (9 / 100))), (0x2430475771451514, (2, 0)), (0x10243475771451514, (2, (9 / 100))), (0x0243475771451514, (2, (4462694472736764471 / 43980465111040))), (0x10242475771451514, (1, (9 / 10))), (0x0242475771451514, (1, (4462694472736764471 / 439804651110400))), (0x13420475771451514, (2, (9 / 100))), (0x3420475771451514, (2, (4462694472736764471 / 43980465111040))), (0x10342475771451514, (2, (9 / 100))), (0x0342475771451514, (2, 0))] 2 :=
  nodeHits_move _ 0 3 _ _ _ _ _ _ _ _ _ _ _ _ _ _ _ _
    (stepHits_unchanged _ 1 3 _ _ 0 _ _ _ executeMove_0_1422475771451514)
    (stepHits_unchanged _ 1 3 _ _ 1 _ _ _ executeMove_1_1422475771451514)
    (stepHits_changed _ 1 3 _ _ 2 _ _ _ _ _ _ _ _ executeMove_2_1422475771451514 (by decide) node_a_31 rfl)
    (stepHits_changed _ 1 3 _ _ 3 _ _ _ _ _ _ _ _ executeMove_3_1422475771451514 (by decide) node_a_34 rfl)
    _ (by norm_num)

theorem node_a_36 :
    NodeHits (tileNodeAudit tableEnv 4) 0 3
      [(0x10142475771451514, (0, 1)), (0x0142475771451514, (0, (40164250254630880239 / 4398046511104000))), (0x12420475771451514, (1, (9 / 10))), (0x2420475771451514, (1, (4462694472736764471 / 439804651110400))), (0x12430475771451514, (2, (9 / 100))), (0x2430475771451514, (2, 0)), (0x10243475771451514, (2, (9 / 100))), (0x0243475771451514, (2, (4462694472736764471 / 43980465111040))), (0x10242475771451514, (1, (9 / 10))), (0x0242475771451514, (1, (4462694472736764471 / 439804651110400))), (0x13420475771451514, (2, (9 / 100))), (0x3420475771451514, (2, (4462694472736764471 / 43980465111040))), (0x10342475771451514, (2, (9 / 100))), (0x0342475771451514, (2, 0))] 0
      0x1420475771451514 1 (40164250254630880239 / 4398046511104000)
      [(0x11420475771451514, (0, 1)), (0x1420475771451514, (0, (40164250254630880239 / 4398046511104000))), (0x11430475771451514, (1, (1 / 10))), (0x1430475771451514, (1, 0)), (0x10143475771451514, (1, (1 / 10))), (0x0143475771451514, (1, (40164250254630880239 / 439804651110400))), (0x10142475771451514, (0, 1)), (0x0142475771451514, (0, (40164250254630880239 / 4398046511104000))), (0x12420475771451514, (1, (9 / 10))), (0x2420475771451514, (1, (4462694472736764471 / 439804651110400))), (0x12430475771451514, (2, (9 / 100))), (0x2430475771451514, (2, 0)), (0x10243475771451514, (2, (9 / 100))), (0x0243475771451514, (2, (4462694472736764471 / 43980465111040))), (0x10242475771451514, (1, (9 / 10))), (0x0242475771451514, (1, (4462694472736764471 / 439804651110400))), (0x13420475771451514, (2, (9 / 100))), (0x3420475771451514, (2, (4462694472736764471 / 43980465111040))), (0x10342475771451514, (2, (9 / 100))), (0x0342475771451514, (2, 0))] 2 :=
  nodeHits_expand tableEnv 3 0 3 _ _ _ _ _ _ 1 [12] 1 _ _
    (by norm_num [CPROB_THRESH_BASE, tableEnv]) (by decide) (Or.inl rfl)
    (by decide) (by decide) (by decide) (by norm_num [tableEnv, FloatEnv.fmul, FloatEnv.fadd, FloatEnv.fdiv])
    (foldHits_cons tableEnv _ 0 3 _ _ 12 _ _ _ _ _ _ _ _ _ _ _ _ _ _ _ _ (40164250254630880239 / 4398046511104000) _
      (by decide) (by decide) (by norm_num [tableEnv, FloatEnv.fmul, FloatEnv.fadd, FloatEnv.fdiv])
      (by norm_num [tableEnv, FloatEnv.fmul, FloatEnv.fadd, FloatEnv.fdiv])
      move_a_26 move_a_35
      (by norm_num [tableEnv, FloatEnv.fmul, FloatEnv.fadd, FloatEnv.fdiv])
      (foldHits_nil tableEnv _ 0 3 _ _ _ _ _))
    (by norm_num [tableEnv, FloatEnv.fmul, FloatEnv.fadd, FloatEnv.fdiv])

theorem top_a_3 : ∀ t : Nat → Option (Int × ℚ),
    (∀ x, t x = List.lookup x ([(0x10142475771451514, (0, 1)), (0x0142475771451514, (0, (40164250254630880239 / 4398046511104000))), (0x12420475771451514, (1, (9 / 10))), (0x2420475771451514, (1, (4462694472736764471 / 439804651110400))), (0x12430475771451514, (2, (9 / 100))), (0x2430475771451514, (2, 0)), (0x10243475771451514, (2, (9 / 100))), (0x0243475771451514, (2, (4462694472736764471 / 43980465111040))), (0x10242475771451514, (1, (9 / 10))), (0x0242475771451514, (1, (4462694472736764471 / 439804651110400))), (0x13420475771451514, (2, (9 / 100))), (0x3420475771451514, (2, (4462694472736764471 / 43980465111040))), (0x10342475771451514, (2, (9 / 100))), (0x0342475771451514, (2, 0))] : List (Nat × (Int × ℚ)))) →
    ∃ t2, topLevelAudit tableEnv t 0x1411475771451514 3 = some ((5020531282378615843763 / 549755813888000000), t2, 2) ∧
      ∀ x, t2 x = List.lookup x ([(0x11420475771451514, (0, 1)), (0x1420475771451514, (0, (40164250254630880239 / 4398046511104000))), (0x11430475771451514, (1, (1 / 10))), (0x1430475771451514, (1, 0)), (0x10143475771451514, (1, (1 / 10))), (0x0143475771451514, (1, (40164250254630880239 / 439804651110400))), (0x10142475771451514, (0, 1)), (0x0142475771451514, (0, (40164250254630880239 / 4398046511104000))), (0x12420475771451514, (1, (9 / 10))), (0x2420475771451514, (1, (4462694472736764471 / 439804651110400))), (0x12430475771451514, (2, (9 / 100))), (0x2430475771451514, (2, 0)), (0x10243475771451514, (2, (9 / 100))), (0x0243475771451514, (2, (4462694472736764471 / 43980465111040))), (0x10242475771451514, (1, (9 / 10))), (0x0242475771451514, (1, (4462694472736764471 / 439804651110400))), (0x13420475771451514, (2, (9 / 100))), (0x3420475771451514, (2, (4462694472736764471 / 43980465111040))), (0x10342475771451514, (2, (9 / 100))), (0x0342475771451514, (2, 0))] : List (Nat × (Int × ℚ))) :=
  topLevelAudit_changed tableEnv _ 3 _ _ _ _ 4 3 4 _ _ executeMove_3_1411475771451514 (by decide)
    (by decide) (by decide) (by decide) node_a_36 (by norm_num [tableEnv])

theorem audit_scores_and_hits :
    allMovesAudit tableEnv [[16, 2, 32, 2], [32, 16, 2, 128], [128, 32, 128, 16], [2, 2, 16, 2]] =
      some ([0, 0, (5020531282378615843763 / 549755813888000000), (5020531282378615843763 / 549755813888000000)], 2) :=
  allMovesAudit_scores tableEnv _ 0x1411475771451514 _ _ _ _ _ _ _ _ _ _ _ _ _ (by decide)
    top_a_0 top_a_1 top_a_2 top_a_3 (by norm_num)

/-- C13, amended: for every grid on which every cache hit of the evaluation
with the transposition cache is exact, which means that the entry returned
was recorded at the current depth by a chance node that was called with the
same `cprob` (the audited evaluation `allMovesAudit` returns a result, the
four scores and the number of cache hits), the evaluation with the cache
counts that number of hits, and the evaluation with the cache bypassed (the
lookup never hits and nothing is stored) returns exactly the four scores of
`evaluateAllMoves`. -/
theorem cache_transparent_on_exact_hits (F : FloatEnv) (grid : List (List Int))
    (scores : List ℚ) (hits : Int) (h : allMovesAudit F grid = some (scores, hits)) :
    allMovesOn true F grid = some (scores, hits) ∧
      evaluateAllMoves F grid = some scores ∧
      (allMovesOn false F grid).map Prod.fst = some scores := by
  obtain ⟨hc, hu⟩ := allMovesAudit_tracks F grid scores hits h
  refine ⟨hc, ?_, hu⟩
  rw [← allMovesOn_true, hc]
  rfl

/-- Witness for C13: on the grid `[[16,2,32,2],[32,16,2,128],
[128,32,128,16],[2,2,16,2]]` the search for the move to the right makes two
cache hits, both at depth 2 on entries recorded at depth 2 with the same
`cprob` 0.09; the moves to the left and to the right score
`5020531282378615843763 / 549755813888000000` (about 9132.29) with the cache
and with the cache bypassed. -/
theorem cache_transparent_on_exact_hits_witness :
    allMovesAudit tableEnv
        [[16, 2, 32, 2], [32, 16, 2, 128], [128, 32, 128, 16], [2, 2, 16, 2]] =
        some ([0, 0, 5020531282378615843763 / 549755813888000000,
          5020531282378615843763 / 549755813888000000], 2) ∧
      allMovesOn true tableEnv
        [[16, 2, 32, 2], [32, 16, 2, 128], [128, 32, 128, 16], [2, 2, 16, 2]] =
        some ([0, 0, 5020531282378615843763 / 549755813888000000,
          5020531282378615843763 / 549755813888000000], 2) ∧
      evaluateAllMoves tableEnv
        [[16, 2, 32, 2], [32, 16, 2, 128], [128, 32, 128, 16], [2, 2, 16, 2]] =
        some [0, 0, 5020531282378615843763 / 549755813888000000,
          5020531282378615843763 / 549755813888000000] ∧
      (allMovesOn false tableEnv
        [[16, 2, 32, 2], [32, 16, 2, 128], [128, 32, 128, 16], [2, 2, 16, 2]]).map Prod.fst =
        some [0, 0, 5020531282378615843763 / 549755813888000000,
          5020531282378615843763 / 549755813888000000] :=
  ⟨audit_scores_and_hits,
    cache_transparent_on_exact_hits tableEnv _ _ 2 audit_scores_and_hits⟩

end AIEvaluator
